import Mathlib

/-!
# Connectivity-check engine of libnice (`agent/conncheck.c`)

A shallow embedding of the connectivity-check core and the properties proved about it.

Conventions of the embedding.

* C objects that are referenced through pointers (`CandidateCheckPair`, `NiceCandidate`,
  `NiceSocket`) carry a field `ptr`, their address.  Pointer comparison in C
  (`pair->local == localcand`, `g_slist_find (queue, pair)`) is comparison of `ptr` fields.
  Lists that hold pointers to pairs owned elsewhere (the triggered-check queue, the
  `succeeded_pair` / `discovered_pair` links) hold addresses; the conncheck list of a stream
  owns its pairs and holds the records.
* A write through a pair pointer (`p->state = s`) is `NiceAgent.updatePair`, which rewrites
  every record with that address in every conncheck list.
* Streams and components are passed by their ids, which identify them; `g_slice_new0` is
  passed the address it returns; `g_get_monotonic_time` is the argument `now`, read once per handler.
* `g_assert` conditions are preconditions of the embedded functions; `nice_debug` output is
  not embedded.
* Collaborators whose code is outside `conncheck.c` (the STUN codec and timers, candidate
  priorities, the gathering module, the clock) are the fields of `Ext`.
* `agent_socket_send` appends to the ghost field `NiceAgent.sent`; component state signals
  append to the ghost field `NiceAgent.signals`.
* Unsigned machine integers are `Nat`, reduced `% 2^w` where the C arithmetic can wrap.
-/

namespace Libnice

/-! ## Enumerations -/

/-- The C enum `NiceCheckState`. -/
inductive NiceCheckState where
  | NICE_CHECK_WAITING
  | NICE_CHECK_IN_PROGRESS
  | NICE_CHECK_SUCCEEDED
  | NICE_CHECK_FAILED
  | NICE_CHECK_FROZEN
  | NICE_CHECK_DISCOVERED
deriving DecidableEq, Repr, Inhabited

/-- The C enum `NiceCompatibility`. -/
inductive NiceCompatibility where
  | NICE_COMPATIBILITY_RFC5245
  | NICE_COMPATIBILITY_GOOGLE
  | NICE_COMPATIBILITY_MSN
  | NICE_COMPATIBILITY_WLM2009
  | NICE_COMPATIBILITY_OC2007
  | NICE_COMPATIBILITY_OC2007R2
deriving DecidableEq, Repr, Inhabited

/-- The C enum `NiceNominationMode`. -/
inductive NiceNominationMode where
  | NICE_NOMINATION_MODE_REGULAR
  | NICE_NOMINATION_MODE_AGGRESSIVE
deriving DecidableEq, Repr, Inhabited

/-- The C enum `NiceCandidateType`. -/
inductive NiceCandidateType where
  | NICE_CANDIDATE_TYPE_HOST
  | NICE_CANDIDATE_TYPE_SERVER_REFLEXIVE
  | NICE_CANDIDATE_TYPE_PEER_REFLEXIVE
  | NICE_CANDIDATE_TYPE_RELAYED
deriving DecidableEq, Repr, Inhabited

/-- The C enum `NiceCandidateTransport`. -/
inductive NiceCandidateTransport where
  | NICE_CANDIDATE_TRANSPORT_UDP
  | NICE_CANDIDATE_TRANSPORT_TCP_ACTIVE
  | NICE_CANDIDATE_TRANSPORT_TCP_PASSIVE
  | NICE_CANDIDATE_TRANSPORT_TCP_SO
deriving DecidableEq, Repr, Inhabited

/-- The C enum `NiceSocketType`. -/
inductive NiceSocketType where
  | NICE_SOCKET_TYPE_UDP_BSD
  | NICE_SOCKET_TYPE_TCP_BSD
  | NICE_SOCKET_TYPE_PSEUDOSSL
  | NICE_SOCKET_TYPE_HTTP
  | NICE_SOCKET_TYPE_SOCKS5
  | NICE_SOCKET_TYPE_UDP_TURN
  | NICE_SOCKET_TYPE_UDP_TURN_OVER_TCP
  | NICE_SOCKET_TYPE_TCP_ACTIVE
  | NICE_SOCKET_TYPE_TCP_PASSIVE
  | NICE_SOCKET_TYPE_TCP_SO
deriving DecidableEq, Repr, Inhabited

/-- The C enum `NiceComponentState`, in its numeric order. -/
inductive NiceComponentState where
  | NICE_COMPONENT_STATE_DISCONNECTED
  | NICE_COMPONENT_STATE_GATHERING
  | NICE_COMPONENT_STATE_CONNECTING
  | NICE_COMPONENT_STATE_CONNECTED
  | NICE_COMPONENT_STATE_READY
  | NICE_COMPONENT_STATE_FAILED
deriving DecidableEq, Repr, Inhabited

/-- Numeric value of a component state, used by the `<` tests of the C code. -/
def NiceComponentState.toNat : NiceComponentState → Nat
  | .NICE_COMPONENT_STATE_DISCONNECTED => 0
  | .NICE_COMPONENT_STATE_GATHERING => 1
  | .NICE_COMPONENT_STATE_CONNECTING => 2
  | .NICE_COMPONENT_STATE_CONNECTED => 3
  | .NICE_COMPONENT_STATE_READY => 4
  | .NICE_COMPONENT_STATE_FAILED => 5

/-- The C enum `StunUsageIceReturn`: what the codec reports for a response. -/
inductive StunUsageIceReturn where
  | STUN_USAGE_ICE_RETURN_SUCCESS
  | STUN_USAGE_ICE_RETURN_ERROR
  | STUN_USAGE_ICE_RETURN_INVALID
  | STUN_USAGE_ICE_RETURN_ROLE_CONFLICT
  | STUN_USAGE_ICE_RETURN_INVALID_REQUEST
  | STUN_USAGE_ICE_RETURN_INVALID_METHOD
  | STUN_USAGE_ICE_RETURN_MEMORY_ERROR
  | STUN_USAGE_ICE_RETURN_INVALID_ADDRESS
  | STUN_USAGE_ICE_RETURN_NO_MAPPED_ADDRESS
deriving DecidableEq, Repr, Inhabited

/-- The C enum `StunUsageTimerReturn`. -/
inductive StunUsageTimerReturn where
  | STUN_USAGE_TIMER_RETURN_SUCCESS
  | STUN_USAGE_TIMER_RETURN_RETRANSMIT
  | STUN_USAGE_TIMER_RETURN_TIMEOUT
deriving DecidableEq, Repr, Inhabited

open NiceCheckState NiceCompatibility NiceNominationMode NiceCandidateType
open NiceCandidateTransport NiceSocketType NiceComponentState
open StunUsageIceReturn StunUsageTimerReturn

/-! ## Records -/

/-- A socket-layer address (`NiceAddress`): an IP address and a port. -/
structure NiceAddress where
  ip : Nat
  port : Nat
deriving DecidableEq, Repr, Inhabited

/-- The part of `NiceSocket` the engine reads.  `has_fileno` is `fileno != NULL`;
`passive_parent` is the answer of `nice_tcp_bsd_socket_get_passive_parent`; `reliable` is the
answer of `nice_socket_is_reliable`. -/
structure NiceSocket where
  ptr : Nat
  type : NiceSocketType
  addr : NiceAddress
  has_fileno : Bool
  passive_parent : Bool
  reliable : Bool
deriving DecidableEq, Repr, Inhabited

/-- The part of `NiceCandidate` the engine reads.  `username` and `password` are `none` for a
NULL pointer. -/
structure NiceCandidate where
  ptr : Nat
  type : NiceCandidateType
  transport : NiceCandidateTransport
  addr : NiceAddress
  base_addr : NiceAddress
  priority : Nat
  component_id : Nat
  foundation : String
  sockptr : NiceSocket
  username : Option String
  password : Option String
deriving DecidableEq, Repr, Inhabited

/-- A STUN retransmission timer (`StunTimer`). -/
structure StunTimer where
  delay : Nat
  retransmissions : Nat
  max_retransmissions : Nat
deriving DecidableEq, Repr, Inhabited

/-- An encoded STUN binding request, as far as the engine looks into it: its length, its
transaction id and the attributes it asked the codec to put in. -/
structure StunMessage where
  length : Nat
  id : Nat
  use_candidate : Bool
  ice_controlling : Bool
  ice_controlled : Bool
  priority : Nat
deriving DecidableEq, Repr, Inhabited

/-- An in-flight transaction of a pair (`StunTransaction`).  `next_tick` is in microseconds.
A transaction is referred to by its position in the list of its pair. -/
structure StunTransaction where
  next_tick : Int
  timer : StunTimer
  message : StunMessage
deriving DecidableEq, Repr, Inhabited

/-- A candidate check pair (`CandidateCheckPair`).  `succeeded_pair` and `discovered_pair`
hold the address of the linked pair, `none` for NULL. -/
structure CandidateCheckPair where
  ptr : Nat
  stream_id : Nat
  component_id : Nat
  local_ : NiceCandidate
  remote : NiceCandidate
  sockptr : NiceSocket
  foundation : String
  state : NiceCheckState
  nominated : Bool
  valid : Bool
  use_candidate_on_next_check : Bool
  mark_nominated_on_response_arrival : Bool
  retransmit : Bool
  discovered_pair : Option Nat
  succeeded_pair : Option Nat
  priority : Nat
  stun_priority : Nat
  stun_transactions : List StunTransaction
deriving DecidableEq, Repr, Inhabited

/-- The selected pair of a component (`CandidatePair`); `local` and `remote` are `none` for
NULL. -/
structure CandidatePair where
  local_ : Option NiceCandidate
  remote : Option NiceCandidate
  priority : Nat
  stun_priority : Nat
deriving DecidableEq, Repr, Inhabited

/-- An early incoming check stored until the remote credentials are known. -/
structure IncomingCheck where
  from_ : NiceAddress
  local_socket : NiceSocket
  priority : Nat
  use_candidate : Bool
  username : Option String
deriving DecidableEq, Repr, Inhabited

/-- The part of `NiceComponent` the engine uses. -/
structure NiceComponent where
  id : Nat
  state : NiceComponentState
  selected_pair : CandidatePair
  local_candidates : List NiceCandidate
  remote_candidates : List NiceCandidate
  incoming_checks : List IncomingCheck
deriving DecidableEq, Repr, Inhabited

/-- The part of `NiceStream` the engine uses.  The conncheck list owns its pairs. -/
structure NiceStream where
  id : Nat
  n_components : Nat
  components : List NiceComponent
  conncheck_list : List CandidateCheckPair
  local_ufrag : String
  remote_ufrag : String
  tick_counter : Nat
deriving DecidableEq, Repr, Inhabited

/-- An entry of the agent's discovery list (`CandidateDiscovery`). -/
structure CandidateDiscovery where
  stream_id : Nat
  done : Bool
deriving DecidableEq, Repr, Inhabited

/-- One call of `agent_socket_send`: the socket, the destination and the length. -/
structure SentMessage where
  sock : Nat
  dest : NiceAddress
  len : Nat
deriving DecidableEq, Repr, Inhabited

/-- One call of `agent_signal_component_state_change`. -/
structure StateSignal where
  stream_id : Nat
  component_id : Nat
  state : NiceComponentState
deriving DecidableEq, Repr, Inhabited

/-- The part of `NiceAgent` the engine uses, with the ghost logs `sent` and `signals`.
`conncheck_timer_running` is `conncheck_timer_source != NULL`. -/
structure NiceAgent where
  streams : List NiceStream
  triggered_check_queue : List Nat
  controlling_mode : Bool
  compatibility : NiceCompatibility
  nomination_mode : NiceNominationMode
  force_relay : Bool
  reliable : Bool
  support_renomination : Bool
  max_conn_checks : Nat
  timer_ta : Nat
  idle_timeout : Nat
  conncheck_ongoing_idle_delay : Nat
  stun_max_retransmissions : Nat
  stun_initial_timeout : Nat
  stun_reliable_timeout : Nat
  tie_breaker : Nat
  discovery_list : List CandidateDiscovery
  conncheck_timer_running : Bool
  sent : List SentMessage
  signals : List StateSignal
deriving DecidableEq, Repr, Inhabited

/-- A decoded STUN response handed to the response matcher: its transaction id, what
`stun_usage_ice_conncheck_process` returns for it, and the mapped address it carries. -/
structure StunResponse where
  id : Nat
  res : StunUsageIceReturn
  mapped : NiceAddress
deriving DecidableEq, Repr, Inhabited

/-- The collaborators of the engine whose code is outside `conncheck.c`. -/
structure Ext where
  /-- The function `agent_candidate_pair_priority` of `agent.c`, as a function of the agent's
  role and the two candidates. -/
  agent_candidate_pair_priority : Bool → NiceCandidate → NiceCandidate → Nat
  /-- The function `nice_candidate_pair_priority` of `candidate.c`. -/
  nice_candidate_pair_priority : Nat → Nat → Nat
  /-- The function `nice_candidate_jingle_priority`. -/
  nice_candidate_jingle_priority : NiceCandidate → Nat
  /-- The function `nice_candidate_msn_priority`. -/
  nice_candidate_msn_priority : NiceCandidate → Nat
  /-- The function `nice_candidate_ms_ice_priority`. -/
  nice_candidate_ms_ice_priority : NiceCandidate → Bool → Bool → Nat
  /-- The function `nice_candidate_ice_priority`. -/
  nice_candidate_ice_priority : NiceCandidate → Bool → Bool → Nat
  /-- The function `discovery_add_peer_reflexive_candidate` of the gathering module: the
  candidate it created and registered, `none` when it failed. -/
  discovery_add_peer_reflexive_candidate :
    Nat → Nat → Nat → NiceAddress → NiceSocket → Option NiceCandidate → NiceCandidate →
      Option NiceCandidate
  /-- The function `stun_timer_refresh`: the verdict and the timer after the call. -/
  stun_timer_refresh : StunTimer → Int → StunUsageTimerReturn × StunTimer
  /-- The function `stun_timer_remainder`, in milliseconds. -/
  stun_timer_remainder : StunTimer → Int → Nat
  /-- The function `stun_timer_start`. -/
  stun_timer_start : Nat → Nat → StunTimer
  /-- The function `stun_timer_start_reliable`. -/
  stun_timer_start_reliable : Nat → StunTimer
  /-- The transaction id the codec draws for a new request. -/
  stun_new_transaction_id : NiceAgent → CandidateCheckPair → Nat
  /-- The length `stun_usage_ice_conncheck_create` returns, 0 on failure. -/
  stun_usage_ice_conncheck_create_len : NiceAgent → CandidateCheckPair → Nat
  /-- Length of the output of `g_base64_decode`. -/
  g_base64_decode_len : String → Nat
  /-- The function `nice_tcp_active_socket_connect`. -/
  nice_tcp_active_socket_connect : NiceSocket → NiceAddress → Option NiceSocket
  /-- Whether `ms_ice2_legacy_conncheck_send` resends the request: legacy connchecks are
  enabled and the message has a 4-byte FINGERPRINT. -/
  ms_ice2_legacy_conncheck_resends : StunMessage → Bool
  /-- The messages `priv_conn_keepalive_tick_unlocked` hands to `agent_socket_send`. -/
  keepalive_messages : NiceAgent → List SentMessage
  /-- The constant `NICE_CANDIDATE_PAIR_MAX_FOUNDATION`. -/
  NICE_CANDIDATE_PAIR_MAX_FOUNDATION : Nat
  /-- The constant `NICE_STREAM_MAX_UNAME`. -/
  NICE_STREAM_MAX_UNAME : Nat
  /-- The constant `STUN_TIMER_DEFAULT_TIMEOUT`. -/
  STUN_TIMER_DEFAULT_TIMEOUT : Nat
  /-- The member `s.addr.sa_family` of a `NiceAddress` (`address.h`, not in the sources). -/
  sa_family : NiceAddress → Nat

/-! ## GLib singly linked lists -/

/-- GLib's `g_slist_find`: whether `data` occurs in the list. -/
def g_slist_find (list : List Nat) (data : Nat) : Bool :=
  list.any (fun x => x == data)

/-- GLib's `g_slist_append`. -/
def g_slist_append {α : Type} (list : List α) (data : α) : List α :=
  list ++ [data]

/-- GLib's `g_slist_prepend`. -/
def g_slist_prepend {α : Type} (list : List α) (data : α) : List α :=
  data :: list

/-- GLib's `g_slist_remove`: removes the first node whose data is `data`. -/
def g_slist_remove : List Nat → Nat → List Nat
  | [], _ => []
  | x :: xs, data => if x = data then xs else x :: g_slist_remove xs data

/-- GLib's `g_slist_insert_sorted`: the new node goes before the first node for which
`func (data, node) <= 0`, at the tail when there is none. -/
def g_slist_insert_sorted {α : Type} (list : List α) (data : α) (func : α → α → Int) : List α :=
  match list with
  | [] => [data]
  | x :: xs =>
    if func data x > 0 then x :: g_slist_insert_sorted xs data func
    else data :: x :: xs

/-- GLib's `g_slist_sort`, a stable sort.  GLib implements it as a merge sort; a stable sort
has one possible result, which is computed here by inserting the elements from the last to
the first, each before the first element that does not compare lower. -/
def g_slist_sort {α : Type} (list : List α) (func : α → α → Int) : List α :=
  list.foldr (fun x acc => g_slist_insert_sorted acc x func) []

/-! ## Lookups and writes through pointers -/

/-- Modelled from the spec: `agent_find_stream` of `agent.c` (not in the sources), the first
stream of the agent with the given id. -/
def agent_find_stream (agent : NiceAgent) (stream_id : Nat) : Option NiceStream :=
  agent.streams.find? (fun s => s.id == stream_id)

/-- Modelled from the spec: `nice_stream_find_component_by_id` of `stream.c` (not in the
sources), the first component of the stream with the given id. -/
def nice_stream_find_component_by_id (stream : NiceStream) (id : Nat) : Option NiceComponent :=
  stream.components.find? (fun c => c.id == id)

/-- Modelled from the spec: `agent_find_component` of `agent.c` (not in the sources): the
stream with the given id and its component with the given id. -/
def agent_find_component (agent : NiceAgent) (stream_id component_id : Nat) :
    Option (NiceStream × NiceComponent) :=
  match agent_find_stream agent stream_id with
  | none => none
  | some s =>
    match nice_stream_find_component_by_id s component_id with
    | none => none
    | some c => some (s, c)

/-- Every pair of every conncheck list, streams in agent order, pairs in list order. -/
def NiceAgent.allPairs (agent : NiceAgent) : List CandidateCheckPair :=
  agent.streams.flatMap (fun s => s.conncheck_list)

/-- Dereference of a pair pointer: the record at that address. -/
def NiceAgent.findPair (agent : NiceAgent) (p : Nat) : Option CandidateCheckPair :=
  agent.allPairs.find? (fun q => q.ptr == p)

/-- Rewrites every pair of a list that has address `p`. -/
def updatePairIn (l : List CandidateCheckPair) (p : Nat)
    (f : CandidateCheckPair → CandidateCheckPair) : List CandidateCheckPair :=
  l.map (fun q => if q.ptr = p then f q else q)

/-- A write through the pair pointer `p`. -/
def NiceAgent.updatePair (agent : NiceAgent) (p : Nat)
    (f : CandidateCheckPair → CandidateCheckPair) : NiceAgent :=
  { agent with
    streams := agent.streams.map (fun s =>
      { s with conncheck_list := updatePairIn s.conncheck_list p f }) }

/-- A write through the stream pointer of the stream with the given id. -/
def NiceAgent.updateStream (agent : NiceAgent) (stream_id : Nat)
    (f : NiceStream → NiceStream) : NiceAgent :=
  { agent with streams := agent.streams.map (fun s => if s.id = stream_id then f s else s) }

/-- A write through the component pointer of the component with the given ids. -/
def NiceAgent.updateComponent (agent : NiceAgent) (stream_id component_id : Nat)
    (f : NiceComponent → NiceComponent) : NiceAgent :=
  agent.updateStream stream_id (fun s =>
    { s with components := s.components.map (fun c => if c.id = component_id then f c else c) })

/-- The macro `SET_PAIR_STATE`. -/
def SET_PAIR_STATE (agent : NiceAgent) (p : Nat) (s : NiceCheckState) : NiceAgent :=
  agent.updatePair p (fun q => { q with state := s })

/-- The macro `NICE_AGENT_IS_COMPATIBLE_WITH_RFC5245_OR_OC2007R2` of `agent-priv.h`. -/
def NICE_AGENT_IS_COMPATIBLE_WITH_RFC5245_OR_OC2007R2 (agent : NiceAgent) : Bool :=
  agent.compatibility == NICE_COMPATIBILITY_RFC5245 ||
  agent.compatibility == NICE_COMPATIBILITY_OC2007R2

/-- Modelled from the spec: `nice_address_equal` of `address.c` (not in the sources), equality
of address and port. -/
def nice_address_equal (a b : NiceAddress) : Bool :=
  a.ip == b.ip && a.port == b.port

/-- Modelled from the spec: `nice_address_equal_no_port` of `address.c` (not in the sources),
equality of the addresses ignoring the port. -/
def nice_address_equal_no_port (a b : NiceAddress) : Bool :=
  a.ip == b.ip

/-- Modelled from the spec: `agent_signal_component_state_change` of `agent.c` (not in the
sources): records the transition of the component and signals it; nothing happens when the
component is unknown or already in that state. -/
def agent_signal_component_state_change (agent : NiceAgent) (stream_id component_id : Nat)
    (new_state : NiceComponentState) : NiceAgent :=
  match agent_find_component agent stream_id component_id with
  | none => agent
  | some (_, c) =>
    if c.state = new_state then agent
    else
      let a := agent.updateComponent stream_id component_id
        (fun c => { c with state := new_state })
      { a with signals := a.signals ++ [⟨stream_id, component_id, new_state⟩] }

/-- The function `agent_socket_send`, as seen by the engine: the message leaves. -/
def agent_socket_send (agent : NiceAgent) (sock : NiceSocket) (dest : NiceAddress) (len : Nat) :
    NiceAgent :=
  { agent with sent := agent.sent ++ [⟨sock.ptr, dest, len⟩] }

/-! ## The triggered-check queue -/

/-- The function `priv_add_pair_to_triggered_check_queue`. -/
def priv_add_pair_to_triggered_check_queue (agent : NiceAgent) (pair : Nat) : NiceAgent :=
  if agent.triggered_check_queue = [] ∨ g_slist_find agent.triggered_check_queue pair = false then
    { agent with triggered_check_queue := g_slist_append agent.triggered_check_queue pair }
  else agent

/-- The function `priv_remove_pair_from_triggered_check_queue`. -/
def priv_remove_pair_from_triggered_check_queue (agent : NiceAgent) (pair : Nat) : NiceAgent :=
  { agent with triggered_check_queue := g_slist_remove agent.triggered_check_queue pair }

/-- The function `priv_get_pair_from_triggered_check_queue`: the head of the queue, removed
from it; `none` for an empty queue. -/
def priv_get_pair_from_triggered_check_queue (agent : NiceAgent) : Option Nat × NiceAgent :=
  match agent.triggered_check_queue with
  | [] => (none, agent)
  | pair :: _ => (some pair, priv_remove_pair_from_triggered_check_queue agent pair)

/-- The function `conn_check_compare`: descending priority order. -/
def conn_check_compare (a b : CandidateCheckPair) : Int :=
  if a.priority > b.priority then -1
  else if a.priority < b.priority then 1
  else 0

/-! ## STUN transactions of a pair -/

/-- The function `priv_add_stun_transaction`: a zeroed transaction is prepended. -/
def priv_add_stun_transaction (pair : CandidateCheckPair) : CandidateCheckPair :=
  { pair with
    stun_transactions := g_slist_prepend pair.stun_transactions default
    retransmit := true }

/-- The function `priv_remove_stun_transaction`, for the transaction at position `k`. -/
def priv_remove_stun_transaction (pair : CandidateCheckPair) (k : Nat) : CandidateCheckPair :=
  let l := pair.stun_transactions.eraseIdx k
  { pair with stun_transactions := l, retransmit := if l = [] then false else pair.retransmit }

/-- The function `priv_free_all_stun_transactions`. -/
def priv_free_all_stun_transactions (pair : CandidateCheckPair) : CandidateCheckPair :=
  { pair with stun_transactions := [], retransmit := false }

/-- The function `candidate_check_pair_fail`. -/
def candidate_check_pair_fail (agent : NiceAgent) (p : Nat) : NiceAgent :=
  agent.updatePair p (fun q => priv_free_all_stun_transactions { q with state := NICE_CHECK_FAILED })

/-- The function `candidate_check_pair_free`, as far as the agent is concerned: the pair leaves
the triggered-check queue (the caller unlinks it from its conncheck list). -/
def candidate_check_pair_free (agent : NiceAgent) (pair : Nat) : NiceAgent :=
  priv_remove_pair_from_triggered_check_queue agent pair

/-! ## Unfreezing -/

/-- The function `priv_conn_check_find_next_waiting`. -/
def priv_conn_check_find_next_waiting (conn_check_list : List CandidateCheckPair) :
    Option CandidateCheckPair :=
  conn_check_list.find? (fun p => p.state == NICE_CHECK_WAITING)

/-- The C test `strncmp (a, b, n) == 0` on NUL-terminated strings. -/
def strncmp_eq (a b : String) (n : Nat) : Bool :=
  a.data.take n == b.data.take n

/-- The second loop of `priv_conn_check_unfreeze_next` over one conncheck list; the
accumulator is `foundation_list`. -/
def priv_conn_check_unfreeze_next_list :
    List CandidateCheckPair → List String → List CandidateCheckPair × List String
  | [], foundation_list => ([], foundation_list)
  | p :: ps, foundation_list =>
    if foundation_list.any (fun f => f == p.foundation) then
      let r := priv_conn_check_unfreeze_next_list ps foundation_list
      (p :: r.1, r.2)
    else if p.state = NICE_CHECK_FROZEN then
      let r := priv_conn_check_unfreeze_next_list ps (g_slist_prepend foundation_list p.foundation)
      ({ p with state := NICE_CHECK_WAITING } :: r.1, r.2)
    else
      let r := priv_conn_check_unfreeze_next_list ps foundation_list
      (p :: r.1, r.2)

/-- The second loop of `priv_conn_check_unfreeze_next` over the streams. -/
def priv_conn_check_unfreeze_next_streams :
    List NiceStream → List String → List NiceStream × List String
  | [], foundation_list => ([], foundation_list)
  | s :: ss, foundation_list =>
    let r := priv_conn_check_unfreeze_next_list s.conncheck_list foundation_list
    let rs := priv_conn_check_unfreeze_next_streams ss r.2
    ({ s with conncheck_list := r.1 } :: rs.1, rs.2)

/-- The function `priv_conn_check_unfreeze_next`: the returned flag and the agent. -/
def priv_conn_check_unfreeze_next (agent : NiceAgent) : Bool × NiceAgent :=
  if agent.allPairs.any (fun p => p.state == NICE_CHECK_WAITING) then (true, agent)
  else
    let r := priv_conn_check_unfreeze_next_streams agent.streams []
    (decide (r.2 ≠ []), { agent with streams := r.1 })

/-- The function `conn_check_unfreeze_related`; `pair` is the pair whose check succeeded
(precondition: it is in state Succeeded). -/
def conn_check_unfreeze_related (E : Ext) (agent : NiceAgent) (pair : CandidateCheckPair) :
    NiceAgent :=
  { agent with
    streams := agent.streams.map (fun s =>
      { s with
        conncheck_list := s.conncheck_list.map (fun p =>
          if p.state = NICE_CHECK_FROZEN ∧
              strncmp_eq p.foundation pair.foundation E.NICE_CANDIDATE_PAIR_MAX_FOUNDATION = true
          then { p with state := NICE_CHECK_WAITING } else p) }) }

/-- The function `priv_conn_check_unfreeze_maybe`; `pair` is a pair in state Frozen. -/
def priv_conn_check_unfreeze_maybe (E : Ext) (agent : NiceAgent) (pair : CandidateCheckPair) :
    NiceAgent :=
  if agent.allPairs.any (fun p => p.state == NICE_CHECK_SUCCEEDED &&
      strncmp_eq p.foundation pair.foundation E.NICE_CANDIDATE_PAIR_MAX_FOUNDATION) then
    SET_PAIR_STATE agent pair.ptr NICE_CHECK_WAITING
  else agent

/-- The function `conn_check_stun_transactions_count`. -/
def conn_check_stun_transactions_count (agent : NiceAgent) : Nat :=
  (agent.allPairs.map (fun p => p.stun_transactions.length)).sum

/-! ## Sending a check -/

/-- The length of the string `component_str` of `priv_gen_username`: `g_snprintf` prints the
`guint` component id with `%d`, that is as a signed 32-bit integer, into a buffer of 10
bytes. -/
def component_str_len (component_id : Nat) : Nat :=
  let v := component_id % 2 ^ 32
  min 9 (if v < 2 ^ 31 then (toString v).length else 1 + (toString (2 ^ 32 - v)).length)

/-- The function `priv_gen_username`: the length written to `dest`. -/
def priv_gen_username (E : Ext) (agent : NiceAgent) (component_id : Nat)
    (remote local_ : String) (dest_len : Nat) : Nat :=
  let remote_len := remote.length
  let local_len := local_.length
  if remote_len > 0 ∧ local_len > 0 then
    if agent.compatibility = NICE_COMPATIBILITY_RFC5245 ∧
        dest_len ≥ remote_len + local_len + 1 then
      remote_len + 1 + local_len
    else if (agent.compatibility = NICE_COMPATIBILITY_WLM2009 ∨
        agent.compatibility = NICE_COMPATIBILITY_OC2007R2) ∧
        dest_len ≥ remote_len + local_len + 4 then
      let len := remote_len + 1 + local_len
      if len % 4 ≠ 0 then len + (4 - len % 4) else len
    else if agent.compatibility = NICE_COMPATIBILITY_GOOGLE ∧
        dest_len ≥ remote_len + local_len then
      remote_len + local_len
    else if agent.compatibility = NICE_COMPATIBILITY_MSN ∨
        agent.compatibility = NICE_COMPATIBILITY_OC2007 then
      let strlen_component_str := component_str_len component_id
      let local_decoded_len := E.g_base64_decode_len local_
      let remote_decoded_len := E.g_base64_decode_len remote
      let total_len := remote_decoded_len + local_decoded_len + 3 + 2 * strlen_component_str
      let padding := 4 - total_len % 4
      if dest_len ≥ total_len + padding then
        remote_decoded_len + 1 + strlen_component_str + 1 + local_decoded_len + 1 +
          strlen_component_str + padding
      else 0
    else 0
  else 0

/-- The function `priv_create_username` for a non-NULL stream. -/
def priv_create_username (E : Ext) (agent : NiceAgent) (stream : NiceStream)
    (component_id : Nat) (remote local_ : Option NiceCandidate) (dest_len : Nat)
    (inbound : Bool) : Nat :=
  let remote_username :=
    match remote.bind (fun c => c.username) with
    | some u => u
    | none => stream.remote_ufrag
  let local_username :=
    match local_.bind (fun c => c.username) with
    | some u => u
    | none => stream.local_ufrag
  if inbound then priv_gen_username E agent component_id local_username remote_username dest_len
  else priv_gen_username E agent component_id remote_username local_username dest_len

/-- The function `priv_compute_conncheck_timer`; the product is an `unsigned int`. -/
def priv_compute_conncheck_timer (E : Ext) (agent : NiceAgent) : Nat :=
  let waiting_and_in_progress :=
    (agent.allPairs.filter (fun p =>
      p.state == NICE_CHECK_IN_PROGRESS || p.state == NICE_CHECK_WAITING)).length
  let rto := (agent.timer_ta * waiting_and_in_progress) % 2 ^ 32
  max rto E.STUN_TIMER_DEFAULT_TIMEOUT

/-- Modelled from the spec: the request `stun_usage_ice_conncheck_create` of the STUN codec
(not in the sources) encodes: PRIORITY, USE-CANDIDATE when asked for, and ICE-CONTROLLING or
ICE-CONTROLLED according to the role. -/
def stun_usage_ice_conncheck_create (E : Ext) (agent : NiceAgent) (pair : CandidateCheckPair)
    (cand_use controlling : Bool) : StunMessage :=
  { length := E.stun_usage_ice_conncheck_create_len agent pair
    id := E.stun_new_transaction_id agent pair
    use_candidate := cand_use
    ice_controlling := controlling
    ice_controlled := !controlling
    priority := pair.stun_priority }

/-- The `unsigned int` product `timeout * 1000` added to `now`. -/
def next_tick_after (now : Int) (timeout : Nat) : Int :=
  now + ((timeout * 1000 % 2 ^ 32 : Nat) : Int)

/-- The value `conn_check_send` gives to `cand_use`. -/
def conn_check_send_cand_use (agent : NiceAgent) (pr : CandidateCheckPair) : Bool :=
  if NICE_AGENT_IS_COMPATIBLE_WITH_RFC5245_OR_OC2007R2 agent then
    match agent.nomination_mode with
    | NICE_NOMINATION_MODE_REGULAR => pr.use_candidate_on_next_check
    | NICE_NOMINATION_MODE_AGGRESSIVE => agent.controlling_mode
  else agent.controlling_mode

/-- The statement `else if (cand_use) pair->nominated = controlling;` of `conn_check_send`,
reached in the compatibility modes other than RFC 5245 and OC2007R2. -/
def conn_check_send_nominate (agent : NiceAgent) (pair : Nat) (cand_use : Bool) : NiceAgent :=
  if NICE_AGENT_IS_COMPATIBLE_WITH_RFC5245_OR_OC2007R2 agent then agent
  else if cand_use then
    agent.updatePair pair (fun q => { q with nominated := agent.controlling_mode })
  else agent

/-- The socket `conn_check_send` sends from: a TCP-active candidate without a connected socket
connects one first. -/
def conn_check_send_socket (E : Ext) (pr : CandidateCheckPair) : NiceSocket :=
  if pr.sockptr.has_fileno = false ∧ pr.sockptr.type ≠ NICE_SOCKET_TYPE_UDP_TURN ∧
      pr.local_.transport = NICE_CANDIDATE_TRANSPORT_TCP_ACTIVE then
    match E.nice_tcp_active_socket_connect pr.sockptr pr.remote.addr with
    | some new_socket => new_socket
    | none => pr.sockptr
  else pr.sockptr

/-- The second half of `conn_check_send`, from `priv_add_stun_transaction` on; `pr` is the
record of the pair on entry of the function. -/
def conn_check_send_request (E : Ext) (now : Int) (agent : NiceAgent) (pair : Nat)
    (pr : CandidateCheckPair) (cand_use : Bool) : Int × NiceAgent :=
  let controlling := agent.controlling_mode
  let agent2 := agent.updatePair pair priv_add_stun_transaction
  let message := stun_usage_ice_conncheck_create E agent pr cand_use controlling
  if message.length = 0 then
    (-1, agent2.updatePair pair (fun q => priv_remove_stun_transaction q 0))
  else
    let timeout :=
      if pr.sockptr.reliable then agent.stun_reliable_timeout
      else priv_compute_conncheck_timer E agent2
    let timer :=
      if pr.sockptr.reliable then E.stun_timer_start_reliable timeout
      else E.stun_timer_start timeout agent.stun_max_retransmissions
    let stun : StunTransaction :=
      { next_tick := next_tick_after now timeout
        timer := timer
        message := message }
    let sock := conn_check_send_socket E pr
    let agent3 := agent2.updatePair pair (fun q =>
      { q with stun_transactions := stun :: q.stun_transactions.tail, sockptr := sock })
    let agent4 := agent_socket_send agent3 sock pr.remote.addr message.length
    if agent.compatibility = NICE_COMPATIBILITY_OC2007R2 ∧
        E.ms_ice2_legacy_conncheck_resends message = true then
      (0, agent_socket_send agent4 sock pr.remote.addr message.length)
    else (0, agent4)

/-- The function `conn_check_send`: the return code (0 on success) and the agent. -/
def conn_check_send (E : Ext) (now : Int) (agent : NiceAgent) (pair : Nat) :
    Int × NiceAgent :=
  match agent.findPair pair with
  | none => (-1, agent)
  | some pr =>
    match agent_find_component agent pr.stream_id pr.component_id with
    | none => (-1, agent)
    | some (stream, _) =>
      let uname_len := priv_create_username E agent stream pr.component_id
        (some pr.remote) (some pr.local_) E.NICE_STREAM_MAX_UNAME false
      let cand_use := conn_check_send_cand_use agent pr
      let agent1 := conn_check_send_nominate agent pair cand_use
      if uname_len = 0 then (-1, agent1)
      else conn_check_send_request E now agent1 pair pr cand_use

/-- The function `priv_conn_check_initiate`: whether a request was sent, and the agent. -/
def priv_conn_check_initiate (E : Ext) (now : Int) (agent : NiceAgent)
    (pair : Nat) : Bool × NiceAgent :=
  let agent1 := SET_PAIR_STATE agent pair NICE_CHECK_IN_PROGRESS
  let r := conn_check_send E now agent1 pair
  if r.1 ≠ 0 then (false, SET_PAIR_STATE r.2 pair NICE_CHECK_FAILED)
  else (true, r.2)

/-! ## Selected pair, pruning, component states -/

/-- Modelled from the spec: `nice_component_update_selected_pair` of `component.c` (not in the
sources) makes the given pair the selected pair of the component. -/
def nice_component_update_selected_pair (agent : NiceAgent) (stream_id component_id : Nat)
    (cpair : CandidatePair) : NiceAgent :=
  agent.updateComponent stream_id component_id (fun c => { c with selected_pair := cpair })

/-- The function `priv_conn_keepalive_tick_unlocked`, as far as the state of the embedding
goes: the keepalive messages it emits leave. -/
def priv_conn_keepalive_tick_unlocked (E : Ext) (agent : NiceAgent) : NiceAgent :=
  { agent with sent := agent.sent ++ E.keepalive_messages agent }

/-- The function `conn_check_update_selected_pair` (precondition: the pair is nominated).
The signal `agent_signal_new_selected_pair` is not part of the embedded state. -/
def conn_check_update_selected_pair (E : Ext) (agent : NiceAgent)
    (stream_id component_id : Nat) (pair : CandidateCheckPair) : NiceAgent :=
  match agent_find_component agent stream_id component_id with
  | none => agent
  | some (_, component) =>
    if pair.priority > component.selected_pair.priority then
      let cpair : CandidatePair :=
        { local_ := some pair.local_
          remote := some pair.remote
          priority := pair.priority
          stun_priority := pair.stun_priority }
      let agent1 := nice_component_update_selected_pair agent stream_id component_id cpair
      priv_conn_keepalive_tick_unlocked E agent1
    else agent

/-- The loop of `priv_prune_pending_checks` over the conncheck list: the list that is left,
the triggered-check queue, and the counters `in_progress` and `triggered_check`. -/
def priv_prune_pending_checks_loop (component_id priority : Nat) :
    List CandidateCheckPair → List Nat → List CandidateCheckPair × List Nat × Nat × Nat
  | [], queue => ([], queue, 0, 0)
  | p :: ps, queue =>
    if p.component_id ≠ component_id then
      let r := priv_prune_pending_checks_loop component_id priority ps queue
      (p :: r.1, r.2.1, r.2.2.1, r.2.2.2)
    else if g_slist_find queue p.ptr = true ∧ p.state ≠ NICE_CHECK_IN_PROGRESS then
      if p.priority < priority then
        priv_prune_pending_checks_loop component_id priority ps (g_slist_remove queue p.ptr)
      else
        let r := priv_prune_pending_checks_loop component_id priority ps queue
        (p :: r.1, r.2.1, r.2.2.1, r.2.2.2 + 1)
    else if p.state = NICE_CHECK_FROZEN ∨ p.state = NICE_CHECK_WAITING then
      priv_prune_pending_checks_loop component_id priority ps (g_slist_remove queue p.ptr)
    else if p.state = NICE_CHECK_IN_PROGRESS then
      if p.priority < priority then
        let r := priv_prune_pending_checks_loop component_id priority ps
          (g_slist_remove queue p.ptr)
        ({ p with retransmit := false } :: r.1, r.2.1, r.2.2.1, r.2.2.2)
      else
        let p1 :=
          if p.retransmit = false ∧ p.stun_transactions ≠ [] then { p with retransmit := true }
          else p
        let r := priv_prune_pending_checks_loop component_id priority ps queue
        (p1 :: r.1, r.2.1, r.2.2.1 + 1, r.2.2.2)
    else
      let r := priv_prune_pending_checks_loop component_id priority ps queue
      (p :: r.1, r.2.1, r.2.2.1, r.2.2.2)

/-- The function `priv_prune_pending_checks` (precondition: the selected priority is
positive): the returned count and the agent. -/
def priv_prune_pending_checks (agent : NiceAgent) (stream_id component_id : Nat) :
    Nat × NiceAgent :=
  match agent_find_component agent stream_id component_id with
  | none => (0, agent)
  | some (stream, component) =>
    let r := priv_prune_pending_checks_loop component_id component.selected_pair.priority
      stream.conncheck_list agent.triggered_check_queue
    let agent1 := agent.updateStream stream_id (fun s => { s with conncheck_list := r.1 })
    (r.2.2.1 + r.2.2.2, { agent1 with triggered_check_queue := r.2.1 })

/-- The function `conn_check_update_check_list_state_for_ready`. -/
def conn_check_update_check_list_state_for_ready (agent : NiceAgent)
    (stream_id component_id : Nat) : NiceAgent :=
  match agent_find_component agent stream_id component_id with
  | none => agent
  | some (stream, _) =>
    let nominated := (stream.conncheck_list.filter (fun p =>
      p.component_id == component_id && p.valid && p.nominated)).length
    if nominated > 0 then
      let r := priv_prune_pending_checks agent stream_id component_id
      if r.1 = 0 then
        let st (a : NiceAgent) : Nat :=
          match agent_find_component a stream_id component_id with
          | some (_, c) => c.state.toNat
          | none => 0
        let a1 :=
          if st r.2 < NICE_COMPONENT_STATE_CONNECTING.toNat ∨
              st r.2 = NICE_COMPONENT_STATE_FAILED.toNat then
            agent_signal_component_state_change r.2 stream_id component_id
              NICE_COMPONENT_STATE_CONNECTING
          else r.2
        let a2 :=
          if st a1 < NICE_COMPONENT_STATE_CONNECTED.toNat then
            agent_signal_component_state_change a1 stream_id component_id
              NICE_COMPONENT_STATE_CONNECTED
          else a1
        agent_signal_component_state_change a2 stream_id component_id
          NICE_COMPONENT_STATE_READY
      else r.2
    else agent

/-- The loop of `priv_update_check_list_failed_components` over the component numbers
`c + 1` for the listed `c`. -/
def priv_update_check_list_failed_components_loop (stream_id : Nat) :
    List Nat → NiceAgent → NiceAgent
  | [], agent => agent
  | c :: cs, agent =>
    match agent_find_component agent stream_id (c + 1) with
    | none => priv_update_check_list_failed_components_loop stream_id cs agent
    | some (stream, component) =>
      let mine := stream.conncheck_list.filter (fun p => p.component_id == c + 1)
      let nominated := (mine.filter (fun p => p.nominated)).length
      let completed := mine.all (fun p =>
        p.state == NICE_CHECK_FAILED || p.state == NICE_CHECK_SUCCEEDED ||
        p.state == NICE_CHECK_DISCOVERED)
      let agent1 :=
        if completed = true ∧ nominated = 0 ∧ component.remote_candidates ≠ [] then
          agent_signal_component_state_change agent stream_id (c + 1)
            NICE_COMPONENT_STATE_FAILED
        else agent
      priv_update_check_list_failed_components_loop stream_id cs agent1

/-- The function `priv_update_check_list_failed_components`. -/
def priv_update_check_list_failed_components (agent : NiceAgent) (stream_id : Nat) :
    NiceAgent :=
  match agent_find_stream agent stream_id with
  | none => agent
  | some stream =>
    if stream.conncheck_list = [] then agent
    else if agent.discovery_list.any (fun d => d.stream_id == stream.id && !d.done) then agent
    else if agent.discovery_list ≠ [] then agent
    else
      priv_update_check_list_failed_components_loop stream_id
        (List.range stream.n_components) agent

/-- The function `conn_check_stop`. -/
def conn_check_stop (agent : NiceAgent) : NiceAgent :=
  if agent.conncheck_timer_running = false then agent
  else { agent with conncheck_timer_running := false, conncheck_ongoing_idle_delay := 0 }

/-! ## The scheduler tick -/

/-- Outcome of the transaction loop of `priv_conn_check_tick_stream` for one pair: the message
retransmitted, if the loop ended on a retransmission; the pair; the counter `remaining`. -/
structure TickPairResult where
  retransmitted : Option StunMessage
  pair : CandidateCheckPair
  remaining : Nat
deriving DecidableEq, Repr, Inhabited

/-- Replaces the transaction at position `pos` of the pair. -/
def CandidateCheckPair.setTransaction (p : CandidateCheckPair) (pos : Nat)
    (stun : StunTransaction) : CandidateCheckPair :=
  { p with stun_transactions := p.stun_transactions.set pos stun }

/-- The inner `while (j)` loop of `priv_conn_check_tick_stream`.  The first argument is the
part of the transaction list still to visit, `pos` the position of its head in the list of
the pair, `index` the number of transactions visited. -/
def priv_conn_check_tick_stream_transactions (E : Ext) (now : Int) :
    List StunTransaction → CandidateCheckPair → Nat → Nat → Nat → TickPairResult
  | [], p, _, _, remaining => ⟨none, p, remaining⟩
  | stun :: rest, p, pos, index, remaining =>
    if now < stun.next_tick then
      priv_conn_check_tick_stream_transactions E now rest p (pos + 1) (index + 1) (remaining + 1)
    else
      let r := E.stun_timer_refresh stun.timer now
      let stun1 : StunTransaction := { stun with timer := r.2 }
      match r.1 with
      | STUN_USAGE_TIMER_RETURN_TIMEOUT =>
        priv_conn_check_tick_stream_transactions E now rest
          (priv_remove_stun_transaction p pos) pos (index + 1)
          remaining
      | STUN_USAGE_TIMER_RETURN_RETRANSMIT =>
        if p.retransmit = false ∨ index > 0 then
          priv_conn_check_tick_stream_transactions E now rest
            (priv_remove_stun_transaction p pos) pos (index + 1)
            remaining
        else
          let timeout := E.stun_timer_remainder stun1.timer now
          ⟨some stun1.message,
            p.setTransaction pos { stun1 with next_tick := next_tick_after now timeout },
            remaining⟩
      | STUN_USAGE_TIMER_RETURN_SUCCESS =>
        let timeout := E.stun_timer_remainder stun1.timer now
        priv_conn_check_tick_stream_transactions E now rest
          (p.setTransaction pos { stun1 with next_tick := next_tick_after now timeout })
          (pos + 1) (index + 1) (remaining + 1)

/-- The outer loop of `priv_conn_check_tick_stream` over the nodes of the conncheck list,
given by the addresses of their pairs; a node unlinked by the pruning of an earlier
iteration is not visited.  The step `i = i->next` is taken as from a node that is still
linked: this is the state of every run in which the pruning does not free the node the loop
stands on; `priv_conn_check_tick_stream_loop_checked` is `none` for the other runs. -/
def priv_conn_check_tick_stream_loop (E : Ext) (now : Int) (stream_id : Nat) :
    List Nat → NiceAgent → Bool × NiceAgent
  | [], agent => (false, agent)
  | ptr :: rest, agent =>
    match (agent_find_stream agent stream_id).bind
        (fun s => s.conncheck_list.find? (fun q => q.ptr == ptr)) with
    | none => priv_conn_check_tick_stream_loop E now stream_id rest agent
    | some p =>
      if p.stun_transactions = [] then
        priv_conn_check_tick_stream_loop E now stream_id rest agent
      else
        match agent_find_component agent p.stream_id p.component_id with
        | none => priv_conn_check_tick_stream_loop E now stream_id rest agent
        | some (_, component) =>
          let r := priv_conn_check_tick_stream_transactions E now p.stun_transactions p 0 0 0
          let agent1 := agent.updatePair ptr (fun _ => r.pair)
          match r.retransmitted with
          | some message =>
            (true, agent_socket_send agent1 p.sockptr p.remote.addr message.length)
          | none =>
            if r.remaining = 0 then
              let agent2 := candidate_check_pair_fail agent1 ptr
              let agent3 :=
                conn_check_update_check_list_state_for_ready agent2 stream_id component.id
              priv_conn_check_tick_stream_loop E now stream_id rest agent3
            else priv_conn_check_tick_stream_loop E now stream_id rest agent1

/-- The function `priv_conn_check_tick_stream`: whether a request was sent, and the agent,
for the runs that read no freed node (see `priv_conn_check_tick_stream_checked`). -/
def priv_conn_check_tick_stream (E : Ext) (now : Int) (agent : NiceAgent) (stream_id : Nat) :
    Bool × NiceAgent :=
  match agent_find_stream agent stream_id with
  | none => (false, agent)
  | some stream =>
    priv_conn_check_tick_stream_loop E now stream_id
      (stream.conncheck_list.map (fun p => p.ptr)) agent

/-- The call `priv_conn_check_find_next_waiting (stream->conncheck_list)` for the stream with
the given id. -/
def find_next_waiting_of (agent : NiceAgent) (stream_id : Nat) : Option CandidateCheckPair :=
  match agent_find_stream agent stream_id with
  | none => none
  | some stream => priv_conn_check_find_next_waiting stream.conncheck_list

/-- The function `priv_conn_check_ordinary_check`. -/
def priv_conn_check_ordinary_check (E : Ext) (now : Int) (agent : NiceAgent)
    (stream_id : Nat) : Bool × NiceAgent :=
  match find_next_waiting_of agent stream_id with
  | some pair => priv_conn_check_initiate E now agent pair.ptr
  | none =>
    let agent1 := (priv_conn_check_unfreeze_next agent).2
    match find_next_waiting_of agent1 stream_id with
    | some pair => priv_conn_check_initiate E now agent1 pair.ptr
    | none => (false, agent1)

/-- The function `priv_conn_check_triggered_check`. -/
def priv_conn_check_triggered_check (E : Ext) (now : Int) (agent : NiceAgent) :
    Bool × NiceAgent :=
  let r := priv_get_pair_from_triggered_check_queue agent
  match r.1 with
  | some pair => priv_conn_check_initiate E now r.2 pair
  | none => (false, r.2)

/-- One of the first three loops of `priv_conn_check_tick_agent_locked`:
`for (i = agent->streams; i && !stun_sent; i = i->next) stun_sent = step (agent, stream)`. -/
def tick_streams_until_sent (step : NiceAgent → Nat → Bool × NiceAgent) :
    List Nat → Bool → NiceAgent → Bool × NiceAgent
  | [], stun_sent, agent => (stun_sent, agent)
  | stream_id :: rest, stun_sent, agent =>
    if stun_sent then (stun_sent, agent)
    else
      let r := step agent stream_id
      tick_streams_until_sent step rest r.1 r.2

/-- The first three steps of `priv_conn_check_tick_agent_locked`: triggered checks, ongoing
transactions, ordinary checks.  The flag is `stun_sent`. -/
def priv_conn_check_tick_agent_locked_checks (E : Ext) (now : Int) (agent : NiceAgent) :
    Bool × NiceAgent :=
  let ids := agent.streams.map (fun s => s.id)
  let r1 := tick_streams_until_sent (fun a _ => priv_conn_check_triggered_check E now a)
    ids false agent
  let r2 := tick_streams_until_sent (fun a sid => priv_conn_check_tick_stream E now a sid)
    ids r1.1 r1.2
  tick_streams_until_sent (fun a sid => priv_conn_check_ordinary_check E now a sid)
    ids r2.1 r2.2

/-! ## Nomination -/

/-- The C test `p->nominated || (p->use_candidate_on_next_check && p->state != FAILED)`. -/
def nominated_or_about_to (p : CandidateCheckPair) : Bool :=
  p.nominated || (p.use_candidate_on_next_check && p.state != NICE_CHECK_FAILED)

/-- The first loop of `priv_conn_check_tick_stream_nominate`: a nominated pair, or a pair
selected to be nominated, of another stream. -/
def nominate_other_stream_pair (agent : NiceAgent) (stream_id : Nat) :
    Option CandidateCheckPair :=
  ((agent.streams.filter (fun s => s.id != stream_id)).flatMap
    (fun s => s.conncheck_list)).find? nominated_or_about_to

/-- The C test that two pairs have the same transport and the same addresses, ports
ignored. -/
def nominate_same_kind (lcand1 rcand1 lcand2 rcand2 : NiceCandidate) : Bool :=
  lcand1.transport == lcand2.transport &&
  nice_address_equal_no_port lcand1.addr lcand2.addr &&
  nice_address_equal_no_port rcand1.addr rcand2.addr

/-- What the selection loop of the regular nomination leaves in `this_component_pair`,
`found_other_component_pair` and `found_other_stream_pair`. -/
structure NominateChoice where
  this_component_pair : Option CandidateCheckPair
  found_other_component_pair : Bool
  found_other_stream_pair : Bool
deriving DecidableEq, Repr, Inhabited

/-- The selection loop of the regular nomination over the conncheck list.  A discovered pair
is replaced by its parent `succeeded_pair` (preconditions: the pair is then in state
Discovered, the parent is in a conncheck list, and the pair examined is in state Succeeded).
The code reads the parent through the pointer, also when the pair it pointed to has been
freed; outside the precondition the embedding goes on with the discovered pair itself. -/
def nominate_select (agent : NiceAgent) (component_id : Nat) (first_nomination : Bool)
    (other_component_pair other_stream_pair : Option CandidateCheckPair) :
    List CandidateCheckPair → Option CandidateCheckPair → NominateChoice
  | [], this_component_pair => ⟨this_component_pair, false, false⟩
  | p0 :: ps, this_component_pair =>
    if p0.component_id = component_id ∧ p0.nominated = false ∧
        p0.use_candidate_on_next_check = false ∧ p0.valid = true then
      let p :=
        match p0.succeeded_pair with
        | some sp =>
          match agent.findPair sp with
          | some q => q
          | none => p0
        | none => p0
      let this1 := if this_component_pair.isNone then some p else this_component_pair
      if first_nomination then ⟨this1, false, false⟩
      else if (match other_component_pair with
          | some o => nominate_same_kind p.local_ p.remote o.local_ o.remote
          | none => false) then ⟨some p, true, false⟩
      else if (match other_stream_pair, other_component_pair with
          | some o, none => nominate_same_kind p.local_ p.remote o.local_ o.remote
          | _, _ => false) then ⟨some p, false, true⟩
      else
        nominate_select agent component_id first_nomination other_component_pair
          other_stream_pair ps this1
    else
      nominate_select agent component_id first_nomination other_component_pair
        other_stream_pair ps this_component_pair

/-- The constant `NICE_MIN_NUMBER_OF_VALID_PAIRS`. -/
def NICE_MIN_NUMBER_OF_VALID_PAIRS : Nat := 2

/-- One iteration of the regular-nomination loop over the components of the stream: whether
a pair was chosen (`keep_timer_going`), and the agent. -/
def nominate_component_regular (agent : NiceAgent) (stream_id : Nat)
    (other_stream_pair : Option CandidateCheckPair) (component_id : Nat) : Bool × NiceAgent :=
  match agent_find_stream agent stream_id with
  | none => (false, agent)
  | some stream =>
    let mine := stream.conncheck_list.filter (fun p => p.component_id == component_id)
    let already_done := mine.any (fun p => p.use_candidate_on_next_check)
    let p_frozen := (mine.filter (fun p => p.state == NICE_CHECK_FROZEN)).length
    let p_waiting := (mine.filter (fun p => p.state == NICE_CHECK_WAITING)).length
    let p_inprogress := (mine.filter (fun p => p.state == NICE_CHECK_IN_PROGRESS)).length
    let p_valid := (mine.filter (fun p => p.valid)).length
    let p_host_host_valid := (mine.filter (fun p => p.valid &&
      p.local_.type == NICE_CANDIDATE_TYPE_HOST &&
      p.remote.type == NICE_CANDIDATE_TYPE_HOST)).length
    if already_done then (false, agent)
    else
      let other_component_pair := stream.conncheck_list.find? (fun p =>
        p.component_id != component_id && nominated_or_about_to p)
      let first_nomination := other_stream_pair.isNone && other_component_pair.isNone
      let choice := nominate_select agent component_id first_nomination other_component_pair
        other_stream_pair stream.conncheck_list none
      match choice.this_component_pair with
      | none => (false, agent)
      | some this_component_pair =>
        let stopping_criterion :=
          if first_nomination = true ∧ p_host_host_valid > 0 then true
          else if first_nomination = true ∧ p_valid ≥ NICE_MIN_NUMBER_OF_VALID_PAIRS then true
          else if choice.found_other_component_pair then true
          else if choice.found_other_stream_pair then true
          else if p_waiting = 0 ∧ p_inprogress = 0 ∧ p_frozen = 0 then true
          else false
        if stopping_criterion = false then (false, agent)
        else
          let agent1 := agent.updatePair this_component_pair.ptr
            (fun q => { q with use_candidate_on_next_check := true })
          (true, priv_add_pair_to_triggered_check_queue agent1 this_component_pair.ptr)

/-- One iteration of the loop over the components for the legacy compatibility modes: the
first Succeeded or Discovered pair of the component is nominated. -/
def nominate_component_legacy (E : Ext) (agent : NiceAgent) (stream_id component_id : Nat) :
    Bool × NiceAgent :=
  match agent_find_stream agent stream_id with
  | none => (false, agent)
  | some stream =>
    match stream.conncheck_list.find? (fun p => p.component_id == component_id &&
        (p.state == NICE_CHECK_SUCCEEDED || p.state == NICE_CHECK_DISCOVERED)) with
    | none => (false, agent)
    | some p =>
      let agent1 := agent.updatePair p.ptr (fun q => { q with nominated := true })
      let agent2 := conn_check_update_selected_pair E agent1 stream_id component_id
        { p with nominated := true }
      (true, priv_add_pair_to_triggered_check_queue agent2 p.ptr)

/-- A loop `for (i = stream->components; i; i = i->next)` whose body may set
`keep_timer_going`. -/
def nominate_components (step : NiceAgent → Nat → Bool × NiceAgent) :
    List Nat → Bool → NiceAgent → Bool × NiceAgent
  | [], keep_timer_going, agent => (keep_timer_going, agent)
  | component_id :: rest, keep_timer_going, agent =>
    let r := step agent component_id
    nominate_components step rest (keep_timer_going || r.1) r.2

/-- The function `priv_conn_check_tick_stream_nominate`: `keep_timer_going` and the agent. -/
def priv_conn_check_tick_stream_nominate (E : Ext) (agent : NiceAgent) (stream_id : Nat) :
    Bool × NiceAgent :=
  match agent_find_stream agent stream_id with
  | none => (false, agent)
  | some stream =>
    let other_stream_pair := nominate_other_stream_pair agent stream_id
    let done (p : CandidateCheckPair) : Bool :=
      p.state == NICE_CHECK_SUCCEEDED || p.state == NICE_CHECK_DISCOVERED
    let s_inprogress :=
      (stream.conncheck_list.filter (fun p => p.state == NICE_CHECK_IN_PROGRESS)).length
    let s_nominated := (stream.conncheck_list.filter (fun p => done p && p.nominated)).length
    let s_waiting_for_nomination :=
      (stream.conncheck_list.filter (fun p => done p && !p.nominated)).length
    let keep_timer_going := decide (s_inprogress > 0)
    let ids := stream.components.map (fun c => c.id)
    let r :=
      if s_nominated < stream.n_components ∧ s_waiting_for_nomination > 0 then
        if NICE_AGENT_IS_COMPATIBLE_WITH_RFC5245_OR_OC2007R2 agent then
          if agent.nomination_mode = NICE_NOMINATION_MODE_REGULAR ∧
              agent.controlling_mode = true then
            nominate_components
              (fun a cid => nominate_component_regular a stream_id other_stream_pair cid)
              ids keep_timer_going agent
          else (keep_timer_going, agent)
        else if agent.controlling_mode then
          nominate_components (fun a cid => nominate_component_legacy E a stream_id cid)
            ids keep_timer_going agent
        else (keep_timer_going, agent)
      else (keep_timer_going, agent)
    (r.1, r.2.updateStream stream_id
      (fun s => { s with tick_counter := (s.tick_counter + 1) % 2 ^ 32 }))

/-- The failure-propagation sweep of `priv_conn_check_tick_agent_locked` for one stream. -/
def tick_sweep_stream (agent : NiceAgent) (stream_id : Nat) : NiceAgent :=
  let agent1 := priv_update_check_list_failed_components agent stream_id
  match agent_find_stream agent1 stream_id with
  | none => agent1
  | some stream =>
    (stream.components.map (fun c => c.id)).foldl
      (fun a cid => conn_check_update_check_list_state_for_ready a stream_id cid) agent1

/-- The fourth loop of `priv_conn_check_tick_agent_locked`: the nomination step for every
stream; the flag is `keep_timer_going`. -/
def tick_nominate_streams (E : Ext) : List Nat → Bool → NiceAgent → Bool × NiceAgent
  | [], keep_timer_going, agent => (keep_timer_going, agent)
  | stream_id :: rest, keep_timer_going, agent =>
    let k := priv_conn_check_tick_stream_nominate E agent stream_id
    tick_nominate_streams E rest (keep_timer_going || k.1) k.2

/-- The end of `priv_conn_check_tick_agent_locked`: the idle counter, and the failure sweep
when the idle timeout is reached. -/
def tick_idle_accounting (agent : NiceAgent) (keep_timer_going : Bool) (ids : List Nat) :
    Bool × NiceAgent :=
  let agent1 : NiceAgent :=
    if keep_timer_going then { agent with conncheck_ongoing_idle_delay := 0 }
    else { agent with
      conncheck_ongoing_idle_delay :=
        (agent.conncheck_ongoing_idle_delay + agent.timer_ta) % 2 ^ 32 }
  if keep_timer_going = false ∧ agent1.conncheck_ongoing_idle_delay ≥ agent1.idle_timeout then
    (false, conn_check_stop (ids.foldl tick_sweep_stream agent1))
  else (true, agent1)

/-- The function `priv_conn_check_tick_agent_locked`: the returned flag (FALSE when the timer
stops) and the agent. -/
def priv_conn_check_tick_agent_locked (E : Ext) (now : Int) (agent : NiceAgent) :
    Bool × NiceAgent :=
  let r := priv_conn_check_tick_agent_locked_checks E now agent
  let ids := agent.streams.map (fun s => s.id)
  let n := tick_nominate_streams E ids r.1 r.2
  tick_idle_accounting n.2 n.1 ids

/-! ## Marking a pair nominated on the controlled side -/

/-- The state of a component, `none` when it is unknown. -/
def component_state (agent : NiceAgent) (stream_id component_id : Nat) :
    Option NiceComponentState :=
  (agent_find_component agent stream_id component_id).map (fun r => r.2.state)

/-- The two flag writes of `priv_mark_pair_nominated` on the pair it has settled on:
`mark_nominated_on_response_arrival` when the pair is queued or InProgress (RFC 5245 and
OC2007R2 compatibility), `nominated` when the pair is valid or the compatibility is another
one. -/
def mark_nominated_write (agent : NiceAgent) (q : CandidateCheckPair) : CandidateCheckPair :=
  let rfc := NICE_AGENT_IS_COMPATIBLE_WITH_RFC5245_OR_OC2007R2 agent
  let mark := rfc && (g_slist_find agent.triggered_check_queue q.ptr ||
    q.state == NICE_CHECK_IN_PROGRESS)
  let nominate := q.valid || !rfc
  { q with
    mark_nominated_on_response_arrival := mark || q.mark_nominated_on_response_arrival
    nominated := nominate || q.nominated }

/-- The body of the loop of `priv_mark_pair_nominated` for a pair that matches the two
candidates; `pair` is the record the pointer designates after the redirection to the
discovered pair. -/
def priv_mark_pair_nominated_pair (E : Ext) (agent : NiceAgent) (stream_id component_id : Nat)
    (pair : CandidateCheckPair) : NiceAgent :=
  let pair1 := mark_nominated_write agent pair
  let agent1 := agent.updatePair pair.ptr (mark_nominated_write agent)
  let agent2 :=
    if pair.valid then
      let b1 :=
        if component_state agent1 stream_id component_id = some NICE_COMPONENT_STATE_FAILED then
          agent_signal_component_state_change agent1 stream_id component_id
            NICE_COMPONENT_STATE_CONNECTING
        else agent1
      let b2 := conn_check_update_selected_pair E b1 stream_id component_id pair1
      if component_state b2 stream_id component_id = some NICE_COMPONENT_STATE_CONNECTING then
        agent_signal_component_state_change b2 stream_id component_id
          NICE_COMPONENT_STATE_CONNECTED
      else b2
    else agent1
  if pair1.nominated then
    conn_check_update_check_list_state_for_ready agent2 stream_id component_id
  else agent2

/-- The loop of `priv_mark_pair_nominated` over the nodes of the conncheck list, given by the
addresses of their pairs; a node unlinked meanwhile is not visited.  The step `i = i->next` is
taken as from a node that is still linked: this is the state of every run in which the
pruning does not free the node the loop stands on; `priv_mark_pair_nominated_loop_checked` is
`none` for the other runs. -/
def priv_mark_pair_nominated_loop (E : Ext) (stream_id component_id : Nat)
    (localcand remotecand : Option NiceCandidate) : List Nat → NiceAgent → NiceAgent
  | [], agent => agent
  | ptr :: rest, agent =>
    match (agent_find_stream agent stream_id).bind
        (fun s => s.conncheck_list.find? (fun q => q.ptr == ptr)) with
    | none => priv_mark_pair_nominated_loop E stream_id component_id localcand remotecand rest agent
    | some pair0 =>
      if some pair0.local_.ptr = localcand.map (fun c => c.ptr) ∧
          some pair0.remote.ptr = remotecand.map (fun c => c.ptr) then
        let target : Option CandidateCheckPair :=
          if pair0.state = NICE_CHECK_SUCCEEDED then
            match pair0.discovered_pair with
            | some d => agent.findPair d
            | none => some pair0
          else some pair0
        match target with
        | none =>
          priv_mark_pair_nominated_loop E stream_id component_id localcand remotecand rest agent
        | some pair =>
          priv_mark_pair_nominated_loop E stream_id component_id localcand remotecand rest
            (priv_mark_pair_nominated_pair E agent stream_id component_id pair)
      else
        priv_mark_pair_nominated_loop E stream_id component_id localcand remotecand rest agent

/-- The function `priv_mark_pair_nominated`, for the runs that read no freed node (see
`priv_mark_pair_nominated_checked`). -/
def priv_mark_pair_nominated (E : Ext) (agent : NiceAgent) (stream_id component_id : Nat)
    (localcand remotecand : Option NiceCandidate) : NiceAgent :=
  if NICE_AGENT_IS_COMPATIBLE_WITH_RFC5245_OR_OC2007R2 agent = true ∧
      agent.controlling_mode = true then agent
  else
    match agent_find_stream agent stream_id with
    | none => agent
    | some stream =>
      priv_mark_pair_nominated_loop E stream_id component_id localcand remotecand
        (stream.conncheck_list.map (fun p => p.ptr)) agent

/-! ## Adding pairs -/

/-- The function `peer_reflexive_candidate_priority`. -/
def peer_reflexive_candidate_priority (E : Ext) (agent : NiceAgent)
    (local_candidate : NiceCandidate) : Nat :=
  let candidate_priority : NiceCandidate :=
    { (default : NiceCandidate) with
      type := NICE_CANDIDATE_TYPE_PEER_REFLEXIVE
      transport := local_candidate.transport
      component_id := local_candidate.component_id
      base_addr := local_candidate.addr }
  if agent.compatibility = NICE_COMPATIBILITY_GOOGLE then
    E.nice_candidate_jingle_priority candidate_priority
  else if agent.compatibility = NICE_COMPATIBILITY_MSN ∨
      agent.compatibility = NICE_COMPATIBILITY_OC2007 then
    E.nice_candidate_msn_priority candidate_priority
  else if agent.compatibility = NICE_COMPATIBILITY_OC2007R2 then
    E.nice_candidate_ms_ice_priority candidate_priority agent.reliable false
  else E.nice_candidate_ice_priority candidate_priority agent.reliable false

/-- The function `stun_request_priority`. -/
def stun_request_priority (E : Ext) (agent : NiceAgent) (local_candidate : NiceCandidate) :
    Nat :=
  if local_candidate.type = NICE_CANDIDATE_TYPE_HOST then
    peer_reflexive_candidate_priority E agent local_candidate
  else local_candidate.priority

/-- The loop of `priv_limit_conn_check_list_size`: the list that is left, the triggered-check
queue and the flag `deleted`.  The counter `valid` is the number of nodes visited. -/
def priv_limit_conn_check_list_size_loop (max_conn_checks pair : Nat) :
    List CandidateCheckPair → Nat → List Nat → List CandidateCheckPair × List Nat × Bool
  | [], _, queue => ([], queue, false)
  | p :: ps, valid, queue =>
    if (valid + 1 > max_conn_checks ∧ p.state = NICE_CHECK_FROZEN) ∨
        p.state = NICE_CHECK_FAILED then
      let r := priv_limit_conn_check_list_size_loop max_conn_checks pair ps (valid + 1)
        (g_slist_remove queue p.ptr)
      (r.1, r.2.1, decide (p.ptr = pair) || r.2.2)
    else
      let r := priv_limit_conn_check_list_size_loop max_conn_checks pair ps (valid + 1) queue
      (p :: r.1, r.2.1, r.2.2)

/-- The function `priv_limit_conn_check_list_size`: the flag `deleted` and the agent. -/
def priv_limit_conn_check_list_size (agent : NiceAgent) (stream_id pair : Nat) :
    Bool × NiceAgent :=
  match agent_find_stream agent stream_id with
  | none => (false, agent)
  | some stream =>
    let r := priv_limit_conn_check_list_size_loop agent.max_conn_checks pair
      stream.conncheck_list 0 agent.triggered_check_queue
    let agent1 := agent.updateStream stream_id (fun s => { s with conncheck_list := r.1 })
    (r.2.2, { agent1 with triggered_check_queue := r.2.1 })

/-- The C call `g_snprintf (foundation, NICE_CANDIDATE_PAIR_MAX_FOUNDATION, "%s:%s", l, r)`:
at most `NICE_CANDIDATE_PAIR_MAX_FOUNDATION - 1` characters are kept. -/
def pair_foundation (E : Ext) (local_foundation remote_foundation : String) : String :=
  String.mk ((local_foundation ++ ":" ++ remote_foundation).data.take
    (E.NICE_CANDIDATE_PAIR_MAX_FOUNDATION - 1))

/-- The pair `priv_add_new_check_pair` allocates at address `new_pair` and fills in. -/
def priv_add_new_check_pair_record (E : Ext) (agent : NiceAgent) (stream_id : Nat)
    (component : NiceComponent) (local_ remote : NiceCandidate) (initial_state : NiceCheckState)
    (new_pair : Nat) : CandidateCheckPair :=
  { ptr := new_pair
    stream_id := stream_id
    component_id := component.id
    local_ := local_
    remote := remote
    sockptr :=
      if local_.transport = NICE_CANDIDATE_TRANSPORT_TCP_PASSIVE ∧
          remote.type = NICE_CANDIDATE_TYPE_PEER_REFLEXIVE then remote.sockptr
      else local_.sockptr
    foundation := pair_foundation E local_.foundation remote.foundation
    state := initial_state
    nominated := false
    valid := false
    use_candidate_on_next_check := false
    mark_nominated_on_response_arrival := false
    retransmit := false
    discovered_pair := none
    succeeded_pair := none
    priority := E.agent_candidate_pair_priority agent.controlling_mode local_ remote
    stun_priority := stun_request_priority E agent local_
    stun_transactions := [] }

/-- The first part of `priv_add_new_check_pair`, up to and including the call of
`g_slist_insert_sorted`: `none` when no pair is created because its priority is below the
selected priority. -/
def priv_add_new_check_pair_insert (E : Ext) (agent : NiceAgent) (stream_id : Nat)
    (component : NiceComponent) (local_ remote : NiceCandidate) (initial_state : NiceCheckState)
    (new_pair : Nat) : Option NiceAgent :=
  let priority := E.agent_candidate_pair_priority agent.controlling_mode local_ remote
  if component.selected_pair.priority ≠ 0 ∧ priority < component.selected_pair.priority then
    none
  else
    let pair := priv_add_new_check_pair_record E agent stream_id component local_ remote
      initial_state new_pair
    some (agent.updateStream stream_id (fun s =>
      { s with conncheck_list := g_slist_insert_sorted s.conncheck_list pair conn_check_compare }))

/-- The function `priv_add_new_check_pair` (precondition: the stream exists): the address of
the pair, `none` for NULL, and the agent. -/
def priv_add_new_check_pair (E : Ext) (agent : NiceAgent) (stream_id : Nat)
    (component : NiceComponent) (local_ remote : NiceCandidate) (initial_state : NiceCheckState)
    (new_pair : Nat) : Option Nat × NiceAgent :=
  match priv_add_new_check_pair_insert E agent stream_id component local_ remote initial_state
      new_pair with
  | none => (none, agent)
  | some agent1 =>
    let pair := priv_add_new_check_pair_record E agent stream_id component local_ remote
      initial_state new_pair
    let agent2 :=
      if initial_state = NICE_CHECK_FROZEN then priv_conn_check_unfreeze_maybe E agent1 pair
      else agent1
    if agent.compatibility = NICE_COMPATIBILITY_RFC5245 then
      let r := priv_limit_conn_check_list_size agent2 stream_id new_pair
      if r.1 then (none, r.2) else (some new_pair, r.2)
    else (some new_pair, agent2)

/-- The pair `priv_add_peer_reflexive_pair` allocates at address `new_pair` and fills in. -/
def priv_add_peer_reflexive_pair_record (E : Ext) (agent : NiceAgent) (stream_id : Nat)
    (component : NiceComponent) (local_cand : NiceCandidate) (parent_pair : CandidateCheckPair)
    (new_pair : Nat) : CandidateCheckPair :=
  { ptr := new_pair
    stream_id := stream_id
    component_id := component.id
    local_ := local_cand
    remote := parent_pair.remote
    sockptr := local_cand.sockptr
    foundation := pair_foundation E local_cand.foundation parent_pair.remote.foundation
    state := NICE_CHECK_DISCOVERED
    nominated := parent_pair.nominated
    valid := false
    use_candidate_on_next_check := false
    mark_nominated_on_response_arrival := false
    retransmit := false
    discovered_pair := none
    succeeded_pair := some parent_pair.ptr
    priority :=
      if agent.controlling_mode = true then
        E.nice_candidate_pair_priority local_cand.priority parent_pair.remote.priority
      else E.nice_candidate_pair_priority parent_pair.remote.priority local_cand.priority
    stun_priority := parent_pair.stun_priority
    stun_transactions := [] }

/-- The function `priv_add_peer_reflexive_pair` (precondition: the stream exists); it returns
the address `new_pair`. -/
def priv_add_peer_reflexive_pair (E : Ext) (agent : NiceAgent) (stream_id : Nat)
    (component : NiceComponent) (local_cand : NiceCandidate) (parent_pair : CandidateCheckPair)
    (new_pair : Nat) : NiceAgent :=
  let pair := priv_add_peer_reflexive_pair_record E agent stream_id component local_cand
    parent_pair new_pair
  let agent1 := agent.updatePair parent_pair.ptr
    (fun q => { q with discovered_pair := some new_pair })
  agent1.updateStream stream_id (fun s =>
    { s with conncheck_list := g_slist_insert_sorted s.conncheck_list pair conn_check_compare })

/-! ## Role changes -/

/-- The function `agent_candidate_pair_priority` of `agent.c`, a collaborator. -/
def agent_candidate_pair_priority (E : Ext) (agent : NiceAgent) (local_ remote : NiceCandidate) :
    Nat :=
  E.agent_candidate_pair_priority agent.controlling_mode local_ remote

/-- The function `recalculate_pair_priorities`. -/
def recalculate_pair_priorities (E : Ext) (agent : NiceAgent) : NiceAgent :=
  { agent with
    streams := agent.streams.map (fun stream =>
      { stream with
        conncheck_list := g_slist_sort
          (stream.conncheck_list.map (fun p =>
            { p with priority := agent_candidate_pair_priority E agent p.local_ p.remote }))
          conn_check_compare }) }

/-- The function `priv_check_for_role_conflict`. -/
def priv_check_for_role_conflict (E : Ext) (agent : NiceAgent) (control : Bool) : NiceAgent :=
  if control ≠ agent.controlling_mode then
    recalculate_pair_priorities E { agent with controlling_mode := control }
  else agent

/-! ## Processing a response -/

/-- The function `nice_socket_has_compatible_transport`: the transport guessed from the type
of the socket, `none` when the function returns FALSE. -/
def nice_socket_has_compatible_transport (socket : NiceSocket) :
    Option NiceCandidateTransport :=
  match socket.type with
  | NICE_SOCKET_TYPE_TCP_BSD =>
    if socket.passive_parent then some NICE_CANDIDATE_TRANSPORT_TCP_PASSIVE
    else some NICE_CANDIDATE_TRANSPORT_TCP_ACTIVE
  | NICE_SOCKET_TYPE_TCP_PASSIVE => some NICE_CANDIDATE_TRANSPORT_TCP_PASSIVE
  | NICE_SOCKET_TYPE_TCP_ACTIVE => some NICE_CANDIDATE_TRANSPORT_TCP_ACTIVE
  | NICE_SOCKET_TYPE_UDP_BSD => some NICE_CANDIDATE_TRANSPORT_UDP
  | _ => none

/-- The function `local_candidate_and_socket_compatible`. -/
def local_candidate_and_socket_compatible (lcand : NiceCandidate) (socket : NiceSocket) :
    Bool :=
  match nice_socket_has_compatible_transport socket with
  | some transport =>
    let ret := decide (lcand.transport = transport)
    if ret = true ∧ transport = NICE_CANDIDATE_TRANSPORT_TCP_ACTIVE ∧ lcand.addr.port > 0 then
      decide (lcand.sockptr.ptr = socket.ptr)
    else ret
  | none =>
    if socket.type = NICE_SOCKET_TYPE_UDP_TURN then decide (lcand.sockptr.ptr = socket.ptr)
    else true

/-- Modelled from the spec: `discovery_add_peer_reflexive_candidate` of the gathering module
(not in the sources) is asked for a peer-reflexive local candidate for the mapped address
with the given priority; the candidate it returns has been added to the local candidates of
the component. -/
def discovery_add_peer_reflexive_candidate (E : Ext) (agent : NiceAgent)
    (stream_id component_id priority : Nat) (mapped : NiceAddress) (sockptr : NiceSocket)
    (local_candidate : Option NiceCandidate) (remote_candidate : NiceCandidate) :
    Option NiceCandidate × NiceAgent :=
  match E.discovery_add_peer_reflexive_candidate stream_id component_id priority mapped sockptr
      local_candidate remote_candidate with
  | none => (none, agent)
  | some cand =>
    (some cand, agent.updateComponent stream_id component_id (fun c =>
      { c with local_candidates := g_slist_append c.local_candidates cand }))

/-- The last three statements of both branches of `priv_process_response_check_for_reflexive`:
the pair is Succeeded, leaves the triggered-check queue and loses its transactions. -/
def response_pair_succeeded (agent : NiceAgent) (p : Nat) : NiceAgent :=
  let agent1 := SET_PAIR_STATE agent p NICE_CHECK_SUCCEEDED
  let agent2 := priv_remove_pair_from_triggered_check_queue agent1 p
  agent2.updatePair p priv_free_all_stun_transactions

/-- The function `priv_process_response_check_for_reflexive`; `p` is the record of the pair
that got the response, `new_pair` the address of the pair allocated if one is.  It returns
the address of the pair found or created, `none` for NULL.  The bookkeeping of
`nice_component_add_valid_candidate` is not part of the embedded state. -/
def priv_process_response_check_for_reflexive (E : Ext) (agent : NiceAgent)
    (stream_id component_id : Nat) (p : CandidateCheckPair) (sockptr : NiceSocket)
    (mapped : NiceAddress) (local_candidate : Option NiceCandidate)
    (remote_candidate : NiceCandidate) (new_pair : Nat) : Option Nat × NiceAgent :=
  match agent_find_component agent stream_id component_id with
  | none => (none, agent)
  | some (stream, component) =>
    let local_cand := component.local_candidates.find? (fun cand =>
      nice_address_equal mapped cand.addr &&
      local_candidate_and_socket_compatible cand sockptr)
    let found := stream.conncheck_list.find? (fun pair =>
      local_cand.map (fun c => c.ptr) == some pair.local_.ptr &&
      remote_candidate.ptr == pair.remote.ptr)
    match found with
    | some pair =>
      let agent1 :=
        if pair.ptr = p.ptr then agent.updatePair p.ptr (fun q => { q with valid := true })
        else agent
      (some pair.ptr, response_pair_succeeded agent1 p.ptr)
    | none =>
      let r : Option NiceCandidate × NiceAgent :=
        if local_cand.isNone ∧ agent.force_relay = false then
          discovery_add_peer_reflexive_candidate E agent stream.id component.id
            p.stun_priority mapped sockptr local_candidate remote_candidate
        else (local_cand, agent)
      match r.1 with
      | some cand =>
        let agent1 := priv_add_peer_reflexive_pair E r.2 stream.id component cand p new_pair
        let agent2 := agent1.updatePair new_pair (fun q => { q with valid := true })
        (some new_pair, response_pair_succeeded agent2 p.ptr)
      | none => (none, response_pair_succeeded r.2 p.ptr)

/-- The first transaction, in list order, whose request has the given transaction id: its
position and the transaction. -/
def find_transaction (id : Nat) : List StunTransaction → Nat → Option (Nat × StunTransaction)
  | [], _ => none
  | stun :: rest, k =>
    if stun.message.id = id then some (k, stun) else find_transaction id rest (k + 1)

/-- The search of `priv_map_reply_to_conn_check_request`: the first pair of the conncheck
list with a transaction that the response answers, with that transaction. -/
def find_matching_request (id : Nat) :
    List CandidateCheckPair → Option (CandidateCheckPair × Nat × StunTransaction)
  | [] => none
  | p :: ps =>
    match find_transaction id p.stun_transactions 0 with
    | some (k, stun) => some (p, k, stun)
    | none => find_matching_request id ps

/-- The step "updating the nominated flag" of the success branch of
`priv_map_reply_to_conn_check_request`: whether `ok_pair->nominated` is set, read from the
pair `p` that got the response. -/
def response_sets_nominated (agent : NiceAgent) (p : CandidateCheckPair) : Bool :=
  if NICE_AGENT_IS_COMPATIBLE_WITH_RFC5245_OR_OC2007R2 agent then
    if agent.controlling_mode then
      match agent.nomination_mode with
      | NICE_NOMINATION_MODE_REGULAR => p.use_candidate_on_next_check
      | NICE_NOMINATION_MODE_AGGRESSIVE => !p.nominated
    else p.mark_nominated_on_response_arrival
  else false

/-- The success branch of `priv_map_reply_to_conn_check_request` for the pair `p` and its
transaction at position `k`, from the removal of the transaction to the end of the step that
marks pairs valid: the agent when the pair is failed instead (mismatch of the source address,
or no remote candidate), else the value of `ok_pair` before its NULL test, the record of `p`
read after the removal of the transaction, and the agent. -/
def map_reply_validate (E : Ext) (agent : NiceAgent) (stream_id component_id : Nat)
    (sockptr : NiceSocket) (from_ : NiceAddress) (local_candidate : Option NiceCandidate)
    (remote_candidate : Option NiceCandidate) (resp : StunResponse) (new_pair : Nat)
    (p : CandidateCheckPair) (k : Nat) :
    Except NiceAgent (Option Nat × CandidateCheckPair × NiceAgent) :=
  let agent1 := agent.updatePair p.ptr (fun q => priv_remove_stun_transaction q k)
  if nice_address_equal from_ p.remote.addr = false then
    Except.error (candidate_check_pair_fail agent1 p.ptr)
  else
    match remote_candidate with
    | none => Except.error (candidate_check_pair_fail agent1 p.ptr)
    | some rcand =>
      let p1 := (agent1.findPair p.ptr).getD p
      if resp.res = STUN_USAGE_ICE_RETURN_NO_MAPPED_ADDRESS then
        Except.ok (none, p1, agent1.updatePair p.ptr (fun q =>
          { q with state := NICE_CHECK_SUCCEEDED, valid := true }))
      else
        let r := priv_process_response_check_for_reflexive E agent1 stream_id component_id p1
          sockptr resp.mapped local_candidate rcand new_pair
        Except.ok (r.1, p1, r.2)

/-- The rest of the success branch of `priv_map_reply_to_conn_check_request`, from the call
of `conn_check_unfreeze_related`: `p` is the address of the pair that got the response, `p1`
its record, `ok_pair` the address the nominated flag is written to. -/
def map_reply_nominate (E : Ext) (agent : NiceAgent) (stream_id component_id : Nat)
    (p : Nat) (p1 : CandidateCheckPair) (ok_pair : Nat) : NiceAgent :=
  let p2 := (agent.findPair p).getD p1
  let agent2 := conn_check_unfreeze_related E agent p2
  let p3 := (agent2.findPair p).getD p2
  let agent3 :=
    if response_sets_nominated agent2 p3 then
      agent2.updatePair ok_pair (fun q => { q with nominated := true })
    else agent2
  let agent4 :=
    match agent3.findPair ok_pair with
    | some ok =>
      if ok.nominated = true then
        let b := conn_check_update_selected_pair E agent3 stream_id component_id ok
        if component_state b stream_id component_id ≠ some NICE_COMPONENT_STATE_READY then
          agent_signal_component_state_change b stream_id component_id
            NICE_COMPONENT_STATE_CONNECTED
        else b
      else agent3
    | none => agent3
  conn_check_update_check_list_state_for_ready agent4 stream_id component_id

/-- The success branch of `priv_map_reply_to_conn_check_request` for the pair `p` and its
transaction at position `k`. -/
def map_reply_success (E : Ext) (agent : NiceAgent) (stream_id component_id : Nat)
    (sockptr : NiceSocket) (from_ : NiceAddress) (local_candidate : Option NiceCandidate)
    (remote_candidate : Option NiceCandidate) (resp : StunResponse) (new_pair : Nat)
    (p : CandidateCheckPair) (k : Nat) : NiceAgent :=
  match map_reply_validate E agent stream_id component_id sockptr from_ local_candidate
      remote_candidate resp new_pair p k with
  | Except.error failed => failed
  | Except.ok (ok_pair, p1, agent1) =>
    map_reply_nominate E agent1 stream_id component_id p.ptr p1 (ok_pair.getD p.ptr)

/-- The address `ok_pair` holds, after its NULL test, in the success branch of
`priv_map_reply_to_conn_check_request`: the pair the nominated flag is written to; `none` when
the pair is failed instead. -/
def map_reply_ok_pair (E : Ext) (agent : NiceAgent) (stream_id component_id : Nat)
    (sockptr : NiceSocket) (from_ : NiceAddress) (local_candidate : Option NiceCandidate)
    (remote_candidate : Option NiceCandidate) (resp : StunResponse) (new_pair : Nat)
    (p : CandidateCheckPair) (k : Nat) : Option Nat :=
  match map_reply_validate E agent stream_id component_id sockptr from_ local_candidate
      remote_candidate resp new_pair p k with
  | Except.error _ => none
  | Except.ok (ok_pair, _, _) => some (ok_pair.getD p.ptr)

/-- The function `priv_map_reply_to_conn_check_request`: whether a matching transaction was
found, and the agent. -/
def priv_map_reply_to_conn_check_request (E : Ext) (agent : NiceAgent)
    (stream_id component_id : Nat) (sockptr : NiceSocket) (from_ : NiceAddress)
    (local_candidate remote_candidate : Option NiceCandidate) (resp : StunResponse)
    (new_pair : Nat) : Bool × NiceAgent :=
  match agent_find_stream agent stream_id with
  | none => (false, agent)
  | some stream =>
    match find_matching_request resp.id stream.conncheck_list with
    | none => (false, agent)
    | some (p, k, stun) =>
      if resp.res = STUN_USAGE_ICE_RETURN_SUCCESS ∨
          resp.res = STUN_USAGE_ICE_RETURN_NO_MAPPED_ADDRESS then
        (true, map_reply_success E agent stream_id component_id sockptr from_ local_candidate
          remote_candidate resp new_pair p k)
      else if resp.res = STUN_USAGE_ICE_RETURN_ROLE_CONFLICT then
        if p.retransmit = false then (true, agent)
        else
          let controlled_mode := stun.message.ice_controlled
          let agent1 := priv_check_for_role_conflict E agent controlled_mode
          let agent2 := agent1.updatePair p.ptr (fun q => priv_remove_stun_transaction q k)
          (true, priv_add_pair_to_triggered_check_queue agent2 p.ptr)
      else (true, candidate_check_pair_fail agent p.ptr)

/-! ## Predicates of the specification -/

/-- The conncheck list is sorted by non-increasing pair priority. -/
def conncheck_sorted (l : List CandidateCheckPair) : Prop :=
  l.Pairwise (fun a b => a.priority ≥ b.priority)

instance : DecidablePred conncheck_sorted :=
  fun l => by unfold conncheck_sorted; infer_instance

/-- The list `new` is the list `old` with `x` inserted somewhere: the elements of `old` are
all there, in their order. -/
def inserted_into {α : Type} (old new : List α) (x : α) : Prop :=
  ∃ l1 l2, old = l1 ++ l2 ∧ new = l1 ++ x :: l2

/-- The selected pair of a component, `none` when the component is unknown. -/
def selected_pair_of (agent : NiceAgent) (stream_id component_id : Nat) :
    Option CandidatePair :=
  (agent_find_component agent stream_id component_id).map (fun r => r.2.selected_pair)

/-- Every conncheck list is sorted and every pair has the priority of the present role. -/
def priorities_in_force (E : Ext) (agent : NiceAgent) : Prop :=
  ∀ s ∈ agent.streams, conncheck_sorted s.conncheck_list ∧
    ∀ q ∈ s.conncheck_list,
      q.priority = E.agent_candidate_pair_priority agent.controlling_mode q.local_ q.remote

/-- The property `P` holds of every pair of every conncheck list. -/
def AllPairs (P : CandidateCheckPair → Prop) (agent : NiceAgent) : Prop :=
  ∀ q ∈ agent.allPairs, P q

/-- The property `P` of a pair depends on nothing but its address, its remote candidate and
its flags `valid` and `nominated`. -/
def FlagsOnly (P : CandidateCheckPair → Prop) : Prop :=
  ∀ q q1 : CandidateCheckPair, q1.ptr = q.ptr → q1.remote = q.remote → q1.valid = q.valid →
    q1.nominated = q.nominated → P q → P q1

/-- The property `P` survives the write `nominated = TRUE` on a pair that is valid, and on any
pair when `rfc` is false. -/
def NominationSafe (rfc : Bool) (P : CandidateCheckPair → Prop) : Prop :=
  ∀ q : CandidateCheckPair, P q → (rfc = false ∨ q.valid = true) →
    P { q with nominated := true }

/-- Every nominated pair of the agent is valid. -/
def nominated_implies_valid (agent : NiceAgent) : Prop :=
  AllPairs (fun q => q.nominated = true → q.valid = true) agent

instance (agent : NiceAgent) : Decidable (nominated_implies_valid agent) := by
  unfold nominated_implies_valid AllPairs; infer_instance

/-- Every pair of `after` that is valid was valid in `before`, or satisfies `allowed`. -/
def valid_set_only_when (allowed : CandidateCheckPair → Prop) (before after : NiceAgent) :
    Prop :=
  AllPairs (fun q => q.valid = true →
    (∃ q0 ∈ before.allPairs, q0.ptr = q.ptr ∧ q0.valid = true) ∨ allowed q) after

/-- The step from `a` to `b` keeps the compatibility mode, and keeps `P` true of every
pair. -/
def Keeps (P : CandidateCheckPair → Prop) (a b : NiceAgent) : Prop :=
  b.compatibility = a.compatibility ∧ (AllPairs P a → AllPairs P b)

/-! ## Concrete data, used to evaluate the embedding -/

/-- Every example address is an IPv4 address (`AF_INET`). -/
def ex_sa_family (_ : NiceAddress) : Nat := 2

/-- A choice of collaborators: the pair priority of RFC 8445 section 6.1.2.3, a timer that
asks for a retransmission until its count is used up, a gathering module that always
delivers the peer-reflexive candidate. -/
def ext0 : Ext where
  agent_candidate_pair_priority := fun controlling l r =>
    let g := if controlling then l.priority else r.priority
    let d := if controlling then r.priority else l.priority
    2 ^ 32 * min g d + 2 * max g d + (if g > d then 1 else 0)
  nice_candidate_pair_priority := fun g d =>
    2 ^ 32 * min g d + 2 * max g d + (if g > d then 1 else 0)
  nice_candidate_jingle_priority := fun _ => 1000
  nice_candidate_msn_priority := fun _ => 1000
  nice_candidate_ms_ice_priority := fun _ _ _ => 1000
  nice_candidate_ice_priority := fun _ _ _ => 1845501695
  discovery_add_peer_reflexive_candidate := fun _ component_id priority mapped sockptr _ _ =>
    some
      { ptr := 900
        type := NICE_CANDIDATE_TYPE_PEER_REFLEXIVE
        transport := NICE_CANDIDATE_TRANSPORT_UDP
        addr := mapped
        base_addr := sockptr.addr
        priority := priority
        component_id := component_id
        foundation := "9"
        sockptr := sockptr
        username := none
        password := none }
  stun_timer_refresh := fun t _ =>
    if t.retransmissions ≥ t.max_retransmissions then (STUN_USAGE_TIMER_RETURN_TIMEOUT, t)
    else (STUN_USAGE_TIMER_RETURN_RETRANSMIT,
      { t with retransmissions := t.retransmissions + 1, delay := 2 * t.delay })
  stun_timer_remainder := fun t _ => t.delay
  stun_timer_start := fun timeout max_retransmissions => ⟨timeout, 0, max_retransmissions⟩
  stun_timer_start_reliable := fun timeout => ⟨timeout, 0, 0⟩
  stun_new_transaction_id := fun _ pair => 7000 + pair.ptr
  stun_usage_ice_conncheck_create_len := fun _ _ => 96
  g_base64_decode_len := fun u => u.length
  nice_tcp_active_socket_connect := fun _ _ => none
  ms_ice2_legacy_conncheck_resends := fun _ => false
  keepalive_messages := fun _ => []
  NICE_CANDIDATE_PAIR_MAX_FOUNDATION := 66
  NICE_STREAM_MAX_UNAME := 256
  STUN_TIMER_DEFAULT_TIMEOUT := 200
  sa_family := ex_sa_family

/-- A UDP socket bound to 10.0.0.1:40000. -/
def ex_sock : NiceSocket :=
  { ptr := 500, type := NICE_SOCKET_TYPE_UDP_BSD, addr := ⟨167772161, 40000⟩
    has_fileno := true, passive_parent := false, reliable := false }

/-- A local host candidate 10.0.0.1:40000. -/
def ex_local : NiceCandidate :=
  { ptr := 100, type := NICE_CANDIDATE_TYPE_HOST, transport := NICE_CANDIDATE_TRANSPORT_UDP
    addr := ⟨167772161, 40000⟩, base_addr := ⟨167772161, 40000⟩, priority := 2122252543
    component_id := 1, foundation := "1", sockptr := ex_sock
    username := none, password := none }

/-- A remote server-reflexive candidate 203.0.113.5:50000. -/
def ex_remote : NiceCandidate :=
  { ptr := 200, type := NICE_CANDIDATE_TYPE_SERVER_REFLEXIVE
    transport := NICE_CANDIDATE_TRANSPORT_UDP
    addr := ⟨3405803781, 50000⟩, base_addr := ⟨3405803781, 50000⟩, priority := 1686052607
    component_id := 1, foundation := "2", sockptr := ex_sock
    username := none, password := none }

/-- A second remote candidate, of type host, 10.0.0.2:40001. -/
def ex_remote2 : NiceCandidate :=
  { ptr := 201, type := NICE_CANDIDATE_TYPE_HOST, transport := NICE_CANDIDATE_TRANSPORT_UDP
    addr := ⟨167772162, 40001⟩, base_addr := ⟨167772162, 40001⟩, priority := 2122252542
    component_id := 1, foundation := "3", sockptr := ex_sock
    username := none, password := none }

/-- A pair of `ex_local` and the given remote candidate, with nothing in flight. -/
def ex_pair (ptr : Nat) (remote : NiceCandidate) (state : NiceCheckState) (priority : Nat) :
    CandidateCheckPair :=
  { ptr := ptr, stream_id := 1, component_id := 1, local_ := ex_local, remote := remote
    sockptr := ex_sock, foundation := "1:" ++ remote.foundation, state := state
    nominated := false, valid := false, use_candidate_on_next_check := false
    mark_nominated_on_response_arrival := false, retransmit := false
    discovered_pair := none, succeeded_pair := none
    priority := priority, stun_priority := 1845501695, stun_transactions := [] }

/-- A component with the three example candidates and no selected pair. -/
def ex_component : NiceComponent :=
  { id := 1, state := NICE_COMPONENT_STATE_CONNECTING
    selected_pair := ⟨none, none, 0, 0⟩
    local_candidates := [ex_local], remote_candidates := [ex_remote2, ex_remote]
    incoming_checks := [] }

/-- A stream with one component and the given conncheck list. -/
def ex_stream (l : List CandidateCheckPair) : NiceStream :=
  { id := 1, n_components := 1, components := [ex_component], conncheck_list := l
    local_ufrag := "lufr", remote_ufrag := "rufr", tick_counter := 0 }

/-- A controlling agent in regular nomination mode with one stream. -/
def ex_agent (compatibility : NiceCompatibility) (l : List CandidateCheckPair)
    (queue : List Nat) : NiceAgent :=
  { streams := [ex_stream l], triggered_check_queue := queue, controlling_mode := true
    compatibility := compatibility, nomination_mode := NICE_NOMINATION_MODE_REGULAR
    force_relay := false, reliable := false, support_renomination := false
    max_conn_checks := 100, timer_ta := 20, idle_timeout := 5000
    conncheck_ongoing_idle_delay := 0, stun_max_retransmissions := 7
    stun_initial_timeout := 200, stun_reliable_timeout := 7900, tie_breaker := 10
    discovery_list := [], conncheck_timer_running := true, sent := [], signals := [] }

/-- Two pairs in descending priority order: host to host, then host to server-reflexive. -/
def ex_list : List CandidateCheckPair :=
  [ex_pair 11 ex_remote2 NICE_CHECK_WAITING 9115005265987371519,
   ex_pair 12 ex_remote NICE_CHECK_FROZEN 7241540810645045759]

/-- A request in flight sent in the controlling role, with transaction id 7012. -/
def ex_transaction : StunTransaction :=
  { next_tick := 200000, timer := ⟨200, 0, 7⟩
    message := { length := 96, id := 7012, use_candidate := false, ice_controlling := true
                 ice_controlled := false, priority := 1845501695 } }

/-- The host to server-reflexive pair with its check in progress. -/
def ex_pair_in_progress : CandidateCheckPair :=
  { ex_pair 12 ex_remote NICE_CHECK_IN_PROGRESS 7241540810645045759 with
    stun_transactions := [ex_transaction], retransmit := true }

/-- The example list with the check of its second pair in progress. -/
def ex_list_in_progress : List CandidateCheckPair :=
  [ex_pair 11 ex_remote2 NICE_CHECK_WAITING 9115005265987371519, ex_pair_in_progress]

/-- The peer-reflexive local candidate `ext0` delivers for the mapped address
198.51.100.7:40000 seen on `ex_sock`. -/
def ex_prflx : NiceCandidate :=
  { ptr := 900, type := NICE_CANDIDATE_TYPE_PEER_REFLEXIVE
    transport := NICE_CANDIDATE_TRANSPORT_UDP, addr := ⟨3325256455, 40000⟩
    base_addr := ex_sock.addr, priority := 1845501695, component_id := 1
    foundation := "9", sockptr := ex_sock, username := none, password := none }

/-- A second request in flight for the same pair, sent after `ex_transaction`, with
transaction id 7013. -/
def ex_transaction_retry : StunTransaction :=
  { next_tick := 400000, timer := ⟨200, 0, 7⟩
    message := { length := 96, id := 7013, use_candidate := false, ice_controlling := true
                 ice_controlled := false, priority := 1845501695 } }

/-- The example list with two requests in flight for its second pair: the pair was checked,
then checked again by a triggered check before the first answer came. -/
def ex_list_two_transactions : List CandidateCheckPair :=
  [ex_pair 11 ex_remote2 NICE_CHECK_WAITING 9115005265987371519,
   { ex_pair_in_progress with stun_transactions := [ex_transaction_retry, ex_transaction] }]

/-- The collaborators `ext0` with a codec that cannot encode the request
(`stun_usage_ice_conncheck_create` returns 0). -/
def ext_no_request : Ext :=
  { ext0 with stun_usage_ice_conncheck_create_len := fun _ _ => 0 }

/-! ## Predicates of the specification, continued -/

/-- The pairs `priv_limit_conn_check_list_size` is specified to remove: a pair in state
Failed, or a pair in state Frozen at a position (counted from 1) beyond `max_conn_checks`. -/
def limit_removes (max_conn_checks position : Nat) (p : CandidateCheckPair) : Bool :=
  p.state == NICE_CHECK_FAILED ||
    (p.state == NICE_CHECK_FROZEN && decide (position > max_conn_checks))

/-- The list `l` without the pairs `limit_removes` designates, positions counted from 1. -/
def limit_keeps (max_conn_checks : Nat) (l : List CandidateCheckPair) :
    List CandidateCheckPair :=
  (l.enum.filter (fun ip => !limit_removes max_conn_checks (ip.1 + 1) ip.2)).map Prod.snd

/-- The example agent with the conncheck list capped at one pair. -/
def ex_agent_capped : NiceAgent :=
  { ex_agent NICE_COMPATIBILITY_RFC5245 ex_list [12] with max_conn_checks := 1 }

/-- The conditions on a component under which the specification has it declared failed:
every pair of the component in the list is in state Failed, Succeeded or Discovered, no pair
of the component is nominated, and the component has a remote candidate. -/
def component_checks_failed (l : List CandidateCheckPair) (component : NiceComponent) : Prop :=
  (∀ p ∈ l, p.component_id = component.id →
    p.state = NICE_CHECK_FAILED ∨ p.state = NICE_CHECK_SUCCEEDED ∨
      p.state = NICE_CHECK_DISCOVERED) ∧
  (∀ p ∈ l, p.component_id = component.id → p.nominated = false) ∧
  component.remote_candidates ≠ []

instance (l : List CandidateCheckPair) (component : NiceComponent) :
    Decidable (component_checks_failed l component) := by
  unfold component_checks_failed; infer_instance

/-- The signal FAILED for the component with id `component_id`, when the component exists,
meets `component_checks_failed` and is not in state FAILED already. -/
def failed_signal (agent : NiceAgent) (stream_id component_id : Nat) : Option StateSignal :=
  match agent_find_component agent stream_id component_id with
  | some (stream, component) =>
    if component_checks_failed stream.conncheck_list component ∧
        component.state ≠ NICE_COMPONENT_STATE_FAILED then
      some ⟨stream_id, component_id, NICE_COMPONENT_STATE_FAILED⟩
    else none
  | none => none

/-- The example list with both checks failed. -/
def ex_list_failed : List CandidateCheckPair :=
  [ex_pair 11 ex_remote2 NICE_CHECK_FAILED 9115005265987371519,
   ex_pair 12 ex_remote NICE_CHECK_FAILED 7241540810645045759]

/-- The pairs of a component that the specification lets block the state READY: the pairs
with a priority not below the selected-pair priority that are in state InProgress, or are in
the triggered-check queue in another state. -/
def pending_checks (l : List CandidateCheckPair) (queue : List Nat)
    (component_id priority : Nat) : List CandidateCheckPair :=
  l.filter (fun p => p.component_id == component_id && decide (p.priority ≥ priority) &&
    (p.state == NICE_CHECK_IN_PROGRESS ||
      (g_slist_find queue p.ptr && p.state != NICE_CHECK_IN_PROGRESS)))

/-- The conncheck list of the stream with the given id, empty when there is no such
stream. -/
def stream_pairs (agent : NiceAgent) (stream_id : Nat) : List CandidateCheckPair :=
  match agent_find_stream agent stream_id with
  | some s => s.conncheck_list
  | none => []

/-- The conditions under which the specification has a component signalled READY: a pair of
the component is valid and nominated and, after `priv_prune_pending_checks`, no pair of the
component with a priority not below `priority` is InProgress or queued. -/
def ready_conditions (agent : NiceAgent) (stream_id component_id priority : Nat) : Prop :=
  (∃ p ∈ stream_pairs agent stream_id,
    p.component_id = component_id ∧ p.valid = true ∧ p.nominated = true) ∧
  pending_checks
    (stream_pairs (priv_prune_pending_checks agent stream_id component_id).2 stream_id)
    (priv_prune_pending_checks agent stream_id component_id).2.triggered_check_queue
    component_id priority = []

instance (agent : NiceAgent) (stream_id component_id priority : Nat) :
    Decidable (ready_conditions agent stream_id component_id priority) := by
  unfold ready_conditions; infer_instance

/-- The host to host pair of the example, succeeded, valid and nominated. -/
def ex_pair_nominated : CandidateCheckPair :=
  { ex_pair 11 ex_remote2 NICE_CHECK_SUCCEEDED 9115005265987371519 with
    valid := true, nominated := true }

/-- A controlling agent whose component is CONNECTED and has selected the nominated pair 11,
while the check of the lower-priority pair 12 is still in progress and queued. -/
def ex_agent_nominated : NiceAgent :=
  { ex_agent NICE_COMPATIBILITY_RFC5245 [] [12] with
    streams :=
      [{ ex_stream [ex_pair_nominated, ex_pair_in_progress] with
         components :=
           [{ ex_component with
              state := NICE_COMPONENT_STATE_CONNECTED
              selected_pair :=
                ⟨some ex_local, some ex_remote2, 9115005265987371519, 1845501695⟩ }] }] }

/-- A pair given up by the retransmission pass: state Failed, no transaction left, and
`retransmit` false. -/
def pair_given_up (p : CandidateCheckPair) : Prop :=
  p.state = NICE_CHECK_FAILED ∧ p.stun_transactions = [] ∧ p.retransmit = false

instance (p : CandidateCheckPair) : Decidable (pair_given_up p) := by
  unfold pair_given_up; infer_instance

/-- Every transaction of the list is due at `now` and its timer reports a timeout. -/
def transactions_all_timeout (E : Ext) (now : Int) (l : List StunTransaction) : Prop :=
  ∀ t ∈ l, ¬ now < t.next_tick ∧
    (E.stun_timer_refresh t.timer now).1 = STUN_USAGE_TIMER_RETURN_TIMEOUT

instance (E : Ext) (now : Int) (l : List StunTransaction) :
    Decidable (transactions_all_timeout E now l) := by
  unfold transactions_all_timeout; infer_instance

/-- What `priv_prune_pending_checks` may do to a pair it leaves in the list: nothing but a
change of `retransmit` on an InProgress pair. -/
def pruned_from (q q1 : CandidateCheckPair) : Prop :=
  q1.ptr = q.ptr ∧ q1.state = q.state ∧ q1.stun_transactions = q.stun_transactions ∧
    q1.stream_id = q.stream_id ∧ q1.component_id = q.component_id ∧
    (q.state ≠ NICE_CHECK_IN_PROGRESS → q1 = q)

/-- A request in flight whose timer has used up its retransmissions. -/
def ex_transaction_exhausted : StunTransaction :=
  { ex_transaction with timer := ⟨200, 7, 7⟩ }

/-- The example list with the check of its second pair in progress and out of
retransmissions. -/
def ex_list_exhausted : List CandidateCheckPair :=
  [ex_pair 11 ex_remote2 NICE_CHECK_WAITING 9115005265987371519,
   { ex_pair_in_progress with stun_transactions := [ex_transaction_exhausted] }]

/-- The pair the regular nomination examines in place of the valid pair `p0`: its parent
`succeeded_pair` when it has one (the replacement at the head of the selection loop of
`priv_conn_check_tick_stream_nominate`; precondition: the parent is in a conncheck list, and
`p0` itself stands for it otherwise). -/
def nominate_checked_pair (agent : NiceAgent) (p0 : CandidateCheckPair) : CandidateCheckPair :=
  match p0.succeeded_pair with
  | some sp =>
    match agent.findPair sp with
    | some q => q
    | none => p0
  | none => p0

/-- What links and list order depend on in a pair: its address, its component and its parent
link. -/
def pair_shape (p : CandidateCheckPair) : Nat × Nat × Option Nat :=
  (p.ptr, p.component_id, p.succeeded_pair)

/-- A second socket of the example agent, bound to 10.0.0.9:40002. -/
def ex_sock_b : NiceSocket :=
  { ex_sock with ptr := 510, addr := ⟨167772169, 40002⟩ }

/-- A local host candidate of component 2 on another interface, 10.0.0.9:40002. -/
def ex_local_b : NiceCandidate :=
  { ex_local with ptr := 110, addr := ⟨167772169, 40002⟩, base_addr := ⟨167772169, 40002⟩
                  priority := 2122252542, component_id := 2, foundation := "4"
                  sockptr := ex_sock_b }

/-- A local host candidate of component 2 on the interface of `ex_local`, 10.0.0.1:40003. -/
def ex_local_c2 : NiceCandidate :=
  { ex_local with ptr := 111, addr := ⟨167772161, 40003⟩, base_addr := ⟨167772161, 40003⟩
                  priority := 2122187006, component_id := 2, foundation := "1" }

/-- A remote host candidate of component 2, 10.0.0.2:40005. -/
def ex_remote_c2 : NiceCandidate :=
  { ex_remote2 with ptr := 210, addr := ⟨167772162, 40005⟩, base_addr := ⟨167772162, 40005⟩
                    priority := 2122252541, component_id := 2 }

/-- A valid pair in state Succeeded. -/
def ex_pair_valid (ptr component_id : Nat) (local_ remote : NiceCandidate) (priority : Nat) :
    CandidateCheckPair :=
  { ex_pair ptr remote NICE_CHECK_SUCCEEDED priority with
    component_id := component_id, local_ := local_, sockptr := local_.sockptr
    foundation := local_.foundation ++ ":" ++ remote.foundation, valid := true }

/-- A conncheck list of two components, in descending priority order, with two valid pairs
per component; the best pair of component 2 is on another interface than the best pair of
component 1. -/
def ex_list_two_components : List CandidateCheckPair :=
  [ex_pair_valid 11 1 ex_local ex_remote2 9115005265987371519,
   ex_pair_valid 21 2 ex_local_b ex_remote_c2 9115005261692404221,
   ex_pair_valid 22 2 ex_local_c2 ex_remote_c2 9114723791010660858,
   ex_pair_valid 12 1 ex_local ex_remote 7241540810645045759]

/-- The example agent with a stream of two components and the list
`ex_list_two_components`. -/
def ex_agent_two_components : NiceAgent :=
  { ex_agent NICE_COMPATIBILITY_RFC5245 [] [] with
    streams := [{ ex_stream ex_list_two_components with
      n_components := 2
      components := [ex_component,
        { ex_component with id := 2, local_candidates := [ex_local_b, ex_local_c2]
                            remote_candidates := [ex_remote_c2] }] }] }

/-- The pair discovered from the check of pair 11: local candidate `ex_prflx`, linked to its
parent, valid. -/
def ex_pair_discovered : CandidateCheckPair :=
  { ex_pair 13 ex_remote2 NICE_CHECK_DISCOVERED 7926369428982071804 with
    local_ := ex_prflx, foundation := "9:3", valid := true, succeeded_pair := some 11 }

/-- A sorted list after two successful checks: pair 11 succeeded and produced the discovered
pair 13, pair 12 succeeded and is valid itself. -/
def ex_list_discovered : List CandidateCheckPair :=
  [{ ex_pair 11 ex_remote2 NICE_CHECK_SUCCEEDED 9115005265987371519 with
     discovered_pair := some 13 },
   ex_pair_discovered,
   { ex_pair 12 ex_remote NICE_CHECK_SUCCEEDED 7241540810645045759 with valid := true }]

/-! ## Triggered checks for inbound requests -/

/-- The function `conn_check_schedule_next`, as far as the connectivity-check timer is
concerned (the keepalive timer is not part of the model). -/
def conn_check_schedule_next (agent : NiceAgent) : NiceAgent :=
  if agent.conncheck_timer_running = false then { agent with conncheck_timer_running := true }
  else agent

/-- The function `conn_check_match_transport`. -/
def conn_check_match_transport (transport : NiceCandidateTransport) : NiceCandidateTransport :=
  match transport with
  | NICE_CANDIDATE_TRANSPORT_TCP_ACTIVE => NICE_CANDIDATE_TRANSPORT_TCP_PASSIVE
  | NICE_CANDIDATE_TRANSPORT_TCP_PASSIVE => NICE_CANDIDATE_TRANSPORT_TCP_ACTIVE
  | NICE_CANDIDATE_TRANSPORT_TCP_SO => NICE_CANDIDATE_TRANSPORT_TCP_SO
  | NICE_CANDIDATE_TRANSPORT_UDP => NICE_CANDIDATE_TRANSPORT_UDP

/-- The function `priv_conn_check_add_for_candidate_pair_matched`: the address of the pair,
`none` for NULL, and the agent.  `component` is the component as the caller reads it. -/
def priv_conn_check_add_for_candidate_pair_matched (E : Ext) (agent : NiceAgent)
    (stream_id : Nat) (component : NiceComponent) (local_ remote : NiceCandidate)
    (initial_state : NiceCheckState) (new_pair : Nat) : Option Nat × NiceAgent :=
  let r := priv_add_new_check_pair E agent stream_id component local_ remote initial_state
    new_pair
  match r.1 with
  | none => (none, r.2)
  | some pair =>
    if component_state r.2 stream_id component.id = some NICE_COMPONENT_STATE_CONNECTED ∨
        component_state r.2 stream_id component.id = some NICE_COMPONENT_STATE_READY then
      (some pair, agent_signal_component_state_change r.2 stream_id component.id
        NICE_COMPONENT_STATE_CONNECTED)
    else
      (some pair, agent_signal_component_state_change r.2 stream_id component.id
        NICE_COMPONENT_STATE_CONNECTING)

/-- The function `conn_check_add_for_candidate_pair`: the returned flag and the agent. -/
def conn_check_add_for_candidate_pair (E : Ext) (agent : NiceAgent) (stream_id : Nat)
    (component : NiceComponent) (local_ remote : NiceCandidate) (new_pair : Nat) :
    Bool × NiceAgent :=
  if (agent.compatibility = NICE_COMPATIBILITY_RFC5245 ∨
      agent.compatibility = NICE_COMPATIBILITY_WLM2009 ∨
      agent.compatibility = NICE_COMPATIBILITY_OC2007R2) ∧
      (local_.type = NICE_CANDIDATE_TYPE_SERVER_REFLEXIVE ∨
       local_.type = NICE_CANDIDATE_TYPE_PEER_REFLEXIVE) then (false, agent)
  else if local_.transport = NICE_CANDIDATE_TRANSPORT_TCP_PASSIVE then (false, agent)
  else if local_.transport = conn_check_match_transport remote.transport ∧
      E.sa_family local_.addr = E.sa_family remote.addr then
    let r := priv_conn_check_add_for_candidate_pair_matched E agent stream_id component local_
      remote NICE_CHECK_FROZEN new_pair
    (r.1.isSome, r.2)
  else (false, agent)

/-- The loop of `conn_check_add_for_candidate` over the local candidates of the component;
`k` counts the iterations, `new_pairs k` is the address of the pair iteration `k` allocates if
it creates one.  The component is read anew at every call. -/
def conn_check_add_for_candidate_loop (E : Ext) (stream_id component_id : Nat)
    (remote : NiceCandidate) (new_pairs : Nat → Nat) :
    List NiceCandidate → Nat → Nat → NiceAgent → Nat × NiceAgent
  | [], _, added, agent => (added, agent)
  | local_ :: rest, k, added, agent =>
    if agent.force_relay = true ∧ local_.type ≠ NICE_CANDIDATE_TYPE_RELAYED then
      conn_check_add_for_candidate_loop E stream_id component_id remote new_pairs rest (k + 1)
        added agent
    else
      match agent_find_component agent stream_id component_id with
      | none =>
        conn_check_add_for_candidate_loop E stream_id component_id remote new_pairs rest (k + 1)
          added agent
      | some (_, component) =>
        let r := conn_check_add_for_candidate_pair E agent stream_id component local_ remote
          (new_pairs k)
        conn_check_add_for_candidate_loop E stream_id component_id remote new_pairs rest (k + 1)
          (if r.1 then added + 1 else added) r.2

/-- The function `conn_check_add_for_candidate`: the number of pairs added and the agent. -/
def conn_check_add_for_candidate (E : Ext) (agent : NiceAgent) (stream_id component_id : Nat)
    (remote : NiceCandidate) (new_pairs : Nat → Nat) : Nat × NiceAgent :=
  if NICE_AGENT_IS_COMPATIBLE_WITH_RFC5245_OR_OC2007R2 agent = true ∧
      remote.type = NICE_CANDIDATE_TYPE_PEER_REFLEXIVE then (0, agent)
  else
    match agent_find_component agent stream_id component_id with
    | none => (0, agent)
    | some (_, component) =>
      conn_check_add_for_candidate_loop E stream_id component_id remote new_pairs
        component.local_candidates 0 0 agent

/-- The loop of `conn_check_add_for_local_candidate` over the remote candidates of the
component, with the conventions of `conn_check_add_for_candidate_loop`. -/
def conn_check_add_for_local_candidate_loop (E : Ext) (stream_id component_id : Nat)
    (local_ : NiceCandidate) (new_pairs : Nat → Nat) :
    List NiceCandidate → Nat → Nat → NiceAgent → Nat × NiceAgent
  | [], _, added, agent => (added, agent)
  | remote :: rest, k, added, agent =>
    match agent_find_component agent stream_id component_id with
    | none =>
      conn_check_add_for_local_candidate_loop E stream_id component_id local_ new_pairs rest
        (k + 1) added agent
    | some (_, component) =>
      let r := conn_check_add_for_candidate_pair E agent stream_id component local_ remote
        (new_pairs k)
      conn_check_add_for_local_candidate_loop E stream_id component_id local_ new_pairs rest
        (k + 1) (if r.1 then added + 1 else added) r.2

/-- The function `conn_check_add_for_local_candidate`: the number of pairs added and the
agent. -/
def conn_check_add_for_local_candidate (E : Ext) (agent : NiceAgent)
    (stream_id component_id : Nat) (local_ : NiceCandidate) (new_pairs : Nat → Nat) :
    Nat × NiceAgent :=
  if NICE_AGENT_IS_COMPATIBLE_WITH_RFC5245_OR_OC2007R2 agent = true ∧
      local_.type = NICE_CANDIDATE_TYPE_PEER_REFLEXIVE then (0, agent)
  else
    match agent_find_component agent stream_id component_id with
    | none => (0, agent)
    | some (_, component) =>
      conn_check_add_for_local_candidate_loop E stream_id component_id local_ new_pairs
        component.remote_candidates 0 0 agent

/-- The `switch (p->state)` of `priv_schedule_triggered_check` on the pair it has settled
on. -/
def schedule_triggered_check_pair (agent : NiceAgent) (stream_id : Nat)
    (component : NiceComponent) (p : CandidateCheckPair) : NiceAgent :=
  match p.state with
  | NICE_CHECK_WAITING => priv_add_pair_to_triggered_check_queue agent p.ptr
  | NICE_CHECK_FROZEN => priv_add_pair_to_triggered_check_queue agent p.ptr
  | NICE_CHECK_IN_PROGRESS =>
    if p.priority > component.selected_pair.priority then
      priv_add_pair_to_triggered_check_queue agent p.ptr
    else agent
  | NICE_CHECK_FAILED =>
    if p.priority > component.selected_pair.priority then
      let agent1 := priv_add_pair_to_triggered_check_queue agent p.ptr
      if component.state = NICE_COMPONENT_STATE_FAILED then
        conn_check_schedule_next (agent_signal_component_state_change agent1 stream_id
          component.id NICE_COMPONENT_STATE_CONNECTING)
      else if component.state = NICE_COMPONENT_STATE_READY then
        conn_check_schedule_next (agent_signal_component_state_change agent1 stream_id
          component.id NICE_COMPONENT_STATE_CONNECTED)
      else agent1
    else agent
  | NICE_CHECK_SUCCEEDED => agent
  | NICE_CHECK_DISCOVERED => agent

/-- The function `priv_schedule_triggered_check` (preconditions: `remote_cand` is not NULL; a
matching pair with a parent is in state Discovered; the parent `succeeded_pair` points to is
in a conncheck list): the returned flag and the agent.  The code reads the parent through the
pointer, also when the pair it pointed to has been freed; outside the precondition the
embedding goes on with the matching pair itself.  `new_pair` is the address of the pair
allocated if one is created. -/
def priv_schedule_triggered_check (E : Ext) (agent : NiceAgent) (stream_id component_id : Nat)
    (local_socket : NiceSocket) (remote_cand : NiceCandidate) (new_pair : Nat) :
    Bool × NiceAgent :=
  match agent_find_component agent stream_id component_id with
  | none => (false, agent)
  | some (stream, component) =>
    match stream.conncheck_list.find? (fun p => p.component_id == component.id &&
        p.remote.ptr == remote_cand.ptr && p.sockptr.ptr == local_socket.ptr) with
    | some p0 =>
      let p :=
        match p0.succeeded_pair with
        | some sp =>
          match agent.findPair sp with
          | some q => q
          | none => p0
        | none => p0
      (true, schedule_triggered_check_pair agent stream_id component p)
    | none =>
      match component.local_candidates.find? (fun c => c.sockptr.ptr == local_socket.ptr) with
      | some local_ =>
        let r := priv_conn_check_add_for_candidate_pair_matched E agent stream_id component
          local_ remote_cand NICE_CHECK_WAITING new_pair
        match r.1 with
        | some p => (true, priv_add_pair_to_triggered_check_queue r.2 p)
        | none => (true, r.2)
      | none => (false, agent)

/-- The function `priv_reply_to_conn_check` (precondition: `rcand` is NULL or has the address
`toaddr`); `len` is the length of the reply. -/
def priv_reply_to_conn_check (E : Ext) (agent : NiceAgent) (stream_id component_id : Nat)
    (lcand rcand : Option NiceCandidate) (toaddr : NiceAddress) (sockptr : NiceSocket)
    (len : Nat) (msg : StunMessage) (use_candidate : Bool) (new_pair : Nat) : NiceAgent :=
  let agent1 := agent_socket_send agent sockptr toaddr len
  let agent2 :=
    if agent.compatibility = NICE_COMPATIBILITY_OC2007R2 ∧
        E.ms_ice2_legacy_conncheck_resends msg = true then
      agent_socket_send agent1 sockptr toaddr len
    else agent1
  match rcand, agent_find_stream agent2 stream_id with
  | some r, some stream =>
    if stream.remote_ufrag ≠ "" then
      let agent3 := (priv_schedule_triggered_check E agent2 stream_id component_id sockptr r
        new_pair).2
      if use_candidate then
        priv_mark_pair_nominated E agent3 stream_id component_id lcand (some r)
      else agent3
    else agent2
  | _, _ => agent2

/-- The function `remote_candidate_and_socket_compatible`; `lcand` is `none` for NULL. -/
def remote_candidate_and_socket_compatible (lcand : Option NiceCandidate)
    (rcand : NiceCandidate) (socket : NiceSocket) : Bool :=
  let ret :=
    match nice_socket_has_compatible_transport socket with
    | some transport => decide (conn_check_match_transport rcand.transport = transport)
    | none => true
  match lcand with
  | some l =>
    if ret then decide (conn_check_match_transport l.transport = rcand.transport) else ret
  | none => ret

/-! ## The list walks, with the read of the node just visited

The loops of `priv_mark_pair_nominated` and `priv_conn_check_tick_stream` go on with
`i = i->next` after a body that may call `conn_check_update_check_list_state_for_ready`, and
with it `priv_prune_pending_checks`, which unlinks and frees nodes of the list walked (it
saves `next` before it frees a node; these two loops do not).  When the node freed is the one
the loop stands on, `i->next` is read from freed memory.  The definitions below are the two
functions with that read made explicit: the result is `none` for such a run.  The definitions
`priv_mark_pair_nominated` and `priv_conn_check_tick_stream` above give the state of every run
that reads no freed node. -/

/-- The node of the pair at address `ptr` is linked in the conncheck list of the stream. -/
def node_linked (agent : NiceAgent) (stream_id ptr : Nat) : Bool :=
  (stream_pairs agent stream_id).any (fun q => q.ptr == ptr)

/-- The loop of `priv_mark_pair_nominated` over the nodes of the conncheck list, given by the
addresses of their pairs; a node unlinked by an earlier iteration is not reached.  After the
body has run for the node at `ptr`, the loop reads `i->next` of that node: `none` when the
body has unlinked and freed it. -/
def priv_mark_pair_nominated_loop_checked (E : Ext) (stream_id component_id : Nat)
    (localcand remotecand : Option NiceCandidate) : List Nat → NiceAgent → Option NiceAgent
  | [], agent => some agent
  | ptr :: rest, agent =>
    match (agent_find_stream agent stream_id).bind
        (fun s => s.conncheck_list.find? (fun q => q.ptr == ptr)) with
    | none =>
      priv_mark_pair_nominated_loop_checked E stream_id component_id localcand remotecand rest
        agent
    | some pair0 =>
      if some pair0.local_.ptr = localcand.map (fun c => c.ptr) ∧
          some pair0.remote.ptr = remotecand.map (fun c => c.ptr) then
        let target : Option CandidateCheckPair :=
          if pair0.state = NICE_CHECK_SUCCEEDED then
            match pair0.discovered_pair with
            | some d => agent.findPair d
            | none => some pair0
          else some pair0
        match target with
        | none =>
          priv_mark_pair_nominated_loop_checked E stream_id component_id localcand remotecand
            rest agent
        | some pair =>
          let agent1 := priv_mark_pair_nominated_pair E agent stream_id component_id pair
          if node_linked agent1 stream_id ptr = true then
            priv_mark_pair_nominated_loop_checked E stream_id component_id localcand remotecand
              rest agent1
          else none
      else
        priv_mark_pair_nominated_loop_checked E stream_id component_id localcand remotecand rest
          agent

/-- The function `priv_mark_pair_nominated`, `none` when its loop reads a freed node. -/
def priv_mark_pair_nominated_checked (E : Ext) (agent : NiceAgent)
    (stream_id component_id : Nat) (localcand remotecand : Option NiceCandidate) :
    Option NiceAgent :=
  if NICE_AGENT_IS_COMPATIBLE_WITH_RFC5245_OR_OC2007R2 agent = true ∧
      agent.controlling_mode = true then some agent
  else
    match agent_find_stream agent stream_id with
    | none => some agent
    | some stream =>
      priv_mark_pair_nominated_loop_checked E stream_id component_id localcand remotecand
        (stream.conncheck_list.map (fun p => p.ptr)) agent

/-- The outer loop of `priv_conn_check_tick_stream` over the nodes of the conncheck list,
given by the addresses of their pairs; a node unlinked by an earlier iteration is not reached.
After a pair has been failed and `conn_check_update_check_list_state_for_ready` has run, the
loop reads `i->next` of the node of that pair: `none` when the pruning has unlinked and freed
it. -/
def priv_conn_check_tick_stream_loop_checked (E : Ext) (now : Int) (stream_id : Nat) :
    List Nat → NiceAgent → Option (Bool × NiceAgent)
  | [], agent => some (false, agent)
  | ptr :: rest, agent =>
    match (agent_find_stream agent stream_id).bind
        (fun s => s.conncheck_list.find? (fun q => q.ptr == ptr)) with
    | none => priv_conn_check_tick_stream_loop_checked E now stream_id rest agent
    | some p =>
      if p.stun_transactions = [] then
        priv_conn_check_tick_stream_loop_checked E now stream_id rest agent
      else
        match agent_find_component agent p.stream_id p.component_id with
        | none => priv_conn_check_tick_stream_loop_checked E now stream_id rest agent
        | some (_, component) =>
          let r := priv_conn_check_tick_stream_transactions E now p.stun_transactions p 0 0 0
          let agent1 := agent.updatePair ptr (fun _ => r.pair)
          match r.retransmitted with
          | some message =>
            some (true, agent_socket_send agent1 p.sockptr p.remote.addr message.length)
          | none =>
            if r.remaining = 0 then
              let agent2 := candidate_check_pair_fail agent1 ptr
              let agent3 :=
                conn_check_update_check_list_state_for_ready agent2 stream_id component.id
              if node_linked agent3 stream_id ptr = true then
                priv_conn_check_tick_stream_loop_checked E now stream_id rest agent3
              else none
            else priv_conn_check_tick_stream_loop_checked E now stream_id rest agent1

/-- The function `priv_conn_check_tick_stream`, `none` when its loop reads a freed node. -/
def priv_conn_check_tick_stream_checked (E : Ext) (now : Int) (agent : NiceAgent)
    (stream_id : Nat) : Option (Bool × NiceAgent) :=
  match agent_find_stream agent stream_id with
  | none => some (false, agent)
  | some stream =>
    priv_conn_check_tick_stream_loop_checked E now stream_id
      (stream.conncheck_list.map (fun p => p.ptr)) agent

/-! ## Early incoming checks -/

/-- The first search of `conn_check_remote_candidates_set` for the local candidate of a stored
check: the candidate whose address (base address, unless relayed) is the address of the
socket. -/
def icheck_local_candidate (component : NiceComponent) (icheck : IncomingCheck) :
    Option NiceCandidate :=
  component.local_candidates.find? (fun cand =>
    nice_address_equal icheck.local_socket.addr
      (if cand.type = NICE_CANDIDATE_TYPE_RELAYED then cand.addr else cand.base_addr) &&
    local_candidate_and_socket_compatible cand icheck.local_socket)

/-- The second search of `conn_check_remote_candidates_set` for the local candidate: a
TCP-active candidate with port 0 on the address of the socket. -/
def icheck_local_candidate_tcp_active (component : NiceComponent) (icheck : IncomingCheck) :
    Option NiceCandidate :=
  component.local_candidates.find? (fun cand =>
    nice_address_equal_no_port icheck.local_socket.addr cand.base_addr &&
    cand.addr.port == 0 &&
    cand.transport == NICE_CANDIDATE_TRANSPORT_TCP_ACTIVE &&
    local_candidate_and_socket_compatible cand icheck.local_socket)

/-- The search of `conn_check_remote_candidates_set` for the remote candidate of a stored
check. -/
def icheck_remote_candidate (component : NiceComponent) (lcand : NiceCandidate)
    (icheck : IncomingCheck) : Option NiceCandidate :=
  component.remote_candidates.find? (fun cand =>
    nice_address_equal cand.addr icheck.from_ &&
    remote_candidate_and_socket_compatible (some lcand) cand icheck.local_socket)

/-- The statements of the loop of `conn_check_remote_candidates_set` that follow the choice
of `lcand` and `rcand`: a pair is made for a TCP-passive local candidate that has none, the
check goes through `priv_schedule_triggered_check` and, when `use_candidate` is set, through
`priv_mark_pair_nominated`, and its link leaves the queue.  `new1` and `new2` are the
addresses of the pairs the two calls allocate if they create one.  The result is `none` when
the loop of `priv_mark_pair_nominated` reads a freed node. -/
def replay_incoming_check (E : Ext) (stream_id component_id : Nat) (agent : NiceAgent)
    (icheck : IncomingCheck) (lcand rcand : NiceCandidate) (new1 new2 : Nat) :
    Option NiceAgent :=
  let agent1 :=
    match agent_find_component agent stream_id component_id with
    | none => agent
    | some (stream, component) =>
      if lcand.transport = NICE_CANDIDATE_TRANSPORT_TCP_PASSIVE ∧
          stream.conncheck_list.find? (fun p => p.local_.ptr == lcand.ptr &&
            p.remote.ptr == rcand.ptr) = none then
        (priv_conn_check_add_for_candidate_pair_matched E agent stream_id component lcand rcand
          NICE_CHECK_WAITING new1).2
      else agent
  let agent2 := (priv_schedule_triggered_check E agent1 stream_id component_id
    icheck.local_socket rcand new2).2
  let agent3 : Option NiceAgent :=
    if icheck.use_candidate then
      priv_mark_pair_nominated_checked E agent2 stream_id component_id (some lcand)
        (some rcand)
    else some agent2
  agent3.map (fun a => a.updateComponent stream_id component_id (fun c =>
    { c with incoming_checks := c.incoming_checks.erase icheck }))

/-- The loop of `conn_check_remote_candidates_set` over the links of the queue as it is when
the loop starts.  `lcand` and `rcand` are the C variables of that name, which keep their value
from one iteration to the next; `none` is returned when a `g_assert` fails (`lcand` is NULL, or
`rcand` is NULL when it is handed to `priv_schedule_triggered_check`) or when the loop of
`priv_mark_pair_nominated` reads a freed node.  Iteration `k` has the addresses
`new_pairs (2 * k)` and `new_pairs (2 * k + 1)` for the pairs it may allocate. -/
def conn_check_remote_candidates_set_loop (E : Ext) (stream_id component_id : Nat)
    (new_pairs : Nat → Nat) :
    List IncomingCheck → Nat → Option NiceCandidate → Option NiceCandidate → NiceAgent →
      Option NiceAgent
  | [], _, _, _, agent => some agent
  | icheck :: rest, k, lcand, rcand, agent =>
    match agent_find_component agent stream_id component_id with
    | none => some agent
    | some (_, component) =>
      let lcand1 :=
        match icheck_local_candidate component icheck with
        | some c => some c
        | none => lcand
      let lcand2 :=
        match lcand1 with
        | some c => some c
        | none => icheck_local_candidate_tcp_active component icheck
      match lcand2 with
      | none => none
      | some l =>
        let rcand1 :=
          match icheck_remote_candidate component l icheck with
          | some c => some c
          | none => rcand
        match rcand1 with
        | none => none
        | some r =>
          match replay_incoming_check E stream_id component_id agent icheck l r
              (new_pairs (2 * k)) (new_pairs (2 * k + 1)) with
          | none => none
          | some agent1 =>
            conn_check_remote_candidates_set_loop E stream_id component_id new_pairs rest
              (k + 1) (some l) (some r) agent1

/-- The function `conn_check_remote_candidates_set`; `none` when a `g_assert` fails or a freed
node is read. -/
def conn_check_remote_candidates_set (E : Ext) (agent : NiceAgent)
    (stream_id component_id : Nat) (new_pairs : Nat → Nat) : Option NiceAgent :=
  match agent_find_component agent stream_id component_id with
  | none => some agent
  | some (stream, component) =>
    if stream.remote_ufrag = "" then some agent
    else
      conn_check_remote_candidates_set_loop E stream_id component_id new_pairs
        component.incoming_checks 0 none none agent

/-- The loop of `conn_check_remote_credentials_set` over the components of the stream;
`new_pairs j` gives the addresses for the component at position `j`. -/
def conn_check_remote_credentials_set_loop (E : Ext) (stream_id : Nat)
    (new_pairs : Nat → Nat → Nat) : List Nat → Nat → NiceAgent → Option NiceAgent
  | [], _, agent => some agent
  | component_id :: rest, j, agent =>
    match conn_check_remote_candidates_set E agent stream_id component_id (new_pairs j) with
    | none => none
    | some agent1 =>
      conn_check_remote_credentials_set_loop E stream_id new_pairs rest (j + 1) agent1

/-- The function `conn_check_remote_credentials_set`; `none` when a `g_assert` fails or a
freed node is read. -/
def conn_check_remote_credentials_set (E : Ext) (agent : NiceAgent) (stream_id : Nat)
    (new_pairs : Nat → Nat → Nat) : Option NiceAgent :=
  match agent_find_stream agent stream_id with
  | none => some agent
  | some stream =>
    conn_check_remote_credentials_set_loop E stream_id new_pairs
      (stream.components.map (fun c => c.id)) 0 agent

/-- The function `priv_store_pending_check`: 0 and the agent with the check at the tail of
the queue of the component, or -1 when the queue is full.  `max` is the constant
`NICE_AGENT_MAX_REMOTE_CANDIDATES` (`agent-priv.h`, not in the sources). -/
def priv_store_pending_check (agent : NiceAgent) (stream_id component_id : Nat)
    (from_ : NiceAddress) (sockptr : NiceSocket) (username : Option String) (priority : Nat)
    (use_candidate : Bool) (max : Nat) : Int × NiceAgent :=
  match agent_find_component agent stream_id component_id with
  | none => (-1, agent)
  | some (_, component) =>
    if component.incoming_checks.length ≥ max then (-1, agent)
    else
      (0, agent.updateComponent stream_id component_id (fun c =>
        { c with incoming_checks := c.incoming_checks ++
          [{ from_ := from_, local_socket := sockptr, priority := priority
             use_candidate := use_candidate, username := username }] }))

/-! ## Removing the pairs of a socket -/

/-- The loop of `conn_check_prune_socket` over the conncheck list: the list that is left and
the triggered-check queue. -/
def conn_check_prune_socket_loop (sock : NiceSocket) :
    List CandidateCheckPair → List Nat → List CandidateCheckPair × List Nat
  | [], queue => ([], queue)
  | p :: ps, queue =>
    if p.local_.sockptr.ptr = sock.ptr ∨ p.remote.sockptr.ptr = sock.ptr ∨
        p.sockptr.ptr = sock.ptr then
      conn_check_prune_socket_loop sock ps (g_slist_remove queue p.ptr)
    else
      let r := conn_check_prune_socket_loop sock ps queue
      (p :: r.1, r.2)

/-- The function `conn_check_prune_socket`. -/
def conn_check_prune_socket (agent : NiceAgent) (stream_id component_id : Nat)
    (sock : NiceSocket) : NiceAgent :=
  match agent_find_component agent stream_id component_id with
  | none => agent
  | some (_, component) =>
    let agent1 :=
      if component.selected_pair.local_.map (fun l => l.sockptr.ptr) = some sock.ptr ∧
          component.state = NICE_COMPONENT_STATE_READY then
        agent_signal_component_state_change agent stream_id component_id
          NICE_COMPONENT_STATE_FAILED
      else agent
    match agent_find_stream agent1 stream_id with
    | none => agent1
    | some stream =>
      let r := conn_check_prune_socket_loop sock stream.conncheck_list
        agent1.triggered_check_queue
      let agent2 := agent1.updateStream stream_id (fun s => { s with conncheck_list := r.1 })
      { agent2 with triggered_check_queue := r.2 }

/-- The tuple (component, local candidate, remote candidate) of a pair, the candidates taken
by address. -/
def pair_tuple (p : CandidateCheckPair) : Nat × Nat × Nat :=
  (p.component_id, p.local_.ptr, p.remote.ptr)

/-- At most one pair of the list for each tuple (component, local candidate, remote
candidate). -/
def one_pair_per_tuple (l : List CandidateCheckPair) : Prop :=
  (l.map pair_tuple).Nodup

instance : DecidablePred one_pair_per_tuple :=
  fun l => by unfold one_pair_per_tuple; infer_instance

/-- The links between a discovered pair and its parent, as far as they hold throughout: a
pair with `succeeded_pair` set is in state Discovered and its parent is in the list; the
pair `discovered_pair` points to is in the list and in state Discovered. -/
def links_ok (l : List CandidateCheckPair) : Prop :=
  (∀ d ∈ l, ∀ sp ∈ d.succeeded_pair,
    d.state = NICE_CHECK_DISCOVERED ∧ ∃ s ∈ l, s.ptr = sp) ∧
  (∀ s ∈ l, ∀ dp ∈ s.discovered_pair,
    ∃ d ∈ l, d.ptr = dp ∧ d.state = NICE_CHECK_DISCOVERED)

instance (l : List CandidateCheckPair) : Decidable (links_ok l) := by
  unfold links_ok; infer_instance

/-- The links as the specification states them: `links_ok`, and every parent is in state
Succeeded. -/
def links_ok_parent_succeeded (l : List CandidateCheckPair) : Prop :=
  links_ok l ∧
  ∀ d ∈ l, ∀ sp ∈ d.succeeded_pair, ∀ s ∈ l, s.ptr = sp → s.state = NICE_CHECK_SUCCEEDED

instance (l : List CandidateCheckPair) : Decidable (links_ok_parent_succeeded l) := by
  unfold links_ok_parent_succeeded; infer_instance

/-- The agent `b` is the agent `a` after writes through the pair pointer `y` that keep the
address and the links of the pair, and after messages sent: the triggered-check queue is the
same, and so is every pair at another address. -/
def written_at (y : Nat) (a b : NiceAgent) : Prop :=
  ∃ f : CandidateCheckPair → CandidateCheckPair,
    (∀ q, (f q).ptr = q.ptr ∧ (f q).succeeded_pair = q.succeeded_pair ∧
      (f q).discovered_pair = q.discovered_pair) ∧
    b.streams = (a.updatePair y f).streams ∧
    b.triggered_check_queue = a.triggered_check_queue

/-- The Discovered pair at the address `x` is at rest: the address is not in the
triggered-check queue, and every pair at that address is in state Discovered and has no
transaction. -/
def discovered_at_rest (agent : NiceAgent) (x : Nat) : Prop :=
  x ∉ agent.triggered_check_queue ∧
  ∀ q ∈ agent.allPairs, q.ptr = x →
    q.state = NICE_CHECK_DISCOVERED ∧ q.stun_transactions = []

instance (agent : NiceAgent) (x : Nat) : Decidable (discovered_at_rest agent x) := by
  unfold discovered_at_rest; infer_instance

/-- The condition the selection loop of the regular nomination asserts, as far as state
Discovered goes: the pair examined for a valid pair (the pair itself, or its parent) is not in
state Discovered (the `g_assert` asks for state Succeeded). -/
def checked_pairs_not_discovered (agent : NiceAgent) : Prop :=
  ∀ p0 ∈ agent.allPairs, p0.valid = true →
    (nominate_checked_pair agent p0).state ≠ NICE_CHECK_DISCOVERED

instance (agent : NiceAgent) : Decidable (checked_pairs_not_discovered agent) := by
  unfold checked_pairs_not_discovered; infer_instance

/-! ## The replay of stored checks -/

/-- What the replay of the stored checks reads of a component besides its state and its
selected pair: its id, its local and remote candidates, and its queue of stored checks. -/
def component_view (c : NiceComponent) :
    Nat × List NiceCandidate × List NiceCandidate × List IncomingCheck :=
  (c.id, c.local_candidates, c.remote_candidates, c.incoming_checks)

/-- The id, the remote ufrag and the component views of a stream. -/
def stream_view (s : NiceStream) :
    Nat × String × List (Nat × List NiceCandidate × List NiceCandidate × List IncomingCheck) :=
  (s.id, s.remote_ufrag, s.components.map component_view)

/-- The stream views of an agent. -/
def agent_view (agent : NiceAgent) :
    List (Nat × String ×
      List (Nat × List NiceCandidate × List NiceCandidate × List IncomingCheck)) :=
  agent.streams.map stream_view

/-- The stored checks of a stream, each with the id of its component: the queues of the
components in stream order, each queue from its head (`priv_store_pending_check` stores at the
tail). -/
def stored_checks (stream : NiceStream) : List (Nat × IncomingCheck) :=
  stream.components.flatMap (fun c => c.incoming_checks.map (fun i => (c.id, i)))

/-- One replay of a stored check: the component, the check, the values of `lcand` and `rcand`
it is replayed with, and the addresses of the pairs its two calls allocate if they create
one. -/
structure ReplayStep where
  component_id : Nat
  icheck : IncomingCheck
  lcand : NiceCandidate
  rcand : NiceCandidate
  new1 : Nat
  new2 : Nat
deriving DecidableEq, Repr, Inhabited

/-- Specification side: the stored checks replayed one after the other, each by the
statements of `replay_incoming_check`; `none` as soon as one of them is. -/
def replay_stored_checks (E : Ext) (stream_id : Nat) :
    List ReplayStep → NiceAgent → Option NiceAgent
  | [], agent => some agent
  | r :: steps, agent =>
    match replay_incoming_check E stream_id r.component_id agent r.icheck r.lcand r.rcand
        r.new1 r.new2 with
    | none => none
    | some agent1 => replay_stored_checks E stream_id steps agent1

/-- The candidates of the step are those the searches of `conn_check_remote_candidates_set`
deliver for its check in `component`, whenever they find one: the local candidate is the one
the first search finds, and the remote candidate the one the search finds for that local
candidate. -/
def step_candidates (component : NiceComponent) (r : ReplayStep) : Prop :=
  (∀ l, icheck_local_candidate component r.icheck = some l → r.lcand = l) ∧
  (∀ x, icheck_remote_candidate component r.lcand r.icheck = some x → r.rcand = x)

/-- The lookups of `conn_check_remote_candidates_set` succeed for the stored check: the first
search finds a local candidate, and the search for the remote candidate finds one. -/
def icheck_candidates_found (component : NiceComponent) (icheck : IncomingCheck) : Prop :=
  ∃ l, icheck_local_candidate component icheck = some l ∧
    (icheck_remote_candidate component l icheck).isSome = true

instance (component : NiceComponent) (icheck : IncomingCheck) :
    Decidable (icheck_candidates_found component icheck) :=
  match h : icheck_local_candidate component icheck with
  | none => isFalse (fun ⟨l, hl, _⟩ => by rw [h] at hl; exact Option.noConfusion hl)
  | some l =>
    if h2 : (icheck_remote_candidate component l icheck).isSome = true then
      isTrue ⟨l, h, h2⟩
    else isFalse (fun ⟨l1, hl, h3⟩ => by
      rw [h] at hl
      exact h2 (by rw [Option.some.inj hl]; exact h3))

/-- The component views after the queue of the component with the given id went through
`g`. -/
def view_queue_update (component_id : Nat) (g : List IncomingCheck → List IncomingCheck)
    (cvs : List (Nat × List NiceCandidate × List NiceCandidate × List IncomingCheck)) :
    List (Nat × List NiceCandidate × List NiceCandidate × List IncomingCheck) :=
  cvs.map (fun cv => if cv.1 = component_id then (cv.1, cv.2.1, cv.2.2.1, g cv.2.2.2) else cv)

/-- The view of the stream with the given id, `none` when there is none. -/
def found_view (agent : NiceAgent) (stream_id : Nat) :
    Option (Nat × String ×
      List (Nat × List NiceCandidate × List NiceCandidate × List IncomingCheck)) :=
  (agent_find_stream agent stream_id).map stream_view

/-- The example agent in the controlled role with two early checks stored for component 1 by
`priv_store_pending_check`: first a check from 203.0.113.5:50000 with USE-CANDIDATE, then a
check from 10.0.0.2:40001 without. -/
def ex_agent_stored_checks : NiceAgent :=
  (priv_store_pending_check
    (priv_store_pending_check
      { ex_agent NICE_COMPATIBILITY_RFC5245 ex_list [] with controlling_mode := false }
      1 1 ex_remote.addr ex_sock none 1845501695 true 25).2
    1 1 ex_remote2.addr ex_sock none 1845501695 false 25).2

/-- The stream of `ex_agent_stored_checks`. -/
def ex_stream_stored_checks : NiceStream :=
  { ex_stream ex_list with
    components := [{ ex_component with
      incoming_checks :=
        [{ from_ := ex_remote.addr, local_socket := ex_sock, priority := 1845501695
           use_candidate := true, username := none },
         { from_ := ex_remote2.addr, local_socket := ex_sock, priority := 1845501695
           use_candidate := false, username := none }] }] }

/-- The addresses the example hands out for new pairs: 30, 31, ... for every component. -/
def ex_new_pairs (_ : Nat) (k : Nat) : Nat := 30 + k

/-! ## The global idle unfreeze, position by position -/

/-- The pair `p`, met after the pairs `pre` in the traversal, is the first Frozen pair with its
foundation. -/
def first_frozen_of_foundation (pre : List CandidateCheckPair) (p : CandidateCheckPair) :
    Prop :=
  p.state = NICE_CHECK_FROZEN ∧
  ∀ q ∈ pre, q.state = NICE_CHECK_FROZEN → q.foundation ≠ p.foundation

instance (pre : List CandidateCheckPair) (p : CandidateCheckPair) :
    Decidable (first_frozen_of_foundation pre p) := by
  unfold first_frozen_of_foundation; infer_instance

/-- Specification side: the traversal `l`, met after the pairs `pre`, with every pair that is
the first Frozen pair with its foundation moved to Waiting and every other pair as it is. -/
def unfreeze_first_frozen :
    List CandidateCheckPair → List CandidateCheckPair → List CandidateCheckPair
  | _, [] => []
  | pre, p :: ps =>
    (if first_frozen_of_foundation pre p then { p with state := NICE_CHECK_WAITING } else p) ::
      unfreeze_first_frozen (pre ++ [p]) ps

/-- Three pairs in state Frozen, the first and the third with the same foundation, after a
Failed pair with that foundation. -/
def ex_list_frozen : List CandidateCheckPair :=
  [ex_pair 10 ex_remote2 NICE_CHECK_FAILED 9115005265987371520,
   ex_pair 11 ex_remote2 NICE_CHECK_FROZEN 9115005265987371519,
   ex_pair 12 ex_remote NICE_CHECK_FROZEN 7241540810645045759,
   ex_pair 13 ex_remote2 NICE_CHECK_FROZEN 7241540810645045758]

/-- A relayed local candidate of component 1, 198.51.100.9:3478, on the socket of
`ex_local`. -/
def ex_local_relay : NiceCandidate :=
  { ex_local with ptr := 120, type := NICE_CANDIDATE_TYPE_RELAYED
                  addr := ⟨3325256969, 3478⟩, priority := 16777215, foundation := "5" }

/-- The example agent with `force_relay` set, a host and a relayed local candidate in its
component, and an empty conncheck list. -/
def ex_agent_force_relay : NiceAgent :=
  { ex_agent NICE_COMPATIBILITY_RFC5245 [] [] with
    force_relay := true
    streams := [{ ex_stream [] with
      components := [{ ex_component with local_candidates := [ex_local, ex_local_relay] }] }] }

/-! ## Renomination -/

/-- The loop of `conn_check_handle_renomination` over the conncheck list: the first pair of
the two candidates gets the priority `selected_priority + 1` (a `guint64`) when it is valid,
and the loop stops at that pair. -/
def renomination_raise_priority (local_candidate remote_candidate : NiceCandidate)
    (selected_priority : Nat) : List CandidateCheckPair → List CandidateCheckPair
  | [] => []
  | pair :: rest =>
    if pair.local_.ptr = local_candidate.ptr ∧ pair.remote.ptr = remote_candidate.ptr then
      (if pair.valid then { pair with priority := (selected_priority + 1) % 2 ^ 64 }
        else pair) :: rest
    else
      pair :: renomination_raise_priority local_candidate remote_candidate selected_priority rest

/-- The test of `conn_check_handle_renomination` on the selected pair of the component: it has
a priority, a remote candidate that is not the one of the request, and a local candidate that
is not the one of the request. -/
def renomination_other_pair_selected (component : NiceComponent)
    (local_candidate remote_candidate : NiceCandidate) : Prop :=
  component.selected_pair.priority ≠ 0 ∧
  component.selected_pair.remote.isSome = true ∧
  component.selected_pair.remote.map (fun c => c.ptr) ≠ some remote_candidate.ptr ∧
  component.selected_pair.local_.isSome = true ∧
  component.selected_pair.local_.map (fun c => c.ptr) ≠ some local_candidate.ptr

instance (component : NiceComponent) (local_candidate remote_candidate : NiceCandidate) :
    Decidable (renomination_other_pair_selected component local_candidate remote_candidate) := by
  unfold renomination_other_pair_selected; infer_instance

/-- The function `conn_check_handle_renomination`: the returned flag and the agent.  `nom_len`
is the length of the NOMINATION attribute of the request, 0 when it has none; the candidates
are `none` for NULL. -/
def conn_check_handle_renomination (E : Ext) (agent : NiceAgent)
    (stream_id component_id : Nat) (nom_len : Nat)
    (remote_candidate local_candidate : Option NiceCandidate) : Bool × NiceAgent :=
  if agent.controlling_mode = false ∧
      NICE_AGENT_IS_COMPATIBLE_WITH_RFC5245_OR_OC2007R2 agent = true ∧
      agent.support_renomination = true then
    match remote_candidate, local_candidate with
    | some remote, some local_ =>
      if nom_len = 0 then (false, agent)
      else if nom_len ≠ 4 then (false, agent)
      else
        let agent1 :=
          match agent_find_component agent stream_id component_id with
          | none => agent
          | some (_, component) =>
            if renomination_other_pair_selected component local_ remote then
              agent.updateStream stream_id (fun s =>
                { s with conncheck_list := (renomination_raise_priority local_ remote
                    component.selected_pair.priority s.conncheck_list) })
            else agent
        (true, priv_mark_pair_nominated E agent1 stream_id component_id (some local_)
          (some remote))
    | _, _ => (false, agent)
  else (false, agent)

/-- A valid Succeeded pair of the relayed local candidate and the server-reflexive remote
candidate. -/
def ex_pair_relay_valid : CandidateCheckPair :=
  { ex_pair 14 ex_remote NICE_CHECK_SUCCEEDED 72057593115065855 with
    local_ := ex_local_relay, foundation := "5:2", valid := true }

/-- A controlled agent that supports renomination; its component is READY and has selected,
with the given priority, the nominated pair 11 of the host candidates; the list holds that
pair and the given pair. -/
def ex_agent_renomination (selected_priority : Nat) (other : CandidateCheckPair) : NiceAgent :=
  { ex_agent NICE_COMPATIBILITY_RFC5245 [] [] with
    controlling_mode := false
    support_renomination := true
    streams :=
      [{ ex_stream [{ ex_pair_nominated with priority := selected_priority }, other] with
         components :=
           [{ ex_component with
              state := NICE_COMPONENT_STATE_READY
              local_candidates := [ex_local, ex_local_relay]
              selected_pair :=
                ⟨some ex_local, some ex_remote2, selected_priority, 1845501695⟩ }] }] }

/-- A valid succeeded pair of `ex_local` and `ex_remote`: it shares its local candidate with the
pair 11 of `ex_local` and `ex_remote2`. -/
def ex_pair_host_valid : CandidateCheckPair :=
  { ex_pair 12 ex_remote NICE_CHECK_SUCCEEDED 7241540810645045759 with valid := true }

/-- The selected pair of a component as seen from outside: the addresses of its two candidates
and its priority. -/
def selected_view (agent : NiceAgent) (stream_id component_id : Nat) :
    Option (Option Nat × Option Nat × Nat) :=
  (agent_find_component agent stream_id component_id).map (fun r =>
    (r.2.selected_pair.local_.map (fun c => c.ptr),
     r.2.selected_pair.remote.map (fun c => c.ptr), r.2.selected_pair.priority))

/-! ## The controlled side of nomination -/

/-- The pair `priv_mark_pair_nominated` settles on for a pair of the two candidates: its
discovered pair when the pair is Succeeded and has one, the pair itself otherwise; `none` when
the link to the discovered pair dangles. -/
def mark_nominated_target (agent : NiceAgent) (pair0 : CandidateCheckPair) :
    Option CandidateCheckPair :=
  if pair0.state = NICE_CHECK_SUCCEEDED then
    match pair0.discovered_pair with
    | some d => agent.findPair d
    | none => some pair0
  else some pair0

/-- The record `q1` is the record `q` up to its flag `retransmit`. -/
def same_but_retransmit (q q1 : CandidateCheckPair) : Prop :=
  ∃ b : Bool, q1 = { q with retransmit := b }

/-- A controlled agent whose component has selected the nominated pair 11; the second pair of
its list is `other`, and the addresses in `queue` are in the triggered-check queue. -/
def ex_agent_controlled (other : CandidateCheckPair) (queue : List Nat) : NiceAgent :=
  { ex_agent NICE_COMPATIBILITY_RFC5245 [] queue with
    controlling_mode := false
    streams :=
      [{ ex_stream [ex_pair_nominated, other] with
         components :=
           [{ ex_component with
              state := NICE_COMPONENT_STATE_CONNECTED
              selected_pair :=
                ⟨some ex_local, some ex_remote2, 9115005265987371519, 1845501695⟩ }] }] }

/-! ## Aggressive nomination -/

/-- A controlling agent in aggressive nomination mode whose component has the host candidate
and the peer-reflexive candidate `ex_prflx` as local candidates, and the given selected
pair. -/
def ex_agent_aggressive (l : List CandidateCheckPair) (selected : CandidatePair) : NiceAgent :=
  { ex_agent NICE_COMPATIBILITY_RFC5245 l [] with
    nomination_mode := NICE_NOMINATION_MODE_AGGRESSIVE
    streams :=
      [{ ex_stream l with
         components :=
           [{ ex_component with
              local_candidates := [ex_local, ex_prflx], selected_pair := selected }] }] }

/-- The valid pair 11 of `ex_local` and `ex_remote2` with a new check in progress (transaction
7012), linked to the pair 13 discovered from its first check, and with the given flag
`nominated`. -/
def ex_pair_rechecked (nominated : Bool) : CandidateCheckPair :=
  { ex_pair 11 ex_remote2 NICE_CHECK_IN_PROGRESS 9115005265987371519 with
    stun_transactions := [ex_transaction], retransmit := true, valid := true
    nominated := nominated, discovered_pair := some 13 }

/-! ## The triggered-check queue and the conncheck lists -/

/-- The function `conn_check_prune_stream`; the stream is given by its id. -/
def conn_check_prune_stream (agent : NiceAgent) (stream_id : Nat) : NiceAgent :=
  match agent_find_stream agent stream_id with
  | none => agent
  | some stream =>
    let agent1 :=
      if stream.conncheck_list ≠ [] then
        let freed := stream.conncheck_list.foldl
          (fun a item => candidate_check_pair_free a item.ptr) agent
        freed.updateStream stream_id (fun s => { s with conncheck_list := [] })
      else agent
    let keep_going := agent1.streams.any (fun s => decide (s.conncheck_list ≠ []))
    if keep_going = false then conn_check_stop agent1 else agent1

/-- The address `x` is the address of a pair of the conncheck list of some stream. -/
def listed (agent : NiceAgent) (x : Nat) : Prop :=
  ∃ q ∈ agent.allPairs, q.ptr = x

instance (agent : NiceAgent) (x : Nat) : Decidable (listed agent x) := by
  unfold listed; infer_instance

/-- Every pair of the triggered-check queue is in the conncheck list of some stream, and no
pair is queued twice (`priv_add_pair_to_triggered_check_queue` looks the pair up first). -/
def queue_in_lists (agent : NiceAgent) : Prop :=
  agent.triggered_check_queue.Nodup ∧ ∀ x ∈ agent.triggered_check_queue, listed agent x

instance (agent : NiceAgent) : Decidable (queue_in_lists agent) := by
  unfold queue_in_lists; infer_instance

/-- No two streams of the agent have the same id. -/
def stream_ids_distinct (agent : NiceAgent) : Prop :=
  (agent.streams.map (fun s => s.id)).Nodup

instance (agent : NiceAgent) : Decidable (stream_ids_distinct agent) := by
  unfold stream_ids_distinct; infer_instance

/-- The list `l1` and the queue `queue1` are what a removal pass leaves of the list `l` and the
queue `queue`: nothing is queued twice, nothing was added to the queue, and a pair of `l` that
is still queued is still in the list. -/
def dequeued_with (l : List CandidateCheckPair) (queue : List Nat)
    (l1 : List CandidateCheckPair) (queue1 : List Nat) : Prop :=
  queue1.Nodup ∧ (∀ x ∈ queue1, x ∈ queue) ∧
  ∀ x ∈ queue1, ∀ q ∈ l, q.ptr = x → ∃ q1 ∈ l1, q1.ptr = x

/-- Every `succeeded_pair` link of a pair of a conncheck list is the address of a pair of a
conncheck list. -/
def parents_listed (agent : NiceAgent) : Prop :=
  ∀ p ∈ agent.allPairs, ∀ sp ∈ p.succeeded_pair, listed agent sp

instance (agent : NiceAgent) : Decidable (parents_listed agent) := by
  unfold parents_listed; infer_instance

/-- A list in which the parent 11 of the Discovered pair 13 has failed its second check. -/
def ex_list_parent_failed : List CandidateCheckPair :=
  [{ ex_pair 11 ex_remote2 NICE_CHECK_FAILED 9115005265987371519 with
     discovered_pair := some 13 }, ex_pair_discovered]

/-! ## Retransmission and the transactions of a pair -/

/-- The pair has a STUN transaction if its flag `retransmit` is set. -/
def retransmit_has_transaction (p : CandidateCheckPair) : Prop :=
  p.retransmit = true → p.stun_transactions ≠ []

instance (p : CandidateCheckPair) : Decidable (retransmit_has_transaction p) := by
  unfold retransmit_has_transaction; infer_instance

/-! ## The pacing delay -/

/-- The number N of the specification: the pairs in state Waiting or InProgress, counted in
the conncheck list of each stream and summed over the streams. -/
def waiting_or_in_progress_pairs (agent : NiceAgent) : Nat :=
  (agent.streams.map (fun s => s.conncheck_list.countP (fun p =>
    p.state == NICE_CHECK_WAITING || p.state == NICE_CHECK_IN_PROGRESS))).sum

/-- The example agent with `timer_ta` at 2^31 ms and the list `ex_list_in_progress`, in which
one pair is Waiting and one is InProgress. -/
def ex_agent_slow_pacing : NiceAgent :=
  { ex_agent NICE_COMPATIBILITY_RFC5245 ex_list_in_progress [] with timer_ta := 2147483648 }

/-! ## The idle counter of the scheduler -/

/-- The pacing interval, the idle timeout and the idle counter of the agent (each a `guint`
in milliseconds). -/
def idle_timers (agent : NiceAgent) : Nat × Nat × Nat :=
  (agent.timer_ta, agent.idle_timeout, agent.conncheck_ongoing_idle_delay)

/-- The flag `keep_timer_going` of `priv_conn_check_tick_agent_locked` at the point where the
idle counter is updated: whether the tick performed work. -/
def tick_keep_timer_going (E : Ext) (now : Int) (agent : NiceAgent) : Bool :=
  let r := priv_conn_check_tick_agent_locked_checks E now agent
  (tick_nominate_streams E (agent.streams.map (fun s => s.id)) r.1 r.2).1

/-- The agent after the first `n` runs of the timer callback `priv_conn_check_tick_agent_locked`,
the run number `j` (from 0) taking place at time `times j`. -/
def agent_after_ticks (E : Ext) (times : Nat → Int) : Nat → NiceAgent → NiceAgent
  | 0, agent => agent
  | n + 1, agent =>
    (priv_conn_check_tick_agent_locked E (times n) (agent_after_ticks E times n agent)).2

/-- The number of the tick at which the specification has the scheduler stop:
`max (1, ceil (idle_timeout / timer_ta))`. -/
def idle_ticks_to_stop (agent : NiceAgent) : Nat :=
  max 1 ((agent.idle_timeout + agent.timer_ta - 1) / agent.timer_ta)

/-- An agent with nothing to check: an empty conncheck list, `timer_ta` = 20 ms and an idle
timeout of 50 ms. -/
def ex_agent_idle : NiceAgent :=
  { ex_agent NICE_COMPATIBILITY_RFC5245 [] [] with idle_timeout := 50 }

/-- An agent with nothing to check, `timer_ta` = 2^31 ms and an idle timeout of 2^32 - 1 ms. -/
def ex_agent_idle_wrap : NiceAgent :=
  { ex_agent NICE_COMPATIBILITY_RFC5245 [] [] with
    timer_ta := 2147483648, idle_timeout := 4294967295 }

/-! ## USE-CANDIDATE after a role change -/

/-- The example agent after the regular nomination step has flagged pair 11 (the parent of the
Discovered pair 13) and put it in the triggered-check queue, and a role conflict has then made
the agent controlled. -/
def ex_agent_role_changed : NiceAgent :=
  priv_check_for_role_conflict ext0
    (priv_conn_check_tick_stream_nominate ext0
      (ex_agent NICE_COMPATIBILITY_RFC5245 ex_list_discovered []) 1).2 false

/-! ## Stored checks that arrived on different sockets -/

/-- The TCP-active socket of the local candidate `ex_local_tcp_active`. -/
def ex_sock_tcp_active : NiceSocket :=
  { ptr := 501, type := NICE_SOCKET_TYPE_TCP_ACTIVE, addr := ⟨167772161, 0⟩
    has_fileno := false, passive_parent := false, reliable := true }

/-- A TCP socket connected from 10.0.0.1:45000 by the TCP-active candidate. -/
def ex_sock_tcp_connected : NiceSocket :=
  { ptr := 502, type := NICE_SOCKET_TYPE_TCP_BSD, addr := ⟨167772161, 45000⟩
    has_fileno := true, passive_parent := false, reliable := true }

/-- A local TCP-active host candidate on 10.0.0.1, with port 0. -/
def ex_local_tcp_active : NiceCandidate :=
  { ptr := 101, type := NICE_CANDIDATE_TYPE_HOST
    transport := NICE_CANDIDATE_TRANSPORT_TCP_ACTIVE
    addr := ⟨167772161, 0⟩, base_addr := ⟨167772161, 0⟩, priority := 2105539071
    component_id := 1, foundation := "4", sockptr := ex_sock_tcp_active
    username := none, password := none }

/-- A remote TCP-passive candidate 203.0.113.5:9000. -/
def ex_remote_tcp_passive : NiceCandidate :=
  { ptr := 202, type := NICE_CANDIDATE_TYPE_HOST
    transport := NICE_CANDIDATE_TRANSPORT_TCP_PASSIVE
    addr := ⟨3405803781, 9000⟩, base_addr := ⟨3405803781, 9000⟩, priority := 2105539070
    component_id := 1, foundation := "5", sockptr := ex_sock
    username := none, password := none }

/-- An early check without USE-CANDIDATE from 203.0.113.5:50000, the address of the remote
candidate of pair 12, received on the UDP socket `ex_sock`. -/
def ex_icheck_udp : IncomingCheck :=
  { from_ := ex_remote.addr, local_socket := ex_sock, priority := 1845501695
    use_candidate := false, username := none }

/-- An early check with USE-CANDIDATE from 203.0.113.5:9000, the address of the remote
TCP-passive candidate, received on the connected TCP socket. -/
def ex_icheck_tcp : IncomingCheck :=
  { from_ := ex_remote_tcp_passive.addr, local_socket := ex_sock_tcp_connected
    priority := 1845501695, use_candidate := true, username := none }

/-- The controlled example agent with a UDP and a TCP-active local candidate and the remote
TCP-passive candidate added to its component. -/
def ex_agent_tcp : NiceAgent :=
  ({ ex_agent NICE_COMPATIBILITY_RFC5245 ex_list [] with
      controlling_mode := false }).updateComponent 1 1 (fun c =>
    { c with local_candidates := [ex_local, ex_local_tcp_active]
             remote_candidates := [ex_remote2, ex_remote, ex_remote_tcp_passive] })

/-- The agent `ex_agent_tcp` with two early checks stored for component 1 by
`priv_store_pending_check`: first `ex_icheck_udp`, then `ex_icheck_tcp`. -/
def ex_agent_stored_tcp : NiceAgent :=
  (priv_store_pending_check
    (priv_store_pending_check ex_agent_tcp 1 1 ex_icheck_udp.from_ ex_sock none 1845501695
      false 25).2
    1 1 ex_icheck_tcp.from_ ex_sock_tcp_connected none 1845501695 true 25).2

/-- The agent `ex_agent_tcp` with the one early check `ex_icheck_tcp` stored for
component 1. -/
def ex_agent_stored_tcp_only : NiceAgent :=
  (priv_store_pending_check ex_agent_tcp 1 1 ex_icheck_tcp.from_ ex_sock_tcp_connected none
    1845501695 true 25).2

/-- A controlled agent whose component has selected the nominated pair 11 and has the valid
pair 12, of a lower priority, in the triggered-check queue, with one early check stored: a
check with USE-CANDIDATE from the address of the remote candidate of pair 12. -/
def ex_agent_stored_nominating : NiceAgent :=
  (priv_store_pending_check (ex_agent_controlled ex_pair_host_valid [12]) 1 1 ex_remote.addr
    ex_sock none 1845501695 true 25).2

/-! ## Regular nomination of a component whose checks are over -/

/-- The C test of the selection loop of the regular nomination: a pair of the component that
is not nominated, not flagged `use_candidate_on_next_check`, and valid. -/
def nominate_candidate (component_id : Nat) (p : CandidateCheckPair) : Bool :=
  p.component_id == component_id && !p.nominated && !p.use_candidate_on_next_check && p.valid

/-- The search of the regular nomination for `other_component_pair`: the first pair of another
component of the stream that is nominated or selected to be nominated. -/
def nominate_other_component_pair (stream : NiceStream) (component_id : Nat) :
    Option CandidateCheckPair :=
  stream.conncheck_list.find? (fun p =>
    p.component_id != component_id && nominated_or_about_to p)

/-- The pair the selection loop compares the valid pairs with: `other_component_pair` when
there is one, `other_stream_pair` otherwise. -/
def nominate_reference_pair (other_component_pair other_stream_pair : Option CandidateCheckPair) :
    Option CandidateCheckPair :=
  match other_component_pair with
  | some o => some o
  | none => other_stream_pair

/-- The pair examined in place of `p` has the transport and the addresses (ports ignored) of
the reference pair. -/
def nominate_same_kind_as (agent : NiceAgent) (reference : Option CandidateCheckPair)
    (p : CandidateCheckPair) : Bool :=
  match reference with
  | some o =>
    nominate_same_kind (nominate_checked_pair agent p).local_
      (nominate_checked_pair agent p).remote o.local_ o.remote
  | none => false

/-- The pair the regular nomination settles on for a component whose checks are over, `p0`
being its first valid pair that is neither nominated nor flagged: the pair examined in place
of the first such pair that has the kind of the reference pair, or in place of `p0` when there
is no such pair. -/
def nominate_exhausted_target (agent : NiceAgent) (stream : NiceStream)
    (other_stream_pair : Option CandidateCheckPair) (component_id : Nat)
    (p0 : CandidateCheckPair) : CandidateCheckPair :=
  nominate_checked_pair agent
    (match stream.conncheck_list.find? (fun p => nominate_candidate component_id p &&
        nominate_same_kind_as agent (nominate_reference_pair
          (nominate_other_component_pair stream component_id) other_stream_pair) p) with
     | some pc => pc
     | none => p0)

/-- The example agent with two components in which pair 11 of component 1 is nominated. -/
def ex_agent_nominated_component : NiceAgent :=
  { ex_agent_two_components with
    streams := ex_agent_two_components.streams.map (fun s =>
      { s with conncheck_list := s.conncheck_list.map (fun p =>
          if p.ptr = 11 then { p with nominated := true } else p) }) }

/-- The example agent with two components in which both pairs of component 1 are nominated. -/
def ex_agent_nominated_twice : NiceAgent :=
  { ex_agent_two_components with
    streams := ex_agent_two_components.streams.map (fun s =>
      { s with conncheck_list := s.conncheck_list.map (fun p =>
          if p.component_id = 1 then { p with nominated := true } else p) }) }

/-! ## A Succeeded pair at rest -/

/-- The Succeeded pair at the address `x` is at rest, as the response handler leaves the pair
it sets Succeeded: the address is not in the triggered-check queue, and every pair at that
address is in state Succeeded and has no transaction. -/
def succeeded_at_rest (agent : NiceAgent) (x : Nat) : Prop :=
  x ∉ agent.triggered_check_queue ∧
  ∀ q ∈ agent.allPairs, q.ptr = x →
    q.state = NICE_CHECK_SUCCEEDED ∧ q.stun_transactions = []

instance (agent : NiceAgent) (x : Nat) : Decidable (succeeded_at_rest agent x) := by
  unfold succeeded_at_rest; infer_instance

/-- The Succeeded pair at the address `x` is at rest or has been chosen by the regular
nomination: every pair at that address is in state Succeeded and has no transaction, and when
the address is in the triggered-check queue every pair at it is flagged
`use_candidate_on_next_check`. -/
def succeeded_or_chosen (agent : NiceAgent) (x : Nat) : Prop :=
  (∀ q ∈ agent.allPairs, q.ptr = x →
    q.state = NICE_CHECK_SUCCEEDED ∧ q.stun_transactions = []) ∧
  (x ∈ agent.triggered_check_queue →
    ∀ q ∈ agent.allPairs, q.ptr = x → q.use_candidate_on_next_check = true)

instance (agent : NiceAgent) (x : Nat) : Decidable (succeeded_or_chosen agent x) := by
  unfold succeeded_or_chosen; infer_instance

/-! ## The assertions of the regular-nomination loop -/

/-- The two `g_assert_cmpint` of the selection loop of `priv_conn_check_tick_stream_nominate`
over a pair the loop examines: a pair with a `succeeded_pair` is in state Discovered and the
pair examined in its place, the parent, is in state Succeeded; a pair without one is in state
Succeeded. -/
def nominate_asserts (agent : NiceAgent) (p : CandidateCheckPair) : Bool :=
  match p.succeeded_pair with
  | some sp =>
    p.state == NICE_CHECK_DISCOVERED &&
      (match agent.findPair sp with
       | some q => q.state == NICE_CHECK_SUCCEEDED
       | none => false)
  | none => p.state == NICE_CHECK_SUCCEEDED

/-- The assertions hold of every pair that passes the test of the selection loop: valid, not
nominated, not flagged `use_candidate_on_next_check`. -/
def nominate_asserts_hold (agent : NiceAgent) : Bool :=
  agent.allPairs.all (fun p =>
    !(p.valid && !p.nominated && !p.use_candidate_on_next_check) || nominate_asserts agent p)

/-- Some valid pair is in the triggered-check queue. -/
def valid_pair_queued (agent : NiceAgent) : Bool :=
  agent.allPairs.any (fun p => p.valid && g_slist_find agent.triggered_check_queue p.ptr)

/-- A controlling agent in regular nomination whose only pair has its check in progress. -/
def ex_agent_one_check : NiceAgent :=
  ex_agent NICE_COMPATIBILITY_RFC5245 [ex_pair_in_progress] []

/-- The agent after the success response to the check of pair 12 whose mapped address
198.51.100.7:40000 is new: the Discovered pair 14 is created valid, with parent 12. -/
def ex_agent_reflexive_found : NiceAgent :=
  (priv_map_reply_to_conn_check_request ext0 ex_agent_one_check 1 1 ex_sock ex_remote.addr
    (some ex_local) (some ex_remote) ⟨7012, STUN_USAGE_ICE_RETURN_SUCCESS, ex_prflx.addr⟩ 14).2

/-- The agent after the success response to the check of pair 12 whose mapped address is the
address of the local candidate of the pair: pair 12 is Succeeded and valid. -/
def ex_agent_mapped_is_local : NiceAgent :=
  (priv_map_reply_to_conn_check_request ext0 ex_agent_one_check 1 1 ex_sock ex_remote.addr
    (some ex_local) (some ex_remote) ⟨7012, STUN_USAGE_ICE_RETURN_SUCCESS, ex_local.addr⟩ 14).2

/-! ## A role-conflict reply after a renomination -/

/-- The controlled agent `ex_agent_renomination` with a third pair at the head of its list:
pair 12, of higher priority than the selected pair, whose check was sent while the agent was
controlling and is still in progress. -/
def ex_agent_renomination_in_flight : NiceAgent :=
  { ex_agent_renomination 9115005265987371519 ex_pair_relay_valid with
    streams := (ex_agent_renomination 9115005265987371519 ex_pair_relay_valid).streams.map
      (fun s => { s with conncheck_list :=
        { ex_pair_in_progress with priority := 9200000000000000000 } :: s.conncheck_list }) }

/-- The agent after the renomination request for the candidates of pair 14: the priority of
pair 14 is raised above the selected one where the pair stands. -/
def ex_agent_renominated : NiceAgent :=
  (conn_check_handle_renomination ext0 ex_agent_renomination_in_flight 1 1 4 (some ex_remote)
    (some ex_local_relay)).2

/-! ## The paths of the success branch that mark the pair `ok_pair` valid -/

/-- The success branch of `priv_map_reply_to_conn_check_request` runs, for the pair `p` and its
transaction at position `k`, on a path where the code writes `valid = TRUE` to the pair that
`ok_pair` designates afterwards: the response has no mapped address (the pair is `p`),
`priv_process_response_check_for_reflexive` returns `p` itself, or it returns the pair it has
created at `new_pair`.  It also holds when the pair is failed instead (source address
mismatch, no remote candidate), where no flag is written.  It does not hold when
`priv_process_response_check_for_reflexive` returns NULL or another pair of the list. -/
def response_marks_ok_pair_valid (E : Ext) (agent : NiceAgent) (stream_id component_id : Nat)
    (sockptr : NiceSocket) (from_ : NiceAddress) (local_candidate : Option NiceCandidate)
    (remote_candidate : Option NiceCandidate) (resp : StunResponse) (new_pair : Nat)
    (p : CandidateCheckPair) (k : Nat) : Prop :=
  match map_reply_validate E agent stream_id component_id sockptr from_ local_candidate
      remote_candidate resp new_pair p k with
  | Except.error _ => True
  | Except.ok (ok_pair, _, _) =>
    resp.res = STUN_USAGE_ICE_RETURN_NO_MAPPED_ADDRESS ∨ ok_pair = some p.ptr ∨
      ok_pair = some new_pair

instance (E : Ext) (agent : NiceAgent) (stream_id component_id : Nat)
    (sockptr : NiceSocket) (from_ : NiceAddress) (local_candidate : Option NiceCandidate)
    (remote_candidate : Option NiceCandidate) (resp : StunResponse) (new_pair : Nat)
    (p : CandidateCheckPair) (k : Nat) :
    Decidable (response_marks_ok_pair_valid E agent stream_id component_id sockptr from_
      local_candidate remote_candidate resp new_pair p k) := by
  unfold response_marks_ok_pair_valid
  split <;> infer_instance

/-- The agent `ex_agent_mapped_is_local` after the nomination step has chosen its valid pair 12
and the triggered check has sent the check that carries USE-CANDIDATE: pair 12 is InProgress,
valid and flagged, with transaction 7012. -/
def ex_agent_nomination_check_sent : NiceAgent :=
  (priv_conn_check_triggered_check ext0 1000
    (priv_conn_check_tick_stream_nominate ext0 ex_agent_mapped_is_local 1).2).2

/-- The transaction stays with its pair through the pass of `priv_conn_check_tick_stream`: it
is not yet due, or it is due and its timer reports `STUN_USAGE_TIMER_RETURN_SUCCESS`, on which
the pass schedules it again. -/
def transaction_kept (E : Ext) (now : Int) (t : StunTransaction) : Prop :=
  now < t.next_tick ∨
    (E.stun_timer_refresh t.timer now).1 = STUN_USAGE_TIMER_RETURN_SUCCESS

instance (E : Ext) (now : Int) (t : StunTransaction) : Decidable (transaction_kept E now t) := by
  unfold transaction_kept; infer_instance

/-- The agent `ex_agent_nominated`, whose component has selected the nominated pair 11, with the
transaction of the queued lower-priority pair 12 out of retransmissions. -/
def ex_agent_nominated_exhausted : NiceAgent :=
  { ex_agent_nominated with
    streams := ex_agent_nominated.streams.map (fun s =>
      { s with conncheck_list :=
        [ex_pair_nominated,
         { ex_pair_in_progress with stun_transactions := [ex_transaction_exhausted] }] }) }

/-- The agent `ex_agent_stored_tcp` after the first of its two stored checks has been
replayed. -/
def ex_agent_stored_tcp_second : NiceAgent :=
  (replay_incoming_check ext0 1 1 ex_agent_stored_tcp ex_icheck_udp ex_local ex_remote
    (ex_new_pairs 0 0) (ex_new_pairs 0 1)).getD ex_agent_stored_tcp
/-! # Theorems -/

/-! ## Lists -/

theorem conn_check_compare_pos (a b : CandidateCheckPair) :
    conn_check_compare a b > 0 ↔ a.priority < b.priority := by
  unfold conn_check_compare
  split_ifs with h1 h2
  · constructor
    · intro h; omega
    · intro h; omega
  · simp [h2]
  · constructor
    · intro h; omega
    · intro h; omega

theorem g_slist_insert_sorted_inserted {α : Type} (l : List α) (x : α) (f : α → α → Int) :
    inserted_into l (g_slist_insert_sorted l x f) x := by
  induction l with
  | nil => exact ⟨[], [], rfl, rfl⟩
  | cons y ys ih =>
    unfold g_slist_insert_sorted
    split_ifs with h
    · obtain ⟨l1, l2, h1, h2⟩ := ih
      exact ⟨y :: l1, l2, by simp [h1], by simp [h2]⟩
    · exact ⟨[], y :: ys, rfl, rfl⟩

theorem mem_g_slist_insert_sorted {α : Type} (l : List α) (x y : α) (f : α → α → Int) :
    y ∈ g_slist_insert_sorted l x f ↔ y = x ∨ y ∈ l := by
  obtain ⟨l1, l2, h1, h2⟩ := g_slist_insert_sorted_inserted l x f
  rw [h2, h1]
  simp only [List.mem_append, List.mem_cons]
  tauto

theorem g_slist_insert_sorted_sorted (l : List CandidateCheckPair) (x : CandidateCheckPair)
    (h : conncheck_sorted l) :
    conncheck_sorted (g_slist_insert_sorted l x conn_check_compare) := by
  induction l with
  | nil => simp [g_slist_insert_sorted, conncheck_sorted]
  | cons y ys ih =>
    unfold conncheck_sorted at h ih ⊢
    rw [List.pairwise_cons] at h
    unfold g_slist_insert_sorted
    split_ifs with hc
    · rw [conn_check_compare_pos] at hc
      rw [List.pairwise_cons]
      refine ⟨?_, ih h.2⟩
      intro z hz
      rw [mem_g_slist_insert_sorted] at hz
      rcases hz with rfl | hz
      · omega
      · exact h.1 z hz
    · rw [conn_check_compare_pos] at hc
      rw [List.pairwise_cons]
      refine ⟨?_, List.pairwise_cons.2 h⟩
      intro z hz
      rcases List.mem_cons.1 hz with rfl | hz
      · omega
      · have := h.1 z hz
        omega

theorem updateStream_getElem? (agent : NiceAgent) (stream_id : Nat) (f : NiceStream → NiceStream)
    (i : Nat) :
    (agent.updateStream stream_id f).streams[i]? =
      (agent.streams[i]?).map (fun s => if s.id = stream_id then f s else s) := by
  simp [NiceAgent.updateStream]

theorem updatePair_getElem? (agent : NiceAgent) (p : Nat)
    (f : CandidateCheckPair → CandidateCheckPair) (i : Nat) :
    (agent.updatePair p f).streams[i]? =
      (agent.streams[i]?).map (fun s =>
        { s with conncheck_list := updatePairIn s.conncheck_list p f }) := by
  simp [NiceAgent.updatePair]

theorem updatePairIn_sorted (l : List CandidateCheckPair) (p : Nat)
    (f : CandidateCheckPair → CandidateCheckPair) (hf : ∀ q, (f q).priority = q.priority)
    (h : conncheck_sorted l) : conncheck_sorted (updatePairIn l p f) := by
  unfold conncheck_sorted updatePairIn at *
  rw [List.pairwise_map]
  refine h.imp ?_
  intro a b hab
  have ha : (if a.ptr = p then f a else a).priority = a.priority := by
    split_ifs <;> simp [hf]
  have hb : (if b.ptr = p then f b else b).priority = b.priority := by
    split_ifs <;> simp [hf]
  rw [ha, hb]; exact hab

/-- C1: inserting a pair with `priv_add_new_check_pair` (state after its call of
`g_slist_insert_sorted`, before unfreezing and pruning) or with `priv_add_peer_reflexive_pair`
into the sorted conncheck list of the stream gives a list that is sorted by non-increasing
priority and is the old list, in its order, with the new pair put in. -/
theorem insert_keeps_conncheck_list_sorted (E : Ext) (agent : NiceAgent) (stream_id : Nat)
    (component : NiceComponent) (local_ remote local_cand : NiceCandidate)
    (initial_state : NiceCheckState) (parent_pair : CandidateCheckPair) (new_pair i : Nat)
    (s : NiceStream) (hs : agent.streams[i]? = some s) (hid : s.id = stream_id)
    (hsorted : conncheck_sorted s.conncheck_list) :
    (∀ agent1, priv_add_new_check_pair_insert E agent stream_id component local_ remote
        initial_state new_pair = some agent1 →
      ∃ s1, agent1.streams[i]? = some s1 ∧ conncheck_sorted s1.conncheck_list ∧
        inserted_into s.conncheck_list s1.conncheck_list
          (priv_add_new_check_pair_record E agent stream_id component local_ remote
            initial_state new_pair)) ∧
    (∃ s1, (priv_add_peer_reflexive_pair E agent stream_id component local_cand parent_pair
        new_pair).streams[i]? = some s1 ∧ conncheck_sorted s1.conncheck_list ∧
      inserted_into
        (updatePairIn s.conncheck_list parent_pair.ptr
          (fun q => { q with discovered_pair := some new_pair }))
        s1.conncheck_list
        (priv_add_peer_reflexive_pair_record E agent stream_id component local_cand parent_pair
          new_pair)) := by
  constructor
  · intro agent1 h
    unfold priv_add_new_check_pair_insert at h
    simp only at h
    split_ifs at h with hc
    simp only [Option.some.injEq] at h
    subst h
    rw [updateStream_getElem?, hs]
    simp only [Option.map_some', hid, if_true, Option.some.injEq, exists_eq_left']
    exact ⟨g_slist_insert_sorted_sorted _ _ hsorted, g_slist_insert_sorted_inserted _ _ _⟩
  · unfold priv_add_peer_reflexive_pair
    simp only
    rw [updateStream_getElem?, updatePair_getElem?, hs]
    simp only [Option.map_some', hid, if_true, Option.some.injEq, exists_eq_left']
    exact ⟨g_slist_insert_sorted_sorted _ _ (updatePairIn_sorted _ _ _ (fun _ => rfl) hsorted),
      g_slist_insert_sorted_inserted _ _ _⟩

theorem g_slist_find_iff (l : List Nat) (x : Nat) : g_slist_find l x = true ↔ x ∈ l := by
  simp [g_slist_find]

theorem g_slist_remove_eq_erase (l : List Nat) (x : Nat) : g_slist_remove l x = l.erase x := by
  induction l with
  | nil => rfl
  | cons y ys ih =>
    unfold g_slist_remove
    by_cases h : y = x
    · simp [h]
    · have h' : (y == x) = false := by simpa using h
      simp [h, List.erase_cons, h', ih]

theorem g_slist_remove_nodup (l : List Nat) (x : Nat) (h : l.Nodup) :
    (g_slist_remove l x).Nodup ∧ x ∉ g_slist_remove l x := by
  rw [g_slist_remove_eq_erase]
  exact ⟨h.erase x, h.not_mem_erase⟩

/-- C2: on a triggered-check queue without duplicates, adding a pair gives a queue without
duplicates (unchanged when the pair is present, the pair appended at the tail otherwise);
removing a pair and taking the head give a queue without duplicates in which the removed
pair no longer occurs. -/
theorem triggered_check_queue_no_duplicates (agent : NiceAgent) (pair : Nat)
    (h : agent.triggered_check_queue.Nodup) :
    ((priv_add_pair_to_triggered_check_queue agent pair).triggered_check_queue.Nodup ∧
      (pair ∈ agent.triggered_check_queue →
        (priv_add_pair_to_triggered_check_queue agent pair).triggered_check_queue =
          agent.triggered_check_queue) ∧
      (pair ∉ agent.triggered_check_queue →
        (priv_add_pair_to_triggered_check_queue agent pair).triggered_check_queue =
          agent.triggered_check_queue ++ [pair])) ∧
    ((priv_remove_pair_from_triggered_check_queue agent pair).triggered_check_queue.Nodup ∧
      pair ∉ (priv_remove_pair_from_triggered_check_queue agent pair).triggered_check_queue) ∧
    ((priv_get_pair_from_triggered_check_queue agent).2.triggered_check_queue.Nodup ∧
      (agent.triggered_check_queue = [] →
        (priv_get_pair_from_triggered_check_queue agent).1 = none) ∧
      ∀ got, (priv_get_pair_from_triggered_check_queue agent).1 = some got →
        agent.triggered_check_queue.head? = some got ∧
        got ∉ (priv_get_pair_from_triggered_check_queue agent).2.triggered_check_queue) := by
  refine ⟨⟨?_, ?_, ?_⟩, ?_, ?_⟩
  · unfold priv_add_pair_to_triggered_check_queue
    split_ifs with hc
    · rcases hc with hc | hc
      · simp [hc, g_slist_append]
      · have hn : pair ∉ agent.triggered_check_queue := by
          rw [← g_slist_find_iff]; simp [hc]
        simp only [g_slist_append]
        exact List.Nodup.append h (List.nodup_singleton _) (by simpa using hn)
    · exact h
  · intro hm
    unfold priv_add_pair_to_triggered_check_queue
    have hf : g_slist_find agent.triggered_check_queue pair = true := (g_slist_find_iff _ _).2 hm
    have hne : agent.triggered_check_queue ≠ [] := List.ne_nil_of_mem hm
    simp [hf, hne]
  · intro hn
    unfold priv_add_pair_to_triggered_check_queue
    have hf : g_slist_find agent.triggered_check_queue pair = false := by
      rw [← Bool.not_eq_true, g_slist_find_iff]; exact hn
    simp [hf, g_slist_append]
  · exact g_slist_remove_nodup _ _ h
  · unfold priv_get_pair_from_triggered_check_queue
    cases hq : agent.triggered_check_queue with
    | nil => simp [hq]
    | cons x xs =>
      have := g_slist_remove_nodup _ x h
      simp only [priv_remove_pair_from_triggered_check_queue, hq] at this ⊢
      refine ⟨this.1, by simp, ?_⟩
      intro got hg
      simp only [Option.some.injEq] at hg
      subst hg
      exact ⟨rfl, this.2⟩

/-- C2 at the example agent with the queue `[12, 11]`. -/
theorem triggered_check_queue_no_duplicates_witness :
    (ex_agent NICE_COMPATIBILITY_RFC5245 ex_list [12, 11]).triggered_check_queue.Nodup ∧
    (priv_add_pair_to_triggered_check_queue
      (ex_agent NICE_COMPATIBILITY_RFC5245 ex_list [12, 11]) 11).triggered_check_queue.Nodup ∧
    11 ∉ (priv_remove_pair_from_triggered_check_queue
      (ex_agent NICE_COMPATIBILITY_RFC5245 ex_list [12, 11]) 11).triggered_check_queue :=
  ⟨by decide,
    (triggered_check_queue_no_duplicates (ex_agent NICE_COMPATIBILITY_RFC5245 ex_list [12, 11])
      11 (by decide)).1.1,
    (triggered_check_queue_no_duplicates (ex_agent NICE_COMPATIBILITY_RFC5245 ex_list [12, 11])
      11 (by decide)).2.1.2⟩

/-- C1 at the example agent: a discovered pair for pair 12 goes into the two-pair list. -/
theorem insert_keeps_conncheck_list_sorted_witness :
    (ex_agent NICE_COMPATIBILITY_RFC5245 ex_list []).streams[0]? = some (ex_stream ex_list) ∧
    (ex_stream ex_list).id = 1 ∧
    conncheck_sorted (ex_stream ex_list).conncheck_list ∧
    ∃ s1, (priv_add_peer_reflexive_pair ext0 (ex_agent NICE_COMPATIBILITY_RFC5245 ex_list []) 1
        ex_component ex_local (ex_pair 12 ex_remote NICE_CHECK_FROZEN 7241540810645045759)
        13).streams[0]? = some s1 ∧ conncheck_sorted s1.conncheck_list ∧
      inserted_into
        (updatePairIn (ex_stream ex_list).conncheck_list 12
          (fun q => { q with discovered_pair := some 13 }))
        s1.conncheck_list
        (priv_add_peer_reflexive_pair_record ext0 (ex_agent NICE_COMPATIBILITY_RFC5245 ex_list [])
          1 ex_component ex_local (ex_pair 12 ex_remote NICE_CHECK_FROZEN 7241540810645045759)
          13) :=
  ⟨by decide, by decide, by decide,
    (insert_keeps_conncheck_list_sorted ext0 (ex_agent NICE_COMPATIBILITY_RFC5245 ex_list []) 1
      ex_component ex_local ex_remote ex_local NICE_CHECK_FROZEN
      (ex_pair 12 ex_remote NICE_CHECK_FROZEN 7241540810645045759) 13 0 (ex_stream ex_list)
      (by decide) (by decide) (by decide)).2⟩

/-! ## Lookups after writes -/

theorem find?_map_of_comm {α : Type} (l : List α) (g : α → α) (p : α → Bool)
    (h : ∀ x, p (g x) = p x) : (l.map g).find? p = (l.find? p).map g := by
  induction l with
  | nil => rfl
  | cons x xs ih =>
    simp only [List.map_cons, List.find?_cons, h]
    cases p x <;> simp [ih]

theorem agent_find_component_updateComponent (agent : NiceAgent) (stream_id component_id : Nat)
    (f : NiceComponent → NiceComponent) (hf : ∀ c, (f c).id = c.id) :
    agent_find_component (agent.updateComponent stream_id component_id f) stream_id
        component_id =
      (agent_find_component agent stream_id component_id).map (fun r =>
        ({ r.1 with components :=
            r.1.components.map (fun c => if c.id = component_id then f c else c) }, f r.2)) := by
  unfold agent_find_component agent_find_stream nice_stream_find_component_by_id
    NiceAgent.updateComponent NiceAgent.updateStream
  simp only
  rw [find?_map_of_comm]
  · cases h1 : agent.streams.find? (fun s => s.id == stream_id) with
    | none => simp
    | some s =>
      have hs : s.id = stream_id := by
        have := List.find?_some h1
        simpa using this
      simp only [Option.map_some', hs, if_true]
      rw [find?_map_of_comm]
      · cases h2 : s.components.find? (fun c => c.id == component_id) with
        | none => simp
        | some c =>
          have hc : c.id = component_id := by
            have := List.find?_some h2
            simpa using this
          simp [hc, hs]
      · intro c; split_ifs <;> simp [hf]
  · intro s; split_ifs <;> simp

theorem conn_check_update_selected_pair_spec (E : Ext) (agent : NiceAgent)
    (stream_id component_id : Nat) (pair : CandidateCheckPair) (sp : CandidatePair)
    (h : selected_pair_of agent stream_id component_id = some sp) :
    selected_pair_of (conn_check_update_selected_pair E agent stream_id component_id pair)
        stream_id component_id =
      some (if pair.priority > sp.priority then
        ⟨some pair.local_, some pair.remote, pair.priority, pair.stun_priority⟩ else sp) := by
  unfold selected_pair_of at h ⊢
  unfold conn_check_update_selected_pair
  cases hc : agent_find_component agent stream_id component_id with
  | none => simp [hc] at h
  | some r =>
    obtain ⟨s, c⟩ := r
    simp only [hc, Option.map_some', Option.some.injEq] at h
    subst h
    simp only
    split_ifs with hp
    · have : agent_find_component
          (priv_conn_keepalive_tick_unlocked E (nice_component_update_selected_pair agent
            stream_id component_id
            ⟨some pair.local_, some pair.remote, pair.priority, pair.stun_priority⟩))
          stream_id component_id =
          agent_find_component (nice_component_update_selected_pair agent
            stream_id component_id
            ⟨some pair.local_, some pair.remote, pair.priority, pair.stun_priority⟩)
          stream_id component_id := rfl
      rw [this]
      unfold nice_component_update_selected_pair
      rw [agent_find_component_updateComponent agent stream_id component_id
        (fun c => { c with selected_pair :=
          ⟨some pair.local_, some pair.remote, pair.priority, pair.stun_priority⟩ })
        (fun _ => rfl), hc]
      rfl
    · rw [hc]; rfl

/-- C5: `conn_check_update_selected_pair` leaves the selected priority of the component equal
to the maximum of the old selected priority and the priority of the pair: the selected pair
becomes the pair exactly when its priority is strictly greater, and is unchanged otherwise;
over any sequence of such calls the selected priority does not decrease. -/
theorem selected_pair_priority_is_max (E : Ext) (agent : NiceAgent)
    (stream_id component_id : Nat) (pair : CandidateCheckPair) (sp : CandidatePair)
    (h : selected_pair_of agent stream_id component_id = some sp) :
    (∃ sp1, selected_pair_of
        (conn_check_update_selected_pair E agent stream_id component_id pair)
        stream_id component_id = some sp1 ∧
      sp1.priority = max sp.priority pair.priority ∧
      (pair.priority > sp.priority →
        sp1 = ⟨some pair.local_, some pair.remote, pair.priority, pair.stun_priority⟩) ∧
      (¬ pair.priority > sp.priority → sp1 = sp)) ∧
    (∀ pairs : List CandidateCheckPair, ∃ sp2, selected_pair_of
        (pairs.foldl (fun a p => conn_check_update_selected_pair E a stream_id component_id p)
          agent) stream_id component_id = some sp2 ∧
      sp.priority ≤ sp2.priority) := by
  constructor
  · refine ⟨_, conn_check_update_selected_pair_spec E agent stream_id component_id pair sp h,
      ?_, ?_, ?_⟩
    · split_ifs with hp
      · simp only; omega
      · omega
    · intro hp; simp [hp]
    · intro hp; simp [hp]
  · intro pairs
    induction pairs generalizing agent sp with
    | nil => exact ⟨sp, h, le_refl _⟩
    | cons p ps ih =>
      have h1 := conn_check_update_selected_pair_spec E agent stream_id component_id p sp h
      obtain ⟨sp2, h2, h3⟩ := ih _ _ h1
      refine ⟨sp2, h2, le_trans ?_ h3⟩
      split_ifs with hp
      · simp only; omega
      · exact le_refl _

/-- C5 at the example agent, whose component has no selected pair yet. -/
theorem selected_pair_priority_is_max_witness :
    selected_pair_of (ex_agent NICE_COMPATIBILITY_RFC5245 ex_list []) 1 1 =
      some ⟨none, none, 0, 0⟩ ∧
    ∃ sp1, selected_pair_of
        (conn_check_update_selected_pair ext0 (ex_agent NICE_COMPATIBILITY_RFC5245 ex_list [])
          1 1 (ex_pair 11 ex_remote2 NICE_CHECK_SUCCEEDED 9115005265987371519))
        1 1 = some sp1 ∧
      sp1.priority = max 0 9115005265987371519 :=
  ⟨by decide,
    (selected_pair_priority_is_max ext0 (ex_agent NICE_COMPATIBILITY_RFC5245 ex_list []) 1 1
      (ex_pair 11 ex_remote2 NICE_CHECK_SUCCEEDED 9115005265987371519) ⟨none, none, 0, 0⟩
      (by decide)).1.imp (fun _ hx => ⟨hx.1, hx.2.1⟩)⟩

/-! ## Role recomputation -/

theorem g_slist_sort_perm {α : Type} (l : List α) (f : α → α → Int) :
    List.Perm (g_slist_sort l f) l := by
  induction l with
  | nil => exact List.Perm.refl _
  | cons x xs ih =>
    have hx : g_slist_sort (x :: xs) f = g_slist_insert_sorted (g_slist_sort xs f) x f := rfl
    rw [hx]
    obtain ⟨l1, l2, h1, h2⟩ := g_slist_insert_sorted_inserted (g_slist_sort xs f) x f
    rw [h2]
    refine List.Perm.trans List.perm_middle ?_
    refine List.Perm.cons x ?_
    rw [← h1]; exact ih

theorem g_slist_sort_sorted (l : List CandidateCheckPair) :
    conncheck_sorted (g_slist_sort l conn_check_compare) := by
  induction l with
  | nil => simp [g_slist_sort, conncheck_sorted]
  | cons x xs ih => exact g_slist_insert_sorted_sorted _ _ ih

/-- C6: after `recalculate_pair_priorities` every pair of every stream has the priority
`agent_candidate_pair_priority` gives under the role of the agent, every conncheck list is
sorted by non-increasing priority, and it is a permutation of the old list with the
priorities rewritten. -/
theorem recalculate_pair_priorities_correct (E : Ext) (agent : NiceAgent) (i : Nat)
    (s : NiceStream) (hs : agent.streams[i]? = some s) :
    ∃ s1, (recalculate_pair_priorities E agent).streams[i]? = some s1 ∧
      (∀ p ∈ s1.conncheck_list, p.priority =
        agent_candidate_pair_priority E (recalculate_pair_priorities E agent) p.local_
          p.remote) ∧
      conncheck_sorted s1.conncheck_list ∧
      List.Perm s1.conncheck_list (s.conncheck_list.map (fun p =>
        { p with priority := agent_candidate_pair_priority E agent p.local_ p.remote })) := by
  unfold recalculate_pair_priorities
  simp only [List.getElem?_map, hs, Option.map_some', Option.some.injEq, exists_eq_left']
  refine ⟨?_, g_slist_sort_sorted _, g_slist_sort_perm _ _⟩
  intro p hp
  have hp' := (g_slist_sort_perm _ conn_check_compare).mem_iff.1 hp
  rw [List.mem_map] at hp'
  obtain ⟨q, _, rfl⟩ := hp'
  rfl

/-- C6 at the example agent with its list in ascending order. -/
theorem recalculate_pair_priorities_correct_witness :
    (ex_agent NICE_COMPATIBILITY_RFC5245 ex_list.reverse []).streams[0]? =
      some (ex_stream ex_list.reverse) ∧
    ∃ s1, (recalculate_pair_priorities ext0
        (ex_agent NICE_COMPATIBILITY_RFC5245 ex_list.reverse [])).streams[0]? = some s1 ∧
      conncheck_sorted s1.conncheck_list :=
  ⟨by decide,
    (recalculate_pair_priorities_correct ext0
      (ex_agent NICE_COMPATIBILITY_RFC5245 ex_list.reverse []) 0 (ex_stream ex_list.reverse)
      (by decide)).imp (fun _ hx => ⟨hx.1, hx.2.2.1⟩)⟩

/-! ## Unfreezing -/

theorem priv_conn_check_unfreeze_next_list_cases (l : List CandidateCheckPair)
    (fl : List String) :
    ((priv_conn_check_unfreeze_next_list l fl).2 = fl ∧
      (priv_conn_check_unfreeze_next_list l fl).1 = l) ∨
    ((priv_conn_check_unfreeze_next_list l fl).2 ≠ [] ∧
      ∃ p ∈ (priv_conn_check_unfreeze_next_list l fl).1, p.state = NICE_CHECK_WAITING) := by
  induction l generalizing fl with
  | nil => left; exact ⟨rfl, rfl⟩
  | cons p ps ih =>
    unfold priv_conn_check_unfreeze_next_list
    split_ifs with h1 h2
    · rcases ih fl with h | h
      · left; simp [h.1, h.2]
      · right
        obtain ⟨hne, q, hq, hw⟩ := h
        exact ⟨hne, q, List.mem_cons_of_mem _ hq, hw⟩
    · right
      refine ⟨?_, _, List.mem_cons_self _ _, rfl⟩
      rcases ih (g_slist_prepend fl p.foundation) with h | h
      · simp only; rw [h.1]; simp [g_slist_prepend]
      · exact h.1
    · rcases ih fl with h | h
      · left; simp [h.1, h.2]
      · right
        obtain ⟨hne, q, hq, hw⟩ := h
        exact ⟨hne, q, List.mem_cons_of_mem _ hq, hw⟩

theorem priv_conn_check_unfreeze_next_streams_cases (ss : List NiceStream)
    (fl : List String) :
    ((priv_conn_check_unfreeze_next_streams ss fl).2 = fl ∧
      (priv_conn_check_unfreeze_next_streams ss fl).1 = ss) ∨
    ((priv_conn_check_unfreeze_next_streams ss fl).2 ≠ [] ∧
      ∃ s ∈ (priv_conn_check_unfreeze_next_streams ss fl).1,
        ∃ p ∈ s.conncheck_list, p.state = NICE_CHECK_WAITING) := by
  induction ss generalizing fl with
  | nil => left; exact ⟨rfl, rfl⟩
  | cons s ss ih =>
    unfold priv_conn_check_unfreeze_next_streams
    simp only
    rcases priv_conn_check_unfreeze_next_list_cases s.conncheck_list fl with h | h
    · rw [h.1, h.2]
      rcases ih fl with h' | h'
      · left; simp [h'.1, h'.2]
      · right
        obtain ⟨hne, t, ht, q, hq, hw⟩ := h'
        exact ⟨hne, t, List.mem_cons_of_mem _ ht, q, hq, hw⟩
    · obtain ⟨hne, q, hq, hw⟩ := h
      right
      refine ⟨?_, _, List.mem_cons_self _ _, q, hq, hw⟩
      rcases ih (priv_conn_check_unfreeze_next_list s.conncheck_list fl).2 with h' | h'
      · rw [h'.1]; exact hne
      · exact h'.1

theorem allPairs_any_waiting (agent : NiceAgent) (s : NiceStream) (hs : s ∈ agent.streams)
    (p : CandidateCheckPair) (hp : p ∈ s.conncheck_list) (hw : p.state = NICE_CHECK_WAITING) :
    agent.allPairs.any (fun p => p.state == NICE_CHECK_WAITING) = true := by
  rw [List.any_eq_true]
  refine ⟨p, ?_, by simp [hw]⟩
  unfold NiceAgent.allPairs
  rw [List.mem_flatMap]
  exact ⟨s, hs, hp⟩

/-- C7: `priv_conn_check_unfreeze_next` applied twice gives the agent it gives applied once,
and so does `conn_check_unfreeze_related` for the same pair. -/
theorem unfreeze_rules_idempotent (E : Ext) (agent : NiceAgent) (pair : CandidateCheckPair) :
    (priv_conn_check_unfreeze_next (priv_conn_check_unfreeze_next agent).2).2 =
      (priv_conn_check_unfreeze_next agent).2 ∧
    conn_check_unfreeze_related E (conn_check_unfreeze_related E agent pair) pair =
      conn_check_unfreeze_related E agent pair := by
  constructor
  · by_cases h : agent.allPairs.any (fun p => p.state == NICE_CHECK_WAITING) = true
    · have h1 : priv_conn_check_unfreeze_next agent = (true, agent) := by
        unfold priv_conn_check_unfreeze_next; simp [h]
      rw [h1]; simp only; rw [h1]
    · have h1 : priv_conn_check_unfreeze_next agent =
          (decide ((priv_conn_check_unfreeze_next_streams agent.streams []).2 ≠ []),
            { agent with streams := (priv_conn_check_unfreeze_next_streams agent.streams []).1 }) := by
        unfold priv_conn_check_unfreeze_next; simp [h]
      rcases priv_conn_check_unfreeze_next_streams_cases agent.streams [] with h2 | h2
      · have h3 : ({ agent with
            streams := (priv_conn_check_unfreeze_next_streams agent.streams []).1 } : NiceAgent)
            = agent := by rw [h2.2]
        rw [h1, h3]; simp only; rw [h1, h3]
      · obtain ⟨_, s, hs, q, hq, hw⟩ := h2
        rw [h1]; simp only
        unfold priv_conn_check_unfreeze_next
        rw [if_pos]
        exact allPairs_any_waiting _ s hs q hq hw
  · unfold conn_check_unfreeze_related
    simp only [List.map_map]
    congr 1
    apply List.map_congr_left
    intro s _
    simp only [Function.comp]
    congr 1
    rw [List.map_map]
    apply List.map_congr_left
    intro p _
    simp only [Function.comp]
    by_cases hc : p.state = NICE_CHECK_FROZEN ∧
        strncmp_eq p.foundation pair.foundation E.NICE_CANDIDATE_PAIR_MAX_FOUNDATION = true
    · simp [hc]
    · simp [hc]

/-! ## Dereferencing pair pointers after writes -/

theorem agent_find_stream_some (agent : NiceAgent) (stream_id : Nat) (s : NiceStream)
    (h : agent_find_stream agent stream_id = some s) : s ∈ agent.streams ∧ s.id = stream_id := by
  unfold agent_find_stream at h
  exact ⟨List.mem_of_find?_eq_some h, by simpa using List.find?_some h⟩

theorem agent_find_component_some (agent : NiceAgent) (stream_id component_id : Nat)
    (s : NiceStream) (c : NiceComponent)
    (h : agent_find_component agent stream_id component_id = some (s, c)) :
    agent_find_stream agent stream_id = some s ∧ s ∈ agent.streams ∧ s.id = stream_id ∧
      c ∈ s.components ∧ c.id = component_id := by
  unfold agent_find_component at h
  cases h1 : agent_find_stream agent stream_id with
  | none => simp [h1] at h
  | some s1 =>
    simp only [h1] at h
    cases h2 : nice_stream_find_component_by_id s1 component_id with
    | none => simp [h2] at h
    | some c1 =>
      simp only [h2, Option.some.injEq, Prod.mk.injEq] at h
      obtain ⟨rfl, rfl⟩ := h
      have hs := agent_find_stream_some agent stream_id s1 h1
      unfold nice_stream_find_component_by_id at h2
      exact ⟨rfl, hs.1, hs.2, List.mem_of_find?_eq_some h2, by simpa using List.find?_some h2⟩

theorem allPairs_updatePair (agent : NiceAgent) (p : Nat)
    (f : CandidateCheckPair → CandidateCheckPair) :
    (agent.updatePair p f).allPairs =
      agent.allPairs.map (fun q => if q.ptr = p then f q else q) := by
  unfold NiceAgent.allPairs NiceAgent.updatePair updatePairIn
  simp only [List.flatMap_map, List.map_flatMap]

theorem findPair_updatePair (agent : NiceAgent) (p x : Nat)
    (f : CandidateCheckPair → CandidateCheckPair) (hf : ∀ q, (f q).ptr = q.ptr) :
    (agent.updatePair p f).findPair x =
      (agent.findPair x).map (fun q => if q.ptr = p then f q else q) := by
  unfold NiceAgent.findPair
  rw [allPairs_updatePair, find?_map_of_comm]
  intro q; split_ifs <;> simp [hf]

theorem allPairs_updateComponent (agent : NiceAgent) (stream_id component_id : Nat)
    (f : NiceComponent → NiceComponent) :
    (agent.updateComponent stream_id component_id f).allPairs = agent.allPairs := by
  unfold NiceAgent.allPairs NiceAgent.updateComponent NiceAgent.updateStream
  simp only [List.flatMap_map]
  congr 1
  funext s
  split_ifs <;> rfl

theorem find?_insert_sorted_ne (l : List CandidateCheckPair) (pair : CandidateCheckPair)
    (f : CandidateCheckPair → CandidateCheckPair → Int) (x : Nat) (h : pair.ptr ≠ x) :
    (g_slist_insert_sorted l pair f).find? (fun q => q.ptr == x) =
      l.find? (fun q => q.ptr == x) := by
  obtain ⟨l1, l2, h1, h2⟩ := g_slist_insert_sorted_inserted l pair f
  rw [h2, h1]
  have : (pair.ptr == x) = false := by simpa using h
  simp [List.find?_cons, this]

theorem find?_insert_sorted_fresh (l : List CandidateCheckPair) (pair : CandidateCheckPair)
    (f : CandidateCheckPair → CandidateCheckPair → Int)
    (h : ∀ q ∈ l, q.ptr ≠ pair.ptr) :
    (g_slist_insert_sorted l pair f).find? (fun q => q.ptr == pair.ptr) = some pair := by
  obtain ⟨l1, l2, h1, h2⟩ := g_slist_insert_sorted_inserted l pair f
  rw [h2]
  have hn : l1.find? (fun q => q.ptr == pair.ptr) = none := by
    rw [List.find?_eq_none]
    intro q hq
    have := h q (by rw [h1]; exact List.mem_append_left _ hq)
    simpa using this
  simp [hn, List.find?_cons]

theorem findPair_eq_findSome? (agent : NiceAgent) (x : Nat) :
    agent.findPair x =
      agent.streams.findSome? (fun s => s.conncheck_list.find? (fun q => q.ptr == x)) := by
  unfold NiceAgent.findPair NiceAgent.allPairs
  rw [List.find?_flatMap]

theorem findPair_insert_ne (agent : NiceAgent) (stream_id : Nat) (pair : CandidateCheckPair)
    (f : CandidateCheckPair → CandidateCheckPair → Int) (x : Nat) (h : pair.ptr ≠ x) :
    (agent.updateStream stream_id (fun s =>
      { s with conncheck_list := g_slist_insert_sorted s.conncheck_list pair f })).findPair x =
      agent.findPair x := by
  rw [findPair_eq_findSome?, findPair_eq_findSome?]
  unfold NiceAgent.updateStream
  simp only [List.findSome?_map]
  congr 1
  funext s
  simp only [Function.comp]
  split_ifs
  · exact find?_insert_sorted_ne _ _ _ _ h
  · rfl

theorem findPair_insert_fresh (agent : NiceAgent) (stream_id : Nat) (pair : CandidateCheckPair)
    (f : CandidateCheckPair → CandidateCheckPair → Int)
    (hfresh : ∀ q ∈ agent.allPairs, q.ptr ≠ pair.ptr)
    (hs : ∃ s ∈ agent.streams, s.id = stream_id) :
    (agent.updateStream stream_id (fun s =>
      { s with conncheck_list := g_slist_insert_sorted s.conncheck_list pair f })).findPair
        pair.ptr = some pair := by
  rw [findPair_eq_findSome?]
  unfold NiceAgent.updateStream
  simp only [List.findSome?_map]
  have hfresh' : ∀ s ∈ agent.streams, ∀ q ∈ s.conncheck_list, q.ptr ≠ pair.ptr := by
    intro s hs q hq
    exact hfresh q (by unfold NiceAgent.allPairs; rw [List.mem_flatMap]; exact ⟨s, hs, hq⟩)
  generalize agent.streams = ss at hfresh' hs
  induction ss with
  | nil => obtain ⟨s, hs, _⟩ := hs; simp at hs
  | cons s ss ih =>
    rw [List.findSome?_cons]
    simp only [Function.comp]
    by_cases hid : s.id = stream_id
    · simp only [hid, if_true]
      rw [find?_insert_sorted_fresh _ _ _ (hfresh' s (List.mem_cons_self _ _))]
    · simp only [hid, if_false]
      have hn : s.conncheck_list.find? (fun q => q.ptr == pair.ptr) = none := by
        rw [List.find?_eq_none]
        intro q hq
        simpa using hfresh' s (List.mem_cons_self _ _) q hq
      rw [hn]
      apply ih
      · intro t ht; exact hfresh' t (List.mem_cons_of_mem _ ht)
      · obtain ⟨t, ht, hti⟩ := hs
        rcases List.mem_cons.1 ht with rfl | ht
        · exact absurd hti hid
        · exact ⟨t, ht, hti⟩

theorem mem_allPairs_of_findPair (agent : NiceAgent) (x : Nat) (p : CandidateCheckPair)
    (h : agent.findPair x = some p) : p ∈ agent.allPairs ∧ p.ptr = x := by
  unfold NiceAgent.findPair at h
  exact ⟨List.mem_of_find?_eq_some h, by simpa using List.find?_some h⟩

/-! ## Peer-reflexive discovery -/

theorem process_response_discovers (E : Ext) (agent : NiceAgent) (stream_id component_id : Nat)
    (p : CandidateCheckPair) (sockptr : NiceSocket) (mapped : NiceAddress)
    (local_candidate : Option NiceCandidate) (remote_candidate : NiceCandidate)
    (new_pair : Nat) (stream : NiceStream) (component : NiceComponent)
    (lprime : NiceCandidate)
    (hfc : agent_find_component agent stream_id component_id = some (stream, component))
    (hmapped : ∀ cand ∈ component.local_candidates,
      nice_address_equal mapped cand.addr = false)
    (hrelay : agent.force_relay = false)
    (hdisc : E.discovery_add_peer_reflexive_candidate stream_id component_id p.stun_priority
      mapped sockptr local_candidate remote_candidate = some lprime) :
    priv_process_response_check_for_reflexive E agent stream_id component_id p sockptr mapped
        local_candidate remote_candidate new_pair =
      (some new_pair, response_pair_succeeded
        ((priv_add_peer_reflexive_pair E
          (agent.updateComponent stream_id component_id (fun c =>
            { c with local_candidates := g_slist_append c.local_candidates lprime }))
          stream_id component lprime p new_pair).updatePair new_pair
            (fun q => { q with valid := true })) p.ptr) := by
  obtain ⟨_, _, hsid, _, hcid⟩ := agent_find_component_some _ _ _ _ _ hfc
  unfold priv_process_response_check_for_reflexive
  have hl : component.local_candidates.find? (fun cand =>
      nice_address_equal mapped cand.addr &&
      local_candidate_and_socket_compatible cand sockptr) = none := by
    rw [List.find?_eq_none]
    intro c hc
    simp [hmapped c hc]
  simp only [hfc, hl, Option.map_none']
  have hf : stream.conncheck_list.find? (fun pair =>
      (none : Option Nat) == some pair.local_.ptr && remote_candidate.ptr == pair.remote.ptr)
      = none := by
    rw [List.find?_eq_none]
    intro q _
    simp
  rw [hf]
  simp only [Option.isNone_none, hrelay, and_self, if_true, hsid, hcid,
    discovery_add_peer_reflexive_candidate, hdisc]

theorem findPair_updateComponent (agent : NiceAgent) (stream_id component_id x : Nat)
    (f : NiceComponent → NiceComponent) :
    (agent.updateComponent stream_id component_id f).findPair x = agent.findPair x := by
  unfold NiceAgent.findPair
  rw [allPairs_updateComponent]

theorem findPair_response_pair_succeeded (agent : NiceAgent) (p x : Nat) :
    (response_pair_succeeded agent p).findPair x =
      (agent.findPair x).map (fun q =>
        if q.ptr = p then
          { q with state := NICE_CHECK_SUCCEEDED, stun_transactions := [], retransmit := false }
        else q) := by
  unfold response_pair_succeeded SET_PAIR_STATE
  simp only
  rw [findPair_updatePair _ _ _ _ ?_]
  have h : (priv_remove_pair_from_triggered_check_queue
      (agent.updatePair p fun q => { q with state := NICE_CHECK_SUCCEEDED }) p).findPair x =
      (agent.updatePair p fun q => { q with state := NICE_CHECK_SUCCEEDED }).findPair x := rfl
  rw [h, findPair_updatePair _ _ _ _ ?_]
  rotate_left
  · intro q; rfl
  · intro q; rfl
  cases agent.findPair x with
  | none => rfl
  | some q =>
    simp only [Option.map_some', Option.some.injEq]
    by_cases hq : q.ptr = p
    · simp [hq, priv_free_all_stun_transactions]
    · simp [hq]

/-- C9: when the mapped address of a success response for pair `p` is the address of no
local candidate of the component and `force_relay` is off, the gathering module is asked
for a peer-reflexive candidate with priority `p.stun_priority`; with the candidate `lprime`
it returns, a new pair `(lprime, p.remote)` is inserted at the fresh address `new_pair` in
state Discovered with `valid` set and `succeeded_pair` pointing to `p`; `p` is Succeeded
with its `valid` flag as before, has no transactions, points to the new pair with
`discovered_pair`, and is not in the triggered-check queue. -/
theorem peer_reflexive_discovery (E : Ext) (agent : NiceAgent) (stream_id component_id : Nat)
    (p : CandidateCheckPair) (sockptr : NiceSocket) (mapped : NiceAddress)
    (local_candidate : Option NiceCandidate) (remote_candidate : NiceCandidate)
    (new_pair : Nat) (stream : NiceStream) (component : NiceComponent)
    (lprime : NiceCandidate)
    (hfc : agent_find_component agent stream_id component_id = some (stream, component))
    (hp : agent.findPair p.ptr = some p)
    (hmapped : ∀ cand ∈ component.local_candidates,
      nice_address_equal mapped cand.addr = false)
    (hrelay : agent.force_relay = false)
    (hdisc : E.discovery_add_peer_reflexive_candidate stream_id component_id p.stun_priority
      mapped sockptr local_candidate remote_candidate = some lprime)
    (hfresh : ∀ q ∈ agent.allPairs, q.ptr ≠ new_pair)
    (hqueue : agent.triggered_check_queue.Nodup) :
    (priv_process_response_check_for_reflexive E agent stream_id component_id p sockptr mapped
      local_candidate remote_candidate new_pair).1 = some new_pair ∧
    ∃ pd ps,
      (priv_process_response_check_for_reflexive E agent stream_id component_id p sockptr mapped
        local_candidate remote_candidate new_pair).2.findPair new_pair = some pd ∧
      (priv_process_response_check_for_reflexive E agent stream_id component_id p sockptr mapped
        local_candidate remote_candidate new_pair).2.findPair p.ptr = some ps ∧
      pd.local_ = lprime ∧ pd.remote = p.remote ∧ pd.state = NICE_CHECK_DISCOVERED ∧
      pd.valid = true ∧ pd.succeeded_pair = some p.ptr ∧
      pd.stream_id = stream_id ∧ pd.component_id = component_id ∧
      ps.state = NICE_CHECK_SUCCEEDED ∧ ps.valid = p.valid ∧ ps.stun_transactions = [] ∧
      ps.discovered_pair = some new_pair ∧
      p.ptr ∉ (priv_process_response_check_for_reflexive E agent stream_id component_id p
        sockptr mapped local_candidate remote_candidate new_pair).2.triggered_check_queue := by
  obtain ⟨_, hsmem, hsid, _, hcid⟩ := agent_find_component_some _ _ _ _ _ hfc
  have hpne : p.ptr ≠ new_pair := hfresh p (mem_allPairs_of_findPair _ _ _ hp).1
  rw [process_response_discovers E agent stream_id component_id p sockptr mapped
    local_candidate remote_candidate new_pair stream component lprime hfc hmapped hrelay hdisc]
  refine ⟨rfl, ?_⟩
  simp only
  rw [findPair_response_pair_succeeded, findPair_response_pair_succeeded,
    findPair_updatePair _ _ _ _ ?_, findPair_updatePair _ _ _ _ ?_]
  rotate_left
  · intro q; rfl
  · intro q; rfl
  unfold priv_add_peer_reflexive_pair
  simp only
  -- the pair at the fresh address is the new record
  have hnew : ((((agent.updateComponent stream_id component_id (fun c =>
        { c with local_candidates := g_slist_append c.local_candidates lprime })).updatePair
        p.ptr (fun q => { q with discovered_pair := some new_pair })).updateStream stream_id
        (fun s => { s with conncheck_list := (g_slist_insert_sorted s.conncheck_list
          (priv_add_peer_reflexive_pair_record E
            (agent.updateComponent stream_id component_id (fun c =>
              { c with local_candidates := g_slist_append c.local_candidates lprime }))
            stream_id component lprime p new_pair) conn_check_compare) })).findPair new_pair) =
      some (priv_add_peer_reflexive_pair_record E
        (agent.updateComponent stream_id component_id (fun c =>
          { c with local_candidates := g_slist_append c.local_candidates lprime }))
        stream_id component lprime p new_pair) := by
    apply findPair_insert_fresh _ _
      (priv_add_peer_reflexive_pair_record E
        (agent.updateComponent stream_id component_id (fun c =>
          { c with local_candidates := g_slist_append c.local_candidates lprime }))
        stream_id component lprime p new_pair)
    · intro q hq
      rw [allPairs_updatePair, allPairs_updateComponent, List.mem_map] at hq
      obtain ⟨q0, hq0, rfl⟩ := hq
      have := hfresh q0 hq0
      split_ifs <;> exact this
    · unfold NiceAgent.updatePair NiceAgent.updateComponent NiceAgent.updateStream
      simp only [List.mem_map, exists_exists_and_eq_and]
      refine ⟨stream, hsmem, ?_⟩
      simp [hsid]
  have hold : ((((agent.updateComponent stream_id component_id (fun c =>
        { c with local_candidates := g_slist_append c.local_candidates lprime })).updatePair
        p.ptr (fun q => { q with discovered_pair := some new_pair })).updateStream stream_id
        (fun s => { s with conncheck_list := (g_slist_insert_sorted s.conncheck_list
          (priv_add_peer_reflexive_pair_record E
            (agent.updateComponent stream_id component_id (fun c =>
              { c with local_candidates := g_slist_append c.local_candidates lprime }))
            stream_id component lprime p new_pair) conn_check_compare) })).findPair p.ptr) =
      some { p with discovered_pair := some new_pair } := by
    rw [findPair_insert_ne _ _ _ _ _ (fun h => hpne h.symm),
      findPair_updatePair _ _ _ _ ?_, findPair_updateComponent, hp]
    · simp
    · intro q; rfl
  rw [hnew, hold]
  refine ⟨_, _, rfl, rfl, ?_⟩
  simp only [priv_add_peer_reflexive_pair_record, if_true, hpne, if_false, hpne.symm, hcid]
  refine ⟨trivial, trivial, trivial, trivial, trivial, trivial, trivial, trivial, trivial,
    trivial, trivial, ?_⟩
  exact (g_slist_remove_nodup _ p.ptr hqueue).2

/-- C9 at the example agent (scenario S3): the response to the check of pair 12 reports the
mapped address 198.51.100.7:40000, unknown to the component. -/
theorem peer_reflexive_discovery_witness :
    agent_find_component (ex_agent NICE_COMPATIBILITY_RFC5245 ex_list_in_progress [12]) 1 1 =
      some (ex_stream ex_list_in_progress, ex_component) ∧
    (ex_agent NICE_COMPATIBILITY_RFC5245 ex_list_in_progress [12]).findPair 12 =
      some ex_pair_in_progress ∧
    ext0.discovery_add_peer_reflexive_candidate 1 1 ex_pair_in_progress.stun_priority
      ⟨3325256455, 40000⟩ ex_sock (some ex_local) ex_remote =
      some ex_prflx ∧
    (priv_process_response_check_for_reflexive ext0
      (ex_agent NICE_COMPATIBILITY_RFC5245 ex_list_in_progress [12]) 1 1 ex_pair_in_progress
      ex_sock ⟨3325256455, 40000⟩ (some ex_local) ex_remote 13).1 = some 13 :=
  ⟨by decide, by decide, by decide,
    (peer_reflexive_discovery ext0 (ex_agent NICE_COMPATIBILITY_RFC5245 ex_list_in_progress [12])
      1 1 ex_pair_in_progress ex_sock ⟨3325256455, 40000⟩ (some ex_local) ex_remote 13
      (ex_stream ex_list_in_progress) ex_component ex_prflx (by decide) (by decide) (by decide)
      (by decide) (by decide) (by decide) (by decide)).1⟩

/-! ## Role conflict -/

theorem find_transaction_some (id : Nat) (l : List StunTransaction) (k0 k : Nat)
    (stun : StunTransaction) (h : find_transaction id l k0 = some (k, stun)) :
    k0 ≤ k ∧ l[k - k0]? = some stun ∧ stun.message.id = id := by
  induction l generalizing k0 with
  | nil => simp [find_transaction] at h
  | cons x xs ih =>
    unfold find_transaction at h
    split_ifs at h with hx
    · simp only [Option.some.injEq, Prod.mk.injEq] at h
      obtain ⟨rfl, rfl⟩ := h
      simp [hx]
    · obtain ⟨h1, h2, h3⟩ := ih (k0 + 1) h
      refine ⟨by omega, ?_, h3⟩
      have : k - k0 = (k - (k0 + 1)) + 1 := by omega
      rw [this, List.getElem?_cons_succ]
      exact h2

theorem find_matching_request_some (id : Nat) (l : List CandidateCheckPair)
    (p : CandidateCheckPair) (k : Nat) (stun : StunTransaction)
    (h : find_matching_request id l = some (p, k, stun)) :
    p ∈ l ∧ p.stun_transactions[k]? = some stun ∧ stun.message.id = id := by
  induction l with
  | nil => simp [find_matching_request] at h
  | cons x xs ih =>
    unfold find_matching_request at h
    cases hx : find_transaction id x.stun_transactions 0 with
    | none =>
      simp only [hx] at h
      obtain ⟨h1, h2⟩ := ih h
      exact ⟨List.mem_cons_of_mem _ h1, h2⟩
    | some r =>
      obtain ⟨k1, s1⟩ := r
      simp only [hx, Option.some.injEq, Prod.mk.injEq] at h
      obtain ⟨rfl, rfl, rfl⟩ := h
      have := find_transaction_some id _ 0 _ _ hx
      exact ⟨List.mem_cons_self _ _, by simpa using this.2.1, this.2.2⟩

theorem priorities_in_force_recalculate (E : Ext) (agent : NiceAgent) :
    priorities_in_force E (recalculate_pair_priorities E agent) := by
  intro s1 hs1
  obtain ⟨i, hi, hget⟩ := List.mem_iff_getElem.1 hs1
  have hlen : (recalculate_pair_priorities E agent).streams.length = agent.streams.length := by
    simp [recalculate_pair_priorities]
  have hi' : i < agent.streams.length := by omega
  obtain ⟨s2, h2, h3, h4, _⟩ := recalculate_pair_priorities_correct E agent i agent.streams[i]
    (List.getElem?_eq_getElem hi')
  rw [List.getElem?_eq_getElem hi, Option.some.injEq, hget] at h2
  subst h2
  exact ⟨h4, h3⟩

theorem priorities_in_force_updatePair (E : Ext) (agent : NiceAgent) (p : Nat)
    (f : CandidateCheckPair → CandidateCheckPair)
    (hf : ∀ q, (f q).priority = q.priority ∧ (f q).local_ = q.local_ ∧ (f q).remote = q.remote)
    (h : priorities_in_force E agent) : priorities_in_force E (agent.updatePair p f) := by
  intro s1 hs1
  unfold NiceAgent.updatePair at hs1
  simp only [List.mem_map] at hs1
  obtain ⟨s, hs, rfl⟩ := hs1
  obtain ⟨h1, h2⟩ := h s hs
  refine ⟨updatePairIn_sorted _ _ _ (fun q => (hf q).1) h1, ?_⟩
  intro q hq
  simp only [updatePairIn, List.mem_map] at hq
  obtain ⟨q0, hq0, rfl⟩ := hq
  have := h2 q0 hq0
  show _ = E.agent_candidate_pair_priority agent.controlling_mode _ _
  split_ifs
  · rw [(hf q0).1, (hf q0).2.1, (hf q0).2.2]; exact this
  · exact this

theorem mem_priv_add_pair_to_triggered_check_queue (agent : NiceAgent) (pair : Nat) :
    pair ∈ (priv_add_pair_to_triggered_check_queue agent pair).triggered_check_queue := by
  unfold priv_add_pair_to_triggered_check_queue
  split_ifs with h
  · simp [g_slist_append]
  · have h2 : g_slist_find agent.triggered_check_queue pair = true := by
      by_contra hc
      exact h (Or.inr (by simpa using hc))
    exact (g_slist_find_iff _ _).1 h2

theorem priv_check_for_role_conflict_controlled (E : Ext) (agent : NiceAgent)
    (h : agent.controlling_mode = true ∨ priorities_in_force E agent) :
    (priv_check_for_role_conflict E agent false).controlling_mode = false ∧
    priorities_in_force E (priv_check_for_role_conflict E agent false) := by
  unfold priv_check_for_role_conflict
  by_cases hc : agent.controlling_mode = true
  · have : false ≠ agent.controlling_mode := by simp [hc]
    rw [if_pos this]
    exact ⟨rfl, priorities_in_force_recalculate E _⟩
  · have hf : agent.controlling_mode = false := by simpa using hc
    have : ¬ false ≠ agent.controlling_mode := by simp [hf]
    rw [if_neg this]
    exact ⟨hf, h.resolve_left hc⟩

theorem g_slist_sort_map_keeps (l : List CandidateCheckPair)
    (g : CandidateCheckPair → CandidateCheckPair)
    (hg : ∀ q, (g q).ptr = q.ptr ∧ (g q).state = q.state ∧
      (g q).stun_transactions = q.stun_transactions)
    (p : CandidateCheckPair) (hp : p ∈ l) :
    ∃ p1 ∈ g_slist_sort (l.map g) conn_check_compare, p1.ptr = p.ptr ∧ p1.state = p.state ∧
      p1.stun_transactions = p.stun_transactions := by
  refine ⟨g p, ?_, hg p⟩
  rw [(g_slist_sort_perm _ _).mem_iff, List.mem_map]
  exact ⟨p, hp, rfl⟩

theorem priv_check_for_role_conflict_keeps_pair (E : Ext) (agent : NiceAgent) (control : Bool)
    (s : NiceStream) (hs : s ∈ agent.streams) (p : CandidateCheckPair)
    (hp : p ∈ s.conncheck_list) :
    ∃ s1 ∈ (priv_check_for_role_conflict E agent control).streams, s1.id = s.id ∧
      ∃ p1 ∈ s1.conncheck_list, p1.ptr = p.ptr ∧ p1.state = p.state ∧
        p1.stun_transactions = p.stun_transactions := by
  unfold priv_check_for_role_conflict
  split_ifs
  · unfold recalculate_pair_priorities
    simp only [List.mem_map, exists_exists_and_eq_and]
    refine ⟨s, hs, rfl, ?_⟩
    apply g_slist_sort_map_keeps
    · intro q; exact ⟨rfl, rfl, rfl⟩
    · exact hp
  · exact ⟨s, hs, rfl, p, hp, rfl, rfl, rfl⟩

/-- C10 (amended): when a role-conflict reply matches a transaction of a pair in state
InProgress whose retransmit flag is set and whose request was sent without ICE-CONTROLLED (as
controlling), then after `priv_map_reply_to_conn_check_request` the agent is controlled, the
matched transaction is gone from the pair, the pair is still InProgress and it is in the
triggered-check queue.  When the agent is controlling as the reply arrives, every pair has the
priority of the controlled role afterwards and every conncheck list is sorted.  When the agent
is controlled already, nothing else is written: the agent is the one it was with the
transaction removed and the pair queued, so lists that are sorted with the priorities of the
controlled role stay so. -/
theorem role_conflict_resolution (E : Ext) (agent : NiceAgent) (stream_id component_id : Nat)
    (sockptr : NiceSocket) (from_ : NiceAddress)
    (local_candidate remote_candidate : Option NiceCandidate) (resp : StunResponse)
    (new_pair : Nat) (stream : NiceStream) (p : CandidateCheckPair) (k : Nat)
    (stun : StunTransaction)
    (hstream : agent_find_stream agent stream_id = some stream)
    (hmatch : find_matching_request resp.id stream.conncheck_list = some (p, k, stun))
    (hres : resp.res = STUN_USAGE_ICE_RETURN_ROLE_CONFLICT)
    (hretransmit : p.retransmit = true)
    (hcontrolling : stun.message.ice_controlled = false)
    (hstate : p.state = NICE_CHECK_IN_PROGRESS) :
    (priv_map_reply_to_conn_check_request E agent stream_id component_id sockptr from_
      local_candidate remote_candidate resp new_pair).1 = true ∧
    (priv_map_reply_to_conn_check_request E agent stream_id component_id sockptr from_
      local_candidate remote_candidate resp new_pair).2.controlling_mode = false ∧
    (agent.controlling_mode = true →
      priorities_in_force E (priv_map_reply_to_conn_check_request E agent stream_id
        component_id sockptr from_ local_candidate remote_candidate resp new_pair).2) ∧
    (agent.controlling_mode = false →
      (priv_map_reply_to_conn_check_request E agent stream_id component_id sockptr from_
        local_candidate remote_candidate resp new_pair).2 =
        priv_add_pair_to_triggered_check_queue
          (agent.updatePair p.ptr (fun q => priv_remove_stun_transaction q k)) p.ptr ∧
      (priorities_in_force E agent →
        priorities_in_force E (priv_map_reply_to_conn_check_request E agent stream_id
          component_id sockptr from_ local_candidate remote_candidate resp new_pair).2)) ∧
    (∃ s1 ∈ (priv_map_reply_to_conn_check_request E agent stream_id component_id sockptr from_
        local_candidate remote_candidate resp new_pair).2.streams, s1.id = stream_id ∧
      ∃ p1 ∈ s1.conncheck_list, p1.ptr = p.ptr ∧ p1.state = NICE_CHECK_IN_PROGRESS ∧
        p1.stun_transactions = p.stun_transactions.eraseIdx k) ∧
    p.ptr ∈ (priv_map_reply_to_conn_check_request E agent stream_id component_id sockptr from_
      local_candidate remote_candidate resp new_pair).2.triggered_check_queue := by
  have hr : priv_map_reply_to_conn_check_request E agent stream_id component_id sockptr from_
      local_candidate remote_candidate resp new_pair =
      (true, priv_add_pair_to_triggered_check_queue
        ((priv_check_for_role_conflict E agent false).updatePair p.ptr
          (fun q => priv_remove_stun_transaction q k)) p.ptr) := by
    unfold priv_map_reply_to_conn_check_request
    simp [hstream, hmatch, hres, hretransmit, hcontrolling]
  rw [hr]
  obtain ⟨hsmem, hsid⟩ := agent_find_stream_some _ _ _ hstream
  obtain ⟨hpmem, _, _⟩ := find_matching_request_some _ _ _ _ _ hmatch
  have hpif : ∀ a : NiceAgent, priorities_in_force E a →
      priorities_in_force E (priv_add_pair_to_triggered_check_queue
        (a.updatePair p.ptr (fun q => priv_remove_stun_transaction q k)) p.ptr) := by
    intro a ha
    have h1 := priorities_in_force_updatePair E a p.ptr
      (fun q => priv_remove_stun_transaction q k) (fun q => ⟨rfl, rfl, rfl⟩) ha
    intro s hs
    have hs' : s ∈ (a.updatePair p.ptr (fun q => priv_remove_stun_transaction q k)).streams := by
      unfold priv_add_pair_to_triggered_check_queue at hs
      split_ifs at hs <;> exact hs
    have := h1 s hs'
    unfold priv_add_pair_to_triggered_check_queue
    split_ifs <;> exact this
  have hsame : agent.controlling_mode = false →
      priv_check_for_role_conflict E agent false = agent := by
    intro hf
    unfold priv_check_for_role_conflict
    rw [if_neg (by simp [hf])]
  refine ⟨rfl, ?_, ?_, ?_, ?_, mem_priv_add_pair_to_triggered_check_queue _ _⟩
  · have : (priv_add_pair_to_triggered_check_queue
        ((priv_check_for_role_conflict E agent false).updatePair p.ptr
          (fun q => priv_remove_stun_transaction q k)) p.ptr).controlling_mode =
        (priv_check_for_role_conflict E agent false).controlling_mode := by
      unfold priv_add_pair_to_triggered_check_queue
      split_ifs <;> rfl
    rw [this]
    by_cases hc : agent.controlling_mode = true
    · exact (priv_check_for_role_conflict_controlled E agent (Or.inl hc)).1
    · have hf : agent.controlling_mode = false := by simpa using hc
      rw [hsame hf]; exact hf
  · intro hc
    exact hpif _ (priv_check_for_role_conflict_controlled E agent (Or.inl hc)).2
  · intro hf
    rw [hsame hf]
    exact ⟨rfl, fun ha => hpif agent ha⟩
  · obtain ⟨s1, hs1, hid1, p1, hp1, hptr, hst, htx⟩ :=
      priv_check_for_role_conflict_keeps_pair E agent false stream hsmem p hpmem
    have hstreams : (priv_add_pair_to_triggered_check_queue
        ((priv_check_for_role_conflict E agent false).updatePair p.ptr
          (fun q => priv_remove_stun_transaction q k)) p.ptr).streams =
        ((priv_check_for_role_conflict E agent false).updatePair p.ptr
          (fun q => priv_remove_stun_transaction q k)).streams := by
      unfold priv_add_pair_to_triggered_check_queue
      split_ifs <;> rfl
    rw [hstreams]
    unfold NiceAgent.updatePair
    simp only [List.mem_map, exists_exists_and_eq_and]
    refine ⟨s1, hs1, by rw [hid1, hsid], ?_⟩
    simp only [updatePairIn, List.mem_map, exists_exists_and_eq_and]
    refine ⟨p1, hp1, ?_⟩
    simp only [hptr, if_true]
    refine ⟨hptr, ?_, ?_⟩
    · simp [priv_remove_stun_transaction, hst, hstate]
    · simp [priv_remove_stun_transaction, htx]

/-- C10 (witness): the theorem at the example agent, controlling when it gets the 487 reply to
the request of pair 12 (scenario S4), and at the agent that is controlled already when the
reply arrives: there the result is the agent with the transaction removed and the pair
queued. -/
theorem role_conflict_resolution_witness :
    agent_find_stream (ex_agent NICE_COMPATIBILITY_RFC5245 ex_list_in_progress []) 1 =
      some (ex_stream ex_list_in_progress) ∧
    find_matching_request 7012 (ex_stream ex_list_in_progress).conncheck_list =
      some (ex_pair_in_progress, 0, ex_transaction) ∧
    (priv_map_reply_to_conn_check_request ext0
      (ex_agent NICE_COMPATIBILITY_RFC5245 ex_list_in_progress []) 1 1 ex_sock ex_remote.addr
      (some ex_local) (some ex_remote)
      ⟨7012, STUN_USAGE_ICE_RETURN_ROLE_CONFLICT, ⟨0, 0⟩⟩ 13).2.controlling_mode = false ∧
    priorities_in_force ext0 (priv_map_reply_to_conn_check_request ext0
      (ex_agent NICE_COMPATIBILITY_RFC5245 ex_list_in_progress []) 1 1 ex_sock ex_remote.addr
      (some ex_local) (some ex_remote)
      ⟨7012, STUN_USAGE_ICE_RETURN_ROLE_CONFLICT, ⟨0, 0⟩⟩ 13).2 ∧
    (priv_map_reply_to_conn_check_request ext0 ex_agent_renominated 1 1 ex_sock ex_remote.addr
      (some ex_local) (some ex_remote)
      ⟨7012, STUN_USAGE_ICE_RETURN_ROLE_CONFLICT, ⟨0, 0⟩⟩ 15).2 =
      priv_add_pair_to_triggered_check_queue
        (ex_agent_renominated.updatePair 12 (fun q => priv_remove_stun_transaction q 0)) 12 :=
  ⟨by decide, by decide,
    (role_conflict_resolution ext0 (ex_agent NICE_COMPATIBILITY_RFC5245 ex_list_in_progress [])
      1 1 ex_sock ex_remote.addr (some ex_local) (some ex_remote)
      ⟨7012, STUN_USAGE_ICE_RETURN_ROLE_CONFLICT, ⟨0, 0⟩⟩ 13 (ex_stream ex_list_in_progress)
      ex_pair_in_progress 0 ex_transaction (by decide) (by decide) (by decide) (by decide)
      (by decide) (by decide)).2.1,
    (role_conflict_resolution ext0 (ex_agent NICE_COMPATIBILITY_RFC5245 ex_list_in_progress [])
      1 1 ex_sock ex_remote.addr (some ex_local) (some ex_remote)
      ⟨7012, STUN_USAGE_ICE_RETURN_ROLE_CONFLICT, ⟨0, 0⟩⟩ 13 (ex_stream ex_list_in_progress)
      ex_pair_in_progress 0 ex_transaction (by decide) (by decide) (by decide) (by decide)
      (by decide) (by decide)).2.2.1 (by decide),
    ((role_conflict_resolution ext0 ex_agent_renominated
      1 1 ex_sock ex_remote.addr (some ex_local) (some ex_remote)
      ⟨7012, STUN_USAGE_ICE_RETURN_ROLE_CONFLICT, ⟨0, 0⟩⟩ 15
      ((agent_find_stream ex_agent_renominated 1).getD default)
      { ex_pair_in_progress with priority := 9200000000000000000 } 0 ex_transaction
      (by decide) (by decide) (by decide) (by decide)
      (by decide) (by decide)).2.2.2.1 (by decide)).1⟩

/-- C10 (counterexample): the controlled example agent holds the sorted list [12, 11, 14], pair
12 with its check, sent as controlling, in progress.  A renomination request raises the
priority of pair 14 above that of pair 11 where the pair stands.  The 487 reply to the request
of pair 12 then meets every condition of the claim (retransmit set, request without
ICE-CONTROLLED, pair InProgress); after `priv_map_reply_to_conn_check_request` the agent is
controlled, the transaction is gone and the pair is queued, but no priority has been
recomputed and the list is not sorted. -/
theorem role_conflict_reply_to_controlled_agent_sorts_nothing :
    conncheck_sorted (stream_pairs ex_agent_renomination_in_flight 1) ∧
    ex_agent_renominated.controlling_mode = false ∧
    (find_matching_request 7012 (stream_pairs ex_agent_renominated 1)).map
      (fun r => (r.1.ptr, r.1.state, r.1.retransmit, r.2.2.message.ice_controlling,
        r.2.2.message.ice_controlled)) =
      some (12, NICE_CHECK_IN_PROGRESS, true, true, false) ∧
    (priv_map_reply_to_conn_check_request ext0 ex_agent_renominated 1 1 ex_sock ex_remote.addr
      (some ex_local) (some ex_remote)
      ⟨7012, STUN_USAGE_ICE_RETURN_ROLE_CONFLICT, ⟨0, 0⟩⟩ 15).2.controlling_mode = false ∧
    (priv_map_reply_to_conn_check_request ext0 ex_agent_renominated 1 1 ex_sock ex_remote.addr
      (some ex_local) (some ex_remote)
      ⟨7012, STUN_USAGE_ICE_RETURN_ROLE_CONFLICT, ⟨0, 0⟩⟩ 15).2.triggered_check_queue = [12] ∧
    (stream_pairs (priv_map_reply_to_conn_check_request ext0 ex_agent_renominated 1 1 ex_sock
      ex_remote.addr (some ex_local) (some ex_remote)
      ⟨7012, STUN_USAGE_ICE_RETURN_ROLE_CONFLICT, ⟨0, 0⟩⟩ 15).2 1).map
      (fun q => (q.ptr, q.state, q.priority, q.stun_transactions.length)) =
      [(12, NICE_CHECK_IN_PROGRESS, 9200000000000000000, 0),
       (11, NICE_CHECK_SUCCEEDED, 9115005265987371519, 0),
       (14, NICE_CHECK_SUCCEEDED, 9115005265987371520, 0)] ∧
    ¬ conncheck_sorted (stream_pairs (priv_map_reply_to_conn_check_request ext0
      ex_agent_renominated 1 1 ex_sock ex_remote.addr (some ex_local) (some ex_remote)
      ⟨7012, STUN_USAGE_ICE_RETURN_ROLE_CONFLICT, ⟨0, 0⟩⟩ 15).2 1) := by
  refine ⟨by decide, by decide, by decide, by decide, by decide, by decide, by decide⟩

/-! ## Pacing: what each step of the tick sends -/

theorem updatePair_frame (agent : NiceAgent) (p : Nat)
    (f : CandidateCheckPair → CandidateCheckPair) :
    (agent.updatePair p f).sent = agent.sent ∧
    (agent.updatePair p f).compatibility = agent.compatibility := ⟨rfl, rfl⟩

theorem agent_signal_component_state_change_frame (agent : NiceAgent)
    (stream_id component_id : Nat) (st : NiceComponentState) :
    (agent_signal_component_state_change agent stream_id component_id st).sent = agent.sent ∧
    (agent_signal_component_state_change agent stream_id component_id st).compatibility =
      agent.compatibility := by
  unfold agent_signal_component_state_change
  split
  · exact ⟨rfl, rfl⟩
  · split_ifs
    · exact ⟨rfl, rfl⟩
    · exact ⟨rfl, rfl⟩

theorem priv_prune_pending_checks_frame (agent : NiceAgent) (stream_id component_id : Nat) :
    (priv_prune_pending_checks agent stream_id component_id).2.sent = agent.sent ∧
    (priv_prune_pending_checks agent stream_id component_id).2.compatibility =
      agent.compatibility := by
  unfold priv_prune_pending_checks
  split
  · exact ⟨rfl, rfl⟩
  · exact ⟨rfl, rfl⟩

theorem conn_check_update_check_list_state_for_ready_frame (agent : NiceAgent)
    (stream_id component_id : Nat) :
    (conn_check_update_check_list_state_for_ready agent stream_id component_id).sent =
      agent.sent ∧
    (conn_check_update_check_list_state_for_ready agent stream_id component_id).compatibility =
      agent.compatibility := by
  unfold conn_check_update_check_list_state_for_ready
  split
  · exact ⟨rfl, rfl⟩
  · simp only
    have hp := priv_prune_pending_checks_frame agent stream_id component_id
    split_ifs <;>
      simp only [(agent_signal_component_state_change_frame _ _ _ _).1,
        (agent_signal_component_state_change_frame _ _ _ _).2, hp.1, hp.2, and_self]

theorem priv_conn_check_unfreeze_next_frame (agent : NiceAgent) :
    (priv_conn_check_unfreeze_next agent).2.sent = agent.sent ∧
    (priv_conn_check_unfreeze_next agent).2.compatibility = agent.compatibility := by
  unfold priv_conn_check_unfreeze_next
  split_ifs <;> exact ⟨rfl, rfl⟩

theorem conn_check_send_nominate_frame (agent : NiceAgent) (pair : Nat) (cand_use : Bool) :
    (conn_check_send_nominate agent pair cand_use).sent = agent.sent ∧
    (conn_check_send_nominate agent pair cand_use).compatibility = agent.compatibility := by
  unfold conn_check_send_nominate
  split_ifs <;> exact ⟨rfl, rfl⟩

theorem conn_check_send_request_sends (E : Ext) (now : Int) (agent : NiceAgent) (pair : Nat)
    (pr : CandidateCheckPair) (cand_use : Bool)
    (hc : agent.compatibility = NICE_COMPATIBILITY_RFC5245) :
    (conn_check_send_request E now agent pair pr cand_use).2.compatibility =
      NICE_COMPATIBILITY_RFC5245 ∧
    ((conn_check_send_request E now agent pair pr cand_use).1 = 0 →
      (conn_check_send_request E now agent pair pr cand_use).2.sent.length =
        agent.sent.length + 1) ∧
    ((conn_check_send_request E now agent pair pr cand_use).1 ≠ 0 →
      (conn_check_send_request E now agent pair pr cand_use).2.sent = agent.sent) := by
  unfold conn_check_send_request
  simp only
  by_cases h1 : (stun_usage_ice_conncheck_create E agent pr cand_use
      agent.controlling_mode).length = 0
  · rw [if_pos h1]; exact ⟨hc, by simp, fun _ => rfl⟩
  · rw [if_neg h1]
    have h2 : ¬ (agent.compatibility = NICE_COMPATIBILITY_OC2007R2 ∧
        E.ms_ice2_legacy_conncheck_resends (stun_usage_ice_conncheck_create E agent pr cand_use
          agent.controlling_mode) = true) := by
      rw [hc]; simp
    rw [if_neg h2]
    exact ⟨hc, fun _ => by simp [agent_socket_send, NiceAgent.updatePair],
      fun h => absurd rfl h⟩

theorem conn_check_send_sends (E : Ext) (now : Int) (agent : NiceAgent) (pair : Nat)
    (hc : agent.compatibility = NICE_COMPATIBILITY_RFC5245) :
    (conn_check_send E now agent pair).2.compatibility = NICE_COMPATIBILITY_RFC5245 ∧
    ((conn_check_send E now agent pair).1 = 0 →
      (conn_check_send E now agent pair).2.sent.length = agent.sent.length + 1) ∧
    ((conn_check_send E now agent pair).1 ≠ 0 →
      (conn_check_send E now agent pair).2.sent = agent.sent) := by
  unfold conn_check_send
  split
  · exact ⟨hc, by simp, fun _ => rfl⟩
  · split
    · exact ⟨hc, by simp, fun _ => rfl⟩
    · rename_i pr _ _ stream _ _
      simp only
      have hn := conn_check_send_nominate_frame agent pair (conn_check_send_cand_use agent pr)
      split_ifs
      · exact ⟨by rw [hn.2, hc], by simp, fun _ => hn.1⟩
      · have h := conn_check_send_request_sends E now
          (conn_check_send_nominate agent pair (conn_check_send_cand_use agent pr)) pair pr
          (conn_check_send_cand_use agent pr) (by rw [hn.2, hc])
        rw [hn.1] at h
        exact h

theorem priv_conn_check_initiate_sends (E : Ext) (now : Int) (agent : NiceAgent) (pair : Nat)
    (hc : agent.compatibility = NICE_COMPATIBILITY_RFC5245) :
    (priv_conn_check_initiate E now agent pair).2.compatibility = NICE_COMPATIBILITY_RFC5245 ∧
    ((priv_conn_check_initiate E now agent pair).1 = true →
      (priv_conn_check_initiate E now agent pair).2.sent.length = agent.sent.length + 1) ∧
    ((priv_conn_check_initiate E now agent pair).1 = false →
      (priv_conn_check_initiate E now agent pair).2.sent = agent.sent) := by
  have h := conn_check_send_sends E now (SET_PAIR_STATE agent pair NICE_CHECK_IN_PROGRESS) pair hc
  unfold priv_conn_check_initiate
  simp only
  split_ifs with h0
  · exact ⟨h.1, by simp, fun _ => h.2.2 h0⟩
  · exact ⟨h.1, fun _ => h.2.1 (by simpa using h0), by simp⟩

theorem priv_conn_check_tick_stream_loop_sends (E : Ext) (now : Int) (stream_id : Nat)
    (ptrs : List Nat) (agent : NiceAgent) :
    (priv_conn_check_tick_stream_loop E now stream_id ptrs agent).2.compatibility =
      agent.compatibility ∧
    ((priv_conn_check_tick_stream_loop E now stream_id ptrs agent).1 = true →
      (priv_conn_check_tick_stream_loop E now stream_id ptrs agent).2.sent.length =
        agent.sent.length + 1) ∧
    ((priv_conn_check_tick_stream_loop E now stream_id ptrs agent).1 = false →
      (priv_conn_check_tick_stream_loop E now stream_id ptrs agent).2.sent = agent.sent) := by
  induction ptrs generalizing agent with
  | nil => exact ⟨rfl, by simp [priv_conn_check_tick_stream_loop], fun _ => rfl⟩
  | cons ptr rest ih =>
    unfold priv_conn_check_tick_stream_loop
    split
    · exact ih agent
    · split_ifs with h1
      · exact ih agent
      · split
        · exact ih agent
        · simp only
          split
          · refine ⟨rfl, fun _ => ?_, by simp⟩
            simp [agent_socket_send, NiceAgent.updatePair]
          · split_ifs with h2
            · refine ⟨?_, fun h => ?_, fun h => ?_⟩
              · rw [(ih _).1, (conn_check_update_check_list_state_for_ready_frame _ _ _).2]
                rfl
              · rw [(ih _).2.1 h, (conn_check_update_check_list_state_for_ready_frame _ _ _).1]
                rfl
              · rw [(ih _).2.2 h, (conn_check_update_check_list_state_for_ready_frame _ _ _).1]
                rfl
            · exact ih _

theorem priv_conn_check_tick_stream_sends (E : Ext) (now : Int) (agent : NiceAgent)
    (stream_id : Nat) (hc : agent.compatibility = NICE_COMPATIBILITY_RFC5245) :
    (priv_conn_check_tick_stream E now agent stream_id).2.compatibility =
      NICE_COMPATIBILITY_RFC5245 ∧
    ((priv_conn_check_tick_stream E now agent stream_id).1 = true →
      (priv_conn_check_tick_stream E now agent stream_id).2.sent.length =
        agent.sent.length + 1) ∧
    ((priv_conn_check_tick_stream E now agent stream_id).1 = false →
      (priv_conn_check_tick_stream E now agent stream_id).2.sent = agent.sent) := by
  unfold priv_conn_check_tick_stream
  split
  · exact ⟨hc, by simp, fun _ => rfl⟩
  · have h := priv_conn_check_tick_stream_loop_sends E now stream_id
      ((‹NiceStream›).conncheck_list.map (fun p => p.ptr)) agent
    rw [hc] at h
    exact h

theorem priv_conn_check_triggered_check_sends (E : Ext) (now : Int) (agent : NiceAgent)
    (hc : agent.compatibility = NICE_COMPATIBILITY_RFC5245) :
    (priv_conn_check_triggered_check E now agent).2.compatibility =
      NICE_COMPATIBILITY_RFC5245 ∧
    ((priv_conn_check_triggered_check E now agent).1 = true →
      (priv_conn_check_triggered_check E now agent).2.sent.length = agent.sent.length + 1) ∧
    ((priv_conn_check_triggered_check E now agent).1 = false →
      (priv_conn_check_triggered_check E now agent).2.sent = agent.sent) := by
  unfold priv_conn_check_triggered_check priv_get_pair_from_triggered_check_queue
  cases hq : agent.triggered_check_queue with
  | nil => exact ⟨hc, by simp, fun _ => rfl⟩
  | cons x xs =>
    exact priv_conn_check_initiate_sends E now
      (priv_remove_pair_from_triggered_check_queue agent x) x hc

theorem priv_conn_check_ordinary_check_sends (E : Ext) (now : Int) (agent : NiceAgent)
    (stream_id : Nat) (hc : agent.compatibility = NICE_COMPATIBILITY_RFC5245) :
    (priv_conn_check_ordinary_check E now agent stream_id).2.compatibility =
      NICE_COMPATIBILITY_RFC5245 ∧
    ((priv_conn_check_ordinary_check E now agent stream_id).1 = true →
      (priv_conn_check_ordinary_check E now agent stream_id).2.sent.length =
        agent.sent.length + 1) ∧
    ((priv_conn_check_ordinary_check E now agent stream_id).1 = false →
      (priv_conn_check_ordinary_check E now agent stream_id).2.sent = agent.sent) := by
  have hu := priv_conn_check_unfreeze_next_frame agent
  unfold priv_conn_check_ordinary_check
  cases find_next_waiting_of agent stream_id with
  | some pair => exact priv_conn_check_initiate_sends E now agent _ hc
  | none =>
    simp only
    cases find_next_waiting_of (priv_conn_check_unfreeze_next agent).2 stream_id with
    | some pair =>
      have h := priv_conn_check_initiate_sends E now (priv_conn_check_unfreeze_next agent).2
        pair.ptr (by rw [hu.2, hc])
      rw [hu.1] at h
      exact h
    | none => exact ⟨by rw [hu.2, hc], by simp, fun _ => hu.1⟩

theorem tick_streams_until_sent_sends (step : NiceAgent → Nat → Bool × NiceAgent) (n : Nat)
    (hstep : ∀ a sid, a.compatibility = NICE_COMPATIBILITY_RFC5245 → a.sent.length = n →
      (step a sid).2.compatibility = NICE_COMPATIBILITY_RFC5245 ∧
      ((step a sid).1 = true → (step a sid).2.sent.length = n + 1) ∧
      ((step a sid).1 = false → (step a sid).2.sent.length = n))
    (ids : List Nat) (stun_sent : Bool) (agent : NiceAgent)
    (hc : agent.compatibility = NICE_COMPATIBILITY_RFC5245)
    (h1 : stun_sent = true → agent.sent.length = n + 1)
    (h0 : stun_sent = false → agent.sent.length = n) :
    (tick_streams_until_sent step ids stun_sent agent).2.compatibility =
      NICE_COMPATIBILITY_RFC5245 ∧
    ((tick_streams_until_sent step ids stun_sent agent).1 = true →
      (tick_streams_until_sent step ids stun_sent agent).2.sent.length = n + 1) ∧
    ((tick_streams_until_sent step ids stun_sent agent).1 = false →
      (tick_streams_until_sent step ids stun_sent agent).2.sent.length = n) := by
  induction ids generalizing stun_sent agent with
  | nil => exact ⟨hc, h1, h0⟩
  | cons sid rest ih =>
    unfold tick_streams_until_sent
    split_ifs with hs
    · exact ⟨hc, h1, h0⟩
    · have hs' : stun_sent = false := by simpa using hs
      obtain ⟨k1, k2, k3⟩ := hstep agent sid hc (h0 hs')
      exact ih _ _ k1 k2 k3

theorem tick_streams_until_sent_stops (step : NiceAgent → Nat → Bool × NiceAgent)
    (ids : List Nat) (agent : NiceAgent) :
    tick_streams_until_sent step ids true agent = (true, agent) := by
  cases ids <;> simp [tick_streams_until_sent]

theorem priv_add_pair_to_triggered_check_queue_frame (agent : NiceAgent) (pair : Nat) :
    (priv_add_pair_to_triggered_check_queue agent pair).sent = agent.sent ∧
    (priv_add_pair_to_triggered_check_queue agent pair).compatibility = agent.compatibility := by
  unfold priv_add_pair_to_triggered_check_queue
  split_ifs <;> exact ⟨rfl, rfl⟩

theorem nominate_component_regular_frame (agent : NiceAgent) (stream_id : Nat)
    (other : Option CandidateCheckPair) (component_id : Nat) :
    (nominate_component_regular agent stream_id other component_id).2.sent = agent.sent ∧
    (nominate_component_regular agent stream_id other component_id).2.compatibility =
      agent.compatibility := by
  unfold nominate_component_regular
  simp only
  repeat' split
  all_goals first
    | exact ⟨rfl, rfl⟩
    | (simp only [(priv_add_pair_to_triggered_check_queue_frame _ _).1,
        (priv_add_pair_to_triggered_check_queue_frame _ _).2]
       exact ⟨rfl, rfl⟩)

theorem nominate_components_frame (step : NiceAgent → Nat → Bool × NiceAgent)
    (hstep : ∀ a cid, (step a cid).2.sent = a.sent ∧
      (step a cid).2.compatibility = a.compatibility)
    (ids : List Nat) (keep : Bool) (agent : NiceAgent) :
    (nominate_components step ids keep agent).2.sent = agent.sent ∧
    (nominate_components step ids keep agent).2.compatibility = agent.compatibility := by
  induction ids generalizing keep agent with
  | nil => exact ⟨rfl, rfl⟩
  | cons cid rest ih =>
    unfold nominate_components
    simp only
    rw [(ih _ _).1, (ih _ _).2]
    exact hstep agent cid

theorem priv_conn_check_tick_stream_nominate_frame (E : Ext) (agent : NiceAgent)
    (stream_id : Nat) (hc : agent.compatibility = NICE_COMPATIBILITY_RFC5245) :
    (priv_conn_check_tick_stream_nominate E agent stream_id).2.sent = agent.sent ∧
    (priv_conn_check_tick_stream_nominate E agent stream_id).2.compatibility =
      agent.compatibility := by
  have hrfc : NICE_AGENT_IS_COMPATIBLE_WITH_RFC5245_OR_OC2007R2 agent = true := by
    simp [NICE_AGENT_IS_COMPATIBLE_WITH_RFC5245_OR_OC2007R2, hc]
  unfold priv_conn_check_tick_stream_nominate
  split
  · exact ⟨rfl, rfl⟩
  · simp only [hrfc, if_true]
    have hn := fun ids keep => nominate_components_frame
      (fun a cid => nominate_component_regular a stream_id
        (nominate_other_stream_pair agent stream_id) cid)
      (fun a cid => nominate_component_regular_frame a stream_id _ cid) ids keep agent
    split_ifs
    · exact hn _ _
    · exact ⟨rfl, rfl⟩
    · exact ⟨rfl, rfl⟩

theorem priv_update_check_list_failed_components_loop_frame (stream_id : Nat) (cs : List Nat)
    (agent : NiceAgent) :
    (priv_update_check_list_failed_components_loop stream_id cs agent).sent = agent.sent ∧
    (priv_update_check_list_failed_components_loop stream_id cs agent).compatibility =
      agent.compatibility := by
  induction cs generalizing agent with
  | nil => exact ⟨rfl, rfl⟩
  | cons c cs ih =>
    unfold priv_update_check_list_failed_components_loop
    split
    · exact ih agent
    · simp only
      rw [(ih _).1, (ih _).2]
      split_ifs
      · exact agent_signal_component_state_change_frame _ _ _ _
      · exact ⟨rfl, rfl⟩

theorem priv_update_check_list_failed_components_frame (agent : NiceAgent) (stream_id : Nat) :
    (priv_update_check_list_failed_components agent stream_id).sent = agent.sent ∧
    (priv_update_check_list_failed_components agent stream_id).compatibility =
      agent.compatibility := by
  unfold priv_update_check_list_failed_components
  split
  · exact ⟨rfl, rfl⟩
  · split_ifs
    · exact ⟨rfl, rfl⟩
    · exact ⟨rfl, rfl⟩
    · exact ⟨rfl, rfl⟩
    · exact priv_update_check_list_failed_components_loop_frame _ _ _

theorem foldl_frame {β : Type} (f : NiceAgent → β → NiceAgent)
    (hf : ∀ a b, (f a b).sent = a.sent ∧ (f a b).compatibility = a.compatibility)
    (l : List β) (agent : NiceAgent) :
    (l.foldl f agent).sent = agent.sent ∧
    (l.foldl f agent).compatibility = agent.compatibility := by
  induction l generalizing agent with
  | nil => exact ⟨rfl, rfl⟩
  | cons b bs ih =>
    rw [List.foldl_cons, (ih _).1, (ih _).2]
    exact hf agent b

theorem tick_sweep_stream_frame (agent : NiceAgent) (stream_id : Nat) :
    (tick_sweep_stream agent stream_id).sent = agent.sent ∧
    (tick_sweep_stream agent stream_id).compatibility = agent.compatibility := by
  have h1 := priv_update_check_list_failed_components_frame agent stream_id
  unfold tick_sweep_stream
  simp only
  split
  · exact h1
  · have h2 := foldl_frame
      (fun a cid => conn_check_update_check_list_state_for_ready a stream_id cid)
      (fun a cid => conn_check_update_check_list_state_for_ready_frame a stream_id cid)
      ((‹NiceStream›).components.map (fun c => c.id))
      (priv_update_check_list_failed_components agent stream_id)
    rw [h2.1, h2.2]
    exact h1

theorem checks_send_at_most_one (E : Ext) (now : Int) (agent : NiceAgent)
    (hc : agent.compatibility = NICE_COMPATIBILITY_RFC5245) :
    (priv_conn_check_tick_agent_locked_checks E now agent).2.compatibility =
      NICE_COMPATIBILITY_RFC5245 ∧
    ((priv_conn_check_tick_agent_locked_checks E now agent).1 = true →
      (priv_conn_check_tick_agent_locked_checks E now agent).2.sent.length =
        agent.sent.length + 1) ∧
    ((priv_conn_check_tick_agent_locked_checks E now agent).1 = false →
      (priv_conn_check_tick_agent_locked_checks E now agent).2.sent.length =
        agent.sent.length) := by
  unfold priv_conn_check_tick_agent_locked_checks
  simp only
  have s1 := tick_streams_until_sent_sends
    (fun a _ => priv_conn_check_triggered_check E now a) agent.sent.length
    (fun a _ hca hn => by
      have h := priv_conn_check_triggered_check_sends E now a hca
      exact ⟨h.1, fun k => by rw [h.2.1 k, hn], fun k => by rw [h.2.2 k, hn]⟩)
    (agent.streams.map (fun s => s.id)) false agent hc (by simp) (fun _ => rfl)
  have s2 := tick_streams_until_sent_sends
    (fun a sid => priv_conn_check_tick_stream E now a sid) agent.sent.length
    (fun a sid hca hn => by
      have h := priv_conn_check_tick_stream_sends E now a sid hca
      exact ⟨h.1, fun k => by rw [h.2.1 k, hn], fun k => by rw [h.2.2 k, hn]⟩)
    (agent.streams.map (fun s => s.id)) _ _ s1.1 s1.2.1 s1.2.2
  exact tick_streams_until_sent_sends
    (fun a sid => priv_conn_check_ordinary_check E now a sid) agent.sent.length
    (fun a sid hca hn => by
      have h := priv_conn_check_ordinary_check_sends E now a sid hca
      exact ⟨h.1, fun k => by rw [h.2.1 k, hn], fun k => by rw [h.2.2 k, hn]⟩)
    (agent.streams.map (fun s => s.id)) _ _ s2.1 s2.2.1 s2.2.2

theorem tick_nominate_streams_frame (E : Ext) (ids : List Nat) (keep : Bool)
    (agent : NiceAgent) (hc : agent.compatibility = NICE_COMPATIBILITY_RFC5245) :
    (tick_nominate_streams E ids keep agent).2.sent = agent.sent ∧
    (tick_nominate_streams E ids keep agent).2.compatibility = NICE_COMPATIBILITY_RFC5245 := by
  induction ids generalizing keep agent with
  | nil => exact ⟨rfl, hc⟩
  | cons sid rest ih =>
    unfold tick_nominate_streams
    simp only
    have h := priv_conn_check_tick_stream_nominate_frame E agent sid hc
    have := ih (keep || (priv_conn_check_tick_stream_nominate E agent sid).1)
      (priv_conn_check_tick_stream_nominate E agent sid).2 (by rw [h.2, hc])
    rw [this.1, this.2]
    exact ⟨h.1, rfl⟩

theorem conn_check_stop_frame (agent : NiceAgent) :
    (conn_check_stop agent).sent = agent.sent := by
  unfold conn_check_stop
  split_ifs <;> rfl

theorem tick_idle_accounting_frame (agent : NiceAgent) (keep : Bool) (ids : List Nat) :
    (tick_idle_accounting agent keep ids).2.sent = agent.sent := by
  unfold tick_idle_accounting
  simp only
  split_ifs
  · rw [conn_check_stop_frame, (foldl_frame tick_sweep_stream tick_sweep_stream_frame _ _).1]
  · rfl
  · rw [conn_check_stop_frame, (foldl_frame tick_sweep_stream tick_sweep_stream_frame _ _).1]
  · rfl

/-- C8: in RFC 5245 compatibility, the triggered-check, transaction-advance and
ordinary-check steps of one call of `priv_conn_check_tick_agent_locked` hand at most one
message to `agent_socket_send`, exactly one when `stun_sent` ends up set and none otherwise;
a loop entered with `stun_sent` already set does nothing; and the rest of the call
(nomination, idle accounting, failure sweep) sends nothing more. -/
theorem tick_sends_at_most_one_request (E : Ext) (now : Int) (agent : NiceAgent)
    (hc : agent.compatibility = NICE_COMPATIBILITY_RFC5245) :
    (priv_conn_check_tick_agent_locked_checks E now agent).2.sent.length ≤
      agent.sent.length + 1 ∧
    ((priv_conn_check_tick_agent_locked_checks E now agent).1 = true →
      (priv_conn_check_tick_agent_locked_checks E now agent).2.sent.length =
        agent.sent.length + 1) ∧
    ((priv_conn_check_tick_agent_locked_checks E now agent).1 = false →
      (priv_conn_check_tick_agent_locked_checks E now agent).2.sent.length =
        agent.sent.length) ∧
    (∀ (step : NiceAgent → Nat → Bool × NiceAgent) (ids : List Nat) (a : NiceAgent),
      tick_streams_until_sent step ids true a = (true, a)) ∧
    (priv_conn_check_tick_agent_locked E now agent).2.sent =
      (priv_conn_check_tick_agent_locked_checks E now agent).2.sent := by
  obtain ⟨h1, h2, h3⟩ := checks_send_at_most_one E now agent hc
  refine ⟨?_, h2, h3, tick_streams_until_sent_stops, ?_⟩
  · cases hb : (priv_conn_check_tick_agent_locked_checks E now agent).1 with
    | true => rw [h2 hb]
    | false => rw [h3 hb]; omega
  · unfold priv_conn_check_tick_agent_locked
    simp only
    rw [tick_idle_accounting_frame, (tick_nominate_streams_frame E _ _ _ h1).1]

/-- C8 at the example agent: one tick sends the request of the Waiting pair 11. -/
theorem tick_sends_at_most_one_request_witness :
    (ex_agent NICE_COMPATIBILITY_RFC5245 ex_list []).compatibility =
      NICE_COMPATIBILITY_RFC5245 ∧
    (priv_conn_check_tick_agent_locked_checks ext0 0
      (ex_agent NICE_COMPATIBILITY_RFC5245 ex_list [])).2.sent.length ≤
      (ex_agent NICE_COMPATIBILITY_RFC5245 ex_list []).sent.length + 1 :=
  ⟨by decide,
    (tick_sends_at_most_one_request ext0 0 (ex_agent NICE_COMPATIBILITY_RFC5245 ex_list [])
      (by decide)).1⟩

/-! ## Properties of all pairs that the operations preserve -/

theorem AllPairs_updatePair (P : CandidateCheckPair → Prop) (agent : NiceAgent) (p : Nat)
    (f : CandidateCheckPair → CandidateCheckPair) (hf : ∀ q, P q → P (f q))
    (h : AllPairs P agent) : AllPairs P (agent.updatePair p f) := by
  intro q hq
  rw [allPairs_updatePair, List.mem_map] at hq
  obtain ⟨q0, hq0, rfl⟩ := hq
  split_ifs
  · exact hf q0 (h q0 hq0)
  · exact h q0 hq0

theorem AllPairs_updatePair_flags (P : CandidateCheckPair → Prop) (hP : FlagsOnly P)
    (agent : NiceAgent) (p : Nat) (f : CandidateCheckPair → CandidateCheckPair)
    (hf : ∀ q, (f q).ptr = q.ptr ∧ (f q).remote = q.remote ∧ (f q).valid = q.valid ∧
      (f q).nominated = q.nominated)
    (h : AllPairs P agent) : AllPairs P (agent.updatePair p f) :=
  AllPairs_updatePair P agent p f
    (fun q hq => hP q (f q) (hf q).1 (hf q).2.1 (hf q).2.2.1 (hf q).2.2.2 hq) h

theorem AllPairs_of_allPairs_eq (P : CandidateCheckPair → Prop) (a b : NiceAgent)
    (hab : b.allPairs = a.allPairs) (h : AllPairs P a) : AllPairs P b := by
  intro q hq
  rw [hab] at hq
  exact h q hq

theorem allPairs_updateStream_const (agent : NiceAgent) (stream_id : Nat)
    (l : List CandidateCheckPair) (q : CandidateCheckPair)
    (hq : q ∈ (agent.updateStream stream_id
      (fun s => { s with conncheck_list := l })).allPairs) :
    q ∈ agent.allPairs ∨ q ∈ l := by
  unfold NiceAgent.allPairs NiceAgent.updateStream at hq
  simp only [List.mem_flatMap, List.mem_map, exists_exists_and_eq_and] at hq
  obtain ⟨s, hs, hq⟩ := hq
  split_ifs at hq
  · exact Or.inr hq
  · left
    unfold NiceAgent.allPairs
    rw [List.mem_flatMap]
    exact ⟨s, hs, hq⟩

theorem AllPairs_updateStream_const (P : CandidateCheckPair → Prop) (agent : NiceAgent)
    (stream_id : Nat) (l : List CandidateCheckPair) (hl : ∀ q ∈ l, P q)
    (h : AllPairs P agent) :
    AllPairs P (agent.updateStream stream_id (fun s => { s with conncheck_list := l })) := by
  intro q hq
  rcases allPairs_updateStream_const agent stream_id l q hq with h1 | h1
  · exact h q h1
  · exact hl q h1

theorem mem_allPairs_of_stream (agent : NiceAgent) (s : NiceStream) (hs : s ∈ agent.streams)
    (q : CandidateCheckPair) (hq : q ∈ s.conncheck_list) : q ∈ agent.allPairs := by
  unfold NiceAgent.allPairs
  rw [List.mem_flatMap]
  exact ⟨s, hs, hq⟩

theorem allPairs_agent_signal_component_state_change (agent : NiceAgent)
    (stream_id component_id : Nat) (st : NiceComponentState) :
    (agent_signal_component_state_change agent stream_id component_id st).allPairs =
      agent.allPairs := by
  unfold agent_signal_component_state_change
  split
  · rfl
  · split_ifs
    · rfl
    · exact allPairs_updateComponent _ _ _ _

theorem allPairs_conn_check_update_selected_pair (E : Ext) (agent : NiceAgent)
    (stream_id component_id : Nat) (pair : CandidateCheckPair) :
    (conn_check_update_selected_pair E agent stream_id component_id pair).allPairs =
      agent.allPairs := by
  unfold conn_check_update_selected_pair
  split
  · rfl
  · split_ifs
    · exact allPairs_updateComponent _ _ _ _
    · rfl

theorem allPairs_priv_add_pair_to_triggered_check_queue (agent : NiceAgent) (pair : Nat) :
    (priv_add_pair_to_triggered_check_queue agent pair).allPairs = agent.allPairs := by
  unfold priv_add_pair_to_triggered_check_queue
  split_ifs <;> rfl

theorem priv_prune_pending_checks_loop_flags (component_id priority : Nat)
    (l : List CandidateCheckPair) (queue : List Nat) :
    ∀ q1 ∈ (priv_prune_pending_checks_loop component_id priority l queue).1,
      ∃ q ∈ l, q1.ptr = q.ptr ∧ q1.remote = q.remote ∧ q1.valid = q.valid ∧
        q1.nominated = q.nominated := by
  induction l generalizing queue with
  | nil => intro q1 hq1; simp [priv_prune_pending_checks_loop] at hq1
  | cons p ps ih =>
    intro q1 hq1
    unfold priv_prune_pending_checks_loop at hq1
    have lift : ∀ queue1, q1 ∈ (priv_prune_pending_checks_loop component_id priority ps
        queue1).1 → ∃ q ∈ p :: ps, q1.ptr = q.ptr ∧ q1.remote = q.remote ∧
          q1.valid = q.valid ∧ q1.nominated = q.nominated := by
      intro queue1 hm
      obtain ⟨q, hq, hh⟩ := ih queue1 q1 hm
      exact ⟨q, List.mem_cons_of_mem _ hq, hh⟩
    split_ifs at hq1
    all_goals first
      | exact lift _ hq1
      | (simp only [List.mem_cons] at hq1
         rcases hq1 with h0 | hq1
         · rw [h0]
           exact ⟨p, List.mem_cons_self _ _, rfl, rfl, rfl, rfl⟩
         · exact lift _ hq1)

theorem AllPairs_priv_prune_pending_checks (P : CandidateCheckPair → Prop) (hP : FlagsOnly P)
    (agent : NiceAgent) (stream_id component_id : Nat) (h : AllPairs P agent) :
    AllPairs P (priv_prune_pending_checks agent stream_id component_id).2 := by
  unfold priv_prune_pending_checks
  split
  · exact h
  · rename_i stream component hfc
    obtain ⟨_, hsmem, _, _, _⟩ := agent_find_component_some _ _ _ _ _ hfc
    simp only
    apply AllPairs_of_allPairs_eq P
      (agent.updateStream stream_id (fun s => { s with conncheck_list :=
        (priv_prune_pending_checks_loop component_id component.selected_pair.priority
          stream.conncheck_list agent.triggered_check_queue).1 })) _ rfl
    apply AllPairs_updateStream_const P _ _ _ _ h
    intro q1 hq1
    obtain ⟨q, hq, h1, h2, h3, h4⟩ := priv_prune_pending_checks_loop_flags _ _ _ _ q1 hq1
    exact hP q q1 h1 h2 h3 h4 (h q (mem_allPairs_of_stream agent stream hsmem q hq))

theorem AllPairs_agent_signal_component_state_change (P : CandidateCheckPair → Prop)
    (agent : NiceAgent) (stream_id component_id : Nat) (st : NiceComponentState)
    (h : AllPairs P agent) :
    AllPairs P (agent_signal_component_state_change agent stream_id component_id st) :=
  AllPairs_of_allPairs_eq P _ _ (allPairs_agent_signal_component_state_change _ _ _ _) h

theorem AllPairs_conn_check_update_check_list_state_for_ready (P : CandidateCheckPair → Prop)
    (hP : FlagsOnly P) (agent : NiceAgent) (stream_id component_id : Nat)
    (h : AllPairs P agent) :
    AllPairs P (conn_check_update_check_list_state_for_ready agent stream_id component_id) := by
  have hp := AllPairs_priv_prune_pending_checks P hP agent stream_id component_id h
  unfold conn_check_update_check_list_state_for_ready
  split
  · exact h
  · simp only
    split_ifs
    all_goals
      repeat (first
        | exact h
        | exact hp
        | apply AllPairs_agent_signal_component_state_change)

theorem Keeps.refl (P : CandidateCheckPair → Prop) (a : NiceAgent) : Keeps P a a :=
  ⟨rfl, id⟩

theorem Keeps.trans {P : CandidateCheckPair → Prop} {a b c : NiceAgent}
    (h1 : Keeps P a b) (h2 : Keeps P b c) : Keeps P a c :=
  ⟨h2.1.trans h1.1, fun h => h2.2 (h1.2 h)⟩

theorem Keeps_of_allPairs_eq (P : CandidateCheckPair → Prop) (a b : NiceAgent)
    (hc : b.compatibility = a.compatibility) (hab : b.allPairs = a.allPairs) : Keeps P a b :=
  ⟨hc, AllPairs_of_allPairs_eq P a b hab⟩

theorem Keeps_updatePair_flags (P : CandidateCheckPair → Prop) (hP : FlagsOnly P)
    (agent : NiceAgent) (p : Nat) (f : CandidateCheckPair → CandidateCheckPair)
    (hf : ∀ q, (f q).ptr = q.ptr ∧ (f q).remote = q.remote ∧ (f q).valid = q.valid ∧
      (f q).nominated = q.nominated) : Keeps P agent (agent.updatePair p f) :=
  ⟨rfl, AllPairs_updatePair_flags P hP agent p f hf⟩

theorem Keeps_SET_PAIR_STATE (P : CandidateCheckPair → Prop) (hP : FlagsOnly P)
    (agent : NiceAgent) (p : Nat) (s : NiceCheckState) :
    Keeps P agent (SET_PAIR_STATE agent p s) := by
  unfold SET_PAIR_STATE
  apply Keeps_updatePair_flags P hP
  intro q; exact ⟨rfl, rfl, rfl, rfl⟩

theorem Keeps_candidate_check_pair_fail (P : CandidateCheckPair → Prop) (hP : FlagsOnly P)
    (agent : NiceAgent) (p : Nat) : Keeps P agent (candidate_check_pair_fail agent p) := by
  unfold candidate_check_pair_fail
  apply Keeps_updatePair_flags P hP
  intro q; exact ⟨rfl, rfl, rfl, rfl⟩

theorem Keeps_agent_signal_component_state_change (P : CandidateCheckPair → Prop)
    (agent : NiceAgent) (stream_id component_id : Nat) (st : NiceComponentState) :
    Keeps P agent (agent_signal_component_state_change agent stream_id component_id st) :=
  Keeps_of_allPairs_eq P _ _ (agent_signal_component_state_change_frame _ _ _ _).2
    (allPairs_agent_signal_component_state_change _ _ _ _)

theorem Keeps_conn_check_update_check_list_state_for_ready (P : CandidateCheckPair → Prop)
    (hP : FlagsOnly P) (agent : NiceAgent) (stream_id component_id : Nat) :
    Keeps P agent (conn_check_update_check_list_state_for_ready agent stream_id component_id) :=
  ⟨(conn_check_update_check_list_state_for_ready_frame _ _ _).2,
    AllPairs_conn_check_update_check_list_state_for_ready P hP agent stream_id component_id⟩

theorem Keeps_priv_add_pair_to_triggered_check_queue (P : CandidateCheckPair → Prop)
    (agent : NiceAgent) (pair : Nat) :
    Keeps P agent (priv_add_pair_to_triggered_check_queue agent pair) :=
  Keeps_of_allPairs_eq P _ _ (priv_add_pair_to_triggered_check_queue_frame _ _).2
    (allPairs_priv_add_pair_to_triggered_check_queue _ _)

theorem Keeps_conn_check_update_selected_pair (E : Ext) (P : CandidateCheckPair → Prop)
    (agent : NiceAgent) (stream_id component_id : Nat) (pair : CandidateCheckPair) :
    Keeps P agent (conn_check_update_selected_pair E agent stream_id component_id pair) := by
  refine Keeps_of_allPairs_eq P _ _ ?_ (allPairs_conn_check_update_selected_pair _ _ _ _ _)
  unfold conn_check_update_selected_pair
  split
  · rfl
  · split_ifs <;> rfl

theorem Keeps_agent_socket_send (P : CandidateCheckPair → Prop) (agent : NiceAgent)
    (sock : NiceSocket) (dest : NiceAddress) (len : Nat) :
    Keeps P agent (agent_socket_send agent sock dest len) :=
  ⟨rfl, fun h => h⟩

theorem Keeps_agent_socket_send_right (P : CandidateCheckPair → Prop) (a b : NiceAgent)
    (sock : NiceSocket) (dest : NiceAddress) (len : Nat) (h : Keeps P a b) :
    Keeps P a (agent_socket_send b sock dest len) :=
  Keeps.trans h (Keeps_agent_socket_send P b sock dest len)

theorem Keeps_conn_check_send_nominate (P : CandidateCheckPair → Prop) (agent : NiceAgent)
    (pair : Nat) (pr : CandidateCheckPair)
    (hN : NominationSafe (NICE_AGENT_IS_COMPATIBLE_WITH_RFC5245_OR_OC2007R2 agent) P) :
    Keeps P agent (conn_check_send_nominate agent pair (conn_check_send_cand_use agent pr)) := by
  unfold conn_check_send_nominate conn_check_send_cand_use
  by_cases hr : NICE_AGENT_IS_COMPATIBLE_WITH_RFC5245_OR_OC2007R2 agent = true
  · rw [if_pos hr]; exact Keeps.refl P agent
  · rw [if_neg hr, if_neg hr]
    by_cases hcm : agent.controlling_mode = true
    · rw [if_pos hcm, hcm]
      refine ⟨rfl, AllPairs_updatePair P agent pair _ (fun q hq => ?_)⟩
      exact hN q hq (Or.inl (by simpa using hr))
    · rw [if_neg hcm]; exact Keeps.refl P agent

theorem Keeps_conn_check_send_request (E : Ext) (now : Int) (P : CandidateCheckPair → Prop)
    (hP : FlagsOnly P) (agent : NiceAgent) (pair : Nat) (pr : CandidateCheckPair)
    (cand_use : Bool) :
    Keeps P agent (conn_check_send_request E now agent pair pr cand_use).2 := by
  have k2 : Keeps P agent (agent.updatePair pair priv_add_stun_transaction) :=
    Keeps_updatePair_flags P hP _ pair priv_add_stun_transaction
      (fun q => ⟨rfl, rfl, rfl, rfl⟩)
  unfold conn_check_send_request
  simp only
  split_ifs
  all_goals
    refine Keeps.trans k2 ?_
    repeat apply Keeps_agent_socket_send_right
    apply Keeps_updatePair_flags P hP
    intro q; exact ⟨rfl, rfl, rfl, rfl⟩

theorem Keeps_conn_check_send (E : Ext) (now : Int) (P : CandidateCheckPair → Prop)
    (hP : FlagsOnly P) (agent : NiceAgent) (pair : Nat)
    (hN : NominationSafe (NICE_AGENT_IS_COMPATIBLE_WITH_RFC5245_OR_OC2007R2 agent) P) :
    Keeps P agent (conn_check_send E now agent pair).2 := by
  unfold conn_check_send
  split
  · exact Keeps.refl P agent
  · split
    · exact Keeps.refl P agent
    · rename_i pr _ _ stream _ _
      simp only
      have k1 := Keeps_conn_check_send_nominate P agent pair pr hN
      split_ifs
      · exact k1
      · exact Keeps.trans k1 (Keeps_conn_check_send_request E now P hP _ pair pr _)

theorem rfc_of_compatibility (a b : NiceAgent) (h : b.compatibility = a.compatibility) :
    NICE_AGENT_IS_COMPATIBLE_WITH_RFC5245_OR_OC2007R2 b =
      NICE_AGENT_IS_COMPATIBLE_WITH_RFC5245_OR_OC2007R2 a := by
  unfold NICE_AGENT_IS_COMPATIBLE_WITH_RFC5245_OR_OC2007R2
  rw [h]

theorem Keeps_priv_conn_check_initiate (E : Ext) (now : Int) (P : CandidateCheckPair → Prop)
    (hP : FlagsOnly P) (agent : NiceAgent) (pair : Nat)
    (hN : NominationSafe (NICE_AGENT_IS_COMPATIBLE_WITH_RFC5245_OR_OC2007R2 agent) P) :
    Keeps P agent (priv_conn_check_initiate E now agent pair).2 := by
  have k0 := Keeps_SET_PAIR_STATE P hP agent pair NICE_CHECK_IN_PROGRESS
  have k1 := Keeps_conn_check_send E now P hP
    (SET_PAIR_STATE agent pair NICE_CHECK_IN_PROGRESS) pair
    (by rw [rfc_of_compatibility _ _ k0.1]; exact hN)
  unfold priv_conn_check_initiate
  simp only
  split_ifs
  · exact Keeps.trans k0 (Keeps.trans k1 (Keeps_SET_PAIR_STATE P hP _ pair NICE_CHECK_FAILED))
  · exact Keeps.trans k0 k1

theorem priv_conn_check_tick_stream_transactions_flags (E : Ext) (now : Int)
    (l : List StunTransaction) (p : CandidateCheckPair) (pos index remaining : Nat) :
    (priv_conn_check_tick_stream_transactions E now l p pos index remaining).pair.ptr = p.ptr ∧
    (priv_conn_check_tick_stream_transactions E now l p pos index remaining).pair.remote =
      p.remote ∧
    (priv_conn_check_tick_stream_transactions E now l p pos index remaining).pair.valid =
      p.valid ∧
    (priv_conn_check_tick_stream_transactions E now l p pos index remaining).pair.nominated =
      p.nominated := by
  induction l generalizing p pos index remaining with
  | nil => exact ⟨rfl, rfl, rfl, rfl⟩
  | cons stun rest ih =>
    unfold priv_conn_check_tick_stream_transactions
    simp only
    repeat' split
    all_goals first
      | exact ih _ _ _ _
      | exact ⟨rfl, rfl, rfl, rfl⟩

theorem Keeps_priv_conn_check_tick_stream_loop (E : Ext) (now : Int)
    (P : CandidateCheckPair → Prop) (hP : FlagsOnly P) (stream_id : Nat) (ptrs : List Nat)
    (agent : NiceAgent) :
    Keeps P agent (priv_conn_check_tick_stream_loop E now stream_id ptrs agent).2 := by
  induction ptrs generalizing agent with
  | nil => exact Keeps.refl P agent
  | cons ptr rest ih =>
    unfold priv_conn_check_tick_stream_loop
    split
    · exact ih agent
    · rename_i p hfind
      split_ifs
      · exact ih agent
      · split
        · exact ih agent
        · simp only
          have hpmem : p ∈ agent.allPairs := by
            cases hs : agent_find_stream agent stream_id with
            | none => simp [hs] at hfind
            | some s =>
              simp only [hs, Option.bind_some] at hfind
              exact mem_allPairs_of_stream agent s (agent_find_stream_some _ _ _ hs).1 p
                (List.mem_of_find?_eq_some hfind)
          have kw : Keeps P agent (agent.updatePair ptr (fun _ =>
              (priv_conn_check_tick_stream_transactions E now p.stun_transactions p 0 0
                0).pair)) := by
            refine ⟨rfl, fun h => AllPairs_updatePair P agent ptr _ (fun q _ => ?_) h⟩
            have hf := priv_conn_check_tick_stream_transactions_flags E now
              p.stun_transactions p 0 0 0
            exact hP p _ hf.1 hf.2.1 hf.2.2.1 hf.2.2.2 (h p hpmem)
          split
          · exact Keeps_agent_socket_send_right P _ _ _ _ _ kw
          · split_ifs
            · exact Keeps.trans kw (Keeps.trans (Keeps_candidate_check_pair_fail P hP _ ptr)
                (Keeps.trans
                  (Keeps_conn_check_update_check_list_state_for_ready P hP _ stream_id _)
                  (ih _)))
            · exact Keeps.trans kw (ih _)

theorem priv_conn_check_unfreeze_next_list_flags (l : List CandidateCheckPair)
    (fl : List String) :
    ∀ q1 ∈ (priv_conn_check_unfreeze_next_list l fl).1,
      ∃ q ∈ l, q1.ptr = q.ptr ∧ q1.remote = q.remote ∧ q1.valid = q.valid ∧
        q1.nominated = q.nominated := by
  induction l generalizing fl with
  | nil => intro q1 hq1; simp [priv_conn_check_unfreeze_next_list] at hq1
  | cons p ps ih =>
    intro q1 hq1
    unfold priv_conn_check_unfreeze_next_list at hq1
    split_ifs at hq1
    all_goals
      simp only [List.mem_cons] at hq1
      rcases hq1 with h0 | hq1
      · rw [h0]; exact ⟨p, List.mem_cons_self _ _, rfl, rfl, rfl, rfl⟩
      · obtain ⟨q, hq, hh⟩ := ih _ q1 hq1
        exact ⟨q, List.mem_cons_of_mem _ hq, hh⟩

theorem priv_conn_check_unfreeze_next_streams_flags (ss : List NiceStream)
    (fl : List String) :
    ∀ s1 ∈ (priv_conn_check_unfreeze_next_streams ss fl).1, ∀ q1 ∈ s1.conncheck_list,
      ∃ s ∈ ss, ∃ q ∈ s.conncheck_list, q1.ptr = q.ptr ∧ q1.remote = q.remote ∧
        q1.valid = q.valid ∧ q1.nominated = q.nominated := by
  induction ss generalizing fl with
  | nil => intro s1 hs1; simp [priv_conn_check_unfreeze_next_streams] at hs1
  | cons s ss ih =>
    intro s1 hs1 q1 hq1
    unfold priv_conn_check_unfreeze_next_streams at hs1
    simp only [List.mem_cons] at hs1
    rcases hs1 with h0 | hs1
    · rw [h0] at hq1
      obtain ⟨q, hq, hh⟩ := priv_conn_check_unfreeze_next_list_flags _ _ q1 hq1
      exact ⟨s, List.mem_cons_self _ _, q, hq, hh⟩
    · obtain ⟨s0, hs0, q, hq, hh⟩ := ih _ s1 hs1 q1 hq1
      exact ⟨s0, List.mem_cons_of_mem _ hs0, q, hq, hh⟩

theorem Keeps_priv_conn_check_unfreeze_next (P : CandidateCheckPair → Prop)
    (hP : FlagsOnly P) (agent : NiceAgent) :
    Keeps P agent (priv_conn_check_unfreeze_next agent).2 := by
  refine ⟨(priv_conn_check_unfreeze_next_frame agent).2, fun h => ?_⟩
  unfold priv_conn_check_unfreeze_next
  split_ifs
  · exact h
  · intro q1 hq1
    unfold NiceAgent.allPairs at hq1
    simp only [List.mem_flatMap] at hq1
    obtain ⟨s1, hs1, hq1⟩ := hq1
    obtain ⟨s, hs, q, hq, h1, h2, h3, h4⟩ :=
      priv_conn_check_unfreeze_next_streams_flags _ _ s1 hs1 q1 hq1
    exact hP q q1 h1 h2 h3 h4 (h q (mem_allPairs_of_stream agent s hs q hq))

theorem Keeps_priv_conn_check_triggered_check (E : Ext) (now : Int)
    (P : CandidateCheckPair → Prop) (hP : FlagsOnly P) (agent : NiceAgent)
    (hN : NominationSafe (NICE_AGENT_IS_COMPATIBLE_WITH_RFC5245_OR_OC2007R2 agent) P) :
    Keeps P agent (priv_conn_check_triggered_check E now agent).2 := by
  unfold priv_conn_check_triggered_check priv_get_pair_from_triggered_check_queue
  cases agent.triggered_check_queue with
  | nil => exact Keeps.refl P agent
  | cons x xs =>
    have k0 : Keeps P agent (priv_remove_pair_from_triggered_check_queue agent x) :=
      ⟨rfl, fun h => h⟩
    exact Keeps.trans k0 (Keeps_priv_conn_check_initiate E now P hP _ x hN)

theorem Keeps_priv_conn_check_ordinary_check (E : Ext) (now : Int)
    (P : CandidateCheckPair → Prop) (hP : FlagsOnly P) (agent : NiceAgent) (stream_id : Nat)
    (hN : NominationSafe (NICE_AGENT_IS_COMPATIBLE_WITH_RFC5245_OR_OC2007R2 agent) P) :
    Keeps P agent (priv_conn_check_ordinary_check E now agent stream_id).2 := by
  have ku := Keeps_priv_conn_check_unfreeze_next P hP agent
  unfold priv_conn_check_ordinary_check
  cases find_next_waiting_of agent stream_id with
  | some pair => exact Keeps_priv_conn_check_initiate E now P hP agent _ hN
  | none =>
    simp only
    cases find_next_waiting_of (priv_conn_check_unfreeze_next agent).2 stream_id with
    | some pair =>
      exact Keeps.trans ku (Keeps_priv_conn_check_initiate E now P hP _ _
        (by rw [rfc_of_compatibility _ _ ku.1]; exact hN))
    | none => exact ku

theorem Keeps_priv_conn_check_tick_stream (E : Ext) (now : Int)
    (P : CandidateCheckPair → Prop) (hP : FlagsOnly P) (agent : NiceAgent) (stream_id : Nat) :
    Keeps P agent (priv_conn_check_tick_stream E now agent stream_id).2 := by
  unfold priv_conn_check_tick_stream
  split
  · exact Keeps.refl P agent
  · exact Keeps_priv_conn_check_tick_stream_loop E now P hP _ _ _

theorem Keeps_loop (P : CandidateCheckPair → Prop) (rfc : Bool)
    (step : NiceAgent → Nat → Bool × NiceAgent)
    (hstep : ∀ a sid, NICE_AGENT_IS_COMPATIBLE_WITH_RFC5245_OR_OC2007R2 a = rfc →
      Keeps P a (step a sid).2)
    (ids : List Nat) (flag : Bool) (agent : NiceAgent)
    (hr : NICE_AGENT_IS_COMPATIBLE_WITH_RFC5245_OR_OC2007R2 agent = rfc) :
    Keeps P agent (tick_streams_until_sent step ids flag agent).2 := by
  induction ids generalizing flag agent with
  | nil => exact Keeps.refl P agent
  | cons sid rest ih =>
    unfold tick_streams_until_sent
    split_ifs
    · exact Keeps.refl P agent
    · have k := hstep agent sid hr
      exact Keeps.trans k (ih _ _ (by rw [rfc_of_compatibility _ _ k.1]; exact hr))

theorem Keeps_priv_conn_check_tick_agent_locked_checks (E : Ext) (now : Int)
    (P : CandidateCheckPair → Prop) (hP : FlagsOnly P) (agent : NiceAgent)
    (hN : NominationSafe (NICE_AGENT_IS_COMPATIBLE_WITH_RFC5245_OR_OC2007R2 agent) P) :
    Keeps P agent (priv_conn_check_tick_agent_locked_checks E now agent).2 := by
  unfold priv_conn_check_tick_agent_locked_checks
  simp only
  have k1 := Keeps_loop P (NICE_AGENT_IS_COMPATIBLE_WITH_RFC5245_OR_OC2007R2 agent)
    (fun a _ => priv_conn_check_triggered_check E now a)
    (fun a _ hr => Keeps_priv_conn_check_triggered_check E now P hP a (by rw [hr]; exact hN))
    (agent.streams.map (fun s => s.id)) false agent rfl
  have k2 := fun flag a hr => Keeps_loop P (NICE_AGENT_IS_COMPATIBLE_WITH_RFC5245_OR_OC2007R2 agent)
    (fun a sid => priv_conn_check_tick_stream E now a sid)
    (fun a sid _ => Keeps_priv_conn_check_tick_stream E now P hP a sid)
    (agent.streams.map (fun s => s.id)) flag a hr
  have k3 := fun flag a hr => Keeps_loop P (NICE_AGENT_IS_COMPATIBLE_WITH_RFC5245_OR_OC2007R2 agent)
    (fun a sid => priv_conn_check_ordinary_check E now a sid)
    (fun a sid hr =>
      Keeps_priv_conn_check_ordinary_check E now P hP a sid (by rw [hr]; exact hN))
    (agent.streams.map (fun s => s.id)) flag a hr
  have h1 := rfc_of_compatibility _ _ k1.1
  have k12 := Keeps.trans k1 (k2 (tick_streams_until_sent
    (fun a _ => priv_conn_check_triggered_check E now a)
    (agent.streams.map (fun s => s.id)) false agent).1 _ h1)
  exact Keeps.trans k12 (k3 _ _ (rfc_of_compatibility _ _ k12.1))

theorem Keeps_updatePair_nominated (P : CandidateCheckPair → Prop) (agent : NiceAgent)
    (p : Nat) (hN : NominationSafe false P) :
    Keeps P agent (agent.updatePair p (fun q => { q with nominated := true })) :=
  ⟨rfl, fun h => AllPairs_updatePair P agent p _ (fun q hq => hN q hq (Or.inl rfl)) h⟩

theorem Keeps_nominate_component_regular (P : CandidateCheckPair → Prop) (hP : FlagsOnly P)
    (agent : NiceAgent) (stream_id : Nat) (other : Option CandidateCheckPair)
    (component_id : Nat) :
    Keeps P agent (nominate_component_regular agent stream_id other component_id).2 := by
  unfold nominate_component_regular
  simp only
  repeat' split
  all_goals first
    | exact Keeps.refl P agent
    | (refine Keeps.trans ?_ (Keeps_priv_add_pair_to_triggered_check_queue P _ _)
       exact Keeps_updatePair_flags P hP agent _ _ (fun _ => ⟨rfl, rfl, rfl, rfl⟩))

theorem Keeps_nominate_component_legacy (E : Ext) (P : CandidateCheckPair → Prop)
    (agent : NiceAgent) (stream_id component_id : Nat) (hN : NominationSafe false P) :
    Keeps P agent (nominate_component_legacy E agent stream_id component_id).2 := by
  unfold nominate_component_legacy
  repeat' split
  all_goals first
    | exact Keeps.refl P agent
    | (refine Keeps.trans ?_ (Keeps_priv_add_pair_to_triggered_check_queue P _ _)
       refine Keeps.trans ?_ (Keeps_conn_check_update_selected_pair E P _ _ _ _)
       exact Keeps_updatePair_nominated P agent _ hN)

theorem Keeps_nominate_components (P : CandidateCheckPair → Prop)
    (step : NiceAgent → Nat → Bool × NiceAgent)
    (hstep : ∀ a cid, Keeps P a (step a cid).2)
    (ids : List Nat) (flag : Bool) (agent : NiceAgent) :
    Keeps P agent (nominate_components step ids flag agent).2 := by
  induction ids generalizing flag agent with
  | nil => exact Keeps.refl P agent
  | cons cid rest ih =>
    unfold nominate_components
    exact Keeps.trans (hstep agent cid) (ih _ _)

theorem allPairs_updateStream_tick_counter (agent : NiceAgent) (stream_id : Nat)
    (f : NiceStream → NiceStream) (hf : ∀ s, (f s).conncheck_list = s.conncheck_list) :
    (agent.updateStream stream_id f).allPairs = agent.allPairs := by
  unfold NiceAgent.allPairs NiceAgent.updateStream
  simp only
  induction agent.streams with
  | nil => rfl
  | cons s ss ih =>
    simp only [List.map_cons, List.flatMap_cons, ih]
    split_ifs
    · rw [hf]
    · rfl

theorem Keeps_updateStream_right (P : CandidateCheckPair → Prop) (a b : NiceAgent)
    (stream_id : Nat) (f : NiceStream → NiceStream)
    (hf : ∀ s, (f s).conncheck_list = s.conncheck_list) (h : Keeps P a b) :
    Keeps P a (b.updateStream stream_id f) :=
  Keeps.trans h (Keeps_of_allPairs_eq P b (b.updateStream stream_id f) rfl
    (allPairs_updateStream_tick_counter b stream_id f hf))

theorem Keeps_priv_conn_check_tick_stream_nominate (E : Ext) (P : CandidateCheckPair → Prop)
    (hP : FlagsOnly P) (agent : NiceAgent) (stream_id : Nat)
    (hN : NominationSafe (NICE_AGENT_IS_COMPATIBLE_WITH_RFC5245_OR_OC2007R2 agent) P) :
    Keeps P agent (priv_conn_check_tick_stream_nominate E agent stream_id).2 := by
  unfold priv_conn_check_tick_stream_nominate
  split
  · exact Keeps.refl P agent
  · simp only
    refine Keeps_updateStream_right P _ _ _ _ ?_ ?_
    · intro s; rfl
    by_cases hr : NICE_AGENT_IS_COMPATIBLE_WITH_RFC5245_OR_OC2007R2 agent = true
    · rw [hr]
      simp only [if_true]
      split_ifs
      all_goals first
        | exact Keeps.refl P agent
        | exact Keeps_nominate_components P _
            (fun a cid => Keeps_nominate_component_regular P hP a stream_id _ cid) _ _ _
    · have hr0 : NICE_AGENT_IS_COMPATIBLE_WITH_RFC5245_OR_OC2007R2 agent = false := by
        simpa using hr
      rw [hr0] at hN ⊢
      simp only [Bool.false_eq_true, if_false]
      split_ifs
      all_goals first
        | exact Keeps.refl P agent
        | exact Keeps_nominate_components P _
            (fun a cid => Keeps_nominate_component_legacy E P a stream_id cid hN) _ _ _

theorem Keeps_tick_nominate_streams (E : Ext) (P : CandidateCheckPair → Prop)
    (hP : FlagsOnly P) (ids : List Nat) (flag : Bool) (agent : NiceAgent)
    (hN : NominationSafe (NICE_AGENT_IS_COMPATIBLE_WITH_RFC5245_OR_OC2007R2 agent) P) :
    Keeps P agent (tick_nominate_streams E ids flag agent).2 := by
  induction ids generalizing flag agent with
  | nil => exact Keeps.refl P agent
  | cons sid rest ih =>
    unfold tick_nominate_streams
    have k := Keeps_priv_conn_check_tick_stream_nominate E P hP agent sid hN
    exact Keeps.trans k (ih _ _ (by rw [rfc_of_compatibility _ _ k.1]; exact hN))

theorem Keeps_priv_update_check_list_failed_components_loop (P : CandidateCheckPair → Prop)
    (stream_id : Nat) (cs : List Nat) (agent : NiceAgent) :
    Keeps P agent (priv_update_check_list_failed_components_loop stream_id cs agent) := by
  induction cs generalizing agent with
  | nil => exact Keeps.refl P agent
  | cons c cs ih =>
    unfold priv_update_check_list_failed_components_loop
    split
    · exact ih _
    · simp only
      split_ifs
      · exact Keeps.trans (Keeps_agent_signal_component_state_change P _ _ _ _) (ih _)
      · exact ih _

theorem Keeps_priv_update_check_list_failed_components (P : CandidateCheckPair → Prop)
    (agent : NiceAgent) (stream_id : Nat) :
    Keeps P agent (priv_update_check_list_failed_components agent stream_id) := by
  unfold priv_update_check_list_failed_components
  split
  · exact Keeps.refl P agent
  · split_ifs
    · exact Keeps.refl P agent
    · exact Keeps.refl P agent
    · exact Keeps.refl P agent
    · exact Keeps_priv_update_check_list_failed_components_loop P _ _ _

theorem Keeps_foldl {β : Type} (P : CandidateCheckPair → Prop) (f : NiceAgent → β → NiceAgent)
    (hf : ∀ a b, Keeps P a (f a b)) (l : List β) (agent : NiceAgent) :
    Keeps P agent (l.foldl f agent) := by
  induction l generalizing agent with
  | nil => exact Keeps.refl P agent
  | cons b bs ih =>
    rw [List.foldl_cons]
    exact Keeps.trans (hf agent b) (ih _)

theorem Keeps_tick_sweep_stream (P : CandidateCheckPair → Prop) (hP : FlagsOnly P)
    (agent : NiceAgent) (stream_id : Nat) :
    Keeps P agent (tick_sweep_stream agent stream_id) := by
  have h1 := Keeps_priv_update_check_list_failed_components P agent stream_id
  unfold tick_sweep_stream
  simp only
  split
  · exact h1
  · exact Keeps.trans h1 (Keeps_foldl P _
      (fun a cid => Keeps_conn_check_update_check_list_state_for_ready P hP a stream_id cid)
      _ _)

theorem Keeps_conn_check_stop (P : CandidateCheckPair → Prop) (agent : NiceAgent) :
    Keeps P agent (conn_check_stop agent) := by
  unfold conn_check_stop
  split_ifs
  · exact Keeps.refl P agent
  · exact ⟨rfl, fun h => h⟩

theorem Keeps_tick_idle_accounting (P : CandidateCheckPair → Prop) (hP : FlagsOnly P)
    (agent : NiceAgent) (keep : Bool) (ids : List Nat) :
    Keeps P agent (tick_idle_accounting agent keep ids).2 := by
  unfold tick_idle_accounting
  simp only
  have k0 : ∀ n : Nat, Keeps P agent { agent with conncheck_ongoing_idle_delay := n } :=
    fun n => ⟨rfl, fun h => h⟩
  cases keep with
  | true =>
    simp only [if_true, Bool.true_eq_false, false_and, if_false]
    exact k0 0
  | false =>
    simp only [Bool.false_eq_true, if_false, true_and]
    split_ifs
    · exact Keeps.trans (k0 _) (Keeps.trans
        (Keeps_foldl P tick_sweep_stream (fun a sid => Keeps_tick_sweep_stream P hP a sid) _ _)
        (Keeps_conn_check_stop P _))
    · exact k0 _

theorem Keeps_priv_conn_check_tick_agent_locked (E : Ext) (now : Int)
    (P : CandidateCheckPair → Prop) (hP : FlagsOnly P) (agent : NiceAgent)
    (hN : NominationSafe (NICE_AGENT_IS_COMPATIBLE_WITH_RFC5245_OR_OC2007R2 agent) P) :
    Keeps P agent (priv_conn_check_tick_agent_locked E now agent).2 := by
  unfold priv_conn_check_tick_agent_locked
  simp only
  have k1 := Keeps_priv_conn_check_tick_agent_locked_checks E now P hP agent hN
  have k2 := Keeps_tick_nominate_streams E P hP (agent.streams.map (fun s => s.id))
    (priv_conn_check_tick_agent_locked_checks E now agent).1
    (priv_conn_check_tick_agent_locked_checks E now agent).2
    (by rw [rfc_of_compatibility _ _ k1.1]; exact hN)
  exact Keeps.trans k1 (Keeps.trans k2 (Keeps_tick_idle_accounting P hP _ _ _))

theorem AllPairs_streams_map (P : CandidateCheckPair → Prop) (hP : FlagsOnly P)
    (a b : NiceAgent) (g : NiceStream → NiceStream) (hb : b.streams = a.streams.map g)
    (hg : ∀ s ∈ a.streams, ∀ q1 ∈ (g s).conncheck_list, ∃ q ∈ s.conncheck_list,
      q1.ptr = q.ptr ∧ q1.remote = q.remote ∧ q1.valid = q.valid ∧
        q1.nominated = q.nominated)
    (h : AllPairs P a) : AllPairs P b := by
  intro q1 hq1
  unfold NiceAgent.allPairs at hq1
  rw [hb] at hq1
  simp only [List.mem_flatMap, List.mem_map] at hq1
  obtain ⟨s1, ⟨s, hs, hs1⟩, hq1⟩ := hq1
  rw [← hs1] at hq1
  obtain ⟨q, hq, h1, h2, h3, h4⟩ := hg s hs q1 hq1
  exact hP q q1 h1 h2 h3 h4 (h q (mem_allPairs_of_stream a s hs q hq))

theorem Keeps_conn_check_unfreeze_related (E : Ext) (P : CandidateCheckPair → Prop)
    (hP : FlagsOnly P) (agent : NiceAgent) (pair : CandidateCheckPair) :
    Keeps P agent (conn_check_unfreeze_related E agent pair) := by
  refine ⟨rfl, AllPairs_streams_map P hP agent _ _ rfl ?_⟩
  intro s _ q1 hq1
  simp only [List.mem_map] at hq1
  obtain ⟨q, hq, hq1⟩ := hq1
  refine ⟨q, hq, ?_⟩
  rw [← hq1]
  split_ifs
  · exact ⟨rfl, rfl, rfl, rfl⟩
  · exact ⟨rfl, rfl, rfl, rfl⟩

theorem Keeps_priv_conn_check_unfreeze_maybe (E : Ext) (P : CandidateCheckPair → Prop)
    (hP : FlagsOnly P) (agent : NiceAgent) (pair : CandidateCheckPair) :
    Keeps P agent (priv_conn_check_unfreeze_maybe E agent pair) := by
  unfold priv_conn_check_unfreeze_maybe
  split_ifs
  · exact Keeps_SET_PAIR_STATE P hP agent _ _
  · exact Keeps.refl P agent

theorem Keeps_recalculate_pair_priorities (E : Ext) (P : CandidateCheckPair → Prop)
    (hP : FlagsOnly P) (agent : NiceAgent) :
    Keeps P agent (recalculate_pair_priorities E agent) := by
  refine ⟨rfl, AllPairs_streams_map P hP agent _ _ rfl ?_⟩
  intro s _ q1 hq1
  simp only at hq1
  rw [(g_slist_sort_perm _ _).mem_iff, List.mem_map] at hq1
  obtain ⟨q, hq, hq1⟩ := hq1
  refine ⟨q, hq, ?_⟩
  rw [← hq1]
  exact ⟨rfl, rfl, rfl, rfl⟩

theorem Keeps_priv_check_for_role_conflict (E : Ext) (P : CandidateCheckPair → Prop)
    (hP : FlagsOnly P) (agent : NiceAgent) (control : Bool) :
    Keeps P agent (priv_check_for_role_conflict E agent control) := by
  unfold priv_check_for_role_conflict
  split_ifs
  · have k0 : Keeps P agent { agent with controlling_mode := control } := ⟨rfl, fun h => h⟩
    exact Keeps.trans k0 (Keeps_recalculate_pair_priorities E P hP _)
  · exact Keeps.refl P agent

theorem Keeps_ite (P : CandidateCheckPair → Prop) (a x y : NiceAgent) (c : Prop)
    [Decidable c] (h1 : Keeps P a x) (h2 : Keeps P a y) : Keeps P a (if c then x else y) := by
  split_ifs
  · exact h1
  · exact h2

theorem mark_nominated_write_safe (P : CandidateCheckPair → Prop) (hP : FlagsOnly P)
    (agent : NiceAgent)
    (hN : NominationSafe (NICE_AGENT_IS_COMPATIBLE_WITH_RFC5245_OR_OC2007R2 agent) P)
    (q : CandidateCheckPair) (hq : P q) : P (mark_nominated_write agent q) := by
  by_cases hn : (q.valid || !NICE_AGENT_IS_COMPATIBLE_WITH_RFC5245_OR_OC2007R2 agent) = true
  · have h1 : P { q with nominated := true } := by
      apply hN q hq
      simp only [Bool.or_eq_true, Bool.not_eq_true'] at hn
      tauto
    refine hP { q with nominated := true } _ rfl rfl rfl ?_ h1
    simp only [mark_nominated_write, hn, Bool.true_or]
  · refine hP q _ rfl rfl rfl ?_ hq
    have hn0 : (q.valid || !NICE_AGENT_IS_COMPATIBLE_WITH_RFC5245_OR_OC2007R2 agent) = false := by
      simpa using hn
    simp only [mark_nominated_write, hn0, Bool.false_or]

theorem Keeps_priv_mark_pair_nominated_pair (E : Ext) (P : CandidateCheckPair → Prop)
    (hP : FlagsOnly P) (agent : NiceAgent) (stream_id component_id : Nat)
    (pair : CandidateCheckPair)
    (hN : NominationSafe (NICE_AGENT_IS_COMPATIBLE_WITH_RFC5245_OR_OC2007R2 agent) P) :
    Keeps P agent (priv_mark_pair_nominated_pair E agent stream_id component_id pair) := by
  have k1 : Keeps P agent (agent.updatePair pair.ptr (mark_nominated_write agent)) :=
    ⟨rfl, AllPairs_updatePair P agent _ _ (mark_nominated_write_safe P hP agent hN)⟩
  have kb1 : Keeps P agent
      (if component_state (agent.updatePair pair.ptr (mark_nominated_write agent))
          stream_id component_id = some NICE_COMPONENT_STATE_FAILED then
        agent_signal_component_state_change
          (agent.updatePair pair.ptr (mark_nominated_write agent)) stream_id
          component_id NICE_COMPONENT_STATE_CONNECTING
      else agent.updatePair pair.ptr (mark_nominated_write agent)) :=
    Keeps_ite P _ _ _ _
      (Keeps.trans k1 (Keeps_agent_signal_component_state_change P _ _ _ _)) k1
  have kb2 := Keeps.trans kb1 (Keeps_conn_check_update_selected_pair E P _ stream_id
    component_id (mark_nominated_write agent pair))
  unfold priv_mark_pair_nominated_pair
  simp only
  apply Keeps_ite
  · refine Keeps.trans ?_ (Keeps_conn_check_update_check_list_state_for_ready P hP _ _ _)
    apply Keeps_ite
    · apply Keeps_ite
      · exact Keeps.trans kb2 (Keeps_agent_signal_component_state_change P _ _ _ _)
      · exact kb2
    · exact k1
  · apply Keeps_ite
    · apply Keeps_ite
      · exact Keeps.trans kb2 (Keeps_agent_signal_component_state_change P _ _ _ _)
      · exact kb2
    · exact k1

theorem Keeps_priv_mark_pair_nominated_loop (E : Ext) (P : CandidateCheckPair → Prop)
    (hP : FlagsOnly P) (stream_id component_id : Nat)
    (localcand remotecand : Option NiceCandidate) (ptrs : List Nat) (agent : NiceAgent)
    (hN : NominationSafe (NICE_AGENT_IS_COMPATIBLE_WITH_RFC5245_OR_OC2007R2 agent) P) :
    Keeps P agent
      (priv_mark_pair_nominated_loop E stream_id component_id localcand remotecand ptrs
        agent) := by
  induction ptrs generalizing agent with
  | nil => exact Keeps.refl P agent
  | cons ptr rest ih =>
    unfold priv_mark_pair_nominated_loop
    have k := fun pair => Keeps_priv_mark_pair_nominated_pair E P hP agent stream_id
      component_id pair hN
    have kk := fun pair => Keeps.trans (k pair)
      (ih _ (by rw [rfc_of_compatibility _ _ (k pair).1]; exact hN))
    split
    · exact ih agent hN
    · split
      · simp only
        repeat' split
        all_goals first
          | exact ih agent hN
          | exact kk _
      · exact ih agent hN

theorem Keeps_priv_mark_pair_nominated (E : Ext) (P : CandidateCheckPair → Prop)
    (hP : FlagsOnly P) (agent : NiceAgent) (stream_id component_id : Nat)
    (localcand remotecand : Option NiceCandidate)
    (hN : NominationSafe (NICE_AGENT_IS_COMPATIBLE_WITH_RFC5245_OR_OC2007R2 agent) P) :
    Keeps P agent
      (priv_mark_pair_nominated E agent stream_id component_id localcand remotecand) := by
  unfold priv_mark_pair_nominated
  repeat' split
  all_goals first
    | exact Keeps.refl P agent
    | exact Keeps_priv_mark_pair_nominated_loop E P hP _ _ _ _ _ agent hN

theorem priv_limit_conn_check_list_size_loop_sub (max_conn_checks pair : Nat)
    (l : List CandidateCheckPair) (valid : Nat) (queue : List Nat) :
    ∀ q ∈ (priv_limit_conn_check_list_size_loop max_conn_checks pair l valid queue).1, q ∈ l := by
  induction l generalizing valid queue with
  | nil => intro q hq; simp [priv_limit_conn_check_list_size_loop] at hq
  | cons p ps ih =>
    intro q hq
    unfold priv_limit_conn_check_list_size_loop at hq
    split_ifs at hq
    · exact List.mem_cons_of_mem _ (ih _ _ q hq)
    · simp only [List.mem_cons] at hq
      rcases hq with h0 | hq
      · rw [h0]; exact List.mem_cons_self _ _
      · exact List.mem_cons_of_mem _ (ih _ _ q hq)

theorem Keeps_updateStream_list (P : CandidateCheckPair → Prop) (agent : NiceAgent)
    (stream_id : Nat) (g : List CandidateCheckPair → List CandidateCheckPair)
    (hg : ∀ l, (∀ q ∈ l, P q) → ∀ q ∈ g l, P q) :
    Keeps P agent
      (agent.updateStream stream_id (fun s => { s with conncheck_list := g s.conncheck_list })) := by
  refine ⟨rfl, fun h q1 hq1 => ?_⟩
  unfold NiceAgent.allPairs NiceAgent.updateStream at hq1
  simp only [List.mem_flatMap, List.mem_map] at hq1
  obtain ⟨s1, ⟨s, hs, hs1⟩, hq1⟩ := hq1
  rw [← hs1] at hq1
  split_ifs at hq1
  · exact hg s.conncheck_list (fun q hq => h q (mem_allPairs_of_stream agent s hs q hq)) q1 hq1
  · exact h q1 (mem_allPairs_of_stream agent s hs q1 hq1)

theorem Keeps_priv_limit_conn_check_list_size (P : CandidateCheckPair → Prop)
    (agent : NiceAgent) (stream_id pair : Nat) :
    Keeps P agent (priv_limit_conn_check_list_size agent stream_id pair).2 := by
  unfold priv_limit_conn_check_list_size
  split
  · exact Keeps.refl P agent
  · rename_i stream hstream
    refine ⟨rfl, fun h => ?_⟩
    have h1 := AllPairs_updateStream_const P agent stream_id
      (priv_limit_conn_check_list_size_loop agent.max_conn_checks pair stream.conncheck_list 0
        agent.triggered_check_queue).1
      (fun q hq => h q (mem_allPairs_of_stream agent stream (agent_find_stream_some agent
        stream_id stream hstream).1 q
        (priv_limit_conn_check_list_size_loop_sub _ _ _ _ _ q hq))) h
    exact h1

theorem Keeps_insert_pair (P : CandidateCheckPair → Prop) (agent : NiceAgent)
    (stream_id : Nat) (pair : CandidateCheckPair) (hpair : P pair) :
    Keeps P agent (agent.updateStream stream_id (fun s =>
      { s with conncheck_list :=
          g_slist_insert_sorted s.conncheck_list pair conn_check_compare })) := by
  refine Keeps_updateStream_list P agent stream_id
    (fun l => g_slist_insert_sorted l pair conn_check_compare) ?_
  intro l hl q hq
  rw [mem_g_slist_insert_sorted] at hq
  rcases hq with h0 | hq
  · rw [h0]; exact hpair
  · exact hl q hq

theorem Keeps_priv_add_new_check_pair (E : Ext) (P : CandidateCheckPair → Prop)
    (hP : FlagsOnly P) (hF : ∀ q : CandidateCheckPair, q.valid = false →
      q.nominated = false → P q)
    (agent : NiceAgent) (stream_id : Nat) (component : NiceComponent)
    (local_ remote : NiceCandidate) (initial_state : NiceCheckState) (new_pair : Nat) :
    Keeps P agent (priv_add_new_check_pair E agent stream_id component local_ remote
      initial_state new_pair).2 := by
  unfold priv_add_new_check_pair
  split
  · exact Keeps.refl P agent
  · rename_i agent1 hins
    unfold priv_add_new_check_pair_insert at hins
    simp only at hins
    split_ifs at hins
    simp only [Option.some.injEq] at hins
    have k1 : Keeps P agent agent1 := by
      rw [← hins]
      exact Keeps_insert_pair P agent stream_id _ (hF _ rfl rfl)
    have k2 : Keeps P agent
        (if initial_state = NICE_CHECK_FROZEN then
          priv_conn_check_unfreeze_maybe E agent1
            (priv_add_new_check_pair_record E agent stream_id component local_ remote
              initial_state new_pair)
        else agent1) :=
      Keeps_ite P _ _ _ _
        (Keeps.trans k1 (Keeps_priv_conn_check_unfreeze_maybe E P hP _ _)) k1
    simp only
    generalize (if initial_state = NICE_CHECK_FROZEN then
        priv_conn_check_unfreeze_maybe E agent1
          (priv_add_new_check_pair_record E agent stream_id component local_ remote
            initial_state new_pair)
      else agent1) = agent2 at k2 ⊢
    split_ifs
    all_goals first
      | exact k2
      | exact Keeps.trans k2 (Keeps_priv_limit_conn_check_list_size P _ _ _)

/-! ## The flags `valid` and `nominated` in the processing of a response -/

theorem AllPairs_updatePair_at (Q P : CandidateCheckPair → Prop) (agent : NiceAgent)
    (x : Nat) (f : CandidateCheckPair → CandidateCheckPair)
    (hf : ∀ q, Q q → q.ptr = x → P (f q)) (hn : ∀ q, Q q → q.ptr ≠ x → P q)
    (h : AllPairs Q agent) : AllPairs P (agent.updatePair x f) := by
  intro q hq
  rw [allPairs_updatePair, List.mem_map] at hq
  obtain ⟨q0, hq0, rfl⟩ := hq
  split_ifs with hx
  · exact hf q0 (h q0 hq0) hx
  · exact hn q0 (h q0 hq0) hx

theorem Keeps_updatePair_valid (P : CandidateCheckPair → Prop) (agent : NiceAgent) (x : Nat)
    (hV : ∀ q : CandidateCheckPair, P q → q.ptr = x → P { q with valid := true }) :
    Keeps P agent (agent.updatePair x (fun q => { q with valid := true })) :=
  ⟨rfl, AllPairs_updatePair_at P P agent x _ hV (fun _ hq _ => hq)⟩

theorem Keeps_response_pair_succeeded (P : CandidateCheckPair → Prop) (hP : FlagsOnly P)
    (agent : NiceAgent) (p : Nat) : Keeps P agent (response_pair_succeeded agent p) := by
  unfold response_pair_succeeded
  simp only
  refine Keeps.trans (Keeps_SET_PAIR_STATE P hP agent p NICE_CHECK_SUCCEEDED) ?_
  have k0 : Keeps P (SET_PAIR_STATE agent p NICE_CHECK_SUCCEEDED)
      (priv_remove_pair_from_triggered_check_queue
        (SET_PAIR_STATE agent p NICE_CHECK_SUCCEEDED) p) := ⟨rfl, fun h => h⟩
  refine Keeps.trans k0 ?_
  exact Keeps_updatePair_flags P hP _ _ priv_free_all_stun_transactions
    (fun _ => ⟨rfl, rfl, rfl, rfl⟩)

theorem Keeps_discovery_add_peer_reflexive_candidate (E : Ext)
    (P : CandidateCheckPair → Prop) (agent : NiceAgent) (stream_id component_id priority : Nat)
    (mapped : NiceAddress) (sockptr : NiceSocket) (local_candidate : Option NiceCandidate)
    (remote_candidate : NiceCandidate) :
    Keeps P agent (discovery_add_peer_reflexive_candidate E agent stream_id component_id
      priority mapped sockptr local_candidate remote_candidate).2 := by
  unfold discovery_add_peer_reflexive_candidate
  split
  · exact Keeps.refl P agent
  · exact Keeps_of_allPairs_eq P _ _ rfl (allPairs_updateComponent _ _ _ _)

theorem Keeps_add_valid_peer_reflexive_pair (E : Ext) (P : CandidateCheckPair → Prop)
    (hP : FlagsOnly P) (agent : NiceAgent) (stream_id : Nat) (component : NiceComponent)
    (local_cand : NiceCandidate) (p : CandidateCheckPair) (new_pair : Nat)
    (hV : ∀ q : CandidateCheckPair, P q → q.ptr = new_pair → P { q with valid := true })
    (hNew : ∀ q : CandidateCheckPair, q.ptr = new_pair → q.remote = p.remote →
      q.valid = true → P q) :
    Keeps P agent
      ((priv_add_peer_reflexive_pair E agent stream_id component local_cand p
        new_pair).updatePair new_pair (fun q => { q with valid := true })) := by
  refine ⟨rfl, fun h => ?_⟩
  have hQ : FlagsOnly (fun q : CandidateCheckPair =>
      (q.ptr = new_pair → P { q with valid := true }) ∧ (q.ptr ≠ new_pair → P q)) := by
    intro q q1 h1 h2 h3 h4 hq
    refine ⟨fun hx => ?_, fun hx => ?_⟩
    · exact hP { q with valid := true } _ h1 h2 rfl h4 (hq.1 (by rw [← h1]; exact hx))
    · exact hP q q1 h1 h2 h3 h4 (hq.2 (by rw [← h1]; exact hx))
  have h0 : AllPairs (fun q : CandidateCheckPair =>
      (q.ptr = new_pair → P { q with valid := true }) ∧ (q.ptr ≠ new_pair → P q)) agent :=
    fun q hq => ⟨fun hx => hV q (h q hq) hx, fun _ => h q hq⟩
  have h1 := (Keeps_updatePair_flags _ hQ agent p.ptr
    (fun q => { q with discovered_pair := some new_pair })
    (fun _ => ⟨rfl, rfl, rfl, rfl⟩)).2 h0
  have h2 := (Keeps_insert_pair _ (agent.updatePair p.ptr
    (fun q => { q with discovered_pair := some new_pair })) stream_id
    (priv_add_peer_reflexive_pair_record E agent stream_id component local_cand p new_pair)
    ⟨fun _ => hNew _ rfl rfl rfl, fun hx => absurd rfl hx⟩).2 h1
  exact AllPairs_updatePair_at _ P _ new_pair _ (fun q hq hx => hq.1 hx)
    (fun q hq hx => hq.2 hx) h2

theorem Keeps_priv_process_response_check_for_reflexive (E : Ext)
    (P : CandidateCheckPair → Prop) (hP : FlagsOnly P) (agent : NiceAgent)
    (stream_id component_id : Nat) (p : CandidateCheckPair) (sockptr : NiceSocket)
    (mapped : NiceAddress) (local_candidate : Option NiceCandidate)
    (remote_candidate : NiceCandidate) (new_pair : Nat)
    (hV : ∀ q : CandidateCheckPair, P q → (q.ptr = p.ptr ∨ q.ptr = new_pair) →
      P { q with valid := true })
    (hNew : ∀ q : CandidateCheckPair, q.ptr = new_pair → q.remote = p.remote →
      q.valid = true → P q) :
    Keeps P agent (priv_process_response_check_for_reflexive E agent stream_id component_id p
      sockptr mapped local_candidate remote_candidate new_pair).2 := by
  unfold priv_process_response_check_for_reflexive
  split
  · exact Keeps.refl P agent
  · rename_i stream component _
    simp only
    split
    · refine Keeps.trans ?_ (Keeps_response_pair_succeeded P hP _ _)
      apply Keeps_ite
      · exact Keeps_updatePair_valid P agent p.ptr (fun q hq hx => hV q hq (Or.inl hx))
      · exact Keeps.refl P agent
    · have kr : Keeps P agent
          (if (List.find? (fun cand => nice_address_equal mapped cand.addr &&
                local_candidate_and_socket_compatible cand sockptr)
                component.local_candidates).isNone = true ∧ agent.force_relay = false then
            discovery_add_peer_reflexive_candidate E agent stream.id component.id
              p.stun_priority mapped sockptr local_candidate remote_candidate
          else (List.find? (fun cand => nice_address_equal mapped cand.addr &&
                local_candidate_and_socket_compatible cand sockptr)
                component.local_candidates, agent)).2 := by
        split_ifs
        · exact Keeps_discovery_add_peer_reflexive_candidate E P _ _ _ _ _ _ _ _
        · exact Keeps.refl P agent
      split
      · refine Keeps.trans ?_ (Keeps_response_pair_succeeded P hP _ _)
        refine Keeps.trans kr ?_
        exact Keeps_add_valid_peer_reflexive_pair E P hP _ _ _ _ p new_pair
          (fun q hq hx => hV q hq (Or.inr hx)) hNew
      · exact Keeps.trans kr (Keeps_response_pair_succeeded P hP _ _)

theorem findPair_getD_ptr (agent : NiceAgent) (x : Nat) (p : CandidateCheckPair)
    (hp : p.ptr = x) : ((agent.findPair x).getD p).ptr = x := by
  cases h : agent.findPair x with
  | none => exact hp
  | some q => exact (mem_allPairs_of_findPair agent x q h).2

theorem Keeps_map_reply_validate (E : Ext) (P : CandidateCheckPair → Prop) (hP : FlagsOnly P)
    (agent : NiceAgent) (stream_id component_id : Nat) (sockptr : NiceSocket)
    (from_ : NiceAddress) (local_candidate remote_candidate : Option NiceCandidate)
    (resp : StunResponse) (new_pair : Nat) (p : CandidateCheckPair) (k : Nat)
    (hV : nice_address_equal from_ p.remote.addr = true → ∀ q : CandidateCheckPair, P q →
      (q.ptr = p.ptr ∨ q.ptr = new_pair) → P { q with valid := true })
    (hNew : nice_address_equal from_ p.remote.addr = true → ∀ q : CandidateCheckPair,
      q.ptr = new_pair →
      q.remote = (((agent.updatePair p.ptr (fun q => priv_remove_stun_transaction q k)).findPair
        p.ptr).getD p).remote → q.valid = true → P q) :
    match map_reply_validate E agent stream_id component_id sockptr from_ local_candidate
      remote_candidate resp new_pair p k with
    | Except.error a => Keeps P agent a
    | Except.ok r => Keeps P agent r.2.2 := by
  have k1 : Keeps P agent (agent.updatePair p.ptr (fun q => priv_remove_stun_transaction q k)) :=
    Keeps_updatePair_flags P hP agent p.ptr _ (fun _ => ⟨rfl, rfl, rfl, rfl⟩)
  have kf := Keeps.trans k1 (Keeps_candidate_check_pair_fail P hP _ p.ptr)
  unfold map_reply_validate
  simp only
  by_cases hfrom : nice_address_equal from_ p.remote.addr = false
  · rw [if_pos hfrom]
    exact kf
  · rw [if_neg hfrom]
    have hfrom1 : nice_address_equal from_ p.remote.addr = true := by simpa using hfrom
    have hV := hV hfrom1
    have hNew := hNew hfrom1
    cases remote_candidate with
    | none => exact kf
    | some rcand =>
      simp only
      by_cases hres : resp.res = STUN_USAGE_ICE_RETURN_NO_MAPPED_ADDRESS
      · rw [if_pos hres]
        simp only
        refine Keeps.trans k1 ⟨rfl, ?_⟩
        apply AllPairs_updatePair_at P P _ p.ptr _ ?_ (fun _ hq _ => hq)
        intro q hq hx
        exact hP { q with valid := true } _ rfl rfl rfl rfl (hV q hq (Or.inl hx))
      · rw [if_neg hres]
        simp only
        refine Keeps.trans k1 ?_
        apply Keeps_priv_process_response_check_for_reflexive E P hP
        · intro q hq hx
          rw [findPair_getD_ptr _ _ _ rfl] at hx
          exact hV q hq hx
        · exact hNew

theorem Keeps_map_reply_nominate (E : Ext) (P : CandidateCheckPair → Prop) (hP : FlagsOnly P)
    (agent : NiceAgent) (stream_id component_id : Nat) (p : Nat) (p1 : CandidateCheckPair)
    (ok_pair : Nat)
    (hNom : ∀ q : CandidateCheckPair, P q → q.ptr = ok_pair → P { q with nominated := true }) :
    Keeps P agent (map_reply_nominate E agent stream_id component_id p p1 ok_pair) := by
  unfold map_reply_nominate
  simp only
  have k2 := Keeps_conn_check_unfreeze_related E P hP agent ((agent.findPair p).getD p1)
  generalize conn_check_unfreeze_related E agent ((agent.findPair p).getD p1) = agent2 at k2 ⊢
  have k3 : Keeps P agent
      (if response_sets_nominated agent2 ((agent2.findPair p).getD ((agent.findPair p).getD p1))
          = true then
        agent2.updatePair ok_pair (fun q => { q with nominated := true })
      else agent2) := by
    apply Keeps_ite
    · exact Keeps.trans k2 ⟨rfl, AllPairs_updatePair_at P P _ ok_pair _ hNom (fun _ hq _ => hq)⟩
    · exact k2
  generalize (if response_sets_nominated agent2
      ((agent2.findPair p).getD ((agent.findPair p).getD p1)) = true then
        agent2.updatePair ok_pair (fun q => { q with nominated := true })
      else agent2) = agent3 at k3 ⊢
  refine Keeps.trans ?_ (Keeps_conn_check_update_check_list_state_for_ready P hP _ _ _)
  split
  · apply Keeps_ite
    · apply Keeps_ite
      · exact Keeps.trans (Keeps.trans k3 (Keeps_conn_check_update_selected_pair E P _ _ _ _))
          (Keeps_agent_signal_component_state_change P _ _ _ _)
      · exact Keeps.trans k3 (Keeps_conn_check_update_selected_pair E P _ _ _ _)
    · exact k3
  · exact k3

theorem Keeps_map_reply_success (E : Ext) (P : CandidateCheckPair → Prop) (hP : FlagsOnly P)
    (agent : NiceAgent) (stream_id component_id : Nat) (sockptr : NiceSocket)
    (from_ : NiceAddress) (local_candidate remote_candidate : Option NiceCandidate)
    (resp : StunResponse) (new_pair : Nat) (p : CandidateCheckPair) (k : Nat)
    (hV : nice_address_equal from_ p.remote.addr = true → ∀ q : CandidateCheckPair, P q →
      (q.ptr = p.ptr ∨ q.ptr = new_pair) → P { q with valid := true })
    (hNew : nice_address_equal from_ p.remote.addr = true → ∀ q : CandidateCheckPair,
      q.ptr = new_pair →
      q.remote = (((agent.updatePair p.ptr (fun q => priv_remove_stun_transaction q k)).findPair
        p.ptr).getD p).remote → q.valid = true → P q)
    (hNom : ∀ ok_pair p1 a1, map_reply_validate E agent stream_id component_id sockptr from_
      local_candidate remote_candidate resp new_pair p k = Except.ok (ok_pair, p1, a1) →
      ∀ q : CandidateCheckPair, P q → q.ptr = ok_pair.getD p.ptr →
        P { q with nominated := true }) :
    Keeps P agent (map_reply_success E agent stream_id component_id sockptr from_
      local_candidate remote_candidate resp new_pair p k) := by
  have kv := Keeps_map_reply_validate E P hP agent stream_id component_id sockptr from_
    local_candidate remote_candidate resp new_pair p k hV hNew
  unfold map_reply_success
  cases hr : map_reply_validate E agent stream_id component_id sockptr from_
      local_candidate remote_candidate resp new_pair p k with
  | error a =>
    rw [hr] at kv
    exact kv
  | ok r =>
    obtain ⟨ok_pair, p1, a1⟩ := r
    rw [hr] at kv
    exact Keeps.trans kv (Keeps_map_reply_nominate E P hP a1 stream_id component_id p.ptr p1
      _ (hNom ok_pair p1 a1 hr))

theorem find_matching_request_mem (id : Nat) (l : List CandidateCheckPair)
    (p : CandidateCheckPair) (k : Nat) (stun : StunTransaction)
    (h : find_matching_request id l = some (p, k, stun)) : p ∈ l := by
  induction l with
  | nil => simp [find_matching_request] at h
  | cons x xs ih =>
    unfold find_matching_request at h
    split at h
    · simp only [Option.some.injEq, Prod.mk.injEq] at h
      rw [← h.1]; exact List.mem_cons_self _ _
    · exact List.mem_cons_of_mem _ (ih h)

theorem Keeps_priv_map_reply_to_conn_check_request (E : Ext) (P : CandidateCheckPair → Prop)
    (hP : FlagsOnly P) (agent : NiceAgent) (stream_id component_id : Nat)
    (sockptr : NiceSocket) (from_ : NiceAddress)
    (local_candidate remote_candidate : Option NiceCandidate) (resp : StunResponse)
    (new_pair : Nat)
    (hV : ∀ p ∈ agent.allPairs, nice_address_equal from_ p.remote.addr = true →
      ∀ q : CandidateCheckPair, P q → (q.ptr = p.ptr ∨ q.ptr = new_pair) →
        P { q with valid := true })
    (hNew : ∀ p ∈ agent.allPairs, nice_address_equal from_ p.remote.addr = true →
      ∀ (k : Nat) (q : CandidateCheckPair), q.ptr = new_pair →
      q.remote = (((agent.updatePair p.ptr (fun q => priv_remove_stun_transaction q k)).findPair
        p.ptr).getD p).remote → q.valid = true → P q)
    (hNom : ∀ q : CandidateCheckPair, P q → P { q with nominated := true }) :
    Keeps P agent (priv_map_reply_to_conn_check_request E agent stream_id component_id sockptr
      from_ local_candidate remote_candidate resp new_pair).2 := by
  unfold priv_map_reply_to_conn_check_request
  split
  · exact Keeps.refl P agent
  · rename_i stream hstream
    split
    · exact Keeps.refl P agent
    · rename_i p k stun hfind
      have hp : p ∈ agent.allPairs :=
        mem_allPairs_of_stream agent stream (agent_find_stream_some agent stream_id stream
          hstream).1 p (find_matching_request_mem _ _ _ _ _ hfind)
      split_ifs
      · exact Keeps_map_reply_success E P hP agent stream_id component_id sockptr from_
          local_candidate remote_candidate resp new_pair p k (hV p hp)
          (fun hf q => hNew p hp hf k q) (fun _ _ _ _ q hq _ => hNom q hq)
      · exact Keeps.refl P agent
      · refine Keeps.trans ?_ (Keeps_priv_add_pair_to_triggered_check_queue P _ _)
        refine Keeps.trans
          (Keeps_priv_check_for_role_conflict E P hP agent stun.message.ice_controlled) ?_
        exact Keeps_updatePair_flags P hP _ p.ptr _ (fun _ => ⟨rfl, rfl, rfl, rfl⟩)
      · exact Keeps_candidate_check_pair_fail P hP agent p.ptr

/-! ## Nominated pairs are valid -/

theorem flagsOnly_nominated_valid :
    FlagsOnly (fun q : CandidateCheckPair => q.nominated = true → q.valid = true) := by
  intro q q1 _ _ h3 h4 hq hn
  rw [h3]; exact hq (by rw [← h4]; exact hn)

theorem nominationSafe_nominated_valid :
    NominationSafe true (fun q : CandidateCheckPair => q.nominated = true → q.valid = true) := by
  intro q _ hv _
  rcases hv with hv | hv
  · exact absurd hv (by decide)
  · exact hv


theorem map_reply_success_nominated_valid (E : Ext) (agent : NiceAgent)
    (stream_id component_id : Nat) (sockptr : NiceSocket) (from_ : NiceAddress)
    (local_candidate remote_candidate : Option NiceCandidate) (resp : StunResponse)
    (new_pair : Nat) (p : CandidateCheckPair) (k : Nat) (h : nominated_implies_valid agent)
    (hok : ∀ ok_pair p1 a1, map_reply_validate E agent stream_id component_id sockptr from_
      local_candidate remote_candidate resp new_pair p k = Except.ok (ok_pair, p1, a1) →
      ∀ q ∈ a1.allPairs, q.ptr = ok_pair.getD p.ptr → q.valid = true) :
    nominated_implies_valid (map_reply_success E agent stream_id component_id sockptr from_
      local_candidate remote_candidate resp new_pair p k) := by
  have kv := Keeps_map_reply_validate E _ flagsOnly_nominated_valid agent stream_id
    component_id sockptr from_ local_candidate remote_candidate resp new_pair p k
    (fun _ q _ _ _ => rfl) (fun _ q _ _ hv _ => hv)
  unfold map_reply_success
  cases hr : map_reply_validate E agent stream_id component_id sockptr from_
      local_candidate remote_candidate resp new_pair p k with
  | error a =>
    rw [hr] at kv
    exact kv.2 h
  | ok r =>
    obtain ⟨ok_pair, p1, a1⟩ := r
    rw [hr] at kv
    have h1 := kv.2 h
    have h2 : AllPairs (fun q : CandidateCheckPair => (q.nominated = true → q.valid = true) ∧
        (q.ptr = ok_pair.getD p.ptr → q.valid = true)) a1 :=
      fun q hq => ⟨h1 q hq, hok ok_pair p1 a1 hr q hq⟩
    have h3 := (Keeps_map_reply_nominate E (fun q : CandidateCheckPair =>
        (q.nominated = true → q.valid = true) ∧
        (q.ptr = ok_pair.getD p.ptr → q.valid = true)) ?_ a1 stream_id component_id p.ptr p1
      (ok_pair.getD p.ptr) ?_).2 h2
    · exact fun q hq => (h3 q hq).1
    · intro q q1 h1 _ h3 h4 hq
      refine ⟨fun hn => ?_, fun hx => ?_⟩
      · rw [h3]; exact hq.1 (by rw [← h4]; exact hn)
      · rw [h3]; exact hq.2 (by rw [← h1]; exact hx)
    · intro q hq hx
      exact ⟨fun _ => hq.2 hx, fun _ => hq.2 hx⟩

theorem map_reply_validate_no_mapped_address (E : Ext) (agent : NiceAgent)
    (stream_id component_id : Nat) (sockptr : NiceSocket) (from_ : NiceAddress)
    (local_candidate remote_candidate : Option NiceCandidate) (resp : StunResponse)
    (new_pair : Nat) (p : CandidateCheckPair) (k : Nat)
    (hres : resp.res = STUN_USAGE_ICE_RETURN_NO_MAPPED_ADDRESS)
    (ok_pair : Option Nat) (p1 : CandidateCheckPair) (a1 : NiceAgent)
    (hr : map_reply_validate E agent stream_id component_id sockptr from_
      local_candidate remote_candidate resp new_pair p k = Except.ok (ok_pair, p1, a1)) :
    ∀ q ∈ a1.allPairs, q.ptr = ok_pair.getD p.ptr → q.valid = true := by
  unfold map_reply_validate at hr
  simp only at hr
  by_cases hfrom : nice_address_equal from_ p.remote.addr = false
  · rw [if_pos hfrom] at hr
    cases hr
  · rw [if_neg hfrom] at hr
    cases remote_candidate with
    | none => cases hr
    | some rcand =>
      simp only [if_pos hres, Except.ok.injEq, Prod.mk.injEq] at hr
      obtain ⟨h1, _, h3⟩ := hr
      rw [← h1, ← h3]
      intro q hq hx
      rw [allPairs_updatePair, List.mem_map] at hq
      obtain ⟨q0, _, hq0⟩ := hq
      rw [← hq0] at hx ⊢
      split_ifs at hx ⊢ with hq0p
      · rfl
      · exact absurd hx hq0p

theorem valid_at_updatePair (agent : NiceAgent) (x : Nat) :
    ∀ q ∈ (agent.updatePair x (fun q => { q with valid := true })).allPairs,
      q.ptr = x → q.valid = true := by
  intro q hq hx
  rw [allPairs_updatePair, List.mem_map] at hq
  obtain ⟨q0, _, rfl⟩ := hq
  split_ifs at hx ⊢ with h0
  · rfl
  · exact absurd hx h0

theorem flagsOnly_valid_at (x : Nat) :
    FlagsOnly (fun q : CandidateCheckPair => q.ptr = x → q.valid = true) := by
  intro q q1 h1 _ h3 _ hq hx
  rw [h3]; exact hq (by rw [← h1]; exact hx)

theorem priv_process_response_check_for_reflexive_valid (E : Ext) (agent : NiceAgent)
    (stream_id component_id : Nat) (p : CandidateCheckPair) (sockptr : NiceSocket)
    (mapped : NiceAddress) (local_candidate : Option NiceCandidate)
    (remote_candidate : NiceCandidate) (new_pair x : Nat)
    (hfresh : new_pair ∉ agent.allPairs.map (fun q => q.ptr))
    (hr : (priv_process_response_check_for_reflexive E agent stream_id component_id p sockptr
      mapped local_candidate remote_candidate new_pair).1 = some x)
    (hx : x = p.ptr ∨ x = new_pair) :
    ∀ q ∈ (priv_process_response_check_for_reflexive E agent stream_id component_id p sockptr
      mapped local_candidate remote_candidate new_pair).2.allPairs,
      q.ptr = x → q.valid = true := by
  unfold priv_process_response_check_for_reflexive at hr ⊢
  cases hc : agent_find_component agent stream_id component_id with
  | none => rw [hc] at hr; simp at hr
  | some sc =>
    obtain ⟨stream, component⟩ := sc
    rw [hc] at hr
    simp only at hr ⊢
    obtain ⟨_, hsmem, _, _, _⟩ := agent_find_component_some _ _ _ _ _ hc
    cases hfound : stream.conncheck_list.find? (fun pair =>
        (component.local_candidates.find? (fun cand =>
          nice_address_equal mapped cand.addr &&
          local_candidate_and_socket_compatible cand sockptr)).map (fun c => c.ptr) ==
          some pair.local_.ptr && remote_candidate.ptr == pair.remote.ptr) with
    | some pair =>
      rw [hfound] at hr
      simp only [Option.some.injEq] at hr ⊢
      have hmem : pair ∈ agent.allPairs :=
        mem_allPairs_of_stream agent stream hsmem pair (List.mem_of_find?_eq_some hfound)
      have hpx : pair.ptr = p.ptr := by
        rcases hx with h | h
        · rw [hr, h]
        · exfalso
          apply hfresh
          rw [← h, ← hr]
          exact List.mem_map.2 ⟨pair, hmem, rfl⟩
      rw [if_pos hpx]
      refine (Keeps_response_pair_succeeded _ (flagsOnly_valid_at x) _ _).2 ?_
      rw [← hr, hpx]
      exact valid_at_updatePair agent p.ptr
    | none =>
      rw [hfound] at hr
      simp only at hr ⊢
      generalize (if (component.local_candidates.find? (fun cand =>
          nice_address_equal mapped cand.addr &&
          local_candidate_and_socket_compatible cand sockptr)).isNone = true ∧
          agent.force_relay = false then
        discovery_add_peer_reflexive_candidate E agent stream.id component.id
          p.stun_priority mapped sockptr local_candidate remote_candidate
      else (component.local_candidates.find? (fun cand =>
          nice_address_equal mapped cand.addr &&
          local_candidate_and_socket_compatible cand sockptr), agent)) = r at hr ⊢
      obtain ⟨r1, r2⟩ := r
      cases r1 with
      | some cand =>
        simp only [Option.some.injEq] at hr ⊢
        refine (Keeps_response_pair_succeeded _ (flagsOnly_valid_at x) _ _).2 ?_
        rw [← hr]
        exact valid_at_updatePair _ new_pair
      | none => simp at hr

theorem response_marks_ok_pair_valid_spec (E : Ext) (agent : NiceAgent)
    (stream_id component_id : Nat) (sockptr : NiceSocket) (from_ : NiceAddress)
    (local_candidate remote_candidate : Option NiceCandidate) (resp : StunResponse)
    (new_pair : Nat) (p : CandidateCheckPair) (k : Nat)
    (hfresh : new_pair ∉ agent.allPairs.map (fun q => q.ptr))
    (hpath : response_marks_ok_pair_valid E agent stream_id component_id sockptr from_
      local_candidate remote_candidate resp new_pair p k) :
    ∀ ok_pair p1 a1, map_reply_validate E agent stream_id component_id sockptr from_
      local_candidate remote_candidate resp new_pair p k = Except.ok (ok_pair, p1, a1) →
      ∀ q ∈ a1.allPairs, q.ptr = ok_pair.getD p.ptr → q.valid = true := by
  intro ok_pair p1 a1 hv
  by_cases hres : resp.res = STUN_USAGE_ICE_RETURN_NO_MAPPED_ADDRESS
  · exact map_reply_validate_no_mapped_address E agent stream_id component_id sockptr from_
      local_candidate remote_candidate resp new_pair p k hres ok_pair p1 a1 hv
  · unfold response_marks_ok_pair_valid at hpath
    rw [hv] at hpath
    simp only at hpath
    have hok : ok_pair = some p.ptr ∨ ok_pair = some new_pair := hpath.resolve_left hres
    unfold map_reply_validate at hv
    simp only at hv
    by_cases hfrom : nice_address_equal from_ p.remote.addr = false
    · rw [if_pos hfrom] at hv
      cases hv
    · rw [if_neg hfrom] at hv
      cases remote_candidate with
      | none => cases hv
      | some rcand =>
        simp only [if_neg hres, Except.ok.injEq, Prod.mk.injEq] at hv
        obtain ⟨h1, h2, h3⟩ := hv
        have hptr : p1.ptr = p.ptr := by
          rw [← h2]; exact findPair_getD_ptr _ _ _ rfl
        have hfresh1 : new_pair ∉ (agent.updatePair p.ptr
            (fun q => priv_remove_stun_transaction q k)).allPairs.map (fun q => q.ptr) := by
          intro hm
          apply hfresh
          rw [allPairs_updatePair, List.map_map] at hm
          obtain ⟨q0, hq0, hq0x⟩ := List.mem_map.1 hm
          refine List.mem_map.2 ⟨q0, hq0, ?_⟩
          rw [← hq0x]
          simp only [Function.comp]
          split_ifs <;> rfl
        obtain ⟨x, hxeq⟩ : ∃ x, ok_pair = some x := by
          rcases hok with h | h
          · exact ⟨_, h⟩
          · exact ⟨_, h⟩
        have hx : x = p1.ptr ∨ x = new_pair := by
          rcases hok with h | h
          · left; rw [hptr]; rw [hxeq] at h; exact Option.some.inj h
          · right; rw [hxeq] at h; exact Option.some.inj h
        rw [hxeq] at h1
        rw [← h3, hxeq]
        simp only [Option.getD_some]
        rw [← h2] at hx
        exact priv_process_response_check_for_reflexive_valid E _ stream_id component_id _
          sockptr resp.mapped local_candidate rcand new_pair x hfresh1 h1 hx

/-- Claim C3, counterexample: in the compatibility mode `NICE_COMPATIBILITY_GOOGLE`, a
controlling agent with no nominated pair runs `conn_check_send` on its Waiting pair, alone
or within one scheduler tick, and the pair comes out nominated and not valid. -/
theorem legacy_conn_check_send_nominates_without_valid :
    nominated_implies_valid (ex_agent NICE_COMPATIBILITY_GOOGLE ex_list []) ∧
    ¬ nominated_implies_valid
      (conn_check_send ext0 0 (ex_agent NICE_COMPATIBILITY_GOOGLE ex_list []) 11).2 ∧
    ¬ nominated_implies_valid
      (priv_conn_check_tick_agent_locked ext0 0
        (ex_agent NICE_COMPATIBILITY_GOOGLE ex_list [])).2 := by
  decide

/-- The slip left out of the amended claim C3, evaluated: a controlling RFC 5245 agent in
aggressive nomination with `force_relay` set gets the success response to the check of pair
12, with a mapped address that is the address of no local candidate.
`priv_process_response_check_for_reflexive` creates no pair and returns NULL, and the success
branch nominates pair 12, which nothing has marked valid. -/
theorem forced_relay_response_nominates_without_valid :
    nominated_implies_valid
      { ex_agent_aggressive [ex_pair_in_progress] ⟨none, none, 0, 0⟩ with
        force_relay := true } ∧
    ¬ response_marks_ok_pair_valid ext0
      { ex_agent_aggressive [ex_pair_in_progress] ⟨none, none, 0, 0⟩ with force_relay := true }
      1 1 ex_sock ex_remote.addr (some ex_local) (some ex_remote)
      ⟨7012, STUN_USAGE_ICE_RETURN_SUCCESS, ⟨3325256999, 7000⟩⟩ 14 ex_pair_in_progress 0 ∧
    (stream_pairs (priv_map_reply_to_conn_check_request ext0
      { ex_agent_aggressive [ex_pair_in_progress] ⟨none, none, 0, 0⟩ with force_relay := true }
      1 1 ex_sock ex_remote.addr (some ex_local) (some ex_remote)
      ⟨7012, STUN_USAGE_ICE_RETURN_SUCCESS, ⟨3325256999, 7000⟩⟩ 14).2 1).map
      (fun q => (q.ptr, q.state, q.valid, q.nominated)) =
      [(12, NICE_CHECK_SUCCEEDED, false, true)] := by
  refine ⟨by decide, by decide, by decide⟩

/-- Claim C3, amended: starting from an agent in which every nominated pair is valid, in the
compatibility modes RFC 5245 and OC2007R2 `conn_check_send`,
`priv_conn_check_tick_stream_nominate`, a whole scheduler tick and `priv_mark_pair_nominated`
leave every nominated pair valid; in every compatibility mode so does
`priv_process_response_check_for_reflexive` (the pair `priv_add_peer_reflexive_pair` creates
with the nominated flag of its parent is made valid by this caller), and so does the success
branch of `priv_map_reply_to_conn_check_request`, the pair `ok_pair` it nominates included, on
the paths where the code writes `valid`: the response has no mapped address,
`priv_process_response_check_for_reflexive` returns the pair of the response itself, or it
returns the pair it has created at a fresh address. -/
theorem nominated_implies_valid_preserved (E : Ext) (agent : NiceAgent)
    (h : nominated_implies_valid agent) :
    (NICE_AGENT_IS_COMPATIBLE_WITH_RFC5245_OR_OC2007R2 agent = true →
      (∀ now pair, nominated_implies_valid (conn_check_send E now agent pair).2) ∧
      (∀ stream_id,
        nominated_implies_valid (priv_conn_check_tick_stream_nominate E agent stream_id).2) ∧
      (∀ now, nominated_implies_valid (priv_conn_check_tick_agent_locked E now agent).2) ∧
      (∀ stream_id component_id localcand remotecand,
        nominated_implies_valid
          (priv_mark_pair_nominated E agent stream_id component_id localcand remotecand))) ∧
    (∀ stream_id component_id p sockptr mapped local_candidate remote_candidate new_pair,
      nominated_implies_valid
        (priv_process_response_check_for_reflexive E agent stream_id component_id p sockptr
          mapped local_candidate remote_candidate new_pair).2) ∧
    (∀ stream_id component_id sockptr from_ local_candidate remote_candidate resp new_pair p k,
      new_pair ∉ agent.allPairs.map (fun q => q.ptr) →
      response_marks_ok_pair_valid E agent stream_id component_id sockptr from_
        local_candidate remote_candidate resp new_pair p k →
      nominated_implies_valid (map_reply_success E agent stream_id component_id sockptr
        from_ local_candidate remote_candidate resp new_pair p k)) := by
  refine ⟨fun hrfc => ?_, ?_, ?_⟩
  · have hN : NominationSafe (NICE_AGENT_IS_COMPATIBLE_WITH_RFC5245_OR_OC2007R2 agent)
        (fun q : CandidateCheckPair => q.nominated = true → q.valid = true) := by
      rw [hrfc]; exact nominationSafe_nominated_valid
    refine ⟨fun now pair => ?_, fun stream_id => ?_, fun now => ?_,
      fun stream_id component_id localcand remotecand => ?_⟩
    · exact (Keeps_conn_check_send E now _ flagsOnly_nominated_valid agent pair hN).2 h
    · exact (Keeps_priv_conn_check_tick_stream_nominate E _ flagsOnly_nominated_valid agent
        stream_id hN).2 h
    · exact (Keeps_priv_conn_check_tick_agent_locked E now _ flagsOnly_nominated_valid agent
        hN).2 h
    · exact (Keeps_priv_mark_pair_nominated E _ flagsOnly_nominated_valid agent stream_id
        component_id localcand remotecand hN).2 h
  · intro stream_id component_id p sockptr mapped local_candidate remote_candidate new_pair
    exact (Keeps_priv_process_response_check_for_reflexive E _ flagsOnly_nominated_valid agent
      stream_id component_id p sockptr mapped local_candidate remote_candidate new_pair
      (fun q _ _ _ => rfl) (fun q _ _ hv _ => hv)).2 h
  · intro stream_id component_id sockptr from_ local_candidate remote_candidate resp new_pair
      p k hfresh hpath
    exact map_reply_success_nominated_valid E agent stream_id component_id sockptr from_
      local_candidate remote_candidate resp new_pair p k h
      (response_marks_ok_pair_valid_spec E agent stream_id component_id sockptr from_
        local_candidate remote_candidate resp new_pair p k hfresh hpath)

/-- Claim C3, witness: the theorem on three RFC 5245 agents.  The agent of the
counterexample, in RFC 5245 compatibility instead, has no nominated pair after a tick.  The
agent in regular nomination whose check of the chosen valid pair 12 is in flight gets the
response mapped to the local candidate of the pair: pair 12 comes out nominated, and every
nominated pair is valid.  The agent in aggressive nomination gets the response to the check
of pair 12 mapped to the peer-reflexive candidate: the pair 14 it creates comes out nominated
and valid. -/
theorem nominated_implies_valid_preserved_witness :
    nominated_implies_valid (ex_agent NICE_COMPATIBILITY_RFC5245 ex_list []) ∧
    nominated_implies_valid
      (priv_conn_check_tick_agent_locked ext0 0
        (ex_agent NICE_COMPATIBILITY_RFC5245 ex_list [])).2 ∧
    (stream_pairs (map_reply_success ext0 ex_agent_nomination_check_sent 1 1 ex_sock
      ex_remote.addr (some ex_local) (some ex_remote)
      ⟨7012, STUN_USAGE_ICE_RETURN_SUCCESS, ex_local.addr⟩ 15
      ((ex_agent_nomination_check_sent.findPair 12).getD default) 0) 1).map
      (fun q => (q.ptr, q.state, q.valid, q.nominated)) =
      [(12, NICE_CHECK_SUCCEEDED, true, true)] ∧
    nominated_implies_valid (map_reply_success ext0 ex_agent_nomination_check_sent 1 1 ex_sock
      ex_remote.addr (some ex_local) (some ex_remote)
      ⟨7012, STUN_USAGE_ICE_RETURN_SUCCESS, ex_local.addr⟩ 15
      ((ex_agent_nomination_check_sent.findPair 12).getD default) 0) ∧
    (stream_pairs (map_reply_success ext0
      (ex_agent_aggressive [ex_pair_in_progress] ⟨none, none, 0, 0⟩) 1 1 ex_sock
      ex_remote.addr (some ex_local) (some ex_remote)
      ⟨7012, STUN_USAGE_ICE_RETURN_SUCCESS, ex_prflx.addr⟩ 14 ex_pair_in_progress 0) 1).map
      (fun q => (q.ptr, q.state, q.valid, q.nominated)) =
      [(12, NICE_CHECK_SUCCEEDED, false, false), (14, NICE_CHECK_DISCOVERED, true, true)] ∧
    nominated_implies_valid (map_reply_success ext0
      (ex_agent_aggressive [ex_pair_in_progress] ⟨none, none, 0, 0⟩) 1 1 ex_sock
      ex_remote.addr (some ex_local) (some ex_remote)
      ⟨7012, STUN_USAGE_ICE_RETURN_SUCCESS, ex_prflx.addr⟩ 14 ex_pair_in_progress 0) :=
  ⟨by decide,
    ((nominated_implies_valid_preserved ext0 (ex_agent NICE_COMPATIBILITY_RFC5245 ex_list [])
      (by decide)).1 (by decide)).2.2.1 0,
    by decide,
    (nominated_implies_valid_preserved ext0 ex_agent_nomination_check_sent (by decide)).2.2
      1 1 ex_sock ex_remote.addr (some ex_local) (some ex_remote)
      ⟨7012, STUN_USAGE_ICE_RETURN_SUCCESS, ex_local.addr⟩ 15
      ((ex_agent_nomination_check_sent.findPair 12).getD default) 0 (by decide) (by decide),
    by decide,
    (nominated_implies_valid_preserved ext0
      (ex_agent_aggressive [ex_pair_in_progress] ⟨none, none, 0, 0⟩) (by decide)).2.2
      1 1 ex_sock ex_remote.addr (some ex_local) (some ex_remote)
      ⟨7012, STUN_USAGE_ICE_RETURN_SUCCESS, ex_prflx.addr⟩ 14 ex_pair_in_progress 0
      (by decide) (by decide)⟩

/-! ## The flag `valid` is set on a response from the remote address only -/

theorem flagsOnly_valid_since (before : NiceAgent) :
    FlagsOnly (fun q : CandidateCheckPair => q.valid = true →
      (∃ q0 ∈ before.allPairs, q0.ptr = q.ptr ∧ q0.valid = true) ∨ False) := by
  intro q q1 h1 _ h3 _ hq hv
  rw [h1]; exact hq (by rw [← h3]; exact hv)

theorem AllPairs_valid_since (allowed : CandidateCheckPair → Prop) (agent : NiceAgent) :
    AllPairs (fun q : CandidateCheckPair => q.valid = true →
      (∃ q0 ∈ agent.allPairs, q0.ptr = q.ptr ∧ q0.valid = true) ∨ allowed q) agent :=
  fun q hq hv => Or.inl ⟨q, hq, rfl, hv⟩

theorem remote_of_updated_pair (agent : NiceAgent) (p : CandidateCheckPair) (k : Nat)
    (hu : ∀ q0 ∈ agent.allPairs, q0.ptr = p.ptr → q0.remote = p.remote) :
    (((agent.updatePair p.ptr (fun q => priv_remove_stun_transaction q k)).findPair
      p.ptr).getD p).remote = p.remote := by
  cases hf : (agent.updatePair p.ptr (fun q => priv_remove_stun_transaction q k)).findPair
      p.ptr with
  | none => rfl
  | some q1 =>
    obtain ⟨hmem, hptr⟩ := mem_allPairs_of_findPair _ _ _ hf
    rw [allPairs_updatePair, List.mem_map] at hmem
    obtain ⟨q0, hq0, hq1⟩ := hmem
    simp only [Option.getD_some]
    rw [← hq1] at hptr ⊢
    split_ifs at hptr ⊢ with hx
    · exact hu q0 hq0 hx
    · exact absurd hptr hx

theorem map_reply_valid_only_from_remote (E : Ext) (agent : NiceAgent)
    (stream_id component_id : Nat) (sockptr : NiceSocket) (from_ : NiceAddress)
    (local_candidate remote_candidate : Option NiceCandidate) (resp : StunResponse)
    (new_pair : Nat)
    (hnd : (agent.allPairs.map (fun q => q.ptr)).Nodup)
    (hfresh : new_pair ∉ agent.allPairs.map (fun q => q.ptr)) :
    valid_set_only_when (fun q => nice_address_equal from_ q.remote.addr = true) agent
      (priv_map_reply_to_conn_check_request E agent stream_id component_id sockptr from_
        local_candidate remote_candidate resp new_pair).2 := by
  have hu : ∀ p ∈ agent.allPairs, ∀ q0 ∈ agent.allPairs, q0.ptr = p.ptr → q0 = p :=
    fun p hp q0 hq0 hx => List.inj_on_of_nodup_map hnd hq0 hp hx
  have hk := (Keeps_priv_map_reply_to_conn_check_request E
    (fun q : CandidateCheckPair =>
      (q.valid = true → (∃ q0 ∈ agent.allPairs, q0.ptr = q.ptr ∧ q0.valid = true) ∨
        nice_address_equal from_ q.remote.addr = true) ∧
      (∀ p0 ∈ agent.allPairs, q.ptr = p0.ptr → q.remote = p0.remote) ∧
      (q.ptr = new_pair → nice_address_equal from_ q.remote.addr = true))
    ?_ agent stream_id component_id sockptr from_ local_candidate remote_candidate resp
    new_pair ?_ ?_ ?_).2 ?_
  · exact fun q hq => (hk q hq).1
  · intro q q1 h1 h2 h3 _ hq
    refine ⟨fun hv => ?_, fun p0 hp0 hx => ?_, fun hx => ?_⟩
    · rw [h1, h2]; exact hq.1 (by rw [← h3]; exact hv)
    · rw [h2]; exact hq.2.1 p0 hp0 (by rw [← h1]; exact hx)
    · rw [h2]; exact hq.2.2 (by rw [← h1]; exact hx)
  · intro p hp hfrom q hq hx
    have ha : nice_address_equal from_ q.remote.addr = true := by
      rcases hx with hx | hx
      · rw [hq.2.1 p hp hx]; exact hfrom
      · exact hq.2.2 hx
    exact ⟨fun _ => Or.inr ha, hq.2.1, hq.2.2⟩
  · intro p hp hfrom k q hptr hrem _
    rw [remote_of_updated_pair agent p k
      (fun q0 hq0 hx => by rw [hu p hp q0 hq0 hx])] at hrem
    have ha : nice_address_equal from_ q.remote.addr = true := by rw [hrem]; exact hfrom
    refine ⟨fun _ => Or.inr ha, fun p0 hp0 hx => ?_, fun _ => ha⟩
    exact absurd (List.mem_map.mpr ⟨p0, hp0, by rw [← hx, hptr]⟩) hfresh
  · intro q hq
    exact hq
  · intro q hq
    refine ⟨fun hv => Or.inl ⟨q, hq, rfl, hv⟩, fun p0 hp0 hx => ?_, fun hx => ?_⟩
    · rw [hu p0 hp0 q hq hx]
    · exact absurd (List.mem_map.mpr ⟨q, hq, hx⟩) hfresh

theorem valid_set_only_when_of_Keeps (before after : NiceAgent)
    (hk : Keeps (fun q : CandidateCheckPair => q.valid = true →
      (∃ q0 ∈ before.allPairs, q0.ptr = q.ptr ∧ q0.valid = true) ∨ False) before after) :
    valid_set_only_when (fun _ => False) before after :=
  hk.2 (AllPairs_valid_since (fun _ => False) before)

theorem nominationSafe_valid_since (rfc : Bool) (before : NiceAgent) :
    NominationSafe rfc (fun q : CandidateCheckPair => q.valid = true →
      (∃ q0 ∈ before.allPairs, q0.ptr = q.ptr ∧ q0.valid = true) ∨ False) :=
  fun _ hq _ => hq

/-- Claim C4: after `priv_map_reply_to_conn_check_request`, called on an agent whose pairs
have distinct addresses with `new_pair` the address of a pair not yet allocated, every valid
pair was valid before the call or has a remote candidate whose address equals the source
address `from` of the response; and a scheduler tick, `priv_mark_pair_nominated`,
`priv_add_new_check_pair` and `priv_check_for_role_conflict` leave no pair valid that was not
valid before. -/
theorem valid_set_only_on_response_from_remote (E : Ext) (agent : NiceAgent) :
    (∀ stream_id component_id sockptr from_ local_candidate remote_candidate resp new_pair,
      (agent.allPairs.map (fun q => q.ptr)).Nodup →
      new_pair ∉ agent.allPairs.map (fun q => q.ptr) →
      valid_set_only_when (fun q => nice_address_equal from_ q.remote.addr = true) agent
        (priv_map_reply_to_conn_check_request E agent stream_id component_id sockptr from_
          local_candidate remote_candidate resp new_pair).2) ∧
    (∀ now, valid_set_only_when (fun _ => False) agent
      (priv_conn_check_tick_agent_locked E now agent).2) ∧
    (∀ stream_id component_id localcand remotecand,
      valid_set_only_when (fun _ => False) agent
        (priv_mark_pair_nominated E agent stream_id component_id localcand remotecand)) ∧
    (∀ stream_id component local_ remote initial_state new_pair,
      valid_set_only_when (fun _ => False) agent
        (priv_add_new_check_pair E agent stream_id component local_ remote initial_state
          new_pair).2) ∧
    (∀ control, valid_set_only_when (fun _ => False) agent
      (priv_check_for_role_conflict E agent control)) := by
  refine ⟨?_, fun now => ?_, fun stream_id component_id localcand remotecand => ?_,
    fun stream_id component local_ remote initial_state new_pair => ?_, fun control => ?_⟩
  · intro stream_id component_id sockptr from_ local_candidate remote_candidate resp new_pair
      hnd hfresh
    exact map_reply_valid_only_from_remote E agent stream_id component_id sockptr from_
      local_candidate remote_candidate resp new_pair hnd hfresh
  · exact valid_set_only_when_of_Keeps agent _
      (Keeps_priv_conn_check_tick_agent_locked E now _ (flagsOnly_valid_since agent) agent
        (nominationSafe_valid_since _ agent))
  · exact valid_set_only_when_of_Keeps agent _
      (Keeps_priv_mark_pair_nominated E _ (flagsOnly_valid_since agent) agent stream_id
        component_id localcand remotecand (nominationSafe_valid_since _ agent))
  · exact valid_set_only_when_of_Keeps agent _
      (Keeps_priv_add_new_check_pair E _ (flagsOnly_valid_since agent)
        (fun q hv _ hv1 => absurd (hv.symm.trans hv1) (by decide)) agent stream_id component
        local_ remote initial_state new_pair)
  · exact valid_set_only_when_of_Keeps agent _
      (Keeps_priv_check_for_role_conflict E _ (flagsOnly_valid_since agent) agent control)

/-- Claim C4, witness (scenario S3): the response to the check of pair 12 comes from the
address of its remote candidate and reports an unknown mapped address; the pairs of the
example agent have the distinct addresses 11 and 12, the new pair is allocated at 13, and the
only pair that comes out valid has that remote candidate. -/
theorem valid_set_only_on_response_from_remote_witness :
    ((ex_agent NICE_COMPATIBILITY_RFC5245 ex_list_in_progress []).allPairs.map
      (fun q => q.ptr)).Nodup ∧
    13 ∉ (ex_agent NICE_COMPATIBILITY_RFC5245 ex_list_in_progress []).allPairs.map
      (fun q => q.ptr) ∧
    valid_set_only_when (fun q => nice_address_equal ex_remote.addr q.remote.addr = true)
      (ex_agent NICE_COMPATIBILITY_RFC5245 ex_list_in_progress [])
      (priv_map_reply_to_conn_check_request ext0
        (ex_agent NICE_COMPATIBILITY_RFC5245 ex_list_in_progress []) 1 1 ex_sock ex_remote.addr
        (some ex_local) (some ex_remote)
        ⟨7012, STUN_USAGE_ICE_RETURN_SUCCESS, ⟨3325256455, 40000⟩⟩ 13).2 :=
  ⟨by decide, by decide,
    (valid_set_only_on_response_from_remote ext0
      (ex_agent NICE_COMPATIBILITY_RFC5245 ex_list_in_progress [])).1 1 1 ex_sock
      ex_remote.addr (some ex_local) (some ex_remote)
      ⟨7012, STUN_USAGE_ICE_RETURN_SUCCESS, ⟨3325256455, 40000⟩⟩ 13 (by decide) (by decide)⟩

/-! ## Transactions of Failed and Succeeded pairs -/

/-- Claim C14, evaluation at the failing inputs: pair 12 holds two transactions; a success
response without mapped address that answers the older one leaves the pair Succeeded with the
newer transaction still in its list, and a triggered check of the pair whose request cannot
be encoded leaves the pair Failed with both transactions in its list. -/
theorem succeeded_and_failed_pairs_keep_transactions :
    ((priv_map_reply_to_conn_check_request ext0
        (ex_agent NICE_COMPATIBILITY_RFC5245 ex_list_two_transactions []) 1 1 ex_sock
        ex_remote.addr (some ex_local) (some ex_remote)
        ⟨7012, STUN_USAGE_ICE_RETURN_NO_MAPPED_ADDRESS, ⟨0, 0⟩⟩ 13).2.findPair 12).map
      (fun q => (q.state, q.stun_transactions)) =
      some (NICE_CHECK_SUCCEEDED, [ex_transaction_retry]) ∧
    ((priv_conn_check_triggered_check ext_no_request 0
        (ex_agent NICE_COMPATIBILITY_RFC5245 ex_list_two_transactions [12])).2.findPair 12).map
      (fun q => (q.state, q.stun_transactions)) =
      some (NICE_CHECK_FAILED, [ex_transaction_retry, ex_transaction]) := by
  decide

/-! ## The cap on the size of the conncheck list -/

theorem priv_limit_conn_check_list_size_loop_spec (max_conn_checks pair : Nat)
    (l : List CandidateCheckPair) (valid : Nat) (queue : List Nat) :
    (priv_limit_conn_check_list_size_loop max_conn_checks pair l valid queue).1 =
      ((l.enumFrom valid).filter
        (fun ip => !limit_removes max_conn_checks (ip.1 + 1) ip.2)).map Prod.snd ∧
    ((priv_limit_conn_check_list_size_loop max_conn_checks pair l valid queue).2.2 = true ↔
      ∃ ip ∈ l.enumFrom valid, limit_removes max_conn_checks (ip.1 + 1) ip.2 = true ∧
        ip.2.ptr = pair) := by
  induction l generalizing valid queue with
  | nil => simp [priv_limit_conn_check_list_size_loop]
  | cons p ps ih =>
    unfold priv_limit_conn_check_list_size_loop
    have hrem : limit_removes max_conn_checks (valid + 1) p = true ↔
        ((valid + 1 > max_conn_checks ∧ p.state = NICE_CHECK_FROZEN) ∨
          p.state = NICE_CHECK_FAILED) := by
      simp only [limit_removes, Bool.or_eq_true, Bool.and_eq_true, beq_iff_eq,
        decide_eq_true_eq]
      tauto
    by_cases hc : (valid + 1 > max_conn_checks ∧ p.state = NICE_CHECK_FROZEN) ∨
        p.state = NICE_CHECK_FAILED
    · rw [if_pos hc]
      have hr := hrem.mpr hc
      obtain ⟨h1, h2⟩ := ih (valid + 1) (g_slist_remove queue p.ptr)
      refine ⟨?_, ?_⟩
      · simp only [List.enumFrom_cons, List.filter_cons, hr, Bool.not_true,
          Bool.false_eq_true, if_false]
        exact h1
      · simp only [Bool.or_eq_true, decide_eq_true_eq, h2, List.enumFrom_cons,
          List.mem_cons, exists_eq_or_imp, hr, true_and]
    · rw [if_neg hc]
      have hr : limit_removes max_conn_checks (valid + 1) p = false := by
        cases hb : limit_removes max_conn_checks (valid + 1) p with
        | false => rfl
        | true => exact absurd (hrem.mp hb) hc
      obtain ⟨h1, h2⟩ := ih (valid + 1) queue
      refine ⟨?_, ?_⟩
      · simp only [List.enumFrom_cons, List.filter_cons, hr, Bool.not_false, if_true,
          List.map_cons]
        rw [h1]
      · simp only [h2, List.enumFrom_cons, List.mem_cons, exists_eq_or_imp, hr,
          Bool.false_eq_true, false_and, false_or]

theorem agent_find_stream_updateStream (agent : NiceAgent) (stream_id sid : Nat)
    (f : NiceStream → NiceStream) (hf : ∀ s, (f s).id = s.id) :
    agent_find_stream (agent.updateStream stream_id f) sid =
      (agent_find_stream agent sid).map (fun s => if s.id = stream_id then f s else s) := by
  unfold agent_find_stream NiceAgent.updateStream
  simp only
  apply find?_map_of_comm
  intro s
  split_ifs
  · rw [hf]
  · rfl

theorem agent_find_stream_updatePair (agent : NiceAgent) (p sid : Nat)
    (f : CandidateCheckPair → CandidateCheckPair) :
    agent_find_stream (agent.updatePair p f) sid =
      (agent_find_stream agent sid).map (fun s =>
        { s with conncheck_list := updatePairIn s.conncheck_list p f }) := by
  unfold agent_find_stream NiceAgent.updatePair
  simp only
  apply find?_map_of_comm
  intro s
  rfl

theorem mem_enum_iff_getElem? {α : Type} (l : List α) (i : Nat) (x : α) :
    (i, x) ∈ l.enum ↔ l[i]? = some x := by
  rw [List.mk_mem_enum_iff_getElem?]

/-- Claim C20: `priv_limit_conn_check_list_size` leaves in the conncheck list of the stream
exactly the pairs that are neither in state Failed nor in state Frozen at a position, counted
from 1 in the list before the call, greater than `max_conn_checks`, in their order and
unmodified; so every pair in state Waiting, InProgress, Succeeded or Discovered stays; and it
returns TRUE exactly when the pair given as argument is one of the removed pairs. -/
theorem limit_conn_check_list_size_removes_only_frozen_and_failed (agent : NiceAgent)
    (stream_id pair : Nat) (stream : NiceStream)
    (hstream : agent_find_stream agent stream_id = some stream) :
    (agent_find_stream (priv_limit_conn_check_list_size agent stream_id pair).2 stream_id).map
        (fun s => s.conncheck_list) =
      some (limit_keeps agent.max_conn_checks stream.conncheck_list) ∧
    (∀ p ∈ stream.conncheck_list,
      p.state = NICE_CHECK_WAITING ∨ p.state = NICE_CHECK_IN_PROGRESS ∨
        p.state = NICE_CHECK_SUCCEEDED ∨ p.state = NICE_CHECK_DISCOVERED →
      p ∈ limit_keeps agent.max_conn_checks stream.conncheck_list) ∧
    (List.Sublist (limit_keeps agent.max_conn_checks stream.conncheck_list)
      stream.conncheck_list) ∧
    ((priv_limit_conn_check_list_size agent stream_id pair).1 = true ↔
      ∃ i p, stream.conncheck_list[i]? = some p ∧
        limit_removes agent.max_conn_checks (i + 1) p = true ∧ p.ptr = pair) := by
  have hsid := (agent_find_stream_some agent stream_id stream hstream).2
  obtain ⟨h1, h2⟩ := priv_limit_conn_check_list_size_loop_spec agent.max_conn_checks pair
    stream.conncheck_list 0 agent.triggered_check_queue
  refine ⟨?_, ?_, ?_, ?_⟩
  · unfold priv_limit_conn_check_list_size
    rw [hstream]
    simp only
    have : agent_find_stream
        { agent.updateStream stream_id (fun s => { s with conncheck_list :=
            (priv_limit_conn_check_list_size_loop agent.max_conn_checks pair
              stream.conncheck_list 0 agent.triggered_check_queue).1 }) with
          triggered_check_queue :=
            (priv_limit_conn_check_list_size_loop agent.max_conn_checks pair
              stream.conncheck_list 0 agent.triggered_check_queue).2.1 } stream_id =
        agent_find_stream (agent.updateStream stream_id (fun s => { s with conncheck_list :=
            (priv_limit_conn_check_list_size_loop agent.max_conn_checks pair
              stream.conncheck_list 0 agent.triggered_check_queue).1 })) stream_id := rfl
    rw [this, agent_find_stream_updateStream _ _ _ _ ?_, hstream]
    · simp only [Option.map_some', hsid, if_true, h1, limit_keeps, List.enum]
    · intro s; rfl
  · intro p hp hstate
    obtain ⟨i, hi⟩ := List.getElem?_of_mem hp
    unfold limit_keeps
    rw [List.mem_map]
    refine ⟨(i, p), ?_, rfl⟩
    rw [List.mem_filter]
    refine ⟨(mem_enum_iff_getElem? _ _ _).mpr hi, ?_⟩
    simp only [limit_removes]
    rcases hstate with h | h | h | h <;> simp [h]
  · unfold limit_keeps
    have hs : List.Sublist
        ((stream.conncheck_list.enum.filter
          (fun ip => !limit_removes agent.max_conn_checks (ip.1 + 1) ip.2)).map Prod.snd)
        (stream.conncheck_list.enum.map Prod.snd) :=
      List.Sublist.map _ (List.filter_sublist _)
    rw [List.enum_map_snd] at hs
    exact hs
  · unfold priv_limit_conn_check_list_size
    rw [hstream]
    simp only
    rw [h2]
    constructor
    · rintro ⟨⟨i, p⟩, hmem, hr, hptr⟩
      exact ⟨i, p, (mem_enum_iff_getElem? _ _ _).mp hmem, hr, hptr⟩
    · rintro ⟨i, p, hi, hr, hptr⟩
      exact ⟨(i, p), (mem_enum_iff_getElem? _ _ _).mpr hi, hr, hptr⟩

/-- Claim C20, witness: with `max_conn_checks` 1, the Frozen pair 12 at position 2 of the
example list is removed, the Waiting pair 11 stays, and the function returns TRUE for
pair 12. -/
theorem limit_conn_check_list_size_removes_only_frozen_and_failed_witness :
    agent_find_stream ex_agent_capped 1 = some (ex_stream ex_list) ∧
    (agent_find_stream (priv_limit_conn_check_list_size ex_agent_capped 1 12).2 1).map
        (fun s => s.conncheck_list) =
      some [ex_pair 11 ex_remote2 NICE_CHECK_WAITING 9115005265987371519] ∧
    (priv_limit_conn_check_list_size ex_agent_capped 1 12).1 = true :=
  ⟨by decide,
    (limit_conn_check_list_size_removes_only_frozen_and_failed ex_agent_capped 1 12
      (ex_stream ex_list) (by decide)).1.trans (by decide),
    (limit_conn_check_list_size_removes_only_frozen_and_failed ex_agent_capped 1 12
      (ex_stream ex_list) (by decide)).2.2.2.mpr
      ⟨1, ex_pair 12 ex_remote NICE_CHECK_FROZEN 7241540810645045759, by decide, by decide,
        by decide⟩⟩

/-! ## Components that failed -/

theorem agent_find_component_updateComponent_any (agent : NiceAgent)
    (stream_id component_id sid cid : Nat) (f : NiceComponent → NiceComponent)
    (hf : ∀ c, (f c).id = c.id) :
    (agent_find_component (agent.updateComponent stream_id component_id f) sid cid).map
        (fun r => (r.1.conncheck_list, r.2)) =
      (agent_find_component agent sid cid).map (fun r => (r.1.conncheck_list,
        if sid = stream_id ∧ cid = component_id then f r.2 else r.2)) := by
  unfold agent_find_component NiceAgent.updateComponent
  rw [agent_find_stream_updateStream _ _ _ _ ?_]
  · cases h1 : agent_find_stream agent sid with
    | none => rfl
    | some s =>
      have hs : s.id = sid := (agent_find_stream_some agent sid s h1).2
      simp only [Option.map_some', hs]
      by_cases hsid : sid = stream_id
      · simp only [hsid, if_true, true_and]
        unfold nice_stream_find_component_by_id
        simp only
        rw [find?_map_of_comm _ _ _ ?_]
        · cases h2 : s.components.find? (fun c => c.id == cid) with
          | none => rfl
          | some c =>
            have hc : c.id = cid := by simpa using List.find?_some h2
            simp only [Option.map_some', hc]
        · intro c
          split_ifs
          · rw [hf]
          · rfl
      · simp only [hsid, if_false, false_and]
  · intro s; rfl

theorem agent_find_component_signal (agent : NiceAgent)
    (stream_id component_id sid cid : Nat) (st : NiceComponentState) :
    (agent_find_component (agent_signal_component_state_change agent stream_id component_id st)
        sid cid).map (fun r => (r.1.conncheck_list, r.2)) =
      (agent_find_component agent sid cid).map (fun r => (r.1.conncheck_list,
        if sid = stream_id ∧ cid = component_id then { r.2 with state := st } else r.2)) := by
  unfold agent_signal_component_state_change
  cases h : agent_find_component agent stream_id component_id with
  | none =>
    simp only
    by_cases hx : sid = stream_id ∧ cid = component_id
    · rw [hx.1, hx.2, h]; rfl
    · simp only [hx, if_false]
  | some r =>
    obtain ⟨s, c⟩ := r
    simp only
    by_cases hst : c.state = st
    · rw [if_pos hst]
      by_cases hx : sid = stream_id ∧ cid = component_id
      · rw [hx.1, hx.2, h]
        simp only [Option.map_some', and_self, if_true, Option.some.injEq, Prod.mk.injEq,
          true_and]
        rw [← hst]
      · simp only [hx, if_false]
    · rw [if_neg hst]
      have : agent_find_component
          { agent.updateComponent stream_id component_id (fun c => { c with state := st }) with
            signals := (agent.updateComponent stream_id component_id
              (fun c => { c with state := st })).signals ++
                [⟨stream_id, component_id, st⟩] } sid cid =
          agent_find_component (agent.updateComponent stream_id component_id
            (fun c => { c with state := st })) sid cid := rfl
      rw [this]
      exact agent_find_component_updateComponent_any agent stream_id component_id sid cid _
        (fun _ => rfl)

theorem signals_agent_signal_component_state_change (agent : NiceAgent)
    (stream_id component_id : Nat) (st : NiceComponentState) :
    (agent_signal_component_state_change agent stream_id component_id st).signals =
      agent.signals ++
        (match agent_find_component agent stream_id component_id with
          | some r => if r.2.state = st then [] else [⟨stream_id, component_id, st⟩]
          | none => []) := by
  unfold agent_signal_component_state_change
  cases h : agent_find_component agent stream_id component_id with
  | none => simp
  | some r =>
    obtain ⟨s, c⟩ := r
    simp only
    split_ifs
    · simp
    · rfl

theorem component_checks_failed_iff (l : List CandidateCheckPair) (component : NiceComponent) :
    (((l.filter (fun p => p.component_id == component.id)).all (fun p =>
        p.state == NICE_CHECK_FAILED || p.state == NICE_CHECK_SUCCEEDED ||
        p.state == NICE_CHECK_DISCOVERED)) = true ∧
      ((l.filter (fun p => p.component_id == component.id)).filter
        (fun p => p.nominated)).length = 0 ∧ component.remote_candidates ≠ []) ↔
    component_checks_failed l component := by
  unfold component_checks_failed
  simp only [List.all_eq_true, List.mem_filter, beq_iff_eq, Bool.or_eq_true, and_imp,
    List.length_eq_zero, List.filter_eq_nil_iff, Bool.not_eq_true, or_assoc]

theorem failed_components_loop_view (stream_id : Nat) (cs : List Nat) (agent : NiceAgent)
    (hcs : cs.Nodup) :
    (priv_update_check_list_failed_components_loop stream_id cs agent).signals =
      agent.signals ++ cs.filterMap (fun c => failed_signal agent stream_id (c + 1)) ∧
    ∀ cid, (agent_find_component
        (priv_update_check_list_failed_components_loop stream_id cs agent) stream_id cid).map
          (fun r => (r.1.conncheck_list, r.2)) =
      (agent_find_component agent stream_id cid).map (fun r => (r.1.conncheck_list,
        if (∃ c ∈ cs, cid = c + 1) ∧ component_checks_failed r.1.conncheck_list r.2 then
          { r.2 with state := NICE_COMPONENT_STATE_FAILED } else r.2)) := by
  induction cs generalizing agent with
  | nil =>
    refine ⟨by simp [priv_update_check_list_failed_components_loop], fun cid => ?_⟩
    simp [priv_update_check_list_failed_components_loop]
  | cons c cs ih =>
    have hc : c ∉ cs := (List.nodup_cons.mp hcs).1
    have hcs1 : cs.Nodup := (List.nodup_cons.mp hcs).2
    -- the agent after the iteration for `c`
    have key : ∃ a1 : NiceAgent,
        priv_update_check_list_failed_components_loop stream_id (c :: cs) agent =
          priv_update_check_list_failed_components_loop stream_id cs a1 ∧
        a1.signals = agent.signals ++ (failed_signal agent stream_id (c + 1)).toList ∧
        ∀ cid, (agent_find_component a1 stream_id cid).map
            (fun r => (r.1.conncheck_list, r.2)) =
          (agent_find_component agent stream_id cid).map (fun r => (r.1.conncheck_list,
            if cid = c + 1 ∧ component_checks_failed r.1.conncheck_list r.2 then
              { r.2 with state := NICE_COMPONENT_STATE_FAILED } else r.2)) := by
      cases hfc : agent_find_component agent stream_id (c + 1) with
      | none =>
        refine ⟨agent, ?_, ?_, fun cid => ?_⟩
        · rw [priv_update_check_list_failed_components_loop, hfc]
        · simp [failed_signal, hfc]
        · by_cases hx : cid = c + 1
          · rw [hx, hfc]; rfl
          · simp only [hx, false_and, if_false]
      | some r =>
        obtain ⟨s, comp⟩ := r
        have hid : comp.id = c + 1 :=
          (agent_find_component_some agent stream_id (c + 1) s comp hfc).2.2.2.2
        have hiff := component_checks_failed_iff s.conncheck_list comp
        rw [hid] at hiff
        by_cases hcond : component_checks_failed s.conncheck_list comp
        · refine ⟨agent_signal_component_state_change agent stream_id (c + 1)
            NICE_COMPONENT_STATE_FAILED, ?_, ?_, fun cid => ?_⟩
          · rw [priv_update_check_list_failed_components_loop, hfc]
            simp only
            rw [if_pos (hiff.mpr hcond)]
          · rw [signals_agent_signal_component_state_change, hfc]
            simp only [failed_signal, hfc, hcond, true_and]
            split_ifs <;> simp_all
          · rw [agent_find_component_signal]
            by_cases hx : cid = c + 1
            · rw [hx, hfc]
              simp [hcond]
            · simp only [hx, and_false, false_and, if_false]
        · refine ⟨agent, ?_, ?_, fun cid => ?_⟩
          · rw [priv_update_check_list_failed_components_loop, hfc]
            simp only
            rw [if_neg (fun h => hcond (hiff.mp h))]
          · simp [failed_signal, hfc, hcond]
          · by_cases hx : cid = c + 1
            · rw [hx, hfc]
              simp [hcond]
            · simp only [hx, false_and, if_false]
    obtain ⟨a1, h0, h1, h2⟩ := key
    obtain ⟨ih1, ih2⟩ := ih a1 hcs1
    rw [h0]
    have hstable : ∀ c1 ∈ cs, failed_signal a1 stream_id (c1 + 1) =
        failed_signal agent stream_id (c1 + 1) := by
      intro c1 hc1
      have hne : c1 + 1 ≠ c + 1 := by
        intro h
        have h3 : c1 = c := Nat.add_right_cancel h
        rw [h3] at hc1
        exact hc hc1
      have hv := h2 (c1 + 1)
      simp only [hne, false_and, if_false] at hv
      unfold failed_signal
      cases ha : agent_find_component agent stream_id (c1 + 1) with
      | none =>
        rw [ha] at hv
        cases hb : agent_find_component a1 stream_id (c1 + 1) with
        | none => rfl
        | some r => rw [hb] at hv; simp at hv
      | some r =>
        rw [ha] at hv
        cases hb : agent_find_component a1 stream_id (c1 + 1) with
        | none => rw [hb] at hv; simp at hv
        | some r1 =>
          rw [hb] at hv
          simp only [Option.map_some', Option.some.injEq, Prod.mk.injEq] at hv
          obtain ⟨r1s, r1c⟩ := r1
          obtain ⟨rs, rc⟩ := r
          simp only at hv ⊢
          rw [hv.1, hv.2]
    refine ⟨?_, fun cid => ?_⟩
    · rw [ih1, h1, List.filterMap_cons, List.append_assoc]
      congr 1
      rw [List.filterMap_congr hstable]
      cases failed_signal agent stream_id (c + 1) <;> rfl
    · rw [ih2 cid]
      have hv := h2 cid
      cases ha : agent_find_component agent stream_id cid with
      | none =>
        rw [ha] at hv
        cases hb : agent_find_component a1 stream_id cid with
        | none => rfl
        | some r => rw [hb] at hv; simp at hv
      | some r =>
        rw [ha] at hv
        cases hb : agent_find_component a1 stream_id cid with
        | none => rw [hb] at hv; simp at hv
        | some r1 =>
          rw [hb] at hv
          simp only [Option.map_some', Option.some.injEq, Prod.mk.injEq] at hv ⊢
          obtain ⟨r1s, r1c⟩ := r1
          obtain ⟨rs, rc⟩ := r
          simp only at hv ⊢
          obtain ⟨hl, hcomp⟩ := hv
          refine ⟨hl, ?_⟩
          rw [hl, hcomp]
          by_cases hx : cid = c + 1
          · have hnot : ¬ ∃ c1 ∈ cs, cid = c1 + 1 := by
              rintro ⟨c1, hc1, h⟩
              have h3 : c = c1 := Nat.add_right_cancel (hx.symm.trans h)
              rw [← h3] at hc1
              exact hc hc1
            by_cases hcond : component_checks_failed rs.conncheck_list rc
            · simp [hx, hcond]
            · simp [hx, hcond, hnot]
          · simp only [hx, false_and, if_false, List.mem_cons, exists_eq_or_imp, false_or]

/-- Claim C18: `priv_update_check_list_failed_components` changes nothing when the conncheck
list of the stream is empty or the discovery list of the agent is not; otherwise the signals
it adds are, in the order of the component numbers 1 to `n_components`, the signal FAILED for
each component that exists, has all its pairs in state Failed, Succeeded or Discovered, has no
nominated pair, has a remote candidate, and is not in state FAILED already; so such a
component is signalled FAILED exactly under these conditions, and it ends in state FAILED
exactly when the conditions hold or it was in that state. -/
theorem failed_components_signalled_iff (agent : NiceAgent) (stream_id : Nat)
    (stream : NiceStream) (hstream : agent_find_stream agent stream_id = some stream) :
    (stream.conncheck_list = [] ∨ agent.discovery_list ≠ [] →
      priv_update_check_list_failed_components agent stream_id = agent) ∧
    (stream.conncheck_list ≠ [] → agent.discovery_list = [] →
      (priv_update_check_list_failed_components agent stream_id).signals =
        agent.signals ++ (List.range stream.n_components).filterMap
          (fun c => failed_signal agent stream_id (c + 1)) ∧
      ∀ cid component, 1 ≤ cid → cid ≤ stream.n_components →
        agent_find_component agent stream_id cid = some (stream, component) →
        ((⟨stream_id, cid, NICE_COMPONENT_STATE_FAILED⟩ : StateSignal) ∈
            (List.range stream.n_components).filterMap
              (fun c => failed_signal agent stream_id (c + 1)) ↔
          component_checks_failed stream.conncheck_list component ∧
            component.state ≠ NICE_COMPONENT_STATE_FAILED) ∧
        component_state (priv_update_check_list_failed_components agent stream_id) stream_id
            cid =
          some (if component_checks_failed stream.conncheck_list component then
            NICE_COMPONENT_STATE_FAILED else component.state)) := by
  have hsid := (agent_find_stream_some agent stream_id stream hstream).2
  refine ⟨fun h => ?_, fun hl hd => ?_⟩
  · unfold priv_update_check_list_failed_components
    rw [hstream]
    simp only
    rcases h with h | h
    · rw [if_pos h]
    · by_cases hl : stream.conncheck_list = []
      · rw [if_pos hl]
      · rw [if_neg hl]
        split_ifs <;> rfl
  · have hfun : priv_update_check_list_failed_components agent stream_id =
        priv_update_check_list_failed_components_loop stream_id
          (List.range stream.n_components) agent := by
      unfold priv_update_check_list_failed_components
      rw [hstream]
      simp only [hd, List.any_nil, Bool.false_eq_true, if_false, ne_eq, not_true_eq_false,
        if_neg hl]
    obtain ⟨h1, h2⟩ := failed_components_loop_view stream_id (List.range stream.n_components)
      agent (List.nodup_range _)
    rw [hfun]
    refine ⟨h1, fun cid component hc1 hc2 hfc => ?_⟩
    have hin : ∃ c ∈ List.range stream.n_components, cid = c + 1 :=
      ⟨cid - 1, List.mem_range.mpr (by omega), by omega⟩
    refine ⟨?_, ?_⟩
    · rw [List.mem_filterMap]
      constructor
      · rintro ⟨c, _, hsig⟩
        unfold failed_signal at hsig
        cases hx : agent_find_component agent stream_id (c + 1) with
        | none => rw [hx] at hsig; simp at hsig
        | some r =>
          obtain ⟨s, comp⟩ := r
          rw [hx] at hsig
          simp only at hsig
          split_ifs at hsig with hcond
          simp only [Option.some.injEq, StateSignal.mk.injEq, and_true, true_and] at hsig
          rw [hsig, hfc] at hx
          simp only [Option.some.injEq, Prod.mk.injEq] at hx
          rw [hx.1, hx.2]
          exact hcond
      · intro hcond
        obtain ⟨c, hc, hcid⟩ := hin
        refine ⟨c, hc, ?_⟩
        unfold failed_signal
        rw [← hcid, hfc]
        simp only
        rw [if_pos hcond]
    · have hv := h2 cid
      unfold component_state
      rw [hfc] at hv
      cases hb : agent_find_component
          (priv_update_check_list_failed_components_loop stream_id
            (List.range stream.n_components) agent) stream_id cid with
      | none => rw [hb] at hv; simp at hv
      | some r1 =>
        rw [hb] at hv
        simp only [Option.map_some', Option.some.injEq, Prod.mk.injEq] at hv ⊢
        rw [hv.2]
        simp only [hin, true_and]
        split_ifs <;> rfl

/-- Claim C18, witness: both checks of the only component of the example stream have failed,
gathering is over, and the component, in state CONNECTING, is signalled FAILED. -/
theorem failed_components_signalled_iff_witness :
    agent_find_stream (ex_agent NICE_COMPATIBILITY_RFC5245 ex_list_failed []) 1 =
      some (ex_stream ex_list_failed) ∧
    (priv_update_check_list_failed_components
      (ex_agent NICE_COMPATIBILITY_RFC5245 ex_list_failed []) 1).signals =
      [⟨1, 1, NICE_COMPONENT_STATE_FAILED⟩] :=
  ⟨by decide,
    ((failed_components_signalled_iff (ex_agent NICE_COMPATIBILITY_RFC5245 ex_list_failed [])
      1 (ex_stream ex_list_failed) (by decide)).2 (by decide) (by decide)).1.trans
      (by decide)⟩

/-! ## The transition to READY -/

theorem mem_g_slist_remove (l : List Nat) (x y : Nat) (h : y ∈ g_slist_remove l x) : y ∈ l := by
  rw [g_slist_remove_eq_erase] at h
  exact List.mem_of_mem_erase h

theorem mem_g_slist_remove_of_ne (l : List Nat) (x y : Nat) (hne : y ≠ x) (h : y ∈ l) :
    y ∈ g_slist_remove l x := by
  rw [g_slist_remove_eq_erase]
  exact (List.mem_erase_of_ne hne).mpr h

theorem priv_prune_pending_checks_loop_queue (component_id priority : Nat)
    (l : List CandidateCheckPair) (queue : List Nat) (x : Nat) :
    (x ∈ (priv_prune_pending_checks_loop component_id priority l queue).2.1 → x ∈ queue) ∧
    (x ∈ queue → x ∉ l.map (fun p => p.ptr) →
      x ∈ (priv_prune_pending_checks_loop component_id priority l queue).2.1) := by
  induction l generalizing queue with
  | nil => simp [priv_prune_pending_checks_loop]
  | cons p ps ih =>
    have hsame := ih queue
    have hrem := ih (g_slist_remove queue p.ptr)
    have hsub : (x ∈ (priv_prune_pending_checks_loop component_id priority ps
          (g_slist_remove queue p.ptr)).2.1 → x ∈ queue) ∧
        (x ∈ queue → x ∉ (p :: ps).map (fun p => p.ptr) →
          x ∈ (priv_prune_pending_checks_loop component_id priority ps
            (g_slist_remove queue p.ptr)).2.1) := by
      refine ⟨fun h => mem_g_slist_remove _ _ _ (hrem.1 h), fun h hx => ?_⟩
      simp only [List.map_cons, List.mem_cons, not_or] at hx
      exact hrem.2 (mem_g_slist_remove_of_ne _ _ _ hx.1 h) hx.2
    have hsame1 : (x ∈ (priv_prune_pending_checks_loop component_id priority ps queue).2.1 →
          x ∈ queue) ∧
        (x ∈ queue → x ∉ (p :: ps).map (fun p => p.ptr) →
          x ∈ (priv_prune_pending_checks_loop component_id priority ps queue).2.1) := by
      refine ⟨hsame.1, fun h hx => ?_⟩
      simp only [List.map_cons, List.mem_cons, not_or] at hx
      exact hsame.2 h hx.2
    unfold priv_prune_pending_checks_loop
    repeat' split
    all_goals first
      | exact hsame1
      | exact hsub

theorem pending_checks_cons (p : CandidateCheckPair) (l : List CandidateCheckPair)
    (queue : List Nat) (component_id priority : Nat) :
    pending_checks (p :: l) queue component_id priority = [] ↔
      ¬ (p.component_id = component_id ∧ p.priority ≥ priority ∧
        (p.state = NICE_CHECK_IN_PROGRESS ∨
          (p.ptr ∈ queue ∧ p.state ≠ NICE_CHECK_IN_PROGRESS))) ∧
      pending_checks l queue component_id priority = [] := by
  unfold pending_checks
  simp only [List.filter_cons]
  by_cases h : p.component_id = component_id ∧ p.priority ≥ priority ∧
      (p.state = NICE_CHECK_IN_PROGRESS ∨ (p.ptr ∈ queue ∧ p.state ≠ NICE_CHECK_IN_PROGRESS))
  · have : (p.component_id == component_id && decide (p.priority ≥ priority) &&
        (p.state == NICE_CHECK_IN_PROGRESS ||
          (g_slist_find queue p.ptr && p.state != NICE_CHECK_IN_PROGRESS))) = true := by
      simp only [Bool.and_eq_true, beq_iff_eq, decide_eq_true_eq, Bool.or_eq_true,
        g_slist_find_iff, bne_iff_ne]
      exact ⟨⟨h.1, h.2.1⟩, h.2.2⟩
    rw [this]
    simp [h]
  · have : (p.component_id == component_id && decide (p.priority ≥ priority) &&
        (p.state == NICE_CHECK_IN_PROGRESS ||
          (g_slist_find queue p.ptr && p.state != NICE_CHECK_IN_PROGRESS))) = false := by
      rw [← Bool.not_eq_true]
      simp only [Bool.and_eq_true, beq_iff_eq, decide_eq_true_eq, Bool.or_eq_true,
        g_slist_find_iff, bne_iff_ne]
      intro hh
      exact h ⟨hh.1.1, hh.1.2, hh.2⟩
    rw [this]
    simp [h]

theorem priv_prune_pending_checks_loop_count (component_id priority : Nat)
    (l : List CandidateCheckPair) (queue : List Nat)
    (hnd : (l.map (fun p => p.ptr)).Nodup) :
    (priv_prune_pending_checks_loop component_id priority l queue).2.2.1 +
        (priv_prune_pending_checks_loop component_id priority l queue).2.2.2 = 0 ↔
      pending_checks (priv_prune_pending_checks_loop component_id priority l queue).1
        (priv_prune_pending_checks_loop component_id priority l queue).2.1
        component_id priority = [] := by
  induction l generalizing queue with
  | nil => simp [priv_prune_pending_checks_loop, pending_checks]
  | cons p ps ih =>
    simp only [List.map_cons, List.nodup_cons] at hnd
    obtain ⟨hp, hnd1⟩ := hnd
    have ihQ := ih queue hnd1
    have ihR := ih (g_slist_remove queue p.ptr) hnd1
    have hq := fun x => priv_prune_pending_checks_loop_queue component_id priority ps queue x
    unfold priv_prune_pending_checks_loop
    by_cases h1 : p.component_id ≠ component_id
    · rw [if_pos h1]
      simp only
      rw [pending_checks_cons, ihQ]
      constructor
      · intro h; exact ⟨fun hh => h1 hh.1, h⟩
      · intro h; exact h.2
    · rw [if_neg h1]
      have hcomp : p.component_id = component_id := by simpa using h1
      by_cases h2 : g_slist_find queue p.ptr = true ∧ p.state ≠ NICE_CHECK_IN_PROGRESS
      · rw [if_pos h2]
        by_cases h3 : p.priority < priority
        · rw [if_pos h3]
          exact ihR
        · rw [if_neg h3]
          simp only
          rw [pending_checks_cons]
          constructor
          · intro h; omega
          · intro h
            exfalso
            apply h.1
            refine ⟨hcomp, by omega, Or.inr ⟨?_, h2.2⟩⟩
            exact (hq p.ptr).2 ((g_slist_find_iff _ _).mp h2.1) hp
      · rw [if_neg h2]
        by_cases h3 : p.state = NICE_CHECK_FROZEN ∨ p.state = NICE_CHECK_WAITING
        · rw [if_pos h3]
          exact ihR
        · rw [if_neg h3]
          by_cases h4 : p.state = NICE_CHECK_IN_PROGRESS
          · rw [if_pos h4]
            by_cases h5 : p.priority < priority
            · rw [if_pos h5]
              simp only
              rw [pending_checks_cons, ihR]
              constructor
              · intro h
                refine ⟨fun hh => ?_, h⟩
                have := hh.2.1
                simp only at this
                omega
              · intro h; exact h.2
            · rw [if_neg h5]
              simp only
              rw [pending_checks_cons]
              constructor
              · intro h; omega
              · intro h
                exfalso
                apply h.1
                refine ⟨?_, ?_, Or.inl ?_⟩
                · split_ifs <;> exact hcomp
                · have h6 : priority ≤ p.priority := by omega
                  split_ifs <;> exact h6
                · split_ifs <;> exact h4
          · rw [if_neg h4]
            simp only
            rw [pending_checks_cons, ihQ]
            constructor
            · intro h
              refine ⟨fun hh => ?_, h⟩
              rcases hh.2.2 with hs | hs
              · exact h4 hs
              · exact h2 ⟨(g_slist_find_iff _ _).mpr ((hq p.ptr).1 hs.1), h4⟩
            · intro h; exact h.2

theorem priv_prune_pending_checks_loop_in_progress (component_id priority : Nat)
    (l : List CandidateCheckPair) (queue : List Nat) (hq : queue.Nodup)
    (p : CandidateCheckPair) (hp : p ∈ l) (hcomp : p.component_id = component_id)
    (hstate : p.state = NICE_CHECK_IN_PROGRESS) (hprio : p.priority < priority) :
    { p with retransmit := false } ∈
        (priv_prune_pending_checks_loop component_id priority l queue).1 ∧
    p.ptr ∉ (priv_prune_pending_checks_loop component_id priority l queue).2.1 := by
  induction l generalizing queue with
  | nil => simp at hp
  | cons x xs ih =>
    have hqr := (g_slist_remove_nodup queue x.ptr hq).1
    rcases List.mem_cons.mp hp with hpx | hpx
    · rw [← hpx]
      unfold priv_prune_pending_checks_loop
      have h1 : ¬ p.component_id ≠ component_id := by simpa using hcomp
      have h2 : ¬ (g_slist_find queue p.ptr = true ∧ p.state ≠ NICE_CHECK_IN_PROGRESS) :=
        fun h => h.2 hstate
      have h3 : ¬ (p.state = NICE_CHECK_FROZEN ∨ p.state = NICE_CHECK_WAITING) := by
        rw [hstate]; simp
      rw [if_neg h1, if_neg h2, if_neg h3, if_pos hstate, if_pos hprio]
      refine ⟨List.mem_cons_self _ _, fun h => ?_⟩
      exact (g_slist_remove_nodup queue p.ptr hq).2
        ((priv_prune_pending_checks_loop_queue component_id priority xs _ p.ptr).1 h)
    · have h1 := ih queue hq hpx
      have h2 := ih (g_slist_remove queue x.ptr) hqr hpx
      unfold priv_prune_pending_checks_loop
      repeat' split
      all_goals first
        | exact h1
        | exact h2
        | exact ⟨List.mem_cons_of_mem _ h1.1, h1.2⟩
        | exact ⟨List.mem_cons_of_mem _ h2.1, h2.2⟩

theorem agent_find_component_updateStream_list (agent : NiceAgent) (stream_id sid cid : Nat)
    (l : List CandidateCheckPair) :
    agent_find_component
        (agent.updateStream stream_id (fun s => { s with conncheck_list := l })) sid cid =
      (agent_find_component agent sid cid).map (fun r =>
        (if r.1.id = stream_id then { r.1 with conncheck_list := l } else r.1, r.2)) := by
  unfold agent_find_component
  rw [agent_find_stream_updateStream _ _ _ _ ?_]
  · cases h1 : agent_find_stream agent sid with
    | none => rfl
    | some s =>
      simp only [Option.map_some']
      by_cases hs : s.id = stream_id
      · rw [if_pos hs]
        unfold nice_stream_find_component_by_id
        simp only
        cases s.components.find? (fun c => c.id == cid) with
        | none => rfl
        | some c =>
          simp only [Option.map_some']
          rw [if_pos hs]
      · rw [if_neg hs]
        cases nice_stream_find_component_by_id s cid with
        | none => rfl
        | some c =>
          simp only [Option.map_some']
          rw [if_neg hs]
  · intro s; rfl

theorem find_of_view (agent : NiceAgent) (sid cid : Nat) (l : List CandidateCheckPair)
    (c : NiceComponent)
    (h : (agent_find_component agent sid cid).map (fun r => (r.1.conncheck_list, r.2)) =
      some (l, c)) :
    ∃ s, agent_find_component agent sid cid = some (s, c) ∧ s.conncheck_list = l := by
  cases hf : agent_find_component agent sid cid with
  | none => rw [hf] at h; simp at h
  | some r =>
    obtain ⟨s, c1⟩ := r
    rw [hf] at h
    simp only [Option.map_some', Option.some.injEq, Prod.mk.injEq] at h
    exact ⟨s, by rw [h.2], h.1⟩

theorem signal_of_found (agent : NiceAgent) (sid cid : Nat) (s : NiceStream)
    (c : NiceComponent) (st : NiceComponentState)
    (h : agent_find_component agent sid cid = some (s, c)) :
    (∃ s1, agent_find_component (agent_signal_component_state_change agent sid cid st) sid cid =
      some (s1, { c with state := st }) ∧ s1.conncheck_list = s.conncheck_list) ∧
    (agent_signal_component_state_change agent sid cid st).signals =
      agent.signals ++ (if c.state = st then [] else [⟨sid, cid, st⟩]) := by
  refine ⟨?_, ?_⟩
  · apply find_of_view
    rw [agent_find_component_signal, h]
    simp
  · rw [signals_agent_signal_component_state_change, h]

theorem ready_progression (a : NiceAgent) (sid cid : Nat) (s : NiceStream) (c : NiceComponent)
    (h : agent_find_component a sid cid = some (s, c)) :
    ∃ a1 a2 : NiceAgent,
      a1 = (if (match agent_find_component a sid cid with
              | some (_, c) => c.state.toNat
              | none => 0) < NICE_COMPONENT_STATE_CONNECTING.toNat ∨
            (match agent_find_component a sid cid with
              | some (_, c) => c.state.toNat
              | none => 0) = NICE_COMPONENT_STATE_FAILED.toNat then
          agent_signal_component_state_change a sid cid NICE_COMPONENT_STATE_CONNECTING
        else a) ∧
      a2 = (if (match agent_find_component a1 sid cid with
              | some (_, c) => c.state.toNat
              | none => 0) < NICE_COMPONENT_STATE_CONNECTED.toNat then
          agent_signal_component_state_change a1 sid cid NICE_COMPONENT_STATE_CONNECTED
        else a1) ∧
      component_state (agent_signal_component_state_change a2 sid cid
        NICE_COMPONENT_STATE_READY) sid cid = some NICE_COMPONENT_STATE_READY ∧
      ∃ mid, (agent_signal_component_state_change a2 sid cid
          NICE_COMPONENT_STATE_READY).signals =
        a.signals ++ mid ++
          (if c.state = NICE_COMPONENT_STATE_READY then []
            else [⟨sid, cid, NICE_COMPONENT_STATE_READY⟩]) := by
  refine ⟨_, _, rfl, rfl, ?_⟩
  rw [h]
  simp only
  -- the agent after the first optional signal
  have k1 : ∃ s1 c1 mid1, agent_find_component
        (if c.state.toNat < NICE_COMPONENT_STATE_CONNECTING.toNat ∨
            c.state.toNat = NICE_COMPONENT_STATE_FAILED.toNat then
          agent_signal_component_state_change a sid cid NICE_COMPONENT_STATE_CONNECTING
        else a) sid cid = some (s1, c1) ∧
      (if c.state.toNat < NICE_COMPONENT_STATE_CONNECTING.toNat ∨
            c.state.toNat = NICE_COMPONENT_STATE_FAILED.toNat then
          agent_signal_component_state_change a sid cid NICE_COMPONENT_STATE_CONNECTING
        else a).signals = a.signals ++ mid1 ∧
      (c1.state = NICE_COMPONENT_STATE_CONNECTING ∨ c1.state = NICE_COMPONENT_STATE_CONNECTED ∨
        c1.state = NICE_COMPONENT_STATE_READY) ∧
      (c.state = NICE_COMPONENT_STATE_READY ↔ c1.state = NICE_COMPONENT_STATE_READY) := by
    obtain ⟨⟨s1, hf, _⟩, hs⟩ := signal_of_found a sid cid s c NICE_COMPONENT_STATE_CONNECTING h
    split_ifs with hc
    · refine ⟨s1, _, _, hf, hs, Or.inl rfl, ?_⟩
      cases hst : c.state <;> simp [hst, NiceComponentState.toNat] at hc ⊢
    · refine ⟨s, c, [], h, by simp, ?_, Iff.rfl⟩
      cases hst : c.state <;> simp [hst, NiceComponentState.toNat] at hc ⊢
  obtain ⟨s1, c1, mid1, hf1, hs1, hc1, hr1⟩ := k1
  generalize (if c.state.toNat < NICE_COMPONENT_STATE_CONNECTING.toNat ∨
            c.state.toNat = NICE_COMPONENT_STATE_FAILED.toNat then
          agent_signal_component_state_change a sid cid NICE_COMPONENT_STATE_CONNECTING
        else a) = a1 at hf1 hs1 ⊢
  rw [hf1]
  simp only
  have k2 : ∃ s2 c2 mid2, agent_find_component
        (if c1.state.toNat < NICE_COMPONENT_STATE_CONNECTED.toNat then
          agent_signal_component_state_change a1 sid cid NICE_COMPONENT_STATE_CONNECTED
        else a1) sid cid = some (s2, c2) ∧
      (if c1.state.toNat < NICE_COMPONENT_STATE_CONNECTED.toNat then
          agent_signal_component_state_change a1 sid cid NICE_COMPONENT_STATE_CONNECTED
        else a1).signals = a.signals ++ mid2 ∧
      (c.state = NICE_COMPONENT_STATE_READY ↔ c2.state = NICE_COMPONENT_STATE_READY) := by
    obtain ⟨⟨s2, hf, _⟩, hs⟩ := signal_of_found a1 sid cid s1 c1 NICE_COMPONENT_STATE_CONNECTED hf1
    split_ifs with hc
    · refine ⟨s2, _, mid1 ++ (if c1.state = NICE_COMPONENT_STATE_CONNECTED then []
        else [⟨sid, cid, NICE_COMPONENT_STATE_CONNECTED⟩]), hf, ?_, ?_⟩
      · rw [hs, hs1, List.append_assoc]
      · rw [hr1]
        rcases hc1 with h0 | h0 | h0 <;> simp [h0, NiceComponentState.toNat] at hc ⊢
    · exact ⟨s1, c1, mid1, hf1, hs1, hr1⟩
  obtain ⟨s2, c2, mid2, hf2, hs2, hr2⟩ := k2
  generalize (if c1.state.toNat < NICE_COMPONENT_STATE_CONNECTED.toNat then
          agent_signal_component_state_change a1 sid cid NICE_COMPONENT_STATE_CONNECTED
        else a1) = a2 at hf2 hs2 ⊢
  obtain ⟨⟨s3, hf3, _⟩, hs3⟩ := signal_of_found a2 sid cid s2 c2 NICE_COMPONENT_STATE_READY hf2
  refine ⟨?_, mid2, ?_⟩
  · unfold component_state
    rw [hf3]
    rfl
  · rw [hs3, hs2]
    by_cases hr : c.state = NICE_COMPONENT_STATE_READY
    · rw [if_pos hr, if_pos (hr2.mp hr)]
    · rw [if_neg hr, if_neg (fun h0 => hr (hr2.mpr h0))]

theorem stream_pairs_of_find_component (agent : NiceAgent) (sid cid : Nat) (s : NiceStream)
    (c : NiceComponent) (h : agent_find_component agent sid cid = some (s, c)) :
    stream_pairs agent sid = s.conncheck_list := by
  unfold stream_pairs
  rw [(agent_find_component_some agent sid cid s c h).1]

theorem agent_signal_component_state_change_pairs (agent : NiceAgent)
    (stream_id component_id : Nat) (st : NiceComponentState) :
    (agent_signal_component_state_change agent stream_id component_id st).triggered_check_queue =
      agent.triggered_check_queue ∧
    ∀ sid, stream_pairs (agent_signal_component_state_change agent stream_id component_id st)
      sid = stream_pairs agent sid := by
  unfold agent_signal_component_state_change
  split
  · exact ⟨rfl, fun _ => rfl⟩
  · split_ifs
    · exact ⟨rfl, fun _ => rfl⟩
    · refine ⟨rfl, fun sid => ?_⟩
      unfold stream_pairs
      have : agent_find_stream
          { agent.updateComponent stream_id component_id (fun c => { c with state := st }) with
            signals := (agent.updateComponent stream_id component_id
              (fun c => { c with state := st })).signals ++
                [⟨stream_id, component_id, st⟩] } sid =
          agent_find_stream (agent.updateComponent stream_id component_id
            (fun c => { c with state := st })) sid := rfl
      rw [this]
      unfold NiceAgent.updateComponent
      rw [agent_find_stream_updateStream _ _ _ _ ?_]
      · cases agent_find_stream agent sid with
        | none => rfl
        | some s =>
          simp only [Option.map_some']
          split_ifs <;> rfl
      · intro s; rfl

theorem priv_prune_pending_checks_spec (agent : NiceAgent) (sid cid : Nat) (s : NiceStream)
    (c : NiceComponent) (h : agent_find_component agent sid cid = some (s, c)) :
    (priv_prune_pending_checks agent sid cid).1 =
      (priv_prune_pending_checks_loop cid c.selected_pair.priority s.conncheck_list
        agent.triggered_check_queue).2.2.1 +
      (priv_prune_pending_checks_loop cid c.selected_pair.priority s.conncheck_list
        agent.triggered_check_queue).2.2.2 ∧
    (priv_prune_pending_checks agent sid cid).2.triggered_check_queue =
      (priv_prune_pending_checks_loop cid c.selected_pair.priority s.conncheck_list
        agent.triggered_check_queue).2.1 ∧
    (priv_prune_pending_checks agent sid cid).2.signals = agent.signals ∧
    ∃ s1, agent_find_component (priv_prune_pending_checks agent sid cid).2 sid cid =
        some (s1, c) ∧
      s1.conncheck_list =
        (priv_prune_pending_checks_loop cid c.selected_pair.priority s.conncheck_list
          agent.triggered_check_queue).1 := by
  have hsid := (agent_find_component_some agent sid cid s c h).2.2.1
  unfold priv_prune_pending_checks
  rw [h]
  refine ⟨rfl, rfl, rfl, ?_⟩
  simp only
  have : ∀ (a : NiceAgent) (q : List Nat),
      agent_find_component { a with triggered_check_queue := q } sid cid =
        agent_find_component a sid cid := fun _ _ => rfl
  rw [this, agent_find_component_updateStream_list, h]
  simp only [Option.map_some', hsid, if_true]
  exact ⟨_, rfl, rfl⟩

theorem nominated_count_pos_iff (l : List CandidateCheckPair) (cid : Nat) :
    (l.filter (fun p => p.component_id == cid && p.valid && p.nominated)).length > 0 ↔
      ∃ p ∈ l, p.component_id = cid ∧ p.valid = true ∧ p.nominated = true := by
  show 0 < _ ↔ _
  rw [List.length_pos, ne_eq, List.filter_eq_nil_iff]
  simp only [Bool.and_eq_true, beq_iff_eq, not_forall, Classical.not_imp, Decidable.not_not,
    exists_prop, and_assoc]

/-- Claim C19: for a component found in the agent, with the pairs of its stream at distinct
addresses and no duplicate in the triggered-check queue,
`conn_check_update_check_list_state_for_ready` brings the component to state READY, signalling
READY unless it is in that state already, when a pair of the component is valid and nominated
and, after `priv_prune_pending_checks`, no pair of the component with a priority not below the
selected-pair priority is InProgress or queued; otherwise it signals nothing and leaves the
state of the component; and when a valid nominated pair exists, every InProgress pair of the
component with a priority below the selected priority stays in the list with its retransmit
flag cleared and is not in the triggered-check queue afterwards. -/
theorem ready_signalled_iff (agent : NiceAgent) (stream_id component_id : Nat)
    (stream : NiceStream) (component : NiceComponent)
    (hfc : agent_find_component agent stream_id component_id = some (stream, component))
    (hnd : (stream.conncheck_list.map (fun p => p.ptr)).Nodup)
    (hq : agent.triggered_check_queue.Nodup) :
    (ready_conditions agent stream_id component_id component.selected_pair.priority →
      component_state
        (conn_check_update_check_list_state_for_ready agent stream_id component_id)
        stream_id component_id = some NICE_COMPONENT_STATE_READY ∧
      ∃ mid, (conn_check_update_check_list_state_for_ready agent stream_id
          component_id).signals =
        agent.signals ++ mid ++
          (if component.state = NICE_COMPONENT_STATE_READY then []
            else [⟨stream_id, component_id, NICE_COMPONENT_STATE_READY⟩])) ∧
    (¬ ready_conditions agent stream_id component_id component.selected_pair.priority →
      (conn_check_update_check_list_state_for_ready agent stream_id component_id).signals =
        agent.signals ∧
      component_state
        (conn_check_update_check_list_state_for_ready agent stream_id component_id)
        stream_id component_id = some component.state) ∧
    ((∃ p ∈ stream.conncheck_list,
        p.component_id = component_id ∧ p.valid = true ∧ p.nominated = true) →
      ∀ p ∈ stream.conncheck_list, p.component_id = component_id →
        p.state = NICE_CHECK_IN_PROGRESS → p.priority < component.selected_pair.priority →
        { p with retransmit := false } ∈
          stream_pairs
            (conn_check_update_check_list_state_for_ready agent stream_id component_id)
            stream_id ∧
        p.ptr ∉ (conn_check_update_check_list_state_for_ready agent stream_id
          component_id).triggered_check_queue) := by
  obtain ⟨hp1, hp2, hp3, s1, hp4, hp5⟩ :=
    priv_prune_pending_checks_spec agent stream_id component_id stream component hfc
  have hcount := priv_prune_pending_checks_loop_count component_id
    component.selected_pair.priority stream.conncheck_list agent.triggered_check_queue hnd
  have hnom := nominated_count_pos_iff stream.conncheck_list component_id
  have hpairs := stream_pairs_of_find_component agent stream_id component_id stream component
    hfc
  have hpairs1 := stream_pairs_of_find_component _ stream_id component_id s1 component hp4
  have hrc : ready_conditions agent stream_id component_id component.selected_pair.priority ↔
      (stream.conncheck_list.filter
        (fun p => p.component_id == component_id && p.valid && p.nominated)).length > 0 ∧
      (priv_prune_pending_checks agent stream_id component_id).1 = 0 := by
    unfold ready_conditions
    rw [hpairs, hpairs1, hp5, hp2, hnom, hp1, hcount]
  have hfun : conn_check_update_check_list_state_for_ready agent stream_id component_id =
      if (stream.conncheck_list.filter
          (fun p => p.component_id == component_id && p.valid && p.nominated)).length > 0 then
        if (priv_prune_pending_checks agent stream_id component_id).1 = 0 then
          agent_signal_component_state_change
            (if (match agent_find_component
                  (if (match agent_find_component
                        (priv_prune_pending_checks agent stream_id component_id).2 stream_id
                        component_id with
                      | some (_, c) => c.state.toNat
                      | none => 0) < NICE_COMPONENT_STATE_CONNECTING.toNat ∨
                    (match agent_find_component
                        (priv_prune_pending_checks agent stream_id component_id).2 stream_id
                        component_id with
                      | some (_, c) => c.state.toNat
                      | none => 0) = NICE_COMPONENT_STATE_FAILED.toNat then
                    agent_signal_component_state_change
                      (priv_prune_pending_checks agent stream_id component_id).2 stream_id
                      component_id NICE_COMPONENT_STATE_CONNECTING
                  else (priv_prune_pending_checks agent stream_id component_id).2)
                  stream_id component_id with
                | some (_, c) => c.state.toNat
                | none => 0) < NICE_COMPONENT_STATE_CONNECTED.toNat then
              agent_signal_component_state_change
                (if (match agent_find_component
                      (priv_prune_pending_checks agent stream_id component_id).2 stream_id
                      component_id with
                    | some (_, c) => c.state.toNat
                    | none => 0) < NICE_COMPONENT_STATE_CONNECTING.toNat ∨
                  (match agent_find_component
                      (priv_prune_pending_checks agent stream_id component_id).2 stream_id
                      component_id with
                    | some (_, c) => c.state.toNat
                    | none => 0) = NICE_COMPONENT_STATE_FAILED.toNat then
                  agent_signal_component_state_change
                    (priv_prune_pending_checks agent stream_id component_id).2 stream_id
                    component_id NICE_COMPONENT_STATE_CONNECTING
                else (priv_prune_pending_checks agent stream_id component_id).2)
                stream_id component_id NICE_COMPONENT_STATE_CONNECTED
            else
              (if (match agent_find_component
                    (priv_prune_pending_checks agent stream_id component_id).2 stream_id
                    component_id with
                  | some (_, c) => c.state.toNat
                  | none => 0) < NICE_COMPONENT_STATE_CONNECTING.toNat ∨
                (match agent_find_component
                    (priv_prune_pending_checks agent stream_id component_id).2 stream_id
                    component_id with
                  | some (_, c) => c.state.toNat
                  | none => 0) = NICE_COMPONENT_STATE_FAILED.toNat then
                agent_signal_component_state_change
                  (priv_prune_pending_checks agent stream_id component_id).2 stream_id
                  component_id NICE_COMPONENT_STATE_CONNECTING
              else (priv_prune_pending_checks agent stream_id component_id).2))
            stream_id component_id NICE_COMPONENT_STATE_READY
        else (priv_prune_pending_checks agent stream_id component_id).2
      else agent := by
    unfold conn_check_update_check_list_state_for_ready
    rw [hfc]
  obtain ⟨a1, a2, ha1, ha2, hst, mid, hsig⟩ :=
    ready_progression (priv_prune_pending_checks agent stream_id component_id).2 stream_id
      component_id s1 component hp4
  have hframe1 := agent_signal_component_state_change_pairs
    (priv_prune_pending_checks agent stream_id component_id).2 stream_id component_id
    NICE_COMPONENT_STATE_CONNECTING
  have hframe2 := agent_signal_component_state_change_pairs a1 stream_id component_id
    NICE_COMPONENT_STATE_CONNECTED
  have hframe3 := agent_signal_component_state_change_pairs a2 stream_id component_id
    NICE_COMPONENT_STATE_READY
  have hq1 : a1.triggered_check_queue =
      (priv_prune_pending_checks agent stream_id component_id).2.triggered_check_queue ∧
      stream_pairs a1 stream_id =
        stream_pairs (priv_prune_pending_checks agent stream_id component_id).2 stream_id := by
    rw [ha1]
    split_ifs
    · exact ⟨hframe1.1, hframe1.2 _⟩
    · exact ⟨rfl, rfl⟩
  have hq2 : a2.triggered_check_queue = a1.triggered_check_queue ∧
      stream_pairs a2 stream_id = stream_pairs a1 stream_id := by
    rw [ha2]
    split_ifs
    · exact ⟨hframe2.1, hframe2.2 _⟩
    · exact ⟨rfl, rfl⟩
  have hq3 : (agent_signal_component_state_change a2 stream_id component_id
        NICE_COMPONENT_STATE_READY).triggered_check_queue =
      (priv_prune_pending_checks agent stream_id component_id).2.triggered_check_queue ∧
      stream_pairs (agent_signal_component_state_change a2 stream_id component_id
        NICE_COMPONENT_STATE_READY) stream_id =
        stream_pairs (priv_prune_pending_checks agent stream_id component_id).2 stream_id := by
    rw [hframe3.1, hframe3.2, hq2.1, hq2.2, hq1.1, hq1.2]
    exact ⟨rfl, rfl⟩
  rw [hp3] at hsig
  clear hframe1 hframe2 hframe3 hq1 hq2
  subst ha1
  subst ha2
  refine ⟨fun hc => ?_, fun hc => ?_, fun hv p hp hcomp hstate hprio => ?_⟩
  · obtain ⟨hc1, hc2⟩ := hrc.mp hc
    rw [hfun, if_pos hc1, if_pos hc2]
    exact ⟨hst, mid, hsig⟩
  · rw [hrc] at hc
    rw [hfun]
    by_cases hc1 : (stream.conncheck_list.filter
        (fun p => p.component_id == component_id && p.valid && p.nominated)).length > 0
    · have hc2 : ¬ (priv_prune_pending_checks agent stream_id component_id).1 = 0 :=
        fun h => hc ⟨hc1, h⟩
      rw [if_pos hc1, if_neg hc2]
      refine ⟨hp3, ?_⟩
      unfold component_state
      rw [hp4]
      rfl
    · rw [if_neg hc1]
      refine ⟨rfl, ?_⟩
      unfold component_state
      rw [hfc]
      rfl
  · have hc1 := hnom.mpr hv
    obtain ⟨hm, hnq⟩ := priv_prune_pending_checks_loop_in_progress component_id
      component.selected_pair.priority stream.conncheck_list agent.triggered_check_queue hq
      p hp hcomp hstate hprio
    rw [← hp5, ← hpairs1] at hm
    rw [← hp2] at hnq
    rw [hfun, if_pos hc1]
    by_cases hc2 : (priv_prune_pending_checks agent stream_id component_id).1 = 0
    · rw [if_pos hc2]
      exact ⟨hq3.2 ▸ hm, hq3.1 ▸ hnq⟩
    · rw [if_neg hc2]
      exact ⟨hm, hnq⟩

/-- Claim C19, witness: the component has selected the nominated valid pair 11 and the only
other check, of the lower-priority pair 12, is in progress; the component goes from CONNECTED
to READY, and pair 12 stays with its retransmit flag cleared and leaves the queue. -/
theorem ready_signalled_iff_witness :
    component_state
      (conn_check_update_check_list_state_for_ready ex_agent_nominated 1 1) 1 1 =
      some NICE_COMPONENT_STATE_READY ∧
    { ex_pair_in_progress with retransmit := false } ∈
      stream_pairs (conn_check_update_check_list_state_for_ready ex_agent_nominated 1 1) 1 ∧
    12 ∉ (conn_check_update_check_list_state_for_ready ex_agent_nominated
      1 1).triggered_check_queue :=
  ⟨((ready_signalled_iff ex_agent_nominated 1 1
      { ex_stream [ex_pair_nominated, ex_pair_in_progress] with
        components :=
          [{ ex_component with
             state := NICE_COMPONENT_STATE_CONNECTED
             selected_pair :=
               ⟨some ex_local, some ex_remote2, 9115005265987371519, 1845501695⟩ }] }
      { ex_component with
        state := NICE_COMPONENT_STATE_CONNECTED
        selected_pair := ⟨some ex_local, some ex_remote2, 9115005265987371519, 1845501695⟩ }
      (by decide) (by decide) (by decide)).1 (by decide)).1,
    (ready_signalled_iff ex_agent_nominated 1 1
      { ex_stream [ex_pair_nominated, ex_pair_in_progress] with
        components :=
          [{ ex_component with
             state := NICE_COMPONENT_STATE_CONNECTED
             selected_pair :=
               ⟨some ex_local, some ex_remote2, 9115005265987371519, 1845501695⟩ }] }
      { ex_component with
        state := NICE_COMPONENT_STATE_CONNECTED
        selected_pair := ⟨some ex_local, some ex_remote2, 9115005265987371519, 1845501695⟩ }
      (by decide) (by decide) (by decide)).2.2 (by decide) ex_pair_in_progress (by decide)
      (by decide) (by decide) (by decide)⟩

theorem priv_prune_pending_checks_loop_kept (component_id priority : Nat)
    (l : List CandidateCheckPair) (queue : List Nat) :
    ∀ q1 ∈ (priv_prune_pending_checks_loop component_id priority l queue).1,
      ∃ q ∈ l, pruned_from q q1 := by
  induction l generalizing queue with
  | nil => intro q1 hq1; simp [priv_prune_pending_checks_loop] at hq1
  | cons p ps ih =>
    have hself : ∀ q : CandidateCheckPair, pruned_from q q :=
      fun q => ⟨rfl, rfl, rfl, rfl, rfl, fun _ => rfl⟩
    have hrest : ∀ queue1, ∀ q1 ∈ (priv_prune_pending_checks_loop component_id priority ps
        queue1).1, ∃ q ∈ p :: ps, pruned_from q q1 := by
      intro queue1 q1 hq1
      obtain ⟨q, hq, hr⟩ := ih queue1 q1 hq1
      exact ⟨q, List.mem_cons_of_mem _ hq, hr⟩
    have hcons : ∀ queue1 (p1 : CandidateCheckPair), pruned_from p p1 →
        ∀ q1 ∈ p1 :: (priv_prune_pending_checks_loop component_id priority ps queue1).1,
          ∃ q ∈ p :: ps, pruned_from q q1 := by
      intro queue1 p1 hp1 q1 hq1
      rcases List.mem_cons.1 hq1 with h | h
      · exact ⟨p, List.mem_cons_self _ _, h ▸ hp1⟩
      · exact hrest queue1 q1 h
    intro q1 hq1
    unfold priv_prune_pending_checks_loop at hq1
    simp only at hq1
    split_ifs at hq1 with h1 h2 h3 h4 h5 h6 h7
    · exact hcons _ _ (hself p) q1 hq1
    · exact hrest _ q1 hq1
    · exact hcons _ _ (hself p) q1 hq1
    · exact hrest _ q1 hq1
    · exact hcons _ { p with retransmit := false }
        ⟨rfl, rfl, rfl, rfl, rfl, fun h => absurd h5 h⟩ q1 hq1
    · exact hcons _ { p with retransmit := true }
        ⟨rfl, rfl, rfl, rfl, rfl, fun h => absurd h5 h⟩ q1 hq1
    · exact hcons _ _ (hself p) q1 hq1
    · exact hcons _ _ (hself p) q1 hq1

theorem pruned_from_refl (q : CandidateCheckPair) : pruned_from q q :=
  ⟨rfl, rfl, rfl, rfl, rfl, fun _ => rfl⟩

theorem stream_pairs_updatePair (agent : NiceAgent) (p sid : Nat)
    (f : CandidateCheckPair → CandidateCheckPair) :
    stream_pairs (agent.updatePair p f) sid = updatePairIn (stream_pairs agent sid) p f := by
  unfold stream_pairs
  rw [agent_find_stream_updatePair]
  cases agent_find_stream agent sid <;> rfl

theorem stream_pairs_prune (agent : NiceAgent) (sid cid sid1 : Nat) :
    ∀ q1 ∈ stream_pairs (priv_prune_pending_checks agent sid cid).2 sid1,
      ∃ q ∈ stream_pairs agent sid1, pruned_from q q1 := by
  unfold priv_prune_pending_checks
  cases h : agent_find_component agent sid cid with
  | none => intro q1 hq1; exact ⟨q1, hq1, pruned_from_refl q1⟩
  | some r =>
    obtain ⟨s, c⟩ := r
    simp only
    intro q1 hq1
    have hs := agent_find_component_some agent sid cid s c h
    unfold stream_pairs at hq1 ⊢
    have hfs : ∀ (l : List CandidateCheckPair) (queue : List Nat),
        agent_find_stream
          { agent.updateStream sid (fun s => { s with conncheck_list := l }) with
            triggered_check_queue := queue } sid1 =
        (agent_find_stream agent sid1).map
          (fun s => if s.id = sid then { s with conncheck_list := l } else s) := by
      intro l queue
      exact agent_find_stream_updateStream agent sid sid1 _ (fun _ => rfl)
    rw [hfs] at hq1
    cases h1 : agent_find_stream agent sid1 with
    | none => rw [h1] at hq1; simp at hq1
    | some s1 =>
      rw [h1] at hq1
      simp only [Option.map_some'] at hq1
      have hid := (agent_find_stream_some agent sid1 s1 h1).2
      by_cases hx : s1.id = sid
      · rw [if_pos hx] at hq1
        simp only at hq1
        have : s1 = s := by
          have h2 := hs.1
          rw [← hx, hid, h1] at h2
          exact Option.some.inj h2
        subst this
        exact priv_prune_pending_checks_loop_kept _ _ _ _ q1 hq1
      · rw [if_neg hx] at hq1
        exact ⟨q1, hq1, pruned_from_refl q1⟩

theorem stream_pairs_for_ready (agent : NiceAgent) (sid cid sid1 : Nat) :
    ∀ q1 ∈ stream_pairs (conn_check_update_check_list_state_for_ready agent sid cid) sid1,
      ∃ q ∈ stream_pairs agent sid1, pruned_from q q1 := by
  have hsig := fun a st => (agent_signal_component_state_change_pairs a sid cid st).2 sid1
  unfold conn_check_update_check_list_state_for_ready
  split
  · intro q1 hq1; exact ⟨q1, hq1, pruned_from_refl q1⟩
  · simp only
    split_ifs
    all_goals
      intro q1 hq1
      try simp only [hsig] at hq1
      first
        | exact stream_pairs_prune agent sid cid sid1 q1 hq1
        | exact ⟨q1, hq1, pruned_from_refl q1⟩

theorem agent_find_component_isSome_updatePair (agent : NiceAgent) (p sid cid : Nat)
    (f : CandidateCheckPair → CandidateCheckPair) :
    (agent_find_component (agent.updatePair p f) sid cid).isSome =
      (agent_find_component agent sid cid).isSome := by
  unfold agent_find_component
  rw [agent_find_stream_updatePair]
  cases agent_find_stream agent sid with
  | none => rfl
  | some s =>
    simp only [Option.map_some']
    unfold nice_stream_find_component_by_id
    cases s.components.find? (fun c => c.id == cid) <;> rfl

theorem agent_find_component_isSome_signal (agent : NiceAgent) (stream_id component_id : Nat)
    (st : NiceComponentState) (sid cid : Nat) :
    (agent_find_component (agent_signal_component_state_change agent stream_id component_id st)
      sid cid).isSome = (agent_find_component agent sid cid).isSome := by
  have h := congrArg Option.isSome
    (agent_find_component_signal agent stream_id component_id sid cid st)
  simpa using h

theorem agent_find_component_isSome_prune (agent : NiceAgent) (stream_id component_id : Nat)
    (sid cid : Nat) :
    (agent_find_component (priv_prune_pending_checks agent stream_id component_id).2
      sid cid).isSome = (agent_find_component agent sid cid).isSome := by
  unfold priv_prune_pending_checks
  split
  · rfl
  · simp only
    have h := congrArg Option.isSome (agent_find_component_updateStream_list agent stream_id
      sid cid (priv_prune_pending_checks_loop component_id
        (‹NiceComponent›).selected_pair.priority (‹NiceStream›).conncheck_list
        agent.triggered_check_queue).1)
    rw [Option.isSome_map'] at h
    exact h

theorem agent_find_component_isSome_for_ready (agent : NiceAgent)
    (stream_id component_id : Nat) (sid cid : Nat) :
    (agent_find_component
      (conn_check_update_check_list_state_for_ready agent stream_id component_id)
      sid cid).isSome = (agent_find_component agent sid cid).isSome := by
  unfold conn_check_update_check_list_state_for_ready
  split
  · rfl
  · simp only
    split_ifs
    all_goals first
      | exact agent_find_component_isSome_prune agent stream_id component_id sid cid
      | rfl
      | (simp only [agent_find_component_isSome_signal]
         exact agent_find_component_isSome_prune agent stream_id component_id sid cid)

theorem priv_conn_check_tick_stream_transactions_ids (E : Ext) (now : Int)
    (l : List StunTransaction) (p : CandidateCheckPair) (pos index remaining : Nat) :
    (priv_conn_check_tick_stream_transactions E now l p pos index remaining).pair.ptr = p.ptr ∧
    (priv_conn_check_tick_stream_transactions E now l p pos index remaining).pair.state =
      p.state ∧
    (priv_conn_check_tick_stream_transactions E now l p pos index remaining).pair.stream_id =
      p.stream_id ∧
    (priv_conn_check_tick_stream_transactions E now l p pos index remaining).pair.component_id =
      p.component_id := by
  induction l generalizing p pos index remaining with
  | nil => exact ⟨rfl, rfl, rfl, rfl⟩
  | cons stun rest ih =>
    unfold priv_conn_check_tick_stream_transactions
    simp only
    repeat' split
    all_goals first
      | exact ih _ _ _ _
      | exact ⟨rfl, rfl, rfl, rfl⟩

theorem priv_conn_check_tick_stream_transactions_all_timeout (E : Ext) (now : Int)
    (l : List StunTransaction) (p : CandidateCheckPair) (pos index remaining : Nat)
    (h : transactions_all_timeout E now l) :
    (priv_conn_check_tick_stream_transactions E now l p pos index remaining).retransmitted =
      none ∧
    (priv_conn_check_tick_stream_transactions E now l p pos index remaining).remaining =
      remaining := by
  induction l generalizing p pos index remaining with
  | nil => exact ⟨rfl, rfl⟩
  | cons stun rest ih =>
    have h0 := h stun (List.mem_cons_self _ _)
    have hrest : transactions_all_timeout E now rest :=
      fun t ht => h t (List.mem_cons_of_mem _ ht)
    unfold priv_conn_check_tick_stream_transactions
    rw [if_neg h0.1]
    simp only [h0.2]
    exact ih _ _ _ _ hrest

theorem forall_updatePairIn (P : CandidateCheckPair → Prop) (l : List CandidateCheckPair)
    (p : Nat) (f : CandidateCheckPair → CandidateCheckPair)
    (h : ∀ q ∈ l, P q) (hf : ∀ q ∈ l, q.ptr = p → P (f q)) :
    ∀ q ∈ updatePairIn l p f, P q := by
  intro q hq
  unfold updatePairIn at hq
  obtain ⟨q0, hq0, rfl⟩ := List.mem_map.1 hq
  split_ifs with hp
  · exact hf q0 hq0 hp
  · exact h q0 hq0

theorem tick_stream_found (agent : NiceAgent) (sid ptr : Nat) (p : CandidateCheckPair)
    (h : (agent_find_stream agent sid).bind
      (fun s => s.conncheck_list.find? (fun q => q.ptr == ptr)) = some p) :
    p ∈ stream_pairs agent sid ∧ p.ptr = ptr := by
  unfold stream_pairs
  cases hs : agent_find_stream agent sid with
  | none => simp [hs] at h
  | some s =>
    simp only [hs, Option.bind_some] at h
    exact ⟨List.mem_of_find?_eq_some h, by simpa using List.find?_some h⟩

theorem tick_stream_not_found (agent : NiceAgent) (sid ptr : Nat)
    (h : (agent_find_stream agent sid).bind
      (fun s => s.conncheck_list.find? (fun q => q.ptr == ptr)) = none) :
    ∀ q ∈ stream_pairs agent sid, q.ptr ≠ ptr := by
  unfold stream_pairs
  cases hs : agent_find_stream agent sid with
  | none => intro q hq; simp at hq
  | some s =>
    simp only [hs, Option.bind_some] at h
    intro q hq hp
    have := List.find?_eq_none.1 h q hq
    simp [hp] at this

theorem priv_conn_check_tick_stream_loop_preserves (E : Ext) (now : Int)
    (P : CandidateCheckPair → Prop) (sid : Nat)
    (hprune : ∀ q q1, pruned_from q q1 → P q → P q1)
    (hupd : ∀ q q1 : CandidateCheckPair, q.stun_transactions ≠ [] → q1.ptr = q.ptr →
      q1.state = q.state → P q → P q1)
    (hfail : ∀ q, P q →
      P (priv_free_all_stun_transactions { q with state := NICE_CHECK_FAILED }))
    (ptrs : List Nat) (agent : NiceAgent) (h : ∀ q ∈ stream_pairs agent sid, P q) :
    ∀ q ∈ stream_pairs (priv_conn_check_tick_stream_loop E now sid ptrs agent).2 sid, P q := by
  induction ptrs generalizing agent with
  | nil => exact h
  | cons ptr rest ih =>
    unfold priv_conn_check_tick_stream_loop
    split
    · exact ih agent h
    · rename_i p hfind
      have hp := tick_stream_found agent sid ptr p hfind
      split_ifs with htx
      · exact ih agent h
      · split
        · exact ih agent h
        · simp only
          have hids := priv_conn_check_tick_stream_transactions_ids E now
              p.stun_transactions p 0 0 0
          have h1 : ∀ q ∈ stream_pairs (agent.updatePair ptr (fun _ =>
              (priv_conn_check_tick_stream_transactions E now p.stun_transactions p 0 0
                0).pair)) sid, P q := by
            rw [stream_pairs_updatePair]
            exact forall_updatePairIn P _ _ _ h
              (fun q _ _ => hupd p _ htx hids.1 hids.2.1 (h p hp.1))
          split
          · exact h1
          · split_ifs
            · apply ih
              intro q1 hq1
              obtain ⟨q, hq, hr⟩ := stream_pairs_for_ready _ _ _ _ q1 hq1
              refine hprune q q1 hr ?_
              unfold candidate_check_pair_fail at hq
              rw [stream_pairs_updatePair] at hq
              exact forall_updatePairIn P _ _ _ h1 (fun q2 hq2 _ => hfail q2 (h1 q2 hq2)) q hq
            · exact ih _ h1

theorem priv_conn_check_tick_stream_loop_given_up (E : Ext) (now : Int) (sid x : Nat)
    (ptrs : List Nat) (agent : NiceAgent)
    (h : ∀ q ∈ stream_pairs agent sid, q.ptr = x → pair_given_up q) :
    ∀ q ∈ stream_pairs (priv_conn_check_tick_stream_loop E now sid ptrs agent).2 sid,
      q.ptr = x → pair_given_up q := by
  refine priv_conn_check_tick_stream_loop_preserves E now
    (fun q => q.ptr = x → pair_given_up q) sid ?_ ?_ ?_ ptrs agent h
  · intro q q1 hr hq hx
    have hg := hq (hr.1 ▸ hx)
    have : q1 = q := hr.2.2.2.2.2 (by rw [hg.1]; decide)
    rw [this]; exact hg
  · intro q q1 htx hptr _ hq hx
    exact absurd (hq (hptr ▸ hx)).2.1 htx
  · intro q _ _
    exact ⟨rfl, rfl, rfl⟩

theorem forall_updatePairIn_other (S : CandidateCheckPair → Prop)
    (l : List CandidateCheckPair) (p x : Nat) (f : CandidateCheckPair → CandidateCheckPair)
    (hpx : p ≠ x) (hf : ∀ q, q.ptr = p → (f q).ptr = p)
    (h : ∀ q ∈ l, q.ptr = x → S q) :
    ∀ q ∈ updatePairIn l p f, q.ptr = x → S q := by
  intro q hq
  unfold updatePairIn at hq
  obtain ⟨q0, hq0, rfl⟩ := List.mem_map.1 hq
  split_ifs with hp
  · intro h1
    exact absurd ((hf q0 hp).symm.trans h1) hpx
  · exact h q0 hq0

theorem priv_conn_check_tick_stream_loop_exhausts (E : Ext) (now : Int) (sid x : Nat)
    (T : List StunTransaction) (sidp cidp : Nat) (hT : T ≠ [])
    (hall : transactions_all_timeout E now T)
    (ptrs : List Nat) (agent : NiceAgent) (hx : x ∈ ptrs)
    (hpre : ∀ q ∈ stream_pairs agent sid, q.ptr = x →
      q.stun_transactions = T ∧ q.stream_id = sidp ∧ q.component_id = cidp)
    (hcomp : (agent_find_component agent sidp cidp).isSome = true) :
    (∀ q ∈ stream_pairs (priv_conn_check_tick_stream_loop E now sid ptrs agent).2 sid,
      q.ptr = x → pair_given_up q) ∨
    ((priv_conn_check_tick_stream_loop E now sid ptrs agent).1 = true ∧
      ∀ q ∈ stream_pairs (priv_conn_check_tick_stream_loop E now sid ptrs agent).2 sid,
        q.ptr = x → q.stun_transactions = T) := by
  induction ptrs generalizing agent with
  | nil => simp at hx
  | cons ptr rest ih =>
    by_cases hpx : ptr = x
    · subst hpx
      left
      unfold priv_conn_check_tick_stream_loop
      split
      · rename_i hfind
        apply priv_conn_check_tick_stream_loop_given_up
        intro q hq hq1
        exact absurd hq1 (tick_stream_not_found agent sid ptr hfind q hq)
      · rename_i p hfind
        have hp := tick_stream_found agent sid ptr p hfind
        have hpp := hpre p hp.1 hp.2
        rw [if_neg (by rw [hpp.1]; exact hT)]
        rw [hpp.2.1, hpp.2.2]
        split
        · rename_i hnone
          rw [hnone] at hcomp
          simp at hcomp
        · simp only
          have ht := priv_conn_check_tick_stream_transactions_all_timeout E now
            p.stun_transactions p 0 0 0 (hpp.1 ▸ hall)
          rw [ht.1, ht.2]
          simp only [if_true]
          apply priv_conn_check_tick_stream_loop_given_up
          intro q1 hq1 hq1x
          obtain ⟨q, hq, hr⟩ := stream_pairs_for_ready _ _ _ _ q1 hq1
          unfold candidate_check_pair_fail at hq
          rw [stream_pairs_updatePair] at hq
          have hg : q.ptr = ptr → pair_given_up q := by
            unfold updatePairIn at hq
            obtain ⟨q0, _, rfl⟩ := List.mem_map.1 hq
            split_ifs with h0
            · intro _; exact ⟨rfl, rfl, rfl⟩
            · intro h1; exact absurd h1 h0
          have hg1 := hg (hr.1 ▸ hq1x)
          have : q1 = q := hr.2.2.2.2.2 (by rw [hg1.1]; decide)
          rw [this]; exact hg1
    · have hxr : x ∈ rest := by
        rcases List.mem_cons.1 hx with h | h
        · exact absurd h.symm hpx
        · exact h
      unfold priv_conn_check_tick_stream_loop
      split
      · exact ih agent hxr hpre hcomp
      · rename_i p hfind
        have hp := tick_stream_found agent sid ptr p hfind
        split_ifs with htx
        · exact ih agent hxr hpre hcomp
        · split
          · exact ih agent hxr hpre hcomp
          · simp only
            have hids := priv_conn_check_tick_stream_transactions_ids E now
              p.stun_transactions p 0 0 0
            have h1 : ∀ q ∈ stream_pairs (agent.updatePair ptr (fun _ =>
                (priv_conn_check_tick_stream_transactions E now p.stun_transactions p 0 0
                  0).pair)) sid, q.ptr = x →
                q.stun_transactions = T ∧ q.stream_id = sidp ∧ q.component_id = cidp := by
              rw [stream_pairs_updatePair]
              exact forall_updatePairIn_other _ _ _ _ _ hpx
                (fun _ _ => hids.1.trans hp.2) hpre
            have hc1 : (agent_find_component (agent.updatePair ptr (fun _ =>
                (priv_conn_check_tick_stream_transactions E now p.stun_transactions p 0 0
                  0).pair)) sidp cidp).isSome = true := by
              rw [agent_find_component_isSome_updatePair]; exact hcomp
            split
            · right
              exact ⟨rfl, fun q hq hqx => (h1 q hq hqx).1⟩
            · split_ifs
              · apply ih _ hxr
                · intro q1 hq1 hq1x
                  obtain ⟨q, hq, hr⟩ := stream_pairs_for_ready _ _ _ _ q1 hq1
                  unfold candidate_check_pair_fail at hq
                  rw [stream_pairs_updatePair] at hq
                  have := forall_updatePairIn_other
                    (fun q => q.stun_transactions = T ∧ q.stream_id = sidp ∧
                      q.component_id = cidp) _ ptr x
                    (fun q => priv_free_all_stun_transactions
                      { q with state := NICE_CHECK_FAILED }) hpx
                    (fun _ hq0 => hq0) h1 q hq (hr.1 ▸ hq1x)
                  rw [hr.2.2.1, hr.2.2.2.1, hr.2.2.2.2.1]
                  exact this
                · rw [agent_find_component_isSome_for_ready]
                  unfold candidate_check_pair_fail
                  rw [agent_find_component_isSome_updatePair]
                  exact hc1
              · exact ih _ hxr h1 hc1

theorem priv_conn_check_tick_stream_exhaustion (E : Ext) (now : Int) (agent : NiceAgent)
    (stream_id : Nat) (stream : NiceStream)
    (hstream : agent_find_stream agent stream_id = some stream)
    (hnd : (stream.conncheck_list.map (fun p => p.ptr)).Nodup) :
    (∀ p ∈ stream.conncheck_list, p.stun_transactions ≠ [] →
      transactions_all_timeout E now p.stun_transactions →
      (agent_find_component agent p.stream_id p.component_id).isSome = true →
      (∀ q ∈ stream_pairs (priv_conn_check_tick_stream E now agent stream_id).2 stream_id,
        q.ptr = p.ptr → pair_given_up q) ∨
      ((priv_conn_check_tick_stream E now agent stream_id).1 = true ∧
        ∀ q ∈ stream_pairs (priv_conn_check_tick_stream E now agent stream_id).2 stream_id,
          q.ptr = p.ptr → q.stun_transactions = p.stun_transactions)) ∧
    (∀ q ∈ stream_pairs (priv_conn_check_tick_stream E now agent stream_id).2 stream_id,
      q.stun_transactions ≠ [] →
      ∃ p ∈ stream.conncheck_list, p.ptr = q.ptr ∧ p.state = q.state) := by
  have hsp : stream_pairs agent stream_id = stream.conncheck_list := by
    unfold stream_pairs; rw [hstream]
  unfold priv_conn_check_tick_stream
  rw [hstream]
  simp only
  refine ⟨?_, ?_⟩
  · intro p hp htx hall hcomp
    refine priv_conn_check_tick_stream_loop_exhausts E now stream_id p.ptr p.stun_transactions
      p.stream_id p.component_id htx hall _ agent
      (List.mem_map.2 ⟨p, hp, rfl⟩) ?_ hcomp
    intro q hq hqp
    rw [hsp] at hq
    have : q = p := List.inj_on_of_nodup_map hnd hq hp hqp
    rw [this]
    exact ⟨rfl, rfl, rfl⟩
  · intro q hq htx
    have := priv_conn_check_tick_stream_loop_preserves E now
      (fun q1 => (∃ p ∈ stream.conncheck_list, p.ptr = q1.ptr ∧ p.state = q1.state) ∨
        pair_given_up q1) stream_id ?_ ?_ ?_
      (stream.conncheck_list.map (fun p => p.ptr)) agent ?_ q hq
    · rcases this with h | h
      · exact h
      · exact absurd h.2.1 htx
    · intro q0 q1 hr h0
      rcases h0 with ⟨p, hp, h1, h2⟩ | h0
      · exact Or.inl ⟨p, hp, h1.trans hr.1.symm, h2.trans hr.2.1.symm⟩
      · have : q1 = q0 := hr.2.2.2.2.2 (by rw [h0.1]; decide)
        rw [this]; exact Or.inr h0
    · intro q0 q1 htx0 hptr hst h0
      rcases h0 with ⟨p, hp, h1, h2⟩ | h0
      · exact Or.inl ⟨p, hp, h1.trans hptr.symm, h2.trans hst.symm⟩
      · exact absurd h0.2.1 htx0
    · intro q0 _
      exact Or.inr ⟨rfl, rfl, rfl⟩
    · intro q0 hq0
      rw [hsp] at hq0
      exact Or.inl ⟨q0, hq0, rfl, rfl⟩

theorem nominate_select_first (agent : NiceAgent) (component_id : Nat)
    (other_component_pair other_stream_pair : Option CandidateCheckPair)
    (l : List CandidateCheckPair) :
    nominate_select agent component_id true other_component_pair other_stream_pair l none =
      ⟨(l.find? (fun p => p.component_id == component_id && !p.nominated &&
          !p.use_candidate_on_next_check && p.valid)).map (nominate_checked_pair agent),
        false, false⟩ := by
  induction l with
  | nil => rfl
  | cons p ps ih =>
    unfold nominate_select
    by_cases h : p.component_id = component_id ∧ p.nominated = false ∧
        p.use_candidate_on_next_check = false ∧ p.valid = true
    · rw [if_pos h]
      simp only [Option.isNone_none, if_true]
      rw [List.find?_cons_of_pos]
      · rfl
      · simp [h.1, h.2.1, h.2.2.1, h.2.2.2]
    · rw [if_neg h, ih, List.find?_cons_of_neg]
      intro hc
      apply h
      simp only [Bool.and_eq_true, beq_iff_eq, Bool.not_eq_true', and_assoc] at hc
      exact hc

theorem nominate_select_some (agent : NiceAgent) (component_id : Nat) (first_nomination : Bool)
    (other_component_pair other_stream_pair : Option CandidateCheckPair)
    (Q : CandidateCheckPair → Prop) (l : List CandidateCheckPair)
    (this_component_pair : Option CandidateCheckPair)
    (hl : ∀ p ∈ l, p.component_id = component_id → p.valid = true →
      Q (nominate_checked_pair agent p))
    (hthis : ∀ y, this_component_pair = some y → Q y) :
    ∀ y, (nominate_select agent component_id first_nomination other_component_pair
      other_stream_pair l this_component_pair).this_component_pair = some y → Q y := by
  induction l generalizing this_component_pair with
  | nil => exact hthis
  | cons p ps ih =>
    have hps : ∀ q ∈ ps, q.component_id = component_id → q.valid = true →
        Q (nominate_checked_pair agent q) :=
      fun q hq => hl q (List.mem_cons_of_mem _ hq)
    unfold nominate_select
    by_cases h : p.component_id = component_id ∧ p.nominated = false ∧
        p.use_candidate_on_next_check = false ∧ p.valid = true
    · rw [if_pos h]
      have hp : Q (nominate_checked_pair agent p) :=
        hl p (List.mem_cons_self _ _) h.1 h.2.2.2
      have hp1 : ∀ y, some (nominate_checked_pair agent p) = some y → Q y :=
        fun y hy => (Option.some.inj hy) ▸ hp
      cases this_component_pair with
      | none =>
        simp only [Option.isNone_none, if_true]
        split_ifs
        · exact hp1
        · exact hp1
        · exact hp1
        · exact ih _ hps hp1
      | some t =>
        simp only [Option.isNone_some, Bool.false_eq_true, if_false]
        split_ifs
        · exact hthis
        · exact hp1
        · exact hp1
        · exact ih _ hps hthis
    · rw [if_neg h]
      exact ih _ hps hthis

theorem find?_congr_mem {α : Type} (l : List α) (p q : α → Bool)
    (h : ∀ x ∈ l, p x = q x) : l.find? p = l.find? q := by
  induction l with
  | nil => rfl
  | cons x xs ih =>
    simp only [List.find?_cons, h x (List.mem_cons_self _ _)]
    rw [ih (fun y hy => h y (List.mem_cons_of_mem _ hy))]

theorem nominate_component_regular_cases (agent : NiceAgent) (stream_id : Nat)
    (other_stream_pair : Option CandidateCheckPair) (component_id : Nat) :
    nominate_component_regular agent stream_id other_stream_pair component_id =
      (false, agent) ∨
    ∃ p ∈ stream_pairs agent stream_id, p.component_id = component_id ∧ p.valid = true ∧
      nominate_component_regular agent stream_id other_stream_pair component_id =
        (true, priv_add_pair_to_triggered_check_queue
          (agent.updatePair (nominate_checked_pair agent p).ptr
            (fun q => { q with use_candidate_on_next_check := true }))
          (nominate_checked_pair agent p).ptr) := by
  generalize hr : nominate_component_regular agent stream_id other_stream_pair component_id = r
  unfold nominate_component_regular at hr
  unfold stream_pairs
  cases hs : agent_find_stream agent stream_id with
  | none => rw [hs] at hr; left; exact hr.symm
  | some stream =>
    rw [hs] at hr
    simp only at hr
    split at hr
    · left; exact hr.symm
    · split at hr
      · left; exact hr.symm
      · rename_i y hy
        have hq := nominate_select_some agent component_id _ _ _
          (fun y => ∃ p ∈ stream.conncheck_list, p.component_id = component_id ∧
            p.valid = true ∧ y = nominate_checked_pair agent p) stream.conncheck_list none
          (fun p hp hc hv => ⟨p, hp, hc, hv, rfl⟩) (fun y hy => by simp at hy) y hy
        obtain ⟨p, hp, hc, hv, rfl⟩ := hq
        split_ifs at hr
        all_goals first
          | (left; exact hr.symm)
          | (right; exact ⟨p, hp, hc, hv, hr.symm⟩)

theorem nominate_component_regular_done (agent : NiceAgent) (stream_id : Nat)
    (other_stream_pair : Option CandidateCheckPair) (component_id : Nat)
    (h : ∃ r ∈ stream_pairs agent stream_id, r.component_id = component_id ∧
      r.use_candidate_on_next_check = true) :
    nominate_component_regular agent stream_id other_stream_pair component_id =
      (false, agent) := by
  obtain ⟨r, hr, hc, hu⟩ := h
  unfold stream_pairs at hr
  unfold nominate_component_regular
  cases hs : agent_find_stream agent stream_id with
  | none => rfl
  | some stream =>
    rw [hs] at hr
    simp only
    rw [if_pos]
    rw [List.any_eq_true]
    exact ⟨r, List.mem_filter.2 ⟨hr, by simp [hc]⟩, hu⟩

theorem nominate_component_regular_first (agent : NiceAgent) (stream_id : Nat)
    (stream : NiceStream) (component_id : Nat)
    (hstream : agent_find_stream agent stream_id = some stream)
    (hnone : ∀ q ∈ stream.conncheck_list,
      q.nominated = false ∧ q.use_candidate_on_next_check = false) :
    (stream.conncheck_list.find? (fun p => p.component_id == component_id && p.valid) = none →
      nominate_component_regular agent stream_id none component_id = (false, agent)) ∧
    (∀ p0, stream.conncheck_list.find? (fun p => p.component_id == component_id && p.valid) =
        some p0 →
      ((stream.conncheck_list.filter
          (fun p => p.component_id == component_id && p.valid)).length ≥ 2 ∨
        ∃ q ∈ stream.conncheck_list, q.component_id = component_id ∧ q.valid = true ∧
          q.local_.type = NICE_CANDIDATE_TYPE_HOST ∧
          q.remote.type = NICE_CANDIDATE_TYPE_HOST) →
      nominate_component_regular agent stream_id none component_id =
        (true, priv_add_pair_to_triggered_check_queue
          (agent.updatePair (nominate_checked_pair agent p0).ptr
            (fun q => { q with use_candidate_on_next_check := true }))
          (nominate_checked_pair agent p0).ptr)) := by
  have hdone : ((stream.conncheck_list.filter (fun p => p.component_id == component_id)).any
      (fun p => p.use_candidate_on_next_check)) = false := by
    rw [List.any_eq_false]
    intro q hq
    rw [(hnone q (List.mem_filter.1 hq).1).2]
    decide
  have hother : stream.conncheck_list.find? (fun p =>
      p.component_id != component_id && nominated_or_about_to p) = none := by
    rw [List.find?_eq_none]
    intro q hq
    unfold nominated_or_about_to
    simp [(hnone q hq).1, (hnone q hq).2]
  have hfind : stream.conncheck_list.find? (fun p => p.component_id == component_id &&
      !p.nominated && !p.use_candidate_on_next_check && p.valid) =
      stream.conncheck_list.find? (fun p => p.component_id == component_id && p.valid) := by
    apply find?_congr_mem
    intro q hq
    simp [(hnone q hq).1, (hnone q hq).2]
  refine ⟨?_, ?_⟩
  · intro h0
    unfold nominate_component_regular
    rw [hstream]
    simp only [hdone, hother, Option.isNone_none, Bool.and_self, nominate_select_first, hfind,
      h0, Option.map_none', Bool.false_eq_true, if_false]
  · intro p0 h0 hcrit
    unfold nominate_component_regular
    rw [hstream]
    simp only [hdone, hother, Option.isNone_none, Bool.and_self, nominate_select_first, hfind,
      h0, Option.map_some', Bool.false_eq_true, if_false]
    rw [if_neg]
    rw [List.filter_filter, List.filter_filter]
    rcases hcrit with h2 | ⟨q, hq, hc, hv, hl, hr⟩
    · have : (stream.conncheck_list.filter
          (fun a => a.valid && (a.component_id == component_id))).length ≥ 2 := by
        have e : (fun a : CandidateCheckPair => a.valid && (a.component_id == component_id)) =
            (fun p => p.component_id == component_id && p.valid) := by
          funext a; exact Bool.and_comm _ _
        rw [e]; exact h2
      simp [NICE_MIN_NUMBER_OF_VALID_PAIRS, this]
    · have : 0 < (stream.conncheck_list.filter (fun a =>
          (a.valid && a.local_.type == NICE_CANDIDATE_TYPE_HOST &&
            a.remote.type == NICE_CANDIDATE_TYPE_HOST) &&
          (a.component_id == component_id))).length := by
        rw [List.length_pos]
        intro he
        have hm : q ∈ stream.conncheck_list.filter (fun a =>
          (a.valid && a.local_.type == NICE_CANDIDATE_TYPE_HOST &&
            a.remote.type == NICE_CANDIDATE_TYPE_HOST) &&
          (a.component_id == component_id)) :=
          List.mem_filter.2 ⟨hq, by simp [hc, hv, hl, hr]⟩
        rw [he] at hm
        simp at hm
      simp [this]

theorem stream_pairs_add_to_queue (agent : NiceAgent) (y sid : Nat) :
    stream_pairs (priv_add_pair_to_triggered_check_queue agent y) sid = stream_pairs agent sid ∧
    (priv_add_pair_to_triggered_check_queue agent y).allPairs = agent.allPairs ∧
    y ∈ (priv_add_pair_to_triggered_check_queue agent y).triggered_check_queue ∧
    ∀ x ∈ agent.triggered_check_queue,
      x ∈ (priv_add_pair_to_triggered_check_queue agent y).triggered_check_queue := by
  unfold priv_add_pair_to_triggered_check_queue
  split_ifs with h
  · refine ⟨rfl, rfl, ?_, ?_⟩
    · simp [g_slist_append]
    · intro x hx; simp [g_slist_append, hx]
  · refine ⟨rfl, rfl, ?_, fun x hx => hx⟩
    have h2 : g_slist_find agent.triggered_check_queue y = true := by
      by_contra hc
      exact h (Or.inr (by simpa using hc))
    exact (g_slist_find_iff _ _).1 h2

theorem filter_updatePairIn (pred : CandidateCheckPair → Bool) (l : List CandidateCheckPair)
    (y : Nat) (f : CandidateCheckPair → CandidateCheckPair)
    (h : ∀ r ∈ l, r.ptr = y → pred r = false) (hf : ∀ r, pred (f r) = pred r) :
    (updatePairIn l y f).filter pred = l.filter pred := by
  unfold updatePairIn
  induction l with
  | nil => rfl
  | cons r rs ih =>
    have ih1 := ih (fun q hq => h q (List.mem_cons_of_mem _ hq))
    simp only [List.map_cons, List.filter_cons]
    by_cases hr : r.ptr = y
    · rw [if_pos hr, hf, h r (List.mem_cons_self _ _) hr]
      simpa using ih1
    · rw [if_neg hr, ih1]

theorem map_pair_shape_updatePairIn (l : List CandidateCheckPair) (y : Nat)
    (f : CandidateCheckPair → CandidateCheckPair) (hf : ∀ r, pair_shape (f r) = pair_shape r) :
    (updatePairIn l y f).map pair_shape = l.map pair_shape := by
  unfold updatePairIn
  rw [List.map_map]
  apply List.map_congr_left
  intro r _
  simp only [Function.comp]
  split_ifs
  · exact hf r
  · rfl

theorem nominate_components_regular_rest (sid cid x : Nat)
    (S_all S_stream : List (Nat × Nat × Option Nat)) (L3 : List CandidateCheckPair)
    (f1 : (S_all.map (fun sh => sh.1)).Nodup)
    (f2 : ∀ sh ∈ S_stream, ∀ sp, sh.2.2 = some sp → ∀ sh1 ∈ S_all, sh1.1 = sp →
      sh1.2.1 = sh.2.1)
    (f3 : ∃ r ∈ L3, r.use_candidate_on_next_check = true)
    (f4 : ∀ sh ∈ S_stream, sh ∈ S_all)
    (post : List Nat) (keep : Bool) (a : NiceAgent)
    (j1 : a.allPairs.map pair_shape = S_all)
    (j2 : (stream_pairs a sid).map pair_shape = S_stream)
    (j3 : (stream_pairs a sid).filter (fun p => p.component_id == cid) = L3)
    (j4 : x ∈ a.triggered_check_queue) :
    (keep = true → (nominate_components
      (fun a c => nominate_component_regular a sid none c) post keep a).1 = true) ∧
    (stream_pairs (nominate_components
      (fun a c => nominate_component_regular a sid none c) post keep a).2 sid).filter
        (fun p => p.component_id == cid) = L3 ∧
    x ∈ (nominate_components
      (fun a c => nominate_component_regular a sid none c) post keep a).2.triggered_check_queue := by
  induction post generalizing keep a with
  | nil => exact ⟨fun h => h, j3, j4⟩
  | cons c cs ih =>
    unfold nominate_components
    simp only
    rcases nominate_component_regular_cases a sid none c with h | ⟨p, hp, hc, _, h⟩
    · rw [h]
      obtain ⟨i1, i2, i3⟩ := ih (keep || false) a j1 j2 j3 j4
      exact ⟨fun hk => i1 (by simp [hk]), i2, i3⟩
    · by_cases hcc : c = cid
      · have hdone : nominate_component_regular a sid none c = (false, a) := by
          apply nominate_component_regular_done
          obtain ⟨r, hr, hu⟩ := f3
          rw [← j3] at hr
          have hr1 := List.mem_filter.1 hr
          exact ⟨r, hr1.1, by rw [hcc]; simpa using hr1.2, hu⟩
        rw [hdone]
        obtain ⟨i1, i2, i3⟩ := ih (keep || false) a j1 j2 j3 j4
        exact ⟨fun hk => i1 (by simp [hk]), i2, i3⟩
      · rw [h]
        have hshp : pair_shape p ∈ S_stream := by
          rw [← j2]; exact List.mem_map_of_mem _ hp
        have hY : (nominate_checked_pair a p).component_id = c ∧
            pair_shape (nominate_checked_pair a p) ∈ S_all := by
          unfold nominate_checked_pair
          cases hsp : p.succeeded_pair with
          | none => exact ⟨hc, f4 _ hshp⟩
          | some sp =>
            simp only
            cases hfp : a.findPair sp with
            | none => exact ⟨hc, f4 _ hshp⟩
            | some q =>
              simp only
              have hq := mem_allPairs_of_findPair a sp q hfp
              have hqs : pair_shape q ∈ S_all := by
                rw [← j1]; exact List.mem_map_of_mem _ hq.1
              exact ⟨(f2 _ hshp sp hsp _ hqs hq.2).trans hc, hqs⟩
        generalize nominate_checked_pair a p = Y at hY ⊢
        have hadd := stream_pairs_add_to_queue (a.updatePair Y.ptr
          (fun q => { q with use_candidate_on_next_check := true })) Y.ptr sid
        have hshape := fun l => map_pair_shape_updatePairIn l Y.ptr
          (fun q => { q with use_candidate_on_next_check := true }) (fun _ => rfl)
        have hfilter := fun l h => filter_updatePairIn (fun p => p.component_id == cid) l Y.ptr
          (fun q => { q with use_candidate_on_next_check := true }) h (fun _ => rfl)
        obtain ⟨i1, i2, i3⟩ := ih (keep || true) (priv_add_pair_to_triggered_check_queue
          (a.updatePair Y.ptr (fun q => { q with use_candidate_on_next_check := true })) Y.ptr)
          (by
            rw [hadd.2.1, allPairs_updatePair]
            exact (hshape a.allPairs).trans j1)
          (by
            rw [hadd.1, stream_pairs_updatePair]
            exact (hshape _).trans j2)
          (by
            rw [hadd.1, stream_pairs_updatePair, hfilter _ ?_]
            · exact j3
            · intro r hr hry
              have hrs : pair_shape r ∈ S_all := f4 _ (by
                rw [← j2]; exact List.mem_map_of_mem _ hr)
              have e : pair_shape r = pair_shape Y :=
                List.inj_on_of_nodup_map f1 hrs hY.2 hry
              have e2 : r.component_id = Y.component_id := congrArg (fun sh => sh.2.1) e
              show (r.component_id == cid) = false
              rw [e2, hY.1]
              simpa using hcc)
          (hadd.2.2.2 x (by exact j4))
        exact ⟨fun _ => i1 (by simp), i2, i3⟩

theorem nominate_components_cons (step : NiceAgent → Nat → Bool × NiceAgent) (c : Nat)
    (cs : List Nat) (keep : Bool) (a : NiceAgent) :
    nominate_components step (c :: cs) keep a =
      nominate_components step cs (keep || (step a c).1) (step a c).2 := rfl

theorem nominate_components_regular_skip (agent : NiceAgent) (sid : Nat) (stream : NiceStream)
    (hstream : agent_find_stream agent sid = some stream)
    (hnone : ∀ q ∈ stream.conncheck_list,
      q.nominated = false ∧ q.use_candidate_on_next_check = false)
    (pre rest : List Nat) (keep : Bool)
    (hpre : ∀ q ∈ stream.conncheck_list, q.valid = true → q.component_id ∉ pre) :
    nominate_components (fun a c => nominate_component_regular a sid none c) (pre ++ rest)
      keep agent =
    nominate_components (fun a c => nominate_component_regular a sid none c) rest keep agent := by
  induction pre with
  | nil => rfl
  | cons c cs ih =>
    have h0 : stream.conncheck_list.find? (fun p => p.component_id == c && p.valid) = none := by
      rw [List.find?_eq_none]
      intro q hq hc
      simp only [Bool.and_eq_true, beq_iff_eq] at hc
      exact hpre q hq hc.2 (hc.1 ▸ List.mem_cons_self _ _)
    rw [List.cons_append, nominate_components_cons]
    rw [(nominate_component_regular_first agent sid stream c hstream hnone).1 h0]
    simp only [Bool.or_false]
    exact ih (fun q hq hv hm => hpre q hq hv (List.mem_cons_of_mem _ hm))

theorem find?_sorted_highest (l : List CandidateCheckPair) (pred : CandidateCheckPair → Bool)
    (p0 : CandidateCheckPair) (hs : conncheck_sorted l) (h : l.find? pred = some p0) :
    ∀ q ∈ l, pred q = true → q.priority ≤ p0.priority := by
  induction l with
  | nil => simp at h
  | cons x xs ih =>
    unfold conncheck_sorted at hs
    have hs1 := List.pairwise_cons.1 hs
    rw [List.find?_cons] at h
    cases hx : pred x with
    | true =>
      rw [hx] at h
      have e : x = p0 := Option.some.inj h
      subst e
      intro q hq _
      rcases List.mem_cons.1 hq with h1 | h1
      · rw [h1]
      · exact hs1.1 q h1
    | false =>
      rw [hx] at h
      intro q hq hp
      rcases List.mem_cons.1 hq with h1 | h1
      · rw [h1, hx] at hp; exact absurd hp (by decide)
      · exact ih hs1.2 h q h1 hp

theorem stream_pairs_tick_counter (agent : NiceAgent) (stream_id sid : Nat)
    (g : NiceStream → Nat) :
    stream_pairs (agent.updateStream stream_id (fun s => { s with tick_counter := g s })) sid =
      stream_pairs agent sid := by
  unfold stream_pairs
  rw [agent_find_stream_updateStream _ _ _ _ ?_]
  · cases agent_find_stream agent sid with
    | none => rfl
    | some s =>
      simp only [Option.map_some']
      split_ifs <;> rfl
  · intro s; rfl

theorem nominate_other_stream_pair_none (agent : NiceAgent) (stream_id : Nat)
    (hnone : ∀ q ∈ agent.allPairs,
      q.nominated = false ∧ q.use_candidate_on_next_check = false) :
    nominate_other_stream_pair agent stream_id = none := by
  unfold nominate_other_stream_pair
  rw [List.find?_eq_none]
  intro q hq
  have hq1 : q ∈ agent.allPairs := by
    unfold NiceAgent.allPairs
    rw [List.mem_flatMap] at hq ⊢
    obtain ⟨s, hs, hqs⟩ := hq
    exact ⟨s, (List.mem_filter.1 hs).1, hqs⟩
  unfold nominated_or_about_to
  simp [(hnone q hq1).1, (hnone q hq1).2]

theorem priv_conn_check_tick_stream_nominate_regular (E : Ext) (agent : NiceAgent)
    (stream_id : Nat) (stream : NiceStream)
    (hstream : agent_find_stream agent stream_id = some stream)
    (hcompat : agent.compatibility = NICE_COMPATIBILITY_RFC5245)
    (hmode : agent.nomination_mode = NICE_NOMINATION_MODE_REGULAR)
    (hctrl : agent.controlling_mode = true)
    (hnone : ∀ q ∈ agent.allPairs,
      q.nominated = false ∧ q.use_candidate_on_next_check = false)
    (hn : 0 < stream.n_components)
    (hdone : ∃ p ∈ stream.conncheck_list,
      p.state = NICE_CHECK_SUCCEEDED ∨ p.state = NICE_CHECK_DISCOVERED) :
    ∃ keep, priv_conn_check_tick_stream_nominate E agent stream_id =
      ((nominate_components (fun a c => nominate_component_regular a stream_id none c)
          (stream.components.map (fun c => c.id)) keep agent).1,
        (nominate_components (fun a c => nominate_component_regular a stream_id none c)
          (stream.components.map (fun c => c.id)) keep agent).2.updateStream stream_id
            (fun s => { s with tick_counter := (s.tick_counter + 1) % 2 ^ 32 })) := by
  have hmem : ∀ q ∈ stream.conncheck_list, q ∈ agent.allPairs :=
    fun q hq => mem_allPairs_of_stream agent stream (agent_find_stream_some _ _ _ hstream).1 q hq
  unfold priv_conn_check_tick_stream_nominate
  rw [hstream]
  simp only
  rw [nominate_other_stream_pair_none agent stream_id hnone]
  have hnom : (stream.conncheck_list.filter (fun p =>
      (p.state == NICE_CHECK_SUCCEEDED || p.state == NICE_CHECK_DISCOVERED) &&
        p.nominated)).length = 0 := by
    rw [List.length_eq_zero, List.filter_eq_nil_iff]
    intro q hq
    simp [(hnone q (hmem q hq)).1]
  have hwait : (stream.conncheck_list.filter (fun p =>
      (p.state == NICE_CHECK_SUCCEEDED || p.state == NICE_CHECK_DISCOVERED) &&
        !p.nominated)).length > 0 := by
    obtain ⟨p, hp, hst⟩ := hdone
    apply List.length_pos_of_mem
    refine List.mem_filter.2 ⟨hp, ?_⟩
    rcases hst with h | h <;> simp [h, (hnone p (hmem p hp)).1]
  have hc : NICE_AGENT_IS_COMPATIBLE_WITH_RFC5245_OR_OC2007R2 agent = true := by
    unfold NICE_AGENT_IS_COMPATIBLE_WITH_RFC5245_OR_OC2007R2
    simp [hcompat]
  rw [if_pos ⟨by rw [hnom]; exact hn, hwait⟩, if_pos hc, if_pos ⟨hmode, hctrl⟩]
  exact ⟨_, rfl⟩

/-- C11 (amended): regular nomination, first nomination.  For a controlling agent in regular
nomination mode (RFC 5245 compatibility) where no pair of any stream is nominated or flagged
`use_candidate_on_next_check`, take the first component of the stream, in component order,
that has a valid pair, and let it have at least two valid pairs or a valid host-host pair.
Then `priv_conn_check_tick_stream_nominate` returns TRUE, flags in that component exactly the
pair at the address of the checked pair (the first valid pair of the component in list order,
or its `succeeded_pair` parent), which is a pair of the component, puts that address in the
triggered-check queue and leaves every other pair of the component unchanged; in a sorted list
the first valid pair has the highest priority among the valid pairs of the component. -/
theorem regular_first_nomination_flags_best_valid_pair (E : Ext) (agent : NiceAgent)
    (stream_id : Nat) (stream : NiceStream) (pre post : List Nat) (cid : Nat)
    (p0 : CandidateCheckPair)
    (hstream : agent_find_stream agent stream_id = some stream)
    (hcompat : agent.compatibility = NICE_COMPATIBILITY_RFC5245)
    (hmode : agent.nomination_mode = NICE_NOMINATION_MODE_REGULAR)
    (hctrl : agent.controlling_mode = true)
    (hnone : ∀ q ∈ agent.allPairs,
      q.nominated = false ∧ q.use_candidate_on_next_check = false)
    (hn : 0 < stream.n_components)
    (hids : stream.components.map (fun c => c.id) = pre ++ cid :: post)
    (hpre : ∀ q ∈ stream.conncheck_list, q.valid = true → q.component_id ∉ pre)
    (hp0 : stream.conncheck_list.find? (fun p => p.component_id == cid && p.valid) = some p0)
    (hcrit : (stream.conncheck_list.filter
        (fun p => p.component_id == cid && p.valid)).length ≥ 2 ∨
      ∃ q ∈ stream.conncheck_list, q.component_id = cid ∧ q.valid = true ∧
        q.local_.type = NICE_CANDIDATE_TYPE_HOST ∧ q.remote.type = NICE_CANDIDATE_TYPE_HOST)
    (hdisc : p0.succeeded_pair ≠ none → p0.state = NICE_CHECK_DISCOVERED)
    (hsucc : (nominate_checked_pair agent p0).state = NICE_CHECK_SUCCEEDED)
    (hnd : (agent.allPairs.map (fun p => p.ptr)).Nodup)
    (hlink : ∀ q ∈ stream.conncheck_list, ∀ sp ∈ q.succeeded_pair,
      ∃ r ∈ stream.conncheck_list, r.ptr = sp ∧ r.component_id = q.component_id)
    (hsorted : conncheck_sorted stream.conncheck_list) :
    (priv_conn_check_tick_stream_nominate E agent stream_id).1 = true ∧
    (nominate_checked_pair agent p0).ptr ∈
      (priv_conn_check_tick_stream_nominate E agent stream_id).2.triggered_check_queue ∧
    (stream_pairs (priv_conn_check_tick_stream_nominate E agent stream_id).2 stream_id).filter
        (fun p => p.component_id == cid) =
      (stream.conncheck_list.filter (fun p => p.component_id == cid)).map
        (fun q => if q.ptr = (nominate_checked_pair agent p0).ptr
          then { q with use_candidate_on_next_check := true } else q) ∧
    (nominate_checked_pair agent p0 ∈ stream.conncheck_list ∧
      (nominate_checked_pair agent p0).component_id = cid) ∧
    (∀ q ∈ stream.conncheck_list, q.component_id = cid → q.valid = true →
      q.priority ≤ p0.priority) := by
  have hsmem : stream ∈ agent.streams := (agent_find_stream_some _ _ _ hstream).1
  have hmem : ∀ q ∈ stream.conncheck_list, q ∈ agent.allPairs :=
    fun q hq => mem_allPairs_of_stream agent stream hsmem q hq
  have hsp : stream_pairs agent stream_id = stream.conncheck_list := by
    unfold stream_pairs; rw [hstream]
  have hp0mem : p0 ∈ stream.conncheck_list := List.mem_of_find?_eq_some hp0
  have hp0c : p0.component_id = cid ∧ p0.valid = true := by
    have := List.find?_some hp0
    simpa using this
  -- the checked pair is a pair of the component
  have hX : nominate_checked_pair agent p0 ∈ stream.conncheck_list ∧
      (nominate_checked_pair agent p0).component_id = cid := by
    unfold nominate_checked_pair
    cases hs : p0.succeeded_pair with
    | none => exact ⟨hp0mem, hp0c.1⟩
    | some sp =>
      simp only
      cases hf : agent.findPair sp with
      | none => exact ⟨hp0mem, hp0c.1⟩
      | some q =>
        simp only
        obtain ⟨r, hr, hrp, hrc⟩ := hlink p0 hp0mem sp hs
        have hq := mem_allPairs_of_findPair agent sp q hf
        have e : q = r := List.inj_on_of_nodup_map hnd hq.1 (hmem r hr) (hq.2.trans hrp.symm)
        rw [e]
        exact ⟨hr, hrc.trans hp0c.1⟩
  have hdone : ∃ p ∈ stream.conncheck_list,
      p.state = NICE_CHECK_SUCCEEDED ∨ p.state = NICE_CHECK_DISCOVERED := by
    cases hs : p0.succeeded_pair with
    | none =>
      refine ⟨p0, hp0mem, Or.inl ?_⟩
      have : nominate_checked_pair agent p0 = p0 := by
        unfold nominate_checked_pair; rw [hs]
      rw [← this]; exact hsucc
    | some sp => exact ⟨p0, hp0mem, Or.inr (hdisc (by rw [hs]; simp))⟩
  obtain ⟨keep, hres⟩ := priv_conn_check_tick_stream_nominate_regular E agent stream_id stream
    hstream hcompat hmode hctrl hnone hn hdone
  have hnone1 : ∀ q ∈ stream.conncheck_list,
      q.nominated = false ∧ q.use_candidate_on_next_check = false :=
    fun q hq => hnone q (hmem q hq)
  rw [hres, hids, nominate_components_regular_skip agent stream_id stream hstream hnone1 pre _
    keep hpre, nominate_components_cons,
    (nominate_component_regular_first agent stream_id stream cid hstream hnone1).2 p0 hp0 hcrit]
  generalize nominate_checked_pair agent p0 = X at hX hsucc ⊢
  have hadd := stream_pairs_add_to_queue (agent.updatePair X.ptr
    (fun q => { q with use_candidate_on_next_check := true })) X.ptr stream_id
  have hshape := fun l => map_pair_shape_updatePairIn l X.ptr
    (fun q => { q with use_candidate_on_next_check := true }) (fun _ => rfl)
  have hrest := nominate_components_regular_rest stream_id cid X.ptr
    (agent.allPairs.map pair_shape) (stream.conncheck_list.map pair_shape)
    ((stream.conncheck_list.filter (fun p => p.component_id == cid)).map
      (fun q => if q.ptr = X.ptr then { q with use_candidate_on_next_check := true } else q))
    (by rw [List.map_map]; exact hnd)
    (by
      intro sh hsh sp hsp sh1 hsh1 hptr
      obtain ⟨q, hq, rfl⟩ := List.mem_map.1 hsh
      obtain ⟨r1, hr1, rfl⟩ := List.mem_map.1 hsh1
      obtain ⟨r, hr, hrp, hrc⟩ := hlink q hq sp hsp
      have e : r1 = r := List.inj_on_of_nodup_map hnd hr1 (hmem r hr) (hptr.trans hrp.symm)
      rw [e]; exact hrc)
    ⟨{ X with use_candidate_on_next_check := true }, by
      refine List.mem_map.2 ⟨X, List.mem_filter.2 ⟨hX.1, by simp [hX.2]⟩, ?_⟩
      rw [if_pos rfl], rfl⟩
    (by
      intro sh hsh
      obtain ⟨q, hq, rfl⟩ := List.mem_map.1 hsh
      exact List.mem_map_of_mem _ (hmem q hq))
    post (keep || true)
    (priv_add_pair_to_triggered_check_queue (agent.updatePair X.ptr
      (fun q => { q with use_candidate_on_next_check := true })) X.ptr)
    (by rw [hadd.2.1, allPairs_updatePair]; exact hshape agent.allPairs)
    (by rw [hadd.1, stream_pairs_updatePair, hsp]; exact hshape _)
    (by
      rw [hadd.1, stream_pairs_updatePair, hsp]
      unfold updatePairIn
      rw [List.filter_map]
      congr 1
      apply List.filter_congr
      intro q _
      simp only [Function.comp]
      split_ifs <;> rfl)
    hadd.2.2.1
  refine ⟨hrest.1 (by simp), hrest.2.2, ?_, hX, ?_⟩
  · simp only
    rw [stream_pairs_tick_counter]
    exact hrest.2.1
  · intro q hq hc hv
    exact find?_sorted_highest _ _ p0 hsorted hp0 q hq (by simp [hc, hv])

theorem regular_first_nomination_flags_best_valid_pair_witness :
    (priv_conn_check_tick_stream_nominate ext0
      (ex_agent NICE_COMPATIBILITY_RFC5245 ex_list_discovered []) 1).1 = true ∧
    (priv_conn_check_tick_stream_nominate ext0
      (ex_agent NICE_COMPATIBILITY_RFC5245 ex_list_discovered []) 1).2.triggered_check_queue =
      [11] ∧
    (stream_pairs (priv_conn_check_tick_stream_nominate ext0
      (ex_agent NICE_COMPATIBILITY_RFC5245 ex_list_discovered []) 1).2 1).filter
        (fun p => p.component_id == 1) =
      (ex_list_discovered.filter (fun p => p.component_id == 1)).map
        (fun q => if q.ptr = 11 then { q with use_candidate_on_next_check := true } else q) :=
  ⟨(regular_first_nomination_flags_best_valid_pair ext0
      (ex_agent NICE_COMPATIBILITY_RFC5245 ex_list_discovered []) 1
      (ex_stream ex_list_discovered) [] [] 1 ex_pair_discovered
      (by decide) (by decide) (by decide) (by decide) (by decide) (by decide) (by decide)
      (by decide) (by decide) (by decide) (by decide) (by decide) (by decide) (by decide)
      (by decide)).1,
    by decide,
    (regular_first_nomination_flags_best_valid_pair ext0
      (ex_agent NICE_COMPATIBILITY_RFC5245 ex_list_discovered []) 1
      (ex_stream ex_list_discovered) [] [] 1 ex_pair_discovered
      (by decide) (by decide) (by decide) (by decide) (by decide) (by decide) (by decide)
      (by decide) (by decide) (by decide) (by decide) (by decide) (by decide) (by decide)
      (by decide)).2.2.1⟩

/-- C11 (counterexample): a stream of two components, no pair nominated or flagged, the list
sorted, two valid pairs in each component.  Component 2 has the valid pairs 21 and 22, pair 21
with the higher priority; `priv_conn_check_tick_stream_nominate` flags pair 11 of component 1
and then, for component 2, pair 22, which has the addresses of pair 11, and not pair 21. -/
theorem regular_nomination_second_component_not_highest :
    (∀ q ∈ ex_agent_two_components.allPairs,
      q.nominated = false ∧ q.use_candidate_on_next_check = false) ∧
    conncheck_sorted ex_list_two_components ∧
    (ex_list_two_components.filter (fun p => p.component_id == 2 && p.valid)).map
      (fun q => (q.ptr, q.priority)) =
      [(21, 9115005261692404221), (22, 9114723791010660858)] ∧
    (priv_conn_check_tick_stream_nominate ext0 ex_agent_two_components 1).1 = true ∧
    (stream_pairs (priv_conn_check_tick_stream_nominate ext0 ex_agent_two_components 1).2
      1).map (fun q => (q.ptr, q.component_id, q.use_candidate_on_next_check)) =
      [(11, 1, true), (21, 2, false), (22, 2, true), (12, 1, false)] ∧
    (priv_conn_check_tick_stream_nominate ext0 ex_agent_two_components
      1).2.triggered_check_queue = [11, 22] := by
  decide

/-! ## One pair per tuple of candidates -/

theorem subperm_nodup {α : Type} {l1 l2 : List α} (h : l1.Subperm l2) (hn : l2.Nodup) :
    l1.Nodup := by
  obtain ⟨l, hp, hs⟩ := h
  exact hp.nodup_iff.1 (hn.sublist hs)

theorem stream_pairs_updateStream_list (agent : NiceAgent) (stream_id sid : Nat)
    (g : List CandidateCheckPair → List CandidateCheckPair) :
    stream_pairs (agent.updateStream stream_id
      (fun s => { s with conncheck_list := g s.conncheck_list })) sid =
      if sid = stream_id then
        (match agent_find_stream agent sid with
         | some s => g s.conncheck_list
         | none => [])
      else stream_pairs agent sid := by
  unfold stream_pairs
  rw [agent_find_stream_updateStream _ _ _ _ ?_]
  · cases h : agent_find_stream agent sid with
    | none => simp
    | some s =>
      have hs := (agent_find_stream_some agent sid s h).2
      simp only [Option.map_some', hs]
      split_ifs <;> rfl
  · intro s; rfl

theorem stream_pairs_queue (agent : NiceAgent) (queue : List Nat) (sid : Nat) :
    stream_pairs { agent with triggered_check_queue := queue } sid = stream_pairs agent sid :=
  rfl

theorem tuples_SET_PAIR_STATE (agent : NiceAgent) (p : Nat) (st : NiceCheckState) (sid : Nat) :
    (stream_pairs (SET_PAIR_STATE agent p st) sid).map pair_tuple =
      (stream_pairs agent sid).map pair_tuple := by
  unfold SET_PAIR_STATE
  rw [stream_pairs_updatePair]
  unfold updatePairIn
  rw [List.map_map]
  apply List.map_congr_left
  intro q _
  simp only [Function.comp]
  split_ifs <;> rfl

theorem tuples_priv_conn_check_unfreeze_maybe (E : Ext) (agent : NiceAgent)
    (pair : CandidateCheckPair) (sid : Nat) :
    (stream_pairs (priv_conn_check_unfreeze_maybe E agent pair) sid).map pair_tuple =
      (stream_pairs agent sid).map pair_tuple := by
  unfold priv_conn_check_unfreeze_maybe
  split_ifs
  · exact tuples_SET_PAIR_STATE _ _ _ _
  · rfl

theorem priv_limit_conn_check_list_size_loop_sublist (max_conn_checks pair : Nat)
    (l : List CandidateCheckPair) (valid : Nat) (queue : List Nat) :
    (priv_limit_conn_check_list_size_loop max_conn_checks pair l valid queue).1.Sublist l := by
  induction l generalizing valid queue with
  | nil => exact List.Sublist.refl _
  | cons p ps ih =>
    unfold priv_limit_conn_check_list_size_loop
    split_ifs
    · exact (ih _ _).cons _
    · exact (ih _ _).cons₂ _

theorem stream_pairs_priv_limit_conn_check_list_size (agent : NiceAgent)
    (stream_id pair sid : Nat) :
    (stream_pairs (priv_limit_conn_check_list_size agent stream_id pair).2 sid).Sublist
      (stream_pairs agent sid) := by
  unfold priv_limit_conn_check_list_size
  cases h : agent_find_stream agent stream_id with
  | none => exact List.Sublist.refl _
  | some stream =>
    simp only
    rw [stream_pairs_queue]
    have := stream_pairs_updateStream_list agent stream_id sid (fun _ =>
      (priv_limit_conn_check_list_size_loop agent.max_conn_checks pair stream.conncheck_list 0
        agent.triggered_check_queue).1)
    rw [this]
    split_ifs with hs
    · rw [hs, h]
      unfold stream_pairs
      rw [h]
      exact priv_limit_conn_check_list_size_loop_sublist _ _ _ _ _
    · exact List.Sublist.refl _

theorem tuples_priv_add_new_check_pair (E : Ext) (agent : NiceAgent) (stream_id : Nat)
    (component : NiceComponent) (local_ remote : NiceCandidate) (initial_state : NiceCheckState)
    (new_pair : Nat) (sid : Nat) :
    ((stream_pairs (priv_add_new_check_pair E agent stream_id component local_ remote
      initial_state new_pair).2 sid).map pair_tuple).Subperm
      ((component.id, local_.ptr, remote.ptr) :: (stream_pairs agent sid).map pair_tuple) := by
  unfold priv_add_new_check_pair
  split
  · exact (List.sublist_cons_self _ _).subperm
  · rename_i agent1 hins
    unfold priv_add_new_check_pair_insert at hins
    simp only at hins
    split_ifs at hins
    simp only [Option.some.injEq] at hins
    have k1 : ((stream_pairs agent1 sid).map pair_tuple).Subperm
        ((component.id, local_.ptr, remote.ptr) :: (stream_pairs agent sid).map pair_tuple) := by
      rw [← hins, stream_pairs_updateStream_list agent stream_id sid
        (fun l => g_slist_insert_sorted l (priv_add_new_check_pair_record E agent stream_id
          component local_ remote initial_state new_pair) conn_check_compare)]
      split_ifs with hs
      · unfold stream_pairs
        cases hfs : agent_find_stream agent sid with
        | none =>
          simp only [List.map_nil]
          exact (List.nil_sublist _).subperm
        | some s =>
          simp only
          obtain ⟨l1, l2, h1, h2⟩ := g_slist_insert_sorted_inserted s.conncheck_list
            (priv_add_new_check_pair_record E agent stream_id component local_ remote
              initial_state new_pair) conn_check_compare
          rw [h2, h1]
          apply List.Perm.subperm
          simp only [List.map_append, List.map_cons]
          exact List.perm_middle
      · exact (List.sublist_cons_self _ _).subperm
    have k2 : ((stream_pairs (if initial_state = NICE_CHECK_FROZEN then
          priv_conn_check_unfreeze_maybe E agent1
            (priv_add_new_check_pair_record E agent stream_id component local_ remote
              initial_state new_pair)
        else agent1) sid).map pair_tuple).Subperm
        ((component.id, local_.ptr, remote.ptr) :: (stream_pairs agent sid).map pair_tuple) := by
      split_ifs
      · rw [tuples_priv_conn_check_unfreeze_maybe]; exact k1
      · exact k1
    simp only
    generalize (if initial_state = NICE_CHECK_FROZEN then
        priv_conn_check_unfreeze_maybe E agent1
          (priv_add_new_check_pair_record E agent stream_id component local_ remote
            initial_state new_pair)
      else agent1) = agent2 at k2 ⊢
    split_ifs
    all_goals first
      | exact k2
      | exact ((stream_pairs_priv_limit_conn_check_list_size agent2 stream_id new_pair
          sid).map pair_tuple).subperm.trans k2

theorem stream_pairs_signal (agent : NiceAgent) (stream_id component_id : Nat)
    (st : NiceComponentState) (sid : Nat) :
    stream_pairs (agent_signal_component_state_change agent stream_id component_id st) sid =
      stream_pairs agent sid :=
  (agent_signal_component_state_change_pairs agent stream_id component_id st).2 sid

theorem tuples_priv_conn_check_add_for_candidate_pair_matched (E : Ext) (agent : NiceAgent)
    (stream_id : Nat) (component : NiceComponent) (local_ remote : NiceCandidate)
    (initial_state : NiceCheckState) (new_pair : Nat) (sid : Nat) :
    ((stream_pairs (priv_conn_check_add_for_candidate_pair_matched E agent stream_id component
      local_ remote initial_state new_pair).2 sid).map pair_tuple).Subperm
      ((component.id, local_.ptr, remote.ptr) :: (stream_pairs agent sid).map pair_tuple) := by
  have k := tuples_priv_add_new_check_pair E agent stream_id component local_ remote
    initial_state new_pair sid
  unfold priv_conn_check_add_for_candidate_pair_matched
  simp only
  split
  · exact k
  · split_ifs
    all_goals
      simp only
      rw [stream_pairs_signal]
      exact k

theorem tuples_conn_check_add_for_candidate_pair (E : Ext) (agent : NiceAgent)
    (stream_id : Nat) (component : NiceComponent) (local_ remote : NiceCandidate)
    (new_pair : Nat) (sid : Nat) :
    ((stream_pairs (conn_check_add_for_candidate_pair E agent stream_id component
      local_ remote new_pair).2 sid).map pair_tuple).Subperm
      ((component.id, local_.ptr, remote.ptr) :: (stream_pairs agent sid).map pair_tuple) := by
  unfold conn_check_add_for_candidate_pair
  split_ifs
  · exact (List.sublist_cons_self _ _).subperm
  · exact (List.sublist_cons_self _ _).subperm
  · exact tuples_priv_conn_check_add_for_candidate_pair_matched E agent stream_id component
      local_ remote NICE_CHECK_FROZEN new_pair sid
  · exact (List.sublist_cons_self _ _).subperm

theorem subperm_step {α : Type} {T T1 T2 : List α} (t : α) (ex : List α)
    (h1 : T1.Subperm (t :: T)) (h2 : T2.Subperm (ex ++ T1)) :
    T2.Subperm ((t :: ex) ++ T) := by
  refine h2.trans ?_
  have h3 : (ex ++ T1).Subperm (ex ++ (t :: T)) := (List.subperm_append_left ex).2 h1
  exact h3.trans (List.perm_middle.subperm)

theorem tuples_conn_check_add_for_candidate_loop (E : Ext) (stream_id component_id : Nat)
    (remote : NiceCandidate) (new_pairs : Nat → Nat) (sid : Nat)
    (locals : List NiceCandidate) (k added : Nat) (agent : NiceAgent) :
    ((stream_pairs (conn_check_add_for_candidate_loop E stream_id component_id remote new_pairs
      locals k added agent).2 sid).map pair_tuple).Subperm
      (locals.map (fun c => (component_id, c.ptr, remote.ptr)) ++
        (stream_pairs agent sid).map pair_tuple) := by
  induction locals generalizing k added agent with
  | nil => exact List.Subperm.refl _
  | cons c cs ih =>
    have hskip : ∀ k1 added1, ((stream_pairs (conn_check_add_for_candidate_loop E stream_id
        component_id remote new_pairs cs k1 added1 agent).2 sid).map pair_tuple).Subperm
        ((c :: cs).map (fun c => (component_id, c.ptr, remote.ptr)) ++
          (stream_pairs agent sid).map pair_tuple) :=
      fun k1 added1 => (ih k1 added1 agent).trans
        (List.sublist_cons_self _ _).subperm
    unfold conn_check_add_for_candidate_loop
    split_ifs
    · exact hskip _ _
    · split
      · exact hskip _ _
      · rename_i s component hfind
        have hid : component.id = component_id :=
          (agent_find_component_some agent stream_id component_id s component hfind).2.2.2.2
        simp only
        have h1 := tuples_conn_check_add_for_candidate_pair E agent stream_id component c remote
          (new_pairs k) sid
        rw [hid] at h1
        exact subperm_step _ _ h1 (ih _ _ _)

theorem tuples_conn_check_add_for_local_candidate_loop (E : Ext)
    (stream_id component_id : Nat) (local_ : NiceCandidate) (new_pairs : Nat → Nat) (sid : Nat)
    (remotes : List NiceCandidate) (k added : Nat) (agent : NiceAgent) :
    ((stream_pairs (conn_check_add_for_local_candidate_loop E stream_id component_id local_
      new_pairs remotes k added agent).2 sid).map pair_tuple).Subperm
      (remotes.map (fun c => (component_id, local_.ptr, c.ptr)) ++
        (stream_pairs agent sid).map pair_tuple) := by
  induction remotes generalizing k added agent with
  | nil => exact List.Subperm.refl _
  | cons c cs ih =>
    unfold conn_check_add_for_local_candidate_loop
    split
    · exact (ih _ _ agent).trans (List.sublist_cons_self _ _).subperm
    · rename_i s component hfind
      have hid : component.id = component_id :=
        (agent_find_component_some agent stream_id component_id s component hfind).2.2.2.2
      simp only
      have h1 := tuples_conn_check_add_for_candidate_pair E agent stream_id component local_ c
        (new_pairs k) sid
      rw [hid] at h1
      exact subperm_step _ _ h1 (ih _ _ _)

theorem stream_pairs_schedule_triggered_check_pair (agent : NiceAgent) (stream_id : Nat)
    (component : NiceComponent) (p : CandidateCheckPair) (sid : Nat) :
    stream_pairs (schedule_triggered_check_pair agent stream_id component p) sid =
      stream_pairs agent sid := by
  have hq := fun a y => (stream_pairs_add_to_queue a y sid).1
  have ht : ∀ a, stream_pairs (conn_check_schedule_next a) sid = stream_pairs a sid := by
    intro a
    unfold conn_check_schedule_next
    split_ifs <;> rfl
  unfold schedule_triggered_check_pair
  split
  all_goals try split_ifs
  all_goals first
    | rfl
    | exact hq _ _
    | (rw [ht, stream_pairs_signal]; exact hq _ _)

theorem nodup_append_tuples {α : Type} (ex T : List α) (h1 : ex.Nodup) (h2 : T.Nodup)
    (h3 : ∀ t ∈ ex, t ∉ T) : (ex ++ T).Nodup :=
  List.nodup_append.2 ⟨h1, h2, fun {t} ht1 ht2 => h3 t ht1 ht2⟩

/-- C16 (amended): at most one pair per tuple (component, local candidate, remote candidate).
Starting from a list with at most one pair per tuple: `conn_check_add_for_candidate_pair`
keeps this when no pair of the list has the tuple of the two candidates;
`conn_check_add_for_candidate` when the remote candidate has no pair in the component and the
local candidates of the component are distinct; `conn_check_add_for_local_candidate` when the
local candidate has no pair in the component and the remote candidates are distinct;
`priv_schedule_triggered_check` when every pair of the component has the socket of its local
candidate. -/
theorem one_pair_per_tuple_preserved (E : Ext) (agent : NiceAgent)
    (stream_id component_id : Nat) (stream : NiceStream) (component : NiceComponent)
    (hfind : agent_find_component agent stream_id component_id = some (stream, component))
    (h : one_pair_per_tuple stream.conncheck_list) :
    (∀ (local_ remote : NiceCandidate) (new_pair : Nat),
      (∀ p ∈ stream.conncheck_list,
        pair_tuple p ≠ (component_id, local_.ptr, remote.ptr)) →
      one_pair_per_tuple (stream_pairs (conn_check_add_for_candidate_pair E agent stream_id
        component local_ remote new_pair).2 stream_id)) ∧
    (∀ (remote : NiceCandidate) (new_pairs : Nat → Nat),
      (component.local_candidates.map (fun c => c.ptr)).Nodup →
      (∀ p ∈ stream.conncheck_list,
        ¬(p.component_id = component_id ∧ p.remote.ptr = remote.ptr)) →
      one_pair_per_tuple (stream_pairs (conn_check_add_for_candidate E agent stream_id
        component_id remote new_pairs).2 stream_id)) ∧
    (∀ (local_ : NiceCandidate) (new_pairs : Nat → Nat),
      (component.remote_candidates.map (fun c => c.ptr)).Nodup →
      (∀ p ∈ stream.conncheck_list,
        ¬(p.component_id = component_id ∧ p.local_.ptr = local_.ptr)) →
      one_pair_per_tuple (stream_pairs (conn_check_add_for_local_candidate E agent stream_id
        component_id local_ new_pairs).2 stream_id)) ∧
    (∀ (local_socket : NiceSocket) (remote_cand : NiceCandidate) (new_pair : Nat),
      (∀ p ∈ stream.conncheck_list, p.component_id = component_id →
        ∀ c ∈ component.local_candidates, c.ptr = p.local_.ptr →
          p.sockptr.ptr = c.sockptr.ptr) →
      one_pair_per_tuple (stream_pairs (priv_schedule_triggered_check E agent stream_id
        component_id local_socket remote_cand new_pair).2 stream_id)) := by
  have hs := agent_find_component_some agent stream_id component_id stream component hfind
  have hsp : stream_pairs agent stream_id = stream.conncheck_list :=
    stream_pairs_of_find_component agent stream_id component_id stream component hfind
  have hid : component.id = component_id := hs.2.2.2.2
  unfold one_pair_per_tuple at h ⊢
  refine ⟨?_, ?_, ?_, ?_⟩
  · intro local_ remote new_pair hnew
    have k := tuples_conn_check_add_for_candidate_pair E agent stream_id component local_ remote
      new_pair stream_id
    rw [hsp, hid] at k
    refine subperm_nodup k (List.nodup_cons.2 ⟨?_, h⟩)
    intro hm
    obtain ⟨p, hp, he⟩ := List.mem_map.1 hm
    exact hnew p hp he
  · intro remote new_pairs hnd hnew
    unfold conn_check_add_for_candidate
    split_ifs
    · rw [hsp]; exact h
    · rw [hfind]
      simp only
      have k := tuples_conn_check_add_for_candidate_loop E stream_id component_id remote
        new_pairs stream_id component.local_candidates 0 0 agent
      rw [hsp] at k
      refine subperm_nodup k (nodup_append_tuples _ _ ?_ h ?_)
      · have : component.local_candidates.map (fun c => (component_id, c.ptr, remote.ptr)) =
            (component.local_candidates.map (fun c => c.ptr)).map
              (fun x => (component_id, x, remote.ptr)) := by
          rw [List.map_map]; rfl
        rw [this]
        exact hnd.map (fun a b hab => by simpa using hab)
      · intro t ht hm
        obtain ⟨c, _, rfl⟩ := List.mem_map.1 ht
        obtain ⟨p, hp, he⟩ := List.mem_map.1 hm
        unfold pair_tuple at he
        simp only [Prod.mk.injEq] at he
        exact hnew p hp ⟨he.1, he.2.2⟩
  · intro local_ new_pairs hnd hnew
    unfold conn_check_add_for_local_candidate
    split_ifs
    · rw [hsp]; exact h
    · rw [hfind]
      simp only
      have k := tuples_conn_check_add_for_local_candidate_loop E stream_id component_id local_
        new_pairs stream_id component.remote_candidates 0 0 agent
      rw [hsp] at k
      refine subperm_nodup k (nodup_append_tuples _ _ ?_ h ?_)
      · have : component.remote_candidates.map (fun c => (component_id, local_.ptr, c.ptr)) =
            (component.remote_candidates.map (fun c => c.ptr)).map
              (fun x => (component_id, local_.ptr, x)) := by
          rw [List.map_map]; rfl
        rw [this]
        exact hnd.map (fun a b hab => by simpa using hab)
      · intro t ht hm
        obtain ⟨c, _, rfl⟩ := List.mem_map.1 ht
        obtain ⟨p, hp, he⟩ := List.mem_map.1 hm
        unfold pair_tuple at he
        simp only [Prod.mk.injEq] at he
        exact hnew p hp ⟨he.1, he.2.1⟩
  · intro local_socket remote_cand new_pair hsock
    unfold priv_schedule_triggered_check
    rw [hfind]
    simp only
    split
    · rw [stream_pairs_schedule_triggered_check_pair, hsp]; exact h
    · rename_i hnone
      split
      · rename_i c hc
        have hcm : c ∈ component.local_candidates := List.mem_of_find?_eq_some hc
        have hcs : c.sockptr.ptr = local_socket.ptr := by
          have := List.find?_some hc
          simpa using this
        have k := tuples_priv_conn_check_add_for_candidate_pair_matched E agent stream_id
          component c remote_cand NICE_CHECK_WAITING new_pair stream_id
        rw [hsp, hid] at k
        have hn : ((component_id, c.ptr, remote_cand.ptr) ::
            stream.conncheck_list.map pair_tuple).Nodup := by
          refine List.nodup_cons.2 ⟨?_, h⟩
          intro hm
          obtain ⟨p, hp, he⟩ := List.mem_map.1 hm
          unfold pair_tuple at he
          simp only [Prod.mk.injEq] at he
          have hps := hsock p hp he.1 c hcm he.2.1.symm
          have := List.find?_eq_none.1 hnone p hp
          apply this
          simp [he.1, hid, he.2.2, hps, hcs]
        split
        · simp only
          rw [(stream_pairs_add_to_queue _ _ stream_id).1]
          exact subperm_nodup k hn
        · exact subperm_nodup k hn
      · rw [hsp]; exact h

theorem one_pair_per_tuple_preserved_witness :
    one_pair_per_tuple (stream_pairs (conn_check_add_for_candidate ext0
      (ex_agent NICE_COMPATIBILITY_RFC5245 [ex_pair 12 ex_remote NICE_CHECK_WAITING
        7241540810645045759] []) 1 1 ex_remote2 (fun k => 50 + k)).2 1) ∧
    (stream_pairs (conn_check_add_for_candidate ext0
      (ex_agent NICE_COMPATIBILITY_RFC5245 [ex_pair 12 ex_remote NICE_CHECK_WAITING
        7241540810645045759] []) 1 1 ex_remote2 (fun k => 50 + k)).2 1).map
        (fun p => (p.ptr, pair_tuple p)) = [(50, (1, 100, 201)), (12, (1, 100, 200))] :=
  ⟨(one_pair_per_tuple_preserved ext0
      (ex_agent NICE_COMPATIBILITY_RFC5245 [ex_pair 12 ex_remote NICE_CHECK_WAITING
        7241540810645045759] []) 1 1
      (ex_stream [ex_pair 12 ex_remote NICE_CHECK_WAITING 7241540810645045759]) ex_component
      (by decide) (by decide)).2.1 ex_remote2 (fun k => 50 + k) (by decide) (by decide),
    by decide⟩

/-- C16 (counterexample): the list of the example agent has one pair per tuple, pair 11 for
the candidates 100 and 201; `conn_check_add_for_candidate_pair`, called for these two
candidates, inserts the new pair 99 for the same tuple. -/
theorem conn_check_add_for_candidate_pair_adds_second_pair :
    one_pair_per_tuple ex_list ∧
    (ex_list.map (fun p => (p.ptr, pair_tuple p))) =
      [(11, (1, 100, 201)), (12, (1, 100, 200))] ∧
    (conn_check_add_for_candidate_pair ext0 (ex_agent NICE_COMPATIBILITY_RFC5245 ex_list [])
      1 ex_component ex_local ex_remote2 99).1 = true ∧
    (11, (1, 100, 201)) ∈ (stream_pairs (conn_check_add_for_candidate_pair ext0
      (ex_agent NICE_COMPATIBILITY_RFC5245 ex_list []) 1 ex_component ex_local ex_remote2
      99).2 1).map (fun p => (p.ptr, pair_tuple p)) ∧
    (99, (1, 100, 201)) ∈ (stream_pairs (conn_check_add_for_candidate_pair ext0
      (ex_agent NICE_COMPATIBILITY_RFC5245 ex_list []) 1 ex_component ex_local ex_remote2
      99).2 1).map (fun p => (p.ptr, pair_tuple p)) ∧
    ¬ one_pair_per_tuple (stream_pairs (conn_check_add_for_candidate_pair ext0
      (ex_agent NICE_COMPATIBILITY_RFC5245 ex_list []) 1 ex_component ex_local ex_remote2
      99).2 1) := by
  decide

/-! ## Links between a discovered pair and its parent -/

theorem updatePairIn_id (l : List CandidateCheckPair) (y : Nat) :
    updatePairIn l y (fun q => q) = l := by
  unfold updatePairIn
  conv_rhs => rw [← List.map_id l]
  apply List.map_congr_left
  intro q _
  split_ifs <;> rfl

theorem updatePairIn_comp (l : List CandidateCheckPair) (y : Nat)
    (f g : CandidateCheckPair → CandidateCheckPair) (hf : ∀ q, (f q).ptr = q.ptr) :
    updatePairIn (updatePairIn l y f) y g = updatePairIn l y (fun q => g (f q)) := by
  unfold updatePairIn
  rw [List.map_map]
  apply List.map_congr_left
  intro q _
  simp only [Function.comp]
  by_cases h : q.ptr = y
  · rw [if_pos h, if_pos ((hf q).trans h), if_pos h]
  · rw [if_neg h, if_neg h, if_neg h]

theorem written_at_refl (y : Nat) (a : NiceAgent) : written_at y a a := by
  refine ⟨fun q => q, fun _ => ⟨rfl, rfl, rfl⟩, ?_, rfl⟩
  unfold NiceAgent.updatePair
  simp only [updatePairIn_id]
  conv_lhs => rw [← List.map_id a.streams]
  rfl

theorem written_at_trans {y : Nat} {a b c : NiceAgent} (h1 : written_at y a b)
    (h2 : written_at y b c) : written_at y a c := by
  obtain ⟨f, hf, hs1, hq1⟩ := h1
  obtain ⟨g, hg, hs2, hq2⟩ := h2
  refine ⟨fun q => g (f q), fun q => ⟨?_, ?_, ?_⟩, ?_, hq2.trans hq1⟩
  · exact ((hg (f q)).1).trans (hf q).1
  · exact ((hg (f q)).2.1).trans (hf q).2.1
  · exact ((hg (f q)).2.2).trans (hf q).2.2
  · rw [hs2]
    unfold NiceAgent.updatePair
    simp only
    rw [hs1]
    unfold NiceAgent.updatePair
    simp only [List.map_map]
    apply List.map_congr_left
    intro s _
    simp only [Function.comp]
    rw [updatePairIn_comp _ _ _ _ (fun q => (hf q).1)]

theorem written_at_updatePair (y : Nat) (a : NiceAgent)
    (f : CandidateCheckPair → CandidateCheckPair)
    (hf : ∀ q, (f q).ptr = q.ptr ∧ (f q).succeeded_pair = q.succeeded_pair ∧
      (f q).discovered_pair = q.discovered_pair) : written_at y a (a.updatePair y f) :=
  ⟨f, hf, rfl, rfl⟩

theorem written_at_agent_socket_send (y : Nat) (a : NiceAgent) (sock : NiceSocket)
    (dest : NiceAddress) (len : Nat) : written_at y a (agent_socket_send a sock dest len) := by
  obtain ⟨f, hf, hs, hq⟩ := written_at_refl y a
  exact ⟨f, hf, hs, hq⟩

theorem written_at_conn_check_send (E : Ext) (now : Int) (agent : NiceAgent) (pair : Nat) :
    written_at pair agent (conn_check_send E now agent pair).2 := by
  unfold conn_check_send
  split
  · exact written_at_refl _ _
  · split
    · exact written_at_refl _ _
    · rename_i pr _ _ stream _ _
      simp only
      have k1 : written_at pair agent
          (conn_check_send_nominate agent pair (conn_check_send_cand_use agent pr)) := by
        unfold conn_check_send_nominate
        split_ifs
        · exact written_at_refl _ _
        · exact written_at_updatePair _ _ _ (fun _ => ⟨rfl, rfl, rfl⟩)
        · exact written_at_refl _ _
      split_ifs
      · exact k1
      · refine written_at_trans k1 ?_
        generalize conn_check_send_nominate agent pair (conn_check_send_cand_use agent pr) = a1
        unfold conn_check_send_request
        simp only
        have k2 : written_at pair a1 (a1.updatePair pair priv_add_stun_transaction) :=
          written_at_updatePair _ _ _ (fun _ => ⟨rfl, rfl, rfl⟩)
        split_ifs
        all_goals
          refine written_at_trans k2 ?_
          repeat refine written_at_trans ?_ (written_at_agent_socket_send _ _ _ _ _)
          exact written_at_updatePair _ _ _ (fun _ => ⟨rfl, rfl, rfl⟩)

theorem written_at_priv_conn_check_initiate (E : Ext) (now : Int) (agent : NiceAgent)
    (pair : Nat) : written_at pair agent (priv_conn_check_initiate E now agent pair).2 := by
  have k0 : ∀ a st, written_at pair a (SET_PAIR_STATE a pair st) := by
    intro a st
    unfold SET_PAIR_STATE
    exact written_at_updatePair _ _ _ (fun _ => ⟨rfl, rfl, rfl⟩)
  have k1 := written_at_conn_check_send E now
    (SET_PAIR_STATE agent pair NICE_CHECK_IN_PROGRESS) pair
  unfold priv_conn_check_initiate
  simp only
  split_ifs
  · exact written_at_trans (k0 _ _) (written_at_trans k1 (k0 _ _))
  · exact written_at_trans (k0 _ _) k1

theorem stream_pairs_of_streams_eq (a b : NiceAgent) (h : b.streams = a.streams) (sid : Nat) :
    stream_pairs b sid = stream_pairs a sid := by
  unfold stream_pairs agent_find_stream
  rw [h]

theorem stream_pairs_written_at {y : Nat} {a b : NiceAgent} (h : written_at y a b)
    (sid : Nat) :
    ∃ f : CandidateCheckPair → CandidateCheckPair,
      (∀ q, (f q).ptr = q.ptr ∧ (f q).succeeded_pair = q.succeeded_pair ∧
        (f q).discovered_pair = q.discovered_pair) ∧
      stream_pairs b sid = updatePairIn (stream_pairs a sid) y f := by
  obtain ⟨f, hf, hs, _⟩ := h
  refine ⟨f, hf, ?_⟩
  rw [stream_pairs_of_streams_eq _ _ hs, stream_pairs_updatePair]

theorem links_ok_map (l : List CandidateCheckPair) (F : CandidateCheckPair → CandidateCheckPair)
    (hF : ∀ q, (F q).ptr = q.ptr ∧ (F q).succeeded_pair = q.succeeded_pair)
    (hd : ∀ q ∈ l, q.state = NICE_CHECK_DISCOVERED → (F q).state = NICE_CHECK_DISCOVERED)
    (hdp : ∀ s ∈ l, ∀ dp ∈ (F s).discovered_pair,
      dp ∈ s.discovered_pair ∨ ∃ d ∈ l, d.ptr = dp ∧ d.state = NICE_CHECK_DISCOVERED)
    (h : links_ok l) : links_ok (l.map F) := by
  refine ⟨?_, ?_⟩
  · intro d1 hd1 sp hsp
    obtain ⟨d, hdm, rfl⟩ := List.mem_map.1 hd1
    rw [(hF d).2] at hsp
    obtain ⟨hst, s, hs, hps⟩ := h.1 d hdm sp hsp
    exact ⟨hd d hdm hst, F s, List.mem_map_of_mem _ hs, (hF s).1.trans hps⟩
  · intro s1 hs1 dp hdp1
    obtain ⟨s, hsm, rfl⟩ := List.mem_map.1 hs1
    have hex : ∃ d ∈ l, d.ptr = dp ∧ d.state = NICE_CHECK_DISCOVERED := by
      rcases hdp s hsm dp hdp1 with h0 | h0
      · exact h.2 s hsm dp h0
      · exact h0
    obtain ⟨d, hdm, hpd, hst⟩ := hex
    exact ⟨F d, List.mem_map_of_mem _ hdm, (hF d).1.trans hpd, hd d hdm hst⟩

theorem links_ok_written_at {y : Nat} {a b : NiceAgent} (h : written_at y a b) (sid : Nat)
    (hy : ∀ q ∈ stream_pairs a sid, q.ptr = y → q.state ≠ NICE_CHECK_DISCOVERED)
    (hl : links_ok (stream_pairs a sid)) : links_ok (stream_pairs b sid) := by
  obtain ⟨f, hf, hs⟩ := stream_pairs_written_at h sid
  rw [hs]
  unfold updatePairIn
  refine links_ok_map _ _ ?_ ?_ ?_ hl
  · intro q
    split_ifs
    · exact ⟨(hf q).1, (hf q).2.1⟩
    · exact ⟨rfl, rfl⟩
  · intro q hq hst
    split_ifs with hp
    · exact absurd hst (hy q hq hp)
    · exact hst
  · intro s _ dp hdp
    left
    split_ifs at hdp
    · rw [(hf s).2.2] at hdp; exact hdp
    · exact hdp

/-- C15 (amended): the links between a discovered pair and its parent.  The relation
`links_ok` (a pair with `succeeded_pair` set is in state Discovered and its parent is in the
list; the pair `discovered_pair` points to is in the list and in state Discovered) is kept by
`priv_conn_check_initiate` on a pair that is not in state Discovered, and by
`priv_add_peer_reflexive_pair`, which links the pair it creates, in state Discovered, to its
parent. -/
theorem pair_links_preserved (E : Ext) (agent : NiceAgent) (stream_id : Nat)
    (stream : NiceStream) (hstream : agent_find_stream agent stream_id = some stream)
    (hl : links_ok stream.conncheck_list) :
    (∀ (now : Int) (pair : Nat),
      (∀ q ∈ stream.conncheck_list, q.ptr = pair → q.state ≠ NICE_CHECK_DISCOVERED) →
      links_ok (stream_pairs (priv_conn_check_initiate E now agent pair).2 stream_id)) ∧
    (∀ (component : NiceComponent) (local_cand : NiceCandidate)
      (parent_pair : CandidateCheckPair) (new_pair : Nat),
      parent_pair ∈ stream.conncheck_list → parent_pair.ptr ≠ new_pair →
      links_ok (stream_pairs (priv_add_peer_reflexive_pair E agent stream_id component
        local_cand parent_pair new_pair) stream_id) ∧
      (∃ d ∈ stream_pairs (priv_add_peer_reflexive_pair E agent stream_id component
          local_cand parent_pair new_pair) stream_id,
        d.ptr = new_pair ∧ d.state = NICE_CHECK_DISCOVERED ∧
        d.succeeded_pair = some parent_pair.ptr) ∧
      (∀ s ∈ stream_pairs (priv_add_peer_reflexive_pair E agent stream_id component
          local_cand parent_pair new_pair) stream_id,
        s.ptr = parent_pair.ptr → s.discovered_pair = some new_pair)) := by
  have hsp : stream_pairs agent stream_id = stream.conncheck_list := by
    unfold stream_pairs; rw [hstream]
  refine ⟨?_, ?_⟩
  · intro now pair hy
    exact links_ok_written_at (written_at_priv_conn_check_initiate E now agent pair) stream_id
      (by rw [hsp]; exact hy) (by rw [hsp]; exact hl)
  · intro component local_cand parent_pair new_pair hparent hfresh
    unfold priv_add_peer_reflexive_pair
    simp only
    rw [stream_pairs_updateStream_list _ stream_id stream_id
      (fun l => g_slist_insert_sorted l (priv_add_peer_reflexive_pair_record E agent stream_id
        component local_cand parent_pair new_pair) conn_check_compare), if_pos rfl]
    have hfs : agent_find_stream (agent.updatePair parent_pair.ptr
        (fun q => { q with discovered_pair := some new_pair })) stream_id =
        some { stream with conncheck_list := (updatePairIn stream.conncheck_list
          parent_pair.ptr (fun q => { q with discovered_pair := some new_pair })) } := by
      rw [agent_find_stream_updatePair, hstream]; rfl
    rw [hfs]
    simp only
    generalize hrec : priv_add_peer_reflexive_pair_record E agent stream_id component local_cand
      parent_pair new_pair = newrec
    have hnew : newrec.ptr = new_pair ∧ newrec.state = NICE_CHECK_DISCOVERED ∧
        newrec.succeeded_pair = some parent_pair.ptr ∧ newrec.discovered_pair = none := by
      rw [← hrec]; exact ⟨rfl, rfl, rfl, rfl⟩
    have hmem : ∀ q, q ∈ g_slist_insert_sorted (updatePairIn stream.conncheck_list
        parent_pair.ptr (fun q => { q with discovered_pair := some new_pair })) newrec
        conn_check_compare ↔ q = newrec ∨ ∃ q0 ∈ stream.conncheck_list,
          q = if q0.ptr = parent_pair.ptr then { q0 with discovered_pair := some new_pair }
            else q0 := by
      intro q
      rw [mem_g_slist_insert_sorted]
      unfold updatePairIn
      rw [List.mem_map]
      constructor
      · rintro (h | ⟨q0, h0, h1⟩)
        · exact Or.inl h
        · exact Or.inr ⟨q0, h0, h1.symm⟩
      · rintro (h | ⟨q0, h0, h1⟩)
        · exact Or.inl h
        · exact Or.inr ⟨q0, h0, h1.symm⟩
    have himg : ∀ q0 ∈ stream.conncheck_list,
        (if q0.ptr = parent_pair.ptr then { q0 with discovered_pair := some new_pair }
          else q0) ∈ g_slist_insert_sorted (updatePairIn stream.conncheck_list
            parent_pair.ptr (fun q => { q with discovered_pair := some new_pair })) newrec
            conn_check_compare :=
      fun q0 h0 => (hmem _).2 (Or.inr ⟨q0, h0, rfl⟩)
    have hkeep : ∀ q0 : CandidateCheckPair,
        (if q0.ptr = parent_pair.ptr then { q0 with discovered_pair := some new_pair }
          else q0).ptr = q0.ptr ∧
        (if q0.ptr = parent_pair.ptr then { q0 with discovered_pair := some new_pair }
          else q0).state = q0.state ∧
        (if q0.ptr = parent_pair.ptr then { q0 with discovered_pair := some new_pair }
          else q0).succeeded_pair = q0.succeeded_pair := by
      intro q0
      split_ifs <;> exact ⟨rfl, rfl, rfl⟩
    refine ⟨⟨?_, ?_⟩, ⟨newrec, (hmem _).2 (Or.inl rfl), hnew.1, hnew.2.1, hnew.2.2.1⟩, ?_⟩
    · intro d hd sp hsp
      rcases (hmem d).1 hd with h | ⟨q0, h0, h1⟩
      · rw [h, hnew.2.2.1] at hsp
        have e : sp = parent_pair.ptr := (Option.some.inj hsp).symm
        rw [h, e]
        exact ⟨hnew.2.1, _, himg parent_pair hparent, (hkeep parent_pair).1⟩
      · rw [h1, (hkeep q0).2.2] at hsp
        obtain ⟨hst, s, hs, hps⟩ := hl.1 q0 h0 sp hsp
        rw [h1]
        exact ⟨(hkeep q0).2.1.trans hst, _, himg s hs, (hkeep s).1.trans hps⟩
    · intro s hs dp hdp
      rcases (hmem s).1 hs with h | ⟨q0, h0, h1⟩
      · rw [h, hnew.2.2.2] at hdp
        exact absurd hdp (by simp)
      · rw [h1] at hdp
        by_cases hp : q0.ptr = parent_pair.ptr
        · rw [if_pos hp] at hdp
          have e : dp = new_pair := (Option.some.inj hdp).symm
          rw [e]
          exact ⟨newrec, (hmem _).2 (Or.inl rfl), hnew.1, hnew.2.1⟩
        · rw [if_neg hp] at hdp
          obtain ⟨d, hd, hpd, hst⟩ := hl.2 q0 h0 dp hdp
          exact ⟨_, himg d hd, (hkeep d).1.trans hpd, (hkeep d).2.1.trans hst⟩
    · intro s hs hps
      rcases (hmem s).1 hs with h | ⟨q0, h0, h1⟩
      · rw [h, hnew.1] at hps
        exact absurd hps.symm hfresh
      · rw [h1] at hps ⊢
        rw [(hkeep q0).1] at hps
        rw [if_pos hps]

theorem pair_links_preserved_witness :
    links_ok (stream_pairs (priv_conn_check_initiate ext0 300000
      (ex_agent NICE_COMPATIBILITY_RFC5245 ex_list_discovered [11]) 11).2 1) ∧
    (stream_pairs (priv_conn_check_initiate ext0 300000
      (ex_agent NICE_COMPATIBILITY_RFC5245 ex_list_discovered [11]) 11).2 1).map
        (fun q => (q.ptr, q.state, q.succeeded_pair, q.discovered_pair)) =
      [(11, NICE_CHECK_IN_PROGRESS, none, some 13), (13, NICE_CHECK_DISCOVERED, some 11, none),
       (12, NICE_CHECK_SUCCEEDED, none, none)] :=
  ⟨(pair_links_preserved ext0 (ex_agent NICE_COMPATIBILITY_RFC5245 ex_list_discovered [11]) 1
      (ex_stream ex_list_discovered) (by decide) (by decide)).1 300000 11 (by decide),
    by decide⟩

/-- C15 (counterexample): pair 13 was discovered from the check of pair 11, which is
Succeeded.  The regular nomination step flags the parent 11 and puts it in the triggered-check
queue; the triggered check of the next tick initiates it, and the parent of the Discovered
pair 13 is InProgress. -/
theorem nominated_parent_leaves_succeeded :
    links_ok_parent_succeeded ex_list_discovered ∧
    (priv_conn_check_tick_stream_nominate ext0
      (ex_agent NICE_COMPATIBILITY_RFC5245 ex_list_discovered []) 1).2.triggered_check_queue =
      [11] ∧
    (stream_pairs (priv_conn_check_triggered_check ext0 300000
      (priv_conn_check_tick_stream_nominate ext0
        (ex_agent NICE_COMPATIBILITY_RFC5245 ex_list_discovered []) 1).2).2 1).map
        (fun q => (q.ptr, q.state, q.succeeded_pair)) =
      [(11, NICE_CHECK_IN_PROGRESS, none), (13, NICE_CHECK_DISCOVERED, some 11),
       (12, NICE_CHECK_SUCCEEDED, none)] ∧
    ¬ links_ok_parent_succeeded (stream_pairs (priv_conn_check_triggered_check ext0 300000
      (priv_conn_check_tick_stream_nominate ext0
        (ex_agent NICE_COMPATIBILITY_RFC5245 ex_list_discovered []) 1).2).2 1) := by
  decide

/-- The removal of a pair leaves the links to it in place: when the parent 11 of the
Discovered pair 13 has failed, `priv_limit_conn_check_list_size` removes it, and pair 13 still
has `succeeded_pair` set to the address 11. -/
theorem limit_leaves_link_to_removed_parent :
    (stream_pairs (priv_limit_conn_check_list_size
      (ex_agent NICE_COMPATIBILITY_RFC5245
        [{ ex_pair 11 ex_remote2 NICE_CHECK_FAILED 9115005265987371519 with
           discovered_pair := some 13 }, ex_pair_discovered] []) 1 0).2 1).map
        (fun q => (q.ptr, q.state, q.succeeded_pair)) =
      [(13, NICE_CHECK_DISCOVERED, some 11)] := by
  decide

/-! ## A Discovered pair at rest -/

theorem at_rest_intro (a b : NiceAgent) (x : Nat) (h : discovered_at_rest a x)
    (hq : x ∈ b.triggered_check_queue → x ∈ a.triggered_check_queue)
    (hp : ∀ q1 ∈ b.allPairs, q1.ptr = x →
      (∃ q ∈ a.allPairs, q.ptr = x ∧ q1.state = q.state ∧
        q1.stun_transactions = q.stun_transactions) ∨
      (q1.state = NICE_CHECK_DISCOVERED ∧ q1.stun_transactions = [])) :
    discovered_at_rest b x := by
  refine ⟨fun hx => h.1 (hq hx), fun q1 hq1 hx => ?_⟩
  rcases hp q1 hq1 hx with ⟨q, hqm, hqx, hs, ht⟩ | h0
  · rw [hs, ht]; exact h.2 q hqm hqx
  · exact h0

theorem at_rest_same (a b : NiceAgent) (x : Nat) (hp : b.allPairs = a.allPairs)
    (hq : b.triggered_check_queue = a.triggered_check_queue) (h : discovered_at_rest a x) :
    discovered_at_rest b x := by
  unfold discovered_at_rest at *
  rw [hp, hq]; exact h

theorem at_rest_ne_of_pair (a : NiceAgent) (x : Nat) (h : discovered_at_rest a x)
    (p : CandidateCheckPair) (hp : p ∈ a.allPairs)
    (hs : p.state ≠ NICE_CHECK_DISCOVERED ∨ p.stun_transactions ≠ []) : p.ptr ≠ x := by
  intro hx
  have := h.2 p hp hx
  rcases hs with h1 | h1
  · exact h1 this.1
  · exact h1 this.2

theorem at_rest_ne_of_queue (a : NiceAgent) (x y : Nat) (h : discovered_at_rest a x)
    (hy : y ∈ a.triggered_check_queue) : y ≠ x :=
  fun hyx => h.1 (hyx ▸ hy)

theorem at_rest_updatePair_ne (a : NiceAgent) (x y : Nat)
    (f : CandidateCheckPair → CandidateCheckPair) (hy : y ≠ x)
    (hf : ∀ q, q.ptr = y → (f q).ptr = y) (h : discovered_at_rest a x) :
    discovered_at_rest (a.updatePair y f) x := by
  refine at_rest_intro a _ x h (fun hx => hx) ?_
  intro q1 hq1 hx
  rw [allPairs_updatePair, List.mem_map] at hq1
  obtain ⟨q, hq, rfl⟩ := hq1
  split_ifs at hx ⊢ with hqy
  · exact absurd ((hf q hqy).symm.trans hx) hy
  · exact Or.inl ⟨q, hq, hx, rfl, rfl⟩

theorem at_rest_updatePair_quiet (a : NiceAgent) (x y : Nat)
    (f : CandidateCheckPair → CandidateCheckPair)
    (hf : ∀ q, (f q).ptr = q.ptr ∧ (f q).state = q.state ∧
      (f q).stun_transactions = q.stun_transactions) (h : discovered_at_rest a x) :
    discovered_at_rest (a.updatePair y f) x := by
  refine at_rest_intro a _ x h (fun hx => hx) ?_
  intro q1 hq1 hx
  rw [allPairs_updatePair, List.mem_map] at hq1
  obtain ⟨q, hq, rfl⟩ := hq1
  left
  split_ifs at hx ⊢ with hqy
  · exact ⟨q, hq, (hf q).1.symm.trans hx, (hf q).2.1, (hf q).2.2⟩
  · exact ⟨q, hq, hx, rfl, rfl⟩

theorem at_rest_queue_add (a : NiceAgent) (x y : Nat) (hy : y ≠ x)
    (h : discovered_at_rest a x) :
    discovered_at_rest (priv_add_pair_to_triggered_check_queue a y) x := by
  refine ⟨?_, ?_⟩
  · unfold priv_add_pair_to_triggered_check_queue
    split_ifs
    · simp only [g_slist_append, List.mem_append, List.mem_singleton, not_or]
      exact ⟨h.1, fun e => hy e.symm⟩
    · exact h.1
  · rw [allPairs_priv_add_pair_to_triggered_check_queue]; exact h.2

theorem at_rest_queue_remove (a : NiceAgent) (x y : Nat) (h : discovered_at_rest a x) :
    discovered_at_rest (priv_remove_pair_from_triggered_check_queue a y) x := by
  refine ⟨fun hx => h.1 ?_, h.2⟩
  unfold priv_remove_pair_from_triggered_check_queue at hx
  simp only at hx
  exact (mem_g_slist_remove _ _ _ hx)

theorem at_rest_signal (a : NiceAgent) (x sid cid : Nat) (st : NiceComponentState)
    (h : discovered_at_rest a x) :
    discovered_at_rest (agent_signal_component_state_change a sid cid st) x :=
  at_rest_same a _ x (allPairs_agent_signal_component_state_change _ _ _ _)
    (agent_signal_component_state_change_pairs a sid cid st).1 h

theorem at_rest_written_at {y : Nat} {a b : NiceAgent} (hw : written_at y a b) (x : Nat)
    (hy : y ≠ x) (h : discovered_at_rest a x) : discovered_at_rest b x := by
  obtain ⟨f, hf, hs, hq⟩ := hw
  have hb : b.allPairs = (a.updatePair y f).allPairs := by
    unfold NiceAgent.allPairs; rw [hs]
  have h1 := at_rest_updatePair_ne a x y f hy (fun q hq => (hf q).1.trans hq) h
  exact at_rest_same _ b x hb hq h1

theorem at_rest_priv_conn_check_triggered_check (E : Ext) (now : Int) (a : NiceAgent)
    (x : Nat) (h : discovered_at_rest a x) :
    discovered_at_rest (priv_conn_check_triggered_check E now a).2 x := by
  unfold priv_conn_check_triggered_check priv_get_pair_from_triggered_check_queue
  cases hq : a.triggered_check_queue with
  | nil => exact h
  | cons y ys =>
    simp only
    have hy : y ≠ x := at_rest_ne_of_queue a x y h (by rw [hq]; exact List.mem_cons_self _ _)
    exact at_rest_written_at (written_at_priv_conn_check_initiate E now _ y) x hy
      (at_rest_queue_remove a x y h)

theorem at_rest_priv_prune_pending_checks (a : NiceAgent) (x sid cid : Nat)
    (h : discovered_at_rest a x) :
    discovered_at_rest (priv_prune_pending_checks a sid cid).2 x := by
  unfold priv_prune_pending_checks
  split
  · exact h
  · rename_i stream component hfc
    obtain ⟨_, hsmem, _, _, _⟩ := agent_find_component_some _ _ _ _ _ hfc
    simp only
    refine at_rest_intro a _ x h ?_ ?_
    · intro hx
      exact (priv_prune_pending_checks_loop_queue _ _ _ _ x).1 hx
    · intro q1 hq1 hx
      left
      rcases allPairs_updateStream_const a sid _ q1 hq1 with h0 | h0
      · exact ⟨q1, h0, hx, rfl, rfl⟩
      · obtain ⟨q, hq, hr⟩ := priv_prune_pending_checks_loop_kept _ _ _ _ q1 h0
        exact ⟨q, mem_allPairs_of_stream a stream hsmem q hq, hr.1.symm.trans hx, hr.2.1,
          hr.2.2.1⟩

theorem at_rest_for_ready (a : NiceAgent) (x sid cid : Nat) (h : discovered_at_rest a x) :
    discovered_at_rest (conn_check_update_check_list_state_for_ready a sid cid) x := by
  have hp := at_rest_priv_prune_pending_checks a x sid cid h
  unfold conn_check_update_check_list_state_for_ready
  split
  · exact h
  · simp only
    split_ifs
    all_goals
      repeat (first
        | exact h
        | exact hp
        | apply at_rest_signal)

theorem at_rest_candidate_check_pair_fail (a : NiceAgent) (x y : Nat) (hy : y ≠ x)
    (h : discovered_at_rest a x) : discovered_at_rest (candidate_check_pair_fail a y) x := by
  unfold candidate_check_pair_fail
  exact at_rest_updatePair_ne a x y _ hy (fun q hq => hq) h

theorem at_rest_priv_conn_check_tick_stream_loop (E : Ext) (now : Int) (sid x : Nat)
    (ptrs : List Nat) (a : NiceAgent) (h : discovered_at_rest a x) :
    discovered_at_rest (priv_conn_check_tick_stream_loop E now sid ptrs a).2 x := by
  induction ptrs generalizing a with
  | nil => exact h
  | cons ptr rest ih =>
    unfold priv_conn_check_tick_stream_loop
    split
    · exact ih a h
    · rename_i p hfind
      split_ifs with htx
      · exact ih a h
      · split
        · exact ih a h
        · simp only
          have hpm : p ∈ a.allPairs ∧ p.ptr = ptr := by
            cases hs : agent_find_stream a sid with
            | none => simp [hs] at hfind
            | some s =>
              simp only [hs, Option.bind_some] at hfind
              exact ⟨mem_allPairs_of_stream a s (agent_find_stream_some _ _ _ hs).1 p
                (List.mem_of_find?_eq_some hfind), by simpa using List.find?_some hfind⟩
          have hne : ptr ≠ x := hpm.2 ▸ at_rest_ne_of_pair a x h p hpm.1 (Or.inr htx)
          have h1 : discovered_at_rest (a.updatePair ptr (fun _ =>
              (priv_conn_check_tick_stream_transactions E now p.stun_transactions p 0 0
                0).pair)) x :=
            at_rest_updatePair_ne a x ptr _ hne (fun _ _ =>
              (priv_conn_check_tick_stream_transactions_ids E now p.stun_transactions p 0 0
                0).1.trans hpm.2) h
          split
          · exact h1
          · split_ifs
            · exact ih _ (at_rest_for_ready _ x _ _
                (at_rest_candidate_check_pair_fail _ x ptr hne h1))
            · exact ih _ h1

theorem at_rest_priv_conn_check_tick_stream (E : Ext) (now : Int) (a : NiceAgent)
    (sid x : Nat) (h : discovered_at_rest a x) :
    discovered_at_rest (priv_conn_check_tick_stream E now a sid).2 x := by
  unfold priv_conn_check_tick_stream
  split
  · exact h
  · exact at_rest_priv_conn_check_tick_stream_loop E now sid x _ a h

theorem priv_conn_check_unfreeze_next_list_frozen (l : List CandidateCheckPair)
    (fl : List String) :
    ∀ q1 ∈ (priv_conn_check_unfreeze_next_list l fl).1,
      ∃ q ∈ l, q1 = q ∨
        (q.state = NICE_CHECK_FROZEN ∧ q1 = { q with state := NICE_CHECK_WAITING }) := by
  induction l generalizing fl with
  | nil => intro q1 hq1; simp [priv_conn_check_unfreeze_next_list] at hq1
  | cons p ps ih =>
    intro q1 hq1
    unfold priv_conn_check_unfreeze_next_list at hq1
    split_ifs at hq1 with h1 h2
    all_goals
      simp only [List.mem_cons] at hq1
      rcases hq1 with h0 | hq1
      · first
          | exact ⟨p, List.mem_cons_self _ _, Or.inl h0⟩
          | exact ⟨p, List.mem_cons_self _ _, Or.inr ⟨h2, h0⟩⟩
      · obtain ⟨q, hq, hh⟩ := ih _ q1 hq1
        exact ⟨q, List.mem_cons_of_mem _ hq, hh⟩

theorem priv_conn_check_unfreeze_next_streams_frozen (ss : List NiceStream)
    (fl : List String) :
    ∀ s1 ∈ (priv_conn_check_unfreeze_next_streams ss fl).1, ∀ q1 ∈ s1.conncheck_list,
      ∃ s ∈ ss, ∃ q ∈ s.conncheck_list, q1 = q ∨
        (q.state = NICE_CHECK_FROZEN ∧ q1 = { q with state := NICE_CHECK_WAITING }) := by
  induction ss generalizing fl with
  | nil => intro s1 hs1; simp [priv_conn_check_unfreeze_next_streams] at hs1
  | cons s ss ih =>
    intro s1 hs1 q1 hq1
    unfold priv_conn_check_unfreeze_next_streams at hs1
    simp only [List.mem_cons] at hs1
    rcases hs1 with h0 | hs1
    · rw [h0] at hq1
      obtain ⟨q, hq, hh⟩ := priv_conn_check_unfreeze_next_list_frozen _ _ q1 hq1
      exact ⟨s, List.mem_cons_self _ _, q, hq, hh⟩
    · obtain ⟨s0, hs0, q, hq, hh⟩ := ih _ s1 hs1 q1 hq1
      exact ⟨s0, List.mem_cons_of_mem _ hs0, q, hq, hh⟩

theorem at_rest_priv_conn_check_unfreeze_next (a : NiceAgent) (x : Nat)
    (h : discovered_at_rest a x) :
    discovered_at_rest (priv_conn_check_unfreeze_next a).2 x := by
  unfold priv_conn_check_unfreeze_next
  split_ifs
  · exact h
  · refine at_rest_intro a _ x h (fun hx => hx) ?_
    intro q1 hq1 hx
    unfold NiceAgent.allPairs at hq1
    simp only [List.mem_flatMap] at hq1
    obtain ⟨s1, hs1, hq1⟩ := hq1
    obtain ⟨s, hs, q, hq, hh⟩ :=
      priv_conn_check_unfreeze_next_streams_frozen _ _ s1 hs1 q1 hq1
    have hqm := mem_allPairs_of_stream a s hs q hq
    rcases hh with h0 | ⟨hf, h0⟩
    · rw [h0] at hx ⊢
      exact Or.inl ⟨q, hqm, hx, rfl, rfl⟩
    · rw [h0] at hx
      have := (h.2 q hqm hx).1
      rw [hf] at this
      exact absurd this (by decide)

theorem find_next_waiting_of_mem (a : NiceAgent) (sid : Nat) (p : CandidateCheckPair)
    (h : find_next_waiting_of a sid = some p) :
    p ∈ a.allPairs ∧ p.state = NICE_CHECK_WAITING := by
  unfold find_next_waiting_of at h
  cases hs : agent_find_stream a sid with
  | none => rw [hs] at h; simp at h
  | some s =>
    rw [hs] at h
    unfold priv_conn_check_find_next_waiting at h
    exact ⟨mem_allPairs_of_stream a s (agent_find_stream_some _ _ _ hs).1 p
      (List.mem_of_find?_eq_some h), by simpa using List.find?_some h⟩

theorem at_rest_priv_conn_check_ordinary_check (E : Ext) (now : Int) (a : NiceAgent)
    (sid x : Nat) (h : discovered_at_rest a x) :
    discovered_at_rest (priv_conn_check_ordinary_check E now a sid).2 x := by
  have hinit : ∀ (b : NiceAgent) (p : CandidateCheckPair), discovered_at_rest b x →
      find_next_waiting_of b sid = some p →
      discovered_at_rest (priv_conn_check_initiate E now b p.ptr).2 x := by
    intro b p hb hp
    have hm := find_next_waiting_of_mem b sid p hp
    have hne := at_rest_ne_of_pair b x hb p hm.1 (Or.inl (by rw [hm.2]; decide))
    exact at_rest_written_at (written_at_priv_conn_check_initiate E now b p.ptr) x hne hb
  unfold priv_conn_check_ordinary_check
  split
  · rename_i p hp
    exact hinit a p h hp
  · simp only
    have h1 := at_rest_priv_conn_check_unfreeze_next a x h
    split
    · rename_i p hp
      exact hinit _ p h1 hp
    · exact h1

theorem mem_allPairs_of_stream_pairs (a : NiceAgent) (sid : Nat) (q : CandidateCheckPair)
    (h : q ∈ stream_pairs a sid) : q ∈ a.allPairs := by
  unfold stream_pairs at h
  cases hs : agent_find_stream a sid with
  | none => rw [hs] at h; simp at h
  | some s =>
    rw [hs] at h
    exact mem_allPairs_of_stream a s (agent_find_stream_some _ _ _ hs).1 q h

theorem nominate_checked_pair_mem (a : NiceAgent) (p : CandidateCheckPair)
    (hp : p ∈ a.allPairs) : nominate_checked_pair a p ∈ a.allPairs := by
  unfold nominate_checked_pair
  cases hs : p.succeeded_pair with
  | none => exact hp
  | some sp =>
    simp only
    cases hf : a.findPair sp with
    | none => exact hp
    | some q => exact (mem_allPairs_of_findPair a sp q hf).1

theorem nominate_checked_pair_updatePair (a : NiceAgent) (y : Nat)
    (f : CandidateCheckPair → CandidateCheckPair)
    (hf : ∀ q, (f q).ptr = q.ptr ∧ (f q).succeeded_pair = q.succeeded_pair)
    (p : CandidateCheckPair) :
    nominate_checked_pair (a.updatePair y f) (if p.ptr = y then f p else p) =
      (if (nominate_checked_pair a p).ptr = y then f (nominate_checked_pair a p)
        else nominate_checked_pair a p) := by
  have hsp : (if p.ptr = y then f p else p).succeeded_pair = p.succeeded_pair := by
    split_ifs
    · exact (hf p).2
    · rfl
  unfold nominate_checked_pair
  rw [hsp]
  cases hs : p.succeeded_pair with
  | none => rfl
  | some sp =>
    simp only
    rw [findPair_updatePair _ _ _ _ (fun q => (hf q).1)]
    cases hfp : a.findPair sp with
    | none => rfl
    | some q => rfl

theorem checked_pairs_not_discovered_updatePair (a : NiceAgent) (y : Nat)
    (f : CandidateCheckPair → CandidateCheckPair)
    (hf : ∀ q, (f q).ptr = q.ptr ∧ (f q).succeeded_pair = q.succeeded_pair ∧
      (f q).state = q.state ∧ (f q).valid = q.valid)
    (h : checked_pairs_not_discovered a) :
    checked_pairs_not_discovered (a.updatePair y f) := by
  intro p1 hp1 hv
  rw [allPairs_updatePair, List.mem_map] at hp1
  obtain ⟨p, hp, rfl⟩ := hp1
  rw [nominate_checked_pair_updatePair a y f (fun q => ⟨(hf q).1, (hf q).2.1⟩) p]
  have hv0 : p.valid = true := by
    split_ifs at hv
    · rw [(hf p).2.2.2] at hv; exact hv
    · exact hv
  have := h p hp hv0
  split_ifs
  · rw [(hf _).2.2.1]; exact this
  · exact this

theorem checked_pairs_not_discovered_same (a b : NiceAgent) (h : b.streams = a.streams)
    (hc : checked_pairs_not_discovered a) : checked_pairs_not_discovered b := by
  have e : ∀ p, nominate_checked_pair b p = nominate_checked_pair a p := by
    intro p
    unfold nominate_checked_pair NiceAgent.findPair NiceAgent.allPairs
    rw [h]
  intro p hp hv
  rw [e]
  refine hc p ?_ hv
  unfold NiceAgent.allPairs at hp ⊢
  rw [← h]; exact hp

theorem at_rest_nominate_component_regular (a : NiceAgent) (sid : Nat)
    (osp : Option CandidateCheckPair) (c x : Nat) (h : discovered_at_rest a x)
    (hc : checked_pairs_not_discovered a) :
    discovered_at_rest (nominate_component_regular a sid osp c).2 x ∧
    checked_pairs_not_discovered (nominate_component_regular a sid osp c).2 := by
  rcases nominate_component_regular_cases a sid osp c with h0 | ⟨p, hp, _, hv, h0⟩
  · rw [h0]; exact ⟨h, hc⟩
  · rw [h0]
    have hpm := mem_allPairs_of_stream_pairs a sid p hp
    have hne : (nominate_checked_pair a p).ptr ≠ x :=
      at_rest_ne_of_pair a x h _ (nominate_checked_pair_mem a p hpm) (Or.inl (hc p hpm hv))
    generalize nominate_checked_pair a p = Y at hne ⊢
    refine ⟨at_rest_queue_add _ x Y.ptr hne
      (at_rest_updatePair_quiet a x Y.ptr _ (fun _ => ⟨rfl, rfl, rfl⟩) h), ?_⟩
    refine checked_pairs_not_discovered_same (a.updatePair Y.ptr
      (fun q => { q with use_candidate_on_next_check := true })) _ ?_
      (checked_pairs_not_discovered_updatePair a Y.ptr _ (fun _ => ⟨rfl, rfl, rfl, rfl⟩) hc)
    unfold priv_add_pair_to_triggered_check_queue
    split_ifs <;> rfl

theorem at_rest_nominate_components_regular (sid : Nat) (osp : Option CandidateCheckPair)
    (x : Nat) (cs : List Nat) (keep : Bool) (a : NiceAgent) (h : discovered_at_rest a x)
    (hc : checked_pairs_not_discovered a) :
    discovered_at_rest (nominate_components
      (fun a c => nominate_component_regular a sid osp c) cs keep a).2 x := by
  induction cs generalizing keep a with
  | nil => exact h
  | cons c cs ih =>
    rw [nominate_components_cons]
    have := at_rest_nominate_component_regular a sid osp c x h hc
    exact ih _ _ this.1 this.2

theorem at_rest_priv_conn_check_tick_stream_nominate (E : Ext) (a : NiceAgent) (sid x : Nat)
    (hrfc : NICE_AGENT_IS_COMPATIBLE_WITH_RFC5245_OR_OC2007R2 a = true)
    (hc : checked_pairs_not_discovered a) (h : discovered_at_rest a x) :
    discovered_at_rest (priv_conn_check_tick_stream_nominate E a sid).2 x := by
  unfold priv_conn_check_tick_stream_nominate
  split
  · exact h
  · simp only
    refine at_rest_same _ _ x (allPairs_updateStream_tick_counter _ _ _ (fun _ => rfl)) rfl ?_
    rw [hrfc]
    simp only [if_true]
    split_ifs
    · exact at_rest_nominate_components_regular sid _ x _ _ a h hc
    · exact h
    · exact h

theorem at_rest_ite (c : Prop) [Decidable c] (a1 a2 : NiceAgent) (x : Nat)
    (h1 : discovered_at_rest a1 x) (h2 : discovered_at_rest a2 x) :
    discovered_at_rest (if c then a1 else a2) x := by
  split_ifs
  · exact h1
  · exact h2

theorem at_rest_conn_check_update_selected_pair (E : Ext) (a : NiceAgent) (sid cid x : Nat)
    (pair : CandidateCheckPair) (h : discovered_at_rest a x) :
    discovered_at_rest (conn_check_update_selected_pair E a sid cid pair) x := by
  refine at_rest_same a _ x (allPairs_conn_check_update_selected_pair _ _ _ _ _) ?_ h
  unfold conn_check_update_selected_pair
  split
  · rfl
  · split_ifs <;> rfl

theorem at_rest_priv_mark_pair_nominated_pair (E : Ext) (a : NiceAgent) (sid cid x : Nat)
    (pair : CandidateCheckPair) (h : discovered_at_rest a x) :
    discovered_at_rest (priv_mark_pair_nominated_pair E a sid cid pair) x := by
  have h1 : discovered_at_rest (a.updatePair pair.ptr (mark_nominated_write a)) x :=
    at_rest_updatePair_quiet a x pair.ptr _ (fun _ => ⟨rfl, rfl, rfl⟩) h
  unfold priv_mark_pair_nominated_pair
  simp only
  repeat (first
    | exact h1
    | apply at_rest_ite
    | apply at_rest_for_ready
    | apply at_rest_signal
    | apply at_rest_conn_check_update_selected_pair)

theorem at_rest_priv_mark_pair_nominated_loop (E : Ext) (sid cid x : Nat)
    (localcand remotecand : Option NiceCandidate) (ptrs : List Nat) (a : NiceAgent)
    (h : discovered_at_rest a x) :
    discovered_at_rest (priv_mark_pair_nominated_loop E sid cid localcand remotecand ptrs a)
      x := by
  induction ptrs generalizing a with
  | nil => exact h
  | cons ptr rest ih =>
    unfold priv_mark_pair_nominated_loop
    have kk := fun pair => ih _ (at_rest_priv_mark_pair_nominated_pair E a sid cid x pair h)
    split
    · exact ih a h
    · split
      · simp only
        repeat' split
        all_goals first
          | exact ih a h
          | exact kk _
      · exact ih a h

theorem at_rest_priv_mark_pair_nominated (E : Ext) (a : NiceAgent) (sid cid x : Nat)
    (localcand remotecand : Option NiceCandidate) (h : discovered_at_rest a x) :
    discovered_at_rest (priv_mark_pair_nominated E a sid cid localcand remotecand) x := by
  unfold priv_mark_pair_nominated
  split_ifs
  · exact h
  · split
    · exact h
    · exact at_rest_priv_mark_pair_nominated_loop E sid cid x _ _ _ a h

theorem priv_limit_conn_check_list_size_loop_queue (max_conn_checks pair : Nat)
    (l : List CandidateCheckPair) (valid : Nat) (queue : List Nat) (x : Nat)
    (h : x ∈ (priv_limit_conn_check_list_size_loop max_conn_checks pair l valid queue).2.1) :
    x ∈ queue := by
  induction l generalizing valid queue with
  | nil => exact h
  | cons p ps ih =>
    unfold priv_limit_conn_check_list_size_loop at h
    split_ifs at h
    · exact mem_g_slist_remove _ _ _ (ih _ _ h)
    · exact ih _ _ h

theorem at_rest_priv_limit_conn_check_list_size (a : NiceAgent) (sid pair x : Nat)
    (h : discovered_at_rest a x) :
    discovered_at_rest (priv_limit_conn_check_list_size a sid pair).2 x := by
  unfold priv_limit_conn_check_list_size
  split
  · exact h
  · rename_i stream hstream
    simp only
    refine at_rest_intro a _ x h ?_ ?_
    · intro hx
      exact priv_limit_conn_check_list_size_loop_queue _ _ _ _ _ x hx
    · intro q1 hq1 hx
      left
      rcases allPairs_updateStream_const a sid _ q1 hq1 with h0 | h0
      · exact ⟨q1, h0, hx, rfl, rfl⟩
      · exact ⟨q1, mem_allPairs_of_stream a stream (agent_find_stream_some _ _ _ hstream).1 q1
          (priv_limit_conn_check_list_size_loop_sub _ _ _ _ _ q1 h0), hx, rfl, rfl⟩

theorem at_rest_insert_pair (a : NiceAgent) (sid x : Nat) (pair : CandidateCheckPair)
    (hpair : pair.ptr = x → pair.state = NICE_CHECK_DISCOVERED ∧ pair.stun_transactions = [])
    (h : discovered_at_rest a x) :
    discovered_at_rest (a.updateStream sid (fun s =>
      { s with conncheck_list :=
          g_slist_insert_sorted s.conncheck_list pair conn_check_compare })) x := by
  refine at_rest_intro a _ x h (fun hx => hx) ?_
  intro q1 hq1 hx
  unfold NiceAgent.allPairs NiceAgent.updateStream at hq1
  simp only [List.mem_flatMap, List.mem_map] at hq1
  obtain ⟨s1, ⟨s, hs, hs1⟩, hq1⟩ := hq1
  rw [← hs1] at hq1
  split_ifs at hq1
  · simp only at hq1
    rw [mem_g_slist_insert_sorted] at hq1
    rcases hq1 with h0 | h0
    · right; rw [h0] at hx ⊢; exact hpair hx
    · exact Or.inl ⟨q1, mem_allPairs_of_stream a s hs q1 h0, hx, rfl, rfl⟩
  · exact Or.inl ⟨q1, mem_allPairs_of_stream a s hs q1 hq1, hx, rfl, rfl⟩

theorem at_rest_priv_add_new_check_pair (E : Ext) (a : NiceAgent) (sid : Nat)
    (component : NiceComponent) (local_ remote : NiceCandidate) (initial_state : NiceCheckState)
    (new_pair x : Nat) (hnew : new_pair ≠ x) (h : discovered_at_rest a x) :
    discovered_at_rest (priv_add_new_check_pair E a sid component local_ remote initial_state
      new_pair).2 x := by
  unfold priv_add_new_check_pair
  split
  · exact h
  · rename_i agent1 hins
    unfold priv_add_new_check_pair_insert at hins
    simp only at hins
    split_ifs at hins
    simp only [Option.some.injEq] at hins
    have k1 : discovered_at_rest agent1 x := by
      rw [← hins]
      exact at_rest_insert_pair a sid x _ (fun e => absurd e hnew) h
    have k2 : discovered_at_rest
        (if initial_state = NICE_CHECK_FROZEN then
          priv_conn_check_unfreeze_maybe E agent1
            (priv_add_new_check_pair_record E a sid component local_ remote
              initial_state new_pair)
        else agent1) x := by
      apply at_rest_ite _ _ _ _ ?_ k1
      unfold priv_conn_check_unfreeze_maybe SET_PAIR_STATE
      apply at_rest_ite _ _ _ _ ?_ k1
      exact at_rest_updatePair_ne agent1 x new_pair _ hnew (fun q hq => hq) k1
    simp only
    generalize (if initial_state = NICE_CHECK_FROZEN then
        priv_conn_check_unfreeze_maybe E agent1
          (priv_add_new_check_pair_record E a sid component local_ remote
            initial_state new_pair)
      else agent1) = agent2 at k2 ⊢
    split_ifs
    all_goals first
      | exact k2
      | exact at_rest_priv_limit_conn_check_list_size _ _ _ x k2

theorem priv_add_new_check_pair_result (E : Ext) (a : NiceAgent) (sid : Nat)
    (component : NiceComponent) (local_ remote : NiceCandidate) (initial_state : NiceCheckState)
    (new_pair p : Nat)
    (h : (priv_add_new_check_pair E a sid component local_ remote initial_state
      new_pair).1 = some p) : p = new_pair := by
  unfold priv_add_new_check_pair at h
  split at h
  · simp at h
  · simp only at h
    split_ifs at h
    all_goals
      simp only [Option.some.injEq, reduceCtorEq] at h
      try exact h.symm

theorem at_rest_priv_conn_check_add_for_candidate_pair_matched (E : Ext) (a : NiceAgent)
    (sid : Nat) (component : NiceComponent) (local_ remote : NiceCandidate)
    (initial_state : NiceCheckState) (new_pair x : Nat) (hnew : new_pair ≠ x)
    (h : discovered_at_rest a x) :
    discovered_at_rest (priv_conn_check_add_for_candidate_pair_matched E a sid component
      local_ remote initial_state new_pair).2 x ∧
    ∀ p, (priv_conn_check_add_for_candidate_pair_matched E a sid component
      local_ remote initial_state new_pair).1 = some p → p = new_pair := by
  have k := at_rest_priv_add_new_check_pair E a sid component local_ remote initial_state
    new_pair x hnew h
  have kr := priv_add_new_check_pair_result E a sid component local_ remote initial_state
    new_pair
  unfold priv_conn_check_add_for_candidate_pair_matched
  simp only
  split
  · exact ⟨k, fun p hp => by simp at hp⟩
  · rename_i pair hpair
    split_ifs
    all_goals
      refine ⟨at_rest_signal _ x _ _ _ k, fun p hp => ?_⟩
      simp only [Option.some.injEq] at hp
      rw [← hp]
      exact kr pair hpair

theorem at_rest_schedule_triggered_check_pair (a : NiceAgent) (sid : Nat)
    (component : NiceComponent) (p : CandidateCheckPair) (x : Nat) (hp : p ∈ a.allPairs)
    (h : discovered_at_rest a x) :
    discovered_at_rest (schedule_triggered_check_pair a sid component p) x := by
  have ht : ∀ b, discovered_at_rest b x → discovered_at_rest (conn_check_schedule_next b) x := by
    intro b hb
    unfold conn_check_schedule_next
    exact at_rest_ite _ _ _ _ hb hb
  have hadd : p.state ≠ NICE_CHECK_DISCOVERED →
      discovered_at_rest (priv_add_pair_to_triggered_check_queue a p.ptr) x :=
    fun hs => at_rest_queue_add a x p.ptr (at_rest_ne_of_pair a x h p hp (Or.inl hs)) h
  unfold schedule_triggered_check_pair
  split
  all_goals rename_i hst
  · exact hadd (by rw [hst]; decide)
  · exact hadd (by rw [hst]; decide)
  · exact at_rest_ite _ _ _ _ (hadd (by rw [hst]; decide)) h
  · apply at_rest_ite _ _ _ _ ?_ h
    simp only
    apply at_rest_ite _ _ _ _ (ht _ (at_rest_signal _ x _ _ _ (hadd (by rw [hst]; decide))))
    exact at_rest_ite _ _ _ _ (ht _ (at_rest_signal _ x _ _ _ (hadd (by rw [hst]; decide))))
      (hadd (by rw [hst]; decide))
  · exact h
  · exact h

theorem at_rest_priv_schedule_triggered_check (E : Ext) (a : NiceAgent) (sid cid : Nat)
    (local_socket : NiceSocket) (remote_cand : NiceCandidate) (new_pair x : Nat)
    (hnew : new_pair ≠ x) (h : discovered_at_rest a x) :
    discovered_at_rest (priv_schedule_triggered_check E a sid cid local_socket remote_cand
      new_pair).2 x := by
  unfold priv_schedule_triggered_check
  split
  · exact h
  · rename_i stream component hfc
    have hsm := (agent_find_component_some a sid cid stream component hfc).2.1
    split
    · rename_i p0 hp0
      simp only
      apply at_rest_schedule_triggered_check_pair a sid component _ x ?_ h
      exact nominate_checked_pair_mem a p0
        (mem_allPairs_of_stream a stream hsm p0 (List.mem_of_find?_eq_some hp0))
    · split
      · rename_i local_ _
        have k := at_rest_priv_conn_check_add_for_candidate_pair_matched E a sid component
          local_ remote_cand NICE_CHECK_WAITING new_pair x hnew h
        simp only
        split
        · rename_i p hp
          simp only
          rw [k.2 p hp]
          exact at_rest_queue_add _ x new_pair hnew k.1
        · exact k.1
      · exact h

theorem at_rest_streams_map (a b : NiceAgent) (x : Nat) (g : NiceStream → NiceStream)
    (hs : b.streams = a.streams.map g)
    (hq : b.triggered_check_queue = a.triggered_check_queue)
    (hg : ∀ s ∈ a.streams, ∀ q1 ∈ (g s).conncheck_list, q1.ptr = x →
      ∃ q ∈ s.conncheck_list, q.ptr = x ∧ q1.state = q.state ∧
        q1.stun_transactions = q.stun_transactions)
    (h : discovered_at_rest a x) : discovered_at_rest b x := by
  refine at_rest_intro a b x h (fun hx => hq ▸ hx) ?_
  intro q1 hq1 hx
  unfold NiceAgent.allPairs at hq1
  rw [hs] at hq1
  simp only [List.mem_flatMap, List.mem_map] at hq1
  obtain ⟨s1, ⟨s, hsm, rfl⟩, hq1⟩ := hq1
  obtain ⟨q, hqm, h1, h2, h3⟩ := hg s hsm q1 hq1 hx
  exact Or.inl ⟨q, mem_allPairs_of_stream a s hsm q hqm, h1, h2, h3⟩

theorem at_rest_conn_check_unfreeze_related (E : Ext) (a : NiceAgent)
    (pair : CandidateCheckPair) (x : Nat) (h : discovered_at_rest a x) :
    discovered_at_rest (conn_check_unfreeze_related E a pair) x := by
  refine at_rest_streams_map a _ x _ rfl rfl ?_ h
  intro s hs q1 hq1 hx
  simp only [List.mem_map] at hq1
  obtain ⟨q, hq, rfl⟩ := hq1
  split_ifs at hx ⊢ with hc
  · have := (h.2 q (mem_allPairs_of_stream a s hs q hq) hx).1
    rw [hc.1] at this
    exact absurd this (by decide)
  · exact ⟨q, hq, hx, rfl, rfl⟩

theorem at_rest_priv_check_for_role_conflict (E : Ext) (a : NiceAgent) (control : Bool)
    (x : Nat) (h : discovered_at_rest a x) :
    discovered_at_rest (priv_check_for_role_conflict E a control) x := by
  unfold priv_check_for_role_conflict
  apply at_rest_ite _ _ _ _ ?_ h
  unfold recalculate_pair_priorities
  refine at_rest_streams_map a _ x _ rfl rfl ?_ h
  intro s _ q1 hq1 hx
  simp only at hq1
  rw [(g_slist_sort_perm _ _).mem_iff, List.mem_map] at hq1
  obtain ⟨q, hq, rfl⟩ := hq1
  exact ⟨q, hq, hx, rfl, rfl⟩

theorem at_rest_response_pair_succeeded (a : NiceAgent) (x y : Nat) (hy : y ≠ x)
    (h : discovered_at_rest a x) : discovered_at_rest (response_pair_succeeded a y) x := by
  unfold response_pair_succeeded SET_PAIR_STATE
  simp only
  apply at_rest_updatePair_ne _ x y _ hy (fun _ hq => by exact hq)
  apply at_rest_queue_remove
  exact at_rest_updatePair_ne a x y _ hy (fun _ hq => by exact hq) h

theorem at_rest_updateComponent (a : NiceAgent) (sid cid x : Nat)
    (f : NiceComponent → NiceComponent) (h : discovered_at_rest a x) :
    discovered_at_rest (a.updateComponent sid cid f) x :=
  at_rest_same a _ x (allPairs_updateComponent _ _ _ _) rfl h

theorem at_rest_priv_add_peer_reflexive_pair (E : Ext) (a : NiceAgent) (sid : Nat)
    (component : NiceComponent) (cand : NiceCandidate) (parent : CandidateCheckPair)
    (new_pair x : Nat) (h : discovered_at_rest a x) :
    discovered_at_rest (priv_add_peer_reflexive_pair E a sid component cand parent new_pair)
      x := by
  unfold priv_add_peer_reflexive_pair
  simp only
  apply at_rest_insert_pair _ sid x _ (fun _ => ⟨rfl, rfl⟩)
  exact at_rest_updatePair_quiet a x _ _ (fun _ => by exact ⟨rfl, rfl, rfl⟩) h

theorem at_rest_priv_process_response_check_for_reflexive (E : Ext) (a : NiceAgent)
    (sid cid : Nat) (p : CandidateCheckPair) (sockptr : NiceSocket) (mapped : NiceAddress)
    (local_candidate : Option NiceCandidate) (remote_candidate : NiceCandidate)
    (new_pair x : Nat) (hp : p.ptr ≠ x) (h : discovered_at_rest a x) :
    discovered_at_rest (priv_process_response_check_for_reflexive E a sid cid p sockptr mapped
      local_candidate remote_candidate new_pair).2 x := by
  unfold priv_process_response_check_for_reflexive
  split
  · exact h
  · rename_i stream component _
    simp only
    split
    · apply at_rest_response_pair_succeeded _ x _ hp
      apply at_rest_ite _ _ _ _ ?_ h
      exact at_rest_updatePair_quiet a x _ _ (fun _ => by exact ⟨rfl, rfl, rfl⟩) h
    · have kr : discovered_at_rest
          (if (List.find? (fun cand => nice_address_equal mapped cand.addr &&
                local_candidate_and_socket_compatible cand sockptr)
                component.local_candidates).isNone = true ∧ a.force_relay = false then
            discovery_add_peer_reflexive_candidate E a stream.id component.id
              p.stun_priority mapped sockptr local_candidate remote_candidate
          else (List.find? (fun cand => nice_address_equal mapped cand.addr &&
                local_candidate_and_socket_compatible cand sockptr)
                component.local_candidates, a)).2 x := by
        split_ifs
        · unfold discovery_add_peer_reflexive_candidate
          split
          · exact h
          · exact at_rest_updateComponent a _ _ x _ h
        · exact h
      split
      · apply at_rest_response_pair_succeeded _ x _ hp
        apply at_rest_updatePair_quiet _ x _ _ (fun _ => by exact ⟨rfl, rfl, rfl⟩)
        exact at_rest_priv_add_peer_reflexive_pair E _ _ _ _ _ _ x kr
      · exact at_rest_response_pair_succeeded _ x _ hp kr

theorem at_rest_map_reply_validate (E : Ext) (a : NiceAgent) (sid cid : Nat)
    (sockptr : NiceSocket) (from_ : NiceAddress)
    (local_candidate remote_candidate : Option NiceCandidate)
    (resp : StunResponse) (new_pair : Nat) (p : CandidateCheckPair) (k x : Nat)
    (hp : p.ptr ≠ x) (h : discovered_at_rest a x) :
    match map_reply_validate E a sid cid sockptr from_ local_candidate
      remote_candidate resp new_pair p k with
    | Except.error b => discovered_at_rest b x
    | Except.ok r => discovered_at_rest r.2.2 x := by
  have k1 : discovered_at_rest
      (a.updatePair p.ptr (fun q => priv_remove_stun_transaction q k)) x :=
    at_rest_updatePair_ne a x p.ptr _ hp (fun _ hq => by exact hq) h
  have kf := at_rest_candidate_check_pair_fail _ x p.ptr hp k1
  unfold map_reply_validate
  simp only
  by_cases hfrom : nice_address_equal from_ p.remote.addr = false
  · rw [if_pos hfrom]
    exact kf
  · rw [if_neg hfrom]
    cases remote_candidate with
    | none => exact kf
    | some rcand =>
      simp only
      by_cases hres : resp.res = STUN_USAGE_ICE_RETURN_NO_MAPPED_ADDRESS
      · rw [if_pos hres]
        simp only
        exact at_rest_updatePair_ne _ x p.ptr _ hp (fun _ hq => by exact hq) k1
      · rw [if_neg hres]
        simp only
        apply at_rest_priv_process_response_check_for_reflexive E _ _ _ _ _ _ _ _ _ x ?_ k1
        rw [findPair_getD_ptr _ _ _ rfl]
        exact hp

theorem at_rest_map_reply_nominate (E : Ext) (a : NiceAgent) (sid cid : Nat)
    (p : Nat) (p1 : CandidateCheckPair) (ok_pair x : Nat) (h : discovered_at_rest a x) :
    discovered_at_rest (map_reply_nominate E a sid cid p p1 ok_pair) x := by
  unfold map_reply_nominate
  simp only
  apply at_rest_for_ready
  have h2 := at_rest_conn_check_unfreeze_related E a ((a.findPair p).getD p1) x h
  generalize conn_check_unfreeze_related E a ((a.findPair p).getD p1) = a2 at h2 ⊢
  have h3 : discovered_at_rest
      (if response_sets_nominated a2 ((a2.findPair p).getD ((a.findPair p).getD p1)) = true
        then a2.updatePair ok_pair (fun q => { q with nominated := true }) else a2) x :=
    at_rest_ite _ _ _ _
      (at_rest_updatePair_quiet a2 x _ _ (fun _ => by exact ⟨rfl, rfl, rfl⟩) h2) h2
  generalize (if response_sets_nominated a2 ((a2.findPair p).getD ((a.findPair p).getD p1)) =
      true then a2.updatePair ok_pair (fun q => { q with nominated := true }) else a2) = a3
    at h3 ⊢
  split
  · repeat (first
      | exact h3
      | apply at_rest_ite
      | apply at_rest_signal
      | apply at_rest_conn_check_update_selected_pair)
  · exact h3

theorem at_rest_map_reply_success (E : Ext) (a : NiceAgent) (sid cid : Nat)
    (sockptr : NiceSocket) (from_ : NiceAddress)
    (local_candidate remote_candidate : Option NiceCandidate)
    (resp : StunResponse) (new_pair : Nat) (p : CandidateCheckPair) (k x : Nat)
    (hp : p.ptr ≠ x) (h : discovered_at_rest a x) :
    discovered_at_rest (map_reply_success E a sid cid sockptr from_ local_candidate
      remote_candidate resp new_pair p k) x := by
  have hv := at_rest_map_reply_validate E a sid cid sockptr from_ local_candidate
    remote_candidate resp new_pair p k x hp h
  unfold map_reply_success
  split
  · rename_i failed hr
    rw [hr] at hv
    exact hv
  · rename_i ok_pair p1 agent1 hr
    rw [hr] at hv
    exact at_rest_map_reply_nominate E agent1 sid cid p.ptr p1 _ x hv

theorem at_rest_priv_map_reply_to_conn_check_request (E : Ext) (a : NiceAgent)
    (sid cid : Nat) (sockptr : NiceSocket) (from_ : NiceAddress)
    (local_candidate remote_candidate : Option NiceCandidate) (resp : StunResponse)
    (new_pair x : Nat) (h : discovered_at_rest a x) :
    discovered_at_rest (priv_map_reply_to_conn_check_request E a sid cid sockptr from_
      local_candidate remote_candidate resp new_pair).2 x := by
  unfold priv_map_reply_to_conn_check_request
  split
  · exact h
  · rename_i stream hs
    split
    · exact h
    · rename_i p k stun hm
      obtain ⟨hpm, hk, _⟩ := find_matching_request_some _ _ _ _ _ hm
      have hp : p.ptr ≠ x := by
        apply at_rest_ne_of_pair a x h p
          (mem_allPairs_of_stream a stream (agent_find_stream_some a sid stream hs).1 p hpm)
        right
        intro he
        rw [he] at hk
        simp at hk
      split_ifs
      · exact at_rest_map_reply_success E a sid cid sockptr from_ local_candidate
          remote_candidate resp new_pair p k x hp h
      · exact h
      · simp only
        apply at_rest_queue_add _ x _ hp
        apply at_rest_updatePair_ne _ x p.ptr _ hp (fun _ hq => by exact hq)
        exact at_rest_priv_check_for_role_conflict E a _ x h
      · exact at_rest_candidate_check_pair_fail a x p.ptr hp h

theorem at_rest_tick_streams_until_sent (step : NiceAgent → Nat → Bool × NiceAgent) (x : Nat)
    (hstep : ∀ a sid, discovered_at_rest a x → discovered_at_rest (step a sid).2 x)
    (ids : List Nat) (stun_sent : Bool) (a : NiceAgent) (h : discovered_at_rest a x) :
    discovered_at_rest (tick_streams_until_sent step ids stun_sent a).2 x := by
  induction ids generalizing stun_sent a with
  | nil => exact h
  | cons sid rest ih =>
    unfold tick_streams_until_sent
    split_ifs
    · exact h
    · exact ih _ _ (hstep a sid h)

theorem at_rest_priv_conn_check_tick_agent_locked_checks (E : Ext) (now : Int)
    (a : NiceAgent) (x : Nat) (h : discovered_at_rest a x) :
    discovered_at_rest (priv_conn_check_tick_agent_locked_checks E now a).2 x := by
  unfold priv_conn_check_tick_agent_locked_checks
  simp only
  apply at_rest_tick_streams_until_sent _ x
    (fun b sid hb => at_rest_priv_conn_check_ordinary_check E now b sid x hb)
  apply at_rest_tick_streams_until_sent _ x
    (fun b sid hb => at_rest_priv_conn_check_tick_stream E now b sid x hb)
  exact at_rest_tick_streams_until_sent _ x
    (fun b _ hb => at_rest_priv_conn_check_triggered_check E now b x hb) _ _ a h

theorem at_rest_agent_socket_send (a : NiceAgent) (sock : NiceSocket) (dest : NiceAddress)
    (len x : Nat) (h : discovered_at_rest a x) :
    discovered_at_rest (agent_socket_send a sock dest len) x :=
  at_rest_same a _ x rfl rfl h

theorem at_rest_priv_reply_to_conn_check (E : Ext) (a : NiceAgent) (sid cid : Nat)
    (lcand rcand : Option NiceCandidate) (toaddr : NiceAddress) (sockptr : NiceSocket)
    (len : Nat) (msg : StunMessage) (use_candidate : Bool) (new_pair x : Nat)
    (hnew : new_pair ≠ x) (h : discovered_at_rest a x) :
    discovered_at_rest (priv_reply_to_conn_check E a sid cid lcand rcand toaddr sockptr len
      msg use_candidate new_pair) x := by
  unfold priv_reply_to_conn_check
  simp only
  have h2 : discovered_at_rest
      (if a.compatibility = NICE_COMPATIBILITY_OC2007R2 ∧
          E.ms_ice2_legacy_conncheck_resends msg = true then
        agent_socket_send (agent_socket_send a sockptr toaddr len) sockptr toaddr len
      else agent_socket_send a sockptr toaddr len) x :=
    at_rest_ite _ _ _ _
      (at_rest_agent_socket_send _ _ _ _ x (at_rest_agent_socket_send _ _ _ _ x h))
      (at_rest_agent_socket_send _ _ _ _ x h)
  generalize (if a.compatibility = NICE_COMPATIBILITY_OC2007R2 ∧
      E.ms_ice2_legacy_conncheck_resends msg = true then
    agent_socket_send (agent_socket_send a sockptr toaddr len) sockptr toaddr len
    else agent_socket_send a sockptr toaddr len) = a2 at h2 ⊢
  split
  · rename_i r stream _
    have h3 := at_rest_priv_schedule_triggered_check E a2 sid cid sockptr r new_pair x hnew h2
    split_ifs
    · exact at_rest_priv_mark_pair_nominated E _ sid cid x lcand _ h3
    · exact h3
    · exact h2
  · exact h2

theorem nominate_component_legacy_queues (E : Ext) (agent : NiceAgent)
    (stream_id component_id : Nat) (stream : NiceStream) (p : CandidateCheckPair)
    (hs : agent_find_stream agent stream_id = some stream)
    (hp : stream.conncheck_list.find? (fun p => p.component_id == component_id &&
      (p.state == NICE_CHECK_SUCCEEDED || p.state == NICE_CHECK_DISCOVERED)) = some p) :
    p.ptr ∈ (nominate_component_legacy E agent stream_id component_id).2.triggered_check_queue := by
  unfold nominate_component_legacy
  rw [hs]
  simp only
  rw [hp]
  exact mem_priv_add_pair_to_triggered_check_queue _ _

/-- C17 (amended): a Discovered pair at rest stays at rest.  When every record at the address
`x` is in state Discovered with no transaction, and `x` is not in the triggered-check queue (as
a Discovered pair is when `priv_add_peer_reflexive_pair` creates it), the same holds after each
step of the scheduler and of the inbound STUN handling: a triggered check, the transaction
advance of a stream, an ordinary check, the three together over all the streams, the
nomination step of a stream in the RFC 5245 and OC2007R2 compatibility modes (for every valid
pair the pair examined in its place is not Discovered, which the assertion of the selection
loop demands), the handling of a response, and the handling of a request
(`priv_schedule_triggered_check`, `priv_mark_pair_nominated`, and `priv_reply_to_conn_check`
which calls both) when the address of the pair a request may create is not `x`.  In the other
compatibility modes the nomination step of a component queues its first Succeeded or
Discovered pair for a new check. -/
theorem discovered_pair_stays_at_rest (E : Ext) (agent : NiceAgent) (x : Nat)
    (h : discovered_at_rest agent x) :
    (∀ now, discovered_at_rest (priv_conn_check_triggered_check E now agent).2 x) ∧
    (∀ now stream_id,
      discovered_at_rest (priv_conn_check_tick_stream E now agent stream_id).2 x) ∧
    (∀ now stream_id,
      discovered_at_rest (priv_conn_check_ordinary_check E now agent stream_id).2 x) ∧
    (∀ now, discovered_at_rest (priv_conn_check_tick_agent_locked_checks E now agent).2 x) ∧
    (∀ stream_id, NICE_AGENT_IS_COMPATIBLE_WITH_RFC5245_OR_OC2007R2 agent = true →
      checked_pairs_not_discovered agent →
      discovered_at_rest (priv_conn_check_tick_stream_nominate E agent stream_id).2 x) ∧
    (∀ stream_id component_id sockptr from_ local_candidate remote_candidate resp new_pair,
      discovered_at_rest (priv_map_reply_to_conn_check_request E agent stream_id component_id
        sockptr from_ local_candidate remote_candidate resp new_pair).2 x) ∧
    (∀ stream_id component_id local_socket remote_cand new_pair, new_pair ≠ x →
      discovered_at_rest (priv_schedule_triggered_check E agent stream_id component_id
        local_socket remote_cand new_pair).2 x) ∧
    (∀ stream_id component_id localcand remotecand,
      discovered_at_rest (priv_mark_pair_nominated E agent stream_id component_id localcand
        remotecand) x) ∧
    (∀ stream_id component_id lcand rcand toaddr sockptr len msg use_candidate new_pair,
      new_pair ≠ x →
      discovered_at_rest (priv_reply_to_conn_check E agent stream_id component_id lcand rcand
        toaddr sockptr len msg use_candidate new_pair) x) ∧
    (∀ stream_id component_id stream p,
      agent_find_stream agent stream_id = some stream →
      stream.conncheck_list.find? (fun p => p.component_id == component_id &&
        (p.state == NICE_CHECK_SUCCEEDED || p.state == NICE_CHECK_DISCOVERED)) = some p →
      p.ptr ∈ (nominate_component_legacy E agent stream_id
        component_id).2.triggered_check_queue) :=
  ⟨fun now => at_rest_priv_conn_check_triggered_check E now agent x h,
   fun now sid => at_rest_priv_conn_check_tick_stream E now agent sid x h,
   fun now sid => at_rest_priv_conn_check_ordinary_check E now agent sid x h,
   fun now => at_rest_priv_conn_check_tick_agent_locked_checks E now agent x h,
   fun sid hrfc hc => at_rest_priv_conn_check_tick_stream_nominate E agent sid x hrfc hc h,
   fun sid cid sockptr from_ lc rc resp new_pair =>
     at_rest_priv_map_reply_to_conn_check_request E agent sid cid sockptr from_ lc rc resp
       new_pair x h,
   fun sid cid sock rc new_pair hnew =>
     at_rest_priv_schedule_triggered_check E agent sid cid sock rc new_pair x hnew h,
   fun sid cid lc rc => at_rest_priv_mark_pair_nominated E agent sid cid x lc rc h,
   fun sid cid lc rc toaddr sock len msg uc new_pair hnew =>
     at_rest_priv_reply_to_conn_check E agent sid cid lc rc toaddr sock len msg uc new_pair x
       hnew h,
   fun sid cid stream p hs hp => nominate_component_legacy_queues E agent sid cid stream p hs hp⟩

/-- C17 (witness): the theorem on example agents whose Discovered pair 13 is at rest.  With
pair 11 queued and pair 12 InProgress, the triggered check moves pair 11 to InProgress and a
response for pair 12 whose mapped address is new adds the Discovered pair 14; with nothing
queued, the regular nomination step queues pair 11.  Pair 13 stays at rest through each. -/
theorem discovered_pair_stays_at_rest_witness :
    discovered_at_rest (ex_agent NICE_COMPATIBILITY_RFC5245
      (ex_list_discovered.take 2 ++ [ex_pair_in_progress]) [11]) 13 ∧
    (stream_pairs (priv_conn_check_triggered_check ext0 1000 (ex_agent NICE_COMPATIBILITY_RFC5245
      (ex_list_discovered.take 2 ++ [ex_pair_in_progress]) [11])).2 1).map
      (fun q => (q.ptr, q.state)) =
      [(11, NICE_CHECK_IN_PROGRESS), (13, NICE_CHECK_DISCOVERED),
       (12, NICE_CHECK_IN_PROGRESS)] ∧
    discovered_at_rest (priv_conn_check_triggered_check ext0 1000
      (ex_agent NICE_COMPATIBILITY_RFC5245
        (ex_list_discovered.take 2 ++ [ex_pair_in_progress]) [11])).2 13 ∧
    discovered_at_rest (priv_conn_check_tick_agent_locked_checks ext0 1000
      (ex_agent NICE_COMPATIBILITY_RFC5245
        (ex_list_discovered.take 2 ++ [ex_pair_in_progress]) [11])).2 13 ∧
    (stream_pairs (priv_map_reply_to_conn_check_request ext0 (ex_agent NICE_COMPATIBILITY_RFC5245
      (ex_list_discovered.take 2 ++ [ex_pair_in_progress]) [11]) 1 1 ex_sock ex_remote.addr
      (some ex_local) (some ex_remote) ⟨7012, STUN_USAGE_ICE_RETURN_SUCCESS, ex_prflx.addr⟩
      14).2 1).map (fun q => (q.ptr, q.state)) =
      [(11, NICE_CHECK_SUCCEEDED), (13, NICE_CHECK_DISCOVERED), (12, NICE_CHECK_SUCCEEDED),
       (14, NICE_CHECK_DISCOVERED)] ∧
    discovered_at_rest (priv_map_reply_to_conn_check_request ext0
      (ex_agent NICE_COMPATIBILITY_RFC5245
        (ex_list_discovered.take 2 ++ [ex_pair_in_progress]) [11]) 1 1 ex_sock ex_remote.addr
      (some ex_local) (some ex_remote) ⟨7012, STUN_USAGE_ICE_RETURN_SUCCESS, ex_prflx.addr⟩
      14).2 13 ∧
    discovered_at_rest (priv_reply_to_conn_check ext0 (ex_agent NICE_COMPATIBILITY_RFC5245
      (ex_list_discovered.take 2 ++ [ex_pair_in_progress]) [11]) 1 1 (some ex_local)
      (some ex_remote2) ex_remote2.addr ex_sock 96 ex_transaction.message true 14) 13 ∧
    (priv_conn_check_tick_stream_nominate ext0
      (ex_agent NICE_COMPATIBILITY_RFC5245 ex_list_discovered []) 1).2.triggered_check_queue =
      [11] ∧
    discovered_at_rest (priv_conn_check_tick_stream_nominate ext0
      (ex_agent NICE_COMPATIBILITY_RFC5245 ex_list_discovered []) 1).2 13 :=
  ⟨by decide, by decide,
   (discovered_pair_stays_at_rest ext0 (ex_agent NICE_COMPATIBILITY_RFC5245
      (ex_list_discovered.take 2 ++ [ex_pair_in_progress]) [11]) 13 (by decide)).1 1000,
   (discovered_pair_stays_at_rest ext0 (ex_agent NICE_COMPATIBILITY_RFC5245
      (ex_list_discovered.take 2 ++ [ex_pair_in_progress]) [11]) 13 (by decide)).2.2.2.1 1000,
   by decide,
   (discovered_pair_stays_at_rest ext0 (ex_agent NICE_COMPATIBILITY_RFC5245
      (ex_list_discovered.take 2 ++ [ex_pair_in_progress]) [11]) 13
      (by decide)).2.2.2.2.2.1 1 1 ex_sock ex_remote.addr (some ex_local) (some ex_remote)
      ⟨7012, STUN_USAGE_ICE_RETURN_SUCCESS, ex_prflx.addr⟩ 14,
   (discovered_pair_stays_at_rest ext0 (ex_agent NICE_COMPATIBILITY_RFC5245
      (ex_list_discovered.take 2 ++ [ex_pair_in_progress]) [11]) 13
      (by decide)).2.2.2.2.2.2.2.2.1 1 1 (some ex_local) (some ex_remote2) ex_remote2.addr
      ex_sock 96 ex_transaction.message true 14 (by decide),
   by decide,
   (discovered_pair_stays_at_rest ext0
      (ex_agent NICE_COMPATIBILITY_RFC5245 ex_list_discovered []) 13
      (by decide)).2.2.2.2.1 1 (by decide) (by decide)⟩

/-- C17 (counterexample): three timer ticks of a controlling agent in the Google compatibility
mode, from a sorted list whose Discovered pair 13 is at rest behind its Succeeded parent 11.
The first tick nominates and queues pair 11, the second moves pair 11 to InProgress and the
nomination step then queues the Discovered pair 13, and the third moves pair 13 from
Discovered to InProgress while it is in the list. -/
theorem legacy_nomination_restarts_discovered_pair :
    conncheck_sorted ex_list_discovered ∧
    discovered_at_rest (ex_agent NICE_COMPATIBILITY_GOOGLE ex_list_discovered []) 13 ∧
    ((stream_pairs (priv_conn_check_tick_agent_locked ext0 1020
        (priv_conn_check_tick_agent_locked ext0 1000
          (ex_agent NICE_COMPATIBILITY_GOOGLE ex_list_discovered [])).2).2 1).map
        (fun q => (q.ptr, q.state)) =
      [(11, NICE_CHECK_IN_PROGRESS), (13, NICE_CHECK_DISCOVERED), (12, NICE_CHECK_SUCCEEDED)]) ∧
    (priv_conn_check_tick_agent_locked ext0 1020
        (priv_conn_check_tick_agent_locked ext0 1000
          (ex_agent NICE_COMPATIBILITY_GOOGLE ex_list_discovered [])).2).2.triggered_check_queue
      = [13] ∧
    ((stream_pairs (priv_conn_check_tick_agent_locked ext0 1040
        (priv_conn_check_tick_agent_locked ext0 1020
          (priv_conn_check_tick_agent_locked ext0 1000
            (ex_agent NICE_COMPATIBILITY_GOOGLE ex_list_discovered [])).2).2).2 1).map
        (fun q => (q.ptr, q.state)) =
      [(11, NICE_CHECK_IN_PROGRESS), (13, NICE_CHECK_IN_PROGRESS),
       (12, NICE_CHECK_SUCCEEDED)]) := by
  decide

/-! ## The replay of stored checks -/

theorem agent_view_updatePair (a : NiceAgent) (y : Nat)
    (f : CandidateCheckPair → CandidateCheckPair) :
    agent_view (a.updatePair y f) = agent_view a := by
  unfold agent_view NiceAgent.updatePair
  simp only [List.map_map]
  apply List.map_congr_left
  intro s _
  rfl

theorem agent_view_updateStream (a : NiceAgent) (sid : Nat) (f : NiceStream → NiceStream)
    (hf : ∀ s, stream_view (f s) = stream_view s) :
    agent_view (a.updateStream sid f) = agent_view a := by
  unfold agent_view NiceAgent.updateStream
  simp only [List.map_map]
  apply List.map_congr_left
  intro s _
  simp only [Function.comp]
  split_ifs
  · exact hf s
  · rfl

theorem agent_view_updateComponent (a : NiceAgent) (sid cid : Nat)
    (f : NiceComponent → NiceComponent)
    (hf : ∀ c, component_view (f c) = component_view c) :
    agent_view (a.updateComponent sid cid f) = agent_view a := by
  unfold NiceAgent.updateComponent
  apply agent_view_updateStream
  intro s
  unfold stream_view
  simp only [List.map_map]
  congr 2
  apply List.map_congr_left
  intro c _
  simp only [Function.comp]
  split_ifs
  · exact hf c
  · rfl

theorem agent_view_signal (a : NiceAgent) (sid cid : Nat) (st : NiceComponentState) :
    agent_view (agent_signal_component_state_change a sid cid st) = agent_view a := by
  unfold agent_signal_component_state_change
  split
  · rfl
  · split_ifs
    · rfl
    · exact agent_view_updateComponent a sid cid _ (fun _ => rfl)

theorem agent_view_queue_add (a : NiceAgent) (p : Nat) :
    agent_view (priv_add_pair_to_triggered_check_queue a p) = agent_view a := by
  unfold priv_add_pair_to_triggered_check_queue
  split_ifs <;> rfl

theorem agent_view_conn_check_schedule_next (a : NiceAgent) :
    agent_view (conn_check_schedule_next a) = agent_view a := by
  unfold conn_check_schedule_next
  split_ifs <;> rfl

theorem agent_view_conn_check_update_selected_pair (E : Ext) (a : NiceAgent) (sid cid : Nat)
    (pair : CandidateCheckPair) :
    agent_view (conn_check_update_selected_pair E a sid cid pair) = agent_view a := by
  unfold conn_check_update_selected_pair
  split
  · rfl
  · split_ifs
    · exact agent_view_updateComponent a sid cid _ (fun _ => rfl)
    · rfl

theorem agent_view_priv_prune_pending_checks (a : NiceAgent) (sid cid : Nat) :
    agent_view (priv_prune_pending_checks a sid cid).2 = agent_view a := by
  unfold priv_prune_pending_checks
  split
  · rfl
  · exact agent_view_updateStream a sid _ (fun _ => rfl)

theorem agent_view_for_ready (a : NiceAgent) (sid cid : Nat) :
    agent_view (conn_check_update_check_list_state_for_ready a sid cid) = agent_view a := by
  unfold conn_check_update_check_list_state_for_ready
  split
  · rfl
  · simp only
    split_ifs
    all_goals
      simp only [agent_view_signal, agent_view_priv_prune_pending_checks]

theorem agent_view_priv_limit_conn_check_list_size (a : NiceAgent) (sid pair : Nat) :
    agent_view (priv_limit_conn_check_list_size a sid pair).2 = agent_view a := by
  unfold priv_limit_conn_check_list_size
  split
  · rfl
  · exact agent_view_updateStream a sid _ (fun _ => rfl)

theorem agent_view_priv_add_new_check_pair (E : Ext) (a : NiceAgent) (sid : Nat)
    (component : NiceComponent) (local_ remote : NiceCandidate) (initial_state : NiceCheckState)
    (new_pair : Nat) :
    agent_view (priv_add_new_check_pair E a sid component local_ remote initial_state
      new_pair).2 = agent_view a := by
  unfold priv_add_new_check_pair
  split
  · rfl
  · rename_i agent1 hins
    unfold priv_add_new_check_pair_insert at hins
    simp only at hins
    split_ifs at hins
    simp only [Option.some.injEq] at hins
    have k1 : agent_view agent1 = agent_view a := by
      rw [← hins]
      exact agent_view_updateStream a sid _ (fun _ => rfl)
    have k2 : ∀ pr, agent_view (priv_conn_check_unfreeze_maybe E agent1 pr) = agent_view a := by
      intro pr
      unfold priv_conn_check_unfreeze_maybe SET_PAIR_STATE
      split_ifs
      · rw [agent_view_updatePair, k1]
      · exact k1
    simp only
    split_ifs
    all_goals
      simp only [agent_view_priv_limit_conn_check_list_size, k1, k2]

theorem agent_view_priv_conn_check_add_for_candidate_pair_matched (E : Ext) (a : NiceAgent)
    (sid : Nat) (component : NiceComponent) (local_ remote : NiceCandidate)
    (initial_state : NiceCheckState) (new_pair : Nat) :
    agent_view (priv_conn_check_add_for_candidate_pair_matched E a sid component
      local_ remote initial_state new_pair).2 = agent_view a := by
  unfold priv_conn_check_add_for_candidate_pair_matched
  simp only
  split
  · exact agent_view_priv_add_new_check_pair _ _ _ _ _ _ _ _
  · split_ifs
    all_goals
      simp only [agent_view_signal, agent_view_priv_add_new_check_pair]

theorem agent_view_schedule_triggered_check_pair (a : NiceAgent) (sid : Nat)
    (component : NiceComponent) (p : CandidateCheckPair) :
    agent_view (schedule_triggered_check_pair a sid component p) = agent_view a := by
  unfold schedule_triggered_check_pair
  split
  all_goals
    try simp only
    try split_ifs
  all_goals
    simp only [agent_view_conn_check_schedule_next, agent_view_signal, agent_view_queue_add]

theorem agent_view_priv_schedule_triggered_check (E : Ext) (a : NiceAgent) (sid cid : Nat)
    (local_socket : NiceSocket) (remote_cand : NiceCandidate) (new_pair : Nat) :
    agent_view (priv_schedule_triggered_check E a sid cid local_socket remote_cand
      new_pair).2 = agent_view a := by
  unfold priv_schedule_triggered_check
  split
  · rfl
  · split
    · exact agent_view_schedule_triggered_check_pair _ _ _ _
    · split
      · simp only
        split
        · simp only [agent_view_queue_add,
            agent_view_priv_conn_check_add_for_candidate_pair_matched]
        · exact agent_view_priv_conn_check_add_for_candidate_pair_matched _ _ _ _ _ _ _ _
      · rfl

theorem agent_view_priv_mark_pair_nominated_pair (E : Ext) (a : NiceAgent) (sid cid : Nat)
    (pair : CandidateCheckPair) :
    agent_view (priv_mark_pair_nominated_pair E a sid cid pair) = agent_view a := by
  unfold priv_mark_pair_nominated_pair
  simp only
  split_ifs
  all_goals
    simp only [agent_view_for_ready, agent_view_signal,
      agent_view_conn_check_update_selected_pair, agent_view_updatePair]

theorem agent_view_priv_mark_pair_nominated_loop (E : Ext) (sid cid : Nat)
    (localcand remotecand : Option NiceCandidate) (ptrs : List Nat) (a : NiceAgent) :
    agent_view (priv_mark_pair_nominated_loop E sid cid localcand remotecand ptrs a) =
      agent_view a := by
  induction ptrs generalizing a with
  | nil => rfl
  | cons ptr rest ih =>
    unfold priv_mark_pair_nominated_loop
    have kk := fun pair => (ih (priv_mark_pair_nominated_pair E a sid cid pair)).trans
      (agent_view_priv_mark_pair_nominated_pair E a sid cid pair)
    split
    · exact ih a
    · split
      · simp only
        repeat' split
        all_goals first
          | exact ih a
          | exact kk _
      · exact ih a

theorem agent_view_priv_mark_pair_nominated (E : Ext) (a : NiceAgent) (sid cid : Nat)
    (localcand remotecand : Option NiceCandidate) :
    agent_view (priv_mark_pair_nominated E a sid cid localcand remotecand) = agent_view a := by
  unfold priv_mark_pair_nominated
  split_ifs
  · rfl
  · split
    · rfl
    · exact agent_view_priv_mark_pair_nominated_loop E sid cid _ _ _ a

theorem found_view_congr (a b : NiceAgent) (sid : Nat) (h : agent_view b = agent_view a) :
    found_view b sid = found_view a sid := by
  have key : ∀ c : NiceAgent,
      found_view c sid = (agent_view c).find? (fun sv => sv.1 == sid) := by
    intro c
    unfold found_view agent_view agent_find_stream
    rw [List.find?_map]
    rfl
  rw [key, key, h]

theorem found_view_updateComponent_queue (a : NiceAgent) (sid cid : Nat)
    (g : List IncomingCheck → List IncomingCheck) :
    found_view (a.updateComponent sid cid
      (fun c => { c with incoming_checks := g c.incoming_checks })) sid =
      (found_view a sid).map (fun sv => (sv.1, sv.2.1, view_queue_update cid g sv.2.2)) := by
  unfold found_view NiceAgent.updateComponent
  rw [agent_find_stream_updateStream _ _ _ _ (fun _ => by rfl)]
  cases h1 : agent_find_stream a sid with
  | none => rfl
  | some s =>
    have hs : s.id = sid := (agent_find_stream_some a sid s h1).2
    simp only [Option.map_some', hs, if_true]
    unfold stream_view view_queue_update
    simp only [List.map_map, hs, Option.some.injEq, Prod.mk.injEq, true_and]
    apply List.map_congr_left
    intro c _
    simp only [Function.comp, component_view]
    split_ifs <;> rfl

theorem found_component (a : NiceAgent) (sid cid i0 j : Nat) (u : String)
    (cvs : List (Nat × List NiceCandidate × List NiceCandidate × List IncomingCheck))
    (L R : List NiceCandidate) (q : List IncomingCheck)
    (hv : found_view a sid = some (i0, u, cvs))
    (hc : cvs.find? (fun cv => cv.1 == cid) = some (j, L, R, q)) :
    ∃ s c, agent_find_component a sid cid = some (s, c) ∧ s.remote_ufrag = u ∧
      c.local_candidates = L ∧ c.remote_candidates = R ∧ c.incoming_checks = q := by
  unfold found_view at hv
  cases h1 : agent_find_stream a sid with
  | none => rw [h1] at hv; simp at hv
  | some s =>
    rw [h1] at hv
    simp only [Option.map_some', Option.some.injEq, stream_view, Prod.mk.injEq] at hv
    obtain ⟨_, hu, hcv⟩ := hv
    rw [← hcv, List.find?_map] at hc
    cases h2 : s.components.find? ((fun cv => cv.1 == cid) ∘ component_view) with
    | none => rw [h2] at hc; simp at hc
    | some c =>
      rw [h2] at hc
      simp only [Option.map_some', Option.some.injEq, component_view, Prod.mk.injEq] at hc
      refine ⟨s, c, ?_, hu, hc.2.1, hc.2.2.1, hc.2.2.2⟩
      unfold agent_find_component nice_stream_find_component_by_id
      rw [h1]
      simp only
      have : s.components.find? (fun c => c.id == cid) = some c := h2
      rw [this]

theorem view_queue_update_find (cid : Nat) (g : List IncomingCheck → List IncomingCheck)
    (cvs : List (Nat × List NiceCandidate × List NiceCandidate × List IncomingCheck)) :
    (view_queue_update cid g cvs).find? (fun cv => cv.1 == cid) =
      (cvs.find? (fun cv => cv.1 == cid)).map
        (fun cv => (cv.1, cv.2.1, cv.2.2.1, g cv.2.2.2)) := by
  unfold view_queue_update
  rw [find?_map_of_comm]
  · cases h : cvs.find? (fun cv => cv.1 == cid) with
    | none => rfl
    | some cv =>
      have := List.find?_some h
      simp only [beq_iff_eq] at this
      simp only [Option.map_some', this, if_true]
  · intro cv
    split_ifs <;> rfl

theorem view_queue_update_comp (cid : Nat) (g1 g2 : List IncomingCheck → List IncomingCheck)
    (cvs : List (Nat × List NiceCandidate × List NiceCandidate × List IncomingCheck)) :
    view_queue_update cid g2 (view_queue_update cid g1 cvs) =
      view_queue_update cid (fun l => g2 (g1 l)) cvs := by
  unfold view_queue_update
  rw [List.map_map]
  apply List.map_congr_left
  intro cv _
  simp only [Function.comp]
  split_ifs <;> rfl

theorem view_queue_update_id (cid : Nat)
    (cvs : List (Nat × List NiceCandidate × List NiceCandidate × List IncomingCheck)) :
    view_queue_update cid (fun l => l) cvs = cvs := by
  unfold view_queue_update
  conv_rhs => rw [← List.map_id cvs]
  apply List.map_congr_left
  intro cv _
  split_ifs <;> rfl

theorem icheck_local_candidate_congr (c1 c2 : NiceComponent) (i : IncomingCheck)
    (h : c1.local_candidates = c2.local_candidates) :
    icheck_local_candidate c1 i = icheck_local_candidate c2 i := by
  unfold icheck_local_candidate
  rw [h]

theorem icheck_remote_candidate_congr (c1 c2 : NiceComponent) (l : NiceCandidate)
    (i : IncomingCheck) (h : c1.remote_candidates = c2.remote_candidates) :
    icheck_remote_candidate c1 l i = icheck_remote_candidate c2 l i := by
  unfold icheck_remote_candidate
  rw [h]

theorem foldl_erase_self (q : List IncomingCheck) :
    q.foldl (fun l i => l.erase i) q = [] := by
  induction q with
  | nil => rfl
  | cons i rest ih =>
    simp only [List.foldl_cons, List.erase_cons_head]
    exact ih

theorem nodup_ids_split {α : Type} (f : α → Nat) (pre post : List α) (x : α)
    (h : ((pre ++ x :: post).map f).Nodup) :
    (∀ y ∈ pre, f y ≠ f x) ∧ (∀ y ∈ post, f y ≠ f x) := by
  rw [List.map_append, List.map_cons, List.nodup_append] at h
  obtain ⟨_, h2, h3⟩ := h
  rw [List.nodup_cons] at h2
  constructor
  · intro y hy e
    exact h3 (List.mem_map_of_mem f hy) (by rw [e]; exact List.mem_cons_self _ _)
  · intro y hy e
    exact h2.1 (by rw [← e]; exact List.mem_map_of_mem f hy)

theorem find?_of_nodup_ids
    (pre post : List (Nat × List NiceCandidate × List NiceCandidate × List IncomingCheck))
    (cv : Nat × List NiceCandidate × List NiceCandidate × List IncomingCheck)
    (h : ((pre ++ cv :: post).map (fun x => x.1)).Nodup) :
    (pre ++ cv :: post).find? (fun x => x.1 == cv.1) = some cv := by
  obtain ⟨h1, _⟩ := nodup_ids_split (fun x => x.1) pre post cv h
  rw [List.find?_append]
  have : pre.find? (fun x => x.1 == cv.1) = none := by
    rw [List.find?_eq_none]
    intro y hy
    simpa using h1 y hy
  rw [this]
  simp

theorem view_queue_update_of_nodup_ids (g : List IncomingCheck → List IncomingCheck)
    (pre post : List (Nat × List NiceCandidate × List NiceCandidate × List IncomingCheck))
    (cv : Nat × List NiceCandidate × List NiceCandidate × List IncomingCheck)
    (h : ((pre ++ cv :: post).map (fun x => x.1)).Nodup) :
    view_queue_update cv.1 g (pre ++ cv :: post) =
      pre ++ (cv.1, cv.2.1, cv.2.2.1, g cv.2.2.2) :: post := by
  obtain ⟨h1, h2⟩ := nodup_ids_split (fun x => x.1) pre post cv h
  have hid : ∀ l : List (Nat × List NiceCandidate × List NiceCandidate × List IncomingCheck),
      (∀ y ∈ l, y.1 ≠ cv.1) →
      l.map (fun x => if x.1 = cv.1 then (x.1, x.2.1, x.2.2.1, g x.2.2.2) else x) = l := by
    intro l hl
    conv_rhs => rw [← List.map_id l]
    apply List.map_congr_left
    intro y hy
    rw [if_neg (hl y hy)]
    rfl
  unfold view_queue_update
  rw [List.map_append, List.map_cons, hid pre h1, hid post h2]
  simp only [if_true]

theorem conn_check_remote_credentials_set_loop_no_ufrag (E : Ext) (sid : Nat)
    (np : Nat → Nat → Nat) (a : NiceAgent) (s : NiceStream)
    (hs : agent_find_stream a sid = some s) (hu : s.remote_ufrag = "") (ids : List Nat) :
    ∀ j0, conn_check_remote_credentials_set_loop E sid np ids j0 a = some a := by
  induction ids with
  | nil => intro j0; rfl
  | cons cid rest ih =>
    intro j0
    have h1 : conn_check_remote_candidates_set E a sid cid (np j0) = some a := by
      unfold conn_check_remote_candidates_set agent_find_component
      rw [hs]
      simp only
      split
      · rfl
      · rename_i s1 c1 heq
        split at heq
        · exact absurd heq (by simp)
        · simp only [Option.some.injEq, Prod.mk.injEq] at heq
          rw [← heq.1, hu]
          simp
    unfold conn_check_remote_credentials_set_loop
    rw [h1]
    exact ih (j0 + 1)

/-! ## The global idle unfreeze, position by position -/

theorem unfreeze_first_frozen_cons (pre : List CandidateCheckPair) (p : CandidateCheckPair)
    (ps : List CandidateCheckPair) :
    unfreeze_first_frozen pre (p :: ps) =
      (if first_frozen_of_foundation pre p then { p with state := NICE_CHECK_WAITING }
        else p) :: unfreeze_first_frozen (pre ++ [p]) ps := rfl

theorem unfreeze_first_frozen_append (l1 : List CandidateCheckPair) :
    ∀ (pre l2 : List CandidateCheckPair),
      unfreeze_first_frozen pre (l1 ++ l2) =
        unfreeze_first_frozen pre l1 ++ unfreeze_first_frozen (pre ++ l1) l2 := by
  induction l1 with
  | nil => intro pre l2; simp [unfreeze_first_frozen]
  | cons p ps ih =>
    intro pre l2
    rw [List.cons_append, unfreeze_first_frozen_cons, unfreeze_first_frozen_cons, ih,
      List.cons_append, List.append_assoc, List.singleton_append]

theorem unfreeze_first_frozen_length (l : List CandidateCheckPair) :
    ∀ pre, (unfreeze_first_frozen pre l).length = l.length := by
  induction l with
  | nil => intro pre; rfl
  | cons p ps ih => intro pre; simp [unfreeze_first_frozen, ih]

theorem unfreeze_first_frozen_getElem? (l : List CandidateCheckPair) :
    ∀ (pre : List CandidateCheckPair) (i : Nat),
      (unfreeze_first_frozen pre l)[i]? = l[i]?.map (fun p =>
        if first_frozen_of_foundation (pre ++ l.take i) p then
          { p with state := NICE_CHECK_WAITING } else p) := by
  induction l with
  | nil => intro pre i; simp [unfreeze_first_frozen]
  | cons p ps ih =>
    intro pre i
    cases i with
    | zero => simp [unfreeze_first_frozen]
    | succ i =>
      rw [unfreeze_first_frozen_cons, List.getElem?_cons_succ, List.getElem?_cons_succ,
        List.take_succ_cons, ih, List.append_assoc, List.singleton_append]

theorem priv_conn_check_unfreeze_next_list_spec (l : List CandidateCheckPair) :
    ∀ (fl : List String) (pre : List CandidateCheckPair),
      (∀ f, f ∈ fl ↔ ∃ q ∈ pre, q.state = NICE_CHECK_FROZEN ∧ q.foundation = f) →
      (priv_conn_check_unfreeze_next_list l fl).1 = unfreeze_first_frozen pre l ∧
      (∀ f, f ∈ (priv_conn_check_unfreeze_next_list l fl).2 ↔
        ∃ q ∈ pre ++ l, q.state = NICE_CHECK_FROZEN ∧ q.foundation = f) := by
  induction l with
  | nil =>
    intro fl pre hinv
    simp only [priv_conn_check_unfreeze_next_list, unfreeze_first_frozen, List.append_nil]
    exact ⟨trivial, hinv⟩
  | cons p ps ih =>
    intro fl pre hinv
    have hany : (fl.any (fun f => f == p.foundation) = true) ↔
        ∃ q ∈ pre, q.state = NICE_CHECK_FROZEN ∧ q.foundation = p.foundation := by
      rw [List.any_eq_true]
      constructor
      · rintro ⟨f, hf, he⟩
        simp only [beq_iff_eq] at he
        rw [← he]
        exact (hinv f).1 hf
      · intro h
        exact ⟨p.foundation, (hinv _).2 h, by simp⟩
    have happ : ∀ l2 : List CandidateCheckPair, pre ++ p :: l2 = (pre ++ [p]) ++ l2 := by
      intro l2; simp
    unfold priv_conn_check_unfreeze_next_list
    rw [unfreeze_first_frozen_cons]
    by_cases h1 : fl.any (fun f => f == p.foundation) = true
    · rw [if_pos h1]
      have hnot : ¬ first_frozen_of_foundation pre p := by
        rintro ⟨_, hq⟩
        obtain ⟨q, hq1, hq2, hq3⟩ := hany.1 h1
        exact hq q hq1 hq2 hq3
      rw [if_neg hnot]
      have hinv2 : ∀ f, f ∈ fl ↔
          ∃ q ∈ pre ++ [p], q.state = NICE_CHECK_FROZEN ∧ q.foundation = f := by
        intro f
        rw [hinv f]
        constructor
        · rintro ⟨q, hq, h⟩
          exact ⟨q, List.mem_append_left _ hq, h⟩
        · rintro ⟨q, hq, h⟩
          rcases List.mem_append.1 hq with hq | hq
          · exact ⟨q, hq, h⟩
          · rw [List.mem_singleton] at hq
            subst hq
            obtain ⟨q2, hq1, hq2, hq3⟩ := hany.1 h1
            exact ⟨q2, hq1, hq2, hq3.trans h.2⟩
      obtain ⟨k1, k2⟩ := ih fl (pre ++ [p]) hinv2
      simp only
      refine ⟨by rw [k1], fun f => ?_⟩
      rw [k2 f, List.append_assoc, List.singleton_append]
    · rw [if_neg h1]
      by_cases h2 : p.state = NICE_CHECK_FROZEN
      · rw [if_pos h2]
        have hfirst : first_frozen_of_foundation pre p := by
          refine ⟨h2, fun q hq hs he => h1 (hany.2 ⟨q, hq, hs, he⟩)⟩
        rw [if_pos hfirst]
        have hinv2 : ∀ f, f ∈ g_slist_prepend fl p.foundation ↔
            ∃ q ∈ pre ++ [p], q.state = NICE_CHECK_FROZEN ∧ q.foundation = f := by
          intro f
          simp only [g_slist_prepend, List.mem_cons, hinv f]
          constructor
          · rintro (h | ⟨q, hq, h⟩)
            · exact ⟨p, by simp, h2, h.symm⟩
            · exact ⟨q, List.mem_append_left _ hq, h⟩
          · rintro ⟨q, hq, h⟩
            rcases List.mem_append.1 hq with hq | hq
            · exact Or.inr ⟨q, hq, h⟩
            · rw [List.mem_singleton] at hq
              subst hq
              exact Or.inl h.2.symm
        obtain ⟨k1, k2⟩ := ih _ (pre ++ [p]) hinv2
        simp only
        refine ⟨by rw [k1], fun f => ?_⟩
        rw [k2 f, List.append_assoc, List.singleton_append]
      · rw [if_neg h2]
        have hnot : ¬ first_frozen_of_foundation pre p := fun h => h2 h.1
        rw [if_neg hnot]
        have hinv2 : ∀ f, f ∈ fl ↔
            ∃ q ∈ pre ++ [p], q.state = NICE_CHECK_FROZEN ∧ q.foundation = f := by
          intro f
          rw [hinv f]
          constructor
          · rintro ⟨q, hq, h⟩
            exact ⟨q, List.mem_append_left _ hq, h⟩
          · rintro ⟨q, hq, h⟩
            rcases List.mem_append.1 hq with hq | hq
            · exact ⟨q, hq, h⟩
            · rw [List.mem_singleton] at hq
              subst hq
              exact absurd h.1 h2
        obtain ⟨k1, k2⟩ := ih fl (pre ++ [p]) hinv2
        simp only
        refine ⟨by rw [k1], fun f => ?_⟩
        rw [k2 f, List.append_assoc, List.singleton_append]

theorem priv_conn_check_unfreeze_next_streams_spec (ss : List NiceStream) :
    ∀ (fl : List String) (pre : List CandidateCheckPair),
      (∀ f, f ∈ fl ↔ ∃ q ∈ pre, q.state = NICE_CHECK_FROZEN ∧ q.foundation = f) →
      (priv_conn_check_unfreeze_next_streams ss fl).1.flatMap (fun s => s.conncheck_list) =
        unfreeze_first_frozen pre (ss.flatMap (fun s => s.conncheck_list)) ∧
      (priv_conn_check_unfreeze_next_streams ss fl).1.map
          (fun s => ({ s with conncheck_list := [] } : NiceStream)) =
        ss.map (fun s => ({ s with conncheck_list := [] } : NiceStream)) ∧
      (priv_conn_check_unfreeze_next_streams ss fl).1.map
          (fun s => s.conncheck_list.length) =
        ss.map (fun s => s.conncheck_list.length) ∧
      (∀ f, f ∈ (priv_conn_check_unfreeze_next_streams ss fl).2 ↔
        ∃ q ∈ pre ++ ss.flatMap (fun s => s.conncheck_list),
          q.state = NICE_CHECK_FROZEN ∧ q.foundation = f) := by
  induction ss with
  | nil =>
    intro fl pre hinv
    simp only [priv_conn_check_unfreeze_next_streams, List.flatMap_nil, unfreeze_first_frozen,
      List.map_nil, List.append_nil, true_and]
    exact hinv
  | cons s ss ih =>
    intro fl pre hinv
    obtain ⟨k1, k2⟩ := priv_conn_check_unfreeze_next_list_spec s.conncheck_list fl pre hinv
    obtain ⟨j1, j2, j3, j4⟩ := ih _ (pre ++ s.conncheck_list) k2
    unfold priv_conn_check_unfreeze_next_streams
    simp only [List.flatMap_cons, List.map_cons]
    refine ⟨?_, ?_, ?_, ?_⟩
    · rw [j1, k1, unfreeze_first_frozen_append]
    · rw [j2]
    · rw [j3, k1, unfreeze_first_frozen_length]
    · intro f
      rw [j4 f, List.append_assoc]

/-- C30: `priv_conn_check_unfreeze_next` over the traversal of all the pairs (streams in agent
order, pairs in list order).  When a pair is Waiting it returns TRUE and the agent as it is.
When none is, the streams keep everything but the states of their pairs, the pair at every
position goes to Waiting if it is Frozen and no Frozen pair before it in the traversal has its
foundation and is as it was otherwise, and TRUE is returned if and only if some pair is
Frozen, that is, if and only if a pair was unfrozen. -/
theorem global_idle_unfreeze_first_frozen_per_foundation (agent : NiceAgent) :
    ((∃ p ∈ agent.allPairs, p.state = NICE_CHECK_WAITING) →
      priv_conn_check_unfreeze_next agent = (true, agent)) ∧
    ((∀ p ∈ agent.allPairs, p.state ≠ NICE_CHECK_WAITING) →
      (priv_conn_check_unfreeze_next agent).2 =
        { agent with streams := (priv_conn_check_unfreeze_next agent).2.streams } ∧
      (priv_conn_check_unfreeze_next agent).2.streams.map
          (fun s => ({ s with conncheck_list := [] } : NiceStream)) =
        agent.streams.map (fun s => ({ s with conncheck_list := [] } : NiceStream)) ∧
      (priv_conn_check_unfreeze_next agent).2.streams.map
          (fun s => s.conncheck_list.length) =
        agent.streams.map (fun s => s.conncheck_list.length) ∧
      (∀ (i : Nat) (p : CandidateCheckPair), agent.allPairs[i]? = some p →
        (priv_conn_check_unfreeze_next agent).2.allPairs[i]? =
          some (if p.state = NICE_CHECK_FROZEN ∧
              ∀ q ∈ agent.allPairs.take i, q.state = NICE_CHECK_FROZEN →
                q.foundation ≠ p.foundation
            then { p with state := NICE_CHECK_WAITING } else p)) ∧
      ((priv_conn_check_unfreeze_next agent).1 = true ↔
        ∃ p ∈ agent.allPairs, p.state = NICE_CHECK_FROZEN) ∧
      ((priv_conn_check_unfreeze_next agent).1 = true ↔
        (priv_conn_check_unfreeze_next agent).2.allPairs ≠ agent.allPairs)) := by
  constructor
  · rintro ⟨p, hp, hw⟩
    unfold priv_conn_check_unfreeze_next
    rw [if_pos]
    rw [List.any_eq_true]
    exact ⟨p, hp, by simp [hw]⟩
  · intro hnw
    have hany : ¬ agent.allPairs.any (fun p => p.state == NICE_CHECK_WAITING) = true := by
      rw [List.any_eq_true]
      rintro ⟨p, hp, hw⟩
      simp only [beq_iff_eq] at hw
      exact hnw p hp hw
    have hdef : priv_conn_check_unfreeze_next agent =
        (decide ((priv_conn_check_unfreeze_next_streams agent.streams []).2 ≠ []),
          { agent with
            streams := (priv_conn_check_unfreeze_next_streams agent.streams []).1 }) := by
      unfold priv_conn_check_unfreeze_next
      rw [if_neg hany]
    obtain ⟨k1, k2, k3, k4⟩ := priv_conn_check_unfreeze_next_streams_spec agent.streams [] []
      (by intro f; simp)
    have hall : (priv_conn_check_unfreeze_next agent).2.allPairs =
        unfreeze_first_frozen [] agent.allPairs := by
      rw [hdef]
      exact k1
    have hflag : (priv_conn_check_unfreeze_next agent).1 = true ↔
        ∃ p ∈ agent.allPairs, p.state = NICE_CHECK_FROZEN := by
      rw [hdef]
      simp only [decide_eq_true_eq, ne_eq]
      constructor
      · intro hne
        obtain ⟨f, hf⟩ := List.exists_mem_of_ne_nil _ hne
        obtain ⟨q, hq, hs, _⟩ := (k4 f).1 hf
        exact ⟨q, by simpa [NiceAgent.allPairs] using hq, hs⟩
      · rintro ⟨p, hp, hs⟩ he
        have := (k4 p.foundation).2 ⟨p, by simpa [NiceAgent.allPairs] using hp, hs, rfl⟩
        rw [he] at this
        exact absurd this (List.not_mem_nil _)
    have hidx : ∀ (i : Nat) (p : CandidateCheckPair), agent.allPairs[i]? = some p →
        (priv_conn_check_unfreeze_next agent).2.allPairs[i]? =
          some (if p.state = NICE_CHECK_FROZEN ∧
              ∀ q ∈ agent.allPairs.take i, q.state = NICE_CHECK_FROZEN →
                q.foundation ≠ p.foundation
            then { p with state := NICE_CHECK_WAITING } else p) := by
      intro i p hp
      rw [hall, unfreeze_first_frozen_getElem?, hp]
      simp only [Option.map_some', List.nil_append]
      rfl
    refine ⟨by rw [hdef], by rw [hdef]; exact k2, by rw [hdef]; exact k3, hidx, hflag, ?_⟩
    rw [hflag]
    constructor
    · rintro ⟨p, hp, hs⟩ he
      -- the first Frozen pair changes
      obtain ⟨i, hi, hget⟩ := List.mem_iff_getElem.1 hp
      have hex : ∃ j, ∃ q : CandidateCheckPair,
          agent.allPairs[j]? = some q ∧ q.state = NICE_CHECK_FROZEN :=
        ⟨i, p, by rw [List.getElem?_eq_getElem hi, hget], hs⟩
      classical
      let j := Nat.find hex
      obtain ⟨q, hq, hqs⟩ := Nat.find_spec hex
      have hmin : ∀ r ∈ agent.allPairs.take j, r.state ≠ NICE_CHECK_FROZEN := by
        intro r hr hrs
        obtain ⟨m, hm, hgm⟩ := List.mem_iff_getElem.1 hr
        rw [List.length_take] at hm
        have hmj : m < j := lt_of_lt_of_le hm (min_le_left _ _)
        refine Nat.find_min hex hmj ⟨r, ?_, hrs⟩
        rw [List.getElem_take] at hgm
        rw [List.getElem?_eq_getElem (lt_of_lt_of_le hm (min_le_right _ _)), hgm]
      have h1 := hidx j q hq
      rw [he, hq, if_pos ⟨hqs, fun r hr hrs => absurd hrs (hmin r hr)⟩] at h1
      simp only [Option.some.injEq] at h1
      have h2 := congrArg CandidateCheckPair.state h1
      simp only [hqs] at h2
      exact absurd h2 (by decide)
    · intro hne
      by_contra hno
      apply hne
      apply List.ext_getElem?
      intro i
      cases hp : agent.allPairs[i]? with
      | none =>
        rw [hall, unfreeze_first_frozen_getElem?, hp]
        rfl
      | some p =>
        rw [hidx i p hp, if_neg]
        rintro ⟨hs, _⟩
        exact hno ⟨p, List.mem_iff_getElem?.2 ⟨i, hp⟩, hs⟩

/-- C30 (witness): with the Failed pair 10 and the Frozen pairs 11 and 13 of one foundation and
the Frozen pair 12 of another, pairs 11 and 12 go to Waiting, pair 13 stays Frozen and TRUE is
returned; with a Waiting pair in the list nothing changes. -/
theorem global_idle_unfreeze_first_frozen_per_foundation_witness :
    ex_list_frozen.map (fun q => (q.ptr, q.foundation, q.state)) =
      [(10, "1:3", NICE_CHECK_FAILED), (11, "1:3", NICE_CHECK_FROZEN),
       (12, "1:2", NICE_CHECK_FROZEN), (13, "1:3", NICE_CHECK_FROZEN)] ∧
    (priv_conn_check_unfreeze_next
      (ex_agent NICE_COMPATIBILITY_RFC5245 ex_list_frozen [])).2.allPairs[1]? =
      some { ex_pair 11 ex_remote2 NICE_CHECK_FROZEN 9115005265987371519 with
        state := NICE_CHECK_WAITING } ∧
    (priv_conn_check_unfreeze_next
      (ex_agent NICE_COMPATIBILITY_RFC5245 ex_list_frozen [])).2.allPairs[3]? =
      some (ex_pair 13 ex_remote2 NICE_CHECK_FROZEN 7241540810645045758) ∧
    (priv_conn_check_unfreeze_next
      (ex_agent NICE_COMPATIBILITY_RFC5245 ex_list_frozen [])).1 = true ∧
    (priv_conn_check_unfreeze_next
      (ex_agent NICE_COMPATIBILITY_RFC5245 ex_list_frozen [])).2.allPairs.map
        (fun q => (q.ptr, q.state)) =
      [(10, NICE_CHECK_FAILED), (11, NICE_CHECK_WAITING), (12, NICE_CHECK_WAITING),
       (13, NICE_CHECK_FROZEN)] ∧
    priv_conn_check_unfreeze_next (ex_agent NICE_COMPATIBILITY_RFC5245 ex_list []) =
      (true, ex_agent NICE_COMPATIBILITY_RFC5245 ex_list []) :=
  ⟨by decide,
   ((global_idle_unfreeze_first_frozen_per_foundation
      (ex_agent NICE_COMPATIBILITY_RFC5245 ex_list_frozen [])).2 (by decide)).2.2.2.1 1
      (ex_pair 11 ex_remote2 NICE_CHECK_FROZEN 9115005265987371519) (by decide) |>.trans
      (by decide),
   ((global_idle_unfreeze_first_frozen_per_foundation
      (ex_agent NICE_COMPATIBILITY_RFC5245 ex_list_frozen [])).2 (by decide)).2.2.2.1 3
      (ex_pair 13 ex_remote2 NICE_CHECK_FROZEN 7241540810645045758) (by decide) |>.trans
      (by decide),
   (((global_idle_unfreeze_first_frozen_per_foundation
      (ex_agent NICE_COMPATIBILITY_RFC5245 ex_list_frozen [])).2
      (by decide)).2.2.2.2.1).2 (by decide),
   by decide,
   (global_idle_unfreeze_first_frozen_per_foundation
      (ex_agent NICE_COMPATIBILITY_RFC5245 ex_list [])).1 (by decide)⟩

/-! ## Forming pairs -/

theorem priv_limit_conn_check_list_size_loop_keeps (max_conn_checks pair : Nat)
    (l : List CandidateCheckPair) :
    ∀ (valid : Nat) (queue : List Nat),
      (priv_limit_conn_check_list_size_loop max_conn_checks pair l valid queue).2.2 = false →
      ∀ q ∈ l, q.ptr = pair →
        q ∈ (priv_limit_conn_check_list_size_loop max_conn_checks pair l valid queue).1 := by
  induction l with
  | nil => intro _ _ _ q hq; exact absurd hq (List.not_mem_nil _)
  | cons p ps ih =>
    intro valid queue hdel q hq hptr
    unfold priv_limit_conn_check_list_size_loop at hdel ⊢
    split_ifs at hdel ⊢ with hc
    · simp only [Bool.or_eq_false_iff, decide_eq_false_iff_not] at hdel
      rcases List.mem_cons.1 hq with h | h
      · rw [h] at hptr
        exact absurd hptr hdel.1
      · exact ih _ _ hdel.2 q h hptr
    · simp only at hdel ⊢
      rcases List.mem_cons.1 hq with h | h
      · rw [h]; exact List.mem_cons_self _ _
      · exact List.mem_cons_of_mem _ (ih _ _ hdel q h hptr)

theorem priv_limit_conn_check_list_size_keeps (agent : NiceAgent) (sid pair : Nat)
    (h : (priv_limit_conn_check_list_size agent sid pair).1 = false) :
    ∀ q ∈ stream_pairs agent sid, q.ptr = pair →
      q ∈ stream_pairs (priv_limit_conn_check_list_size agent sid pair).2 sid := by
  intro q hq hptr
  unfold priv_limit_conn_check_list_size at h ⊢
  cases hs : agent_find_stream agent sid with
  | none => exact hq
  | some stream =>
    rw [hs] at h
    simp only at h ⊢
    rw [stream_pairs_queue]
    have := stream_pairs_updateStream_list agent sid sid (fun _ =>
      (priv_limit_conn_check_list_size_loop agent.max_conn_checks pair stream.conncheck_list 0
        agent.triggered_check_queue).1)
    rw [this, if_pos rfl, hs]
    simp only
    unfold stream_pairs at hq
    rw [hs] at hq
    exact priv_limit_conn_check_list_size_loop_keeps _ _ _ _ _ h q hq hptr

theorem priv_add_new_check_pair_mem (E : Ext) (agent : NiceAgent) (sid : Nat)
    (component : NiceComponent) (local_ remote : NiceCandidate) (initial_state : NiceCheckState)
    (new_pair : Nat) (stream : NiceStream) (hs : agent_find_stream agent sid = some stream)
    (p : Nat)
    (h : (priv_add_new_check_pair E agent sid component local_ remote initial_state
      new_pair).1 = some p) :
    ∃ q ∈ stream_pairs (priv_add_new_check_pair E agent sid component local_ remote
        initial_state new_pair).2 sid,
      q.ptr = new_pair ∧ q.local_ = local_ ∧ q.remote = remote ∧
      q.component_id = component.id ∧
      (initial_state ≠ NICE_CHECK_FROZEN → q.state = initial_state) ∧
      (q.state = initial_state ∨ q.state = NICE_CHECK_WAITING) := by
  unfold priv_add_new_check_pair at h ⊢
  cases hins : priv_add_new_check_pair_insert E agent sid component local_ remote
      initial_state new_pair with
  | none => rw [hins] at h; exact absurd h (by simp)
  | some agent1 =>
    rw [hins] at h
    simp only at h ⊢
    unfold priv_add_new_check_pair_insert at hins
    simp only at hins
    split_ifs at hins
    simp only [Option.some.injEq] at hins
    have k1 : ∃ q ∈ stream_pairs agent1 sid,
        q.ptr = new_pair ∧ q.local_ = local_ ∧ q.remote = remote ∧
        q.component_id = component.id ∧ q.state = initial_state := by
      refine ⟨priv_add_new_check_pair_record E agent sid component local_ remote initial_state
        new_pair, ?_, rfl, rfl, rfl, rfl, rfl⟩
      rw [← hins, stream_pairs_updateStream_list agent sid sid
        (fun l => g_slist_insert_sorted l (priv_add_new_check_pair_record E agent sid
          component local_ remote initial_state new_pair) conn_check_compare), if_pos rfl, hs]
      simp only
      rw [mem_g_slist_insert_sorted]
      exact Or.inl rfl
    have k2 : ∃ q ∈ stream_pairs (if initial_state = NICE_CHECK_FROZEN then
          priv_conn_check_unfreeze_maybe E agent1
            (priv_add_new_check_pair_record E agent sid component local_ remote
              initial_state new_pair)
        else agent1) sid,
        q.ptr = new_pair ∧ q.local_ = local_ ∧ q.remote = remote ∧
        q.component_id = component.id ∧
        (initial_state ≠ NICE_CHECK_FROZEN → q.state = initial_state) ∧
        (q.state = initial_state ∨ q.state = NICE_CHECK_WAITING) := by
      obtain ⟨q, hq, h1, h2, h3, h4, h5⟩ := k1
      split_ifs with hf
      · unfold priv_conn_check_unfreeze_maybe SET_PAIR_STATE
        split_ifs
        · refine ⟨{ q with state := NICE_CHECK_WAITING }, ?_, h1, h2, h3, h4,
            fun hne => absurd hf hne, Or.inr rfl⟩
          rw [stream_pairs_updatePair]
          unfold updatePairIn
          rw [List.mem_map]
          refine ⟨q, hq, ?_⟩
          show (if q.ptr = new_pair then _ else q) = _
          rw [if_pos h1]
        · exact ⟨q, hq, h1, h2, h3, h4, fun _ => h5, Or.inl h5⟩
      · exact ⟨q, hq, h1, h2, h3, h4, fun _ => h5, Or.inl h5⟩
    generalize (if initial_state = NICE_CHECK_FROZEN then
        priv_conn_check_unfreeze_maybe E agent1
          (priv_add_new_check_pair_record E agent sid component local_ remote
            initial_state new_pair)
      else agent1) = agent2 at k2 h ⊢
    obtain ⟨q, hq, hprops⟩ := k2
    by_cases hc : agent.compatibility = NICE_COMPATIBILITY_RFC5245
    · rw [if_pos hc] at h ⊢
      by_cases hd : (priv_limit_conn_check_list_size agent2 sid new_pair).1 = true
      · rw [if_pos hd] at h
        exact absurd h (by simp)
      · rw [if_neg hd]
        refine ⟨q, priv_limit_conn_check_list_size_keeps agent2 sid new_pair ?_ q hq hprops.1,
          hprops⟩
        simpa using hd
    · rw [if_neg hc]
      exact ⟨q, hq, hprops⟩

theorem priv_conn_check_add_for_candidate_pair_matched_mem (E : Ext) (agent : NiceAgent)
    (sid : Nat) (component : NiceComponent) (local_ remote : NiceCandidate)
    (initial_state : NiceCheckState) (new_pair : Nat) (stream : NiceStream)
    (hs : agent_find_stream agent sid = some stream) (p : Nat)
    (h : (priv_conn_check_add_for_candidate_pair_matched E agent sid component local_ remote
      initial_state new_pair).1 = some p) :
    p = new_pair ∧
    ∃ q ∈ stream_pairs (priv_conn_check_add_for_candidate_pair_matched E agent sid component
        local_ remote initial_state new_pair).2 sid,
      q.ptr = new_pair ∧ q.local_ = local_ ∧ q.remote = remote ∧
      q.component_id = component.id ∧
      (initial_state ≠ NICE_CHECK_FROZEN → q.state = initial_state) ∧
      (q.state = initial_state ∨ q.state = NICE_CHECK_WAITING) := by
  have km := priv_add_new_check_pair_mem E agent sid component local_ remote initial_state
    new_pair stream hs
  have kr := priv_add_new_check_pair_result E agent sid component local_ remote initial_state
    new_pair
  unfold priv_conn_check_add_for_candidate_pair_matched at h ⊢
  simp only at h ⊢
  cases hpair : (priv_add_new_check_pair E agent sid component local_ remote initial_state
      new_pair).1 with
  | none => rw [hpair] at h; exact absurd h (by simp)
  | some pair =>
    rw [hpair] at h
    simp only at h ⊢
    have hp : p = new_pair := by
      split_ifs at h
      all_goals
        simp only [Option.some.injEq] at h
        rw [← h]
        exact kr pair hpair
    refine ⟨hp, ?_⟩
    split_ifs
    all_goals
      simp only
      rw [stream_pairs_signal]
      exact km pair hpair

/-- C21 (amended): `conn_check_match_transport` is an involution.  The transport test of
`conn_check_add_for_candidate_pair`, with a local candidate that is not TCP-passive, holds
exactly for udp with udp, local tcp-active with remote tcp-passive, and tcp-so with tcp-so.
When the test fails, or the address families differ, or the local candidate is
server-reflexive or peer-reflexive in the RFC 5245, WLM2009 and OC2007R2 compatibility modes, the
function returns FALSE and the agent as it is.  Otherwise it returns whether
`priv_conn_check_add_for_candidate_pair_matched` made a pair in state Frozen, and when it
returns TRUE a pair of the two candidates and of the component is in the conncheck list of the
stream, at the address allocated. -/
theorem conn_check_add_for_candidate_pair_transports (E : Ext) (agent : NiceAgent)
    (stream_id : Nat) (component : NiceComponent) (local_ remote : NiceCandidate)
    (new_pair : Nat) :
    (∀ t, conn_check_match_transport (conn_check_match_transport t) = t) ∧
    ((local_.transport = conn_check_match_transport remote.transport ∧
        local_.transport ≠ NICE_CANDIDATE_TRANSPORT_TCP_PASSIVE) ↔
      ((local_.transport = NICE_CANDIDATE_TRANSPORT_UDP ∧
          remote.transport = NICE_CANDIDATE_TRANSPORT_UDP) ∨
       (local_.transport = NICE_CANDIDATE_TRANSPORT_TCP_ACTIVE ∧
          remote.transport = NICE_CANDIDATE_TRANSPORT_TCP_PASSIVE) ∨
       (local_.transport = NICE_CANDIDATE_TRANSPORT_TCP_SO ∧
          remote.transport = NICE_CANDIDATE_TRANSPORT_TCP_SO))) ∧
    (¬ (local_.transport = conn_check_match_transport remote.transport ∧
        local_.transport ≠ NICE_CANDIDATE_TRANSPORT_TCP_PASSIVE ∧
        E.sa_family local_.addr = E.sa_family remote.addr) →
      conn_check_add_for_candidate_pair E agent stream_id component local_ remote new_pair =
        (false, agent)) ∧
    ((agent.compatibility = NICE_COMPATIBILITY_RFC5245 ∨
        agent.compatibility = NICE_COMPATIBILITY_WLM2009 ∨
        agent.compatibility = NICE_COMPATIBILITY_OC2007R2) →
      (local_.type = NICE_CANDIDATE_TYPE_SERVER_REFLEXIVE ∨
        local_.type = NICE_CANDIDATE_TYPE_PEER_REFLEXIVE) →
      conn_check_add_for_candidate_pair E agent stream_id component local_ remote new_pair =
        (false, agent)) ∧
    (local_.transport = conn_check_match_transport remote.transport →
      local_.transport ≠ NICE_CANDIDATE_TRANSPORT_TCP_PASSIVE →
      E.sa_family local_.addr = E.sa_family remote.addr →
      ¬ ((agent.compatibility = NICE_COMPATIBILITY_RFC5245 ∨
          agent.compatibility = NICE_COMPATIBILITY_WLM2009 ∨
          agent.compatibility = NICE_COMPATIBILITY_OC2007R2) ∧
        (local_.type = NICE_CANDIDATE_TYPE_SERVER_REFLEXIVE ∨
          local_.type = NICE_CANDIDATE_TYPE_PEER_REFLEXIVE)) →
      conn_check_add_for_candidate_pair E agent stream_id component local_ remote new_pair =
        ((priv_conn_check_add_for_candidate_pair_matched E agent stream_id component local_
            remote NICE_CHECK_FROZEN new_pair).1.isSome,
          (priv_conn_check_add_for_candidate_pair_matched E agent stream_id component local_
            remote NICE_CHECK_FROZEN new_pair).2)) ∧
    (∀ stream, agent_find_stream agent stream_id = some stream →
      (conn_check_add_for_candidate_pair E agent stream_id component local_ remote
        new_pair).1 = true →
      ∃ q ∈ stream_pairs (conn_check_add_for_candidate_pair E agent stream_id component local_
          remote new_pair).2 stream_id,
        q.ptr = new_pair ∧ q.local_ = local_ ∧ q.remote = remote ∧
        q.component_id = component.id ∧
        (q.state = NICE_CHECK_FROZEN ∨ q.state = NICE_CHECK_WAITING)) := by
  refine ⟨?_, ?_, ?_, ?_, ?_, ?_⟩
  · intro t
    cases t <;> rfl
  · cases hl : local_.transport <;> cases hr : remote.transport <;>
      simp [conn_check_match_transport]
  · intro hn
    unfold conn_check_add_for_candidate_pair
    split_ifs with h1 h2 h3
    · rfl
    · rfl
    · exact absurd ⟨h3.1, h2, h3.2⟩ hn
    · rfl
  · intro hc ht
    unfold conn_check_add_for_candidate_pair
    rw [if_pos ⟨hc, ht⟩]
  · intro h1 h2 h3 h4
    unfold conn_check_add_for_candidate_pair
    rw [if_neg h4, if_neg h2, if_pos ⟨h1, h3⟩]
  · intro stream hs hret
    unfold conn_check_add_for_candidate_pair at hret ⊢
    split_ifs at hret ⊢
    simp only at hret ⊢
    obtain ⟨p, hp⟩ := Option.isSome_iff_exists.1 hret
    obtain ⟨_, q, hq, h1, h2, h3, h4, _, h6⟩ :=
      priv_conn_check_add_for_candidate_pair_matched_mem E agent stream_id component local_
        remote NICE_CHECK_FROZEN new_pair stream hs p hp
    exact ⟨q, hq, h1, h2, h3, h4, h6⟩

/-- C21 (witness): the example host candidates over udp, of one address family, for a list
that holds one other pair: the function returns TRUE and the new pair 30 is in the list. -/
theorem conn_check_add_for_candidate_pair_transports_witness :
    conn_check_add_for_candidate_pair ext0
      (ex_agent NICE_COMPATIBILITY_RFC5245 [ex_pair 12 ex_remote NICE_CHECK_FROZEN
        7241540810645045759] []) 1 ex_component ex_local ex_remote2 30 =
      ((priv_conn_check_add_for_candidate_pair_matched ext0
        (ex_agent NICE_COMPATIBILITY_RFC5245 [ex_pair 12 ex_remote NICE_CHECK_FROZEN
          7241540810645045759] []) 1 ex_component ex_local ex_remote2 NICE_CHECK_FROZEN
          30).1.isSome,
       (priv_conn_check_add_for_candidate_pair_matched ext0
        (ex_agent NICE_COMPATIBILITY_RFC5245 [ex_pair 12 ex_remote NICE_CHECK_FROZEN
          7241540810645045759] []) 1 ex_component ex_local ex_remote2 NICE_CHECK_FROZEN
          30).2) ∧
    (conn_check_add_for_candidate_pair ext0
      (ex_agent NICE_COMPATIBILITY_RFC5245 [ex_pair 12 ex_remote NICE_CHECK_FROZEN
        7241540810645045759] []) 1 ex_component ex_local ex_remote2 30).1 = true ∧
    (∃ q ∈ stream_pairs (conn_check_add_for_candidate_pair ext0
        (ex_agent NICE_COMPATIBILITY_RFC5245 [ex_pair 12 ex_remote NICE_CHECK_FROZEN
          7241540810645045759] []) 1 ex_component ex_local ex_remote2 30).2 1,
      q.ptr = 30 ∧ q.local_ = ex_local ∧ q.remote = ex_remote2 ∧
      q.component_id = ex_component.id ∧
      (q.state = NICE_CHECK_FROZEN ∨ q.state = NICE_CHECK_WAITING)) ∧
    conn_check_add_for_candidate_pair ext0
      (ex_agent NICE_COMPATIBILITY_RFC5245 [ex_pair 12 ex_remote NICE_CHECK_FROZEN
        7241540810645045759] []) 1 ex_component
      { ex_local with transport := NICE_CANDIDATE_TRANSPORT_TCP_SO } ex_remote2 30 =
      (false, ex_agent NICE_COMPATIBILITY_RFC5245 [ex_pair 12 ex_remote NICE_CHECK_FROZEN
        7241540810645045759] []) :=
  ⟨(conn_check_add_for_candidate_pair_transports ext0
      (ex_agent NICE_COMPATIBILITY_RFC5245 [ex_pair 12 ex_remote NICE_CHECK_FROZEN
        7241540810645045759] []) 1 ex_component ex_local ex_remote2 30).2.2.2.2.1
      (by decide) (by decide) (by decide) (by decide),
   by decide,
   (conn_check_add_for_candidate_pair_transports ext0
      (ex_agent NICE_COMPATIBILITY_RFC5245 [ex_pair 12 ex_remote NICE_CHECK_FROZEN
        7241540810645045759] []) 1 ex_component ex_local ex_remote2 30).2.2.2.2.2
      (ex_stream [ex_pair 12 ex_remote NICE_CHECK_FROZEN 7241540810645045759])
      (by decide) (by decide),
   (conn_check_add_for_candidate_pair_transports ext0
      (ex_agent NICE_COMPATIBILITY_RFC5245 [ex_pair 12 ex_remote NICE_CHECK_FROZEN
        7241540810645045759] []) 1 ex_component
      { ex_local with transport := NICE_CANDIDATE_TRANSPORT_TCP_SO } ex_remote2 30).2.2.1
      (by decide)⟩

/-- C21 (counterexample): a TCP-passive local host candidate and a TCP-active remote host
candidate of one address family.  The transports match under `conn_check_match_transport`,
and `conn_check_add_for_candidate_pair` returns FALSE and leaves the agent as it is. -/
theorem tcp_passive_local_candidate_is_not_paired :
    conn_check_match_transport NICE_CANDIDATE_TRANSPORT_TCP_ACTIVE =
      NICE_CANDIDATE_TRANSPORT_TCP_PASSIVE ∧
    ext0.sa_family ex_local.addr = ext0.sa_family ex_remote2.addr ∧
    conn_check_add_for_candidate_pair ext0 (ex_agent NICE_COMPATIBILITY_RFC5245 [] []) 1
      ex_component { ex_local with transport := NICE_CANDIDATE_TRANSPORT_TCP_PASSIVE }
      { ex_remote2 with transport := NICE_CANDIDATE_TRANSPORT_TCP_ACTIVE } 30 =
      (false, ex_agent NICE_COMPATIBILITY_RFC5245 [] []) ∧
    (conn_check_add_for_candidate_pair ext0 (ex_agent NICE_COMPATIBILITY_RFC5245 [] []) 1
      ex_component { ex_local with transport := NICE_CANDIDATE_TRANSPORT_TCP_ACTIVE }
      { ex_remote2 with transport := NICE_CANDIDATE_TRANSPORT_TCP_PASSIVE } 30).1 = true := by
  decide

/-! ## Pairing with `force_relay` -/

theorem force_relay_priv_add_new_check_pair (E : Ext) (agent : NiceAgent) (sid : Nat)
    (component : NiceComponent) (local_ remote : NiceCandidate) (initial_state : NiceCheckState)
    (new_pair : Nat) :
    (priv_add_new_check_pair E agent sid component local_ remote initial_state
      new_pair).2.force_relay = agent.force_relay := by
  unfold priv_add_new_check_pair
  split
  · rfl
  · rename_i agent1 hins
    unfold priv_add_new_check_pair_insert at hins
    simp only at hins
    split_ifs at hins
    simp only [Option.some.injEq] at hins
    have k1 : agent1.force_relay = agent.force_relay := by rw [← hins]; rfl
    have k2 : ∀ pr, (priv_conn_check_unfreeze_maybe E agent1 pr).force_relay =
        agent.force_relay := by
      intro pr
      unfold priv_conn_check_unfreeze_maybe SET_PAIR_STATE
      split_ifs
      · exact k1
      · exact k1
    have k3 : ∀ a y, (priv_limit_conn_check_list_size a sid y).2.force_relay =
        a.force_relay := by
      intro a y
      unfold priv_limit_conn_check_list_size
      split <;> rfl
    simp only
    split_ifs
    all_goals
      simp only [k1, k2, k3]

theorem force_relay_signal (agent : NiceAgent) (sid cid : Nat) (st : NiceComponentState) :
    (agent_signal_component_state_change agent sid cid st).force_relay = agent.force_relay := by
  unfold agent_signal_component_state_change
  split
  · rfl
  · split_ifs <;> rfl

theorem force_relay_conn_check_add_for_candidate_pair (E : Ext) (agent : NiceAgent)
    (sid : Nat) (component : NiceComponent) (local_ remote : NiceCandidate) (new_pair : Nat) :
    (conn_check_add_for_candidate_pair E agent sid component local_ remote
      new_pair).2.force_relay = agent.force_relay := by
  unfold conn_check_add_for_candidate_pair priv_conn_check_add_for_candidate_pair_matched
  split_ifs
  · rfl
  · rfl
  · simp only
    split
    · exact force_relay_priv_add_new_check_pair _ _ _ _ _ _ _ _
    · split_ifs
      all_goals
        simp only [force_relay_signal, force_relay_priv_add_new_check_pair]
  · rfl

/-- The pair `q` has the address and the candidates of a pair of the list. -/
theorem origin_priv_add_new_check_pair (E : Ext) (agent : NiceAgent) (sid : Nat)
    (component : NiceComponent) (local_ remote : NiceCandidate) (initial_state : NiceCheckState)
    (new_pair sid1 : Nat) :
    ∀ q ∈ stream_pairs (priv_add_new_check_pair E agent sid component local_ remote
        initial_state new_pair).2 sid1,
      (∃ q0 ∈ stream_pairs agent sid1,
        q0.ptr = q.ptr ∧ q0.local_ = q.local_ ∧ q0.remote = q.remote) ∨
      (q.ptr = new_pair ∧ q.local_ = local_ ∧ q.remote = remote) := by
  unfold priv_add_new_check_pair
  split
  · intro q hq
    exact Or.inl ⟨q, hq, rfl, rfl, rfl⟩
  · rename_i agent1 hins
    unfold priv_add_new_check_pair_insert at hins
    simp only at hins
    split_ifs at hins
    simp only [Option.some.injEq] at hins
    have k1 : ∀ q ∈ stream_pairs agent1 sid1,
        (∃ q0 ∈ stream_pairs agent sid1,
          q0.ptr = q.ptr ∧ q0.local_ = q.local_ ∧ q0.remote = q.remote) ∨
        (q.ptr = new_pair ∧ q.local_ = local_ ∧ q.remote = remote) := by
      intro q hq
      rw [← hins, stream_pairs_updateStream_list agent sid sid1
        (fun l => g_slist_insert_sorted l (priv_add_new_check_pair_record E agent sid
          component local_ remote initial_state new_pair) conn_check_compare)] at hq
      split_ifs at hq with hs
      · cases hfs : agent_find_stream agent sid1 with
        | none => rw [hfs] at hq; exact absurd hq (List.not_mem_nil _)
        | some s =>
          rw [hfs] at hq
          simp only at hq
          rw [mem_g_slist_insert_sorted] at hq
          rcases hq with h | h
          · right; rw [h]; exact ⟨rfl, rfl, rfl⟩
          · left
            refine ⟨q, ?_, rfl, rfl, rfl⟩
            unfold stream_pairs
            rw [hfs]
            exact h
      · exact Or.inl ⟨q, hq, rfl, rfl, rfl⟩
    have k2 : ∀ q ∈ stream_pairs (if initial_state = NICE_CHECK_FROZEN then
          priv_conn_check_unfreeze_maybe E agent1
            (priv_add_new_check_pair_record E agent sid component local_ remote
              initial_state new_pair)
        else agent1) sid1,
        (∃ q0 ∈ stream_pairs agent sid1,
          q0.ptr = q.ptr ∧ q0.local_ = q.local_ ∧ q0.remote = q.remote) ∨
        (q.ptr = new_pair ∧ q.local_ = local_ ∧ q.remote = remote) := by
      intro q hq
      split_ifs at hq
      · unfold priv_conn_check_unfreeze_maybe SET_PAIR_STATE at hq
        split_ifs at hq
        · rw [stream_pairs_updatePair] at hq
          unfold updatePairIn at hq
          obtain ⟨q1, hq1, rfl⟩ := List.mem_map.1 hq
          have := k1 q1 hq1
          split_ifs
          · exact this
          · exact this
        · exact k1 q hq
      · exact k1 q hq
    simp only
    generalize (if initial_state = NICE_CHECK_FROZEN then
        priv_conn_check_unfreeze_maybe E agent1
          (priv_add_new_check_pair_record E agent sid component local_ remote
            initial_state new_pair)
      else agent1) = agent2 at k2 ⊢
    split_ifs
    all_goals
      intro q hq
      first
        | exact k2 q hq
        | exact k2 q ((stream_pairs_priv_limit_conn_check_list_size agent2 sid new_pair
            sid1).subset hq)

theorem origin_conn_check_add_for_candidate_pair (E : Ext) (agent : NiceAgent) (sid : Nat)
    (component : NiceComponent) (local_ remote : NiceCandidate) (new_pair sid1 : Nat) :
    ∀ q ∈ stream_pairs (conn_check_add_for_candidate_pair E agent sid component local_ remote
        new_pair).2 sid1,
      (∃ q0 ∈ stream_pairs agent sid1,
        q0.ptr = q.ptr ∧ q0.local_ = q.local_ ∧ q0.remote = q.remote) ∨
      (q.ptr = new_pair ∧ q.local_ = local_ ∧ q.remote = remote) := by
  have k := origin_priv_add_new_check_pair E agent sid component local_ remote
    NICE_CHECK_FROZEN new_pair sid1
  unfold conn_check_add_for_candidate_pair priv_conn_check_add_for_candidate_pair_matched
  split_ifs
  · intro q hq; exact Or.inl ⟨q, hq, rfl, rfl, rfl⟩
  · intro q hq; exact Or.inl ⟨q, hq, rfl, rfl, rfl⟩
  · simp only
    split
    · exact k
    · split_ifs
      all_goals
        simp only
        rw [stream_pairs_signal]
        exact k
  · intro q hq; exact Or.inl ⟨q, hq, rfl, rfl, rfl⟩

theorem conn_check_add_for_candidate_loop_relayed (E : Ext) (sid cid : Nat)
    (remote : NiceCandidate) (new_pairs : Nat → Nat) (sid1 : Nat)
    (locals : List NiceCandidate) :
    ∀ (k added : Nat) (agent : NiceAgent), agent.force_relay = true →
      (conn_check_add_for_candidate_loop E sid cid remote new_pairs locals k added agent).1 ≤
        added + (locals.filter (fun c => c.type == NICE_CANDIDATE_TYPE_RELAYED)).length ∧
      ∀ q ∈ stream_pairs (conn_check_add_for_candidate_loop E sid cid remote new_pairs locals k
          added agent).2 sid1,
        (∃ q0 ∈ stream_pairs agent sid1,
          q0.ptr = q.ptr ∧ q0.local_ = q.local_ ∧ q0.remote = q.remote) ∨
        (q.local_ ∈ locals ∧ q.local_.type = NICE_CANDIDATE_TYPE_RELAYED ∧
          q.remote = remote) := by
  induction locals with
  | nil =>
    intro k added agent _
    exact ⟨Nat.le_refl _, fun q hq => Or.inl ⟨q, hq, rfl, rfl, rfl⟩⟩
  | cons c cs ih =>
    intro k added agent hfr
    have hlift : ∀ (k1 added1 : Nat),
        ∀ q ∈ stream_pairs (conn_check_add_for_candidate_loop E sid cid remote new_pairs cs k1
            added1 agent).2 sid1,
          (∃ q0 ∈ stream_pairs agent sid1,
            q0.ptr = q.ptr ∧ q0.local_ = q.local_ ∧ q0.remote = q.remote) ∨
          (q.local_ ∈ c :: cs ∧ q.local_.type = NICE_CANDIDATE_TYPE_RELAYED ∧
            q.remote = remote) := by
      intro k1 added1 q hq
      rcases (ih k1 added1 agent hfr).2 q hq with h | ⟨h1, h2⟩
      · exact Or.inl h
      · exact Or.inr ⟨List.mem_cons_of_mem _ h1, h2⟩
    have hcount : ∀ (k1 added1 : Nat),
        (conn_check_add_for_candidate_loop E sid cid remote new_pairs cs k1 added1 agent).1 ≤
          added1 + ((c :: cs).filter
            (fun c => c.type == NICE_CANDIDATE_TYPE_RELAYED)).length := by
      intro k1 added1
      refine le_trans (ih k1 added1 agent hfr).1 ?_
      rw [List.filter_cons]
      split_ifs
      · simp
      · exact Nat.le_refl _
    unfold conn_check_add_for_candidate_loop
    by_cases hrel : c.type = NICE_CANDIDATE_TYPE_RELAYED
    · rw [if_neg (fun h => h.2 hrel)]
      split
      · exact ⟨hcount _ _, hlift _ _⟩
      · rename_i s component hfind
        simp only
        have hfr2 := (force_relay_conn_check_add_for_candidate_pair E agent sid component c
          remote (new_pairs k)).trans hfr
        obtain ⟨i1, i2⟩ := ih (k + 1)
          (if (conn_check_add_for_candidate_pair E agent sid component c remote
            (new_pairs k)).1 = true then added + 1 else added)
          (conn_check_add_for_candidate_pair E agent sid component c remote (new_pairs k)).2
          hfr2
        constructor
        · refine le_trans i1 ?_
          rw [List.filter_cons, if_pos (beq_iff_eq.2 hrel), List.length_cons]
          split_ifs <;> omega
        · intro q hq
          rcases i2 q hq with ⟨q0, hq0, h1, h2, h3⟩ | ⟨h1, h2⟩
          · rcases origin_conn_check_add_for_candidate_pair E agent sid component c remote
                (new_pairs k) sid1 q0 hq0 with ⟨q00, hq00, g1, g2, g3⟩ | ⟨_, g2, g3⟩
            · exact Or.inl ⟨q00, hq00, g1.trans h1, g2.trans h2, g3.trans h3⟩
            · right
              rw [← h2, g2, ← h3, g3]
              exact ⟨List.mem_cons_self _ _, hrel, rfl⟩
          · exact Or.inr ⟨List.mem_cons_of_mem _ h1, h2⟩
    · rw [if_pos ⟨hfr, hrel⟩]
      refine ⟨?_, hlift _ _⟩
      refine le_trans (ih (k + 1) added agent hfr).1 ?_
      rw [List.filter_cons, if_neg (fun h => hrel (beq_iff_eq.1 h))]

/-- C22: with `force_relay` set, `conn_check_add_for_candidate` counts at most one pair for
each relayed local candidate of the component, and every pair of a conncheck list afterwards
has the address and the candidates of a pair that was there before or has a relayed local
candidate of the component and the new remote candidate.  `conn_check_add_for_local_candidate`
has no such test: for the example host candidate and a component with two remote candidates, on
an agent with `force_relay` set, it returns 2 and the list holds two pairs whose local candidate
is of type host. -/
theorem force_relay_pairing (E : Ext) (agent : NiceAgent) (stream_id component_id : Nat)
    (remote : NiceCandidate) (new_pairs : Nat → Nat) :
    (agent.force_relay = true →
      ∀ stream component,
        agent_find_component agent stream_id component_id = some (stream, component) →
        (conn_check_add_for_candidate E agent stream_id component_id remote new_pairs).1 ≤
          (component.local_candidates.filter
            (fun c => c.type == NICE_CANDIDATE_TYPE_RELAYED)).length ∧
        ∀ sid, ∀ q ∈ stream_pairs (conn_check_add_for_candidate E agent stream_id component_id
            remote new_pairs).2 sid,
          (∃ q0 ∈ stream_pairs agent sid,
            q0.ptr = q.ptr ∧ q0.local_ = q.local_ ∧ q0.remote = q.remote) ∨
          (q.local_ ∈ component.local_candidates ∧
            q.local_.type = NICE_CANDIDATE_TYPE_RELAYED ∧ q.remote = remote)) ∧
    ({ ex_agent NICE_COMPATIBILITY_RFC5245 [] [] with force_relay := true }.force_relay =
        true ∧
      ex_local.type = NICE_CANDIDATE_TYPE_HOST ∧
      (conn_check_add_for_local_candidate ext0
        { ex_agent NICE_COMPATIBILITY_RFC5245 [] [] with force_relay := true } 1 1 ex_local
        (ex_new_pairs 0)).1 = 2 ∧
      (stream_pairs (conn_check_add_for_local_candidate ext0
        { ex_agent NICE_COMPATIBILITY_RFC5245 [] [] with force_relay := true } 1 1 ex_local
        (ex_new_pairs 0)).2 1).map (fun q => (q.ptr, q.local_.type, q.remote.ptr)) =
        [(30, NICE_CANDIDATE_TYPE_HOST, 201), (31, NICE_CANDIDATE_TYPE_HOST, 200)]) := by
  constructor
  · intro hfr stream component hfind
    unfold conn_check_add_for_candidate
    split_ifs
    · exact ⟨Nat.zero_le _, fun sid q hq => Or.inl ⟨q, hq, rfl, rfl, rfl⟩⟩
    · rw [hfind]
      simp only
      refine ⟨?_, fun sid => ?_⟩
      · have := (conn_check_add_for_candidate_loop_relayed E stream_id component_id remote
          new_pairs stream_id component.local_candidates 0 0 agent hfr).1
        simpa using this
      · exact (conn_check_add_for_candidate_loop_relayed E stream_id component_id remote
          new_pairs sid component.local_candidates 0 0 agent hfr).2
  · decide

/-- C22 (witness): the agent with `force_relay` set and a host and a relayed local candidate:
for the new remote candidate 201 `conn_check_add_for_candidate` returns 1 and the list holds
the relayed pair alone. -/
theorem force_relay_pairing_witness :
    ex_agent_force_relay.force_relay = true ∧
    (conn_check_add_for_candidate ext0 ex_agent_force_relay 1 1 ex_remote2
      (ex_new_pairs 0)).1 ≤ 1 ∧
    (∀ q ∈ stream_pairs (conn_check_add_for_candidate ext0 ex_agent_force_relay 1 1 ex_remote2
        (ex_new_pairs 0)).2 1,
      (∃ q0 ∈ stream_pairs ex_agent_force_relay 1,
        q0.ptr = q.ptr ∧ q0.local_ = q.local_ ∧ q0.remote = q.remote) ∨
      (q.local_ ∈ [ex_local, ex_local_relay] ∧
        q.local_.type = NICE_CANDIDATE_TYPE_RELAYED ∧ q.remote = ex_remote2)) ∧
    (conn_check_add_for_candidate ext0 ex_agent_force_relay 1 1 ex_remote2
      (ex_new_pairs 0)).1 = 1 ∧
    (stream_pairs (conn_check_add_for_candidate ext0 ex_agent_force_relay 1 1 ex_remote2
      (ex_new_pairs 0)).2 1).map (fun q => (q.ptr, q.local_.type, q.remote.ptr)) =
      [(31, NICE_CANDIDATE_TYPE_RELAYED, 201)] :=
  ⟨by decide,
   ((force_relay_pairing ext0 ex_agent_force_relay 1 1 ex_remote2 (ex_new_pairs 0)).1
      (by decide)
      { ex_stream [] with
        components := [{ ex_component with local_candidates := [ex_local, ex_local_relay] }] }
      { ex_component with local_candidates := [ex_local, ex_local_relay] } (by decide)).1,
   ((force_relay_pairing ext0 ex_agent_force_relay 1 1 ex_remote2 (ex_new_pairs 0)).1
      (by decide)
      { ex_stream [] with
        components := [{ ex_component with local_candidates := [ex_local, ex_local_relay] }] }
      { ex_component with local_candidates := [ex_local, ex_local_relay] } (by decide)).2 1,
   by decide, by decide⟩

/-! ## Triggered checks on inbound requests -/

theorem queue_priv_add_pair_to_triggered_check_queue (a : NiceAgent) (y : Nat) :
    (priv_add_pair_to_triggered_check_queue a y).triggered_check_queue =
      if y ∈ a.triggered_check_queue then a.triggered_check_queue
      else a.triggered_check_queue ++ [y] := by
  unfold priv_add_pair_to_triggered_check_queue
  by_cases hy : y ∈ a.triggered_check_queue
  · rw [if_pos hy, if_neg]
    rintro (h | h)
    · rw [h] at hy; exact absurd hy (List.not_mem_nil _)
    · rw [(g_slist_find_iff _ _).2 hy] at h
      exact absurd h (by decide)
  · rw [if_neg hy, if_pos]
    · rfl
    · right
      cases hf : g_slist_find a.triggered_check_queue y with
      | false => rfl
      | true => exact absurd ((g_slist_find_iff _ _).1 hf) hy

theorem queue_conn_check_schedule_next (a : NiceAgent) :
    (conn_check_schedule_next a).triggered_check_queue = a.triggered_check_queue ∧
    (conn_check_schedule_next a).allPairs = a.allPairs := by
  unfold conn_check_schedule_next
  split_ifs <;> exact ⟨rfl, rfl⟩

theorem schedule_triggered_check_pair_effect (a : NiceAgent) (sid : Nat)
    (component : NiceComponent) (p : CandidateCheckPair) :
    (schedule_triggered_check_pair a sid component p).allPairs = a.allPairs ∧
    (((p.state = NICE_CHECK_WAITING ∨ p.state = NICE_CHECK_FROZEN) ∨
        ((p.state = NICE_CHECK_IN_PROGRESS ∨ p.state = NICE_CHECK_FAILED) ∧
          p.priority > component.selected_pair.priority)) →
      (schedule_triggered_check_pair a sid component p).triggered_check_queue =
        if p.ptr ∈ a.triggered_check_queue then a.triggered_check_queue
        else a.triggered_check_queue ++ [p.ptr]) ∧
    (((p.state = NICE_CHECK_IN_PROGRESS ∨ p.state = NICE_CHECK_FAILED) ∧
        ¬ p.priority > component.selected_pair.priority) →
      schedule_triggered_check_pair a sid component p = a) ∧
    ((p.state = NICE_CHECK_SUCCEEDED ∨ p.state = NICE_CHECK_DISCOVERED) →
      schedule_triggered_check_pair a sid component p = a) := by
  have hq := queue_priv_add_pair_to_triggered_check_queue a p.ptr
  have hap := allPairs_priv_add_pair_to_triggered_check_queue a p.ptr
  have hsig := fun b st => agent_signal_component_state_change_pairs b sid component.id st
  have hsiga := fun b st => allPairs_agent_signal_component_state_change b sid component.id st
  have hsn := queue_conn_check_schedule_next
  unfold schedule_triggered_check_pair
  cases hst : p.state with
  | NICE_CHECK_WAITING =>
    simp only [reduceCtorEq, false_or, or_false, false_and, and_false, true_and,
      and_true, or_true, true_or, false_implies, implies_true, forall_const, and_self]
    exact ⟨hap, hq⟩
  | NICE_CHECK_FROZEN =>
    simp only [reduceCtorEq, false_or, or_false, false_and, and_false, true_and,
      and_true, or_true, true_or, false_implies, implies_true, forall_const, and_self]
    exact ⟨hap, hq⟩
  | NICE_CHECK_SUCCEEDED =>
    simp only [reduceCtorEq, false_or, or_false, false_and, and_false, true_and,
      and_true, or_true, true_or, false_implies, implies_true, forall_const, and_self]
  | NICE_CHECK_DISCOVERED =>
    simp only [reduceCtorEq, false_or, or_false, false_and, and_false, true_and,
      and_true, or_true, true_or, false_implies, implies_true, forall_const, and_self]
  | NICE_CHECK_IN_PROGRESS =>
    simp only [reduceCtorEq, false_or, or_false, false_and, and_false, true_and,
      and_true, or_true, true_or, false_implies, implies_true, forall_const, and_self]
    by_cases hpri : p.priority > component.selected_pair.priority
    · rw [if_pos hpri]
      exact ⟨hap, fun _ => hq, fun h => absurd hpri h⟩
    · rw [if_neg hpri]
      exact ⟨rfl, fun h => absurd h hpri, fun _ => rfl⟩
  | NICE_CHECK_FAILED =>
    simp only [reduceCtorEq, false_or, or_false, false_and, and_false, true_and,
      and_true, or_true, true_or, false_implies, implies_true, forall_const, and_self]
    by_cases hpri : p.priority > component.selected_pair.priority
    · rw [if_pos hpri]
      refine ⟨?_, fun _ => ?_, fun h => absurd hpri h⟩
      · split_ifs
        · rw [(hsn _).2, hsiga, hap]
        · rw [(hsn _).2, hsiga, hap]
        · exact hap
      · by_cases h1 : component.state = NICE_COMPONENT_STATE_FAILED
        · rw [if_pos h1, (hsn _).1, (hsig _ _).1, hq]
        · rw [if_neg h1]
          by_cases h2 : component.state = NICE_COMPONENT_STATE_READY
          · rw [if_pos h2, (hsn _).1, (hsig _ _).1, hq]
          · rw [if_neg h2, hq]
    · rw [if_neg hpri]
      exact ⟨rfl, fun h => absurd h hpri, fun _ => rfl⟩

theorem priv_schedule_triggered_check_known (E : Ext) (agent : NiceAgent) (sid cid : Nat)
    (local_socket : NiceSocket) (remote_cand : NiceCandidate) (new_pair : Nat)
    (stream : NiceStream) (component : NiceComponent) (p0 : CandidateCheckPair)
    (hfind : agent_find_component agent sid cid = some (stream, component))
    (hp0 : stream.conncheck_list.find? (fun p => p.component_id == component.id &&
      p.remote.ptr == remote_cand.ptr && p.sockptr.ptr == local_socket.ptr) = some p0) :
    priv_schedule_triggered_check E agent sid cid local_socket remote_cand new_pair =
      (true, schedule_triggered_check_pair agent sid component
        (nominate_checked_pair agent p0)) := by
  unfold priv_schedule_triggered_check
  rw [hfind]
  simp only
  rw [hp0]
  rfl

/-- C28: when `priv_schedule_triggered_check` finds a pair of the component for the remote
candidate and the socket, with `p` that pair or, for a discovered pair, its `succeeded_pair`:
it returns TRUE and every pair of every conncheck list is as it was, so the state of `p` too.
If `p` is Waiting or Frozen, or if it is InProgress or Failed with a priority above the
selected-pair priority of the component, `p` is in the triggered-check queue afterwards (at the
tail when it was not queued, the queue as it was otherwise).  If `p` is InProgress or Failed
with a priority not above the selected-pair priority, or Succeeded, the agent is as it
was. -/
theorem triggered_check_for_known_pair (E : Ext) (agent : NiceAgent) (sid cid : Nat)
    (local_socket : NiceSocket) (remote_cand : NiceCandidate) (new_pair : Nat)
    (stream : NiceStream) (component : NiceComponent) (p0 : CandidateCheckPair)
    (hfind : agent_find_component agent sid cid = some (stream, component))
    (hp0 : stream.conncheck_list.find? (fun p => p.component_id == component.id &&
      p.remote.ptr == remote_cand.ptr && p.sockptr.ptr == local_socket.ptr) = some p0) :
    (priv_schedule_triggered_check E agent sid cid local_socket remote_cand new_pair).1 =
      true ∧
    (priv_schedule_triggered_check E agent sid cid local_socket remote_cand
      new_pair).2.allPairs = agent.allPairs ∧
    (((nominate_checked_pair agent p0).state = NICE_CHECK_WAITING ∨
        (nominate_checked_pair agent p0).state = NICE_CHECK_FROZEN) →
      (nominate_checked_pair agent p0).ptr ∈ (priv_schedule_triggered_check E agent sid cid
        local_socket remote_cand new_pair).2.triggered_check_queue ∧
      (priv_schedule_triggered_check E agent sid cid local_socket remote_cand
        new_pair).2.triggered_check_queue =
        if (nominate_checked_pair agent p0).ptr ∈ agent.triggered_check_queue then
          agent.triggered_check_queue
        else agent.triggered_check_queue ++ [(nominate_checked_pair agent p0).ptr]) ∧
    (((nominate_checked_pair agent p0).state = NICE_CHECK_IN_PROGRESS ∨
        (nominate_checked_pair agent p0).state = NICE_CHECK_FAILED) →
      ((nominate_checked_pair agent p0).priority > component.selected_pair.priority →
        (nominate_checked_pair agent p0).ptr ∈ (priv_schedule_triggered_check E agent sid cid
          local_socket remote_cand new_pair).2.triggered_check_queue ∧
        (priv_schedule_triggered_check E agent sid cid local_socket remote_cand
          new_pair).2.triggered_check_queue =
          if (nominate_checked_pair agent p0).ptr ∈ agent.triggered_check_queue then
            agent.triggered_check_queue
          else agent.triggered_check_queue ++ [(nominate_checked_pair agent p0).ptr]) ∧
      (¬ (nominate_checked_pair agent p0).priority > component.selected_pair.priority →
        (priv_schedule_triggered_check E agent sid cid local_socket remote_cand
          new_pair).2 = agent)) ∧
    ((nominate_checked_pair agent p0).state = NICE_CHECK_SUCCEEDED →
      (priv_schedule_triggered_check E agent sid cid local_socket remote_cand
        new_pair).2 = agent) := by
  rw [priv_schedule_triggered_check_known E agent sid cid local_socket remote_cand new_pair
    stream component p0 hfind hp0]
  obtain ⟨h1, h2, h3, h4⟩ := schedule_triggered_check_pair_effect agent sid component
    (nominate_checked_pair agent p0)
  have hmem : ∀ (q : List Nat) (y : Nat), y ∈ (if y ∈ q then q else q ++ [y]) := by
    intro q y
    split_ifs with h
    · exact h
    · simp
  refine ⟨rfl, h1, ?_, ?_, ?_⟩
  · intro hs
    have := h2 (Or.inl hs)
    exact ⟨by rw [this]; exact hmem _ _, this⟩
  · intro hs
    refine ⟨fun hpri => ?_, fun hpri => h3 ⟨hs, hpri⟩⟩
    have := h2 (Or.inr ⟨hs, hpri⟩)
    exact ⟨by rw [this]; exact hmem _ _, this⟩
  · intro hs
    exact h4 (Or.inl hs)

/-- C28 (witness): a request from the remote candidate 201 on the example socket.  Pair 11 is
Waiting and is queued; with pair 11 InProgress at a priority below the selected-pair priority
the agent is as it was. -/
theorem triggered_check_for_known_pair_witness :
    (priv_schedule_triggered_check ext0 (ex_agent NICE_COMPATIBILITY_RFC5245 ex_list [12]) 1 1
      ex_sock ex_remote2 30).1 = true ∧
    (priv_schedule_triggered_check ext0 (ex_agent NICE_COMPATIBILITY_RFC5245 ex_list [12]) 1 1
      ex_sock ex_remote2 30).2.allPairs =
      (ex_agent NICE_COMPATIBILITY_RFC5245 ex_list [12]).allPairs ∧
    (priv_schedule_triggered_check ext0 (ex_agent NICE_COMPATIBILITY_RFC5245 ex_list [12]) 1 1
      ex_sock ex_remote2 30).2.triggered_check_queue = [12, 11] ∧
    (nominate_checked_pair ex_agent_nominated ex_pair_in_progress).state =
      NICE_CHECK_IN_PROGRESS ∧
    (priv_schedule_triggered_check ext0 ex_agent_nominated 1 1 ex_sock ex_remote 30).2 =
      ex_agent_nominated :=
  ⟨(triggered_check_for_known_pair ext0 (ex_agent NICE_COMPATIBILITY_RFC5245 ex_list [12]) 1 1
      ex_sock ex_remote2 30 (ex_stream ex_list) ex_component
      (ex_pair 11 ex_remote2 NICE_CHECK_WAITING 9115005265987371519) (by decide)
      (by decide)).1,
   (triggered_check_for_known_pair ext0 (ex_agent NICE_COMPATIBILITY_RFC5245 ex_list [12]) 1 1
      ex_sock ex_remote2 30 (ex_stream ex_list) ex_component
      (ex_pair 11 ex_remote2 NICE_CHECK_WAITING 9115005265987371519) (by decide)
      (by decide)).2.1,
   ((triggered_check_for_known_pair ext0 (ex_agent NICE_COMPATIBILITY_RFC5245 ex_list [12]) 1 1
      ex_sock ex_remote2 30 (ex_stream ex_list) ex_component
      (ex_pair 11 ex_remote2 NICE_CHECK_WAITING 9115005265987371519) (by decide)
      (by decide)).2.2.1 (by decide)).2.trans (by decide),
   by decide,
   ((triggered_check_for_known_pair ext0 ex_agent_nominated 1 1 ex_sock ex_remote 30
      { ex_stream [ex_pair_nominated, ex_pair_in_progress] with
        components :=
          [{ ex_component with
             state := NICE_COMPONENT_STATE_CONNECTED
             selected_pair :=
               ⟨some ex_local, some ex_remote2, 9115005265987371519, 1845501695⟩ }] }
      { ex_component with
        state := NICE_COMPONENT_STATE_CONNECTED
        selected_pair := ⟨some ex_local, some ex_remote2, 9115005265987371519, 1845501695⟩ }
      ex_pair_in_progress (by decide) (by decide)).2.2.2.1 (by decide)).2 (by decide)⟩

theorem priv_add_new_check_pair_below_selected (E : Ext) (agent : NiceAgent) (sid : Nat)
    (component : NiceComponent) (local_ remote : NiceCandidate) (initial_state : NiceCheckState)
    (new_pair : Nat)
    (h : component.selected_pair.priority ≠ 0 ∧
      E.agent_candidate_pair_priority agent.controlling_mode local_ remote <
        component.selected_pair.priority) :
    priv_add_new_check_pair E agent sid component local_ remote initial_state new_pair =
      (none, agent) := by
  unfold priv_add_new_check_pair priv_add_new_check_pair_insert
  simp only
  rw [if_pos h]

theorem priv_add_new_check_pair_unlimited (E : Ext) (agent : NiceAgent) (sid : Nat)
    (component : NiceComponent) (local_ remote : NiceCandidate) (new_pair : Nat)
    (h : ¬ (component.selected_pair.priority ≠ 0 ∧
      E.agent_candidate_pair_priority agent.controlling_mode local_ remote <
        component.selected_pair.priority))
    (hc : agent.compatibility ≠ NICE_COMPATIBILITY_RFC5245) :
    priv_add_new_check_pair E agent sid component local_ remote NICE_CHECK_WAITING new_pair =
      (some new_pair, agent.updateStream sid (fun s =>
        { s with conncheck_list := (g_slist_insert_sorted s.conncheck_list
          (priv_add_new_check_pair_record E agent sid component local_ remote
            NICE_CHECK_WAITING new_pair) conn_check_compare) })) := by
  unfold priv_add_new_check_pair priv_add_new_check_pair_insert
  simp only
  rw [if_neg h]
  simp only [reduceCtorEq, if_false]
  rw [if_neg hc]

theorem priv_add_new_check_pair_waiting_fresh (E : Ext) (agent : NiceAgent) (sid : Nat)
    (component : NiceComponent) (local_ remote : NiceCandidate) (new_pair : Nat)
    (stream : NiceStream) (hs : agent_find_stream agent sid = some stream)
    (h : ¬ (component.selected_pair.priority ≠ 0 ∧
      E.agent_candidate_pair_priority agent.controlling_mode local_ remote <
        component.selected_pair.priority))
    (hfresh : ∀ q ∈ stream.conncheck_list, q.ptr ≠ new_pair) :
    (priv_add_new_check_pair E agent sid component local_ remote NICE_CHECK_WAITING
      new_pair).1 = some new_pair := by
  unfold priv_add_new_check_pair priv_add_new_check_pair_insert
  simp only
  rw [if_neg h]
  simp only [reduceCtorEq, if_false]
  by_cases hc : agent.compatibility = NICE_COMPATIBILITY_RFC5245
  · rw [if_pos hc]
    have hdel : (priv_limit_conn_check_list_size (agent.updateStream sid (fun s =>
        { s with conncheck_list := (g_slist_insert_sorted s.conncheck_list
          (priv_add_new_check_pair_record E agent sid component local_ remote
            NICE_CHECK_WAITING new_pair) conn_check_compare) })) sid new_pair).1 = false := by
      unfold priv_limit_conn_check_list_size
      have hfs := agent_find_stream_updateStream agent sid sid (fun s =>
        { s with conncheck_list := (g_slist_insert_sorted s.conncheck_list
          (priv_add_new_check_pair_record E agent sid component local_ remote
            NICE_CHECK_WAITING new_pair) conn_check_compare) }) (fun _ => by rfl)
      rw [hfs, hs]
      simp only [Option.map_some', (agent_find_stream_some agent sid stream hs).2, if_true]
      rw [Bool.eq_false_iff]
      intro hd
      obtain ⟨ip, hip, hrem, hptr⟩ := (priv_limit_conn_check_list_size_loop_spec _ _ _ _ _).2.1 hd
      have hmem : ip.2 ∈ g_slist_insert_sorted stream.conncheck_list
          (priv_add_new_check_pair_record E agent sid component local_ remote
            NICE_CHECK_WAITING new_pair) conn_check_compare := by
        obtain ⟨i, x⟩ := ip
        have := (List.mem_enumFrom hip).2.2
        simp only at this ⊢
        rw [this]
        exact List.getElem_mem _
      rw [mem_g_slist_insert_sorted] at hmem
      rcases hmem with he | he
      · rw [he] at hrem
        revert hrem
        simp [limit_removes, priv_add_new_check_pair_record]
      · exact hfresh _ he hptr
    rw [hdel]
    rfl
  · rw [if_neg hc]

theorem priv_conn_check_add_for_candidate_pair_matched_none (E : Ext) (agent : NiceAgent)
    (sid : Nat) (component : NiceComponent) (local_ remote : NiceCandidate)
    (initial_state : NiceCheckState) (new_pair : Nat)
    (h : (priv_add_new_check_pair E agent sid component local_ remote initial_state
      new_pair) = (none, agent)) :
    priv_conn_check_add_for_candidate_pair_matched E agent sid component local_ remote
      initial_state new_pair = (none, agent) := by
  unfold priv_conn_check_add_for_candidate_pair_matched
  rw [h]

/-- C29 (amended): `priv_schedule_triggered_check` when no pair of the component has the
remote candidate and the socket.  Without a local candidate on the socket it returns FALSE
and the agent as it is.  With one, it returns TRUE; when the priority of the pair is below a
non-zero selected-pair priority of the component no pair is made and the agent is as it was;
otherwise the pair is made at the address allocated, when no pair of the list has that
address, and outside RFC 5245 compatibility (where the list limit may drop Failed pairs) the
list of the stream is the old list with the new pair inserted where its priority puts it; and
whenever the pair is made, it is in the list in state Waiting, with the two candidates, and at
the tail of the triggered-check queue. -/
theorem triggered_check_without_pair (E : Ext) (agent : NiceAgent) (sid cid : Nat)
    (local_socket : NiceSocket) (remote_cand : NiceCandidate) (new_pair : Nat)
    (stream : NiceStream) (component : NiceComponent)
    (hfind : agent_find_component agent sid cid = some (stream, component))
    (hnone : stream.conncheck_list.find? (fun p => p.component_id == component.id &&
      p.remote.ptr == remote_cand.ptr && p.sockptr.ptr == local_socket.ptr) = none) :
    (component.local_candidates.find? (fun c => c.sockptr.ptr == local_socket.ptr) = none →
      priv_schedule_triggered_check E agent sid cid local_socket remote_cand new_pair =
        (false, agent)) ∧
    (∀ local_,
      component.local_candidates.find? (fun c => c.sockptr.ptr == local_socket.ptr) =
        some local_ →
      (priv_schedule_triggered_check E agent sid cid local_socket remote_cand new_pair).1 =
        true ∧
      ((component.selected_pair.priority ≠ 0 ∧
          E.agent_candidate_pair_priority agent.controlling_mode local_ remote_cand <
            component.selected_pair.priority) →
        (priv_schedule_triggered_check E agent sid cid local_socket remote_cand new_pair).2 =
          agent) ∧
      (¬ (component.selected_pair.priority ≠ 0 ∧
          E.agent_candidate_pair_priority agent.controlling_mode local_ remote_cand <
            component.selected_pair.priority) →
        (∀ q ∈ stream.conncheck_list, q.ptr ≠ new_pair) →
        (priv_conn_check_add_for_candidate_pair_matched E agent sid component local_
          remote_cand NICE_CHECK_WAITING new_pair).1 = some new_pair) ∧
      (¬ (component.selected_pair.priority ≠ 0 ∧
          E.agent_candidate_pair_priority agent.controlling_mode local_ remote_cand <
            component.selected_pair.priority) →
        agent.compatibility ≠ NICE_COMPATIBILITY_RFC5245 →
        stream_pairs (priv_schedule_triggered_check E agent sid cid local_socket remote_cand
          new_pair).2 sid =
          g_slist_insert_sorted stream.conncheck_list
            (priv_add_new_check_pair_record E agent sid component local_ remote_cand
              NICE_CHECK_WAITING new_pair) conn_check_compare) ∧
      ((priv_conn_check_add_for_candidate_pair_matched E agent sid component local_
          remote_cand NICE_CHECK_WAITING new_pair).1.isSome = true →
        (∃ q ∈ stream_pairs (priv_schedule_triggered_check E agent sid cid local_socket
            remote_cand new_pair).2 sid,
          q.ptr = new_pair ∧ q.local_ = local_ ∧ q.remote = remote_cand ∧
          q.component_id = component.id ∧ q.state = NICE_CHECK_WAITING) ∧
        new_pair ∈ (priv_schedule_triggered_check E agent sid cid local_socket remote_cand
          new_pair).2.triggered_check_queue ∧
        (priv_schedule_triggered_check E agent sid cid local_socket remote_cand
          new_pair).2.triggered_check_queue =
          if new_pair ∈ (priv_conn_check_add_for_candidate_pair_matched E agent sid component
              local_ remote_cand NICE_CHECK_WAITING new_pair).2.triggered_check_queue then
            (priv_conn_check_add_for_candidate_pair_matched E agent sid component
              local_ remote_cand NICE_CHECK_WAITING new_pair).2.triggered_check_queue
          else
            (priv_conn_check_add_for_candidate_pair_matched E agent sid component
              local_ remote_cand NICE_CHECK_WAITING new_pair).2.triggered_check_queue ++
              [new_pair])) := by
  have hs := (agent_find_component_some agent sid cid stream component hfind).1
  have hsp : stream_pairs agent sid = stream.conncheck_list :=
    stream_pairs_of_find_component agent sid cid stream component hfind
  constructor
  · intro hl
    unfold priv_schedule_triggered_check
    rw [hfind]
    simp only
    rw [hnone]
    simp only
    rw [hl]
  · intro local_ hl
    have hdef : priv_schedule_triggered_check E agent sid cid local_socket remote_cand
        new_pair =
        (true, match (priv_conn_check_add_for_candidate_pair_matched E agent sid component
            local_ remote_cand NICE_CHECK_WAITING new_pair).1 with
          | some p => priv_add_pair_to_triggered_check_queue
              (priv_conn_check_add_for_candidate_pair_matched E agent sid component
                local_ remote_cand NICE_CHECK_WAITING new_pair).2 p
          | none => (priv_conn_check_add_for_candidate_pair_matched E agent sid component
              local_ remote_cand NICE_CHECK_WAITING new_pair).2) := by
      unfold priv_schedule_triggered_check
      rw [hfind]
      simp only
      rw [hnone]
      simp only
      rw [hl]
      simp only
      split <;> rfl
    rw [hdef]
    refine ⟨rfl, ?_, ?_, ?_, ?_⟩
    · intro hg
      rw [priv_conn_check_add_for_candidate_pair_matched_none E agent sid component local_
        remote_cand NICE_CHECK_WAITING new_pair
        (priv_add_new_check_pair_below_selected E agent sid component local_ remote_cand
          NICE_CHECK_WAITING new_pair hg)]
    · intro hg hfresh
      have hadd := priv_add_new_check_pair_waiting_fresh E agent sid component local_
        remote_cand new_pair stream hs hg hfresh
      unfold priv_conn_check_add_for_candidate_pair_matched
      simp only
      rw [hadd]
      simp only
      split_ifs <;> rfl
    · intro hg hc
      have hadd := priv_add_new_check_pair_unlimited E agent sid component local_ remote_cand
        new_pair hg hc
      have hm1 : (priv_conn_check_add_for_candidate_pair_matched E agent sid component local_
          remote_cand NICE_CHECK_WAITING new_pair).1 = some new_pair := by
        unfold priv_conn_check_add_for_candidate_pair_matched
        rw [hadd]
        simp only
        split_ifs <;> rfl
      simp only
      rw [hm1]
      simp only
      rw [(stream_pairs_add_to_queue _ _ sid).1]
      unfold priv_conn_check_add_for_candidate_pair_matched
      rw [hadd]
      simp only
      have hins := stream_pairs_updateStream_list agent sid sid
        (fun l => g_slist_insert_sorted l (priv_add_new_check_pair_record E agent sid
          component local_ remote_cand NICE_CHECK_WAITING new_pair) conn_check_compare)
      rw [if_pos rfl, hs] at hins
      split_ifs
      all_goals
        simp only
        rw [stream_pairs_signal, hins]
    · intro hsome
      obtain ⟨p, hp⟩ := Option.isSome_iff_exists.1 hsome
      obtain ⟨hpn, q, hq, h1, h2, h3, h4, h5, _⟩ :=
        priv_conn_check_add_for_candidate_pair_matched_mem E agent sid component local_
          remote_cand NICE_CHECK_WAITING new_pair stream hs p hp
      subst hpn
      simp only
      rw [hp]
      simp only
      refine ⟨⟨q, ?_, h1, h2, h3, h4, h5 (by decide)⟩, ?_, ?_⟩
      · rw [(stream_pairs_add_to_queue _ _ sid).1]
        exact hq
      · exact (stream_pairs_add_to_queue _ _ sid).2.2.1
      · exact queue_priv_add_pair_to_triggered_check_queue _ _

/-- C29 (witness): a request from the remote candidate 201 on the example socket, for a list
that has no pair for it, in the Google compatibility mode: TRUE is returned, the pair 30 of
the candidates 100 and 201 is in the list in state Waiting, ahead of pair 12, and it is the
queue. -/
theorem triggered_check_without_pair_witness :
    (priv_schedule_triggered_check ext0 (ex_agent NICE_COMPATIBILITY_GOOGLE
      [ex_pair 12 ex_remote NICE_CHECK_FROZEN 7241540810645045759] []) 1 1 ex_sock ex_remote2
      30).1 = true ∧
    (stream_pairs (priv_schedule_triggered_check ext0 (ex_agent NICE_COMPATIBILITY_GOOGLE
      [ex_pair 12 ex_remote NICE_CHECK_FROZEN 7241540810645045759] []) 1 1 ex_sock ex_remote2
      30).2 1).map (fun q => (q.ptr, q.state)) =
      [(30, NICE_CHECK_WAITING), (12, NICE_CHECK_FROZEN)] ∧
    (∃ q ∈ stream_pairs (priv_schedule_triggered_check ext0 (ex_agent NICE_COMPATIBILITY_GOOGLE
        [ex_pair 12 ex_remote NICE_CHECK_FROZEN 7241540810645045759] []) 1 1 ex_sock
        ex_remote2 30).2 1,
      q.ptr = 30 ∧ q.local_ = ex_local ∧ q.remote = ex_remote2 ∧
      q.component_id = ex_component.id ∧ q.state = NICE_CHECK_WAITING) ∧
    (priv_schedule_triggered_check ext0 (ex_agent NICE_COMPATIBILITY_GOOGLE
      [ex_pair 12 ex_remote NICE_CHECK_FROZEN 7241540810645045759] []) 1 1 ex_sock ex_remote2
      30).2.triggered_check_queue = [30] :=
  ⟨((triggered_check_without_pair ext0 (ex_agent NICE_COMPATIBILITY_GOOGLE
      [ex_pair 12 ex_remote NICE_CHECK_FROZEN 7241540810645045759] []) 1 1 ex_sock ex_remote2
      30 (ex_stream [ex_pair 12 ex_remote NICE_CHECK_FROZEN 7241540810645045759]) ex_component
      (by decide) (by decide)).2 ex_local (by decide)).1,
   by decide,
   (((triggered_check_without_pair ext0 (ex_agent NICE_COMPATIBILITY_GOOGLE
      [ex_pair 12 ex_remote NICE_CHECK_FROZEN 7241540810645045759] []) 1 1 ex_sock ex_remote2
      30 (ex_stream [ex_pair 12 ex_remote NICE_CHECK_FROZEN 7241540810645045759]) ex_component
      (by decide) (by decide)).2 ex_local (by decide)).2.2.2.2 (by decide)).1,
   ((((triggered_check_without_pair ext0 (ex_agent NICE_COMPATIBILITY_GOOGLE
      [ex_pair 12 ex_remote NICE_CHECK_FROZEN 7241540810645045759] []) 1 1 ex_sock ex_remote2
      30 (ex_stream [ex_pair 12 ex_remote NICE_CHECK_FROZEN 7241540810645045759]) ex_component
      (by decide) (by decide)).2 ex_local (by decide)).2.2.2.2 (by decide)).2.2).trans
      (by decide)⟩

/-- C29 (counterexample): the component has selected the nominated pair 11.  A request from a
remote candidate 202 that has no pair, whose pair with the local candidate of the socket has a
priority below the selected one: `priv_schedule_triggered_check` returns TRUE, makes no pair
and queues nothing.  A request on a socket that no local candidate of the component has:
FALSE is returned and nothing changes. -/
theorem triggered_check_below_selected_priority_makes_no_pair :
    ((stream_pairs ex_agent_nominated 1).find? (fun p => p.component_id == 1 &&
      p.remote.ptr == 202 && p.sockptr.ptr == ex_sock.ptr)) = none ∧
    ext0.agent_candidate_pair_priority true ex_local { ex_remote with ptr := 202 } <
      9115005265987371519 ∧
    priv_schedule_triggered_check ext0 ex_agent_nominated 1 1 ex_sock
      { ex_remote with ptr := 202 } 30 = (true, ex_agent_nominated) ∧
    priv_schedule_triggered_check ext0 ex_agent_nominated 1 1 ex_sock_b
      { ex_remote with ptr := 202 } 30 = (false, ex_agent_nominated) := by
  decide

/-! ## Renomination -/

theorem renomination_raise_priority_spec (local_ remote : NiceCandidate) (sel : Nat)
    (pre : List CandidateCheckPair) (pair : CandidateCheckPair)
    (post : List CandidateCheckPair)
    (hpre : ∀ q ∈ pre, ¬ (q.local_.ptr = local_.ptr ∧ q.remote.ptr = remote.ptr))
    (hpair : pair.local_.ptr = local_.ptr ∧ pair.remote.ptr = remote.ptr) :
    renomination_raise_priority local_ remote sel (pre ++ pair :: post) =
      pre ++ (if pair.valid = true then { pair with priority := (sel + 1) % 2 ^ 64 }
        else pair) :: post := by
  induction pre with
  | nil =>
    simp only [List.nil_append]
    unfold renomination_raise_priority
    rw [if_pos hpair]
  | cons q qs ih =>
    simp only [List.cons_append]
    unfold renomination_raise_priority
    rw [if_neg (hpre q (List.mem_cons_self _ _)),
      ih (fun r hr => hpre r (List.mem_cons_of_mem _ hr))]

theorem renomination_raise_priority_none (local_ remote : NiceCandidate) (sel : Nat)
    (l : List CandidateCheckPair)
    (h : ∀ q ∈ l, ¬ (q.local_.ptr = local_.ptr ∧ q.remote.ptr = remote.ptr)) :
    renomination_raise_priority local_ remote sel l = l := by
  induction l with
  | nil => rfl
  | cons q qs ih =>
    unfold renomination_raise_priority
    rw [if_neg (h q (List.mem_cons_self _ _)),
      ih (fun r hr => h r (List.mem_cons_of_mem _ hr))]

/-- C27: `conn_check_handle_renomination` writes the raised priority into the pair where it
stands.  On the example agent, whose sorted list
holds the selected pair 11 ahead of the valid pair 14, the call for the candidates of pair 14
returns TRUE and leaves the list [11, 14] with pair 14 at the higher priority, which is not
sorted, where `recalculate_pair_priorities` sorts the list it has written to. -/
theorem renomination_leaves_list_unsorted :
    conncheck_sorted
      (stream_pairs (ex_agent_renomination 9115005265987371519 ex_pair_relay_valid) 1) ∧
    (conn_check_handle_renomination ext0
      (ex_agent_renomination 9115005265987371519 ex_pair_relay_valid) 1 1 4 (some ex_remote)
      (some ex_local_relay)).1 = true ∧
    (stream_pairs (conn_check_handle_renomination ext0
      (ex_agent_renomination 9115005265987371519 ex_pair_relay_valid) 1 1 4 (some ex_remote)
      (some ex_local_relay)).2 1).map (fun q => (q.ptr, q.priority)) =
      [(11, 9115005265987371519), (14, 9115005265987371520)] ∧
    ¬ conncheck_sorted (stream_pairs (conn_check_handle_renomination ext0
      (ex_agent_renomination 9115005265987371519 ex_pair_relay_valid) 1 1 4 (some ex_remote)
      (some ex_local_relay)).2 1) ∧
    conncheck_sorted (stream_pairs (recalculate_pair_priorities ext0
      (conn_check_handle_renomination ext0
        (ex_agent_renomination 9115005265987371519 ex_pair_relay_valid) 1 1 4 (some ex_remote)
        (some ex_local_relay)).2) 1) := by
  refine ⟨by decide, by decide, by decide, by decide, by decide⟩

/-! ## The controlled side of nomination -/

theorem same_but_retransmit_refl (q : CandidateCheckPair) : same_but_retransmit q q :=
  ⟨q.retransmit, rfl⟩

theorem priv_prune_pending_checks_loop_same (component_id priority : Nat)
    (l : List CandidateCheckPair) (queue : List Nat) :
    ∀ q1 ∈ (priv_prune_pending_checks_loop component_id priority l queue).1,
      ∃ q ∈ l, same_but_retransmit q q1 := by
  induction l generalizing queue with
  | nil => intro q1 hq1; simp [priv_prune_pending_checks_loop] at hq1
  | cons p ps ih =>
    have hrest : ∀ queue1, ∀ q1 ∈ (priv_prune_pending_checks_loop component_id priority ps
        queue1).1, ∃ q ∈ p :: ps, same_but_retransmit q q1 := by
      intro queue1 q1 hq1
      obtain ⟨q, hq, hr⟩ := ih queue1 q1 hq1
      exact ⟨q, List.mem_cons_of_mem _ hq, hr⟩
    have hcons : ∀ queue1 (p1 : CandidateCheckPair), same_but_retransmit p p1 →
        ∀ q1 ∈ p1 :: (priv_prune_pending_checks_loop component_id priority ps queue1).1,
          ∃ q ∈ p :: ps, same_but_retransmit q q1 := by
      intro queue1 p1 hp1 q1 hq1
      rcases List.mem_cons.1 hq1 with h | h
      · exact ⟨p, List.mem_cons_self _ _, h ▸ hp1⟩
      · exact hrest queue1 q1 h
    intro q1 hq1
    unfold priv_prune_pending_checks_loop at hq1
    simp only at hq1
    split_ifs at hq1 with h1 h2 h3 h4 h5 h6 h7
    · exact hcons _ _ (same_but_retransmit_refl p) q1 hq1
    · exact hrest _ q1 hq1
    · exact hcons _ _ (same_but_retransmit_refl p) q1 hq1
    · exact hrest _ q1 hq1
    · exact hcons _ { p with retransmit := false } ⟨false, rfl⟩ q1 hq1
    · exact hcons _ { p with retransmit := true } ⟨true, rfl⟩ q1 hq1
    · exact hcons _ _ (same_but_retransmit_refl p) q1 hq1
    · exact hcons _ _ (same_but_retransmit_refl p) q1 hq1

theorem priv_prune_pending_checks_loop_stays (component_id priority : Nat)
    (l : List CandidateCheckPair) (queue : List Nat) (q : CandidateCheckPair) (hq : q ∈ l)
    (hst : q.state = NICE_CHECK_IN_PROGRESS ∨
      ((q.state = NICE_CHECK_SUCCEEDED ∨ q.state = NICE_CHECK_DISCOVERED) ∧ q.ptr ∉ queue)) :
    ∃ q1 ∈ (priv_prune_pending_checks_loop component_id priority l queue).1,
      same_but_retransmit q q1 := by
  induction l generalizing queue with
  | nil => simp at hq
  | cons p ps ih =>
    have hsub : ∀ x : Nat, q.state = NICE_CHECK_IN_PROGRESS ∨
        ((q.state = NICE_CHECK_SUCCEEDED ∨ q.state = NICE_CHECK_DISCOVERED) ∧
          q.ptr ∉ g_slist_remove queue x) := by
      intro x
      rcases hst with h | h
      · exact Or.inl h
      · exact Or.inr ⟨h.1, fun hm => h.2 (mem_g_slist_remove _ _ _ hm)⟩
    rcases List.mem_cons.1 hq with h | h
    · subst h
      unfold priv_prune_pending_checks_loop
      simp only
      split_ifs with h1 h2 h3 h4 h5 h6 h7
      · exact ⟨q, List.mem_cons_self _ _, same_but_retransmit_refl q⟩
      · exfalso
        rcases hst with h | h
        · exact h2.2 h
        · exact h.2 ((g_slist_find_iff _ _).1 h2.1)
      · exact ⟨q, List.mem_cons_self _ _, same_but_retransmit_refl q⟩
      · exfalso
        rcases hst with h | h
        · rw [h] at h4; simp at h4
        · rcases h.1 with h | h <;> rw [h] at h4 <;> simp at h4
      · exact ⟨_, List.mem_cons_self _ _, ⟨false, rfl⟩⟩
      · exact ⟨_, List.mem_cons_self _ _, ⟨true, rfl⟩⟩
      · exact ⟨q, List.mem_cons_self _ _, same_but_retransmit_refl q⟩
      · exact ⟨q, List.mem_cons_self _ _, same_but_retransmit_refl q⟩
    · have k := fun queue1 hst1 => ih queue1 h hst1
      unfold priv_prune_pending_checks_loop
      simp only
      split_ifs with h1 h2 h3 h4 h5 h6 h7
      all_goals first
        | (obtain ⟨q1, hq1, hr⟩ := k queue hst
           exact ⟨q1, List.mem_cons_of_mem _ hq1, hr⟩)
        | (obtain ⟨q1, hq1, hr⟩ := k _ (hsub p.ptr)
           exact ⟨q1, List.mem_cons_of_mem _ hq1, hr⟩)
        | exact k queue hst
        | exact k _ (hsub p.ptr)

theorem stream_pairs_prune_self (agent : NiceAgent) (sid cid : Nat) :
    stream_pairs (priv_prune_pending_checks agent sid cid).2 sid = stream_pairs agent sid ∨
    ∃ priority, stream_pairs (priv_prune_pending_checks agent sid cid).2 sid =
      (priv_prune_pending_checks_loop cid priority (stream_pairs agent sid)
        agent.triggered_check_queue).1 := by
  cases h : agent_find_component agent sid cid with
  | none =>
    left
    unfold priv_prune_pending_checks
    rw [h]
  | some r =>
    obtain ⟨s, c⟩ := r
    right
    obtain ⟨_, _, _, s1, h1, h2⟩ := priv_prune_pending_checks_spec agent sid cid s c h
    refine ⟨c.selected_pair.priority, ?_⟩
    rw [stream_pairs_of_find_component _ sid cid s1 c h1, h2,
      stream_pairs_of_find_component _ sid cid s c h]

theorem selected_pair_of_prune (agent : NiceAgent) (sid cid : Nat) :
    selected_pair_of (priv_prune_pending_checks agent sid cid).2 sid cid =
      selected_pair_of agent sid cid := by
  cases h : agent_find_component agent sid cid with
  | none =>
    unfold priv_prune_pending_checks
    rw [h]
  | some r =>
    obtain ⟨s, c⟩ := r
    obtain ⟨_, _, _, s1, h1, _⟩ := priv_prune_pending_checks_spec agent sid cid s c h
    unfold selected_pair_of
    rw [h1, h]
    rfl

theorem selected_pair_of_signal (agent : NiceAgent) (stream_id component_id sid cid : Nat)
    (st : NiceComponentState) :
    selected_pair_of (agent_signal_component_state_change agent stream_id component_id st)
      sid cid = selected_pair_of agent sid cid := by
  have h := congrArg (Option.map (fun r : List CandidateCheckPair × NiceComponent =>
    r.2.selected_pair)) (agent_find_component_signal agent stream_id component_id sid cid st)
  simp only [Option.map_map] at h
  unfold selected_pair_of
  refine Eq.trans (Eq.trans ?_ h) ?_
  · rfl
  · cases agent_find_component agent sid cid with
    | none => rfl
    | some r =>
      simp only [Option.map_some', Function.comp]
      split_ifs <;> rfl

theorem selected_pair_of_updatePair (agent : NiceAgent) (p sid cid : Nat)
    (f : CandidateCheckPair → CandidateCheckPair) :
    selected_pair_of (agent.updatePair p f) sid cid = selected_pair_of agent sid cid := by
  unfold selected_pair_of agent_find_component
  rw [agent_find_stream_updatePair]
  cases agent_find_stream agent sid with
  | none => rfl
  | some s =>
    simp only [Option.map_some']
    unfold nice_stream_find_component_by_id
    cases s.components.find? (fun c => c.id == cid) <;> rfl

theorem for_ready_cases (agent : NiceAgent) (sid cid : Nat) :
    selected_pair_of (conn_check_update_check_list_state_for_ready agent sid cid) sid cid =
      selected_pair_of agent sid cid ∧
    (stream_pairs (conn_check_update_check_list_state_for_ready agent sid cid) sid =
        stream_pairs agent sid ∨
      stream_pairs (conn_check_update_check_list_state_for_ready agent sid cid) sid =
        stream_pairs (priv_prune_pending_checks agent sid cid).2 sid) := by
  unfold conn_check_update_check_list_state_for_ready
  split
  · exact ⟨rfl, Or.inl rfl⟩
  · simp only
    split_ifs
    all_goals
      simp only [selected_pair_of_signal, stream_pairs_signal, selected_pair_of_prune, true_and,
        or_true, true_or]

theorem stream_pairs_for_ready_same (agent : NiceAgent) (sid cid : Nat) :
    ∀ q1 ∈ stream_pairs (conn_check_update_check_list_state_for_ready agent sid cid) sid,
      ∃ q ∈ stream_pairs agent sid, same_but_retransmit q q1 := by
  intro q1 hq1
  rcases (for_ready_cases agent sid cid).2 with h | h
  · rw [h] at hq1
    exact ⟨q1, hq1, same_but_retransmit_refl q1⟩
  · rw [h] at hq1
    rcases stream_pairs_prune_self agent sid cid with h1 | ⟨priority, h1⟩
    · rw [h1] at hq1
      exact ⟨q1, hq1, same_but_retransmit_refl q1⟩
    · rw [h1] at hq1
      exact priv_prune_pending_checks_loop_same _ _ _ _ q1 hq1

theorem stream_pairs_for_ready_stays (agent : NiceAgent) (sid cid : Nat)
    (q : CandidateCheckPair) (hq : q ∈ stream_pairs agent sid)
    (hst : q.state = NICE_CHECK_IN_PROGRESS ∨
      ((q.state = NICE_CHECK_SUCCEEDED ∨ q.state = NICE_CHECK_DISCOVERED) ∧
        q.ptr ∉ agent.triggered_check_queue)) :
    ∃ q1 ∈ stream_pairs (conn_check_update_check_list_state_for_ready agent sid cid) sid,
      same_but_retransmit q q1 := by
  rcases (for_ready_cases agent sid cid).2 with h | h
  · rw [h]
    exact ⟨q, hq, same_but_retransmit_refl q⟩
  · rw [h]
    rcases stream_pairs_prune_self agent sid cid with h1 | ⟨priority, h1⟩
    · rw [h1]
      exact ⟨q, hq, same_but_retransmit_refl q⟩
    · rw [h1]
      exact priv_prune_pending_checks_loop_stays _ _ _ _ q hq hst

theorem stream_pairs_updateComponent (agent : NiceAgent) (stream_id component_id sid : Nat)
    (f : NiceComponent → NiceComponent) :
    stream_pairs (agent.updateComponent stream_id component_id f) sid =
      stream_pairs agent sid := by
  unfold stream_pairs NiceAgent.updateComponent
  rw [agent_find_stream_updateStream _ _ _ _ ?_]
  · cases agent_find_stream agent sid with
    | none => rfl
    | some s =>
      simp only [Option.map_some']
      split_ifs <;> rfl
  · intro s; rfl

theorem conn_check_update_selected_pair_pairs (E : Ext) (agent : NiceAgent)
    (stream_id component_id : Nat) (pair : CandidateCheckPair) (sid : Nat) :
    stream_pairs (conn_check_update_selected_pair E agent stream_id component_id pair) sid =
      stream_pairs agent sid ∧
    (conn_check_update_selected_pair E agent stream_id component_id pair).triggered_check_queue
      = agent.triggered_check_queue := by
  unfold conn_check_update_selected_pair
  split
  · exact ⟨rfl, rfl⟩
  · split_ifs
    · exact ⟨stream_pairs_updateComponent agent stream_id component_id sid _, rfl⟩
    · exact ⟨rfl, rfl⟩

theorem selected_pair_of_update_selected_congr (E : Ext) (a b : NiceAgent) (sid cid : Nat)
    (p p1 : CandidateCheckPair) (hab : selected_pair_of b sid cid = selected_pair_of a sid cid)
    (h1 : p1.priority = p.priority) (h2 : p1.local_ = p.local_) (h3 : p1.remote = p.remote)
    (h4 : p1.stun_priority = p.stun_priority) :
    selected_pair_of (conn_check_update_selected_pair E b sid cid p1) sid cid =
      selected_pair_of (conn_check_update_selected_pair E a sid cid p) sid cid := by
  cases hs : selected_pair_of a sid cid with
  | none =>
    have ha : agent_find_component a sid cid = none := by
      unfold selected_pair_of at hs
      simpa using hs
    have hb : agent_find_component b sid cid = none := by
      rw [hs] at hab
      unfold selected_pair_of at hab
      simpa using hab
    have e1 : conn_check_update_selected_pair E a sid cid p = a := by
      unfold conn_check_update_selected_pair; rw [ha]
    have e2 : conn_check_update_selected_pair E b sid cid p1 = b := by
      unfold conn_check_update_selected_pair; rw [hb]
    rw [e1, e2, hab]
  | some sp =>
    rw [hs] at hab
    rw [conn_check_update_selected_pair_spec E a sid cid p sp hs,
      conn_check_update_selected_pair_spec E b sid cid p1 sp hab, h1, h2, h3, h4]

theorem priv_mark_pair_nominated_pair_mid (E : Ext) (agent : NiceAgent) (sid cid : Nat)
    (pair : CandidateCheckPair) :
    ∃ a2 : NiceAgent,
      priv_mark_pair_nominated_pair E agent sid cid pair =
        (if (mark_nominated_write agent pair).nominated = true then
          conn_check_update_check_list_state_for_ready a2 sid cid else a2) ∧
      stream_pairs a2 sid =
        updatePairIn (stream_pairs agent sid) pair.ptr (mark_nominated_write agent) ∧
      a2.triggered_check_queue = agent.triggered_check_queue ∧
      selected_pair_of a2 sid cid =
        (if pair.valid = true then
          selected_pair_of (conn_check_update_selected_pair E agent sid cid pair) sid cid
        else selected_pair_of agent sid cid) := by
  have hq : ∀ (a : NiceAgent) (st : NiceComponentState),
      (agent_signal_component_state_change a sid cid st).triggered_check_queue =
        a.triggered_check_queue :=
    fun a st => (agent_signal_component_state_change_pairs a sid cid st).1
  have hu : ∀ a : NiceAgent, ∀ p1 : CandidateCheckPair,
      stream_pairs (conn_check_update_selected_pair E a sid cid p1) sid = stream_pairs a sid :=
    fun a p1 => (conn_check_update_selected_pair_pairs E a sid cid p1 sid).1
  have hu2 : ∀ a : NiceAgent, ∀ p1 : CandidateCheckPair,
      (conn_check_update_selected_pair E a sid cid p1).triggered_check_queue =
        a.triggered_check_queue :=
    fun a p1 => (conn_check_update_selected_pair_pairs E a sid cid p1 sid).2
  have hq1 : (agent.updatePair pair.ptr (mark_nominated_write agent)).triggered_check_queue =
      agent.triggered_check_queue := rfl
  have hsel : ∀ b : NiceAgent, selected_pair_of b sid cid = selected_pair_of agent sid cid →
      selected_pair_of (conn_check_update_selected_pair E b sid cid
        (mark_nominated_write agent pair)) sid cid =
      selected_pair_of (conn_check_update_selected_pair E agent sid cid pair) sid cid :=
    fun b hb => selected_pair_of_update_selected_congr E agent b sid cid pair _ hb rfl rfl rfl
      rfl
  unfold priv_mark_pair_nominated_pair
  simp only
  refine ⟨_, rfl, ?_, ?_, ?_⟩
  · split_ifs <;> simp only [stream_pairs_signal, hu, stream_pairs_updatePair]
  · split_ifs <;> simp only [hq, hu2, hq1]
  · split_ifs
    all_goals first
      | (rw [selected_pair_of_signal]
         apply hsel
         simp only [selected_pair_of_signal, selected_pair_of_updatePair])
      | (apply hsel
         simp only [selected_pair_of_signal, selected_pair_of_updatePair])
      | simp only [selected_pair_of_signal, selected_pair_of_updatePair]

theorem mark_nominated_write_fields (agent : NiceAgent) (q : CandidateCheckPair) :
    (mark_nominated_write agent q).ptr = q.ptr ∧
    (mark_nominated_write agent q).state = q.state ∧
    (mark_nominated_write agent q).local_ = q.local_ ∧
    (mark_nominated_write agent q).remote = q.remote ∧
    (mark_nominated_write agent q).valid = q.valid ∧
    (mark_nominated_write agent q).priority = q.priority :=
  ⟨rfl, rfl, rfl, rfl, rfl, rfl⟩

theorem priv_mark_pair_nominated_pair_shape (E : Ext) (agent : NiceAgent) (sid cid : Nat)
    (pair : CandidateCheckPair) :
    selected_pair_of (priv_mark_pair_nominated_pair E agent sid cid pair) sid cid =
      (if pair.valid = true then
        selected_pair_of (conn_check_update_selected_pair E agent sid cid pair) sid cid
      else selected_pair_of agent sid cid) ∧
    (∀ q1 ∈ stream_pairs (priv_mark_pair_nominated_pair E agent sid cid pair) sid,
      ∃ q ∈ stream_pairs agent sid, same_but_retransmit
        (if q.ptr = pair.ptr then mark_nominated_write agent q else q) q1) ∧
    (∀ q ∈ stream_pairs agent sid,
      (q.state = NICE_CHECK_IN_PROGRESS ∨
        ((q.state = NICE_CHECK_SUCCEEDED ∨ q.state = NICE_CHECK_DISCOVERED) ∧
          q.ptr ∉ agent.triggered_check_queue)) →
      ∃ q1 ∈ stream_pairs (priv_mark_pair_nominated_pair E agent sid cid pair) sid,
        same_but_retransmit (if q.ptr = pair.ptr then mark_nominated_write agent q else q)
          q1) := by
  obtain ⟨a2, hr, hp, hq, hs⟩ := priv_mark_pair_nominated_pair_mid E agent sid cid pair
  have hmem : ∀ q ∈ stream_pairs agent sid,
      (if q.ptr = pair.ptr then mark_nominated_write agent q else q) ∈ stream_pairs a2 sid := by
    intro q hq0
    rw [hp]
    unfold updatePairIn
    exact List.mem_map.2 ⟨q, hq0, rfl⟩
  have hfrom : ∀ q1 ∈ stream_pairs a2 sid, ∃ q ∈ stream_pairs agent sid,
      q1 = (if q.ptr = pair.ptr then mark_nominated_write agent q else q) := by
    intro q1 hq1
    rw [hp] at hq1
    unfold updatePairIn at hq1
    obtain ⟨q, hq0, he⟩ := List.mem_map.1 hq1
    exact ⟨q, hq0, he.symm⟩
  have hst : ∀ q : CandidateCheckPair,
      (if q.ptr = pair.ptr then mark_nominated_write agent q else q).state = q.state ∧
      (if q.ptr = pair.ptr then mark_nominated_write agent q else q).ptr = q.ptr := by
    intro q
    split_ifs
    · exact ⟨rfl, rfl⟩
    · exact ⟨rfl, rfl⟩
  rw [hr]
  by_cases hn : (mark_nominated_write agent pair).nominated = true
  · rw [if_pos hn]
    refine ⟨by rw [(for_ready_cases a2 sid cid).1, hs], ?_, ?_⟩
    · intro q1 hq1
      obtain ⟨q2, hq2, hr2⟩ := stream_pairs_for_ready_same a2 sid cid q1 hq1
      obtain ⟨q, hq0, he⟩ := hfrom q2 hq2
      exact ⟨q, hq0, he ▸ hr2⟩
    · intro q hq0 hc
      refine stream_pairs_for_ready_stays a2 sid cid _ (hmem q hq0) ?_
      rw [(hst q).1, (hst q).2, hq]
      exact hc
  · rw [if_neg hn]
    refine ⟨hs, ?_, ?_⟩
    · intro q1 hq1
      obtain ⟨q, hq0, he⟩ := hfrom q1 hq1
      exact ⟨q, hq0, he ▸ same_but_retransmit_refl _⟩
    · intro q hq0 _
      exact ⟨_, hmem q hq0, same_but_retransmit_refl _⟩

theorem find_in_stream (a : NiceAgent) (sid : Nat) (pred : CandidateCheckPair → Bool) :
    (agent_find_stream a sid).bind (fun s => s.conncheck_list.find? pred) =
      (stream_pairs a sid).find? pred := by
  unfold stream_pairs
  cases agent_find_stream a sid <;> rfl

theorem priv_mark_pair_nominated_loop_skip (E : Ext) (sid cid : Nat)
    (localcand remotecand : Option NiceCandidate) (ptrs : List Nat) (a : NiceAgent)
    (h : ∀ x ∈ ptrs, ∀ q ∈ stream_pairs a sid, q.ptr = x →
      ¬ (some q.local_.ptr = localcand.map (fun c => c.ptr) ∧
        some q.remote.ptr = remotecand.map (fun c => c.ptr))) :
    priv_mark_pair_nominated_loop E sid cid localcand remotecand ptrs a = a := by
  induction ptrs with
  | nil => rfl
  | cons x rest ih =>
    have hrest := ih (fun y hy => h y (List.mem_cons_of_mem _ hy))
    unfold priv_mark_pair_nominated_loop
    rw [find_in_stream]
    cases hf : (stream_pairs a sid).find? (fun q => q.ptr == x) with
    | none => exact hrest
    | some q =>
      have hq := List.mem_of_find?_eq_some hf
      have hx : q.ptr = x := by simpa using List.find?_some hf
      simp only
      rw [if_neg (h x (List.mem_cons_self _ _) q hq hx)]
      exact hrest

theorem priv_mark_pair_nominated_loop_step (E : Ext) (sid cid : Nat)
    (localcand remotecand : Option NiceCandidate) (x : Nat) (a : NiceAgent) :
    ∃ a1 : NiceAgent, ∀ rest : List Nat,
      priv_mark_pair_nominated_loop E sid cid localcand remotecand (x :: rest) a =
        priv_mark_pair_nominated_loop E sid cid localcand remotecand rest a1 := by
  cases hf : (agent_find_stream a sid).bind
      (fun s => s.conncheck_list.find? (fun q => q.ptr == x)) with
  | none =>
    refine ⟨a, fun rest => ?_⟩
    rw [priv_mark_pair_nominated_loop, hf]
  | some pair0 =>
    by_cases hm : some pair0.local_.ptr = localcand.map (fun c => c.ptr) ∧
        some pair0.remote.ptr = remotecand.map (fun c => c.ptr)
    · cases ht : (if pair0.state = NICE_CHECK_SUCCEEDED then
          match pair0.discovered_pair with
          | some d => a.findPair d
          | none => some pair0
        else some pair0) with
      | none =>
        refine ⟨a, fun rest => ?_⟩
        rw [priv_mark_pair_nominated_loop, hf]
        simp only
        rw [if_pos hm, ht]
      | some pair =>
        refine ⟨priv_mark_pair_nominated_pair E a sid cid pair, fun rest => ?_⟩
        rw [priv_mark_pair_nominated_loop, hf]
        simp only
        rw [if_pos hm, ht]
    · refine ⟨a, fun rest => ?_⟩
      rw [priv_mark_pair_nominated_loop, hf]
      simp only
      rw [if_neg hm]

theorem priv_mark_pair_nominated_loop_append (E : Ext) (sid cid : Nat)
    (localcand remotecand : Option NiceCandidate) (l1 l2 : List Nat) (a : NiceAgent) :
    priv_mark_pair_nominated_loop E sid cid localcand remotecand (l1 ++ l2) a =
      priv_mark_pair_nominated_loop E sid cid localcand remotecand l2
        (priv_mark_pair_nominated_loop E sid cid localcand remotecand l1 a) := by
  induction l1 generalizing a with
  | nil => rfl
  | cons x rest ih =>
    obtain ⟨a1, h⟩ := priv_mark_pair_nominated_loop_step E sid cid localcand remotecand x a
    rw [List.cons_append, h, h, ih]

theorem priv_mark_pair_nominated_loop_hit (E : Ext) (sid cid : Nat)
    (localcand remotecand : NiceCandidate) (x : Nat) (rest : List Nat) (a : NiceAgent)
    (pair0 pair : CandidateCheckPair)
    (hf : (stream_pairs a sid).find? (fun q => q.ptr == x) = some pair0)
    (hl : pair0.local_.ptr = localcand.ptr) (hr : pair0.remote.ptr = remotecand.ptr)
    (ht : mark_nominated_target a pair0 = some pair) :
    priv_mark_pair_nominated_loop E sid cid (some localcand) (some remotecand) (x :: rest) a =
      priv_mark_pair_nominated_loop E sid cid (some localcand) (some remotecand) rest
        (priv_mark_pair_nominated_pair E a sid cid pair) := by
  unfold mark_nominated_target at ht
  rw [priv_mark_pair_nominated_loop]
  rw [find_in_stream, hf]
  simp only [Option.map_some', hl, hr, and_self, if_true]
  rw [ht]

theorem same_but_retransmit_fields (q q1 : CandidateCheckPair) (h : same_but_retransmit q q1) :
    q1.ptr = q.ptr ∧ q1.local_ = q.local_ ∧ q1.remote = q.remote ∧ q1.state = q.state ∧
    q1.valid = q.valid ∧ q1.nominated = q.nominated ∧ q1.priority = q.priority ∧
    q1.mark_nominated_on_response_arrival = q.mark_nominated_on_response_arrival := by
  obtain ⟨b, rfl⟩ := h
  exact ⟨rfl, rfl, rfl, rfl, rfl, rfl, rfl, rfl⟩

theorem priv_mark_pair_nominated_unique (E : Ext) (agent : NiceAgent) (sid cid : Nat)
    (localcand remotecand : NiceCandidate) (stream : NiceStream)
    (pair0 pair : CandidateCheckPair)
    (hctl : ¬ (NICE_AGENT_IS_COMPATIBLE_WITH_RFC5245_OR_OC2007R2 agent = true ∧
      agent.controlling_mode = true))
    (hs : agent_find_stream agent sid = some stream)
    (hnd : (stream.conncheck_list.map (fun q => q.ptr)).Nodup)
    (h0 : pair0 ∈ stream.conncheck_list)
    (hl : pair0.local_.ptr = localcand.ptr) (hr : pair0.remote.ptr = remotecand.ptr)
    (huniq : ∀ q ∈ stream.conncheck_list, q.local_.ptr = localcand.ptr →
      q.remote.ptr = remotecand.ptr → q = pair0)
    (ht : mark_nominated_target agent pair0 = some pair) :
    priv_mark_pair_nominated E agent sid cid (some localcand) (some remotecand) =
      priv_mark_pair_nominated_pair E agent sid cid pair := by
  have hsp : stream_pairs agent sid = stream.conncheck_list := by
    unfold stream_pairs; rw [hs]
  obtain ⟨pre, post, hsplit⟩ := List.append_of_mem h0
  have hnd2 : pair0.ptr ∉ pre.map (fun q => q.ptr) ++ post.map (fun q => q.ptr) := by
    rw [hsplit, List.map_append, List.map_cons] at hnd
    exact (List.nodup_cons.1 (List.nodup_middle.1 hnd)).1
  have hinj := List.inj_on_of_nodup_map hnd
  have hmatch : ∀ q ∈ stream.conncheck_list,
      (some q.local_.ptr = (some localcand).map (fun c => c.ptr) ∧
        some q.remote.ptr = (some remotecand).map (fun c => c.ptr)) → q = pair0 := by
    intro q hq hm
    simp only [Option.map_some', Option.some.injEq] at hm
    exact huniq q hq hm.1 hm.2
  unfold priv_mark_pair_nominated
  rw [if_neg hctl, hs]
  simp only
  rw [hsplit, List.map_append, List.map_cons, priv_mark_pair_nominated_loop_append,
    priv_mark_pair_nominated_loop_skip E sid cid _ _ (pre.map (fun q => q.ptr)) agent ?_,
    priv_mark_pair_nominated_loop_hit E sid cid localcand remotecand pair0.ptr _ agent pair0
      pair ?_ hl hr ht,
    priv_mark_pair_nominated_loop_skip E sid cid _ _ (post.map (fun q => q.ptr)) _ ?_]
  · intro x hx q1 hq1 hx1 hm
    obtain ⟨q, hq, hsame⟩ :=
      (priv_mark_pair_nominated_pair_shape E agent sid cid pair).2.1 q1 hq1
    have hf := same_but_retransmit_fields _ _ hsame
    have hq1f : q1.ptr = q.ptr ∧ q1.local_ = q.local_ ∧ q1.remote = q.remote := by
      refine ⟨?_, ?_, ?_⟩
      · rw [hf.1]; split_ifs <;> rfl
      · rw [hf.2.1]; split_ifs <;> rfl
      · rw [hf.2.2.1]; split_ifs <;> rfl
    rw [hsp] at hq
    have : q = pair0 := hmatch q hq (by rw [← hq1f.2.1, ← hq1f.2.2]; exact hm)
    apply hnd2
    rw [← this, ← hq1f.1, hx1]
    exact List.mem_append_right _ hx
  · rw [hsp]
    cases hf : stream.conncheck_list.find? (fun q => q.ptr == pair0.ptr) with
    | none =>
      have := List.find?_eq_none.1 hf pair0 h0
      simp at this
    | some q =>
      have hq := List.mem_of_find?_eq_some hf
      have hx : q.ptr = pair0.ptr := by simpa using List.find?_some hf
      rw [hinj hq h0 hx]
  · intro x hx q hq hx1 hm
    rw [hsp] at hq
    have : q = pair0 := hmatch q hq hm
    apply hnd2
    rw [← this, hx1]
    exact List.mem_append_left _ hx

theorem priv_mark_pair_nominated_marks_pair (E : Ext) (agent : NiceAgent) (sid cid : Nat)
    (localcand remotecand : NiceCandidate)
    (hrfc : NICE_AGENT_IS_COMPATIBLE_WITH_RFC5245_OR_OC2007R2 agent = true) :
    (agent.controlling_mode = true →
      priv_mark_pair_nominated E agent sid cid (some localcand) (some remotecand) = agent) ∧
    (agent.controlling_mode = false →
      ∀ (stream : NiceStream) (pair0 pair : CandidateCheckPair),
        agent_find_stream agent sid = some stream →
        (stream.conncheck_list.map (fun q => q.ptr)).Nodup →
        pair0 ∈ stream.conncheck_list →
        pair0.local_.ptr = localcand.ptr → pair0.remote.ptr = remotecand.ptr →
        (∀ q ∈ stream.conncheck_list, q.local_.ptr = localcand.ptr →
          q.remote.ptr = remotecand.ptr → q = pair0) →
        mark_nominated_target agent pair0 = some pair →
        pair ∈ stream.conncheck_list →
        (pair.valid = true →
          (pair.state = NICE_CHECK_SUCCEEDED ∨ pair.state = NICE_CHECK_DISCOVERED) →
          (∀ q ∈ stream_pairs (priv_mark_pair_nominated E agent sid cid (some localcand)
              (some remotecand)) sid, q.ptr = pair.ptr → q.nominated = true) ∧
          (pair.ptr ∉ agent.triggered_check_queue →
            ∃ q ∈ stream_pairs (priv_mark_pair_nominated E agent sid cid (some localcand)
              (some remotecand)) sid, q.ptr = pair.ptr) ∧
          selected_pair_of (priv_mark_pair_nominated E agent sid cid (some localcand)
              (some remotecand)) sid cid =
            selected_pair_of (conn_check_update_selected_pair E agent sid cid
              { pair with nominated := true }) sid cid) ∧
        (pair.state = NICE_CHECK_IN_PROGRESS →
          (∃ q ∈ stream_pairs (priv_mark_pair_nominated E agent sid cid (some localcand)
              (some remotecand)) sid, q.ptr = pair.ptr) ∧
          ∀ q ∈ stream_pairs (priv_mark_pair_nominated E agent sid cid (some localcand)
              (some remotecand)) sid, q.ptr = pair.ptr →
            q.mark_nominated_on_response_arrival = true) ∧
        (pair.valid = false →
          ∀ q ∈ stream_pairs (priv_mark_pair_nominated E agent sid cid (some localcand)
              (some remotecand)) sid, q.ptr = pair.ptr → q.nominated = pair.nominated)) := by
  constructor
  · intro hc
    unfold priv_mark_pair_nominated
    rw [if_pos ⟨hrfc, hc⟩]
  · intro hc stream pair0 pair hs hnd h0 hl hr huniq ht hpair
    have hctl : ¬ (NICE_AGENT_IS_COMPATIBLE_WITH_RFC5245_OR_OC2007R2 agent = true ∧
        agent.controlling_mode = true) := by
      rw [hc]; simp
    rw [priv_mark_pair_nominated_unique E agent sid cid localcand remotecand stream pair0 pair
      hctl hs hnd h0 hl hr huniq ht]
    have hsp : stream_pairs agent sid = stream.conncheck_list := by
      unfold stream_pairs; rw [hs]
    have hinj := List.inj_on_of_nodup_map hnd
    obtain ⟨hsel, hfrom, hstay⟩ := priv_mark_pair_nominated_pair_shape E agent sid cid pair
    have hat : ∀ q1 ∈ stream_pairs (priv_mark_pair_nominated_pair E agent sid cid pair) sid,
        q1.ptr = pair.ptr → same_but_retransmit (mark_nominated_write agent pair) q1 := by
      intro q1 hq1 hx
      obtain ⟨q, hq, hsame⟩ := hfrom q1 hq1
      have hp : q.ptr = pair.ptr := by
        have h1 := (same_but_retransmit_fields _ _ hsame).1
        rw [hx] at h1
        rw [h1]
        split_ifs <;> rfl
      rw [hsp] at hq
      have : q = pair := hinj hq hpair hp
      subst this
      rw [if_pos rfl] at hsame
      exact hsame
    have hex : (pair.state = NICE_CHECK_IN_PROGRESS ∨
        ((pair.state = NICE_CHECK_SUCCEEDED ∨ pair.state = NICE_CHECK_DISCOVERED) ∧
          pair.ptr ∉ agent.triggered_check_queue)) →
        ∃ q ∈ stream_pairs (priv_mark_pair_nominated_pair E agent sid cid pair) sid,
          q.ptr = pair.ptr := by
      intro hst
      obtain ⟨q1, hq1, hsame⟩ := hstay pair (hsp ▸ hpair) hst
      rw [if_pos rfl] at hsame
      exact ⟨q1, hq1, (same_but_retransmit_fields _ _ hsame).1⟩
    refine ⟨fun hv hst => ⟨?_, fun hnq => hex (Or.inr ⟨hst, hnq⟩), ?_⟩,
      fun hip => ⟨hex (Or.inl hip), ?_⟩, ?_⟩
    · intro q hq hx
      rw [(same_but_retransmit_fields _ _ (hat q hq hx)).2.2.2.2.2.1]
      simp [mark_nominated_write, hv]
    · rw [hsel, if_pos hv]
      exact selected_pair_of_update_selected_congr E agent agent sid cid _ _ rfl rfl rfl rfl rfl
    · intro q hq hx
      rw [(same_but_retransmit_fields _ _ (hat q hq hx)).2.2.2.2.2.2.2]
      simp [mark_nominated_write, hrfc, hip]
    · intro hv q hq hx
      rw [(same_but_retransmit_fields _ _ (hat q hq hx)).2.2.2.2.2.1]
      simp [mark_nominated_write, hrfc, hv]

/-! ## Aggressive nomination -/

theorem role_discovery_add_peer_reflexive_candidate (E : Ext) (agent : NiceAgent)
    (stream_id component_id priority : Nat) (mapped : NiceAddress) (sockptr : NiceSocket)
    (local_candidate : Option NiceCandidate) (remote_candidate : NiceCandidate) :
    (discovery_add_peer_reflexive_candidate E agent stream_id component_id priority mapped
      sockptr local_candidate remote_candidate).2.controlling_mode = agent.controlling_mode ∧
    (discovery_add_peer_reflexive_candidate E agent stream_id component_id priority mapped
      sockptr local_candidate remote_candidate).2.nomination_mode = agent.nomination_mode := by
  unfold discovery_add_peer_reflexive_candidate
  split <;> exact ⟨rfl, rfl⟩

theorem role_priv_process_response_check_for_reflexive (E : Ext) (agent : NiceAgent)
    (stream_id component_id : Nat) (p : CandidateCheckPair) (sockptr : NiceSocket)
    (mapped : NiceAddress) (local_candidate : Option NiceCandidate)
    (remote_candidate : NiceCandidate) (new_pair : Nat) :
    (priv_process_response_check_for_reflexive E agent stream_id component_id p sockptr mapped
      local_candidate remote_candidate new_pair).2.controlling_mode = agent.controlling_mode ∧
    (priv_process_response_check_for_reflexive E agent stream_id component_id p sockptr mapped
      local_candidate remote_candidate new_pair).2.nomination_mode = agent.nomination_mode := by
  unfold priv_process_response_check_for_reflexive
  split
  · exact ⟨rfl, rfl⟩
  · rename_i stream component _
    simp only
    split
    · split_ifs <;> exact ⟨rfl, rfl⟩
    · have kr : ∀ c : Prop, ∀ _ : Decidable c, ∀ lc : Option NiceCandidate,
          (if c then discovery_add_peer_reflexive_candidate E agent stream.id component.id
              p.stun_priority mapped sockptr local_candidate remote_candidate
            else (lc, agent)).2.controlling_mode = agent.controlling_mode ∧
          (if c then discovery_add_peer_reflexive_candidate E agent stream.id component.id
              p.stun_priority mapped sockptr local_candidate remote_candidate
            else (lc, agent)).2.nomination_mode = agent.nomination_mode := by
        intro c _ lc
        split_ifs
        · exact role_discovery_add_peer_reflexive_candidate E _ _ _ _ _ _ _ _
        · exact ⟨rfl, rfl⟩
      split
      · exact kr _ _ _
      · exact kr _ _ _

theorem role_map_reply_validate (E : Ext) (agent : NiceAgent) (stream_id component_id : Nat)
    (sockptr : NiceSocket) (from_ : NiceAddress)
    (local_candidate remote_candidate : Option NiceCandidate) (resp : StunResponse)
    (new_pair : Nat) (p : CandidateCheckPair) (k : Nat)
    (ok_pair : Option Nat) (p1 : CandidateCheckPair) (a1 : NiceAgent)
    (h : map_reply_validate E agent stream_id component_id sockptr from_ local_candidate
      remote_candidate resp new_pair p k = Except.ok (ok_pair, p1, a1)) :
    a1.controlling_mode = agent.controlling_mode ∧
    a1.nomination_mode = agent.nomination_mode ∧
    p1 = ((agent.updatePair p.ptr (fun q => priv_remove_stun_transaction q k)).findPair
      p.ptr).getD p := by
  unfold map_reply_validate at h
  simp only at h
  by_cases hfrom : nice_address_equal from_ p.remote.addr = false
  · rw [if_pos hfrom] at h
    simp at h
  · rw [if_neg hfrom] at h
    cases remote_candidate with
    | none => simp at h
    | some rcand =>
      simp only at h
      by_cases hres : resp.res = STUN_USAGE_ICE_RETURN_NO_MAPPED_ADDRESS
      · rw [if_pos hres] at h
        simp only [Except.ok.injEq, Prod.mk.injEq] at h
        obtain ⟨_, h2, h3⟩ := h
        rw [← h3, ← h2]
        exact ⟨rfl, rfl, rfl⟩
      · rw [if_neg hres] at h
        simp only [Except.ok.injEq, Prod.mk.injEq] at h
        obtain ⟨_, h2, h3⟩ := h
        rw [← h3, ← h2]
        have hr := role_priv_process_response_check_for_reflexive E
          (agent.updatePair p.ptr (fun q => priv_remove_stun_transaction q k)) stream_id
          component_id
          (((agent.updatePair p.ptr (fun q => priv_remove_stun_transaction q k)).findPair
            p.ptr).getD p) sockptr resp.mapped local_candidate rcand new_pair
        exact ⟨hr.1, hr.2, rfl⟩

theorem Keeps_add_valid_peer_reflexive_pair_inherit (E : Ext) (P : CandidateCheckPair → Prop)
    (hP : FlagsOnly P) (agent : NiceAgent) (stream_id : Nat) (component : NiceComponent)
    (local_cand : NiceCandidate) (p : CandidateCheckPair) (new_pair : Nat)
    (hV : ∀ q : CandidateCheckPair, P q → q.ptr = new_pair → P { q with valid := true })
    (hNew : ∀ q : CandidateCheckPair, q.ptr = new_pair → q.valid = true →
      q.nominated = p.nominated → P q) :
    Keeps P agent
      ((priv_add_peer_reflexive_pair E agent stream_id component local_cand p
        new_pair).updatePair new_pair (fun q => { q with valid := true })) := by
  refine ⟨rfl, fun h => ?_⟩
  have hQ : FlagsOnly (fun q : CandidateCheckPair =>
      (q.ptr = new_pair → P { q with valid := true }) ∧ (q.ptr ≠ new_pair → P q)) := by
    intro q q1 h1 h2 h3 h4 hq
    refine ⟨fun hx => ?_, fun hx => ?_⟩
    · exact hP { q with valid := true } _ h1 h2 rfl h4 (hq.1 (by rw [← h1]; exact hx))
    · exact hP q q1 h1 h2 h3 h4 (hq.2 (by rw [← h1]; exact hx))
  have h0 : AllPairs (fun q : CandidateCheckPair =>
      (q.ptr = new_pair → P { q with valid := true }) ∧ (q.ptr ≠ new_pair → P q)) agent :=
    fun q hq => ⟨fun hx => hV q (h q hq) hx, fun _ => h q hq⟩
  have h1 := (Keeps_updatePair_flags _ hQ agent p.ptr
    (fun q => { q with discovered_pair := some new_pair })
    (fun _ => ⟨rfl, rfl, rfl, rfl⟩)).2 h0
  have h2 := (Keeps_insert_pair _ (agent.updatePair p.ptr
    (fun q => { q with discovered_pair := some new_pair })) stream_id
    (priv_add_peer_reflexive_pair_record E agent stream_id component local_cand p new_pair)
    ⟨fun _ => hNew _ rfl rfl rfl, fun hx => absurd rfl hx⟩).2 h1
  exact AllPairs_updatePair_at _ P _ new_pair _ (fun q hq hx => hq.1 hx)
    (fun q hq hx => hq.2 hx) h2

theorem Keeps_priv_process_response_check_for_reflexive_inherit (E : Ext)
    (P : CandidateCheckPair → Prop) (hP : FlagsOnly P) (agent : NiceAgent)
    (stream_id component_id : Nat) (p : CandidateCheckPair) (sockptr : NiceSocket)
    (mapped : NiceAddress) (local_candidate : Option NiceCandidate)
    (remote_candidate : NiceCandidate) (new_pair : Nat)
    (hV : ∀ q : CandidateCheckPair, P q → (q.ptr = p.ptr ∨ q.ptr = new_pair) →
      P { q with valid := true })
    (hNew : ∀ q : CandidateCheckPair, q.ptr = new_pair → q.valid = true →
      q.nominated = p.nominated → P q) :
    Keeps P agent (priv_process_response_check_for_reflexive E agent stream_id component_id p
      sockptr mapped local_candidate remote_candidate new_pair).2 := by
  unfold priv_process_response_check_for_reflexive
  split
  · exact Keeps.refl P agent
  · rename_i stream component _
    simp only
    split
    · refine Keeps.trans ?_ (Keeps_response_pair_succeeded P hP _ _)
      apply Keeps_ite
      · exact Keeps_updatePair_valid P agent p.ptr (fun q hq hx => hV q hq (Or.inl hx))
      · exact Keeps.refl P agent
    · have kr : Keeps P agent
          (if (List.find? (fun cand => nice_address_equal mapped cand.addr &&
                local_candidate_and_socket_compatible cand sockptr)
                component.local_candidates).isNone = true ∧ agent.force_relay = false then
            discovery_add_peer_reflexive_candidate E agent stream.id component.id
              p.stun_priority mapped sockptr local_candidate remote_candidate
          else (List.find? (fun cand => nice_address_equal mapped cand.addr &&
                local_candidate_and_socket_compatible cand sockptr)
                component.local_candidates, agent)).2 := by
        split_ifs
        · exact Keeps_discovery_add_peer_reflexive_candidate E P _ _ _ _ _ _ _ _
        · exact Keeps.refl P agent
      split
      · refine Keeps.trans ?_ (Keeps_response_pair_succeeded P hP _ _)
        refine Keeps.trans kr ?_
        exact Keeps_add_valid_peer_reflexive_pair_inherit E P hP _ _ _ _ p new_pair
          (fun q hq hx => hV q hq (Or.inr hx)) hNew
      · exact Keeps.trans kr (Keeps_response_pair_succeeded P hP _ _)

theorem Keeps_map_reply_validate_inherit (E : Ext) (P : CandidateCheckPair → Prop)
    (hP : FlagsOnly P)
    (agent : NiceAgent) (stream_id component_id : Nat) (sockptr : NiceSocket)
    (from_ : NiceAddress) (local_candidate remote_candidate : Option NiceCandidate)
    (resp : StunResponse) (new_pair : Nat) (p : CandidateCheckPair) (k : Nat)
    (ok_pair : Option Nat) (p1 : CandidateCheckPair) (a1 : NiceAgent)
    (h : map_reply_validate E agent stream_id component_id sockptr from_ local_candidate
      remote_candidate resp new_pair p k = Except.ok (ok_pair, p1, a1))
    (hV : ∀ q : CandidateCheckPair, P q → (q.ptr = p.ptr ∨ q.ptr = new_pair) →
      P { q with valid := true })
    (hNew : ∀ q : CandidateCheckPair, q.ptr = new_pair → q.valid = true →
      q.nominated = p1.nominated → P q) :
    Keeps P agent a1 := by
  have k1 : Keeps P agent (agent.updatePair p.ptr (fun q => priv_remove_stun_transaction q k)) :=
    Keeps_updatePair_flags P hP agent p.ptr _ (fun _ => ⟨rfl, rfl, rfl, rfl⟩)
  have hp1 := (role_map_reply_validate E agent stream_id component_id sockptr from_
    local_candidate remote_candidate resp new_pair p k ok_pair p1 a1 h).2.2
  unfold map_reply_validate at h
  simp only at h
  by_cases hfrom : nice_address_equal from_ p.remote.addr = false
  · rw [if_pos hfrom] at h
    simp at h
  · rw [if_neg hfrom] at h
    cases remote_candidate with
    | none => simp at h
    | some rcand =>
      simp only at h
      by_cases hres : resp.res = STUN_USAGE_ICE_RETURN_NO_MAPPED_ADDRESS
      · rw [if_pos hres] at h
        simp only [Except.ok.injEq, Prod.mk.injEq] at h
        obtain ⟨_, _, h3⟩ := h
        rw [← h3]
        refine Keeps.trans k1 ⟨rfl, ?_⟩
        apply AllPairs_updatePair_at P P _ p.ptr _ ?_ (fun _ hq _ => hq)
        intro q hq hx
        exact hP { q with valid := true } _ rfl rfl rfl rfl (hV q hq (Or.inl hx))
      · rw [if_neg hres] at h
        simp only [Except.ok.injEq, Prod.mk.injEq] at h
        obtain ⟨_, _, h3⟩ := h
        rw [← h3]
        refine Keeps.trans k1 ?_
        apply Keeps_priv_process_response_check_for_reflexive_inherit E P hP
        · intro q hq hx
          rw [findPair_getD_ptr _ _ _ rfl] at hx
          exact hV q hq hx
        · intro q h1 h2 h3
          rw [← hp1] at h3
          exact hNew q h1 h2 h3

theorem flagsOnly_nominated_at (x : Nat) (n : Bool) :
    FlagsOnly (fun q : CandidateCheckPair => q.ptr = x → q.nominated = n) := by
  intro q q1 h1 _ _ h4 hq hx
  rw [h4]
  exact hq (by rw [← h1]; exact hx)

theorem findPair_getD_nominated (a : NiceAgent) (x : Nat) (d : CandidateCheckPair) (n : Bool)
    (h : AllPairs (fun q : CandidateCheckPair => q.ptr = x → q.nominated = n) a)
    (hd : d.nominated = n) : ((a.findPair x).getD d).nominated = n := by
  cases hf : a.findPair x with
  | none => exact hd
  | some q =>
    have hq := mem_allPairs_of_findPair a x q hf
    exact h q hq.1 hq.2

theorem map_reply_nominate_sets (E : Ext) (a1 : NiceAgent) (sid cid : Nat) (px : Nat)
    (p1 : CandidateCheckPair) (t : Nat)
    (hset : response_sets_nominated
      (conn_check_unfreeze_related E a1 ((a1.findPair px).getD p1))
      (((conn_check_unfreeze_related E a1 ((a1.findPair px).getD p1)).findPair px).getD
        ((a1.findPair px).getD p1)) = true) :
    AllPairs (fun q : CandidateCheckPair => q.ptr = t → q.nominated = true)
      (map_reply_nominate E a1 sid cid px p1 t) := by
  have hP := flagsOnly_nominated_at t true
  unfold map_reply_nominate
  simp only
  rw [if_pos hset]
  generalize conn_check_unfreeze_related E a1 ((a1.findPair px).getD p1) = agent2
  have h3 : AllPairs (fun q : CandidateCheckPair => q.ptr = t → q.nominated = true)
      (agent2.updatePair t (fun q => { q with nominated := true })) :=
    AllPairs_updatePair_at (fun _ => True) _ agent2 t _ (fun _ _ _ _ => rfl)
      (fun _ _ hx hx1 => absurd hx1 hx) (fun _ _ => trivial)
  generalize agent2.updatePair t (fun q => { q with nominated := true }) = agent3 at h3 ⊢
  refine (Keeps.trans ?_ (Keeps_conn_check_update_check_list_state_for_ready _ hP _ _ _)).2 h3
  split
  · apply Keeps_ite
    · apply Keeps_ite
      · exact Keeps.trans (Keeps_conn_check_update_selected_pair E _ _ _ _ _)
          (Keeps_agent_signal_component_state_change _ _ _ _ _)
      · exact Keeps_conn_check_update_selected_pair E _ _ _ _ _
    · exact Keeps.refl _ _
  · exact Keeps.refl _ _

theorem map_reply_validate_ok (E : Ext) (agent : NiceAgent) (stream_id component_id : Nat)
    (sockptr : NiceSocket) (from_ : NiceAddress) (local_candidate : Option NiceCandidate)
    (rcand : NiceCandidate) (resp : StunResponse) (new_pair : Nat) (p : CandidateCheckPair)
    (k : Nat) (hsrc : nice_address_equal from_ p.remote.addr = true) :
    ∃ ok_pair p1 a1, map_reply_validate E agent stream_id component_id sockptr from_
      local_candidate (some rcand) resp new_pair p k = Except.ok (ok_pair, p1, a1) := by
  unfold map_reply_validate
  simp only
  rw [if_neg (by rw [hsrc]; simp)]
  split_ifs
  · exact ⟨_, _, _, rfl⟩
  · exact ⟨_, _, _, rfl⟩

/-- C24 (amended): a controlling agent in aggressive nomination mode and RFC 5245 (or
OC2007R2) compatibility processes a success response for the pair `p` whose source check
passes and whose remote candidate is known.  The write `ok_pair->nominated = TRUE` is made
when `p` is not nominated.  With `t` the address of the target pair (the pair returned for the
mapped address if there is one, `p` otherwise): if `p` was not nominated before, or every
record at `t` was nominated before (which holds when `t` is `p` and `p` is nominated, and
when the target is a pair created for this response, which takes the flag of `p`), then every
record at `t` is nominated afterwards. -/
theorem aggressive_nomination_marks_target (E : Ext) (agent : NiceAgent) (sid cid : Nat)
    (sockptr : NiceSocket) (from_ : NiceAddress) (local_candidate : Option NiceCandidate)
    (rcand : NiceCandidate) (resp : StunResponse) (new_pair : Nat) (stream : NiceStream)
    (p : CandidateCheckPair) (k : Nat) (stun : StunTransaction)
    (hrfc : NICE_AGENT_IS_COMPATIBLE_WITH_RFC5245_OR_OC2007R2 agent = true)
    (hctl : agent.controlling_mode = true)
    (hagg : agent.nomination_mode = NICE_NOMINATION_MODE_AGGRESSIVE)
    (hstream : agent_find_stream agent sid = some stream)
    (hfind : find_matching_request resp.id stream.conncheck_list = some (p, k, stun))
    (hres : resp.res = STUN_USAGE_ICE_RETURN_SUCCESS ∨
      resp.res = STUN_USAGE_ICE_RETURN_NO_MAPPED_ADDRESS)
    (hsrc : nice_address_equal from_ p.remote.addr = true)
    (hptr : ∀ q ∈ agent.allPairs, q.ptr = p.ptr → q = p)
    (hfresh : ∀ q ∈ agent.allPairs, q.ptr ≠ new_pair) :
    ∃ t, map_reply_ok_pair E agent sid cid sockptr from_ local_candidate (some rcand) resp
        new_pair p k = some t ∧
      ((p.nominated = false ∨ ∀ q ∈ agent.allPairs, q.ptr = t → q.nominated = true) →
        ∀ q ∈ (priv_map_reply_to_conn_check_request E agent sid cid sockptr from_
          local_candidate (some rcand) resp new_pair).2.allPairs,
          q.ptr = t → q.nominated = true) := by
  have hp : p ∈ agent.allPairs :=
    mem_allPairs_of_stream agent stream (agent_find_stream_some agent sid stream hstream).1 p
      (find_matching_request_mem _ _ _ _ _ hfind)
  have hne : new_pair ≠ p.ptr := fun h => hfresh p hp h.symm
  obtain ⟨ok_pair, p1, a1, hv⟩ := map_reply_validate_ok E agent sid cid sockptr from_
    local_candidate rcand resp new_pair p k hsrc
  have hrole := role_map_reply_validate E agent sid cid sockptr from_ local_candidate
    (some rcand) resp new_pair p k ok_pair p1 a1 hv
  have hres2 : (priv_map_reply_to_conn_check_request E agent sid cid sockptr from_
      local_candidate (some rcand) resp new_pair).2 =
      map_reply_nominate E a1 sid cid p.ptr p1 (ok_pair.getD p.ptr) := by
    unfold priv_map_reply_to_conn_check_request
    rw [hstream]
    simp only
    rw [hfind]
    simp only
    rw [if_pos hres]
    unfold map_reply_success
    rw [hv]
  refine ⟨ok_pair.getD p.ptr, ?_, ?_⟩
  · unfold map_reply_ok_pair
    rw [hv]
  · rw [hres2]
    have hflag : ∀ n : Bool, (∀ q ∈ agent.allPairs, q.ptr = p.ptr → q.nominated = n) →
        p1.nominated = n := by
      intro n hn
      rw [hrole.2.2]
      exact findPair_getD_nominated _ _ _ _
        ((Keeps_updatePair_flags _ (flagsOnly_nominated_at p.ptr n) agent p.ptr
          (fun q => priv_remove_stun_transaction q k)
          (fun _ => by exact ⟨rfl, rfl, rfl, rfl⟩)).2 hn) (hn p hp rfl)
    have hsame : ∀ q ∈ agent.allPairs, q.ptr = p.ptr → q.nominated = p.nominated := by
      intro q hq hx
      rw [hptr q hq hx]
    by_cases hpn : p.nominated = false
    · intro _
      have h0 : AllPairs (fun q : CandidateCheckPair => q.ptr = p.ptr → q.nominated = false)
          agent := fun q hq hx => (hsame q hq hx).trans hpn
      have k1 := Keeps_map_reply_validate_inherit E _ (flagsOnly_nominated_at p.ptr false)
        agent sid cid sockptr from_ local_candidate (some rcand) resp new_pair p k ok_pair p1
        a1 hv (fun q hq _ hx => hq hx) (fun q hx _ _ hx1 => absurd (hx.symm.trans hx1) hne)
      have h1 := k1.2 h0
      have hp1 : p1.nominated = false := hflag false h0
      have k2 := Keeps_conn_check_unfreeze_related E _ (flagsOnly_nominated_at p.ptr false) a1
        ((a1.findPair p.ptr).getD p1)
      have h2 := k2.2 h1
      apply map_reply_nominate_sets
      have hp3 := findPair_getD_nominated _ p.ptr ((a1.findPair p.ptr).getD p1) false h2
        (findPair_getD_nominated _ p.ptr p1 false h1 hp1)
      unfold response_sets_nominated
      rw [rfc_of_compatibility _ _ (Keeps.trans k1 k2).1, hrfc]
      have hc : (conn_check_unfreeze_related E a1 ((a1.findPair p.ptr).getD p1)).controlling_mode
          = true := hrole.1.trans hctl
      have hm : (conn_check_unfreeze_related E a1 ((a1.findPair p.ptr).getD p1)).nomination_mode
          = NICE_NOMINATION_MODE_AGGRESSIVE := hrole.2.1.trans hagg
      simp only [hc, hm, hp3, if_true, Bool.not_false]
    · intro hor
      have hpt : p.nominated = true := by simpa using hpn
      have ht : ∀ q ∈ agent.allPairs, q.ptr = ok_pair.getD p.ptr → q.nominated = true := by
        rcases hor with h | h
        · exact absurd h hpn
        · exact h
      have hp1 : p1.nominated = true :=
        hflag true (fun q hq hx => (hsame q hq hx).trans hpt)
      have k1 := Keeps_map_reply_validate_inherit E _
        (flagsOnly_nominated_at (ok_pair.getD p.ptr) true)
        agent sid cid sockptr from_ local_candidate (some rcand) resp new_pair p k ok_pair p1
        a1 hv (fun q hq _ hx => hq hx) (fun q _ _ hn _ => hn.trans hp1)
      have k2 := Keeps_map_reply_nominate E _ (flagsOnly_nominated_at (ok_pair.getD p.ptr) true)
        a1 sid cid p.ptr p1 (ok_pair.getD p.ptr) (fun _ _ _ _ => rfl)
      exact k2.2 (k1.2 ht)

/-- C24 (witness): pair 11 is not nominated and its response maps to the address of the local
candidate of the discovered pair 13: the target is pair 13, it is in the list afterwards and
every record at its address is nominated. -/
theorem aggressive_nomination_marks_target_witness :
    (∃ q ∈ (priv_map_reply_to_conn_check_request ext0
        (ex_agent_aggressive [ex_pair_rechecked false, ex_pair_discovered] ⟨none, none, 0, 0⟩)
        1 1 ex_sock ex_remote2.addr (some ex_local) (some ex_remote2)
        ⟨7012, STUN_USAGE_ICE_RETURN_SUCCESS, ex_prflx.addr⟩ 14).2.allPairs, q.ptr = 13) ∧
    ∀ q ∈ (priv_map_reply_to_conn_check_request ext0
        (ex_agent_aggressive [ex_pair_rechecked false, ex_pair_discovered] ⟨none, none, 0, 0⟩)
        1 1 ex_sock ex_remote2.addr (some ex_local) (some ex_remote2)
        ⟨7012, STUN_USAGE_ICE_RETURN_SUCCESS, ex_prflx.addr⟩ 14).2.allPairs,
      q.ptr = 13 → q.nominated = true := by
  obtain ⟨t, ht, h⟩ := aggressive_nomination_marks_target ext0
    (ex_agent_aggressive [ex_pair_rechecked false, ex_pair_discovered] ⟨none, none, 0, 0⟩)
    1 1 ex_sock ex_remote2.addr (some ex_local) ex_remote2
    ⟨7012, STUN_USAGE_ICE_RETURN_SUCCESS, ex_prflx.addr⟩ 14
    { ex_stream [ex_pair_rechecked false, ex_pair_discovered] with
      components :=
        [{ ex_component with
           local_candidates := [ex_local, ex_prflx], selected_pair := ⟨none, none, 0, 0⟩ }] }
    (ex_pair_rechecked false) 0 ex_transaction (by decide) (by decide) (by decide) (by decide)
    (by decide) (by decide) (by decide) (by decide) (by decide)
  have ht13 : t = 13 := Option.some.inj (ht.symm.trans (by decide))
  subst ht13
  exact ⟨by decide, h (Or.inl rfl)⟩

/-- C24 (counterexample): a controlling agent in aggressive nomination mode has selected the
valid nominated pair 11 and has a new check of it in flight; the success response maps to the
address of the local candidate of pair 13, discovered earlier and not nominated.  The source
check passes and the remote candidate is known; the target is pair 13, and after the response
pair 13 is still not nominated. -/
theorem aggressive_nomination_skips_target_of_nominated_pair :
    NICE_AGENT_IS_COMPATIBLE_WITH_RFC5245_OR_OC2007R2
      (ex_agent_aggressive [ex_pair_rechecked true, ex_pair_discovered]
        ⟨some ex_local, some ex_remote2, 9115005265987371519, 1845501695⟩) = true ∧
    (ex_agent_aggressive [ex_pair_rechecked true, ex_pair_discovered]
      ⟨some ex_local, some ex_remote2, 9115005265987371519, 1845501695⟩).controlling_mode =
      true ∧
    (ex_agent_aggressive [ex_pair_rechecked true, ex_pair_discovered]
      ⟨some ex_local, some ex_remote2, 9115005265987371519, 1845501695⟩).nomination_mode =
      NICE_NOMINATION_MODE_AGGRESSIVE ∧
    nice_address_equal ex_remote2.addr (ex_pair_rechecked true).remote.addr = true ∧
    map_reply_ok_pair ext0
      (ex_agent_aggressive [ex_pair_rechecked true, ex_pair_discovered]
        ⟨some ex_local, some ex_remote2, 9115005265987371519, 1845501695⟩)
      1 1 ex_sock ex_remote2.addr (some ex_local) (some ex_remote2)
      ⟨7012, STUN_USAGE_ICE_RETURN_SUCCESS, ex_prflx.addr⟩ 14 (ex_pair_rechecked true) 0 =
      some 13 ∧
    (priv_map_reply_to_conn_check_request ext0
      (ex_agent_aggressive [ex_pair_rechecked true, ex_pair_discovered]
        ⟨some ex_local, some ex_remote2, 9115005265987371519, 1845501695⟩)
      1 1 ex_sock ex_remote2.addr (some ex_local) (some ex_remote2)
      ⟨7012, STUN_USAGE_ICE_RETURN_SUCCESS, ex_prflx.addr⟩ 14).1 = true ∧
    (stream_pairs (priv_map_reply_to_conn_check_request ext0
      (ex_agent_aggressive [ex_pair_rechecked true, ex_pair_discovered]
        ⟨some ex_local, some ex_remote2, 9115005265987371519, 1845501695⟩)
      1 1 ex_sock ex_remote2.addr (some ex_local) (some ex_remote2)
      ⟨7012, STUN_USAGE_ICE_RETURN_SUCCESS, ex_prflx.addr⟩ 14).2 1).map
        (fun q => (q.ptr, q.state, q.valid, q.nominated)) =
      [(11, NICE_CHECK_SUCCEEDED, true, true), (13, NICE_CHECK_DISCOVERED, true, false)] := by
  refine ⟨by decide, by decide, by decide, by decide, by decide, by decide, by decide⟩

/-! ## The triggered-check queue and the conncheck lists -/

theorem stream_ids_of_view (a b : NiceAgent) (h : agent_view b = agent_view a) :
    b.streams.map (fun s => s.id) = a.streams.map (fun s => s.id) := by
  have h1 := congrArg (List.map (fun v : Nat × String ×
    List (Nat × List NiceCandidate × List NiceCandidate × List IncomingCheck) => v.1)) h
  unfold agent_view at h1
  simp only [List.map_map] at h1
  exact h1

theorem stream_ids_distinct_of_view (a b : NiceAgent) (h : agent_view b = agent_view a)
    (ha : stream_ids_distinct a) : stream_ids_distinct b := by
  unfold stream_ids_distinct at ha ⊢
  rw [stream_ids_of_view a b h]
  exact ha

theorem listed_of_pairs (a b : NiceAgent)
    (hp : ∀ q ∈ a.allPairs, ∃ q1 ∈ b.allPairs, q1.ptr = q.ptr)
    (x : Nat) (h : listed a x) : listed b x := by
  obtain ⟨q, hq, hx⟩ := h
  obtain ⟨q1, hq1, hx1⟩ := hp q hq
  exact ⟨q1, hq1, hx1.trans hx⟩

theorem queue_in_lists_step (a b : NiceAgent) (hn : b.triggered_check_queue.Nodup)
    (h : ∀ x ∈ b.triggered_check_queue, listed b x ∨ (x ∈ a.triggered_check_queue ∧
      ∀ q ∈ a.allPairs, q.ptr = x → listed b x))
    (ha : queue_in_lists a) : queue_in_lists b := by
  refine ⟨hn, fun x hx => ?_⟩
  rcases h x hx with h1 | ⟨h1, h2⟩
  · exact h1
  · obtain ⟨q, hq, hqx⟩ := ha.2 x h1
    exact h2 q hq hqx

theorem queue_in_lists_frame (a b : NiceAgent)
    (hq : b.triggered_check_queue = a.triggered_check_queue)
    (hp : ∀ q ∈ a.allPairs, ∃ q1 ∈ b.allPairs, q1.ptr = q.ptr)
    (ha : queue_in_lists a) : queue_in_lists b := by
  refine queue_in_lists_step a b (hq ▸ ha.1) (fun x hx => Or.inr ⟨hq ▸ hx, ?_⟩) ha
  intro q hq0 hqx
  obtain ⟨q1, hq1, hx1⟩ := hp q hq0
  exact ⟨q1, hq1, hx1.trans hqx⟩

theorem queue_in_lists_same_pairs (a b : NiceAgent)
    (hq : b.triggered_check_queue = a.triggered_check_queue)
    (hp : b.allPairs = a.allPairs)
    (ha : queue_in_lists a) : queue_in_lists b :=
  queue_in_lists_frame a b hq (fun q hq0 => ⟨q, hp.symm ▸ hq0, rfl⟩) ha

theorem queue_in_lists_updatePair (a : NiceAgent) (y : Nat)
    (f : CandidateCheckPair → CandidateCheckPair) (hf : ∀ q, (f q).ptr = q.ptr)
    (ha : queue_in_lists a) : queue_in_lists (a.updatePair y f) := by
  refine queue_in_lists_frame a _ rfl (fun q hq => ?_) ha
  refine ⟨if q.ptr = y then f q else q, ?_, ?_⟩
  · rw [allPairs_updatePair]
    exact List.mem_map.2 ⟨q, hq, rfl⟩
  · split_ifs
    · exact hf q
    · rfl

theorem queue_in_lists_add (a : NiceAgent) (x : Nat) (hx : listed a x)
    (ha : queue_in_lists a) :
    queue_in_lists (priv_add_pair_to_triggered_check_queue a x) := by
  have hl : ∀ y, listed a y → listed (priv_add_pair_to_triggered_check_queue a x) y := by
    intro y hy
    refine listed_of_pairs a _ (fun q hq => ⟨q, ?_, rfl⟩) y hy
    rw [allPairs_priv_add_pair_to_triggered_check_queue]
    exact hq
  have hq := queue_priv_add_pair_to_triggered_check_queue a x
  refine ⟨?_, fun y hy => ?_⟩
  · rw [hq]
    split_ifs with hm
    · exact ha.1
    · refine List.Nodup.append ha.1 (List.nodup_singleton x) ?_
      intro z hz hz1
      rw [List.mem_singleton.1 hz1] at hz
      exact hm hz
  · rw [hq] at hy
    split_ifs at hy with hm
    · exact hl y (ha.2 y hy)
    · rcases List.mem_append.1 hy with h | h
      · exact hl y (ha.2 y h)
      · rw [List.mem_singleton.1 h]
        exact hl x hx

theorem dequeued_nil (queue : List Nat) (hn : queue.Nodup) :
    dequeued_with [] queue [] queue :=
  ⟨hn, fun _ hx => hx, fun _ _ q hq => absurd hq (List.not_mem_nil q)⟩

theorem dequeued_keep (p p1 : CandidateCheckPair) (ps l1 : List CandidateCheckPair)
    (queue queue1 : List Nat) (hp : p1.ptr = p.ptr) (h : dequeued_with ps queue l1 queue1) :
    dequeued_with (p :: ps) queue (p1 :: l1) queue1 := by
  refine ⟨h.1, h.2.1, fun x hx q hq hqx => ?_⟩
  rcases List.mem_cons.1 hq with h0 | h0
  · exact ⟨p1, List.mem_cons_self _ _, by rw [hp, ← h0, hqx]⟩
  · obtain ⟨q1, hq1, hx1⟩ := h.2.2 x hx q h0 hqx
    exact ⟨q1, List.mem_cons_of_mem _ hq1, hx1⟩

theorem dequeued_of_remove (l l1 : List CandidateCheckPair) (queue queue1 : List Nat) (y : Nat)
    (h : dequeued_with l (g_slist_remove queue y) l1 queue1) :
    dequeued_with l queue l1 queue1 :=
  ⟨h.1, fun x hx => mem_g_slist_remove _ _ _ (h.2.1 x hx), h.2.2⟩

theorem dequeued_drop (p : CandidateCheckPair) (ps l1 : List CandidateCheckPair)
    (queue queue1 : List Nat) (hn : queue.Nodup)
    (h : dequeued_with ps (g_slist_remove queue p.ptr) l1 queue1) :
    dequeued_with (p :: ps) queue l1 queue1 := by
  refine ⟨h.1, fun x hx => mem_g_slist_remove _ _ _ (h.2.1 x hx), fun x hx q hq hqx => ?_⟩
  rcases List.mem_cons.1 hq with h0 | h0
  · exfalso
    have h1 := h.2.1 x hx
    rw [← hqx, h0] at h1
    exact (g_slist_remove_nodup queue p.ptr hn).2 h1
  · exact h.2.2 x hx q h0 hqx

theorem dequeued_conn_check_prune_socket_loop (sock : NiceSocket)
    (l : List CandidateCheckPair) (queue : List Nat) (hn : queue.Nodup) :
    dequeued_with l queue (conn_check_prune_socket_loop sock l queue).1
      (conn_check_prune_socket_loop sock l queue).2 := by
  induction l generalizing queue with
  | nil => exact dequeued_nil queue hn
  | cons p ps ih =>
    unfold conn_check_prune_socket_loop
    split_ifs
    · exact dequeued_drop p ps _ queue _ hn (ih _ (g_slist_remove_nodup queue p.ptr hn).1)
    · exact dequeued_keep p p ps _ queue _ rfl (ih queue hn)

theorem dequeued_priv_prune_pending_checks_loop (component_id priority : Nat)
    (l : List CandidateCheckPair) (queue : List Nat) (hn : queue.Nodup) :
    dequeued_with l queue (priv_prune_pending_checks_loop component_id priority l queue).1
      (priv_prune_pending_checks_loop component_id priority l queue).2.1 := by
  induction l generalizing queue with
  | nil => exact dequeued_nil queue hn
  | cons p ps ih =>
    have hr := ih _ (g_slist_remove_nodup queue p.ptr hn).1
    unfold priv_prune_pending_checks_loop
    simp only
    split_ifs
    · exact dequeued_keep p p ps _ queue _ rfl (ih queue hn)
    · exact dequeued_drop p ps _ queue _ hn hr
    · exact dequeued_keep p p ps _ queue _ rfl (ih queue hn)
    · exact dequeued_drop p ps _ queue _ hn hr
    · exact dequeued_of_remove _ _ queue _ p.ptr (dequeued_keep p _ ps _ _ _ rfl hr)
    · exact dequeued_keep p _ ps _ queue _ rfl (ih queue hn)
    · exact dequeued_keep p _ ps _ queue _ rfl (ih queue hn)
    · exact dequeued_keep p p ps _ queue _ rfl (ih queue hn)

theorem dequeued_priv_limit_conn_check_list_size_loop (max_conn_checks pair : Nat)
    (l : List CandidateCheckPair) (valid : Nat) (queue : List Nat) (hn : queue.Nodup) :
    dequeued_with l queue
      (priv_limit_conn_check_list_size_loop max_conn_checks pair l valid queue).1
      (priv_limit_conn_check_list_size_loop max_conn_checks pair l valid queue).2.1 := by
  induction l generalizing valid queue with
  | nil => exact dequeued_nil queue hn
  | cons p ps ih =>
    unfold priv_limit_conn_check_list_size_loop
    split_ifs
    · exact dequeued_drop p ps _ queue _ hn (ih _ _ (g_slist_remove_nodup queue p.ptr hn).1)
    · exact dequeued_keep p p ps _ queue _ rfl (ih _ queue hn)

theorem stream_of_id (a : NiceAgent) (hids : stream_ids_distinct a) (sid : Nat)
    (stream s0 : NiceStream) (hs : agent_find_stream a sid = some stream)
    (h0 : s0 ∈ a.streams) (hid : s0.id = sid) : s0 = stream := by
  have h1 := agent_find_stream_some a sid stream hs
  exact List.inj_on_of_nodup_map hids h0 h1.1 (hid.trans h1.2.symm)

theorem queue_in_lists_remove (a : NiceAgent) (sid : Nat) (stream : NiceStream)
    (l1 : List CandidateCheckPair) (queue1 : List Nat) (hids : stream_ids_distinct a)
    (hs : agent_find_stream a sid = some stream)
    (hd : dequeued_with stream.conncheck_list a.triggered_check_queue l1 queue1)
    (ha : queue_in_lists a) :
    queue_in_lists
      { a.updateStream sid (fun s => { s with conncheck_list := l1 }) with
        triggered_check_queue := queue1 } := by
  refine queue_in_lists_step a _ hd.1 (fun x hx => Or.inr ⟨hd.2.1 x hx, ?_⟩) ha
  intro q hq hqx
  unfold NiceAgent.allPairs at hq
  rw [List.mem_flatMap] at hq
  obtain ⟨s0, hs0, hq0⟩ := hq
  have hall : ∀ (s1 : NiceStream) (q1 : CandidateCheckPair),
      s1 ∈ (a.updateStream sid (fun s => { s with conncheck_list := l1 })).streams →
      q1 ∈ s1.conncheck_list → q1.ptr = x →
      listed { a.updateStream sid (fun s => { s with conncheck_list := l1 }) with
        triggered_check_queue := queue1 } x := by
    intro s1 q1 h1 h2 h3
    refine ⟨q1, ?_, h3⟩
    unfold NiceAgent.allPairs
    rw [List.mem_flatMap]
    exact ⟨s1, h1, h2⟩
  by_cases hid : s0.id = sid
  · have he := stream_of_id a hids sid stream s0 hs hs0 hid
    subst he
    obtain ⟨q1, hq1, hx1⟩ := hd.2.2 x hx q hq0 hqx
    refine hall { s0 with conncheck_list := l1 } q1 ?_ hq1 hx1
    unfold NiceAgent.updateStream
    exact List.mem_map.2 ⟨s0, hs0, by rw [if_pos hid]⟩
  · refine hall s0 q ?_ hq0 hqx
    unfold NiceAgent.updateStream
    exact List.mem_map.2 ⟨s0, hs0, by rw [if_neg hid]⟩

theorem queue_in_lists_signal (a : NiceAgent) (sid cid : Nat) (st : NiceComponentState)
    (ha : queue_in_lists a) :
    queue_in_lists (agent_signal_component_state_change a sid cid st) :=
  queue_in_lists_same_pairs a _ (agent_signal_component_state_change_pairs a sid cid st).1
    (allPairs_agent_signal_component_state_change a sid cid st) ha

theorem queue_in_lists_conn_check_prune_socket (a : NiceAgent) (sid cid : Nat)
    (sock : NiceSocket) (hids : stream_ids_distinct a) (ha : queue_in_lists a) :
    queue_in_lists (conn_check_prune_socket a sid cid sock) := by
  unfold conn_check_prune_socket
  split
  · exact ha
  · simp only
    have h1 : ∀ c : Prop, ∀ _ : Decidable c, queue_in_lists
        (if c then agent_signal_component_state_change a sid cid NICE_COMPONENT_STATE_FAILED
          else a) ∧ stream_ids_distinct
        (if c then agent_signal_component_state_change a sid cid NICE_COMPONENT_STATE_FAILED
          else a) := by
      intro c _
      split_ifs
      · exact ⟨queue_in_lists_signal a sid cid _ ha,
          stream_ids_distinct_of_view a _ (agent_view_signal a sid cid _) hids⟩
      · exact ⟨ha, hids⟩
    split
    · exact (h1 _ _).1
    · rename_i stream hs
      exact queue_in_lists_remove _ sid stream _ _ (h1 _ _).2 hs
        (dequeued_conn_check_prune_socket_loop sock _ _ (h1 _ _).1.1) (h1 _ _).1

theorem queue_in_lists_priv_prune_pending_checks (a : NiceAgent) (sid cid : Nat)
    (hids : stream_ids_distinct a) (ha : queue_in_lists a) :
    queue_in_lists (priv_prune_pending_checks a sid cid).2 := by
  unfold priv_prune_pending_checks
  cases h : agent_find_component a sid cid with
  | none => exact ha
  | some r =>
    obtain ⟨stream, component⟩ := r
    simp only
    exact queue_in_lists_remove a sid stream _ _ hids
      (agent_find_component_some a sid cid _ _ h).1
      (dequeued_priv_prune_pending_checks_loop cid _ _ _ ha.1) ha

theorem queue_in_lists_for_ready (a : NiceAgent) (sid cid : Nat)
    (hids : stream_ids_distinct a) (ha : queue_in_lists a) :
    queue_in_lists (conn_check_update_check_list_state_for_ready a sid cid) := by
  unfold conn_check_update_check_list_state_for_ready
  split
  · exact ha
  · simp only
    have hp := queue_in_lists_priv_prune_pending_checks a sid cid hids ha
    split_ifs
    all_goals first
      | exact ha
      | exact hp
      | exact queue_in_lists_signal _ _ _ _ hp
      | exact queue_in_lists_signal _ _ _ _ (queue_in_lists_signal _ _ _ _ hp)
      | exact queue_in_lists_signal _ _ _ _
          (queue_in_lists_signal _ _ _ _ (queue_in_lists_signal _ _ _ _ hp))

theorem queue_in_lists_priv_limit_conn_check_list_size (a : NiceAgent) (sid pair : Nat)
    (hids : stream_ids_distinct a) (ha : queue_in_lists a) :
    queue_in_lists (priv_limit_conn_check_list_size a sid pair).2 := by
  unfold priv_limit_conn_check_list_size
  cases h : agent_find_stream a sid with
  | none => exact ha
  | some stream =>
    simp only
    exact queue_in_lists_remove a sid stream _ _ hids h
      (dequeued_priv_limit_conn_check_list_size_loop _ pair _ 0 _ ha.1) ha

theorem dequeued_free_all (l : List CandidateCheckPair) (queue : List Nat) (hn : queue.Nodup) :
    dequeued_with l queue []
      (l.foldl (fun (Q : List Nat) (item : CandidateCheckPair) => g_slist_remove Q item.ptr)
        queue) := by
  induction l generalizing queue with
  | nil => exact dequeued_nil queue hn
  | cons p ps ih =>
    rw [List.foldl_cons]
    exact dequeued_drop p ps _ queue _ hn (ih _ (g_slist_remove_nodup queue p.ptr hn).1)

theorem free_all_eq (l : List CandidateCheckPair) (a : NiceAgent) :
    l.foldl (fun (a : NiceAgent) (item : CandidateCheckPair) =>
      candidate_check_pair_free a item.ptr) a =
    { a with triggered_check_queue :=
        (l.foldl (fun (Q : List Nat) (item : CandidateCheckPair) => g_slist_remove Q item.ptr)
          a.triggered_check_queue) } := by
  induction l generalizing a with
  | nil => rfl
  | cons p ps ih =>
    rw [List.foldl_cons, List.foldl_cons, ih]
    rfl

theorem conn_check_stop_pairs (a : NiceAgent) :
    (conn_check_stop a).triggered_check_queue = a.triggered_check_queue ∧
    (conn_check_stop a).streams = a.streams := by
  unfold conn_check_stop
  split_ifs
  · exact ⟨rfl, rfl⟩
  · exact ⟨rfl, rfl⟩

theorem conn_check_prune_stream_mid (a : NiceAgent) (sid : Nat) :
    ∃ b : NiceAgent,
      (conn_check_prune_stream a sid).triggered_check_queue = b.triggered_check_queue ∧
      (conn_check_prune_stream a sid).streams = b.streams ∧
      (b = a ∧ stream_pairs a sid = [] ∨
        ∃ stream, agent_find_stream a sid = some stream ∧
          b = { a.updateStream sid (fun s => { s with conncheck_list := [] }) with
            triggered_check_queue := (stream.conncheck_list.foldl
              (fun (Q : List Nat) (item : CandidateCheckPair) => g_slist_remove Q item.ptr)
              a.triggered_check_queue) }) := by
  unfold conn_check_prune_stream
  cases hs : agent_find_stream a sid with
  | none =>
    refine ⟨a, rfl, rfl, Or.inl ⟨rfl, ?_⟩⟩
    unfold stream_pairs
    rw [hs]
  | some stream =>
    simp only
    have hstop : ∀ (c : Prop) (_ : Decidable c) (b : NiceAgent),
        (if c then conn_check_stop b else b).triggered_check_queue = b.triggered_check_queue ∧
        (if c then conn_check_stop b else b).streams = b.streams := by
      intro c _ b
      split_ifs
      · exact conn_check_stop_pairs b
      · exact ⟨rfl, rfl⟩
    by_cases hl : stream.conncheck_list ≠ []
    · rw [if_pos hl]
      refine ⟨_, (hstop _ _ _).1, (hstop _ _ _).2, Or.inr ⟨stream, rfl, ?_⟩⟩
      rw [free_all_eq]
      rfl
    · rw [if_neg hl]
      refine ⟨a, (hstop _ _ _).1, (hstop _ _ _).2, Or.inl ⟨rfl, ?_⟩⟩
      unfold stream_pairs
      rw [hs]
      simpa using hl

theorem stream_pairs_of_streams (a b : NiceAgent) (h : b.streams = a.streams) (sid : Nat) :
    stream_pairs b sid = stream_pairs a sid := by
  unfold stream_pairs agent_find_stream
  rw [h]

theorem allPairs_of_streams (a b : NiceAgent) (h : b.streams = a.streams) :
    b.allPairs = a.allPairs := by
  unfold NiceAgent.allPairs
  rw [h]

theorem queue_in_lists_conn_check_prune_stream (a : NiceAgent) (sid : Nat)
    (hids : stream_ids_distinct a) (ha : queue_in_lists a) :
    queue_in_lists (conn_check_prune_stream a sid) ∧
    stream_pairs (conn_check_prune_stream a sid) sid = [] ∧
    ∀ q ∈ stream_pairs a sid,
      q.ptr ∉ (conn_check_prune_stream a sid).triggered_check_queue := by
  obtain ⟨b, hq, hp, hb⟩ := conn_check_prune_stream_mid a sid
  rcases hb with ⟨hb, hnil⟩ | ⟨stream, hs, hb⟩
  · subst hb
    refine ⟨queue_in_lists_same_pairs _ _ hq (allPairs_of_streams _ _ hp) ha, ?_, ?_⟩
    · rw [stream_pairs_of_streams _ _ hp, hnil]
    · rw [hnil]
      intro q hq0
      exact absurd hq0 (List.not_mem_nil q)
  · have hd := dequeued_free_all stream.conncheck_list a.triggered_check_queue ha.1
    have hb1 := queue_in_lists_remove a sid stream [] _ hids hs hd ha
    rw [← hb] at hb1
    refine ⟨queue_in_lists_same_pairs _ _ hq (allPairs_of_streams _ _ hp) hb1, ?_, ?_⟩
    · rw [stream_pairs_of_streams _ _ hp, hb, stream_pairs_queue,
        stream_pairs_updateStream_list a sid sid (fun _ => []), if_pos rfl, hs]
    · intro q hq0 hmem
      rw [hq, hb] at hmem
      unfold stream_pairs at hq0
      rw [hs] at hq0
      obtain ⟨q1, hq1, _⟩ := hd.2.2 q.ptr hmem q hq0 rfl
      exact absurd hq1 (List.not_mem_nil q1)

theorem mem_allPairs_updateStream (a : NiceAgent) (sid : Nat) (f : NiceStream → NiceStream)
    (hf : ∀ s : NiceStream, ∀ q ∈ s.conncheck_list, q ∈ (f s).conncheck_list)
    (q : CandidateCheckPair) (hq : q ∈ a.allPairs) : q ∈ (a.updateStream sid f).allPairs := by
  unfold NiceAgent.allPairs at hq ⊢
  rw [List.mem_flatMap] at hq ⊢
  obtain ⟨s, hs, hq0⟩ := hq
  unfold NiceAgent.updateStream
  refine ⟨if s.id = sid then f s else s, List.mem_map.2 ⟨s, hs, rfl⟩, ?_⟩
  split_ifs
  · exact hf s q hq0
  · exact hq0

theorem queue_in_lists_priv_conn_check_unfreeze_maybe (E : Ext) (a : NiceAgent)
    (pair : CandidateCheckPair) (ha : queue_in_lists a) :
    queue_in_lists (priv_conn_check_unfreeze_maybe E a pair) := by
  unfold priv_conn_check_unfreeze_maybe
  split_ifs
  · exact queue_in_lists_updatePair a _ _ (fun _ => rfl) ha
  · exact ha

theorem agent_view_priv_conn_check_unfreeze_maybe (E : Ext) (a : NiceAgent)
    (pair : CandidateCheckPair) :
    agent_view (priv_conn_check_unfreeze_maybe E a pair) = agent_view a := by
  unfold priv_conn_check_unfreeze_maybe
  split_ifs
  · exact agent_view_updatePair a _ _
  · rfl

theorem queue_in_lists_priv_add_new_check_pair (E : Ext) (a : NiceAgent) (sid : Nat)
    (component : NiceComponent) (local_ remote : NiceCandidate) (initial_state : NiceCheckState)
    (new_pair : Nat) (hids : stream_ids_distinct a) (ha : queue_in_lists a) :
    queue_in_lists (priv_add_new_check_pair E a sid component local_ remote initial_state
      new_pair).2 := by
  unfold priv_add_new_check_pair
  cases hins : priv_add_new_check_pair_insert E a sid component local_ remote initial_state
      new_pair with
  | none => exact ha
  | some agent1 =>
    have hins1 : agent1 = a.updateStream sid (fun s =>
        { s with conncheck_list := (g_slist_insert_sorted s.conncheck_list
            (priv_add_new_check_pair_record E a sid component local_ remote initial_state
              new_pair) conn_check_compare) }) := by
      unfold priv_add_new_check_pair_insert at hins
      simp only at hins
      split_ifs at hins
      exact (Option.some.inj hins).symm
    have h1 : queue_in_lists agent1 ∧ stream_ids_distinct agent1 := by
      rw [hins1]
      refine ⟨queue_in_lists_frame a _ rfl (fun q hq => ⟨q, ?_, rfl⟩) ha,
        stream_ids_distinct_of_view a _ (agent_view_updateStream a sid _ (fun _ => rfl)) hids⟩
      apply mem_allPairs_updateStream a sid _ ?_ q hq
      intro s q0 hq0
      simp only
      rw [mem_g_slist_insert_sorted]
      exact Or.inr hq0
    have hu : ∀ pair : CandidateCheckPair,
        queue_in_lists (priv_conn_check_unfreeze_maybe E agent1 pair) ∧
        stream_ids_distinct (priv_conn_check_unfreeze_maybe E agent1 pair) :=
      fun pair => ⟨queue_in_lists_priv_conn_check_unfreeze_maybe E agent1 pair h1.1,
        stream_ids_distinct_of_view agent1 _
          (agent_view_priv_conn_check_unfreeze_maybe E agent1 pair) h1.2⟩
    simp only
    split_ifs
    all_goals first
      | exact queue_in_lists_priv_limit_conn_check_list_size _ sid new_pair (hu _).2 (hu _).1
      | exact queue_in_lists_priv_limit_conn_check_list_size _ sid new_pair h1.2 h1.1
      | exact (hu _).1
      | exact h1.1

theorem queue_in_lists_priv_conn_check_add_for_candidate_pair_matched (E : Ext)
    (a : NiceAgent) (sid : Nat) (component : NiceComponent) (local_ remote : NiceCandidate)
    (initial_state : NiceCheckState) (new_pair : Nat) (hids : stream_ids_distinct a)
    (ha : queue_in_lists a) :
    queue_in_lists (priv_conn_check_add_for_candidate_pair_matched E a sid component local_
      remote initial_state new_pair).2 := by
  have h1 := queue_in_lists_priv_add_new_check_pair E a sid component local_ remote
    initial_state new_pair hids ha
  unfold priv_conn_check_add_for_candidate_pair_matched
  simp only
  split
  · exact h1
  · split_ifs
    · exact queue_in_lists_signal _ _ _ _ h1
    · exact queue_in_lists_signal _ _ _ _ h1

theorem queue_in_lists_conn_check_schedule_next (a : NiceAgent) (ha : queue_in_lists a) :
    queue_in_lists (conn_check_schedule_next a) :=
  queue_in_lists_same_pairs a _ (queue_conn_check_schedule_next a).1
    (queue_conn_check_schedule_next a).2 ha

theorem queue_in_lists_schedule_triggered_check_pair (a : NiceAgent) (sid : Nat)
    (component : NiceComponent) (p : CandidateCheckPair) (hp : listed a p.ptr)
    (ha : queue_in_lists a) :
    queue_in_lists (schedule_triggered_check_pair a sid component p) := by
  have h1 := queue_in_lists_add a p.ptr hp ha
  unfold schedule_triggered_check_pair
  split
  · exact h1
  · exact h1
  · split_ifs
    · exact h1
    · exact ha
  · simp only
    split_ifs
    · exact queue_in_lists_conn_check_schedule_next _ (queue_in_lists_signal _ _ _ _ h1)
    · exact queue_in_lists_conn_check_schedule_next _ (queue_in_lists_signal _ _ _ _ h1)
    · exact h1
    · exact ha
  · exact ha
  · exact ha

theorem queue_in_lists_priv_schedule_triggered_check (E : Ext) (a : NiceAgent)
    (sid cid : Nat) (local_socket : NiceSocket) (remote_cand : NiceCandidate) (new_pair : Nat)
    (hids : stream_ids_distinct a) (ha : queue_in_lists a) :
    queue_in_lists (priv_schedule_triggered_check E a sid cid local_socket remote_cand
      new_pair).2 := by
  cases hfind : agent_find_component a sid cid with
  | none =>
    unfold priv_schedule_triggered_check
    rw [hfind]
    exact ha
  | some r =>
    obtain ⟨stream, component⟩ := r
    have hs := agent_find_component_some a sid cid stream component hfind
    cases hp0 : stream.conncheck_list.find? (fun p => p.component_id == component.id &&
        p.remote.ptr == remote_cand.ptr && p.sockptr.ptr == local_socket.ptr) with
    | some p0 =>
      rw [priv_schedule_triggered_check_known E a sid cid local_socket remote_cand new_pair
        stream component p0 hfind hp0]
      have hmem : p0 ∈ a.allPairs :=
        mem_allPairs_of_stream a stream hs.2.1 p0 (List.mem_of_find?_eq_some hp0)
      exact queue_in_lists_schedule_triggered_check_pair a sid component _
        ⟨_, nominate_checked_pair_mem a p0 hmem, rfl⟩ ha
    | none =>
      unfold priv_schedule_triggered_check
      rw [hfind]
      simp only
      rw [hp0]
      simp only
      split
      · rename_i local_ _
        have h1 := queue_in_lists_priv_conn_check_add_for_candidate_pair_matched E a sid
          component local_ remote_cand NICE_CHECK_WAITING new_pair hids ha
        split
        · rename_i p hr
          obtain ⟨hpn, q, hq, hqx, _⟩ := priv_conn_check_add_for_candidate_pair_matched_mem E a
            sid component local_ remote_cand NICE_CHECK_WAITING new_pair stream hs.1 p hr
          refine queue_in_lists_add _ p ⟨q, mem_allPairs_of_stream_pairs _ sid q hq, ?_⟩ h1
          rw [hqx, hpn]
        · exact h1
      · exact ha

theorem queue_in_lists_nominate_component_regular (a : NiceAgent) (sid : Nat)
    (osp : Option CandidateCheckPair) (cid : Nat) (ha : queue_in_lists a) :
    queue_in_lists (nominate_component_regular a sid osp cid).2 := by
  rcases nominate_component_regular_cases a sid osp cid with h | ⟨p, hp, _, _, h⟩
  · rw [h]; exact ha
  · rw [h]
    have hmem := nominate_checked_pair_mem a p (mem_allPairs_of_stream_pairs a sid p hp)
    refine queue_in_lists_add _ _ ?_ (queue_in_lists_updatePair a _ _ (fun _ => rfl) ha)
    refine ⟨{ nominate_checked_pair a p with use_candidate_on_next_check := true }, ?_, rfl⟩
    rw [allPairs_updatePair]
    exact List.mem_map.2 ⟨nominate_checked_pair a p, hmem, by rw [if_pos rfl]⟩

theorem queue_in_lists_conn_check_update_selected_pair (E : Ext) (a : NiceAgent)
    (sid cid : Nat) (pair : CandidateCheckPair) (ha : queue_in_lists a) :
    queue_in_lists (conn_check_update_selected_pair E a sid cid pair) :=
  queue_in_lists_same_pairs a _ (conn_check_update_selected_pair_pairs E a sid cid pair sid).2
    (allPairs_conn_check_update_selected_pair E a sid cid pair) ha

theorem queue_in_lists_nominate_component_legacy (E : Ext) (a : NiceAgent) (sid cid : Nat)
    (ha : queue_in_lists a) :
    queue_in_lists (nominate_component_legacy E a sid cid).2 := by
  unfold nominate_component_legacy
  split
  · exact ha
  · rename_i stream hs
    split
    · exact ha
    · rename_i p hp
      simp only
      have hmem : p ∈ a.allPairs :=
        mem_allPairs_of_stream a stream (agent_find_stream_some a sid stream hs).1 p
          (List.mem_of_find?_eq_some hp)
      refine queue_in_lists_add _ _ ?_ (queue_in_lists_conn_check_update_selected_pair E _ _ _
        _ (queue_in_lists_updatePair a _ _ (fun _ => rfl) ha))
      refine ⟨{ p with nominated := true }, ?_, rfl⟩
      rw [allPairs_conn_check_update_selected_pair, allPairs_updatePair]
      exact List.mem_map.2 ⟨p, hmem, by rw [if_pos rfl]⟩

theorem queue_in_lists_nominate_components (step : NiceAgent → Nat → Bool × NiceAgent)
    (hstep : ∀ a cid, queue_in_lists a → queue_in_lists (step a cid).2)
    (ids : List Nat) (k : Bool) (a : NiceAgent) (ha : queue_in_lists a) :
    queue_in_lists (nominate_components step ids k a).2 := by
  induction ids generalizing k a with
  | nil => exact ha
  | cons c cs ih =>
    rw [nominate_components_cons]
    exact ih _ _ (hstep a c ha)

theorem queue_in_lists_priv_conn_check_tick_stream_nominate (E : Ext) (a : NiceAgent)
    (sid : Nat) (ha : queue_in_lists a) :
    queue_in_lists (priv_conn_check_tick_stream_nominate E a sid).2 := by
  unfold priv_conn_check_tick_stream_nominate
  split
  · exact ha
  · simp only
    have htick : ∀ b : NiceAgent, queue_in_lists b →
        queue_in_lists (b.updateStream sid
          (fun s => { s with tick_counter := (s.tick_counter + 1) % 2 ^ 32 })) :=
      fun b hb => queue_in_lists_same_pairs b _ rfl
        (allPairs_updateStream_tick_counter b sid _ (fun _ => by rfl)) hb
    apply htick
    split_ifs
    all_goals first
      | exact ha
      | exact queue_in_lists_nominate_components _
          (fun b cid hb => queue_in_lists_nominate_component_regular b sid _ cid hb) _ _ a ha
      | exact queue_in_lists_nominate_components _
          (fun b cid hb => queue_in_lists_nominate_component_legacy E b sid cid hb) _ _ a ha

theorem queue_in_lists_priv_check_for_role_conflict (E : Ext) (a : NiceAgent) (control : Bool)
    (ha : queue_in_lists a) : queue_in_lists (priv_check_for_role_conflict E a control) := by
  refine queue_in_lists_frame a _ ?_ ?_ ha
  · unfold priv_check_for_role_conflict
    split_ifs <;> rfl
  · intro q hq
    unfold NiceAgent.allPairs at hq
    rw [List.mem_flatMap] at hq
    obtain ⟨s, hs, hq0⟩ := hq
    obtain ⟨s1, hs1, _, p1, hp1, hx, _⟩ :=
      priv_check_for_role_conflict_keeps_pair E a control s hs q hq0
    exact ⟨p1, mem_allPairs_of_stream _ s1 hs1 p1 hp1, hx⟩

theorem queue_in_lists_role_conflict_branch (E : Ext) (a : NiceAgent) (sid cid : Nat)
    (sockptr : NiceSocket) (from_ : NiceAddress)
    (local_candidate remote_candidate : Option NiceCandidate) (resp : StunResponse)
    (new_pair : Nat) (hres : resp.res = STUN_USAGE_ICE_RETURN_ROLE_CONFLICT)
    (ha : queue_in_lists a) :
    queue_in_lists (priv_map_reply_to_conn_check_request E a sid cid sockptr from_
      local_candidate remote_candidate resp new_pair).2 := by
  unfold priv_map_reply_to_conn_check_request
  split
  · exact ha
  · rename_i stream hstream
    split
    · exact ha
    · rename_i p k stun hfind
      have hp : p ∈ a.allPairs :=
        mem_allPairs_of_stream a stream (agent_find_stream_some a sid stream hstream).1 p
          (find_matching_request_mem _ _ _ _ _ hfind)
      rw [if_neg (by rw [hres]; decide), if_pos hres]
      split_ifs
      · exact ha
      · simp only
        have h1 := queue_in_lists_priv_check_for_role_conflict E a stun.message.ice_controlled ha
        have h2 := queue_in_lists_updatePair _ p.ptr (fun q => priv_remove_stun_transaction q k)
          (fun _ => by rfl) h1
        refine queue_in_lists_add _ p.ptr ?_ h2
        have hl : listed a p.ptr := ⟨p, hp, rfl⟩
        have hl1 : listed (priv_check_for_role_conflict E a stun.message.ice_controlled)
            p.ptr := by
          obtain ⟨q, hq, hx⟩ := hl
          unfold NiceAgent.allPairs at hq
          rw [List.mem_flatMap] at hq
          obtain ⟨s, hs, hq0⟩ := hq
          obtain ⟨s1, hs1, _, p1, hp1, hx1, _⟩ :=
            priv_check_for_role_conflict_keeps_pair E a stun.message.ice_controlled s hs q hq0
          exact ⟨p1, mem_allPairs_of_stream _ s1 hs1 p1 hp1, hx1.trans hx⟩
        obtain ⟨q, hq, hx⟩ := hl1
        refine ⟨if q.ptr = p.ptr then priv_remove_stun_transaction q k else q, ?_, ?_⟩
        · rw [allPairs_updatePair]
          exact List.mem_map.2 ⟨q, hq, rfl⟩
        · rw [if_pos hx]
          exact hx

/-- C23: in an agent whose streams have distinct ids and in which every pair of the
triggered-check queue is in the conncheck list of some stream (and no pair is queued twice),
the same holds after each operation that removes pairs (`conn_check_prune_stream`,
`conn_check_prune_socket`, `priv_prune_pending_checks`, `priv_limit_conn_check_list_size`),
after the role-conflict branch of `priv_map_reply_to_conn_check_request` and, when every
`succeeded_pair` link is the address of a pair of a list, after `priv_schedule_triggered_check`
and `priv_conn_check_tick_stream_nominate`.  After `conn_check_prune_stream` the list of the
stream is empty and the queue holds none of the pairs the list had.  The links are not kept up
by the removals: `priv_limit_conn_check_list_size` removes the failed parent 11 of the
Discovered pair 13 of the example list, pair 13 keeps its link to the address 11, and that
address is in no list, while pair 13 is the pair a request from its remote candidate on its
socket is matched to. -/
theorem triggered_check_queue_pairs_are_listed (E : Ext) (agent : NiceAgent)
    (hids : stream_ids_distinct agent) (h : queue_in_lists agent) :
    (∀ sid : Nat, queue_in_lists (conn_check_prune_stream agent sid) ∧
      stream_pairs (conn_check_prune_stream agent sid) sid = [] ∧
      ∀ q ∈ stream_pairs agent sid,
        q.ptr ∉ (conn_check_prune_stream agent sid).triggered_check_queue) ∧
    (∀ (sid cid : Nat) (sock : NiceSocket),
      queue_in_lists (conn_check_prune_socket agent sid cid sock)) ∧
    (∀ sid cid : Nat, queue_in_lists (priv_prune_pending_checks agent sid cid).2) ∧
    (∀ sid pair : Nat, queue_in_lists (priv_limit_conn_check_list_size agent sid pair).2) ∧
    (∀ (sid cid : Nat) (sockptr : NiceSocket) (from_ : NiceAddress)
      (local_candidate remote_candidate : Option NiceCandidate) (resp : StunResponse)
      (new_pair : Nat), resp.res = STUN_USAGE_ICE_RETURN_ROLE_CONFLICT →
      queue_in_lists (priv_map_reply_to_conn_check_request E agent sid cid sockptr from_
        local_candidate remote_candidate resp new_pair).2) ∧
    (parents_listed agent →
      (∀ (sid cid : Nat) (local_socket : NiceSocket) (remote_cand : NiceCandidate)
        (new_pair : Nat), queue_in_lists (priv_schedule_triggered_check E agent sid cid
          local_socket remote_cand new_pair).2) ∧
      ∀ sid : Nat, queue_in_lists (priv_conn_check_tick_stream_nominate E agent sid).2) ∧
    (parents_listed (ex_agent NICE_COMPATIBILITY_RFC5245 ex_list_parent_failed []) ∧
      (stream_pairs (priv_limit_conn_check_list_size
        (ex_agent NICE_COMPATIBILITY_RFC5245 ex_list_parent_failed []) 1 0).2 1).map
          (fun q => (q.ptr, q.state, q.valid, q.succeeded_pair)) =
        [(13, NICE_CHECK_DISCOVERED, true, some 11)] ∧
      ¬ listed (priv_limit_conn_check_list_size
        (ex_agent NICE_COMPATIBILITY_RFC5245 ex_list_parent_failed []) 1 0).2 11 ∧
      ¬ parents_listed (priv_limit_conn_check_list_size
        (ex_agent NICE_COMPATIBILITY_RFC5245 ex_list_parent_failed []) 1 0).2 ∧
      ((stream_pairs (priv_limit_conn_check_list_size
        (ex_agent NICE_COMPATIBILITY_RFC5245 ex_list_parent_failed []) 1 0).2 1).find?
          (fun p => p.component_id == ex_component.id && p.remote.ptr == ex_remote2.ptr &&
            p.sockptr.ptr == ex_sock.ptr)).map (fun q => q.ptr) = some 13) :=
  ⟨fun sid => queue_in_lists_conn_check_prune_stream agent sid hids h,
   fun sid cid sock => queue_in_lists_conn_check_prune_socket agent sid cid sock hids h,
   fun sid cid => queue_in_lists_priv_prune_pending_checks agent sid cid hids h,
   fun sid pair => queue_in_lists_priv_limit_conn_check_list_size agent sid pair hids h,
   fun sid cid sockptr from_ local_candidate remote_candidate resp new_pair hres =>
     queue_in_lists_role_conflict_branch E agent sid cid sockptr from_ local_candidate
       remote_candidate resp new_pair hres h,
   fun _ => ⟨fun sid cid local_socket remote_cand new_pair =>
     queue_in_lists_priv_schedule_triggered_check E agent sid cid local_socket remote_cand
       new_pair hids h,
     fun sid => queue_in_lists_priv_conn_check_tick_stream_nominate E agent sid h⟩,
   by decide, by decide, by decide, by decide, by decide⟩

/-- C23 (witness): the example agent has the pairs 11 and 12 in the list of stream 1 and pair
12 in the triggered-check queue.  After `conn_check_prune_stream` the list is empty and so is
the queue; after `priv_prune_pending_checks`, which unqueues the InProgress pair 12 of lower
priority and keeps it in the list, the queue is empty as well; a request from the remote
candidate of pair 12 leaves the queue as it is. -/
theorem triggered_check_queue_pairs_are_listed_witness :
    (queue_in_lists (conn_check_prune_stream ex_agent_nominated 1) ∧
      stream_pairs (conn_check_prune_stream ex_agent_nominated 1) 1 = [] ∧
      ∀ q ∈ stream_pairs ex_agent_nominated 1,
        q.ptr ∉ (conn_check_prune_stream ex_agent_nominated 1).triggered_check_queue) ∧
    ex_agent_nominated.triggered_check_queue = [12] ∧
    (conn_check_prune_stream ex_agent_nominated 1).triggered_check_queue = [] ∧
    queue_in_lists (priv_prune_pending_checks ex_agent_nominated 1 1).2 ∧
    (priv_prune_pending_checks ex_agent_nominated 1 1).2.triggered_check_queue = [] ∧
    queue_in_lists (priv_schedule_triggered_check ext0 ex_agent_nominated 1 1 ex_sock
      ex_remote 30).2 :=
  ⟨(triggered_check_queue_pairs_are_listed ext0 ex_agent_nominated (by decide)
      (by decide)).1 1,
   by decide, by decide,
   (triggered_check_queue_pairs_are_listed ext0 ex_agent_nominated (by decide)
      (by decide)).2.2.1 1 1,
   by decide,
   ((triggered_check_queue_pairs_are_listed ext0 ex_agent_nominated (by decide)
      (by decide)).2.2.2.2.2.1 (by decide)).1 1 1 ex_sock ex_remote 30⟩

theorem renomination_general (E : Ext) (agent : NiceAgent) (sid cid : Nat)
    (local_ remote : NiceCandidate) (stream : NiceStream) (component : NiceComponent)
    (pair0 : CandidateCheckPair)
    (hctl : agent.controlling_mode = false)
    (hrfc : NICE_AGENT_IS_COMPATIBLE_WITH_RFC5245_OR_OC2007R2 agent = true)
    (hsup : agent.support_renomination = true)
    (hfind : agent_find_component agent sid cid = some (stream, component))
    (hsel : renomination_other_pair_selected component local_ remote)
    (hnd : (stream.conncheck_list.map (fun q => q.ptr)).Nodup)
    (h0 : pair0 ∈ stream.conncheck_list)
    (hl : pair0.local_.ptr = local_.ptr) (hr : pair0.remote.ptr = remote.ptr)
    (huniq : ∀ q ∈ stream.conncheck_list, q.local_.ptr = local_.ptr →
      q.remote.ptr = remote.ptr → q = pair0)
    (hvalid : pair0.valid = true)
    (htarget : pair0.state ≠ NICE_CHECK_SUCCEEDED ∨ pair0.discovered_pair = none)
    (hov : component.selected_pair.priority + 1 < 2 ^ 64) :
    (conn_check_handle_renomination E agent sid cid 4 (some remote) (some local_)).1 = true ∧
    (∀ q ∈ stream_pairs (conn_check_handle_renomination E agent sid cid 4 (some remote)
        (some local_)).2 sid, q.ptr = pair0.ptr →
      q.priority = component.selected_pair.priority + 1 ∧ q.nominated = true) ∧
    selected_pair_of (conn_check_handle_renomination E agent sid cid 4 (some remote)
        (some local_)).2 sid cid =
      some ⟨some pair0.local_, some pair0.remote, component.selected_pair.priority + 1,
        pair0.stun_priority⟩ := by
  have hs := agent_find_component_some agent sid cid stream component hfind
  obtain ⟨pre, post, hsplit⟩ := List.append_of_mem h0
  have hnd2 : pair0.ptr ∉ pre.map (fun q => q.ptr) ++ post.map (fun q => q.ptr) := by
    rw [hsplit, List.map_append, List.map_cons] at hnd
    exact (List.nodup_cons.1 (List.nodup_middle.1 hnd)).1
  have hpre : ∀ q ∈ pre, ¬ (q.local_.ptr = local_.ptr ∧ q.remote.ptr = remote.ptr) := by
    intro q hq hm
    have hqm : q ∈ stream.conncheck_list := by rw [hsplit]; exact List.mem_append_left _ hq
    have := huniq q hqm hm.1 hm.2
    apply hnd2
    rw [← this]
    exact List.mem_append_left _ (List.mem_map.2 ⟨q, hq, rfl⟩)
  have hpost : ∀ q ∈ post, ¬ (q.local_.ptr = local_.ptr ∧ q.remote.ptr = remote.ptr) := by
    intro q hq hm
    have hqm : q ∈ stream.conncheck_list := by
      rw [hsplit]; exact List.mem_append_right _ (List.mem_cons_of_mem _ hq)
    have := huniq q hqm hm.1 hm.2
    apply hnd2
    rw [← this]
    exact List.mem_append_right _ (List.mem_map.2 ⟨q, hq, rfl⟩)
  have hmod : (component.selected_pair.priority + 1) % 2 ^ 64 =
      component.selected_pair.priority + 1 := Nat.mod_eq_of_lt hov
  have hraise : renomination_raise_priority local_ remote component.selected_pair.priority
      stream.conncheck_list =
      pre ++ { pair0 with priority := component.selected_pair.priority + 1 } :: post := by
    rw [hsplit, renomination_raise_priority_spec local_ remote _ pre pair0 post hpre ⟨hl, hr⟩,
      if_pos hvalid, hmod]
  have hres : conn_check_handle_renomination E agent sid cid 4 (some remote) (some local_) =
      (true, priv_mark_pair_nominated E
        (agent.updateStream sid (fun s => { s with conncheck_list :=
          (renomination_raise_priority local_ remote component.selected_pair.priority
            s.conncheck_list) })) sid cid (some local_) (some remote)) := by
    unfold conn_check_handle_renomination
    rw [if_pos ⟨hctl, hrfc, hsup⟩]
    simp only
    rw [if_neg (by decide), if_neg (by decide), hfind]
    simp only
    rw [if_pos hsel]
  have hfs1 : agent_find_stream (agent.updateStream sid (fun s => { s with conncheck_list :=
      (renomination_raise_priority local_ remote component.selected_pair.priority
        s.conncheck_list) })) sid =
      some { stream with conncheck_list :=
        (pre ++ { pair0 with priority := component.selected_pair.priority + 1 } :: post) } := by
    rw [agent_find_stream_updateStream _ _ _ _ (fun _ => by rfl), hs.1]
    simp only [Option.map_some', hs.2.2.1, if_true, hraise]
  have hsel1 : selected_pair_of (agent.updateStream sid (fun s => { s with conncheck_list :=
      (renomination_raise_priority local_ remote component.selected_pair.priority
        s.conncheck_list) })) sid cid = some component.selected_pair := by
    unfold selected_pair_of
    unfold agent_find_component
    rw [hfs1]
    have hc : nice_stream_find_component_by_id stream cid = some component := by
      unfold agent_find_component at hfind
      rw [hs.1] at hfind
      simp only at hfind
      cases hcc : nice_stream_find_component_by_id stream cid with
      | none => rw [hcc] at hfind; simp at hfind
      | some c =>
        rw [hcc] at hfind
        simp only [Option.some.injEq, Prod.mk.injEq] at hfind
        rw [hfind.2]
    have hc1 : nice_stream_find_component_by_id
        { stream with conncheck_list :=
          (pre ++ { pair0 with priority := component.selected_pair.priority + 1 } :: post) }
        cid = some component := hc
    simp only [hc1, Option.map_some']
  rw [hres]
  have hnd1 : ((pre ++ { pair0 with priority := component.selected_pair.priority + 1 } ::
      post).map (fun q => q.ptr)).Nodup := by
    rw [hsplit] at hnd
    simpa using hnd
  have hctl1 : ¬ (NICE_AGENT_IS_COMPATIBLE_WITH_RFC5245_OR_OC2007R2
      (agent.updateStream sid (fun s => { s with conncheck_list :=
        (renomination_raise_priority local_ remote component.selected_pair.priority
          s.conncheck_list) })) = true ∧
      (agent.updateStream sid (fun s => { s with conncheck_list :=
        (renomination_raise_priority local_ remote component.selected_pair.priority
          s.conncheck_list) })).controlling_mode = true) := by
    intro h
    have h2 : agent.controlling_mode = true := h.2
    rw [hctl] at h2
    exact absurd h2 (by decide)
  have hmem1 : ({ pair0 with priority := component.selected_pair.priority + 1 } :
      CandidateCheckPair) ∈
      pre ++ { pair0 with priority := component.selected_pair.priority + 1 } :: post :=
    List.mem_append_right _ (List.mem_cons_self _ _)
  have huniq1 : ∀ q ∈ pre ++ { pair0 with priority := component.selected_pair.priority + 1 } ::
      post, q.local_.ptr = local_.ptr → q.remote.ptr = remote.ptr →
      q = { pair0 with priority := component.selected_pair.priority + 1 } := by
    intro q hq h1 h2
    rcases List.mem_append.1 hq with h | h
    · exact absurd ⟨h1, h2⟩ (hpre q h)
    · rcases List.mem_cons.1 h with h | h
      · exact h
      · exact absurd ⟨h1, h2⟩ (hpost q h)
  have htar1 : mark_nominated_target (agent.updateStream sid (fun s => { s with conncheck_list :=
      (renomination_raise_priority local_ remote component.selected_pair.priority
        s.conncheck_list) })) { pair0 with priority := component.selected_pair.priority + 1 } =
      some { pair0 with priority := component.selected_pair.priority + 1 } := by
    unfold mark_nominated_target
    rcases htarget with h | h
    · rw [if_neg h]
    · simp only [h]
      split_ifs <;> rfl
  rw [priv_mark_pair_nominated_unique E _ sid cid local_ remote _ _ _ hctl1 hfs1 hnd1 hmem1
    hl hr huniq1 htar1]
  obtain ⟨hselr, hfrom, _⟩ := priv_mark_pair_nominated_pair_shape E
    (agent.updateStream sid (fun s => { s with conncheck_list :=
      (renomination_raise_priority local_ remote component.selected_pair.priority
        s.conncheck_list) })) sid cid
    { pair0 with priority := component.selected_pair.priority + 1 }
  refine ⟨rfl, ?_, ?_⟩
  · intro q1 hq1 hx
    obtain ⟨q, hq, hsame⟩ := hfrom q1 hq1
    have hf := same_but_retransmit_fields _ _ hsame
    have hqp : q.ptr = pair0.ptr := by
      have h1 := hf.1
      rw [hx] at h1
      rw [h1]
      split_ifs <;> rfl
    have hql : q ∈ pre ++ { pair0 with priority := component.selected_pair.priority + 1 } ::
        post := by
      unfold stream_pairs at hq
      rw [hfs1] at hq
      exact hq
    have hqe : q = { pair0 with priority := component.selected_pair.priority + 1 } :=
      List.inj_on_of_nodup_map hnd1 hql hmem1 hqp
    subst hqe
    rw [if_pos rfl] at hf
    refine ⟨hf.2.2.2.2.2.2.1, ?_⟩
    rw [hf.2.2.2.2.2.1]
    simp [mark_nominated_write, hvalid]
  · rw [hselr, if_pos hvalid,
      conn_check_update_selected_pair_spec E _ sid cid _ component.selected_pair hsel1,
      if_pos (Nat.lt_succ_self _)]

/-- C26: `conn_check_handle_renomination` for a controlled agent with `support_renomination` in
RFC 5245 (or OC2007R2) compatibility and a 4-octet NOMINATION attribute.  When the selected
pair of the component has a priority, a remote candidate other than the request's AND a local
candidate other than the request's, and the list holds one pair of the two candidates, valid
and not redirected to a discovered pair, and the selected priority is below 2 ^ 64 - 1: the
call returns TRUE, the pair has the selected priority plus one and is nominated, and it is the
selected pair of the component.  On the example agent whose selected pair (100, 201) shares the
local candidate with the valid pair 12 of (100, 200), the request for (100, 200) leaves the
priority of pair 12 below the selected priority and the selected pair as it was; at the
selected priority 2 ^ 64 - 1 the raised priority of pair 14 is 0 and the selected pair stays. -/
theorem renomination_raises_priority_when_both_candidates_differ (E : Ext) (agent : NiceAgent)
    (sid cid : Nat) (local_ remote : NiceCandidate) (stream : NiceStream)
    (component : NiceComponent) (pair0 : CandidateCheckPair)
    (hctl : agent.controlling_mode = false)
    (hrfc : NICE_AGENT_IS_COMPATIBLE_WITH_RFC5245_OR_OC2007R2 agent = true)
    (hsup : agent.support_renomination = true)
    (hfind : agent_find_component agent sid cid = some (stream, component))
    (hsel : renomination_other_pair_selected component local_ remote)
    (hnd : (stream.conncheck_list.map (fun q => q.ptr)).Nodup)
    (h0 : pair0 ∈ stream.conncheck_list)
    (hl : pair0.local_.ptr = local_.ptr) (hr : pair0.remote.ptr = remote.ptr)
    (huniq : ∀ q ∈ stream.conncheck_list, q.local_.ptr = local_.ptr →
      q.remote.ptr = remote.ptr → q = pair0)
    (hvalid : pair0.valid = true)
    (htarget : pair0.state ≠ NICE_CHECK_SUCCEEDED ∨ pair0.discovered_pair = none)
    (hov : component.selected_pair.priority + 1 < 2 ^ 64) :
    ((conn_check_handle_renomination E agent sid cid 4 (some remote) (some local_)).1 = true ∧
      (∀ q ∈ stream_pairs (conn_check_handle_renomination E agent sid cid 4 (some remote)
          (some local_)).2 sid, q.ptr = pair0.ptr →
        q.priority = component.selected_pair.priority + 1 ∧
        q.priority > component.selected_pair.priority ∧ q.nominated = true) ∧
      selected_pair_of (conn_check_handle_renomination E agent sid cid 4 (some remote)
          (some local_)).2 sid cid =
        some ⟨some pair0.local_, some pair0.remote, component.selected_pair.priority + 1,
          pair0.stun_priority⟩) ∧
    (selected_view (ex_agent_renomination 9115005265987371519 ex_pair_host_valid) 1 1 =
        some (some 100, some 201, 9115005265987371519) ∧
      (stream_pairs (ex_agent_renomination 9115005265987371519 ex_pair_host_valid) 1).map
        (fun q => (q.ptr, q.local_.ptr, q.remote.ptr, q.valid, q.nominated, q.priority)) =
        [(11, 100, 201, true, true, 9115005265987371519),
         (12, 100, 200, true, false, 7241540810645045759)] ∧
      (conn_check_handle_renomination ext0
        (ex_agent_renomination 9115005265987371519 ex_pair_host_valid) 1 1 4 (some ex_remote)
        (some ex_local)).1 = true ∧
      (stream_pairs (conn_check_handle_renomination ext0
        (ex_agent_renomination 9115005265987371519 ex_pair_host_valid) 1 1 4 (some ex_remote)
        (some ex_local)).2 1).map (fun q => (q.ptr, q.valid, q.nominated, q.priority)) =
        [(11, true, true, 9115005265987371519), (12, true, true, 7241540810645045759)] ∧
      selected_view (conn_check_handle_renomination ext0
        (ex_agent_renomination 9115005265987371519 ex_pair_host_valid) 1 1 4 (some ex_remote)
        (some ex_local)).2 1 1 = some (some 100, some 201, 9115005265987371519)) ∧
    ((stream_pairs (conn_check_handle_renomination ext0
        (ex_agent_renomination (2 ^ 64 - 1) ex_pair_relay_valid) 1 1 4 (some ex_remote)
        (some ex_local_relay)).2 1).map (fun q => (q.ptr, q.valid, q.nominated, q.priority)) =
        [(11, true, true, 2 ^ 64 - 1), (14, true, true, 0)] ∧
      selected_view (conn_check_handle_renomination ext0
        (ex_agent_renomination (2 ^ 64 - 1) ex_pair_relay_valid) 1 1 4 (some ex_remote)
        (some ex_local_relay)).2 1 1 = some (some 100, some 201, 2 ^ 64 - 1)) := by
  obtain ⟨h1, h2, h3⟩ := renomination_general E agent sid cid local_ remote stream component
    pair0 hctl hrfc hsup hfind hsel hnd h0 hl hr huniq hvalid htarget hov
  refine ⟨⟨h1, fun q hq hx => ?_, h3⟩, ⟨by decide, by decide, by decide, by decide, by decide⟩,
    ⟨by decide, by decide⟩⟩
  obtain ⟨hp, hn⟩ := h2 q hq hx
  exact ⟨hp, by rw [hp]; exact Nat.lt_succ_self _, hn⟩

/-- C26 (witness): the selected pair is (100, 201) and the request is for the relayed local
candidate 120 and the remote candidate 200, whose valid pair is pair 14: the pair ends at the
selected priority plus one, nominated, and is the selected pair. -/
theorem renomination_raises_priority_when_both_candidates_differ_witness :
    (conn_check_handle_renomination ext0
      (ex_agent_renomination 9115005265987371519 ex_pair_relay_valid) 1 1 4 (some ex_remote)
      (some ex_local_relay)).1 = true ∧
    (∀ q ∈ stream_pairs (conn_check_handle_renomination ext0
        (ex_agent_renomination 9115005265987371519 ex_pair_relay_valid) 1 1 4 (some ex_remote)
        (some ex_local_relay)).2 1, q.ptr = 14 →
      q.priority = 9115005265987371520 ∧ q.priority > 9115005265987371519 ∧
      q.nominated = true) ∧
    selected_pair_of (conn_check_handle_renomination ext0
        (ex_agent_renomination 9115005265987371519 ex_pair_relay_valid) 1 1 4 (some ex_remote)
        (some ex_local_relay)).2 1 1 =
      some ⟨some ex_local_relay, some ex_remote, 9115005265987371520, 1845501695⟩ :=
  (renomination_raises_priority_when_both_candidates_differ ext0
    (ex_agent_renomination 9115005265987371519 ex_pair_relay_valid) 1 1 ex_local_relay
    ex_remote
    { ex_stream [{ ex_pair_nominated with priority := 9115005265987371519 },
        ex_pair_relay_valid] with
      components :=
        [{ ex_component with
           state := NICE_COMPONENT_STATE_READY
           local_candidates := [ex_local, ex_local_relay]
           selected_pair :=
             ⟨some ex_local, some ex_remote2, 9115005265987371519, 1845501695⟩ }] }
    { ex_component with
      state := NICE_COMPONENT_STATE_READY
      local_candidates := [ex_local, ex_local_relay]
      selected_pair := ⟨some ex_local, some ex_remote2, 9115005265987371519, 1845501695⟩ }
    ex_pair_relay_valid (by decide) (by decide) (by decide) (by decide) (by decide)
    (by decide) (by decide) (by decide) (by decide) (by decide) (by decide) (by decide)
    (by decide)).1

/-! ## Related-success unfreeze -/

theorem strncmp_eq_iff (a b : String) (n : Nat) (ha : a.length ≤ n) (hb : b.length ≤ n) :
    strncmp_eq a b n = true ↔ a = b := by
  unfold strncmp_eq
  have h1 : a.data.take n = a.data := List.take_of_length_le ha
  have h2 : b.data.take n = b.data := List.take_of_length_le hb
  rw [h1, h2]
  constructor
  · intro h
    exact String.ext (by simpa using h)
  · intro h
    subst h
    simp

/-- C31: related-success unfreeze. Foundations are strings held in arrays of
`NICE_CANDIDATE_PAIR_MAX_FOUNDATION` characters, so the comparison `strncmp` makes is the
comparison of the whole strings. After `conn_check_unfreeze_related` the agent differs from the
agent before at most in its streams, there are as many streams, each stream differs at most in
its conncheck list, each list has the same length, and position by position the pair is the
pair that was there, in state Waiting if it was Frozen with the foundation of the pair that
succeeded, and unchanged otherwise. -/
theorem related_success_unfreezes_same_foundation (E : Ext) (agent : NiceAgent)
    (pair : CandidateCheckPair)
    (hlen : ∀ q ∈ agent.allPairs, q.foundation.length ≤ E.NICE_CANDIDATE_PAIR_MAX_FOUNDATION)
    (hpair : pair.foundation.length ≤ E.NICE_CANDIDATE_PAIR_MAX_FOUNDATION) :
    (conn_check_unfreeze_related E agent pair) =
      { agent with streams := (conn_check_unfreeze_related E agent pair).streams } ∧
    (conn_check_unfreeze_related E agent pair).streams.length = agent.streams.length ∧
    ∀ (i : Nat) (s : NiceStream), agent.streams[i]? = some s →
      ∃ s1 : NiceStream, (conn_check_unfreeze_related E agent pair).streams[i]? = some s1 ∧
        s1 = { s with conncheck_list := s1.conncheck_list } ∧
        s1.conncheck_list.length = s.conncheck_list.length ∧
        ∀ (j : Nat) (p : CandidateCheckPair), s.conncheck_list[j]? = some p →
          s1.conncheck_list[j]? = some
            (if p.state = NICE_CHECK_FROZEN ∧ p.foundation = pair.foundation
             then { p with state := NICE_CHECK_WAITING } else p) := by
  refine ⟨rfl, by simp [conn_check_unfreeze_related], ?_⟩
  intro i s hs
  refine ⟨{ s with
      conncheck_list := s.conncheck_list.map (fun p =>
        if p.state = NICE_CHECK_FROZEN ∧
            strncmp_eq p.foundation pair.foundation E.NICE_CANDIDATE_PAIR_MAX_FOUNDATION = true
        then { p with state := NICE_CHECK_WAITING } else p) },
    by simp only [conn_check_unfreeze_related, List.getElem?_map, hs, Option.map_some'],
    rfl, by simp, ?_⟩
  intro j p hp
  have hmem : p ∈ agent.allPairs := by
    unfold NiceAgent.allPairs
    exact List.mem_flatMap.2 ⟨s, List.getElem?_mem hs, List.getElem?_mem hp⟩
  simp only [List.getElem?_map, hp, Option.map_some', Option.some.injEq]
  by_cases hst : p.state = NICE_CHECK_FROZEN
  · by_cases hf : p.foundation = pair.foundation
    · rw [if_pos ⟨hst, (strncmp_eq_iff _ _ _ (hlen p hmem) hpair).2 hf⟩, if_pos ⟨hst, hf⟩]
    · rw [if_neg (fun h => hf ((strncmp_eq_iff _ _ _ (hlen p hmem) hpair).1 h.2)),
        if_neg (fun h => hf h.2)]
  · rw [if_neg (fun h => hst h.1), if_neg (fun h => hst h.1)]

theorem related_success_unfreezes_same_foundation_witness :
    (∀ q ∈ (ex_agent NICE_COMPATIBILITY_RFC5245 ex_list_frozen []).allPairs,
      q.foundation.length ≤ ext0.NICE_CANDIDATE_PAIR_MAX_FOUNDATION) ∧
    (ex_pair 9 ex_remote2 NICE_CHECK_SUCCEEDED 9115005265987371521).foundation.length ≤
      ext0.NICE_CANDIDATE_PAIR_MAX_FOUNDATION ∧
    ((conn_check_unfreeze_related ext0 (ex_agent NICE_COMPATIBILITY_RFC5245 ex_list_frozen [])
        (ex_pair 9 ex_remote2 NICE_CHECK_SUCCEEDED 9115005265987371521)).streams.map
      (fun s => s.conncheck_list.map (fun p => (p.ptr, p.state)))) =
      [[(10, NICE_CHECK_FAILED), (11, NICE_CHECK_WAITING), (12, NICE_CHECK_FROZEN),
        (13, NICE_CHECK_WAITING)]] ∧
    (conn_check_unfreeze_related ext0 (ex_agent NICE_COMPATIBILITY_RFC5245 ex_list_frozen [])
        (ex_pair 9 ex_remote2 NICE_CHECK_SUCCEEDED 9115005265987371521)).streams.length =
      (ex_agent NICE_COMPATIBILITY_RFC5245 ex_list_frozen []).streams.length :=
  ⟨by decide, by decide, by decide,
    (related_success_unfreezes_same_foundation ext0
      (ex_agent NICE_COMPATIBILITY_RFC5245 ex_list_frozen [])
      (ex_pair 9 ex_remote2 NICE_CHECK_SUCCEEDED 9115005265987371521)
      (by decide) (by decide)).2.1⟩

/-! ## A role conflict on a pair that is not retransmitted -/

/-- C36: when a role-conflict reply matches a transaction of a pair whose retransmit flag is
false, `priv_map_reply_to_conn_check_request` returns TRUE and the agent after the call is the
agent before it: the role, the streams with their conncheck lists (so every pair's priority,
state and transactions, and the order of every list) and the triggered-check queue are
unchanged; in particular the pair is not added to the queue and keeps its state. -/
theorem role_conflict_without_retransmit_changes_nothing (E : Ext) (agent : NiceAgent)
    (stream_id component_id : Nat) (sockptr : NiceSocket) (from_ : NiceAddress)
    (local_candidate remote_candidate : Option NiceCandidate) (resp : StunResponse)
    (new_pair : Nat) (stream : NiceStream) (p : CandidateCheckPair) (k : Nat)
    (stun : StunTransaction)
    (hstream : agent_find_stream agent stream_id = some stream)
    (hmatch : find_matching_request resp.id stream.conncheck_list = some (p, k, stun))
    (hres : resp.res = STUN_USAGE_ICE_RETURN_ROLE_CONFLICT)
    (hretransmit : p.retransmit = false) :
    (priv_map_reply_to_conn_check_request E agent stream_id component_id sockptr from_
      local_candidate remote_candidate resp new_pair).1 = true ∧
    (priv_map_reply_to_conn_check_request E agent stream_id component_id sockptr from_
      local_candidate remote_candidate resp new_pair).2 = agent ∧
    (priv_map_reply_to_conn_check_request E agent stream_id component_id sockptr from_
      local_candidate remote_candidate resp new_pair).2.controlling_mode =
        agent.controlling_mode ∧
    (priv_map_reply_to_conn_check_request E agent stream_id component_id sockptr from_
      local_candidate remote_candidate resp new_pair).2.streams = agent.streams ∧
    (priv_map_reply_to_conn_check_request E agent stream_id component_id sockptr from_
      local_candidate remote_candidate resp new_pair).2.triggered_check_queue =
        agent.triggered_check_queue ∧
    (p.ptr ∉ agent.triggered_check_queue →
      p.ptr ∉ (priv_map_reply_to_conn_check_request E agent stream_id component_id sockptr
        from_ local_candidate remote_candidate resp new_pair).2.triggered_check_queue) := by
  have hr : priv_map_reply_to_conn_check_request E agent stream_id component_id sockptr from_
      local_candidate remote_candidate resp new_pair = (true, agent) := by
    unfold priv_map_reply_to_conn_check_request
    simp [hstream, hmatch, hres, hretransmit]
  rw [hr]
  exact ⟨rfl, rfl, rfl, rfl, rfl, fun h => h⟩

/-- C36 at the example agent: pair 12 is InProgress with transaction 7012 and its retransmit
flag cleared; the 487 reply leaves the controlling agent as it was. -/
theorem role_conflict_without_retransmit_changes_nothing_witness :
    agent_find_stream (ex_agent NICE_COMPATIBILITY_RFC5245
      [ex_pair 11 ex_remote2 NICE_CHECK_WAITING 9115005265987371519,
       { ex_pair_in_progress with retransmit := false }] []) 1 =
      some (ex_stream [ex_pair 11 ex_remote2 NICE_CHECK_WAITING 9115005265987371519,
       { ex_pair_in_progress with retransmit := false }]) ∧
    find_matching_request 7012 (ex_stream
      [ex_pair 11 ex_remote2 NICE_CHECK_WAITING 9115005265987371519,
       { ex_pair_in_progress with retransmit := false }]).conncheck_list =
      some ({ ex_pair_in_progress with retransmit := false }, 0, ex_transaction) ∧
    (priv_map_reply_to_conn_check_request ext0
      (ex_agent NICE_COMPATIBILITY_RFC5245
        [ex_pair 11 ex_remote2 NICE_CHECK_WAITING 9115005265987371519,
         { ex_pair_in_progress with retransmit := false }] []) 1 1 ex_sock ex_remote.addr
      (some ex_local) (some ex_remote)
      ⟨7012, STUN_USAGE_ICE_RETURN_ROLE_CONFLICT, ⟨0, 0⟩⟩ 13).2 =
      ex_agent NICE_COMPATIBILITY_RFC5245
        [ex_pair 11 ex_remote2 NICE_CHECK_WAITING 9115005265987371519,
         { ex_pair_in_progress with retransmit := false }] [] :=
  ⟨by decide, by decide,
    (role_conflict_without_retransmit_changes_nothing ext0
      (ex_agent NICE_COMPATIBILITY_RFC5245
        [ex_pair 11 ex_remote2 NICE_CHECK_WAITING 9115005265987371519,
         { ex_pair_in_progress with retransmit := false }] [])
      1 1 ex_sock ex_remote.addr (some ex_local) (some ex_remote)
      ⟨7012, STUN_USAGE_ICE_RETURN_ROLE_CONFLICT, ⟨0, 0⟩⟩ 13
      (ex_stream [ex_pair 11 ex_remote2 NICE_CHECK_WAITING 9115005265987371519,
         { ex_pair_in_progress with retransmit := false }])
      { ex_pair_in_progress with retransmit := false } 0 ex_transaction
      (by decide) (by decide) (by decide) (by decide)).2.1⟩

/-! ## Retransmission needs a transaction -/

theorem priv_prune_pending_checks_loop_retransmit (component_id priority : Nat)
    (l : List CandidateCheckPair) (queue : List Nat)
    (h : ∀ q ∈ l, retransmit_has_transaction q) :
    ∀ q1 ∈ (priv_prune_pending_checks_loop component_id priority l queue).1,
      retransmit_has_transaction q1 := by
  induction l generalizing queue with
  | nil => intro q1 hq1; simp [priv_prune_pending_checks_loop] at hq1
  | cons p ps ih =>
    have hp : retransmit_has_transaction p := h p (List.mem_cons_self _ _)
    have hrest : ∀ queue1, ∀ q1 ∈ (priv_prune_pending_checks_loop component_id priority ps
        queue1).1, retransmit_has_transaction q1 :=
      fun queue1 => ih queue1 (fun q hq => h q (List.mem_cons_of_mem _ hq))
    have hcons : ∀ queue1 (p1 : CandidateCheckPair), retransmit_has_transaction p1 →
        ∀ q1 ∈ p1 :: (priv_prune_pending_checks_loop component_id priority ps queue1).1,
          retransmit_has_transaction q1 := by
      intro queue1 p1 hp1 q1 hq1
      rcases List.mem_cons.1 hq1 with h1 | h1
      · exact h1 ▸ hp1
      · exact hrest queue1 q1 h1
    intro q1 hq1
    unfold priv_prune_pending_checks_loop at hq1
    simp only at hq1
    split_ifs at hq1 with h1 h2 h3 h4 h5 h6 h7
    · exact hcons _ _ hp q1 hq1
    · exact hrest _ q1 hq1
    · exact hcons _ _ hp q1 hq1
    · exact hrest _ q1 hq1
    · exact hcons _ { p with retransmit := false } (fun hc => by simp at hc) q1 hq1
    · exact hcons _ { p with retransmit := true } (fun _ => h7.2) q1 hq1
    · exact hcons _ _ hp q1 hq1
    · exact hcons _ _ hp q1 hq1

/-- C39: a pair whose flag `retransmit` is set has a STUN transaction. The pair
`priv_add_stun_transaction` and `priv_free_all_stun_transactions` leave satisfies this
whatever it was; `priv_remove_stun_transaction` keeps it; `priv_prune_pending_checks` keeps it
for all the pairs of all conncheck lists. So under the implication a pair without transactions
has the flag cleared, and the transaction loop of the tick retransmits nothing for it. -/
theorem retransmit_implies_transaction_preserved (E : Ext) (now : Int) (agent : NiceAgent)
    (stream_id component_id : Nat) (pair : CandidateCheckPair) (k : Nat)
    (hpair : retransmit_has_transaction pair)
    (hall : AllPairs retransmit_has_transaction agent) :
    retransmit_has_transaction (priv_add_stun_transaction pair) ∧
    retransmit_has_transaction (priv_remove_stun_transaction pair k) ∧
    retransmit_has_transaction (priv_free_all_stun_transactions pair) ∧
    AllPairs retransmit_has_transaction
      (priv_prune_pending_checks agent stream_id component_id).2 ∧
    (pair.stun_transactions = [] → pair.retransmit = false ∧
      (priv_conn_check_tick_stream_transactions E now pair.stun_transactions pair 0 0
        0).retransmitted = none) := by
  refine ⟨?_, ?_, ?_, ?_, ?_⟩
  · intro _
    simp [priv_add_stun_transaction, g_slist_prepend]
  · intro h
    unfold priv_remove_stun_transaction at h ⊢
    simp only at h ⊢
    by_cases he : pair.stun_transactions.eraseIdx k = []
    · rw [if_pos he] at h
      exact absurd h (by simp)
    · exact he
  · intro h
    simp [priv_free_all_stun_transactions] at h
  · unfold priv_prune_pending_checks
    cases hc : agent_find_component agent stream_id component_id with
    | none => exact hall
    | some sc =>
      obtain ⟨stream, component⟩ := sc
      have hs := agent_find_component_some agent stream_id component_id stream component hc
      have hl : ∀ q ∈ stream.conncheck_list, retransmit_has_transaction q := by
        intro q hq
        apply hall q
        unfold NiceAgent.allPairs
        exact List.mem_flatMap.2 ⟨stream, hs.2.1, hq⟩
      simp only
      intro q hq
      exact AllPairs_updateStream_const retransmit_has_transaction agent stream_id _
        (priv_prune_pending_checks_loop_retransmit component_id
          component.selected_pair.priority stream.conncheck_list agent.triggered_check_queue hl)
        hall q hq
  · intro h
    refine ⟨?_, ?_⟩
    · cases hr : pair.retransmit with
      | false => rfl
      | true => exact absurd h (hpair hr)
    · rw [h]
      rfl

/-- C39 at the example agent: pair 12 is InProgress with one transaction and `retransmit`
set. -/
theorem retransmit_implies_transaction_preserved_witness :
    retransmit_has_transaction ex_pair_in_progress ∧
    AllPairs retransmit_has_transaction
      (ex_agent NICE_COMPATIBILITY_RFC5245 ex_list_in_progress []) ∧
    retransmit_has_transaction (priv_remove_stun_transaction ex_pair_in_progress 0) ∧
    (priv_remove_stun_transaction ex_pair_in_progress 0).retransmit = false :=
  ⟨by decide, by unfold AllPairs; decide,
    (retransmit_implies_transaction_preserved ext0 0
      (ex_agent NICE_COMPATIBILITY_RFC5245 ex_list_in_progress []) 1 1 ex_pair_in_progress 0
      (by decide) (by unfold AllPairs; decide)).2.1, by decide⟩

/-! ## The size limit leaves Frozen pairs only among the first positions -/

theorem priv_limit_conn_check_list_size_loop_frozen (max_conn_checks pair : Nat)
    (l : List CandidateCheckPair) (valid : Nat) (queue : List Nat) :
    ∀ (i : Nat) (q : CandidateCheckPair),
      (priv_limit_conn_check_list_size_loop max_conn_checks pair l valid queue).1[i]? = some q →
      q.state ≠ NICE_CHECK_FAILED ∧ (q.state = NICE_CHECK_FROZEN → i + valid < max_conn_checks) := by
  induction l generalizing valid queue with
  | nil => intro i q h; simp [priv_limit_conn_check_list_size_loop] at h
  | cons p ps ih =>
    intro i q h
    unfold priv_limit_conn_check_list_size_loop at h
    split_ifs at h with hc
    · have := ih (valid + 1) _ i q h
      exact ⟨this.1, fun hf => by have := this.2 hf; omega⟩
    · simp only at h
      cases i with
      | zero =>
        simp only [List.getElem?_cons_zero, Option.some.injEq] at h
        subst h
        refine ⟨fun hf => hc (Or.inr hf), fun hf => ?_⟩
        by_contra hlt
        exact hc (Or.inl ⟨by omega, hf⟩)
      | succ j =>
        simp only [List.getElem?_cons_succ] at h
        have := ih (valid + 1) _ j q h
        exact ⟨this.1, fun hf => by have := this.2 hf; omega⟩

theorem stream_pairs_priv_limit_conn_check_list_size_eq (agent : NiceAgent) (sid pair : Nat)
    (stream : NiceStream) (hs : agent_find_stream agent sid = some stream) :
    stream_pairs (priv_limit_conn_check_list_size agent sid pair).2 sid =
      (priv_limit_conn_check_list_size_loop agent.max_conn_checks pair stream.conncheck_list 0
        agent.triggered_check_queue).1 := by
  unfold priv_limit_conn_check_list_size
  rw [hs]
  simp only
  rw [stream_pairs_queue]
  have := stream_pairs_updateStream_list agent sid sid (fun _ =>
    (priv_limit_conn_check_list_size_loop agent.max_conn_checks pair stream.conncheck_list 0
      agent.triggered_check_queue).1)
  rw [this, if_pos rfl, hs]

/-- C33, amended: `priv_limit_conn_check_list_size` removes the Frozen pairs that stand beyond
position `max_conn_checks` of the list before the call, and every Failed pair. After the call
no pair of the list is Failed, every Frozen pair of the list is among its first
`max_conn_checks` pairs, and what is left is a sublist of the list before the call. -/
theorem limit_leaves_frozen_pairs_within_max (agent : NiceAgent) (stream_id pair : Nat)
    (stream : NiceStream) (hstream : agent_find_stream agent stream_id = some stream) :
    (∀ (i : Nat) (q : CandidateCheckPair),
      (stream_pairs (priv_limit_conn_check_list_size agent stream_id pair).2 stream_id)[i]? =
        some q →
      q.state ≠ NICE_CHECK_FAILED ∧
      (q.state = NICE_CHECK_FROZEN → i < agent.max_conn_checks)) ∧
    (∀ q ∈ (stream_pairs (priv_limit_conn_check_list_size agent stream_id pair).2
        stream_id).drop agent.max_conn_checks, q.state ≠ NICE_CHECK_FROZEN) ∧
    (stream_pairs (priv_limit_conn_check_list_size agent stream_id pair).2 stream_id).Sublist
      stream.conncheck_list := by
  rw [stream_pairs_priv_limit_conn_check_list_size_eq agent stream_id pair stream hstream]
  have h := priv_limit_conn_check_list_size_loop_frozen agent.max_conn_checks pair
    stream.conncheck_list 0 agent.triggered_check_queue
  refine ⟨fun i q hq => h i q hq, ?_, priv_limit_conn_check_list_size_loop_sublist _ _ _ _ _⟩
  intro q hq hf
  obtain ⟨i, hi⟩ := List.getElem?_of_mem hq
  rw [List.getElem?_drop] at hi
  have := (h _ q hi).2 hf
  omega

/-- C33 at the capped example agent: the Frozen pair 12 stands at position 2, beyond
`max_conn_checks` = 1, and is removed. -/
theorem limit_leaves_frozen_pairs_within_max_witness :
    agent_find_stream ex_agent_capped 1 = some (ex_stream ex_list) ∧
    (∀ q ∈ (stream_pairs (priv_limit_conn_check_list_size ex_agent_capped 1 12).2 1).drop
        ex_agent_capped.max_conn_checks, q.state ≠ NICE_CHECK_FROZEN) ∧
    (stream_pairs (priv_limit_conn_check_list_size ex_agent_capped 1 12).2 1).map
      (fun q => q.ptr) = [11] :=
  ⟨by decide,
    (limit_leaves_frozen_pairs_within_max ex_agent_capped 1 12 (ex_stream ex_list)
      (by decide)).2.1, by decide⟩

/-- C33, counterexample: with `max_conn_checks` = 1 and the list [11 Frozen, 12 Waiting], the
Frozen pair stands at position 1 and stays, the Waiting pair is never removed: after the call
the list is longer than `max_conn_checks` and holds a Frozen pair. -/
theorem limit_keeps_frozen_pair_in_long_list :
    (stream_pairs (priv_limit_conn_check_list_size
      { ex_agent NICE_COMPATIBILITY_RFC5245
          [ex_pair 11 ex_remote2 NICE_CHECK_FROZEN 9115005265987371519,
           ex_pair 12 ex_remote NICE_CHECK_WAITING 7241540810645045759] [] with
        max_conn_checks := 1 } 1 12).2 1).map (fun q => (q.ptr, q.state)) =
      [(11, NICE_CHECK_FROZEN), (12, NICE_CHECK_WAITING)] ∧
    ¬ ((stream_pairs (priv_limit_conn_check_list_size
        { ex_agent NICE_COMPATIBILITY_RFC5245
            [ex_pair 11 ex_remote2 NICE_CHECK_FROZEN 9115005265987371519,
             ex_pair 12 ex_remote NICE_CHECK_WAITING 7241540810645045759] [] with
          max_conn_checks := 1 } 1 12).2 1).length ≤ 1 ∨
      ∀ q ∈ stream_pairs (priv_limit_conn_check_list_size
        { ex_agent NICE_COMPATIBILITY_RFC5245
            [ex_pair 11 ex_remote2 NICE_CHECK_FROZEN 9115005265987371519,
             ex_pair 12 ex_remote NICE_CHECK_WAITING 7241540810645045759] [] with
          max_conn_checks := 1 } 1 12).2 1, q.state ≠ NICE_CHECK_FROZEN) := by
  decide

/-! ## The pacing delay -/

theorem waiting_count_eq (agent : NiceAgent) :
    (agent.allPairs.filter (fun p =>
      p.state == NICE_CHECK_IN_PROGRESS || p.state == NICE_CHECK_WAITING)).length =
      waiting_or_in_progress_pairs agent := by
  unfold waiting_or_in_progress_pairs NiceAgent.allPairs
  induction agent.streams with
  | nil => rfl
  | cons s ss ih =>
    simp only [List.flatMap_cons, List.filter_append, List.length_append, List.map_cons,
      List.sum_cons, ih]
    congr 1
    rw [List.countP_eq_length_filter]
    congr 2
    funext p
    exact Bool.or_comm _ _

theorem priv_compute_conncheck_timer_updatePair (E : Ext) (agent : NiceAgent) (p : Nat)
    (f : CandidateCheckPair → CandidateCheckPair) (hf : ∀ q, (f q).state = q.state) :
    priv_compute_conncheck_timer E (agent.updatePair p f) =
      priv_compute_conncheck_timer E agent := by
  unfold priv_compute_conncheck_timer
  rw [allPairs_updatePair]
  have h : ((agent.allPairs.map (fun q => if q.ptr = p then f q else q)).filter (fun p =>
      p.state == NICE_CHECK_IN_PROGRESS || p.state == NICE_CHECK_WAITING)).length =
      (agent.allPairs.filter (fun p =>
        p.state == NICE_CHECK_IN_PROGRESS || p.state == NICE_CHECK_WAITING)).length := by
    rw [List.filter_map, List.length_map]
    congr 2
    funext q
    simp only [Function.comp]
    split_ifs
    · rw [hf]
    · rfl
  simp only [h]
  rfl

theorem priv_compute_conncheck_timer_send_nominate (E : Ext) (agent : NiceAgent) (pair : Nat)
    (cand_use : Bool) :
    priv_compute_conncheck_timer E (conn_check_send_nominate agent pair cand_use) =
      priv_compute_conncheck_timer E agent := by
  unfold conn_check_send_nominate
  split_ifs
  · rfl
  · exact priv_compute_conncheck_timer_updatePair E agent pair _ (fun _ => by rfl)
  · rfl

theorem findPair_agent_socket_send (agent : NiceAgent) (sock : NiceSocket) (dest : NiceAddress)
    (len x : Nat) : (agent_socket_send agent sock dest len).findPair x = agent.findPair x := rfl

theorem conn_check_send_request_timer (E : Ext) (now : Int) (agent : NiceAgent) (pair : Nat)
    (pr pr1 : CandidateCheckPair) (cand_use : Bool)
    (hfind : agent.findPair pair = some pr1) (hptr : pr1.ptr = pair)
    (hunrel : pr.sockptr.reliable = false)
    (hsent : (conn_check_send_request E now agent pair pr cand_use).1 = 0) :
    ∃ (q : CandidateCheckPair) (stun : StunTransaction),
      (conn_check_send_request E now agent pair pr cand_use).2.findPair pair = some q ∧
      q.stun_transactions = stun :: pr1.stun_transactions ∧
      stun.timer = E.stun_timer_start (priv_compute_conncheck_timer E agent)
        agent.stun_max_retransmissions ∧
      stun.next_tick = next_tick_after now (priv_compute_conncheck_timer E agent) := by
  have htimer : priv_compute_conncheck_timer E (agent.updatePair pair priv_add_stun_transaction) =
      priv_compute_conncheck_timer E agent :=
    priv_compute_conncheck_timer_updatePair E agent pair _ (fun _ => by rfl)
  unfold conn_check_send_request at hsent ⊢
  simp only at hsent ⊢
  by_cases h1 : (stun_usage_ice_conncheck_create E agent pr cand_use
      agent.controlling_mode).length = 0
  · rw [if_pos h1] at hsent
    simp at hsent
  · rw [if_neg h1]
    have hres : ∀ a : NiceAgent, a.findPair pair = (agent.findPair pair).map (fun q =>
        { priv_add_stun_transaction q with
          stun_transactions :=
            ({ next_tick := next_tick_after now (priv_compute_conncheck_timer E agent)
               timer := E.stun_timer_start (priv_compute_conncheck_timer E agent)
                 agent.stun_max_retransmissions
               message := stun_usage_ice_conncheck_create E agent pr cand_use
                 agent.controlling_mode } : StunTransaction) ::
              (priv_add_stun_transaction q).stun_transactions.tail
          sockptr := conn_check_send_socket E pr }) →
        ∃ (q : CandidateCheckPair) (stun : StunTransaction),
          a.findPair pair = some q ∧
          q.stun_transactions = stun :: pr1.stun_transactions ∧
          stun.timer = E.stun_timer_start (priv_compute_conncheck_timer E agent)
            agent.stun_max_retransmissions ∧
          stun.next_tick = next_tick_after now (priv_compute_conncheck_timer E agent) := by
      intro a ha
      rw [ha, hfind]
      exact ⟨_, { next_tick := next_tick_after now (priv_compute_conncheck_timer E agent)
                  timer := E.stun_timer_start (priv_compute_conncheck_timer E agent)
                    agent.stun_max_retransmissions
                  message := stun_usage_ice_conncheck_create E agent pr cand_use
                    agent.controlling_mode }, rfl,
        by simp [priv_add_stun_transaction, g_slist_prepend], rfl, rfl⟩
    have hfp : ((agent.updatePair pair priv_add_stun_transaction).updatePair pair (fun q =>
        { q with
          stun_transactions :=
            ({ next_tick := next_tick_after now (priv_compute_conncheck_timer E agent)
               timer := E.stun_timer_start (priv_compute_conncheck_timer E agent)
                 agent.stun_max_retransmissions
               message := stun_usage_ice_conncheck_create E agent pr cand_use
                 agent.controlling_mode } : StunTransaction) :: q.stun_transactions.tail
          sockptr := conn_check_send_socket E pr })).findPair pair =
        (agent.findPair pair).map (fun q =>
        { priv_add_stun_transaction q with
          stun_transactions :=
            ({ next_tick := next_tick_after now (priv_compute_conncheck_timer E agent)
               timer := E.stun_timer_start (priv_compute_conncheck_timer E agent)
                 agent.stun_max_retransmissions
               message := stun_usage_ice_conncheck_create E agent pr cand_use
                 agent.controlling_mode } : StunTransaction) ::
              (priv_add_stun_transaction q).stun_transactions.tail
          sockptr := conn_check_send_socket E pr }) := by
      rw [findPair_updatePair _ _ _ _ (fun _ => by rfl),
        findPair_updatePair _ _ _ _ (fun _ => by rfl), hfind]
      simp only [Option.map_some', hptr, if_true]
      rw [if_pos (by simp [priv_add_stun_transaction, hptr])]
    simp only [hunrel, htimer, Bool.false_eq_true, if_false]
    split_ifs
    · exact hres _ (by rw [findPair_agent_socket_send, findPair_agent_socket_send]; exact hfp)
    · exact hres _ (by rw [findPair_agent_socket_send]; exact hfp)

theorem findPair_some_ptr (agent : NiceAgent) (x : Nat) (q : CandidateCheckPair)
    (h : agent.findPair x = some q) : q.ptr = x := by
  unfold NiceAgent.findPair at h
  simpa using List.find?_some h

theorem conn_check_send_nominate_findPair (agent : NiceAgent) (pair : Nat) (cand_use : Bool)
    (pr : CandidateCheckPair) (h : agent.findPair pair = some pr) :
    ∃ pr1, (conn_check_send_nominate agent pair cand_use).findPair pair = some pr1 ∧
      pr1.ptr = pair ∧ pr1.stun_transactions = pr.stun_transactions ∧
      (conn_check_send_nominate agent pair cand_use).stun_max_retransmissions =
        agent.stun_max_retransmissions := by
  have hptr := findPair_some_ptr agent pair pr h
  unfold conn_check_send_nominate
  split_ifs
  · exact ⟨pr, h, hptr, rfl, rfl⟩
  · refine ⟨{ pr with nominated := agent.controlling_mode }, ?_, hptr, rfl, rfl⟩
    rw [findPair_updatePair _ _ _ _ (fun _ => by rfl), h]
    simp [hptr]
  · exact ⟨pr, h, hptr, rfl, rfl⟩

/-- C34, amended: `priv_compute_conncheck_timer` returns the larger of
`STUN_TIMER_DEFAULT_TIMEOUT` and the product of `timer_ta` and N reduced modulo 2^32 (the
product is stored in an `unsigned int`), where N is the number of pairs in state Waiting or
InProgress summed over the conncheck lists of all streams; this is the exact product whenever
that is below 2^32. When `conn_check_send` succeeds for a pair on an unreliable socket, the
transaction it put at the head of the pair's list was started with this value as its timeout,
and is due after it. -/
theorem pacing_delay_is_wrapped_product (E : Ext) (now : Int) (agent : NiceAgent) (pair : Nat)
    (pr : CandidateCheckPair) (hfind : agent.findPair pair = some pr)
    (hunrel : pr.sockptr.reliable = false)
    (hsent : (conn_check_send E now agent pair).1 = 0) :
    priv_compute_conncheck_timer E agent =
      max ((agent.timer_ta * waiting_or_in_progress_pairs agent) % 2 ^ 32)
        E.STUN_TIMER_DEFAULT_TIMEOUT ∧
    (agent.timer_ta * waiting_or_in_progress_pairs agent < 2 ^ 32 →
      priv_compute_conncheck_timer E agent =
        max (agent.timer_ta * waiting_or_in_progress_pairs agent)
          E.STUN_TIMER_DEFAULT_TIMEOUT) ∧
    ∃ (q : CandidateCheckPair) (stun : StunTransaction),
      (conn_check_send E now agent pair).2.findPair pair = some q ∧
      q.stun_transactions = stun :: pr.stun_transactions ∧
      stun.timer = E.stun_timer_start (priv_compute_conncheck_timer E agent)
        agent.stun_max_retransmissions ∧
      stun.next_tick = next_tick_after now (priv_compute_conncheck_timer E agent) := by
  have hval : priv_compute_conncheck_timer E agent =
      max ((agent.timer_ta * waiting_or_in_progress_pairs agent) % 2 ^ 32)
        E.STUN_TIMER_DEFAULT_TIMEOUT := by
    unfold priv_compute_conncheck_timer
    simp only [waiting_count_eq]
  refine ⟨hval, fun hlt => by rw [hval, Nat.mod_eq_of_lt hlt], ?_⟩
  unfold conn_check_send at hsent ⊢
  rw [hfind] at hsent ⊢
  simp only at hsent ⊢
  cases hc : agent_find_component agent pr.stream_id pr.component_id with
  | none => rw [hc] at hsent; simp at hsent
  | some sc =>
    obtain ⟨stream, component⟩ := sc
    rw [hc] at hsent
    simp only at hsent ⊢
    by_cases hu : priv_create_username E agent stream pr.component_id (some pr.remote)
        (some pr.local_) E.NICE_STREAM_MAX_UNAME false = 0
    · rw [if_pos hu] at hsent; simp at hsent
    · rw [if_neg hu] at hsent ⊢
      obtain ⟨pr1, h1, h2, h3, h4⟩ := conn_check_send_nominate_findPair agent pair
        (conn_check_send_cand_use agent pr) pr hfind
      obtain ⟨q, stun, hq1, hq2, hq3, hq4⟩ := conn_check_send_request_timer E now
        (conn_check_send_nominate agent pair (conn_check_send_cand_use agent pr)) pair pr pr1
        (conn_check_send_cand_use agent pr) h1 h2 hunrel hsent
      rw [priv_compute_conncheck_timer_send_nominate] at hq3 hq4
      exact ⟨q, stun, hq1, by rw [hq2, h3], by rw [hq3, h4], hq4⟩

/-- C34 at the example agent with `timer_ta` = 150 ms: one pair is Waiting and one InProgress,
the delay is 300 ms, and the check sent for pair 11 starts its timer with it. -/
theorem pacing_delay_is_wrapped_product_witness :
    ({ ex_agent NICE_COMPATIBILITY_RFC5245 ex_list_in_progress [] with
        timer_ta := 150 } : NiceAgent).findPair 11 =
      some (ex_pair 11 ex_remote2 NICE_CHECK_WAITING 9115005265987371519) ∧
    (ex_pair 11 ex_remote2 NICE_CHECK_WAITING 9115005265987371519).sockptr.reliable = false ∧
    (conn_check_send ext0 0 { ex_agent NICE_COMPATIBILITY_RFC5245 ex_list_in_progress [] with
        timer_ta := 150 } 11).1 = 0 ∧
    priv_compute_conncheck_timer ext0
      { ex_agent NICE_COMPATIBILITY_RFC5245 ex_list_in_progress [] with timer_ta := 150 } =
      300 :=
  ⟨by decide, by decide, by decide,
    (pacing_delay_is_wrapped_product ext0 0
      { ex_agent NICE_COMPATIBILITY_RFC5245 ex_list_in_progress [] with timer_ta := 150 } 11
      (ex_pair 11 ex_remote2 NICE_CHECK_WAITING 9115005265987371519)
      (by decide) (by decide) (by decide)).1.trans (by decide)⟩

/-- C34, counterexample: with `timer_ta` = 2^31 ms and two pairs Waiting or InProgress the
exact product is 2^32, the `unsigned int` product is 0, and the function returns
`STUN_TIMER_DEFAULT_TIMEOUT` = 200 where the larger of the exact product and the default is
2^32. -/
theorem pacing_delay_product_wraps :
    waiting_or_in_progress_pairs ex_agent_slow_pacing = 2 ∧
    priv_compute_conncheck_timer ext0 ex_agent_slow_pacing = 200 ∧
    max (ex_agent_slow_pacing.timer_ta * waiting_or_in_progress_pairs ex_agent_slow_pacing)
      ext0.STUN_TIMER_DEFAULT_TIMEOUT = 4294967296 := by
  decide

/-! ## The idle counter of the scheduler -/

theorem idle_timers_agent_signal_component_state_change (agent : NiceAgent)
    (stream_id component_id : Nat) (st : NiceComponentState) :
    idle_timers (agent_signal_component_state_change agent stream_id component_id st) =
      idle_timers agent := by
  unfold agent_signal_component_state_change
  split
  · rfl
  · split_ifs <;> rfl

theorem idle_timers_priv_prune_pending_checks (agent : NiceAgent)
    (stream_id component_id : Nat) :
    idle_timers (priv_prune_pending_checks agent stream_id component_id).2 =
      idle_timers agent := by
  unfold priv_prune_pending_checks
  split <;> rfl

theorem idle_timers_conn_check_update_check_list_state_for_ready (agent : NiceAgent)
    (stream_id component_id : Nat) :
    idle_timers (conn_check_update_check_list_state_for_ready agent stream_id component_id) =
      idle_timers agent := by
  have hp := idle_timers_priv_prune_pending_checks agent stream_id component_id
  unfold conn_check_update_check_list_state_for_ready
  split
  · rfl
  · simp only
    split_ifs
    all_goals
      repeat (first
        | rfl
        | exact hp
        | rw [idle_timers_agent_signal_component_state_change])

theorem idle_timers_priv_add_pair_to_triggered_check_queue (agent : NiceAgent) (pair : Nat) :
    idle_timers (priv_add_pair_to_triggered_check_queue agent pair) = idle_timers agent := by
  unfold priv_add_pair_to_triggered_check_queue
  split_ifs <;> rfl

theorem idle_timers_conn_check_update_selected_pair (E : Ext) (agent : NiceAgent)
    (stream_id component_id : Nat) (pair : CandidateCheckPair) :
    idle_timers (conn_check_update_selected_pair E agent stream_id component_id pair) =
      idle_timers agent := by
  unfold conn_check_update_selected_pair
  split
  · rfl
  · split_ifs <;> rfl

theorem idle_timers_conn_check_send (E : Ext) (now : Int) (agent : NiceAgent) (pair : Nat) :
    idle_timers (conn_check_send E now agent pair).2 = idle_timers agent := by
  have hn : ∀ cand_use, idle_timers (conn_check_send_nominate agent pair cand_use) =
      idle_timers agent := by
    intro cand_use
    unfold conn_check_send_nominate
    split_ifs <;> rfl
  have hr : ∀ (a : NiceAgent) (pr : CandidateCheckPair) (cand_use : Bool),
      idle_timers (conn_check_send_request E now a pair pr cand_use).2 = idle_timers a := by
    intro a pr cand_use
    unfold conn_check_send_request
    simp only
    split_ifs <;> rfl
  unfold conn_check_send
  split
  · rfl
  · split
    · rfl
    · simp only
      split_ifs
      · exact hn _
      · rw [hr, hn]

theorem idle_timers_priv_conn_check_initiate (E : Ext) (now : Int) (agent : NiceAgent)
    (pair : Nat) : idle_timers (priv_conn_check_initiate E now agent pair).2 =
      idle_timers agent := by
  have h := idle_timers_conn_check_send E now (SET_PAIR_STATE agent pair NICE_CHECK_IN_PROGRESS)
    pair
  unfold priv_conn_check_initiate
  simp only
  split_ifs
  · exact h
  · exact h

theorem idle_timers_priv_conn_check_tick_stream_loop (E : Ext) (now : Int) (stream_id : Nat)
    (ptrs : List Nat) (agent : NiceAgent) :
    idle_timers (priv_conn_check_tick_stream_loop E now stream_id ptrs agent).2 =
      idle_timers agent := by
  induction ptrs generalizing agent with
  | nil => rfl
  | cons ptr rest ih =>
    unfold priv_conn_check_tick_stream_loop
    split
    · exact ih agent
    · split_ifs
      · exact ih agent
      · split
        · exact ih agent
        · simp only
          split
          · rfl
          · split_ifs
            · rw [ih, idle_timers_conn_check_update_check_list_state_for_ready]
              rfl
            · rw [ih]
              rfl

theorem idle_timers_priv_conn_check_unfreeze_next (agent : NiceAgent) :
    idle_timers (priv_conn_check_unfreeze_next agent).2 = idle_timers agent := by
  unfold priv_conn_check_unfreeze_next
  split_ifs <;> rfl

theorem idle_timers_priv_conn_check_triggered_check (E : Ext) (now : Int) (agent : NiceAgent) :
    idle_timers (priv_conn_check_triggered_check E now agent).2 = idle_timers agent := by
  unfold priv_conn_check_triggered_check priv_get_pair_from_triggered_check_queue
  cases agent.triggered_check_queue with
  | nil => rfl
  | cons x xs =>
    simp only
    rw [idle_timers_priv_conn_check_initiate]
    rfl

theorem idle_timers_priv_conn_check_ordinary_check (E : Ext) (now : Int) (agent : NiceAgent)
    (stream_id : Nat) :
    idle_timers (priv_conn_check_ordinary_check E now agent stream_id).2 =
      idle_timers agent := by
  unfold priv_conn_check_ordinary_check
  cases find_next_waiting_of agent stream_id with
  | some pair => exact idle_timers_priv_conn_check_initiate E now agent _
  | none =>
    simp only
    cases find_next_waiting_of (priv_conn_check_unfreeze_next agent).2 stream_id with
    | some pair =>
      simp only
      rw [idle_timers_priv_conn_check_initiate, idle_timers_priv_conn_check_unfreeze_next]
    | none => exact idle_timers_priv_conn_check_unfreeze_next agent

theorem idle_timers_priv_conn_check_tick_stream (E : Ext) (now : Int) (agent : NiceAgent)
    (stream_id : Nat) :
    idle_timers (priv_conn_check_tick_stream E now agent stream_id).2 = idle_timers agent := by
  unfold priv_conn_check_tick_stream
  split
  · rfl
  · exact idle_timers_priv_conn_check_tick_stream_loop E now _ _ _

theorem idle_timers_tick_streams_until_sent (step : NiceAgent → Nat → Bool × NiceAgent)
    (hstep : ∀ a sid, idle_timers (step a sid).2 = idle_timers a)
    (ids : List Nat) (flag : Bool) (agent : NiceAgent) :
    idle_timers (tick_streams_until_sent step ids flag agent).2 = idle_timers agent := by
  induction ids generalizing flag agent with
  | nil => rfl
  | cons sid rest ih =>
    unfold tick_streams_until_sent
    split_ifs
    · rfl
    · simp only
      rw [ih, hstep]

theorem idle_timers_priv_conn_check_tick_agent_locked_checks (E : Ext) (now : Int)
    (agent : NiceAgent) :
    idle_timers (priv_conn_check_tick_agent_locked_checks E now agent).2 =
      idle_timers agent := by
  unfold priv_conn_check_tick_agent_locked_checks
  simp only
  rw [idle_timers_tick_streams_until_sent _
      (fun a sid => idle_timers_priv_conn_check_ordinary_check E now a sid),
    idle_timers_tick_streams_until_sent _
      (fun a sid => idle_timers_priv_conn_check_tick_stream E now a sid),
    idle_timers_tick_streams_until_sent _
      (fun a _ => idle_timers_priv_conn_check_triggered_check E now a)]

theorem idle_timers_nominate_component_regular (agent : NiceAgent) (stream_id : Nat)
    (other_stream_pair : Option CandidateCheckPair) (component_id : Nat) :
    idle_timers (nominate_component_regular agent stream_id other_stream_pair
      component_id).2 = idle_timers agent := by
  unfold nominate_component_regular
  split
  · rfl
  · simp only
    repeat' split
    all_goals first
      | rfl
      | (rw [idle_timers_priv_add_pair_to_triggered_check_queue]; rfl)

theorem idle_timers_nominate_component_legacy (E : Ext) (agent : NiceAgent)
    (stream_id component_id : Nat) :
    idle_timers (nominate_component_legacy E agent stream_id component_id).2 =
      idle_timers agent := by
  unfold nominate_component_legacy
  split
  · rfl
  · split
    · rfl
    · simp only
      rw [idle_timers_priv_add_pair_to_triggered_check_queue,
        idle_timers_conn_check_update_selected_pair]
      rfl

theorem idle_timers_nominate_components (step : NiceAgent → Nat → Bool × NiceAgent)
    (hstep : ∀ a cid, idle_timers (step a cid).2 = idle_timers a)
    (ids : List Nat) (flag : Bool) (agent : NiceAgent) :
    idle_timers (nominate_components step ids flag agent).2 = idle_timers agent := by
  induction ids generalizing flag agent with
  | nil => rfl
  | cons cid rest ih =>
    unfold nominate_components
    simp only
    rw [ih, hstep]

theorem idle_timers_priv_conn_check_tick_stream_nominate (E : Ext) (agent : NiceAgent)
    (stream_id : Nat) :
    idle_timers (priv_conn_check_tick_stream_nominate E agent stream_id).2 =
      idle_timers agent := by
  unfold priv_conn_check_tick_stream_nominate
  split
  · rfl
  · simp only
    have hu : ∀ (a : NiceAgent) (f : NiceStream → NiceStream),
        idle_timers (a.updateStream stream_id f) = idle_timers a := fun _ _ => rfl
    rw [hu]
    split_ifs
    · exact idle_timers_nominate_components _
        (fun a cid => idle_timers_nominate_component_regular a stream_id _ cid) _ _ _
    · rfl
    · exact idle_timers_nominate_components _
        (fun a cid => idle_timers_nominate_component_legacy E a stream_id cid) _ _ _
    · rfl
    · rfl

theorem idle_timers_tick_nominate_streams (E : Ext) (ids : List Nat) (flag : Bool)
    (agent : NiceAgent) :
    idle_timers (tick_nominate_streams E ids flag agent).2 = idle_timers agent := by
  induction ids generalizing flag agent with
  | nil => rfl
  | cons sid rest ih =>
    unfold tick_nominate_streams
    simp only
    rw [ih, idle_timers_priv_conn_check_tick_stream_nominate]

theorem tick_idle_step (E : Ext) (now : Int) (a : NiceAgent)
    (hidle : tick_keep_timer_going E now a = false) :
    ((priv_conn_check_tick_agent_locked E now a).1 = false ↔
      (a.conncheck_ongoing_idle_delay + a.timer_ta) % 2 ^ 32 ≥ a.idle_timeout) ∧
    ((priv_conn_check_tick_agent_locked E now a).1 = true →
      idle_timers (priv_conn_check_tick_agent_locked E now a).2 =
        (a.timer_ta, a.idle_timeout,
          (a.conncheck_ongoing_idle_delay + a.timer_ta) % 2 ^ 32)) := by
  have hf : idle_timers (tick_nominate_streams E (a.streams.map (fun s => s.id))
      (priv_conn_check_tick_agent_locked_checks E now a).1
      (priv_conn_check_tick_agent_locked_checks E now a).2).2 = idle_timers a := by
    rw [idle_timers_tick_nominate_streams, idle_timers_priv_conn_check_tick_agent_locked_checks]
  unfold tick_keep_timer_going at hidle
  simp only at hidle
  unfold idle_timers at hf
  simp only [Prod.mk.injEq] at hf
  obtain ⟨h1, h2, h3⟩ := hf
  unfold priv_conn_check_tick_agent_locked tick_idle_accounting
  simp only [hidle, Bool.false_eq_true, if_false, true_and, h1, h2, h3]
  by_cases hc : (a.conncheck_ongoing_idle_delay + a.timer_ta) % 2 ^ 32 ≥ a.idle_timeout
  · rw [if_pos hc]
    exact ⟨⟨fun _ => hc, fun _ => rfl⟩, fun h => by simp at h⟩
  · rw [if_neg hc]
    refine ⟨⟨fun h => by simp at h, fun h => absurd h hc⟩, fun _ => ?_⟩
    unfold idle_timers
    simp only [h1, h2, h3]

theorem tick_work_step (E : Ext) (now : Int) (a : NiceAgent)
    (hwork : tick_keep_timer_going E now a = true) :
    (priv_conn_check_tick_agent_locked E now a).1 = true ∧
    (priv_conn_check_tick_agent_locked E now a).2.conncheck_ongoing_idle_delay = 0 := by
  unfold tick_keep_timer_going at hwork
  simp only at hwork
  unfold priv_conn_check_tick_agent_locked tick_idle_accounting
  simp only [hwork, if_true, Bool.true_eq_false, false_and, if_false]
  exact ⟨trivial, trivial⟩

theorem idle_ticks_to_stop_spec (idle ta : Nat) (hta : 0 < ta) :
    (∀ m, 1 ≤ m → m < max 1 ((idle + ta - 1) / ta) → m * ta < idle) ∧
    idle ≤ max 1 ((idle + ta - 1) / ta) * ta ∧
    (0 < idle → max 1 ((idle + ta - 1) / ta) * ta < idle + ta) := by
  have h1 : (idle + ta - 1) / ta * ta ≤ idle + ta - 1 := Nat.div_mul_le_self _ _
  have h2 : idle + ta - 1 < (idle + ta - 1) / ta * ta + ta := Nat.lt_div_mul_add hta
  refine ⟨?_, ?_, ?_⟩
  · intro m hm1 hm
    have hk : m + 1 ≤ (idle + ta - 1) / ta := by
      rcases Nat.le_total 1 ((idle + ta - 1) / ta) with h | h
      · rw [Nat.max_eq_right h] at hm; omega
      · rw [Nat.max_eq_left h] at hm; omega
    have h3 : (m + 1) * ta ≤ (idle + ta - 1) / ta * ta := Nat.mul_le_mul_right ta hk
    rw [Nat.add_mul, Nat.one_mul] at h3
    omega
  · rcases Nat.le_total 1 ((idle + ta - 1) / ta) with h | h
    · rw [Nat.max_eq_right h]; omega
    · rw [Nat.max_eq_left h, Nat.one_mul]
      have h0 : (idle + ta - 1) / ta * ta ≤ 1 * ta := Nat.mul_le_mul_right ta h
      omega
  · intro hidle
    rcases Nat.le_total 1 ((idle + ta - 1) / ta) with h | h
    · rw [Nat.max_eq_right h]; omega
    · rw [Nat.max_eq_left h, Nat.one_mul]; omega

theorem idle_ticks_state (E : Ext) (times : Nat → Int) (agent : NiceAgent)
    (h0 : agent.conncheck_ongoing_idle_delay = 0) (hta : 0 < agent.timer_ta)
    (hnowrap : agent.idle_timeout + agent.timer_ta ≤ 2 ^ 32)
    (hidle : ∀ j < idle_ticks_to_stop agent,
      tick_keep_timer_going E (times j) (agent_after_ticks E times j agent) = false) :
    ∀ j, j < idle_ticks_to_stop agent →
      idle_timers (agent_after_ticks E times j agent) =
        (agent.timer_ta, agent.idle_timeout, j * agent.timer_ta) ∧
      (0 < j → (priv_conn_check_tick_agent_locked E (times (j - 1))
        (agent_after_ticks E times (j - 1) agent)).1 = true) := by
  obtain ⟨hs1, hs2, hs3⟩ := idle_ticks_to_stop_spec agent.idle_timeout agent.timer_ta hta
  intro j
  induction j with
  | zero =>
    intro _
    refine ⟨?_, fun h => absurd h (by decide)⟩
    unfold agent_after_ticks idle_timers
    rw [h0, Nat.zero_mul]
  | succ j ih =>
    intro hj
    obtain ⟨ht, _⟩ := ih (by omega)
    have hlt : (j + 1) * agent.timer_ta < agent.idle_timeout :=
      hs1 (j + 1) (by omega) hj
    unfold idle_timers at ht
    simp only [Prod.mk.injEq] at ht
    obtain ⟨t1, t2, t3⟩ := ht
    have hstep := tick_idle_step E (times j) (agent_after_ticks E times j agent)
      (hidle j (by omega))
    rw [t1, t2, t3] at hstep
    have hv : (j * agent.timer_ta + agent.timer_ta) % 2 ^ 32 = (j + 1) * agent.timer_ta := by
      rw [Nat.add_mul, Nat.one_mul]
      rw [Nat.add_mul, Nat.one_mul] at hlt
      exact Nat.mod_eq_of_lt (by omega)
    rw [hv] at hstep
    have htrue : (priv_conn_check_tick_agent_locked E (times j)
        (agent_after_ticks E times j agent)).1 = true := by
      cases hb : (priv_conn_check_tick_agent_locked E (times j)
          (agent_after_ticks E times j agent)).1 with
      | true => rfl
      | false => exact absurd (hstep.1.1 hb) (by omega)
    refine ⟨?_, fun _ => ?_⟩
    · show idle_timers (priv_conn_check_tick_agent_locked E (times j)
        (agent_after_ticks E times j agent)).2 = _
      exact hstep.2 htrue
    · simpa using htrue

/-- C35, amended: in `priv_conn_check_tick_agent_locked` a tick that performs work resets
`conncheck_ongoing_idle_delay` to 0 and returns TRUE; a tick that performs no work adds
`timer_ta` to it modulo 2^32 and returns FALSE exactly when the new value is at least
`idle_timeout` (otherwise the new value is stored). Hence, for `timer_ta` > 0 with
`idle_timeout + timer_ta` at most 2^32 and a counter of 0, when the first k ticks are idle,
with k = max (1, ceil (idle_timeout / timer_ta)), the ticks before the k-th return TRUE and the
k-th returns FALSE. -/
theorem idle_termination_without_wrap (E : Ext) (times : Nat → Int) (agent : NiceAgent)
    (h0 : agent.conncheck_ongoing_idle_delay = 0) (hta : 0 < agent.timer_ta)
    (hnowrap : agent.idle_timeout + agent.timer_ta ≤ 2 ^ 32)
    (hidle : ∀ j < idle_ticks_to_stop agent,
      tick_keep_timer_going E (times j) (agent_after_ticks E times j agent) = false) :
    (∀ (now : Int) (a : NiceAgent), tick_keep_timer_going E now a = true →
      (priv_conn_check_tick_agent_locked E now a).1 = true ∧
      (priv_conn_check_tick_agent_locked E now a).2.conncheck_ongoing_idle_delay = 0) ∧
    (∀ (now : Int) (a : NiceAgent), tick_keep_timer_going E now a = false →
      ((priv_conn_check_tick_agent_locked E now a).1 = false ↔
        (a.conncheck_ongoing_idle_delay + a.timer_ta) % 2 ^ 32 ≥ a.idle_timeout) ∧
      ((priv_conn_check_tick_agent_locked E now a).1 = true →
        (priv_conn_check_tick_agent_locked E now a).2.conncheck_ongoing_idle_delay =
          (a.conncheck_ongoing_idle_delay + a.timer_ta) % 2 ^ 32)) ∧
    (∀ j, j + 1 < idle_ticks_to_stop agent →
      (priv_conn_check_tick_agent_locked E (times j)
        (agent_after_ticks E times j agent)).1 = true) ∧
    (priv_conn_check_tick_agent_locked E (times (idle_ticks_to_stop agent - 1))
      (agent_after_ticks E times (idle_ticks_to_stop agent - 1) agent)).1 = false := by
  have hstate := idle_ticks_state E times agent h0 hta hnowrap hidle
  obtain ⟨hs1, hs2, hs3⟩ := idle_ticks_to_stop_spec agent.idle_timeout agent.timer_ta hta
  have hk1 : 1 ≤ idle_ticks_to_stop agent := Nat.le_max_left _ _
  refine ⟨fun now a h => tick_work_step E now a h, fun now a h => ?_, fun j hj => ?_, ?_⟩
  · have hstep := tick_idle_step E now a h
    refine ⟨hstep.1, fun ht => ?_⟩
    have := hstep.2 ht
    unfold idle_timers at this
    simp only [Prod.mk.injEq] at this
    exact this.2.2
  · have := (hstate (j + 1) hj).2 (by omega)
    simpa using this
  · obtain ⟨ht, _⟩ := hstate (idle_ticks_to_stop agent - 1) (by omega)
    unfold idle_timers at ht
    simp only [Prod.mk.injEq] at ht
    obtain ⟨t1, t2, t3⟩ := ht
    have hstep := tick_idle_step E (times (idle_ticks_to_stop agent - 1))
      (agent_after_ticks E times (idle_ticks_to_stop agent - 1) agent)
      (hidle _ (by omega))
    rw [t1, t2, t3] at hstep
    apply hstep.1.2
    have hkm : (idle_ticks_to_stop agent - 1) * agent.timer_ta + agent.timer_ta =
        idle_ticks_to_stop agent * agent.timer_ta := by
      have : idle_ticks_to_stop agent = (idle_ticks_to_stop agent - 1) + 1 := by omega
      conv_rhs => rw [this, Nat.add_mul, Nat.one_mul]
    rw [hkm]
    unfold idle_ticks_to_stop at hkm ⊢
    rcases Nat.eq_zero_or_pos agent.idle_timeout with hz | hp
    · rw [hz]; exact Nat.zero_le _
    · have := hs3 hp
      rw [Nat.mod_eq_of_lt (by omega)]
      exact hs2

/-- C35 at an agent with nothing to check, `timer_ta` = 20 and `idle_timeout` = 50: three
idle ticks, the third stops the scheduler. -/
theorem idle_termination_without_wrap_witness :
    ex_agent_idle.conncheck_ongoing_idle_delay = 0 ∧ 0 < ex_agent_idle.timer_ta ∧
    ex_agent_idle.idle_timeout + ex_agent_idle.timer_ta ≤ 2 ^ 32 ∧
    idle_ticks_to_stop ex_agent_idle = 3 ∧
    (∀ j < idle_ticks_to_stop ex_agent_idle,
      tick_keep_timer_going ext0 0 (agent_after_ticks ext0 (fun _ => 0) j ex_agent_idle) =
        false) ∧
    (priv_conn_check_tick_agent_locked ext0 0
      (agent_after_ticks ext0 (fun _ => 0) (idle_ticks_to_stop ex_agent_idle - 1)
        ex_agent_idle)).1 = false :=
  ⟨by decide, by decide, by decide, by decide, by decide,
    (idle_termination_without_wrap ext0 (fun _ => 0) ex_agent_idle (by decide) (by decide)
      (by decide) (by decide)).2.2.2⟩

/-- C35, counterexample: with `timer_ta` = 2^31 and `idle_timeout` = 2^32 - 1 the formula gives
k = 2, but the second consecutive idle tick wraps the counter to 0 and returns TRUE, as do the
third and the fourth. -/
theorem idle_counter_wraps_before_timeout :
    ex_agent_idle_wrap.conncheck_ongoing_idle_delay = 0 ∧ 0 < ex_agent_idle_wrap.timer_ta ∧
    idle_ticks_to_stop ex_agent_idle_wrap = 2 ∧
    (∀ j < 4, tick_keep_timer_going ext0 0
      (agent_after_ticks ext0 (fun _ => 0) j ex_agent_idle_wrap) = false) ∧
    (∀ j < 4, (priv_conn_check_tick_agent_locked ext0 0
      (agent_after_ticks ext0 (fun _ => 0) j ex_agent_idle_wrap)).1 = true) ∧
    (agent_after_ticks ext0 (fun _ => 0) 1 ex_agent_idle_wrap).conncheck_ongoing_idle_delay =
      2147483648 ∧
    (agent_after_ticks ext0 (fun _ => 0) 2 ex_agent_idle_wrap).conncheck_ongoing_idle_delay =
      0 := by
  decide

/-! ## USE-CANDIDATE in the requests sent -/

theorem conn_check_send_request_message (E : Ext) (now : Int) (agent : NiceAgent) (pair : Nat)
    (pr pr1 : CandidateCheckPair) (cand_use : Bool)
    (hfind : agent.findPair pair = some pr1) (hptr : pr1.ptr = pair)
    (hsent : (conn_check_send_request E now agent pair pr cand_use).1 = 0) :
    (((conn_check_send_request E now agent pair pr cand_use).2.findPair pair).bind
      (fun q => q.stun_transactions.head?)).map
        (fun s => (s.message.use_candidate, s.message.ice_controlling)) =
      some (cand_use, agent.controlling_mode) := by
  unfold conn_check_send_request at hsent ⊢
  simp only at hsent ⊢
  by_cases h1 : (stun_usage_ice_conncheck_create E agent pr cand_use
      agent.controlling_mode).length = 0
  · rw [if_pos h1] at hsent
    simp at hsent
  · rw [if_neg h1]
    split_ifs
    all_goals
      simp only [findPair_agent_socket_send]
      rw [findPair_updatePair _ _ _ _ (fun _ => by rfl),
        findPair_updatePair _ _ _ _ (fun _ => by rfl), hfind]
      simp [hptr, priv_add_stun_transaction, stun_usage_ice_conncheck_create]

/-- C40: what `conn_check_send` puts in the request it sends, in RFC 5245 compatibility: the
role attribute is ICE-CONTROLLING exactly when the agent is controlling; in aggressive mode
USE-CANDIDATE is set exactly when the agent is controlling; in regular mode USE-CANDIDATE is
the flag `use_candidate_on_next_check` of the pair, whatever the role of the agent is at the
time of sending. -/
theorem use_candidate_in_request (E : Ext) (now : Int) (agent : NiceAgent) (pair : Nat)
    (pr : CandidateCheckPair) (hfind : agent.findPair pair = some pr)
    (hcompat : agent.compatibility = NICE_COMPATIBILITY_RFC5245)
    (hsent : (conn_check_send E now agent pair).1 = 0) :
    (((conn_check_send E now agent pair).2.findPair pair).bind
      (fun q => q.stun_transactions.head?)).map
        (fun s => (s.message.use_candidate, s.message.ice_controlling)) =
      some ((match agent.nomination_mode with
        | NICE_NOMINATION_MODE_REGULAR => pr.use_candidate_on_next_check
        | NICE_NOMINATION_MODE_AGGRESSIVE => agent.controlling_mode), agent.controlling_mode) := by
  have hrfc : NICE_AGENT_IS_COMPATIBLE_WITH_RFC5245_OR_OC2007R2 agent = true := by
    unfold NICE_AGENT_IS_COMPATIBLE_WITH_RFC5245_OR_OC2007R2
    rw [hcompat]; rfl
  have hn : ∀ cand_use, conn_check_send_nominate agent pair cand_use = agent := by
    intro cand_use
    unfold conn_check_send_nominate
    rw [if_pos hrfc]
  have hcu : conn_check_send_cand_use agent pr =
      (match agent.nomination_mode with
        | NICE_NOMINATION_MODE_REGULAR => pr.use_candidate_on_next_check
        | NICE_NOMINATION_MODE_AGGRESSIVE => agent.controlling_mode) := by
    unfold conn_check_send_cand_use
    rw [if_pos hrfc]
  unfold conn_check_send at hsent ⊢
  rw [hfind] at hsent ⊢
  simp only at hsent ⊢
  cases hc : agent_find_component agent pr.stream_id pr.component_id with
  | none => rw [hc] at hsent; simp at hsent
  | some sc =>
    obtain ⟨stream, component⟩ := sc
    rw [hc] at hsent
    simp only at hsent ⊢
    by_cases hu : priv_create_username E agent stream pr.component_id (some pr.remote)
        (some pr.local_) E.NICE_STREAM_MAX_UNAME false = 0
    · rw [if_pos hu] at hsent; simp at hsent
    · rw [if_neg hu] at hsent ⊢
      rw [hn] at hsent ⊢
      rw [conn_check_send_request_message E now agent pair pr pr _ hfind
        (findPair_some_ptr agent pair pr hfind) hsent, hcu]

/-- C40 at the failing input: the agent is controlled and in regular mode, pair 11 still has
the flag the nomination step gave it and is at the head of the triggered-check queue; the
request `conn_check_send` sends for it carries USE-CANDIDATE and not ICE-CONTROLLING, and the
triggered check of the next tick sends exactly that request. -/
theorem use_candidate_in_request_witness :
    ex_agent_role_changed.findPair 11 =
      some ((ex_agent_role_changed.findPair 11).getD default) ∧
    ex_agent_role_changed.compatibility = NICE_COMPATIBILITY_RFC5245 ∧
    (conn_check_send ext0 300000 ex_agent_role_changed 11).1 = 0 ∧
    ex_agent_role_changed.controlling_mode = false ∧
    ex_agent_role_changed.nomination_mode = NICE_NOMINATION_MODE_REGULAR ∧
    ex_agent_role_changed.triggered_check_queue = [11] ∧
    (((conn_check_send ext0 300000 ex_agent_role_changed 11).2.findPair 11).bind
      (fun q => q.stun_transactions.head?)).map
        (fun s => (s.message.use_candidate, s.message.ice_controlling)) =
      some (true, false) ∧
    (((priv_conn_check_triggered_check ext0 300000 ex_agent_role_changed).2.findPair 11).bind
      (fun q => q.stun_transactions.head?)).map
        (fun s => (s.message.use_candidate, s.message.ice_controlling,
          s.message.ice_controlled)) =
      some (true, false, true) :=
  ⟨by decide, by decide, by decide, by decide, by decide, by decide,
    (use_candidate_in_request ext0 300000 ex_agent_role_changed 11
      ((ex_agent_role_changed.findPair 11).getD default) (by decide) (by decide)
      (by decide)).trans (by decide), by decide⟩

/-! ## Regular nomination of a component whose checks are over -/

theorem nominate_select_reference (agent : NiceAgent) (component_id : Nat)
    (other_component_pair other_stream_pair : Option CandidateCheckPair)
    (l : List CandidateCheckPair) (this_component_pair : Option CandidateCheckPair) :
    nominate_select agent component_id false other_component_pair other_stream_pair l
        this_component_pair =
      match l.find? (fun p => nominate_candidate component_id p &&
          nominate_same_kind_as agent
            (nominate_reference_pair other_component_pair other_stream_pair) p) with
      | some pc =>
        ⟨some (nominate_checked_pair agent pc), other_component_pair.isSome,
          other_component_pair.isNone⟩
      | none =>
        ⟨(match this_component_pair with
          | some t => some t
          | none => (l.find? (nominate_candidate component_id)).map
              (nominate_checked_pair agent)), false, false⟩ := by
  induction l generalizing this_component_pair with
  | nil =>
    unfold nominate_select
    cases this_component_pair <;> rfl
  | cons p ps ih =>
    unfold nominate_select
    by_cases h : p.component_id = component_id ∧ p.nominated = false ∧
        p.use_candidate_on_next_check = false ∧ p.valid = true
    · have hcand : nominate_candidate component_id p = true := by
        unfold nominate_candidate
        simp [h.1, h.2.1, h.2.2.1, h.2.2.2]
      rw [if_pos h]
      simp only [Bool.false_eq_true, if_false]
      have hchk : (match p.succeeded_pair with
          | some sp =>
            match agent.findPair sp with
            | some q => q
            | none => p
          | none => p) = nominate_checked_pair agent p := rfl
      rw [hchk]
      cases hoc : other_component_pair with
      | some o =>
        subst hoc
        simp only [nominate_reference_pair, nominate_same_kind_as]
        by_cases hk : nominate_same_kind (nominate_checked_pair agent p).local_
            (nominate_checked_pair agent p).remote o.local_ o.remote = true
        · rw [if_pos hk, List.find?_cons_of_pos _ (by simp [hcand, hk])]
          rfl
        · rw [if_neg hk, if_neg (by simp), List.find?_cons_of_neg _ (by simp [hk])]
          rw [ih]
          simp only [nominate_reference_pair, nominate_same_kind_as]
          cases this_component_pair with
          | some t => rfl
          | none =>
            simp only [Option.isNone_none, if_true]
            rw [List.find?_cons_of_pos _ hcand]
            rfl
      | none =>
        subst hoc
        cases hos : other_stream_pair with
        | some o =>
          subst hos
          simp only [nominate_reference_pair, nominate_same_kind_as]
          by_cases hk : nominate_same_kind (nominate_checked_pair agent p).local_
              (nominate_checked_pair agent p).remote o.local_ o.remote = true
          · rw [if_neg (by simp), if_pos hk, List.find?_cons_of_pos _ (by simp [hcand, hk])]
            rfl
          · rw [if_neg (by simp), if_neg hk, List.find?_cons_of_neg _ (by simp [hk])]
            rw [ih]
            simp only [nominate_reference_pair, nominate_same_kind_as]
            cases this_component_pair with
            | some t => rfl
            | none =>
              simp only [Option.isNone_none, if_true]
              rw [List.find?_cons_of_pos _ hcand]
              rfl
        | none =>
          subst hos
          simp only [nominate_reference_pair, nominate_same_kind_as]
          rw [if_neg (by simp), if_neg (by simp), List.find?_cons_of_neg _ (by simp)]
          rw [ih]
          simp only [nominate_reference_pair, nominate_same_kind_as]
          cases this_component_pair with
          | some t => rfl
          | none =>
            simp only [Option.isNone_none, if_true]
            rw [List.find?_cons_of_pos _ hcand]
            rfl
    · have hcand : nominate_candidate component_id p = false := by
        unfold nominate_candidate
        rw [Bool.eq_false_iff]
        intro hc
        apply h
        simp only [Bool.and_eq_true, beq_iff_eq, Bool.not_eq_true', and_assoc] at hc
        exact hc
      rw [if_neg h, ih, List.find?_cons_of_neg _ (by simp [hcand]),
        List.find?_cons_of_neg _ (by simp [hcand])]

theorem stopping_criterion_exhausted (c1 c2 : Prop) [Decidable c1] [Decidable c2]
    (b3 b4 : Bool) (c5 : Prop) [Decidable c5] (h : c5) :
    (if c1 then true else if c2 then true else if b3 = true then true
      else if b4 = true then true else if c5 then true else false) = true := by
  split_ifs <;> rfl

theorem nominate_component_regular_exhausted (agent : NiceAgent) (stream_id : Nat)
    (other_stream_pair : Option CandidateCheckPair) (component_id : Nat) (stream : NiceStream)
    (p0 : CandidateCheckPair)
    (hstream : agent_find_stream agent stream_id = some stream)
    (hexhausted : ∀ q ∈ stream.conncheck_list, q.component_id = component_id →
      q.state ≠ NICE_CHECK_FROZEN ∧ q.state ≠ NICE_CHECK_WAITING ∧
        q.state ≠ NICE_CHECK_IN_PROGRESS)
    (hunflagged : ∀ q ∈ stream.conncheck_list, q.component_id = component_id →
      q.use_candidate_on_next_check = false)
    (hbest : stream.conncheck_list.find? (nominate_candidate component_id) = some p0) :
    nominate_component_regular agent stream_id other_stream_pair component_id =
      (true, priv_add_pair_to_triggered_check_queue
        (agent.updatePair
          (nominate_checked_pair agent
            (match stream.conncheck_list.find? (fun p => nominate_candidate component_id p &&
                nominate_same_kind_as agent (nominate_reference_pair
                  (nominate_other_component_pair stream component_id) other_stream_pair) p) with
             | some pc => pc
             | none => p0)).ptr
          (fun q => { q with use_candidate_on_next_check := true }))
        (nominate_checked_pair agent
          (match stream.conncheck_list.find? (fun p => nominate_candidate component_id p &&
              nominate_same_kind_as agent (nominate_reference_pair
                (nominate_other_component_pair stream component_id) other_stream_pair) p) with
           | some pc => pc
           | none => p0)).ptr) := by
  have hdone : ((stream.conncheck_list.filter (fun p => p.component_id == component_id)).any
      (fun p => p.use_candidate_on_next_check)) = false := by
    rw [List.any_eq_false]
    intro q hq
    have hq1 := List.mem_filter.1 hq
    rw [hunflagged q hq1.1 (by simpa using hq1.2)]
    decide
  have hcount : ∀ st : NiceCheckState, (st = NICE_CHECK_FROZEN ∨ st = NICE_CHECK_WAITING ∨
      st = NICE_CHECK_IN_PROGRESS) →
      ((stream.conncheck_list.filter (fun p => p.component_id == component_id)).filter
        (fun p => p.state == st)).length = 0 := by
    intro st hst
    rw [List.length_eq_zero, List.filter_eq_nil_iff]
    intro q hq
    have hq1 := List.mem_filter.1 hq
    have := hexhausted q hq1.1 (by simpa using hq1.2)
    rcases hst with h | h | h <;> simp [h, this.1, this.2.1, this.2.2]
  have hpred : (fun p : CandidateCheckPair => p.component_id == component_id &&
      !p.nominated && !p.use_candidate_on_next_check && p.valid) =
      nominate_candidate component_id := rfl
  have hchoice : (nominate_select agent component_id
      (other_stream_pair.isNone && (nominate_other_component_pair stream component_id).isNone)
      (nominate_other_component_pair stream component_id) other_stream_pair
      stream.conncheck_list none).this_component_pair =
      some (nominate_checked_pair agent
        (match stream.conncheck_list.find? (fun p => nominate_candidate component_id p &&
            nominate_same_kind_as agent (nominate_reference_pair
              (nominate_other_component_pair stream component_id) other_stream_pair) p) with
         | some pc => pc
         | none => p0)) := by
    cases hoc : nominate_other_component_pair stream component_id with
    | some o =>
      simp only [Option.isNone_some, Bool.and_false]
      rw [nominate_select_reference]
      cases stream.conncheck_list.find? (fun p => nominate_candidate component_id p &&
          nominate_same_kind_as agent (nominate_reference_pair (some o) other_stream_pair)
            p) with
      | some pc => rfl
      | none => simp only [hbest, Option.map_some']
    | none =>
      cases hos : other_stream_pair with
      | some o =>
        simp only [Option.isNone_some, Bool.false_and]
        rw [nominate_select_reference]
        cases stream.conncheck_list.find? (fun p => nominate_candidate component_id p &&
            nominate_same_kind_as agent (nominate_reference_pair none (some o)) p) with
        | some pc => rfl
        | none => simp only [hbest, Option.map_some']
      | none =>
        simp only [Option.isNone_none, Bool.and_self]
        rw [nominate_select_first, hpred, hbest]
        have hnone : stream.conncheck_list.find? (fun p => nominate_candidate component_id p &&
            nominate_same_kind_as agent (nominate_reference_pair none none) p) = none := by
          rw [List.find?_eq_none]
          intro q _
          simp [nominate_reference_pair, nominate_same_kind_as]
        rw [hnone]
        rfl
  unfold nominate_component_regular
  rw [hstream]
  simp only
  rw [hdone]
  simp only [Bool.false_eq_true, if_false]
  have hoc1 : stream.conncheck_list.find? (fun p =>
      p.component_id != component_id && nominated_or_about_to p) =
      nominate_other_component_pair stream component_id := rfl
  rw [hoc1, hchoice]
  simp only
  rw [stopping_criterion_exhausted _ _ _ _ _
    ⟨hcount NICE_CHECK_WAITING (Or.inr (Or.inl rfl)),
     hcount NICE_CHECK_IN_PROGRESS (Or.inr (Or.inr rfl)),
     hcount NICE_CHECK_FROZEN (Or.inl rfl)⟩]
  simp only [Bool.true_eq_false, if_false]

theorem priv_conn_check_tick_stream_nominate_gate (E : Ext) (agent : NiceAgent)
    (stream_id : Nat) (stream : NiceStream) (p0 : CandidateCheckPair)
    (hstream : agent_find_stream agent stream_id = some stream)
    (hcompat : agent.compatibility = NICE_COMPATIBILITY_RFC5245)
    (hmode : agent.nomination_mode = NICE_NOMINATION_MODE_REGULAR)
    (hctrl : agent.controlling_mode = true)
    (hp0 : p0 ∈ stream.conncheck_list) (hnom : p0.nominated = false)
    (hstate : p0.state = NICE_CHECK_SUCCEEDED ∨ p0.state = NICE_CHECK_DISCOVERED)
    (hgate : (stream.conncheck_list.filter (fun p =>
      (p.state == NICE_CHECK_SUCCEEDED || p.state == NICE_CHECK_DISCOVERED) &&
        p.nominated)).length < stream.n_components) :
    priv_conn_check_tick_stream_nominate E agent stream_id =
      ((nominate_components
          (fun a c => nominate_component_regular a stream_id
            (nominate_other_stream_pair agent stream_id) c)
          (stream.components.map (fun c => c.id))
          (decide ((stream.conncheck_list.filter
            (fun p => p.state == NICE_CHECK_IN_PROGRESS)).length > 0)) agent).1,
        (nominate_components
          (fun a c => nominate_component_regular a stream_id
            (nominate_other_stream_pair agent stream_id) c)
          (stream.components.map (fun c => c.id))
          (decide ((stream.conncheck_list.filter
            (fun p => p.state == NICE_CHECK_IN_PROGRESS)).length > 0)) agent).2.updateStream
          stream_id (fun s => { s with tick_counter := (s.tick_counter + 1) % 2 ^ 32 })) := by
  unfold priv_conn_check_tick_stream_nominate
  rw [hstream]
  simp only
  have hwait : (stream.conncheck_list.filter (fun p =>
      (p.state == NICE_CHECK_SUCCEEDED || p.state == NICE_CHECK_DISCOVERED) &&
        !p.nominated)).length > 0 := by
    apply List.length_pos_of_mem
    refine List.mem_filter.2 ⟨hp0, ?_⟩
    rcases hstate with h | h <;> simp [h, hnom]
  have hc : NICE_AGENT_IS_COMPATIBLE_WITH_RFC5245_OR_OC2007R2 agent = true := by
    unfold NICE_AGENT_IS_COMPATIBLE_WITH_RFC5245_OR_OC2007R2
    simp [hcompat]
  rw [if_pos ⟨hgate, hwait⟩, if_pos hc, if_pos ⟨hmode, hctrl⟩]

/-- C32, amended: regular nomination of a component whose checks are over. For a controlling
agent in regular nomination mode (RFC 5245 compatibility), take a component of the stream that
has no Frozen, Waiting or InProgress pair and no pair flagged `use_candidate_on_next_check`,
and let `p0` be its first pair in list order that is valid, not nominated and not flagged
(in a sorted list the one of highest priority). When the loop over the components reaches the
component, it flags and enqueues one pair: the pair examined in place of `p0` (its parent for
a discovered pair) when no such pair of the component has the transport and the addresses of
the reference pair (the nominated or flagged pair found in another component, or else in
another stream), and otherwise the pair examined in place of the first one that has. The loop
is run when the stream has fewer nominated Succeeded or Discovered pairs than components; for
a stream with this one component the function then returns TRUE with the pair flagged and in
the triggered-check queue. -/
theorem regular_nomination_of_exhausted_component (E : Ext) (agent : NiceAgent)
    (stream_id : Nat) (stream : NiceStream) (component_id : Nat) (p0 : CandidateCheckPair)
    (hstream : agent_find_stream agent stream_id = some stream)
    (hcompat : agent.compatibility = NICE_COMPATIBILITY_RFC5245)
    (hmode : agent.nomination_mode = NICE_NOMINATION_MODE_REGULAR)
    (hctrl : agent.controlling_mode = true)
    (hexhausted : ∀ q ∈ stream.conncheck_list, q.component_id = component_id →
      q.state ≠ NICE_CHECK_FROZEN ∧ q.state ≠ NICE_CHECK_WAITING ∧
        q.state ≠ NICE_CHECK_IN_PROGRESS)
    (hunflagged : ∀ q ∈ stream.conncheck_list, q.component_id = component_id →
      q.use_candidate_on_next_check = false)
    (hbest : stream.conncheck_list.find? (nominate_candidate component_id) = some p0)
    (hstate : p0.state = NICE_CHECK_SUCCEEDED ∨ p0.state = NICE_CHECK_DISCOVERED)
    (hgate : (stream.conncheck_list.filter (fun p =>
      (p.state == NICE_CHECK_SUCCEEDED || p.state == NICE_CHECK_DISCOVERED) &&
        p.nominated)).length < stream.n_components) :
    (∀ other_stream_pair,
      nominate_component_regular agent stream_id other_stream_pair component_id =
        (true, priv_add_pair_to_triggered_check_queue
          (agent.updatePair
            (nominate_exhausted_target agent stream other_stream_pair component_id p0).ptr
            (fun q => { q with use_candidate_on_next_check := true }))
          (nominate_exhausted_target agent stream other_stream_pair component_id p0).ptr)) ∧
    (∀ other_stream_pair,
      (∀ p ∈ stream.conncheck_list, nominate_candidate component_id p = true →
        nominate_same_kind_as agent (nominate_reference_pair
          (nominate_other_component_pair stream component_id) other_stream_pair) p = false) →
      nominate_exhausted_target agent stream other_stream_pair component_id p0 =
        nominate_checked_pair agent p0) ∧
    (∀ other_stream_pair pc,
      stream.conncheck_list.find? (fun p => nominate_candidate component_id p &&
        nominate_same_kind_as agent (nominate_reference_pair
          (nominate_other_component_pair stream component_id) other_stream_pair) p) =
        some pc →
      nominate_exhausted_target agent stream other_stream_pair component_id p0 =
        nominate_checked_pair agent pc) ∧
    (conncheck_sorted stream.conncheck_list →
      ∀ q ∈ stream.conncheck_list, nominate_candidate component_id q = true →
        q.priority ≤ p0.priority) ∧
    priv_conn_check_tick_stream_nominate E agent stream_id =
      ((nominate_components
          (fun a c => nominate_component_regular a stream_id
            (nominate_other_stream_pair agent stream_id) c)
          (stream.components.map (fun c => c.id))
          (decide ((stream.conncheck_list.filter
            (fun p => p.state == NICE_CHECK_IN_PROGRESS)).length > 0)) agent).1,
        (nominate_components
          (fun a c => nominate_component_regular a stream_id
            (nominate_other_stream_pair agent stream_id) c)
          (stream.components.map (fun c => c.id))
          (decide ((stream.conncheck_list.filter
            (fun p => p.state == NICE_CHECK_IN_PROGRESS)).length > 0)) agent).2.updateStream
          stream_id (fun s => { s with tick_counter := (s.tick_counter + 1) % 2 ^ 32 })) ∧
    (stream.components.map (fun c => c.id) = [component_id] →
      (priv_conn_check_tick_stream_nominate E agent stream_id).1 = true ∧
      (nominate_exhausted_target agent stream (nominate_other_stream_pair agent stream_id)
          component_id p0).ptr ∈
        (priv_conn_check_tick_stream_nominate E agent stream_id).2.triggered_check_queue ∧
      ∀ q ∈ stream_pairs (priv_conn_check_tick_stream_nominate E agent stream_id).2 stream_id,
        q.ptr = (nominate_exhausted_target agent stream
          (nominate_other_stream_pair agent stream_id) component_id p0).ptr →
        q.use_candidate_on_next_check = true) := by
  have hp0mem : p0 ∈ stream.conncheck_list := List.mem_of_find?_eq_some hbest
  have hp0c : nominate_candidate component_id p0 = true := List.find?_some hbest
  have hp0nom : p0.nominated = false := by
    unfold nominate_candidate at hp0c
    simp only [Bool.and_eq_true, Bool.not_eq_true'] at hp0c
    exact hp0c.1.1.2
  have hbody := fun osp => nominate_component_regular_exhausted agent stream_id osp component_id
    stream p0 hstream hexhausted hunflagged hbest
  have hfun := priv_conn_check_tick_stream_nominate_gate E agent stream_id stream p0 hstream
    hcompat hmode hctrl hp0mem hp0nom hstate hgate
  refine ⟨fun osp => hbody osp, ?_, ?_, ?_, hfun, ?_⟩
  · intro osp hno
    unfold nominate_exhausted_target
    have : stream.conncheck_list.find? (fun p => nominate_candidate component_id p &&
        nominate_same_kind_as agent (nominate_reference_pair
          (nominate_other_component_pair stream component_id) osp) p) = none := by
      rw [List.find?_eq_none]
      intro q hq hc
      simp only [Bool.and_eq_true] at hc
      rw [hno q hq hc.1] at hc
      exact absurd hc.2 (by decide)
    rw [this]
  · intro osp pc hpc
    unfold nominate_exhausted_target
    rw [hpc]
  · intro hs
    exact find?_sorted_highest _ _ p0 hs hbest
  · intro hids
    rw [hfun, hids]
    have hnc : ∀ keep, nominate_components
        (fun a c => nominate_component_regular a stream_id
          (nominate_other_stream_pair agent stream_id) c) [component_id] keep agent =
        (true, priv_add_pair_to_triggered_check_queue
          (agent.updatePair
            (nominate_exhausted_target agent stream (nominate_other_stream_pair agent stream_id)
              component_id p0).ptr
            (fun q => { q with use_candidate_on_next_check := true }))
          (nominate_exhausted_target agent stream (nominate_other_stream_pair agent stream_id)
            component_id p0).ptr) := by
      intro keep
      rw [nominate_components_cons, hbody]
      simp [nominate_components, nominate_exhausted_target]
    rw [hnc]
    refine ⟨rfl, ?_, ?_⟩
    · exact mem_priv_add_pair_to_triggered_check_queue _ _
    · intro q hq hptr
      simp only at hq
      rw [stream_pairs_tick_counter, (stream_pairs_add_to_queue _ _ _).1,
        stream_pairs_updatePair] at hq
      unfold updatePairIn at hq
      obtain ⟨q0, _, hq0⟩ := List.mem_map.1 hq
      by_cases hq0p : q0.ptr = (nominate_exhausted_target agent stream
          (nominate_other_stream_pair agent stream_id) component_id p0).ptr
      · rw [if_pos hq0p] at hq0
        rw [← hq0]
      · rw [if_neg hq0p] at hq0
        rw [hq0] at hq0p
        exact absurd hptr hq0p

/-- C32 at the example agent with one component: pair 11 is Succeeded and has produced the
valid Discovered pair 13, pair 12 is Succeeded and valid; the first valid pair is 13, and its
parent 11 is flagged and enqueued. -/
theorem regular_nomination_of_exhausted_component_witness :
    agent_find_stream (ex_agent NICE_COMPATIBILITY_RFC5245 ex_list_discovered []) 1 =
      some (ex_stream ex_list_discovered) ∧
    (ex_stream ex_list_discovered).conncheck_list.find? (nominate_candidate 1) =
      some ex_pair_discovered ∧
    (nominate_exhausted_target (ex_agent NICE_COMPATIBILITY_RFC5245 ex_list_discovered [])
      (ex_stream ex_list_discovered)
      (nominate_other_stream_pair (ex_agent NICE_COMPATIBILITY_RFC5245 ex_list_discovered [])
        1) 1 ex_pair_discovered).ptr = 11 ∧
    (priv_conn_check_tick_stream_nominate ext0
      (ex_agent NICE_COMPATIBILITY_RFC5245 ex_list_discovered []) 1).1 = true ∧
    (nominate_exhausted_target (ex_agent NICE_COMPATIBILITY_RFC5245 ex_list_discovered [])
      (ex_stream ex_list_discovered)
      (nominate_other_stream_pair (ex_agent NICE_COMPATIBILITY_RFC5245 ex_list_discovered [])
        1) 1 ex_pair_discovered).ptr ∈
      (priv_conn_check_tick_stream_nominate ext0
        (ex_agent NICE_COMPATIBILITY_RFC5245 ex_list_discovered []) 1).2.triggered_check_queue :=
  ⟨by decide, by decide, by decide,
    ((regular_nomination_of_exhausted_component ext0
      (ex_agent NICE_COMPATIBILITY_RFC5245 ex_list_discovered []) 1
      (ex_stream ex_list_discovered) 1 ex_pair_discovered (by decide) (by decide) (by decide)
      (by decide) (by decide) (by decide) (by decide) (by decide) (by decide)).2.2.2.2.2
      (by decide)).1,
    ((regular_nomination_of_exhausted_component ext0
      (ex_agent NICE_COMPATIBILITY_RFC5245 ex_list_discovered []) 1
      (ex_stream ex_list_discovered) 1 ex_pair_discovered (by decide) (by decide) (by decide)
      (by decide) (by decide) (by decide) (by decide) (by decide) (by decide)).2.2.2.2.2
      (by decide)).2.1⟩

/-- C32, counterexample. Component 2 of the example stream has the valid pairs 21 and 22, both
Succeeded, not nominated and not flagged, 21 of higher priority. With pair 11 of component 1
nominated, the function flags and enqueues pair 22, which is on the interface of pair 11, and
not pair 21. With both pairs of component 1 nominated the stream has as many nominated pairs
as components, and the function flags no pair of component 2. -/
theorem regular_nomination_prefers_pair_of_same_kind :
    (stream_pairs ex_agent_nominated_component 1).map
        (fun q => (q.ptr, q.component_id, q.state)) =
      [(11, 1, NICE_CHECK_SUCCEEDED), (21, 2, NICE_CHECK_SUCCEEDED),
       (22, 2, NICE_CHECK_SUCCEEDED), (12, 1, NICE_CHECK_SUCCEEDED)] ∧
    (stream_pairs ex_agent_nominated_component 1).map
        (fun q => (q.valid, q.nominated, q.use_candidate_on_next_check)) =
      [(true, true, false), (true, false, false), (true, false, false),
       (true, false, false)] ∧
    (stream_pairs ex_agent_nominated_component 1).map (fun q => q.priority) =
      [9115005265987371519, 9115005261692404221, 9114723791010660858,
       7241540810645045759] ∧
    ((stream_pairs (priv_conn_check_tick_stream_nominate ext0 ex_agent_nominated_component
        1).2 1).filter (fun q => q.component_id == 2)).map
        (fun q => (q.ptr, q.use_candidate_on_next_check)) = [(21, false), (22, true)] ∧
    (priv_conn_check_tick_stream_nominate ext0 ex_agent_nominated_component
      1).2.triggered_check_queue = [12, 22] ∧
    ((stream_pairs (priv_conn_check_tick_stream_nominate ext0 ex_agent_nominated_twice
        1).2 1).filter (fun q => q.component_id == 2)).map
        (fun q => (q.ptr, q.valid, q.nominated, q.use_candidate_on_next_check)) =
      [(21, true, false, false), (22, true, false, false)] ∧
    (priv_conn_check_tick_stream_nominate ext0 ex_agent_nominated_twice
      1).2.triggered_check_queue = [] := by
  decide


/-! ## A Succeeded pair at rest -/

theorem succ_rest_intro (a b : NiceAgent) (x : Nat) (h : succeeded_at_rest a x)
    (hq : x ∈ b.triggered_check_queue → x ∈ a.triggered_check_queue)
    (hp : ∀ q1 ∈ b.allPairs, q1.ptr = x →
      (∃ q ∈ a.allPairs, q.ptr = x ∧ q1.state = q.state ∧
        q1.stun_transactions = q.stun_transactions) ∨
      (q1.state = NICE_CHECK_SUCCEEDED ∧ q1.stun_transactions = [])) :
    succeeded_at_rest b x := by
  refine ⟨fun hx => h.1 (hq hx), fun q1 hq1 hx => ?_⟩
  rcases hp q1 hq1 hx with ⟨q, hqm, hqx, hs, ht⟩ | h0
  · rw [hs, ht]; exact h.2 q hqm hqx
  · exact h0

theorem succ_rest_same (a b : NiceAgent) (x : Nat) (hp : b.allPairs = a.allPairs)
    (hq : b.triggered_check_queue = a.triggered_check_queue) (h : succeeded_at_rest a x) :
    succeeded_at_rest b x := by
  unfold succeeded_at_rest at *
  rw [hp, hq]; exact h

theorem succ_rest_ne_of_pair (a : NiceAgent) (x : Nat) (h : succeeded_at_rest a x)
    (p : CandidateCheckPair) (hp : p ∈ a.allPairs)
    (hs : p.state ≠ NICE_CHECK_SUCCEEDED ∨ p.stun_transactions ≠ []) : p.ptr ≠ x := by
  intro hx
  have := h.2 p hp hx
  rcases hs with h1 | h1
  · exact h1 this.1
  · exact h1 this.2

theorem succ_rest_ne_of_queue (a : NiceAgent) (x y : Nat) (h : succeeded_at_rest a x)
    (hy : y ∈ a.triggered_check_queue) : y ≠ x :=
  fun hyx => h.1 (hyx ▸ hy)

theorem succ_rest_updatePair_ne (a : NiceAgent) (x y : Nat)
    (f : CandidateCheckPair → CandidateCheckPair) (hy : y ≠ x)
    (hf : ∀ q, q.ptr = y → (f q).ptr = y) (h : succeeded_at_rest a x) :
    succeeded_at_rest (a.updatePair y f) x := by
  refine succ_rest_intro a _ x h (fun hx => hx) ?_
  intro q1 hq1 hx
  rw [allPairs_updatePair, List.mem_map] at hq1
  obtain ⟨q, hq, rfl⟩ := hq1
  split_ifs at hx ⊢ with hqy
  · exact absurd ((hf q hqy).symm.trans hx) hy
  · exact Or.inl ⟨q, hq, hx, rfl, rfl⟩

theorem succ_rest_updatePair_quiet (a : NiceAgent) (x y : Nat)
    (f : CandidateCheckPair → CandidateCheckPair)
    (hf : ∀ q, (f q).ptr = q.ptr ∧ (f q).state = q.state ∧
      (f q).stun_transactions = q.stun_transactions) (h : succeeded_at_rest a x) :
    succeeded_at_rest (a.updatePair y f) x := by
  refine succ_rest_intro a _ x h (fun hx => hx) ?_
  intro q1 hq1 hx
  rw [allPairs_updatePair, List.mem_map] at hq1
  obtain ⟨q, hq, rfl⟩ := hq1
  left
  split_ifs at hx ⊢ with hqy
  · exact ⟨q, hq, (hf q).1.symm.trans hx, (hf q).2.1, (hf q).2.2⟩
  · exact ⟨q, hq, hx, rfl, rfl⟩

theorem succ_rest_queue_add (a : NiceAgent) (x y : Nat) (hy : y ≠ x)
    (h : succeeded_at_rest a x) :
    succeeded_at_rest (priv_add_pair_to_triggered_check_queue a y) x := by
  refine ⟨?_, ?_⟩
  · unfold priv_add_pair_to_triggered_check_queue
    split_ifs
    · simp only [g_slist_append, List.mem_append, List.mem_singleton, not_or]
      exact ⟨h.1, fun e => hy e.symm⟩
    · exact h.1
  · rw [allPairs_priv_add_pair_to_triggered_check_queue]; exact h.2

theorem succ_rest_queue_remove (a : NiceAgent) (x y : Nat) (h : succeeded_at_rest a x) :
    succeeded_at_rest (priv_remove_pair_from_triggered_check_queue a y) x := by
  refine ⟨fun hx => h.1 ?_, h.2⟩
  unfold priv_remove_pair_from_triggered_check_queue at hx
  simp only at hx
  exact (mem_g_slist_remove _ _ _ hx)

theorem succ_rest_signal (a : NiceAgent) (x sid cid : Nat) (st : NiceComponentState)
    (h : succeeded_at_rest a x) :
    succeeded_at_rest (agent_signal_component_state_change a sid cid st) x :=
  succ_rest_same a _ x (allPairs_agent_signal_component_state_change _ _ _ _)
    (agent_signal_component_state_change_pairs a sid cid st).1 h

theorem succ_rest_written_at {y : Nat} {a b : NiceAgent} (hw : written_at y a b) (x : Nat)
    (hy : y ≠ x) (h : succeeded_at_rest a x) : succeeded_at_rest b x := by
  obtain ⟨f, hf, hs, hq⟩ := hw
  have hb : b.allPairs = (a.updatePair y f).allPairs := by
    unfold NiceAgent.allPairs; rw [hs]
  have h1 := succ_rest_updatePair_ne a x y f hy (fun q hq => (hf q).1.trans hq) h
  exact succ_rest_same _ b x hb hq h1

theorem succ_rest_priv_conn_check_triggered_check (E : Ext) (now : Int) (a : NiceAgent)
    (x : Nat) (h : succeeded_at_rest a x) :
    succeeded_at_rest (priv_conn_check_triggered_check E now a).2 x := by
  unfold priv_conn_check_triggered_check priv_get_pair_from_triggered_check_queue
  cases hq : a.triggered_check_queue with
  | nil => exact h
  | cons y ys =>
    simp only
    have hy : y ≠ x := succ_rest_ne_of_queue a x y h (by rw [hq]; exact List.mem_cons_self _ _)
    exact succ_rest_written_at (written_at_priv_conn_check_initiate E now _ y) x hy
      (succ_rest_queue_remove a x y h)

theorem succ_rest_priv_prune_pending_checks (a : NiceAgent) (x sid cid : Nat)
    (h : succeeded_at_rest a x) :
    succeeded_at_rest (priv_prune_pending_checks a sid cid).2 x := by
  unfold priv_prune_pending_checks
  split
  · exact h
  · rename_i stream component hfc
    obtain ⟨_, hsmem, _, _, _⟩ := agent_find_component_some _ _ _ _ _ hfc
    simp only
    refine succ_rest_intro a _ x h ?_ ?_
    · intro hx
      exact (priv_prune_pending_checks_loop_queue _ _ _ _ x).1 hx
    · intro q1 hq1 hx
      left
      rcases allPairs_updateStream_const a sid _ q1 hq1 with h0 | h0
      · exact ⟨q1, h0, hx, rfl, rfl⟩
      · obtain ⟨q, hq, hr⟩ := priv_prune_pending_checks_loop_kept _ _ _ _ q1 h0
        exact ⟨q, mem_allPairs_of_stream a stream hsmem q hq, hr.1.symm.trans hx, hr.2.1,
          hr.2.2.1⟩

theorem succ_rest_for_ready (a : NiceAgent) (x sid cid : Nat) (h : succeeded_at_rest a x) :
    succeeded_at_rest (conn_check_update_check_list_state_for_ready a sid cid) x := by
  have hp := succ_rest_priv_prune_pending_checks a x sid cid h
  unfold conn_check_update_check_list_state_for_ready
  split
  · exact h
  · simp only
    split_ifs
    all_goals
      repeat (first
        | exact h
        | exact hp
        | apply succ_rest_signal)

theorem succ_rest_candidate_check_pair_fail (a : NiceAgent) (x y : Nat) (hy : y ≠ x)
    (h : succeeded_at_rest a x) : succeeded_at_rest (candidate_check_pair_fail a y) x := by
  unfold candidate_check_pair_fail
  exact succ_rest_updatePair_ne a x y _ hy (fun q hq => hq) h

theorem succ_rest_priv_conn_check_tick_stream_loop (E : Ext) (now : Int) (sid x : Nat)
    (ptrs : List Nat) (a : NiceAgent) (h : succeeded_at_rest a x) :
    succeeded_at_rest (priv_conn_check_tick_stream_loop E now sid ptrs a).2 x := by
  induction ptrs generalizing a with
  | nil => exact h
  | cons ptr rest ih =>
    unfold priv_conn_check_tick_stream_loop
    split
    · exact ih a h
    · rename_i p hfind
      split_ifs with htx
      · exact ih a h
      · split
        · exact ih a h
        · simp only
          have hpm : p ∈ a.allPairs ∧ p.ptr = ptr := by
            cases hs : agent_find_stream a sid with
            | none => simp [hs] at hfind
            | some s =>
              simp only [hs, Option.bind_some] at hfind
              exact ⟨mem_allPairs_of_stream a s (agent_find_stream_some _ _ _ hs).1 p
                (List.mem_of_find?_eq_some hfind), by simpa using List.find?_some hfind⟩
          have hne : ptr ≠ x := hpm.2 ▸ succ_rest_ne_of_pair a x h p hpm.1 (Or.inr htx)
          have h1 : succeeded_at_rest (a.updatePair ptr (fun _ =>
              (priv_conn_check_tick_stream_transactions E now p.stun_transactions p 0 0
                0).pair)) x :=
            succ_rest_updatePair_ne a x ptr _ hne (fun _ _ =>
              (priv_conn_check_tick_stream_transactions_ids E now p.stun_transactions p 0 0
                0).1.trans hpm.2) h
          split
          · exact h1
          · split_ifs
            · exact ih _ (succ_rest_for_ready _ x _ _
                (succ_rest_candidate_check_pair_fail _ x ptr hne h1))
            · exact ih _ h1

theorem succ_rest_priv_conn_check_tick_stream (E : Ext) (now : Int) (a : NiceAgent)
    (sid x : Nat) (h : succeeded_at_rest a x) :
    succeeded_at_rest (priv_conn_check_tick_stream E now a sid).2 x := by
  unfold priv_conn_check_tick_stream
  split
  · exact h
  · exact succ_rest_priv_conn_check_tick_stream_loop E now sid x _ a h

theorem succ_rest_priv_conn_check_unfreeze_next (a : NiceAgent) (x : Nat)
    (h : succeeded_at_rest a x) :
    succeeded_at_rest (priv_conn_check_unfreeze_next a).2 x := by
  unfold priv_conn_check_unfreeze_next
  split_ifs
  · exact h
  · refine succ_rest_intro a _ x h (fun hx => hx) ?_
    intro q1 hq1 hx
    unfold NiceAgent.allPairs at hq1
    simp only [List.mem_flatMap] at hq1
    obtain ⟨s1, hs1, hq1⟩ := hq1
    obtain ⟨s, hs, q, hq, hh⟩ :=
      priv_conn_check_unfreeze_next_streams_frozen _ _ s1 hs1 q1 hq1
    have hqm := mem_allPairs_of_stream a s hs q hq
    rcases hh with h0 | ⟨hf, h0⟩
    · rw [h0] at hx ⊢
      exact Or.inl ⟨q, hqm, hx, rfl, rfl⟩
    · rw [h0] at hx
      have := (h.2 q hqm hx).1
      rw [hf] at this
      exact absurd this (by decide)

theorem succ_rest_priv_conn_check_ordinary_check (E : Ext) (now : Int) (a : NiceAgent)
    (sid x : Nat) (h : succeeded_at_rest a x) :
    succeeded_at_rest (priv_conn_check_ordinary_check E now a sid).2 x := by
  have hinit : ∀ (b : NiceAgent) (p : CandidateCheckPair), succeeded_at_rest b x →
      find_next_waiting_of b sid = some p →
      succeeded_at_rest (priv_conn_check_initiate E now b p.ptr).2 x := by
    intro b p hb hp
    have hm := find_next_waiting_of_mem b sid p hp
    have hne := succ_rest_ne_of_pair b x hb p hm.1 (Or.inl (by rw [hm.2]; decide))
    exact succ_rest_written_at (written_at_priv_conn_check_initiate E now b p.ptr) x hne hb
  unfold priv_conn_check_ordinary_check
  split
  · rename_i p hp
    exact hinit a p h hp
  · simp only
    have h1 := succ_rest_priv_conn_check_unfreeze_next a x h
    split
    · rename_i p hp
      exact hinit _ p h1 hp
    · exact h1

theorem succ_rest_ite (c : Prop) [Decidable c] (a1 a2 : NiceAgent) (x : Nat)
    (h1 : succeeded_at_rest a1 x) (h2 : succeeded_at_rest a2 x) :
    succeeded_at_rest (if c then a1 else a2) x := by
  split_ifs
  · exact h1
  · exact h2

theorem succ_rest_conn_check_update_selected_pair (E : Ext) (a : NiceAgent) (sid cid x : Nat)
    (pair : CandidateCheckPair) (h : succeeded_at_rest a x) :
    succeeded_at_rest (conn_check_update_selected_pair E a sid cid pair) x := by
  refine succ_rest_same a _ x (allPairs_conn_check_update_selected_pair _ _ _ _ _) ?_ h
  unfold conn_check_update_selected_pair
  split
  · rfl
  · split_ifs <;> rfl

theorem succ_rest_priv_mark_pair_nominated_pair (E : Ext) (a : NiceAgent) (sid cid x : Nat)
    (pair : CandidateCheckPair) (h : succeeded_at_rest a x) :
    succeeded_at_rest (priv_mark_pair_nominated_pair E a sid cid pair) x := by
  have h1 : succeeded_at_rest (a.updatePair pair.ptr (mark_nominated_write a)) x :=
    succ_rest_updatePair_quiet a x pair.ptr _ (fun _ => ⟨rfl, rfl, rfl⟩) h
  unfold priv_mark_pair_nominated_pair
  simp only
  repeat (first
    | exact h1
    | apply succ_rest_ite
    | apply succ_rest_for_ready
    | apply succ_rest_signal
    | apply succ_rest_conn_check_update_selected_pair)

theorem succ_rest_priv_mark_pair_nominated_loop (E : Ext) (sid cid x : Nat)
    (localcand remotecand : Option NiceCandidate) (ptrs : List Nat) (a : NiceAgent)
    (h : succeeded_at_rest a x) :
    succeeded_at_rest (priv_mark_pair_nominated_loop E sid cid localcand remotecand ptrs a)
      x := by
  induction ptrs generalizing a with
  | nil => exact h
  | cons ptr rest ih =>
    unfold priv_mark_pair_nominated_loop
    have kk := fun pair => ih _ (succ_rest_priv_mark_pair_nominated_pair E a sid cid x pair h)
    split
    · exact ih a h
    · split
      · simp only
        repeat' split
        all_goals first
          | exact ih a h
          | exact kk _
      · exact ih a h

theorem succ_rest_priv_mark_pair_nominated (E : Ext) (a : NiceAgent) (sid cid x : Nat)
    (localcand remotecand : Option NiceCandidate) (h : succeeded_at_rest a x) :
    succeeded_at_rest (priv_mark_pair_nominated E a sid cid localcand remotecand) x := by
  unfold priv_mark_pair_nominated
  split_ifs
  · exact h
  · split
    · exact h
    · exact succ_rest_priv_mark_pair_nominated_loop E sid cid x _ _ _ a h

theorem succ_rest_priv_limit_conn_check_list_size (a : NiceAgent) (sid pair x : Nat)
    (h : succeeded_at_rest a x) :
    succeeded_at_rest (priv_limit_conn_check_list_size a sid pair).2 x := by
  unfold priv_limit_conn_check_list_size
  split
  · exact h
  · rename_i stream hstream
    simp only
    refine succ_rest_intro a _ x h ?_ ?_
    · intro hx
      exact priv_limit_conn_check_list_size_loop_queue _ _ _ _ _ x hx
    · intro q1 hq1 hx
      left
      rcases allPairs_updateStream_const a sid _ q1 hq1 with h0 | h0
      · exact ⟨q1, h0, hx, rfl, rfl⟩
      · exact ⟨q1, mem_allPairs_of_stream a stream (agent_find_stream_some _ _ _ hstream).1 q1
          (priv_limit_conn_check_list_size_loop_sub _ _ _ _ _ q1 h0), hx, rfl, rfl⟩

theorem succ_rest_insert_pair (a : NiceAgent) (sid x : Nat) (pair : CandidateCheckPair)
    (hpair : pair.ptr = x → pair.state = NICE_CHECK_SUCCEEDED ∧ pair.stun_transactions = [])
    (h : succeeded_at_rest a x) :
    succeeded_at_rest (a.updateStream sid (fun s =>
      { s with conncheck_list :=
          g_slist_insert_sorted s.conncheck_list pair conn_check_compare })) x := by
  refine succ_rest_intro a _ x h (fun hx => hx) ?_
  intro q1 hq1 hx
  unfold NiceAgent.allPairs NiceAgent.updateStream at hq1
  simp only [List.mem_flatMap, List.mem_map] at hq1
  obtain ⟨s1, ⟨s, hs, hs1⟩, hq1⟩ := hq1
  rw [← hs1] at hq1
  split_ifs at hq1
  · simp only at hq1
    rw [mem_g_slist_insert_sorted] at hq1
    rcases hq1 with h0 | h0
    · right; rw [h0] at hx ⊢; exact hpair hx
    · exact Or.inl ⟨q1, mem_allPairs_of_stream a s hs q1 h0, hx, rfl, rfl⟩
  · exact Or.inl ⟨q1, mem_allPairs_of_stream a s hs q1 hq1, hx, rfl, rfl⟩

theorem succ_rest_priv_add_new_check_pair (E : Ext) (a : NiceAgent) (sid : Nat)
    (component : NiceComponent) (local_ remote : NiceCandidate) (initial_state : NiceCheckState)
    (new_pair x : Nat) (hnew : new_pair ≠ x) (h : succeeded_at_rest a x) :
    succeeded_at_rest (priv_add_new_check_pair E a sid component local_ remote initial_state
      new_pair).2 x := by
  unfold priv_add_new_check_pair
  split
  · exact h
  · rename_i agent1 hins
    unfold priv_add_new_check_pair_insert at hins
    simp only at hins
    split_ifs at hins
    simp only [Option.some.injEq] at hins
    have k1 : succeeded_at_rest agent1 x := by
      rw [← hins]
      exact succ_rest_insert_pair a sid x _ (fun e => absurd e hnew) h
    have k2 : succeeded_at_rest
        (if initial_state = NICE_CHECK_FROZEN then
          priv_conn_check_unfreeze_maybe E agent1
            (priv_add_new_check_pair_record E a sid component local_ remote
              initial_state new_pair)
        else agent1) x := by
      apply succ_rest_ite _ _ _ _ ?_ k1
      unfold priv_conn_check_unfreeze_maybe SET_PAIR_STATE
      apply succ_rest_ite _ _ _ _ ?_ k1
      exact succ_rest_updatePair_ne agent1 x new_pair _ hnew (fun q hq => hq) k1
    simp only
    generalize (if initial_state = NICE_CHECK_FROZEN then
        priv_conn_check_unfreeze_maybe E agent1
          (priv_add_new_check_pair_record E a sid component local_ remote
            initial_state new_pair)
      else agent1) = agent2 at k2 ⊢
    split_ifs
    all_goals first
      | exact k2
      | exact succ_rest_priv_limit_conn_check_list_size _ _ _ x k2

theorem succ_rest_priv_conn_check_add_for_candidate_pair_matched (E : Ext) (a : NiceAgent)
    (sid : Nat) (component : NiceComponent) (local_ remote : NiceCandidate)
    (initial_state : NiceCheckState) (new_pair x : Nat) (hnew : new_pair ≠ x)
    (h : succeeded_at_rest a x) :
    succeeded_at_rest (priv_conn_check_add_for_candidate_pair_matched E a sid component
      local_ remote initial_state new_pair).2 x ∧
    ∀ p, (priv_conn_check_add_for_candidate_pair_matched E a sid component
      local_ remote initial_state new_pair).1 = some p → p = new_pair := by
  have k := succ_rest_priv_add_new_check_pair E a sid component local_ remote initial_state
    new_pair x hnew h
  have kr := priv_add_new_check_pair_result E a sid component local_ remote initial_state
    new_pair
  unfold priv_conn_check_add_for_candidate_pair_matched
  simp only
  split
  · exact ⟨k, fun p hp => by simp at hp⟩
  · rename_i pair hpair
    split_ifs
    all_goals
      refine ⟨succ_rest_signal _ x _ _ _ k, fun p hp => ?_⟩
      simp only [Option.some.injEq] at hp
      rw [← hp]
      exact kr pair hpair

theorem succ_rest_schedule_triggered_check_pair (a : NiceAgent) (sid : Nat)
    (component : NiceComponent) (p : CandidateCheckPair) (x : Nat) (hp : p ∈ a.allPairs)
    (h : succeeded_at_rest a x) :
    succeeded_at_rest (schedule_triggered_check_pair a sid component p) x := by
  have ht : ∀ b, succeeded_at_rest b x → succeeded_at_rest (conn_check_schedule_next b) x := by
    intro b hb
    unfold conn_check_schedule_next
    exact succ_rest_ite _ _ _ _ hb hb
  have hadd : p.state ≠ NICE_CHECK_SUCCEEDED →
      succeeded_at_rest (priv_add_pair_to_triggered_check_queue a p.ptr) x :=
    fun hs => succ_rest_queue_add a x p.ptr (succ_rest_ne_of_pair a x h p hp (Or.inl hs)) h
  unfold schedule_triggered_check_pair
  split
  all_goals rename_i hst
  · exact hadd (by rw [hst]; decide)
  · exact hadd (by rw [hst]; decide)
  · exact succ_rest_ite _ _ _ _ (hadd (by rw [hst]; decide)) h
  · apply succ_rest_ite _ _ _ _ ?_ h
    simp only
    apply succ_rest_ite _ _ _ _ (ht _ (succ_rest_signal _ x _ _ _ (hadd (by rw [hst]; decide))))
    exact succ_rest_ite _ _ _ _ (ht _ (succ_rest_signal _ x _ _ _ (hadd (by rw [hst]; decide))))
      (hadd (by rw [hst]; decide))
  · exact h
  · exact h

theorem succ_rest_priv_schedule_triggered_check (E : Ext) (a : NiceAgent) (sid cid : Nat)
    (local_socket : NiceSocket) (remote_cand : NiceCandidate) (new_pair x : Nat)
    (hnew : new_pair ≠ x) (h : succeeded_at_rest a x) :
    succeeded_at_rest (priv_schedule_triggered_check E a sid cid local_socket remote_cand
      new_pair).2 x := by
  unfold priv_schedule_triggered_check
  split
  · exact h
  · rename_i stream component hfc
    have hsm := (agent_find_component_some a sid cid stream component hfc).2.1
    split
    · rename_i p0 hp0
      simp only
      apply succ_rest_schedule_triggered_check_pair a sid component _ x ?_ h
      exact nominate_checked_pair_mem a p0
        (mem_allPairs_of_stream a stream hsm p0 (List.mem_of_find?_eq_some hp0))
    · split
      · rename_i local_ _
        have k := succ_rest_priv_conn_check_add_for_candidate_pair_matched E a sid component
          local_ remote_cand NICE_CHECK_WAITING new_pair x hnew h
        simp only
        split
        · rename_i p hp
          simp only
          rw [k.2 p hp]
          exact succ_rest_queue_add _ x new_pair hnew k.1
        · exact k.1
      · exact h

theorem succ_rest_streams_map (a b : NiceAgent) (x : Nat) (g : NiceStream → NiceStream)
    (hs : b.streams = a.streams.map g)
    (hq : b.triggered_check_queue = a.triggered_check_queue)
    (hg : ∀ s ∈ a.streams, ∀ q1 ∈ (g s).conncheck_list, q1.ptr = x →
      ∃ q ∈ s.conncheck_list, q.ptr = x ∧ q1.state = q.state ∧
        q1.stun_transactions = q.stun_transactions)
    (h : succeeded_at_rest a x) : succeeded_at_rest b x := by
  refine succ_rest_intro a b x h (fun hx => hq ▸ hx) ?_
  intro q1 hq1 hx
  unfold NiceAgent.allPairs at hq1
  rw [hs] at hq1
  simp only [List.mem_flatMap, List.mem_map] at hq1
  obtain ⟨s1, ⟨s, hsm, rfl⟩, hq1⟩ := hq1
  obtain ⟨q, hqm, h1, h2, h3⟩ := hg s hsm q1 hq1 hx
  exact Or.inl ⟨q, mem_allPairs_of_stream a s hsm q hqm, h1, h2, h3⟩

theorem succ_rest_conn_check_unfreeze_related (E : Ext) (a : NiceAgent)
    (pair : CandidateCheckPair) (x : Nat) (h : succeeded_at_rest a x) :
    succeeded_at_rest (conn_check_unfreeze_related E a pair) x := by
  refine succ_rest_streams_map a _ x _ rfl rfl ?_ h
  intro s hs q1 hq1 hx
  simp only [List.mem_map] at hq1
  obtain ⟨q, hq, rfl⟩ := hq1
  split_ifs at hx ⊢ with hc
  · have := (h.2 q (mem_allPairs_of_stream a s hs q hq) hx).1
    rw [hc.1] at this
    exact absurd this (by decide)
  · exact ⟨q, hq, hx, rfl, rfl⟩

theorem succ_rest_priv_check_for_role_conflict (E : Ext) (a : NiceAgent) (control : Bool)
    (x : Nat) (h : succeeded_at_rest a x) :
    succeeded_at_rest (priv_check_for_role_conflict E a control) x := by
  unfold priv_check_for_role_conflict
  apply succ_rest_ite _ _ _ _ ?_ h
  unfold recalculate_pair_priorities
  refine succ_rest_streams_map a _ x _ rfl rfl ?_ h
  intro s _ q1 hq1 hx
  simp only at hq1
  rw [(g_slist_sort_perm _ _).mem_iff, List.mem_map] at hq1
  obtain ⟨q, hq, rfl⟩ := hq1
  exact ⟨q, hq, hx, rfl, rfl⟩

theorem succ_rest_response_pair_succeeded (a : NiceAgent) (x y : Nat) (hy : y ≠ x)
    (h : succeeded_at_rest a x) : succeeded_at_rest (response_pair_succeeded a y) x := by
  unfold response_pair_succeeded SET_PAIR_STATE
  simp only
  apply succ_rest_updatePair_ne _ x y _ hy (fun _ hq => by exact hq)
  apply succ_rest_queue_remove
  exact succ_rest_updatePair_ne a x y _ hy (fun _ hq => by exact hq) h

theorem succ_rest_updateComponent (a : NiceAgent) (sid cid x : Nat)
    (f : NiceComponent → NiceComponent) (h : succeeded_at_rest a x) :
    succeeded_at_rest (a.updateComponent sid cid f) x :=
  succ_rest_same a _ x (allPairs_updateComponent _ _ _ _) rfl h

theorem succ_rest_priv_add_peer_reflexive_pair (E : Ext) (a : NiceAgent) (sid : Nat)
    (component : NiceComponent) (cand : NiceCandidate) (parent : CandidateCheckPair)
    (new_pair x : Nat) (hnew : new_pair ≠ x) (h : succeeded_at_rest a x) :
    succeeded_at_rest (priv_add_peer_reflexive_pair E a sid component cand parent new_pair)
      x := by
  unfold priv_add_peer_reflexive_pair
  simp only
  apply succ_rest_insert_pair _ sid x _ (fun e => absurd e hnew)
  exact succ_rest_updatePair_quiet a x _ _ (fun _ => by exact ⟨rfl, rfl, rfl⟩) h

theorem succ_rest_priv_process_response_check_for_reflexive (E : Ext) (a : NiceAgent)
    (sid cid : Nat) (p : CandidateCheckPair) (sockptr : NiceSocket) (mapped : NiceAddress)
    (local_candidate : Option NiceCandidate) (remote_candidate : NiceCandidate)
    (new_pair x : Nat) (hnew : new_pair ≠ x) (hp : p.ptr ≠ x) (h : succeeded_at_rest a x) :
    succeeded_at_rest (priv_process_response_check_for_reflexive E a sid cid p sockptr mapped
      local_candidate remote_candidate new_pair).2 x := by
  unfold priv_process_response_check_for_reflexive
  split
  · exact h
  · rename_i stream component _
    simp only
    split
    · apply succ_rest_response_pair_succeeded _ x _ hp
      apply succ_rest_ite _ _ _ _ ?_ h
      exact succ_rest_updatePair_quiet a x _ _ (fun _ => by exact ⟨rfl, rfl, rfl⟩) h
    · have kr : succeeded_at_rest
          (if (List.find? (fun cand => nice_address_equal mapped cand.addr &&
                local_candidate_and_socket_compatible cand sockptr)
                component.local_candidates).isNone = true ∧ a.force_relay = false then
            discovery_add_peer_reflexive_candidate E a stream.id component.id
              p.stun_priority mapped sockptr local_candidate remote_candidate
          else (List.find? (fun cand => nice_address_equal mapped cand.addr &&
                local_candidate_and_socket_compatible cand sockptr)
                component.local_candidates, a)).2 x := by
        split_ifs
        · unfold discovery_add_peer_reflexive_candidate
          split
          · exact h
          · exact succ_rest_updateComponent a _ _ x _ h
        · exact h
      split
      · apply succ_rest_response_pair_succeeded _ x _ hp
        apply succ_rest_updatePair_quiet _ x _ _ (fun _ => by exact ⟨rfl, rfl, rfl⟩)
        exact succ_rest_priv_add_peer_reflexive_pair E _ _ _ _ _ _ x hnew kr
      · exact succ_rest_response_pair_succeeded _ x _ hp kr

theorem succ_rest_map_reply_validate (E : Ext) (a : NiceAgent) (sid cid : Nat)
    (sockptr : NiceSocket) (from_ : NiceAddress)
    (local_candidate remote_candidate : Option NiceCandidate)
    (resp : StunResponse) (new_pair : Nat) (p : CandidateCheckPair) (k x : Nat)
    (hnew : new_pair ≠ x) (hp : p.ptr ≠ x) (h : succeeded_at_rest a x) :
    match map_reply_validate E a sid cid sockptr from_ local_candidate
      remote_candidate resp new_pair p k with
    | Except.error b => succeeded_at_rest b x
    | Except.ok r => succeeded_at_rest r.2.2 x := by
  have k1 : succeeded_at_rest
      (a.updatePair p.ptr (fun q => priv_remove_stun_transaction q k)) x :=
    succ_rest_updatePair_ne a x p.ptr _ hp (fun _ hq => by exact hq) h
  have kf := succ_rest_candidate_check_pair_fail _ x p.ptr hp k1
  unfold map_reply_validate
  simp only
  by_cases hfrom : nice_address_equal from_ p.remote.addr = false
  · rw [if_pos hfrom]
    exact kf
  · rw [if_neg hfrom]
    cases remote_candidate with
    | none => exact kf
    | some rcand =>
      simp only
      by_cases hres : resp.res = STUN_USAGE_ICE_RETURN_NO_MAPPED_ADDRESS
      · rw [if_pos hres]
        simp only
        exact succ_rest_updatePair_ne _ x p.ptr _ hp (fun _ hq => by exact hq) k1
      · rw [if_neg hres]
        simp only
        apply succ_rest_priv_process_response_check_for_reflexive E _ _ _ _ _ _ _ _ _ x hnew ?_ k1
        rw [findPair_getD_ptr _ _ _ rfl]
        exact hp

theorem succ_rest_map_reply_nominate (E : Ext) (a : NiceAgent) (sid cid : Nat)
    (p : Nat) (p1 : CandidateCheckPair) (ok_pair x : Nat) (h : succeeded_at_rest a x) :
    succeeded_at_rest (map_reply_nominate E a sid cid p p1 ok_pair) x := by
  unfold map_reply_nominate
  simp only
  apply succ_rest_for_ready
  have h2 := succ_rest_conn_check_unfreeze_related E a ((a.findPair p).getD p1) x h
  generalize conn_check_unfreeze_related E a ((a.findPair p).getD p1) = a2 at h2 ⊢
  have h3 : succeeded_at_rest
      (if response_sets_nominated a2 ((a2.findPair p).getD ((a.findPair p).getD p1)) = true
        then a2.updatePair ok_pair (fun q => { q with nominated := true }) else a2) x :=
    succ_rest_ite _ _ _ _
      (succ_rest_updatePair_quiet a2 x _ _ (fun _ => by exact ⟨rfl, rfl, rfl⟩) h2) h2
  generalize (if response_sets_nominated a2 ((a2.findPair p).getD ((a.findPair p).getD p1)) =
      true then a2.updatePair ok_pair (fun q => { q with nominated := true }) else a2) = a3
    at h3 ⊢
  split
  · repeat (first
      | exact h3
      | apply succ_rest_ite
      | apply succ_rest_signal
      | apply succ_rest_conn_check_update_selected_pair)
  · exact h3

theorem succ_rest_map_reply_success (E : Ext) (a : NiceAgent) (sid cid : Nat)
    (sockptr : NiceSocket) (from_ : NiceAddress)
    (local_candidate remote_candidate : Option NiceCandidate)
    (resp : StunResponse) (new_pair : Nat) (p : CandidateCheckPair) (k x : Nat)
    (hnew : new_pair ≠ x) (hp : p.ptr ≠ x) (h : succeeded_at_rest a x) :
    succeeded_at_rest (map_reply_success E a sid cid sockptr from_ local_candidate
      remote_candidate resp new_pair p k) x := by
  have hv := succ_rest_map_reply_validate E a sid cid sockptr from_ local_candidate
    remote_candidate resp new_pair p k x hnew hp h
  unfold map_reply_success
  split
  · rename_i failed hr
    rw [hr] at hv
    exact hv
  · rename_i ok_pair p1 agent1 hr
    rw [hr] at hv
    exact succ_rest_map_reply_nominate E agent1 sid cid p.ptr p1 _ x hv

theorem succ_rest_priv_map_reply_to_conn_check_request (E : Ext) (a : NiceAgent)
    (sid cid : Nat) (sockptr : NiceSocket) (from_ : NiceAddress)
    (local_candidate remote_candidate : Option NiceCandidate) (resp : StunResponse)
    (new_pair x : Nat) (hnew : new_pair ≠ x) (h : succeeded_at_rest a x) :
    succeeded_at_rest (priv_map_reply_to_conn_check_request E a sid cid sockptr from_
      local_candidate remote_candidate resp new_pair).2 x := by
  unfold priv_map_reply_to_conn_check_request
  split
  · exact h
  · rename_i stream hs
    split
    · exact h
    · rename_i p k stun hm
      obtain ⟨hpm, hk, _⟩ := find_matching_request_some _ _ _ _ _ hm
      have hp : p.ptr ≠ x := by
        apply succ_rest_ne_of_pair a x h p
          (mem_allPairs_of_stream a stream (agent_find_stream_some a sid stream hs).1 p hpm)
        right
        intro he
        rw [he] at hk
        simp at hk
      split_ifs
      · exact succ_rest_map_reply_success E a sid cid sockptr from_ local_candidate
          remote_candidate resp new_pair p k x hnew hp h
      · exact h
      · simp only
        apply succ_rest_queue_add _ x _ hp
        apply succ_rest_updatePair_ne _ x p.ptr _ hp (fun _ hq => by exact hq)
        exact succ_rest_priv_check_for_role_conflict E a _ x h
      · exact succ_rest_candidate_check_pair_fail a x p.ptr hp h

theorem succ_rest_tick_streams_until_sent (step : NiceAgent → Nat → Bool × NiceAgent) (x : Nat)
    (hstep : ∀ a sid, succeeded_at_rest a x → succeeded_at_rest (step a sid).2 x)
    (ids : List Nat) (stun_sent : Bool) (a : NiceAgent) (h : succeeded_at_rest a x) :
    succeeded_at_rest (tick_streams_until_sent step ids stun_sent a).2 x := by
  induction ids generalizing stun_sent a with
  | nil => exact h
  | cons sid rest ih =>
    unfold tick_streams_until_sent
    split_ifs
    · exact h
    · exact ih _ _ (hstep a sid h)

theorem succ_rest_priv_conn_check_tick_agent_locked_checks (E : Ext) (now : Int)
    (a : NiceAgent) (x : Nat) (h : succeeded_at_rest a x) :
    succeeded_at_rest (priv_conn_check_tick_agent_locked_checks E now a).2 x := by
  unfold priv_conn_check_tick_agent_locked_checks
  simp only
  apply succ_rest_tick_streams_until_sent _ x
    (fun b sid hb => succ_rest_priv_conn_check_ordinary_check E now b sid x hb)
  apply succ_rest_tick_streams_until_sent _ x
    (fun b sid hb => succ_rest_priv_conn_check_tick_stream E now b sid x hb)
  exact succ_rest_tick_streams_until_sent _ x
    (fun b _ hb => succ_rest_priv_conn_check_triggered_check E now b x hb) _ _ a h

theorem succ_rest_agent_socket_send (a : NiceAgent) (sock : NiceSocket) (dest : NiceAddress)
    (len x : Nat) (h : succeeded_at_rest a x) :
    succeeded_at_rest (agent_socket_send a sock dest len) x :=
  succ_rest_same a _ x rfl rfl h

theorem succ_rest_priv_reply_to_conn_check (E : Ext) (a : NiceAgent) (sid cid : Nat)
    (lcand rcand : Option NiceCandidate) (toaddr : NiceAddress) (sockptr : NiceSocket)
    (len : Nat) (msg : StunMessage) (use_candidate : Bool) (new_pair x : Nat)
    (hnew : new_pair ≠ x) (h : succeeded_at_rest a x) :
    succeeded_at_rest (priv_reply_to_conn_check E a sid cid lcand rcand toaddr sockptr len
      msg use_candidate new_pair) x := by
  unfold priv_reply_to_conn_check
  simp only
  have h2 : succeeded_at_rest
      (if a.compatibility = NICE_COMPATIBILITY_OC2007R2 ∧
          E.ms_ice2_legacy_conncheck_resends msg = true then
        agent_socket_send (agent_socket_send a sockptr toaddr len) sockptr toaddr len
      else agent_socket_send a sockptr toaddr len) x :=
    succ_rest_ite _ _ _ _
      (succ_rest_agent_socket_send _ _ _ _ x (succ_rest_agent_socket_send _ _ _ _ x h))
      (succ_rest_agent_socket_send _ _ _ _ x h)
  generalize (if a.compatibility = NICE_COMPATIBILITY_OC2007R2 ∧
      E.ms_ice2_legacy_conncheck_resends msg = true then
    agent_socket_send (agent_socket_send a sockptr toaddr len) sockptr toaddr len
    else agent_socket_send a sockptr toaddr len) = a2 at h2 ⊢
  split
  · rename_i r stream _
    have h3 := succ_rest_priv_schedule_triggered_check E a2 sid cid sockptr r new_pair x hnew h2
    split_ifs
    · exact succ_rest_priv_mark_pair_nominated E _ sid cid x lcand _ h3
    · exact h3
    · exact h2
  · exact h2

theorem succ_chosen_of_rest (a : NiceAgent) (x : Nat) (h : succeeded_at_rest a x) :
    succeeded_or_chosen a x :=
  ⟨h.2, fun hx => absurd hx h.1⟩

theorem succ_chosen_same (a b : NiceAgent) (x : Nat) (hp : b.allPairs = a.allPairs)
    (hq : b.triggered_check_queue = a.triggered_check_queue) (h : succeeded_or_chosen a x) :
    succeeded_or_chosen b x := by
  unfold succeeded_or_chosen at *
  rw [hp, hq]; exact h

theorem succ_chosen_flag (a : NiceAgent) (x y : Nat) (h : succeeded_or_chosen a x) :
    succeeded_or_chosen (priv_add_pair_to_triggered_check_queue
      (a.updatePair y (fun q => { q with use_candidate_on_next_check := true })) y) x := by
  refine ⟨?_, ?_⟩
  · rw [allPairs_priv_add_pair_to_triggered_check_queue, allPairs_updatePair]
    intro q1 hq1 hx
    rw [List.mem_map] at hq1
    obtain ⟨q, hq, rfl⟩ := hq1
    split_ifs at hx ⊢ with hqy
    · exact h.1 q hq hx
    · exact h.1 q hq hx
  · intro hx
    rw [allPairs_priv_add_pair_to_triggered_check_queue, allPairs_updatePair]
    intro q1 hq1 hq1x
    rw [List.mem_map] at hq1
    obtain ⟨q, hq, rfl⟩ := hq1
    split_ifs at hq1x ⊢ with hqy
    · rfl
    · have hold : x ∈ a.triggered_check_queue := by
        unfold priv_add_pair_to_triggered_check_queue at hx
        split_ifs at hx
        · simp only [g_slist_append, List.mem_append, List.mem_singleton] at hx
          rcases hx with h1 | h1
          · exact h1
          · exact absurd (hq1x.trans h1) hqy
        · exact hx
      exact h.2 hold q hq hq1x

theorem succ_chosen_nominate_component_regular (a : NiceAgent) (sid : Nat)
    (osp : Option CandidateCheckPair) (c x : Nat) (h : succeeded_or_chosen a x) :
    succeeded_or_chosen (nominate_component_regular a sid osp c).2 x := by
  rcases nominate_component_regular_cases a sid osp c with h0 | ⟨p, _, _, _, h0⟩
  · rw [h0]; exact h
  · rw [h0]; exact succ_chosen_flag a x _ h

theorem succ_chosen_nominate_components_regular (sid : Nat) (osp : Option CandidateCheckPair)
    (x : Nat) (cs : List Nat) (keep : Bool) (a : NiceAgent) (h : succeeded_or_chosen a x) :
    succeeded_or_chosen (nominate_components
      (fun a c => nominate_component_regular a sid osp c) cs keep a).2 x := by
  induction cs generalizing keep a with
  | nil => exact h
  | cons c cs ih =>
    rw [nominate_components_cons]
    exact ih _ _ (succ_chosen_nominate_component_regular a sid osp c x h)

theorem succ_chosen_priv_conn_check_tick_stream_nominate (E : Ext) (a : NiceAgent) (sid x : Nat)
    (hrfc : NICE_AGENT_IS_COMPATIBLE_WITH_RFC5245_OR_OC2007R2 a = true)
    (h : succeeded_at_rest a x) :
    succeeded_or_chosen (priv_conn_check_tick_stream_nominate E a sid).2 x := by
  have h0 := succ_chosen_of_rest a x h
  unfold priv_conn_check_tick_stream_nominate
  split
  · exact h0
  · simp only
    refine succ_chosen_same _ _ x (allPairs_updateStream_tick_counter _ _ _ (fun _ => rfl)) rfl ?_
    rw [hrfc]
    simp only [if_true]
    split_ifs
    · exact succ_chosen_nominate_components_regular sid _ x _ _ a h0
    · exact h0
    · exact h0

/-- C37 (amended): a pair in state Succeeded that has no transaction and is not in the
triggered-check queue, as the response handler leaves the pair whose check succeeded, stays
so through the triggered check, the transaction advance, the ordinary check, and the three
composed over all streams, and through inbound STUN handling: the response handler, the
triggered check scheduled for a request, the marking of a nominated pair and the reply to a
request, where the pair these may allocate has another address.  Through the nomination step
in the RFC 5245 and OC2007R2 modes the pair stays Succeeded without transaction, and it is in
the triggered-check queue afterwards only when flagged `use_candidate_on_next_check`, that
is as the pair chosen by the step. -/
theorem succeeded_pair_rests_until_chosen (E : Ext) (agent : NiceAgent) (x : Nat)
    (h : succeeded_at_rest agent x) :
    (∀ now, succeeded_at_rest (priv_conn_check_triggered_check E now agent).2 x) ∧
    (∀ now stream_id,
      succeeded_at_rest (priv_conn_check_tick_stream E now agent stream_id).2 x) ∧
    (∀ now stream_id,
      succeeded_at_rest (priv_conn_check_ordinary_check E now agent stream_id).2 x) ∧
    (∀ now, succeeded_at_rest (priv_conn_check_tick_agent_locked_checks E now agent).2 x) ∧
    (∀ stream_id, NICE_AGENT_IS_COMPATIBLE_WITH_RFC5245_OR_OC2007R2 agent = true →
      succeeded_or_chosen (priv_conn_check_tick_stream_nominate E agent stream_id).2 x) ∧
    (∀ stream_id component_id sockptr from_ local_candidate remote_candidate resp new_pair,
      new_pair ≠ x →
      succeeded_at_rest (priv_map_reply_to_conn_check_request E agent stream_id component_id
        sockptr from_ local_candidate remote_candidate resp new_pair).2 x) ∧
    (∀ stream_id component_id local_socket remote_cand new_pair, new_pair ≠ x →
      succeeded_at_rest (priv_schedule_triggered_check E agent stream_id component_id
        local_socket remote_cand new_pair).2 x) ∧
    (∀ stream_id component_id localcand remotecand,
      succeeded_at_rest (priv_mark_pair_nominated E agent stream_id component_id localcand
        remotecand) x) ∧
    (∀ stream_id component_id lcand rcand toaddr sockptr len msg use_candidate new_pair,
      new_pair ≠ x →
      succeeded_at_rest (priv_reply_to_conn_check E agent stream_id component_id lcand rcand
        toaddr sockptr len msg use_candidate new_pair) x) :=
  ⟨fun now => succ_rest_priv_conn_check_triggered_check E now agent x h,
   fun now sid => succ_rest_priv_conn_check_tick_stream E now agent sid x h,
   fun now sid => succ_rest_priv_conn_check_ordinary_check E now agent sid x h,
   fun now => succ_rest_priv_conn_check_tick_agent_locked_checks E now agent x h,
   fun sid hrfc => succ_chosen_priv_conn_check_tick_stream_nominate E agent sid x hrfc h,
   fun sid cid sockptr from_ lc rc resp new_pair hnew =>
     succ_rest_priv_map_reply_to_conn_check_request E agent sid cid sockptr from_ lc rc resp
       new_pair x hnew h,
   fun sid cid sock rc new_pair hnew =>
     succ_rest_priv_schedule_triggered_check E agent sid cid sock rc new_pair x hnew h,
   fun sid cid lc rc => succ_rest_priv_mark_pair_nominated E agent sid cid x lc rc h,
   fun sid cid lc rc toaddr sock len msg uc new_pair hnew =>
     succ_rest_priv_reply_to_conn_check E agent sid cid lc rc toaddr sock len msg uc new_pair x
       hnew h⟩

/-- C37 (witness): the theorem on two example agents.  Pair 12, Succeeded and valid after the
response whose mapped address is its local candidate, is at rest; the nomination step chooses
it: it stays Succeeded and is queued, flagged.  Pair 11, Succeeded with the Discovered child
13, is at rest and stays so through the response to the check of pair 12 that creates pair 14
and through the check steps of a tick. -/
theorem succeeded_pair_rests_until_chosen_witness :
    succeeded_at_rest ex_agent_mapped_is_local 12 ∧
    succeeded_or_chosen
      (priv_conn_check_tick_stream_nominate ext0 ex_agent_mapped_is_local 1).2 12 ∧
    (priv_conn_check_tick_stream_nominate ext0
      ex_agent_mapped_is_local 1).2.triggered_check_queue = [12] ∧
    succeeded_at_rest (ex_agent NICE_COMPATIBILITY_RFC5245
      (ex_list_discovered.take 2 ++ [ex_pair_in_progress]) []) 11 ∧
    succeeded_at_rest (priv_map_reply_to_conn_check_request ext0
      (ex_agent NICE_COMPATIBILITY_RFC5245
        (ex_list_discovered.take 2 ++ [ex_pair_in_progress]) []) 1 1 ex_sock ex_remote.addr
      (some ex_local) (some ex_remote) ⟨7012, STUN_USAGE_ICE_RETURN_SUCCESS, ex_prflx.addr⟩
      14).2 11 ∧
    succeeded_at_rest (priv_conn_check_tick_agent_locked_checks ext0 1000
      (ex_agent NICE_COMPATIBILITY_RFC5245
        (ex_list_discovered.take 2 ++ [ex_pair_in_progress]) [])).2 11 :=
  ⟨by decide,
   (succeeded_pair_rests_until_chosen ext0 ex_agent_mapped_is_local 12
      (by decide)).2.2.2.2.1 1 (by decide),
   by decide, by decide,
   (succeeded_pair_rests_until_chosen ext0 (ex_agent NICE_COMPATIBILITY_RFC5245
      (ex_list_discovered.take 2 ++ [ex_pair_in_progress]) []) 11
      (by decide)).2.2.2.2.2.1 1 1 ex_sock ex_remote.addr (some ex_local) (some ex_remote)
      ⟨7012, STUN_USAGE_ICE_RETURN_SUCCESS, ex_prflx.addr⟩ 14 (by decide),
   (succeeded_pair_rests_until_chosen ext0 (ex_agent NICE_COMPATIBILITY_RFC5245
      (ex_list_discovered.take 2 ++ [ex_pair_in_progress]) []) 11
      (by decide)).2.2.2.1 1000⟩

/-- C37 (counterexample): two runs of a controlling RFC 5245 agent in regular nomination, from
a single pair 12 whose check is in progress.  When the response maps to the local candidate
of the pair, pair 12 is Succeeded and valid, no valid pair is queued and the assertions of the
nomination loop hold; the nomination step then puts the valid pair 12 in the triggered-check
queue, and the triggered check moves it to InProgress.  When the response maps to a new
address, the Discovered pair 14 is valid with parent 12 and the assertions hold; after the
nomination step and the triggered check, pair 14 is still valid, not nominated and not
flagged, and its parent 12 is InProgress: the assertions do not hold of that state. -/
theorem nomination_requeues_valid_pair :
    nominate_asserts_hold ex_agent_mapped_is_local = true ∧
    valid_pair_queued ex_agent_mapped_is_local = false ∧
    valid_pair_queued
      (priv_conn_check_tick_stream_nominate ext0 ex_agent_mapped_is_local 1).2 = true ∧
    (stream_pairs (priv_conn_check_triggered_check ext0 1000
      (priv_conn_check_tick_stream_nominate ext0 ex_agent_mapped_is_local 1).2).2 1).map
      (fun q => (q.ptr, q.state, q.valid)) = [(12, NICE_CHECK_IN_PROGRESS, true)] ∧
    nominate_asserts_hold ex_agent_reflexive_found = true ∧
    nominate_asserts_hold (priv_conn_check_triggered_check ext0 1000
      (priv_conn_check_tick_stream_nominate ext0 ex_agent_reflexive_found 1).2).2 = false ∧
    (stream_pairs (priv_conn_check_triggered_check ext0 1000
      (priv_conn_check_tick_stream_nominate ext0 ex_agent_reflexive_found 1).2).2 1).map
      (fun q => (q.ptr, q.state, q.valid, q.succeeded_pair)) =
      [(12, NICE_CHECK_IN_PROGRESS, false, none),
       (14, NICE_CHECK_DISCOVERED, true, some 12)] ∧
    (stream_pairs (priv_conn_check_triggered_check ext0 1000
      (priv_conn_check_tick_stream_nominate ext0 ex_agent_reflexive_found 1).2).2 1).map
      (fun q => (q.ptr, q.nominated, q.use_candidate_on_next_check)) =
      [(12, false, true), (14, false, false)] := by
  refine ⟨by decide, by decide, by decide, by decide, by decide, by decide, by decide,
    by decide⟩

/-! ## The loop of `priv_mark_pair_nominated` and the node it stands on -/

theorem priv_mark_pair_nominated_loop_checked_eq (E : Ext) (sid cid : Nat)
    (localcand remotecand : Option NiceCandidate) (l : List Nat) :
    ∀ (a r : NiceAgent),
      priv_mark_pair_nominated_loop_checked E sid cid localcand remotecand l a = some r →
      r = priv_mark_pair_nominated_loop E sid cid localcand remotecand l a := by
  induction l with
  | nil =>
    intro a r h
    unfold priv_mark_pair_nominated_loop_checked at h
    unfold priv_mark_pair_nominated_loop
    exact (Option.some.inj h).symm
  | cons x rest ih =>
    intro a r h
    unfold priv_mark_pair_nominated_loop_checked at h
    unfold priv_mark_pair_nominated_loop
    cases hf : (agent_find_stream a sid).bind
        (fun s => s.conncheck_list.find? (fun q => q.ptr == x)) with
    | none =>
      rw [hf] at h
      exact ih _ _ h
    | some pair0 =>
      rw [hf] at h
      simp only at h ⊢
      by_cases hm : some pair0.local_.ptr = localcand.map (fun c => c.ptr) ∧
          some pair0.remote.ptr = remotecand.map (fun c => c.ptr)
      · rw [if_pos hm] at h ⊢
        generalize (if pair0.state = NICE_CHECK_SUCCEEDED then
            match pair0.discovered_pair with
            | some d => a.findPair d
            | none => some pair0
          else some pair0) = t at h ⊢
        cases t with
        | none => exact ih _ _ h
        | some pair =>
          simp only at h ⊢
          by_cases hl : node_linked (priv_mark_pair_nominated_pair E a sid cid pair) sid x = true
          · rw [if_pos hl] at h
            exact ih _ _ h
          · rw [if_neg hl] at h
            cases h
      · rw [if_neg hm] at h ⊢
        exact ih _ _ h

theorem priv_mark_pair_nominated_checked_eq (E : Ext) (agent : NiceAgent) (sid cid : Nat)
    (localcand remotecand : Option NiceCandidate) (r : NiceAgent)
    (h : priv_mark_pair_nominated_checked E agent sid cid localcand remotecand = some r) :
    r = priv_mark_pair_nominated E agent sid cid localcand remotecand := by
  unfold priv_mark_pair_nominated_checked at h
  unfold priv_mark_pair_nominated
  split_ifs at h ⊢
  · exact (Option.some.inj h).symm
  · cases hs : agent_find_stream agent sid with
    | none => rw [hs] at h; exact (Option.some.inj h).symm
    | some stream =>
      rw [hs] at h
      exact priv_mark_pair_nominated_loop_checked_eq E sid cid localcand remotecand _ _ _ h

theorem priv_mark_pair_nominated_loop_checked_skip (E : Ext) (sid cid : Nat)
    (localcand remotecand : Option NiceCandidate) (ptrs : List Nat) (a : NiceAgent)
    (h : ∀ x ∈ ptrs, ∀ q ∈ stream_pairs a sid, q.ptr = x →
      ¬ (some q.local_.ptr = localcand.map (fun c => c.ptr) ∧
        some q.remote.ptr = remotecand.map (fun c => c.ptr))) :
    priv_mark_pair_nominated_loop_checked E sid cid localcand remotecand ptrs a = some a := by
  induction ptrs with
  | nil => rfl
  | cons x rest ih =>
    have hrest := ih (fun y hy => h y (List.mem_cons_of_mem _ hy))
    unfold priv_mark_pair_nominated_loop_checked
    rw [find_in_stream]
    cases hf : (stream_pairs a sid).find? (fun q => q.ptr == x) with
    | none => exact hrest
    | some q =>
      have hq := List.mem_of_find?_eq_some hf
      have hx : q.ptr = x := by simpa using List.find?_some hf
      simp only
      rw [if_neg (h x (List.mem_cons_self _ _) q hq hx)]
      exact hrest

theorem priv_mark_pair_nominated_loop_checked_step (E : Ext) (sid cid : Nat)
    (localcand remotecand : Option NiceCandidate) (x : Nat) (a : NiceAgent) :
    ∃ oa : Option NiceAgent, ∀ rest : List Nat,
      priv_mark_pair_nominated_loop_checked E sid cid localcand remotecand (x :: rest) a =
        oa.bind (priv_mark_pair_nominated_loop_checked E sid cid localcand remotecand rest) := by
  cases hf : (agent_find_stream a sid).bind
      (fun s => s.conncheck_list.find? (fun q => q.ptr == x)) with
  | none =>
    refine ⟨some a, fun rest => ?_⟩
    rw [priv_mark_pair_nominated_loop_checked, hf]
    rfl
  | some pair0 =>
    by_cases hm : some pair0.local_.ptr = localcand.map (fun c => c.ptr) ∧
        some pair0.remote.ptr = remotecand.map (fun c => c.ptr)
    · cases ht : (if pair0.state = NICE_CHECK_SUCCEEDED then
          match pair0.discovered_pair with
          | some d => a.findPair d
          | none => some pair0
        else some pair0) with
      | none =>
        refine ⟨some a, fun rest => ?_⟩
        rw [priv_mark_pair_nominated_loop_checked, hf]
        simp only
        rw [if_pos hm, ht]
        rfl
      | some pair =>
        by_cases hl : node_linked (priv_mark_pair_nominated_pair E a sid cid pair) sid x = true
        · refine ⟨some (priv_mark_pair_nominated_pair E a sid cid pair), fun rest => ?_⟩
          rw [priv_mark_pair_nominated_loop_checked, hf]
          simp only
          rw [if_pos hm, ht]
          simp only
          rw [if_pos hl]
          rfl
        · refine ⟨none, fun rest => ?_⟩
          rw [priv_mark_pair_nominated_loop_checked, hf]
          simp only
          rw [if_pos hm, ht]
          simp only
          rw [if_neg hl]
          rfl
    · refine ⟨some a, fun rest => ?_⟩
      rw [priv_mark_pair_nominated_loop_checked, hf]
      simp only
      rw [if_neg hm]
      rfl

theorem priv_mark_pair_nominated_loop_checked_append (E : Ext) (sid cid : Nat)
    (localcand remotecand : Option NiceCandidate) (l1 l2 : List Nat) (a : NiceAgent) :
    priv_mark_pair_nominated_loop_checked E sid cid localcand remotecand (l1 ++ l2) a =
      (priv_mark_pair_nominated_loop_checked E sid cid localcand remotecand l1 a).bind
        (priv_mark_pair_nominated_loop_checked E sid cid localcand remotecand l2) := by
  induction l1 generalizing a with
  | nil => rfl
  | cons x rest ih =>
    obtain ⟨oa, h⟩ := priv_mark_pair_nominated_loop_checked_step E sid cid localcand remotecand
      x a
    rw [List.cons_append, h, h]
    cases oa with
    | none => rfl
    | some a1 =>
      simp only [Option.some_bind]
      exact ih a1

theorem priv_mark_pair_nominated_loop_checked_hit (E : Ext) (sid cid : Nat)
    (localcand remotecand : NiceCandidate) (x : Nat) (rest : List Nat) (a : NiceAgent)
    (pair0 pair : CandidateCheckPair)
    (hf : (stream_pairs a sid).find? (fun q => q.ptr == x) = some pair0)
    (hl : pair0.local_.ptr = localcand.ptr) (hr : pair0.remote.ptr = remotecand.ptr)
    (ht : mark_nominated_target a pair0 = some pair) :
    priv_mark_pair_nominated_loop_checked E sid cid (some localcand) (some remotecand)
        (x :: rest) a =
      if node_linked (priv_mark_pair_nominated_pair E a sid cid pair) sid x = true then
        priv_mark_pair_nominated_loop_checked E sid cid (some localcand) (some remotecand) rest
          (priv_mark_pair_nominated_pair E a sid cid pair)
      else none := by
  unfold mark_nominated_target at ht
  rw [priv_mark_pair_nominated_loop_checked]
  rw [find_in_stream, hf]
  simp only [Option.map_some', hl, hr, and_self, if_true]
  rw [ht]

theorem priv_mark_pair_nominated_checked_unique (E : Ext) (agent : NiceAgent) (sid cid : Nat)
    (localcand remotecand : NiceCandidate) (stream : NiceStream)
    (pair0 pair : CandidateCheckPair)
    (hctl : ¬ (NICE_AGENT_IS_COMPATIBLE_WITH_RFC5245_OR_OC2007R2 agent = true ∧
      agent.controlling_mode = true))
    (hs : agent_find_stream agent sid = some stream)
    (hnd : (stream.conncheck_list.map (fun q => q.ptr)).Nodup)
    (h0 : pair0 ∈ stream.conncheck_list)
    (hl : pair0.local_.ptr = localcand.ptr) (hr : pair0.remote.ptr = remotecand.ptr)
    (huniq : ∀ q ∈ stream.conncheck_list, q.local_.ptr = localcand.ptr →
      q.remote.ptr = remotecand.ptr → q = pair0)
    (ht : mark_nominated_target agent pair0 = some pair) :
    priv_mark_pair_nominated_checked E agent sid cid (some localcand) (some remotecand) =
      if node_linked (priv_mark_pair_nominated_pair E agent sid cid pair) sid pair0.ptr = true
      then some (priv_mark_pair_nominated_pair E agent sid cid pair) else none := by
  have hsp : stream_pairs agent sid = stream.conncheck_list := by
    unfold stream_pairs; rw [hs]
  obtain ⟨pre, post, hsplit⟩ := List.append_of_mem h0
  have hnd2 : pair0.ptr ∉ pre.map (fun q => q.ptr) ++ post.map (fun q => q.ptr) := by
    rw [hsplit, List.map_append, List.map_cons] at hnd
    exact (List.nodup_cons.1 (List.nodup_middle.1 hnd)).1
  have hinj := List.inj_on_of_nodup_map hnd
  have hmatch : ∀ q ∈ stream.conncheck_list,
      (some q.local_.ptr = (some localcand).map (fun c => c.ptr) ∧
        some q.remote.ptr = (some remotecand).map (fun c => c.ptr)) → q = pair0 := by
    intro q hq hm
    simp only [Option.map_some', Option.some.injEq] at hm
    exact huniq q hq hm.1 hm.2
  unfold priv_mark_pair_nominated_checked
  rw [if_neg hctl, hs]
  simp only
  rw [hsplit, List.map_append, List.map_cons, priv_mark_pair_nominated_loop_checked_append,
    priv_mark_pair_nominated_loop_checked_skip E sid cid _ _ (pre.map (fun q => q.ptr)) agent ?_,
    Option.some_bind,
    priv_mark_pair_nominated_loop_checked_hit E sid cid localcand remotecand pair0.ptr _ agent
      pair0 pair ?_ hl hr ht,
    priv_mark_pair_nominated_loop_checked_skip E sid cid _ _ (post.map (fun q => q.ptr)) _ ?_]
  · intro x hx q1 hq1 hx1 hm
    obtain ⟨q, hq, hsame⟩ :=
      (priv_mark_pair_nominated_pair_shape E agent sid cid pair).2.1 q1 hq1
    have hf := same_but_retransmit_fields _ _ hsame
    have hq1f : q1.ptr = q.ptr ∧ q1.local_ = q.local_ ∧ q1.remote = q.remote := by
      refine ⟨?_, ?_, ?_⟩
      · rw [hf.1]; split_ifs <;> rfl
      · rw [hf.2.1]; split_ifs <;> rfl
      · rw [hf.2.2.1]; split_ifs <;> rfl
    rw [hsp] at hq
    have : q = pair0 := hmatch q hq (by rw [← hq1f.2.1, ← hq1f.2.2]; exact hm)
    apply hnd2
    rw [← this, ← hq1f.1, hx1]
    exact List.mem_append_right _ hx
  · rw [hsp]
    cases hf : stream.conncheck_list.find? (fun q => q.ptr == pair0.ptr) with
    | none =>
      have := List.find?_eq_none.1 hf pair0 h0
      simp at this
    | some q =>
      have hq := List.mem_of_find?_eq_some hf
      have hx : q.ptr = pair0.ptr := by simpa using List.find?_some hf
      rw [hinj hq h0 hx]
  · intro x hx q hq hx1 hm
    rw [hsp] at hq
    have : q = pair0 := hmatch q hq hm
    apply hnd2
    rw [← this, hx1]
    exact List.mem_append_left _ hx

/-- C25: `priv_mark_pair_nominated` in RFC 5245 (or OC2007R2) compatibility, with the read of
`i->next` that ends each iteration of its loop.  For a controlling agent the call returns the
agent as it was.  For a controlled agent whose conncheck list holds one pair `pair0` of the
two candidates (pair addresses distinct), with `pair` the discovered pair of `pair0` when
`pair0` is Succeeded and has one and `pair0` itself otherwise: the call returns exactly when
the node of `pair0` is still linked after the body of the loop, and reads the freed node
otherwise; it returns when `pair0` is InProgress, or Succeeded or Discovered and not queued.
The state it returns is the one of `priv_mark_pair_nominated`, in which: if `pair` is valid
and Succeeded or Discovered, every record at its address is nominated, the record is still in
the list when the pair was not queued, and the selected pair of the component is the one
`conn_check_update_selected_pair` leaves when applied to the nominated pair; if `pair` is
InProgress it is still in the list and has `mark_nominated_on_response_arrival` set; if `pair`
is not valid its flag `nominated` is what it was. -/
theorem controlled_nomination_marks_pair (E : Ext) (agent : NiceAgent) (sid cid : Nat)
    (localcand remotecand : NiceCandidate)
    (hrfc : NICE_AGENT_IS_COMPATIBLE_WITH_RFC5245_OR_OC2007R2 agent = true) :
    (agent.controlling_mode = true →
      priv_mark_pair_nominated_checked E agent sid cid (some localcand) (some remotecand) =
        some agent) ∧
    (agent.controlling_mode = false →
      ∀ (stream : NiceStream) (pair0 pair : CandidateCheckPair),
        agent_find_stream agent sid = some stream →
        (stream.conncheck_list.map (fun q => q.ptr)).Nodup →
        pair0 ∈ stream.conncheck_list →
        pair0.local_.ptr = localcand.ptr → pair0.remote.ptr = remotecand.ptr →
        (∀ q ∈ stream.conncheck_list, q.local_.ptr = localcand.ptr →
          q.remote.ptr = remotecand.ptr → q = pair0) →
        mark_nominated_target agent pair0 = some pair →
        pair ∈ stream.conncheck_list →
        (priv_mark_pair_nominated_checked E agent sid cid (some localcand) (some remotecand) =
          if node_linked (priv_mark_pair_nominated E agent sid cid (some localcand)
              (some remotecand)) sid pair0.ptr = true then
            some (priv_mark_pair_nominated E agent sid cid (some localcand) (some remotecand))
          else none) ∧
        ((pair0.state = NICE_CHECK_IN_PROGRESS ∨
            ((pair0.state = NICE_CHECK_SUCCEEDED ∨ pair0.state = NICE_CHECK_DISCOVERED) ∧
              pair0.ptr ∉ agent.triggered_check_queue)) →
          priv_mark_pair_nominated_checked E agent sid cid (some localcand)
              (some remotecand) =
            some (priv_mark_pair_nominated E agent sid cid (some localcand)
              (some remotecand))) ∧
        (pair.valid = true →
          (pair.state = NICE_CHECK_SUCCEEDED ∨ pair.state = NICE_CHECK_DISCOVERED) →
          (∀ q ∈ stream_pairs (priv_mark_pair_nominated E agent sid cid (some localcand)
              (some remotecand)) sid, q.ptr = pair.ptr → q.nominated = true) ∧
          (pair.ptr ∉ agent.triggered_check_queue →
            ∃ q ∈ stream_pairs (priv_mark_pair_nominated E agent sid cid (some localcand)
              (some remotecand)) sid, q.ptr = pair.ptr) ∧
          selected_pair_of (priv_mark_pair_nominated E agent sid cid (some localcand)
              (some remotecand)) sid cid =
            selected_pair_of (conn_check_update_selected_pair E agent sid cid
              { pair with nominated := true }) sid cid) ∧
        (pair.state = NICE_CHECK_IN_PROGRESS →
          (∃ q ∈ stream_pairs (priv_mark_pair_nominated E agent sid cid (some localcand)
              (some remotecand)) sid, q.ptr = pair.ptr) ∧
          ∀ q ∈ stream_pairs (priv_mark_pair_nominated E agent sid cid (some localcand)
              (some remotecand)) sid, q.ptr = pair.ptr →
            q.mark_nominated_on_response_arrival = true) ∧
        (pair.valid = false →
          ∀ q ∈ stream_pairs (priv_mark_pair_nominated E agent sid cid (some localcand)
              (some remotecand)) sid, q.ptr = pair.ptr → q.nominated = pair.nominated)) := by
  constructor
  · intro hc
    unfold priv_mark_pair_nominated_checked
    rw [if_pos ⟨hrfc, hc⟩]
  · intro hc stream pair0 pair hs hnd h0 hl hr huniq ht hpair
    have hctl : ¬ (NICE_AGENT_IS_COMPATIBLE_WITH_RFC5245_OR_OC2007R2 agent = true ∧
        agent.controlling_mode = true) := by
      rw [hc]; simp
    have hsp : stream_pairs agent sid = stream.conncheck_list := by
      unfold stream_pairs; rw [hs]
    have hA := priv_mark_pair_nominated_checked_unique E agent sid cid localcand remotecand
      stream pair0 pair hctl hs hnd h0 hl hr huniq ht
    have hT := priv_mark_pair_nominated_unique E agent sid cid localcand remotecand stream
      pair0 pair hctl hs hnd h0 hl hr huniq ht
    rw [← hT] at hA
    refine ⟨hA, ?_, (priv_mark_pair_nominated_marks_pair E agent sid cid localcand remotecand
      hrfc).2 hc stream pair0 pair hs hnd h0 hl hr huniq ht hpair⟩
    intro hst
    rw [hA, if_pos]
    obtain ⟨q1, hq1, hsame⟩ := (priv_mark_pair_nominated_pair_shape E agent sid cid pair).2.2
      pair0 (hsp ▸ h0) hst
    have hp : q1.ptr = pair0.ptr := by
      rw [(same_but_retransmit_fields _ _ hsame).1]
      split_ifs <;> rfl
    rw [hT]
    unfold node_linked
    rw [List.any_eq_true]
    exact ⟨q1, hq1, by simp [hp]⟩

/-- C25 (witness): the theorem on two controlled example agents whose component has selected
the nominated pair 11.  The valid Succeeded pair 12, of lower priority and in the
triggered-check queue, is nominated by the request: the body of the loop nominates it, the
pruning that follows unlinks and frees it, and the loop reads `i->next` of its node, so the
call has no result.  With the priority of pair 12 raised above the selected one and the pair
not queued, the call returns, pair 12 is nominated and is the selected pair. -/
theorem controlled_nomination_marks_pair_witness :
    (stream_pairs (ex_agent_controlled ex_pair_host_valid [12]) 1).map
      (fun q => (q.ptr, q.state, q.valid, q.nominated, q.priority)) =
      [(11, NICE_CHECK_SUCCEEDED, true, true, 9115005265987371519),
       (12, NICE_CHECK_SUCCEEDED, true, false, 7241540810645045759)] ∧
    (stream_pairs (priv_mark_pair_nominated_pair ext0
      (ex_agent_controlled ex_pair_host_valid [12]) 1 1 ex_pair_host_valid) 1).map
      (fun q => q.ptr) = [11] ∧
    priv_mark_pair_nominated_checked ext0 (ex_agent_controlled ex_pair_host_valid [12]) 1 1
      (some ex_local) (some ex_remote) = none ∧
    priv_mark_pair_nominated_checked ext0
      (ex_agent_controlled { ex_pair_host_valid with priority := 9115005265987371520 } [])
      1 1 (some ex_local) (some ex_remote) =
      some (priv_mark_pair_nominated ext0
        (ex_agent_controlled { ex_pair_host_valid with priority := 9115005265987371520 } [])
        1 1 (some ex_local) (some ex_remote)) ∧
    (∀ q ∈ stream_pairs (priv_mark_pair_nominated ext0
        (ex_agent_controlled { ex_pair_host_valid with priority := 9115005265987371520 } [])
        1 1 (some ex_local) (some ex_remote)) 1, q.ptr = 12 → q.nominated = true) ∧
    selected_pair_of (priv_mark_pair_nominated ext0
        (ex_agent_controlled { ex_pair_host_valid with priority := 9115005265987371520 } [])
        1 1 (some ex_local) (some ex_remote)) 1 1 =
      some ⟨some ex_local, some ex_remote, 9115005265987371520, 1845501695⟩ :=
  ⟨by decide, by decide,
   (((controlled_nomination_marks_pair ext0 (ex_agent_controlled ex_pair_host_valid [12])
      1 1 ex_local ex_remote (by decide)).2 (by decide)
      ((agent_find_stream (ex_agent_controlled ex_pair_host_valid [12]) 1).getD default)
      ex_pair_host_valid ex_pair_host_valid
      (by decide) (by decide) (by decide) (by decide) (by decide) (by decide) (by decide)
      (by decide)).1).trans (if_neg (by decide)),
   ((controlled_nomination_marks_pair ext0
      (ex_agent_controlled { ex_pair_host_valid with priority := 9115005265987371520 } [])
      1 1 ex_local ex_remote (by decide)).2 (by decide)
      ((agent_find_stream (ex_agent_controlled
        { ex_pair_host_valid with priority := 9115005265987371520 } []) 1).getD default)
      { ex_pair_host_valid with priority := 9115005265987371520 }
      { ex_pair_host_valid with priority := 9115005265987371520 }
      (by decide) (by decide) (by decide) (by decide) (by decide) (by decide) (by decide)
      (by decide)).2.1 (Or.inr ⟨Or.inl (by decide), by decide⟩),
   (((controlled_nomination_marks_pair ext0
      (ex_agent_controlled { ex_pair_host_valid with priority := 9115005265987371520 } [])
      1 1 ex_local ex_remote (by decide)).2 (by decide)
      ((agent_find_stream (ex_agent_controlled
        { ex_pair_host_valid with priority := 9115005265987371520 } []) 1).getD default)
      { ex_pair_host_valid with priority := 9115005265987371520 }
      { ex_pair_host_valid with priority := 9115005265987371520 }
      (by decide) (by decide) (by decide) (by decide) (by decide) (by decide) (by decide)
      (by decide)).2.2.1 (by decide) (Or.inl (by decide))).1,
   ((((controlled_nomination_marks_pair ext0
      (ex_agent_controlled { ex_pair_host_valid with priority := 9115005265987371520 } [])
      1 1 ex_local ex_remote (by decide)).2 (by decide)
      ((agent_find_stream (ex_agent_controlled
        { ex_pair_host_valid with priority := 9115005265987371520 } []) 1).getD default)
      { ex_pair_host_valid with priority := 9115005265987371520 }
      { ex_pair_host_valid with priority := 9115005265987371520 }
      (by decide) (by decide) (by decide) (by decide) (by decide) (by decide) (by decide)
      (by decide)).2.2.1 (by decide) (Or.inl (by decide))).2.2).trans (by decide)⟩

/-! ## The loop of `priv_conn_check_tick_stream` and the node it stands on -/

theorem priv_conn_check_tick_stream_loop_checked_eq (E : Ext) (now : Int) (sid : Nat)
    (l : List Nat) :
    ∀ (a : NiceAgent) (r : Bool × NiceAgent),
      priv_conn_check_tick_stream_loop_checked E now sid l a = some r →
      r = priv_conn_check_tick_stream_loop E now sid l a := by
  induction l with
  | nil =>
    intro a r h
    unfold priv_conn_check_tick_stream_loop_checked at h
    unfold priv_conn_check_tick_stream_loop
    exact (Option.some.inj h).symm
  | cons x rest ih =>
    intro a r h
    unfold priv_conn_check_tick_stream_loop_checked at h
    unfold priv_conn_check_tick_stream_loop
    cases hf : (agent_find_stream a sid).bind
        (fun s => s.conncheck_list.find? (fun q => q.ptr == x)) with
    | none =>
      rw [hf] at h
      exact ih _ _ h
    | some p =>
      rw [hf] at h
      simp only at h ⊢
      by_cases htx : p.stun_transactions = []
      · rw [if_pos htx] at h ⊢
        exact ih _ _ h
      · rw [if_neg htx] at h ⊢
        cases hc : agent_find_component a p.stream_id p.component_id with
        | none =>
          rw [hc] at h
          exact ih _ _ h
        | some sc =>
          obtain ⟨s, component⟩ := sc
          rw [hc] at h
          simp only at h ⊢
          cases hre : (priv_conn_check_tick_stream_transactions E now p.stun_transactions p 0 0
              0).retransmitted with
          | some message =>
            rw [hre] at h
            exact (Option.some.inj h).symm
          | none =>
            rw [hre] at h
            simp only at h ⊢
            by_cases hrem : (priv_conn_check_tick_stream_transactions E now p.stun_transactions
                p 0 0 0).remaining = 0
            · rw [if_pos hrem] at h ⊢
              by_cases hl : node_linked (conn_check_update_check_list_state_for_ready
                  (candidate_check_pair_fail (a.updatePair x (fun _ =>
                    (priv_conn_check_tick_stream_transactions E now p.stun_transactions p 0 0
                      0).pair)) x) sid component.id) sid x = true
              · rw [if_pos hl] at h
                exact ih _ _ h
              · rw [if_neg hl] at h
                cases h
            · rw [if_neg hrem] at h ⊢
              exact ih _ _ h

theorem priv_conn_check_tick_stream_checked_eq (E : Ext) (now : Int) (agent : NiceAgent)
    (sid : Nat) (r : Bool × NiceAgent)
    (h : priv_conn_check_tick_stream_checked E now agent sid = some r) :
    r = priv_conn_check_tick_stream E now agent sid := by
  unfold priv_conn_check_tick_stream_checked at h
  unfold priv_conn_check_tick_stream
  cases hs : agent_find_stream agent sid with
  | none => rw [hs] at h; exact (Option.some.inj h).symm
  | some stream =>
    rw [hs] at h
    exact priv_conn_check_tick_stream_loop_checked_eq E now sid _ _ _ h

theorem for_ready_no_nominated (agent : NiceAgent) (sid cid : Nat)
    (h : ∀ q ∈ stream_pairs agent sid, ¬ (q.valid = true ∧ q.nominated = true)) :
    conn_check_update_check_list_state_for_ready agent sid cid = agent := by
  unfold conn_check_update_check_list_state_for_ready
  cases hc : agent_find_component agent sid cid with
  | none => rfl
  | some sc =>
    obtain ⟨stream, component⟩ := sc
    simp only
    have hs := (agent_find_component_some _ _ _ _ _ hc).1
    have hsp : stream_pairs agent sid = stream.conncheck_list := by
      unfold stream_pairs; rw [hs]
    have h0 : stream.conncheck_list.filter (fun p =>
        p.component_id == cid && p.valid && p.nominated) = [] := by
      rw [List.filter_eq_nil_iff]
      intro q hq hcond
      simp only [Bool.and_eq_true, beq_iff_eq] at hcond
      exact h q (hsp ▸ hq) ⟨hcond.1.2, hcond.2⟩
    rw [h0]
    simp

theorem priv_conn_check_tick_stream_loop_checked_no_nominated (E : Ext) (now : Int)
    (sid : Nat) (ptrs : List Nat) :
    ∀ a : NiceAgent,
      (∀ q ∈ stream_pairs a sid, ¬ (q.valid = true ∧ q.nominated = true)) →
      priv_conn_check_tick_stream_loop_checked E now sid ptrs a =
        some (priv_conn_check_tick_stream_loop E now sid ptrs a) ∧
      (stream_pairs (priv_conn_check_tick_stream_loop E now sid ptrs a).2 sid).map
        (fun q => q.ptr) = (stream_pairs a sid).map (fun q => q.ptr) := by
  induction ptrs with
  | nil => intro a _; exact ⟨rfl, rfl⟩
  | cons x rest ih =>
    intro a hI
    unfold priv_conn_check_tick_stream_loop_checked priv_conn_check_tick_stream_loop
    cases hf : (agent_find_stream a sid).bind
        (fun s => s.conncheck_list.find? (fun q => q.ptr == x)) with
    | none => exact ih a hI
    | some p =>
      have hp := tick_stream_found a sid x p hf
      simp only
      by_cases htx : p.stun_transactions = []
      · rw [if_pos htx, if_pos htx]
        exact ih a hI
      · rw [if_neg htx, if_neg htx]
        cases hc : agent_find_component a p.stream_id p.component_id with
        | none => exact ih a hI
        | some sc =>
          obtain ⟨s, component⟩ := sc
          simp only
          have hids := priv_conn_check_tick_stream_transactions_ids E now
            p.stun_transactions p 0 0 0
          have hfl := priv_conn_check_tick_stream_transactions_flags E now
            p.stun_transactions p 0 0 0
          have hptr1 : (stream_pairs (a.updatePair x (fun _ =>
              (priv_conn_check_tick_stream_transactions E now p.stun_transactions p 0 0
                0).pair)) sid).map (fun q => q.ptr) = (stream_pairs a sid).map (fun q => q.ptr) := by
            rw [stream_pairs_updatePair]
            unfold updatePairIn
            rw [List.map_map]
            apply List.map_congr_left
            intro q _
            simp only [Function.comp]
            split_ifs with hq
            · rw [hids.1, hp.2, hq]
            · rfl
          have hI1 : ∀ q ∈ stream_pairs (a.updatePair x (fun _ =>
              (priv_conn_check_tick_stream_transactions E now p.stun_transactions p 0 0
                0).pair)) sid, ¬ (q.valid = true ∧ q.nominated = true) := by
            rw [stream_pairs_updatePair]
            refine forall_updatePairIn _ _ _ _ hI (fun q _ _ => ?_)
            rw [hfl.2.2.1, hfl.2.2.2]
            exact hI p hp.1
          cases hre : (priv_conn_check_tick_stream_transactions E now p.stun_transactions p 0 0
              0).retransmitted with
          | some message =>
            exact ⟨rfl, hptr1⟩
          | none =>
            simp only
            by_cases hrem : (priv_conn_check_tick_stream_transactions E now p.stun_transactions
                p 0 0 0).remaining = 0
            · rw [if_pos hrem, if_pos hrem]
              have hI2 : ∀ q ∈ stream_pairs (candidate_check_pair_fail (a.updatePair x (fun _ =>
                  (priv_conn_check_tick_stream_transactions E now p.stun_transactions p 0 0
                    0).pair)) x) sid, ¬ (q.valid = true ∧ q.nominated = true) := by
                unfold candidate_check_pair_fail
                rw [stream_pairs_updatePair]
                exact forall_updatePairIn _ _ _ _ hI1 (fun q hq _ => hI1 q hq)
              have hptr2 : (stream_pairs (candidate_check_pair_fail (a.updatePair x (fun _ =>
                  (priv_conn_check_tick_stream_transactions E now p.stun_transactions p 0 0
                    0).pair)) x) sid).map (fun q => q.ptr) =
                  (stream_pairs a sid).map (fun q => q.ptr) := by
                rw [← hptr1]
                unfold candidate_check_pair_fail
                rw [stream_pairs_updatePair]
                unfold updatePairIn
                rw [List.map_map]
                apply List.map_congr_left
                intro q _
                simp only [Function.comp]
                split_ifs <;> rfl
              rw [for_ready_no_nominated _ sid component.id hI2]
              have hl : node_linked (candidate_check_pair_fail (a.updatePair x (fun _ =>
                  (priv_conn_check_tick_stream_transactions E now p.stun_transactions p 0 0
                    0).pair)) x) sid x = true := by
                unfold node_linked
                rw [List.any_eq_true]
                have hm : x ∈ (stream_pairs (candidate_check_pair_fail (a.updatePair x (fun _ =>
                  (priv_conn_check_tick_stream_transactions E now p.stun_transactions p 0 0
                    0).pair)) x) sid).map (fun q => q.ptr) := by
                  rw [hptr2]
                  exact List.mem_map.2 ⟨p, hp.1, hp.2⟩
                obtain ⟨q, hq, hqx⟩ := List.mem_map.1 hm
                exact ⟨q, hq, by simp [hqx]⟩
              rw [if_pos hl]
              obtain ⟨h1, h2⟩ := ih _ hI2
              exact ⟨h1, h2.trans hptr2⟩
            · rw [if_neg hrem, if_neg hrem]
              obtain ⟨h1, h2⟩ := ih _ hI1
              exact ⟨h1, h2.trans hptr1⟩

theorem tick_transactions_remaining (E : Ext) (now : Int) (l : List StunTransaction)
    (p : CandidateCheckPair) (pos index remaining : Nat) :
    remaining ≤
      (priv_conn_check_tick_stream_transactions E now l p pos index remaining).remaining ∧
    ((∃ t ∈ l, transaction_kept E now t) →
      (priv_conn_check_tick_stream_transactions E now l p pos index remaining).retransmitted =
        none →
      remaining <
        (priv_conn_check_tick_stream_transactions E now l p pos index remaining).remaining) := by
  induction l generalizing p pos index remaining with
  | nil =>
    refine ⟨Nat.le_refl _, fun h => ?_⟩
    obtain ⟨t, ht, _⟩ := h
    simp at ht
  | cons stun rest ih =>
    unfold priv_conn_check_tick_stream_transactions
    by_cases hdue : now < stun.next_tick
    · rw [if_pos hdue]
      have h1 := ih p (pos + 1) (index + 1) (remaining + 1)
      exact ⟨by omega, fun _ _ => by omega⟩
    · rw [if_neg hdue]
      simp only
      have hrest : ∀ (p1 : CandidateCheckPair) (pos1 : Nat),
          (E.stun_timer_refresh stun.timer now).1 ≠ STUN_USAGE_TIMER_RETURN_SUCCESS →
          remaining ≤ (priv_conn_check_tick_stream_transactions E now rest p1 pos1 (index + 1)
            remaining).remaining ∧
          ((∃ t ∈ stun :: rest, transaction_kept E now t) →
            (priv_conn_check_tick_stream_transactions E now rest p1 pos1 (index + 1)
              remaining).retransmitted = none →
            remaining < (priv_conn_check_tick_stream_transactions E now rest p1 pos1
              (index + 1) remaining).remaining) := by
        intro p1 pos1 hns
        have h1 := ih p1 pos1 (index + 1) remaining
        refine ⟨h1.1, fun hk hre => h1.2 ?_ hre⟩
        obtain ⟨t, ht, hkt⟩ := hk
        rcases List.mem_cons.1 ht with h | h
        · subst h
          rcases hkt with h2 | h2
          · exact absurd h2 hdue
          · exact absurd h2 hns
        · exact ⟨t, h, hkt⟩
      cases hr : (E.stun_timer_refresh stun.timer now).1 with
      | STUN_USAGE_TIMER_RETURN_TIMEOUT =>
        simp only
        exact hrest _ _ (by rw [hr]; decide)
      | STUN_USAGE_TIMER_RETURN_RETRANSMIT =>
        simp only
        split_ifs
        · exact hrest _ _ (by rw [hr]; decide)
        · exact ⟨Nat.le_refl _, fun _ hre => by simp at hre⟩
      | STUN_USAGE_TIMER_RETURN_SUCCESS =>
        simp only
        exact ⟨Nat.le_trans (Nat.le_succ _) (ih _ _ _ _).1,
          fun _ _ => Nat.lt_of_lt_of_le (Nat.lt_succ_self _) (ih _ _ _ _).1⟩

theorem drop_cons_facts {α : Type} (L : List α) (pos : Nat) (x : α) (rest : List α)
    (h : x :: rest = L.drop pos) : pos < L.length ∧ rest = L.drop (pos + 1) := by
  have hlt : pos < L.length := by
    by_contra hc
    rw [List.drop_eq_nil_of_le (by omega)] at h
    cases h
  refine ⟨hlt, ?_⟩
  rw [← List.tail_drop, ← h]
  rfl

theorem drop_eraseIdx_self {α : Type} (L : List α) (pos : Nat) (h : pos ≤ L.length) :
    (L.eraseIdx pos).drop pos = L.drop (pos + 1) := by
  rw [List.eraseIdx_eq_take_drop_succ]
  exact List.drop_left' (by rw [List.length_take]; omega)

theorem tick_transactions_length (E : Ext) (now : Int) (l : List StunTransaction)
    (p : CandidateCheckPair) (pos index remaining : Nat)
    (hl : l = p.stun_transactions.drop pos) (hpos : pos ≤ p.stun_transactions.length) :
    ((priv_conn_check_tick_stream_transactions E now l p pos index remaining).retransmitted =
        none →
      (priv_conn_check_tick_stream_transactions E now l p pos index
        remaining).pair.stun_transactions.length + remaining =
      (priv_conn_check_tick_stream_transactions E now l p pos index remaining).remaining +
        pos) ∧
    ((priv_conn_check_tick_stream_transactions E now l p pos index remaining).retransmitted ≠
        none →
      (priv_conn_check_tick_stream_transactions E now l p pos index
        remaining).pair.stun_transactions ≠ []) := by
  induction l generalizing p pos index remaining with
  | nil =>
    unfold priv_conn_check_tick_stream_transactions
    refine ⟨fun _ => ?_, fun h => absurd rfl h⟩
    have := List.drop_eq_nil_iff.1 hl.symm
    simp only
    omega
  | cons stun rest ih =>
    obtain ⟨hlt, hrest⟩ := drop_cons_facts _ _ _ _ hl
    have hrem : ∀ remaining1,
        ((priv_conn_check_tick_stream_transactions E now rest
          (priv_remove_stun_transaction p pos) pos (index + 1) remaining1).retransmitted =
            none →
          (priv_conn_check_tick_stream_transactions E now rest
            (priv_remove_stun_transaction p pos) pos (index + 1)
            remaining1).pair.stun_transactions.length + remaining1 =
          (priv_conn_check_tick_stream_transactions E now rest
            (priv_remove_stun_transaction p pos) pos (index + 1) remaining1).remaining +
            pos) ∧
        ((priv_conn_check_tick_stream_transactions E now rest
          (priv_remove_stun_transaction p pos) pos (index + 1) remaining1).retransmitted ≠
            none →
          (priv_conn_check_tick_stream_transactions E now rest
            (priv_remove_stun_transaction p pos) pos (index + 1)
            remaining1).pair.stun_transactions ≠ []) := by
      intro remaining1
      apply ih
      · rw [hrest]
        exact (drop_eraseIdx_self _ _ hpos).symm
      · show pos ≤ (p.stun_transactions.eraseIdx pos).length
        rw [List.length_eraseIdx_of_lt hlt]
        omega
    have hset : ∀ (s : StunTransaction) remaining1,
        ((priv_conn_check_tick_stream_transactions E now rest (p.setTransaction pos s)
          (pos + 1) (index + 1) remaining1).retransmitted = none →
          (priv_conn_check_tick_stream_transactions E now rest (p.setTransaction pos s)
            (pos + 1) (index + 1) remaining1).pair.stun_transactions.length + remaining1 =
          (priv_conn_check_tick_stream_transactions E now rest (p.setTransaction pos s)
            (pos + 1) (index + 1) remaining1).remaining + (pos + 1)) ∧
        ((priv_conn_check_tick_stream_transactions E now rest (p.setTransaction pos s)
          (pos + 1) (index + 1) remaining1).retransmitted ≠ none →
          (priv_conn_check_tick_stream_transactions E now rest (p.setTransaction pos s)
            (pos + 1) (index + 1) remaining1).pair.stun_transactions ≠ []) := by
      intro s remaining1
      apply ih
      · rw [hrest]
        show p.stun_transactions.drop (pos + 1) = (p.stun_transactions.set pos s).drop (pos + 1)
        rw [List.drop_set_of_lt _ _ (Nat.lt_succ_self pos)]
      · show pos + 1 ≤ (p.stun_transactions.set pos s).length
        rw [List.length_set]
        omega
    unfold priv_conn_check_tick_stream_transactions
    by_cases hdue : now < stun.next_tick
    · rw [if_pos hdue]
      have h1 := ih p (pos + 1) (index + 1) (remaining + 1) hrest (by omega)
      exact ⟨fun hre => by have := h1.1 hre; omega, h1.2⟩
    · rw [if_neg hdue]
      simp only
      cases hr : (E.stun_timer_refresh stun.timer now).1 with
      | STUN_USAGE_TIMER_RETURN_TIMEOUT =>
        simp only
        exact hrem remaining
      | STUN_USAGE_TIMER_RETURN_RETRANSMIT =>
        simp only
        split_ifs
        · exact hrem remaining
        · refine ⟨fun hre => by simp at hre, fun _ => ?_⟩
          show (p.stun_transactions.set pos _) ≠ []
          intro h0
          have := congrArg List.length h0
          rw [List.length_set] at this
          simp only [List.length_nil] at this
          omega
      | STUN_USAGE_TIMER_RETURN_SUCCESS =>
        simp only
        refine ⟨fun hre => ?_, (hset _ _).2⟩
        have := (hset _ _).1 hre
        omega

theorem tick_transactions_kept (E : Ext) (now : Int) (p : CandidateCheckPair)
    (hk : ∃ t ∈ p.stun_transactions, transaction_kept E now t) :
    (priv_conn_check_tick_stream_transactions E now p.stun_transactions p 0 0
      0).pair.stun_transactions ≠ [] ∧
    ((priv_conn_check_tick_stream_transactions E now p.stun_transactions p 0 0
      0).retransmitted = none →
      (priv_conn_check_tick_stream_transactions E now p.stun_transactions p 0 0
        0).remaining ≠ 0) := by
  have h1 := tick_transactions_remaining E now p.stun_transactions p 0 0 0
  have h2 := tick_transactions_length E now p.stun_transactions p 0 0 0 rfl (Nat.zero_le _)
  refine ⟨?_, fun hre => by have := h1.2 hk hre; omega⟩
  by_cases hre : (priv_conn_check_tick_stream_transactions E now p.stun_transactions p 0 0
      0).retransmitted = none
  · have h3 := h1.2 hk hre
    have h4 := h2.1 hre
    intro h0
    rw [h0] at h4
    simp only [List.length_nil] at h4
    omega
  · exact h2.2 hre

theorem tick_loop_other (E : Ext) (now : Int) (sid x : Nat) (Q : CandidateCheckPair → Prop)
    (hQ : ∀ q q1, pruned_from q q1 → Q q → Q q1) (ptrs : List Nat) (hx : x ∉ ptrs) :
    ∀ a : NiceAgent, (∀ q ∈ stream_pairs a sid, q.ptr = x → Q q) →
      ∀ q ∈ stream_pairs (priv_conn_check_tick_stream_loop E now sid ptrs a).2 sid,
        q.ptr = x → Q q := by
  induction ptrs with
  | nil => intro a h; exact h
  | cons ptr rest ih =>
    have hpx : ptr ≠ x := fun h => hx (h ▸ List.mem_cons_self _ _)
    have ih1 := ih (fun h => hx (List.mem_cons_of_mem _ h))
    intro a h
    unfold priv_conn_check_tick_stream_loop
    split
    · exact ih1 a h
    · rename_i p hfind
      have hp := tick_stream_found a sid ptr p hfind
      split_ifs with htx
      · exact ih1 a h
      · split
        · exact ih1 a h
        · simp only
          have hids := priv_conn_check_tick_stream_transactions_ids E now
            p.stun_transactions p 0 0 0
          have h1 : ∀ q ∈ stream_pairs (a.updatePair ptr (fun _ =>
              (priv_conn_check_tick_stream_transactions E now p.stun_transactions p 0 0
                0).pair)) sid, q.ptr = x → Q q := by
            rw [stream_pairs_updatePair]
            exact forall_updatePairIn_other _ _ _ _ _ hpx
              (fun _ _ => hids.1.trans hp.2) h
          split
          · exact h1
          · split_ifs
            · apply ih1
              intro q1 hq1 hq1x
              obtain ⟨q, hq, hr⟩ := stream_pairs_for_ready _ _ _ _ q1 hq1
              refine hQ q q1 hr ?_
              unfold candidate_check_pair_fail at hq
              rw [stream_pairs_updatePair] at hq
              exact forall_updatePairIn_other Q _ ptr x
                (fun q => priv_free_all_stun_transactions
                  { q with state := NICE_CHECK_FAILED }) hpx
                (fun _ hq0 => hq0) h1 q hq (hr.1 ▸ hq1x)
            · exact ih1 _ h1

theorem tick_loop_kept (E : Ext) (now : Int) (sid x : Nat) (s0 : NiceCheckState)
    (ptrs : List Nat) (hnd : ptrs.Nodup) :
    ∀ a : NiceAgent,
      (∀ q ∈ stream_pairs a sid, q.ptr = x →
        q.state = s0 ∧ ∃ t ∈ q.stun_transactions, transaction_kept E now t) →
      ∀ q ∈ stream_pairs (priv_conn_check_tick_stream_loop E now sid ptrs a).2 sid,
        q.ptr = x → q.state = s0 ∧ q.stun_transactions ≠ [] := by
  have hQ1 : ∀ q q1 : CandidateCheckPair, pruned_from q q1 →
      (q.state = s0 ∧ ∃ t ∈ q.stun_transactions, transaction_kept E now t) →
      (q1.state = s0 ∧ ∃ t ∈ q1.stun_transactions, transaction_kept E now t) := by
    intro q q1 hr hq
    rw [hr.2.1, hr.2.2.1]; exact hq
  have hQ2 : ∀ q q1 : CandidateCheckPair, pruned_from q q1 →
      (q.state = s0 ∧ q.stun_transactions ≠ []) →
      (q1.state = s0 ∧ q1.stun_transactions ≠ []) := by
    intro q q1 hr hq
    rw [hr.2.1, hr.2.2.1]; exact hq
  have hweak : ∀ a : NiceAgent,
      (∀ q ∈ stream_pairs a sid, q.ptr = x →
        q.state = s0 ∧ ∃ t ∈ q.stun_transactions, transaction_kept E now t) →
      ∀ q ∈ stream_pairs a sid, q.ptr = x → q.state = s0 ∧ q.stun_transactions ≠ [] := by
    intro a h q hq hqx
    obtain ⟨h1, t, ht, _⟩ := h q hq hqx
    exact ⟨h1, List.ne_nil_of_mem ht⟩
  induction ptrs with
  | nil => intro a h; exact hweak a h
  | cons ptr rest ih =>
    have hnr := (List.nodup_cons.1 hnd).2
    have hnotin := (List.nodup_cons.1 hnd).1
    intro a h
    unfold priv_conn_check_tick_stream_loop
    split
    · exact ih hnr a h
    · rename_i p hfind
      have hp := tick_stream_found a sid ptr p hfind
      split_ifs with htx
      · exact ih hnr a h
      · split
        · exact ih hnr a h
        · simp only
          have hids := priv_conn_check_tick_stream_transactions_ids E now
            p.stun_transactions p 0 0 0
          by_cases hpx : ptr = x
          · have hJ := h p hp.1 (hp.2.trans hpx)
            have hk := tick_transactions_kept E now p hJ.2
            have h1 : ∀ q ∈ stream_pairs (a.updatePair ptr (fun _ =>
                (priv_conn_check_tick_stream_transactions E now p.stun_transactions p 0 0
                  0).pair)) sid, q.ptr = x → q.state = s0 ∧ q.stun_transactions ≠ [] := by
              rw [stream_pairs_updatePair]
              intro q hq hqx
              unfold updatePairIn at hq
              obtain ⟨q0, _, rfl⟩ := List.mem_map.1 hq
              split_ifs at hqx ⊢ with h0
              · exact ⟨hids.2.1.trans hJ.1, hk.1⟩
              · exact absurd (hqx.trans hpx.symm) h0
            split
            · exact h1
            · rename_i hre
              rw [if_neg (hk.2 hre)]
              exact tick_loop_other E now sid x _ hQ2 rest (hpx ▸ hnotin) _ h1
          · have h1 : ∀ q ∈ stream_pairs (a.updatePair ptr (fun _ =>
                (priv_conn_check_tick_stream_transactions E now p.stun_transactions p 0 0
                  0).pair)) sid, q.ptr = x →
                q.state = s0 ∧ ∃ t ∈ q.stun_transactions, transaction_kept E now t := by
              rw [stream_pairs_updatePair]
              exact forall_updatePairIn_other _ _ _ _ _ hpx
                (fun _ _ => hids.1.trans hp.2) h
            split
            · exact hweak _ h1
            · split_ifs
              · apply ih hnr
                intro q1 hq1 hq1x
                obtain ⟨q, hq, hr⟩ := stream_pairs_for_ready _ _ _ _ q1 hq1
                refine hQ1 q q1 hr ?_
                unfold candidate_check_pair_fail at hq
                rw [stream_pairs_updatePair] at hq
                exact forall_updatePairIn_other
                  (fun q => q.state = s0 ∧ ∃ t ∈ q.stun_transactions, transaction_kept E now t)
                  _ ptr x
                  (fun q => priv_free_all_stun_transactions
                    { q with state := NICE_CHECK_FAILED }) hpx
                  (fun _ hq0 => hq0) h1 q hq (hr.1 ▸ hq1x)
              · exact ih hnr _ h1

theorem flagsOnly_not_valid : FlagsOnly (fun q : CandidateCheckPair => q.valid = false) :=
  fun _ _ _ _ hv _ hq => hv.trans hq

theorem no_valid_priv_conn_check_add_for_candidate_pair_matched (E : Ext) (a : NiceAgent)
    (sid : Nat) (component : NiceComponent) (local_ remote : NiceCandidate)
    (initial_state : NiceCheckState) (new_pair : Nat)
    (h : AllPairs (fun q => q.valid = false) a) :
    AllPairs (fun q => q.valid = false)
      (priv_conn_check_add_for_candidate_pair_matched E a sid component local_ remote
        initial_state new_pair).2 := by
  have k := (Keeps_priv_add_new_check_pair E _ flagsOnly_not_valid (fun q hv _ => hv) a sid
    component local_ remote initial_state new_pair).2 h
  unfold priv_conn_check_add_for_candidate_pair_matched
  simp only
  split
  · exact k
  · split_ifs
    all_goals
      exact (Keeps_agent_signal_component_state_change _ _ _ _ _).2 k

theorem no_valid_priv_schedule_triggered_check (E : Ext) (a : NiceAgent) (sid cid : Nat)
    (local_socket : NiceSocket) (remote_cand : NiceCandidate) (new_pair : Nat)
    (h : AllPairs (fun q => q.valid = false) a) :
    AllPairs (fun q => q.valid = false)
      (priv_schedule_triggered_check E a sid cid local_socket remote_cand new_pair).2 := by
  unfold priv_schedule_triggered_check
  split
  · exact h
  · split
    · exact AllPairs_of_allPairs_eq _ _ _ (schedule_triggered_check_pair_effect _ _ _ _).1 h
    · split
      · simp only
        split
        · exact (Keeps_priv_add_pair_to_triggered_check_queue _ _ _).2
            (no_valid_priv_conn_check_add_for_candidate_pair_matched E a sid _ _ _ _ _ h)
        · exact no_valid_priv_conn_check_add_for_candidate_pair_matched E a sid _ _ _ _ _ h
      · exact h

theorem priv_mark_pair_nominated_pair_no_valid (E : Ext) (a : NiceAgent) (sid cid : Nat)
    (pair : CandidateCheckPair) (h : AllPairs (fun q => q.valid = false) a) :
    AllPairs (fun q => q.valid = false) (priv_mark_pair_nominated_pair E a sid cid pair) ∧
    (stream_pairs (priv_mark_pair_nominated_pair E a sid cid pair) sid).map (fun q => q.ptr) =
      (stream_pairs a sid).map (fun q => q.ptr) := by
  refine ⟨(Keeps_priv_mark_pair_nominated_pair E _ flagsOnly_not_valid a sid cid pair
    (fun q hq _ => hq)).2 h, ?_⟩
  obtain ⟨a2, hr, hp, _, _⟩ := priv_mark_pair_nominated_pair_mid E a sid cid pair
  have hnv : ∀ q ∈ stream_pairs a2 sid, ¬ (q.valid = true ∧ q.nominated = true) := by
    rw [hp]
    have h0 : ∀ q ∈ stream_pairs a sid, ¬ (q.valid = true ∧ q.nominated = true) := by
      intro q hq hc
      have := h q (mem_allPairs_of_stream_pairs a sid q hq)
      rw [this] at hc
      exact absurd hc.1 (by simp)
    refine forall_updatePairIn _ _ _ _ h0 (fun q hq _ hc => ?_)
    rw [(mark_nominated_write_fields a q).2.2.2.2.1] at hc
    have := h q (mem_allPairs_of_stream_pairs a sid q hq)
    rw [this] at hc
    exact absurd hc.1 (by simp)
  have hres : stream_pairs (priv_mark_pair_nominated_pair E a sid cid pair) sid =
      stream_pairs a2 sid := by
    rw [hr]
    split_ifs
    · rw [for_ready_no_nominated a2 sid cid hnv]
    · rfl
  rw [hres, hp]
  unfold updatePairIn
  rw [List.map_map]
  apply List.map_congr_left
  intro q _
  simp only [Function.comp]
  split_ifs
  · exact (mark_nominated_write_fields a q).1
  · rfl

theorem priv_mark_pair_nominated_loop_checked_no_valid (E : Ext) (sid cid : Nat)
    (localcand remotecand : Option NiceCandidate) (ptrs : List Nat) :
    ∀ a : NiceAgent, AllPairs (fun q => q.valid = false) a →
      priv_mark_pair_nominated_loop_checked E sid cid localcand remotecand ptrs a =
        some (priv_mark_pair_nominated_loop E sid cid localcand remotecand ptrs a) := by
  induction ptrs with
  | nil => intro a _; rfl
  | cons x rest ih =>
    intro a h
    unfold priv_mark_pair_nominated_loop_checked priv_mark_pair_nominated_loop
    cases hf : (agent_find_stream a sid).bind
        (fun s => s.conncheck_list.find? (fun q => q.ptr == x)) with
    | none => exact ih a h
    | some pair0 =>
      have hp := tick_stream_found a sid x pair0 hf
      simp only
      split_ifs with hm hs
      · cases hd : pair0.discovered_pair with
        | none =>
          simp only
          have k := priv_mark_pair_nominated_pair_no_valid E a sid cid pair0 h
          have hl : node_linked (priv_mark_pair_nominated_pair E a sid cid pair0) sid x =
              true := by
            unfold node_linked
            rw [List.any_eq_true]
            have hmem : x ∈ (stream_pairs (priv_mark_pair_nominated_pair E a sid cid pair0)
                sid).map (fun q => q.ptr) := by
              rw [k.2]
              exact List.mem_map.2 ⟨pair0, hp.1, hp.2⟩
            obtain ⟨q, hq, hqx⟩ := List.mem_map.1 hmem
            exact ⟨q, hq, by simp [hqx]⟩
          rw [if_pos hl]
          exact ih _ k.1
        | some d =>
          simp only
          cases ht : a.findPair d with
          | none => exact ih a h
          | some pair =>
            simp only
            have k := priv_mark_pair_nominated_pair_no_valid E a sid cid pair h
            have hl : node_linked (priv_mark_pair_nominated_pair E a sid cid pair) sid x =
                true := by
              unfold node_linked
              rw [List.any_eq_true]
              have hmem : x ∈ (stream_pairs (priv_mark_pair_nominated_pair E a sid cid pair)
                  sid).map (fun q => q.ptr) := by
                rw [k.2]
                exact List.mem_map.2 ⟨pair0, hp.1, hp.2⟩
              obtain ⟨q, hq, hqx⟩ := List.mem_map.1 hmem
              exact ⟨q, hq, by simp [hqx]⟩
            rw [if_pos hl]
            exact ih _ k.1
      · simp only
        have k := priv_mark_pair_nominated_pair_no_valid E a sid cid pair0 h
        have hl : node_linked (priv_mark_pair_nominated_pair E a sid cid pair0) sid x =
            true := by
          unfold node_linked
          rw [List.any_eq_true]
          have hmem : x ∈ (stream_pairs (priv_mark_pair_nominated_pair E a sid cid pair0)
              sid).map (fun q => q.ptr) := by
            rw [k.2]
            exact List.mem_map.2 ⟨pair0, hp.1, hp.2⟩
          obtain ⟨q, hq, hqx⟩ := List.mem_map.1 hmem
          exact ⟨q, hq, by simp [hqx]⟩
        rw [if_pos hl]
        exact ih _ k.1
      · exact ih a h

theorem priv_mark_pair_nominated_checked_no_valid (E : Ext) (a : NiceAgent) (sid cid : Nat)
    (localcand remotecand : Option NiceCandidate)
    (h : AllPairs (fun q => q.valid = false) a) :
    priv_mark_pair_nominated_checked E a sid cid localcand remotecand =
      some (priv_mark_pair_nominated E a sid cid localcand remotecand) ∧
    AllPairs (fun q => q.valid = false)
      (priv_mark_pair_nominated E a sid cid localcand remotecand) := by
  refine ⟨?_, (Keeps_priv_mark_pair_nominated E _ flagsOnly_not_valid a sid cid localcand
    remotecand (fun q hq _ => hq)).2 h⟩
  unfold priv_mark_pair_nominated_checked priv_mark_pair_nominated
  split_ifs
  · rfl
  · cases hs : agent_find_stream a sid with
    | none => rfl
    | some s =>
      exact priv_mark_pair_nominated_loop_checked_no_valid E sid cid localcand remotecand _ a h

theorem agent_view_priv_mark_pair_nominated_checked (E : Ext) (a : NiceAgent) (sid cid : Nat)
    (localcand remotecand : Option NiceCandidate) (a1 : NiceAgent)
    (h : priv_mark_pair_nominated_checked E a sid cid localcand remotecand = some a1) :
    agent_view a1 = agent_view a := by
  rw [priv_mark_pair_nominated_checked_eq E a sid cid localcand remotecand a1 h]
  exact agent_view_priv_mark_pair_nominated E a sid cid localcand remotecand

theorem found_view_replay_incoming_check (E : Ext) (sid cid : Nat) (a : NiceAgent)
    (icheck : IncomingCheck) (l r : NiceCandidate) (n1 n2 : Nat) (a1 : NiceAgent)
    (h : replay_incoming_check E sid cid a icheck l r n1 n2 = some a1) :
    found_view a1 sid =
      (found_view a sid).map (fun sv =>
        (sv.1, sv.2.1, view_queue_update cid (fun q => q.erase icheck) sv.2.2)) := by
  unfold replay_incoming_check at h
  simp only at h
  obtain ⟨a3, h3, rfl⟩ := Option.map_eq_some'.1 h
  rw [found_view_updateComponent_queue _ sid cid (fun q => q.erase icheck)]
  congr 1
  apply found_view_congr
  have h1 : agent_view (match agent_find_component a sid cid with
      | none => a
      | some (stream, component) =>
        if l.transport = NICE_CANDIDATE_TRANSPORT_TCP_PASSIVE ∧
            stream.conncheck_list.find? (fun p => p.local_.ptr == l.ptr &&
              p.remote.ptr == r.ptr) = none then
          (priv_conn_check_add_for_candidate_pair_matched E a sid component l r
            NICE_CHECK_WAITING n1).2
        else a) = agent_view a := by
    split
    · rfl
    · split_ifs
      · exact agent_view_priv_conn_check_add_for_candidate_pair_matched _ _ _ _ _ _ _ _
      · rfl
  split_ifs at h3
  · rw [agent_view_priv_mark_pair_nominated_checked _ _ _ _ _ _ _ h3,
      agent_view_priv_schedule_triggered_check, h1]
  · rw [← Option.some.inj h3, agent_view_priv_schedule_triggered_check, h1]

theorem replay_incoming_check_no_valid (E : Ext) (sid cid : Nat) (a : NiceAgent)
    (icheck : IncomingCheck) (l r : NiceCandidate) (n1 n2 : Nat)
    (h : AllPairs (fun q => q.valid = false) a) :
    ∃ a1, replay_incoming_check E sid cid a icheck l r n1 n2 = some a1 ∧
      AllPairs (fun q => q.valid = false) a1 := by
  have h1 : AllPairs (fun q => q.valid = false) (match agent_find_component a sid cid with
      | none => a
      | some (stream, component) =>
        if l.transport = NICE_CANDIDATE_TRANSPORT_TCP_PASSIVE ∧
            stream.conncheck_list.find? (fun p => p.local_.ptr == l.ptr &&
              p.remote.ptr == r.ptr) = none then
          (priv_conn_check_add_for_candidate_pair_matched E a sid component l r
            NICE_CHECK_WAITING n1).2
        else a) := by
    split
    · exact h
    · split_ifs
      · exact no_valid_priv_conn_check_add_for_candidate_pair_matched E a sid _ _ _ _ _ h
      · exact h
  have h2 := no_valid_priv_schedule_triggered_check E _ sid cid icheck.local_socket r n2 h1
  unfold replay_incoming_check
  simp only
  split_ifs
  · have h3 := priv_mark_pair_nominated_checked_no_valid E _ sid cid (some l) (some r) h2
    rw [h3.1]
    exact ⟨_, rfl, AllPairs_of_allPairs_eq _ _ _ (allPairs_updateComponent _ _ _ _) h3.2⟩
  · exact ⟨_, rfl, AllPairs_of_allPairs_eq _ _ _ (allPairs_updateComponent _ _ _ _) h2⟩

theorem replay_stored_checks_append (E : Ext) (sid : Nat) (s1 s2 : List ReplayStep) :
    ∀ (a a1 a2 : NiceAgent), replay_stored_checks E sid s1 a = some a1 →
      replay_stored_checks E sid s2 a1 = some a2 →
      replay_stored_checks E sid (s1 ++ s2) a = some a2 := by
  induction s1 with
  | nil =>
    intro a a1 a2 h1 h2
    unfold replay_stored_checks at h1
    rw [Option.some.inj h1]
    exact h2
  | cons r rest ih =>
    intro a a1 a2 h1 h2
    rw [List.cons_append]
    unfold replay_stored_checks at h1 ⊢
    cases hr : replay_incoming_check E sid r.component_id a r.icheck r.lcand r.rcand r.new1
        r.new2 with
    | none => rw [hr] at h1; exact absurd h1 (by simp)
    | some b =>
      rw [hr] at h1
      exact ih b a1 a2 h1 h2

theorem found_view_replay_step (E : Ext) (sid cid i0 j : Nat) (a : NiceAgent) (u : String)
    (cvs : List (Nat × List NiceCandidate × List NiceCandidate × List IncomingCheck))
    (L R : List NiceCandidate) (icheck : IncomingCheck) (rest : List IncomingCheck)
    (l r : NiceCandidate) (n1 n2 : Nat) (a1 : NiceAgent)
    (h : replay_incoming_check E sid cid a icheck l r n1 n2 = some a1)
    (hv : found_view a sid = some (i0, u, cvs))
    (hc : cvs.find? (fun cv => cv.1 == cid) = some (j, L, R, icheck :: rest)) :
    found_view a1 sid =
      some (i0, u, view_queue_update cid (fun q => q.erase icheck) cvs) ∧
    (view_queue_update cid (fun q => q.erase icheck) cvs).find? (fun cv => cv.1 == cid) =
      some (j, L, R, rest) := by
  constructor
  · rw [found_view_replay_incoming_check E sid cid a icheck l r n1 n2 a1 h, hv]
    rfl
  · rw [view_queue_update_find, hc]
    simp only [Option.map_some', List.erase_cons_head]

theorem conn_check_remote_candidates_set_loop_some (E : Ext) (sid cid : Nat)
    (np : Nat → Nat) (c0 : NiceComponent) (q : List IncomingCheck) :
    ∀ (k : Nat) (lc rc : Option NiceCandidate) (a : NiceAgent) (i0 j : Nat) (u : String)
      (cvs : List (Nat × List NiceCandidate × List NiceCandidate × List IncomingCheck)),
      found_view a sid = some (i0, u, cvs) →
      cvs.find? (fun cv => cv.1 == cid) =
        some (j, c0.local_candidates, c0.remote_candidates, q) →
      ∀ a1, conn_check_remote_candidates_set_loop E sid cid np q k lc rc a = some a1 →
        ∃ steps : List ReplayStep,
          steps.map (fun r => (r.component_id, r.icheck)) = q.map (fun i => (cid, i)) ∧
          (∀ r ∈ steps, r.component_id = cid ∧ step_candidates c0 r) ∧
          replay_stored_checks E sid steps a = some a1 ∧
          found_view a1 sid = some (i0, u,
            view_queue_update cid (fun l => q.foldl (fun l i => l.erase i) l) cvs) := by
  induction q with
  | nil =>
    intro k lc rc a i0 j u cvs hv _ a1 h
    unfold conn_check_remote_candidates_set_loop at h
    simp only [Option.some.injEq] at h
    subst h
    refine ⟨[], rfl, fun r hr => absurd hr (List.not_mem_nil _), rfl, ?_⟩
    simp only [List.foldl_nil]
    rw [view_queue_update_id]
    exact hv
  | cons icheck rest ih =>
    intro k lc rc a i0 j u cvs hv hc a1 h
    obtain ⟨s, c, hfc, _, hL, hR, _⟩ := found_component a sid cid i0 j u cvs _ _ _ hv hc
    unfold conn_check_remote_candidates_set_loop at h
    rw [hfc] at h
    simp only at h
    split at h
    · exact absurd h (by simp)
    · rename_i l hl
      split at h
      · exact absurd h (by simp)
      · rename_i r hr
        split at h
        · exact absurd h (by simp)
        · rename_i b hb
          obtain ⟨hv1, hc1⟩ := found_view_replay_step E sid cid i0 j a u cvs _ _ icheck rest
            l r (np (2 * k)) (np (2 * k + 1)) b hb hv hc
          obtain ⟨steps, h1, h2, h3, h4⟩ := ih _ _ _ _ i0 j u _ hv1 hc1 a1 h
          refine ⟨⟨cid, icheck, l, r, np (2 * k), np (2 * k + 1)⟩ :: steps, ?_, ?_, ?_, ?_⟩
          · simp only [List.map_cons, h1]
          · intro x hx
            rcases List.mem_cons.1 hx with hx | hx
            · subst hx
              refine ⟨rfl, ?_, ?_⟩
              · intro l1 hl1
                show l = l1
                rw [← icheck_local_candidate_congr c c0 icheck hL] at hl1
                rw [hl1] at hl
                exact Option.some.inj hl.symm
              · intro r1 hr1
                show r = r1
                rw [← icheck_remote_candidate_congr c c0 l icheck hR] at hr1
                rw [hr1] at hr
                exact Option.some.inj hr.symm
            · exact h2 x hx
          · unfold replay_stored_checks
            simp only
            rw [hb]
            exact h3
          · rw [h4, view_queue_update_comp]
            rfl

theorem conn_check_remote_candidates_set_loop_isSome (E : Ext) (sid cid : Nat)
    (np : Nat → Nat) (c0 : NiceComponent) (q : List IncomingCheck) :
    ∀ (k : Nat) (lc rc : Option NiceCandidate) (a : NiceAgent) (i0 j : Nat) (u : String)
      (cvs : List (Nat × List NiceCandidate × List NiceCandidate × List IncomingCheck)),
      found_view a sid = some (i0, u, cvs) →
      cvs.find? (fun cv => cv.1 == cid) =
        some (j, c0.local_candidates, c0.remote_candidates, q) →
      (∀ i ∈ q, icheck_candidates_found c0 i) →
      AllPairs (fun q => q.valid = false) a →
      ∃ a1, conn_check_remote_candidates_set_loop E sid cid np q k lc rc a = some a1 ∧
        AllPairs (fun q => q.valid = false) a1 := by
  induction q with
  | nil =>
    intro k lc rc a i0 j u cvs _ _ _ hJ
    exact ⟨a, rfl, hJ⟩
  | cons icheck rest ih =>
    intro k lc rc a i0 j u cvs hv hc hf hJ
    obtain ⟨s, c, hfc, _, hL, hR, _⟩ := found_component a sid cid i0 j u cvs _ _ _ hv hc
    obtain ⟨l, hl, hr⟩ := hf icheck (List.mem_cons_self _ _)
    obtain ⟨r, hr⟩ := Option.isSome_iff_exists.1 hr
    rw [← icheck_local_candidate_congr c c0 icheck hL] at hl
    rw [← icheck_remote_candidate_congr c c0 l icheck hR] at hr
    obtain ⟨b, hb, hJb⟩ := replay_incoming_check_no_valid E sid cid a icheck l r (np (2 * k))
      (np (2 * k + 1)) hJ
    unfold conn_check_remote_candidates_set_loop
    rw [hfc]
    simp only [hl, hr, hb]
    obtain ⟨hv1, hc1⟩ := found_view_replay_step E sid cid i0 j a u cvs _ _ icheck rest l r
      (np (2 * k)) (np (2 * k + 1)) b hb hv hc
    exact ih _ _ _ _ i0 j u _ hv1 hc1 (fun i hi => hf i (List.mem_cons_of_mem _ hi)) hJb

theorem conn_check_remote_candidates_set_some (E : Ext) (sid cid : Nat) (np : Nat → Nat)
    (c0 : NiceComponent) (a : NiceAgent) (i0 j : Nat) (u : String)
    (cvs : List (Nat × List NiceCandidate × List NiceCandidate × List IncomingCheck))
    (hv : found_view a sid = some (i0, u, cvs))
    (hc : cvs.find? (fun cv => cv.1 == cid) =
      some (j, c0.local_candidates, c0.remote_candidates, c0.incoming_checks)) (hu : u ≠ "")
    (a1 : NiceAgent) (h : conn_check_remote_candidates_set E a sid cid np = some a1) :
    ∃ steps : List ReplayStep,
      steps.map (fun r => (r.component_id, r.icheck)) =
        c0.incoming_checks.map (fun i => (cid, i)) ∧
      (∀ r ∈ steps, r.component_id = cid ∧ step_candidates c0 r) ∧
      replay_stored_checks E sid steps a = some a1 ∧
      found_view a1 sid = some (i0, u,
        view_queue_update cid (fun l => c0.incoming_checks.foldl (fun l i => l.erase i) l)
          cvs) := by
  obtain ⟨s, c, hfc, hsu, _, _, hq⟩ := found_component a sid cid i0 j u cvs _ _ _ hv hc
  unfold conn_check_remote_candidates_set at h
  rw [hfc] at h
  simp only at h
  rw [if_neg (by rw [hsu]; exact hu), hq] at h
  exact conn_check_remote_candidates_set_loop_some E sid cid np c0 _ 0 none none a i0 j u cvs
    hv hc a1 h

theorem conn_check_remote_candidates_set_isSome (E : Ext) (sid cid : Nat) (np : Nat → Nat)
    (c0 : NiceComponent) (a : NiceAgent) (i0 j : Nat) (u : String)
    (cvs : List (Nat × List NiceCandidate × List NiceCandidate × List IncomingCheck))
    (hv : found_view a sid = some (i0, u, cvs))
    (hc : cvs.find? (fun cv => cv.1 == cid) =
      some (j, c0.local_candidates, c0.remote_candidates, c0.incoming_checks))
    (hf : ∀ i ∈ c0.incoming_checks, icheck_candidates_found c0 i)
    (hJ : AllPairs (fun q => q.valid = false) a) :
    ∃ a1, conn_check_remote_candidates_set E a sid cid np = some a1 ∧
      AllPairs (fun q => q.valid = false) a1 := by
  obtain ⟨s, c, hfc, _, _, _, hq⟩ := found_component a sid cid i0 j u cvs _ _ _ hv hc
  unfold conn_check_remote_candidates_set
  rw [hfc]
  simp only
  split_ifs
  · exact ⟨a, rfl, hJ⟩
  · rw [hq]
    exact conn_check_remote_candidates_set_loop_isSome E sid cid np c0 _ 0 none none a i0 j u
      cvs hv hc hf hJ

theorem conn_check_remote_credentials_set_loop_some (E : Ext) (sid : Nat)
    (np : Nat → Nat → Nat) (i0 : Nat) (u : String) (hu : u ≠ "")
    (post : List NiceComponent) :
    ∀ (pre : List (Nat × List NiceCandidate × List NiceCandidate × List IncomingCheck))
      (j0 : Nat) (a : NiceAgent),
      found_view a sid = some (i0, u, pre ++ post.map component_view) →
      ((pre ++ post.map component_view).map (fun x => x.1)).Nodup →
      ((∀ c ∈ post, ∀ i ∈ c.incoming_checks, icheck_candidates_found c i) →
        AllPairs (fun q => q.valid = false) a →
        (conn_check_remote_credentials_set_loop E sid np (post.map (fun c => c.id)) j0
          a).isSome = true) ∧
      ∀ a1, conn_check_remote_credentials_set_loop E sid np (post.map (fun c => c.id)) j0 a =
          some a1 →
        ∃ steps : List ReplayStep,
          steps.map (fun r => (r.component_id, r.icheck)) =
            post.flatMap (fun c => c.incoming_checks.map (fun i => (c.id, i))) ∧
          (∀ r ∈ steps, ∃ c ∈ post, c.id = r.component_id ∧ step_candidates c r) ∧
          replay_stored_checks E sid steps a = some a1 ∧
          found_view a1 sid = some (i0, u, pre ++ post.map (fun c =>
            (c.id, c.local_candidates, c.remote_candidates, []))) := by
  induction post with
  | nil =>
    intro pre j0 a hv _
    refine ⟨fun _ _ => rfl, ?_⟩
    intro a1 h
    unfold conn_check_remote_credentials_set_loop at h
    simp only [List.map_nil, Option.some.injEq] at h
    subst h
    exact ⟨[], rfl, fun r hr => absurd hr (List.not_mem_nil _), rfl, hv⟩
  | cons c post1 ih =>
    intro pre j0 a hv hnd
    rw [List.map_cons] at hv hnd
    have hfind := find?_of_nodup_ids pre (post1.map component_view) (component_view c) hnd
    have hupd := view_queue_update_of_nodup_ids
      (fun l => c.incoming_checks.foldl (fun l i => l.erase i) l)
      pre (post1.map component_view) (component_view c) hnd
    have hcid : (component_view c).1 = c.id := rfl
    rw [hcid] at hfind hupd
    have hstep : ∀ a2, conn_check_remote_candidates_set E a sid c.id (np j0) = some a2 →
        ∃ steps : List ReplayStep,
          steps.map (fun r => (r.component_id, r.icheck)) =
            c.incoming_checks.map (fun i => (c.id, i)) ∧
          (∀ r ∈ steps, r.component_id = c.id ∧ step_candidates c r) ∧
          replay_stored_checks E sid steps a = some a2 ∧
          found_view a2 sid = some (i0, u,
            (pre ++ [(c.id, c.local_candidates, c.remote_candidates, [])]) ++
              post1.map component_view) := by
      intro a2 h2
      obtain ⟨steps, h3, h3b, h4, h5⟩ := conn_check_remote_candidates_set_some E sid c.id
        (np j0) c a i0 c.id u _ hv hfind hu a2 h2
      refine ⟨steps, h3, h3b, h4, ?_⟩
      rw [h5, hupd]
      simp only [component_view, foldl_erase_self, List.append_assoc, List.singleton_append]
    have hnd2 : (((pre ++ [(c.id, c.local_candidates, c.remote_candidates,
        ([] : List IncomingCheck))]) ++
        post1.map component_view).map (fun x => x.1)).Nodup := by
      simpa [component_view] using hnd
    constructor
    · intro hf hJ
      obtain ⟨a2, h2, hJ2⟩ := conn_check_remote_candidates_set_isSome E sid c.id (np j0) c a
        i0 c.id u _ hv hfind (hf c (List.mem_cons_self _ _)) hJ
      obtain ⟨_, _, _, _, hv2⟩ := hstep a2 h2
      rw [List.map_cons]
      unfold conn_check_remote_credentials_set_loop
      rw [h2]
      exact (ih _ (j0 + 1) a2 hv2 hnd2).1 (fun c1 hc1 => hf c1 (List.mem_cons_of_mem _ hc1))
        hJ2
    · intro a1 h
      rw [List.map_cons] at h
      unfold conn_check_remote_credentials_set_loop at h
      cases h2 : conn_check_remote_candidates_set E a sid c.id (np j0) with
      | none => rw [h2] at h; exact absurd h (by simp)
      | some a2 =>
        rw [h2] at h
        simp only at h
        obtain ⟨steps1, h3, h3b, h4, hv2⟩ := hstep a2 h2
        obtain ⟨steps2, h5, h5b, h6, h7⟩ := (ih _ (j0 + 1) a2 hv2 hnd2).2 a1 h
        refine ⟨steps1 ++ steps2, ?_, ?_, ?_, ?_⟩
        · rw [List.map_append, h3, h5, List.flatMap_cons]
        · intro r hr
          rcases List.mem_append.1 hr with hr | hr
          · exact ⟨c, List.mem_cons_self _ _, (h3b r hr).1.symm, (h3b r hr).2⟩
          · obtain ⟨c1, hc1, hid, hsc⟩ := h5b r hr
            exact ⟨c1, List.mem_cons_of_mem _ hc1, hid, hsc⟩
        · exact replay_stored_checks_append E sid steps1 steps2 a a2 a1 h4 h6
        · rw [h7]
          simp only [List.map_cons, List.append_assoc, List.singleton_append]

theorem replay_incoming_check_eq (E : Ext) (sid cid : Nat) (a : NiceAgent)
    (icheck : IncomingCheck) (l r : NiceCandidate) (n1 n2 : Nat)
    (hl : l.transport ≠ NICE_CANDIDATE_TRANSPORT_TCP_PASSIVE) :
    replay_incoming_check E sid cid a icheck l r n1 n2 =
      (if icheck.use_candidate = true then
        priv_mark_pair_nominated_checked E
          (priv_schedule_triggered_check E a sid cid icheck.local_socket r n2).2 sid cid
          (some l) (some r)
      else some (priv_schedule_triggered_check E a sid cid icheck.local_socket r n2).2).map
        (fun b => b.updateComponent sid cid
          (fun c => { c with incoming_checks := c.incoming_checks.erase icheck })) := by
  unfold replay_incoming_check
  have h1 : (match agent_find_component a sid cid with
      | none => a
      | some (stream, component) =>
        if l.transport = NICE_CANDIDATE_TRANSPORT_TCP_PASSIVE ∧
            stream.conncheck_list.find? (fun p => p.local_.ptr == l.ptr &&
              p.remote.ptr == r.ptr) = none then
          (priv_conn_check_add_for_candidate_pair_matched E a sid component l r
            NICE_CHECK_WAITING n1).2
        else a) = a := by
    split
    · rfl
    · rw [if_neg (fun h => hl h.1)]
  simp only [h1]

end Libnice
